import Mathlib

/-!
PowerVR Services: OS-memory PMR backend and rgxta3d server bridge.

Shallow embedding of

* `graphics/rgx/services/server/env/linux/physmem_osmem_linux.c`
  (configuration `CONFIG_X86` with `CONFIG_GENERIC_ALLOCATOR`), and
* `graphics/rgx/generated/rgxta3d_bridge/server_rgxta3d_bridge.c`.

Conventions.

* C unsigned integers are natural numbers, reduced with `u32` / `u64` where the
  C arithmetic can wrap.  A pointer is a natural number and `0` is `NULL`.
* For `physmem_osmem_linux.c` the kernel is an environment: what a call into it
  returns is read from an oracle (`OSEnv`), indexed by the number of earlier
  calls of the same function, and what the call does is recorded in an explicit
  state (`OSState`).
* For the bridge the other Services modules are a record of functions over a
  state of their own (`Services`); a bridge function threads that state and
  lists the calls it makes (`Conn`).  The claims on the bridge are proved for
  every such record; `specServices` is one instance, written from the
  specification, on which the state of the handle registry and of the resource
  manager can be read.
* A loop driven by a 32-bit counter is a recursion on a fuel argument that
  starts at `2 ^ 32`, the number of values of the counter; `none` stands for a
  loop that is still running when the fuel is gone.
* `PVR_ASSERT`, `PVR_DPF`, `WARN_ON` and `PDUMPCOMMENT` only report; they do not
  change the control flow of a release build and are not state changes here.
-/

namespace PVR

/-! ## Machine integers -/

/-- Reduction of a natural number to an `IMG_UINT32`. -/
def u32 (x : Nat) : Nat := x % 2 ^ 32

/-- Reduction of a natural number to an `IMG_UINT64`. -/
def u64 (x : Nat) : Nat := x % 2 ^ 64

/-- The loop bound of a loop driven by a 32-bit counter. -/
def loopFuel : Nat := 2 ^ 32

/-! ## Result codes -/

/-- The `PVRSRV_ERROR` values that the modelled code names; `other` is any
further value of the enumeration (coming from a callee). -/
inductive PVRSRV_ERROR where
  | PVRSRV_OK
  | PVRSRV_ERROR_OUT_OF_MEMORY
  | PVRSRV_ERROR_INVALID_PARAMS
  | PVRSRV_ERROR_RETRY
  | PVRSRV_ERROR_UNABLE_TO_REGISTER_RESOURCE
  | PVRSRV_ERROR_FAILED_TO_MAP_KERNELVIRTUAL
  | PVRSRV_ERROR_UNABLE_TO_SET_CACHE_MODE
  | PVRSRV_ERROR_PMR_NOT_PAGE_MULTIPLE
  | PVRSRV_ERROR_PMR_FAILED_TO_ALLOC_PAGES
  | PVRSRV_ERROR_PMR_INCOMPATIBLE_CONTIGUITY
  | other (code : Nat)
  deriving DecidableEq, Repr

/-! ## Constants of headers that are not part of the sources -/

/-- Values of the kernel and Services header constants used by
`physmem_osmem_linux.c`.  The headers (`asm/page.h`, `linux/sched.h`,
`pvrsrv_memallocflags.h`, `devicemem_server_utils.h`) are not among the
sources, so the values are parameters of the embedding. -/
structure Platform where
  /-- The constant `PAGE_SHIFT`; `PAGE_SIZE` is `1 << PAGE_SHIFT`. -/
  PAGE_SHIFT : Nat
  /-- The task flag `PF_DUMPCORE`. -/
  PF_DUMPCORE : Nat
  PVRSRV_MEMALLOCFLAG_CPU_UNCACHED : Nat
  PVRSRV_MEMALLOCFLAG_CPU_WRITE_COMBINE : Nat
  PVRSRV_MEMALLOCFLAG_CPU_CACHED : Nat
  PVRSRV_MEMALLOCFLAG_ZERO_ON_ALLOC : Nat
  PVRSRV_MEMALLOCFLAG_POISON_ON_ALLOC : Nat
  PVRSRV_MEMALLOCFLAG_POISON_ON_FREE : Nat
  PVRSRV_MEMALLOCFLAG_NO_OSPAGES_ON_ALLOC : Nat
  PVRSRV_MEMALLOCFLAG_CPU_LOCAL : Nat
  PVRSRV_MEMALLOCFLAGS_PMRFLAGSMASK : Nat
  /-- The function `DevmemCPUCacheMode` of `devicemem_server_utils.h`. -/
  DevmemCPUCacheMode : Nat → Nat

/-- The constant `PAGE_SIZE`. -/
def Platform.PAGE_SIZE (K : Platform) : Nat := 1 <<< K.PAGE_SHIFT

/-- Bytes of `_AllocPoison`, the string `^PoIsOn` followed by its NUL. -/
def _AllocPoison : List Nat := [94, 80, 111, 73, 115, 79, 110, 0]

/-- The constant `_AllocPoisonSize`. -/
def _AllocPoisonSize : Nat := 7

/-- Bytes of `_FreePoison`, the string `<DEAD-BEEF>` followed by its NUL. -/
def _FreePoison : List Nat := [60, 68, 69, 65, 68, 45, 66, 69, 69, 70, 62, 0]

/-- The constant `_FreePoisonSize`. -/
def _FreePoisonSize : Nat := 11

/-! ## The kernel as an environment -/

/-- One call into the kernel made by `physmem_osmem_linux.c`, with its
arguments and, where the code reads it, its result. -/
inductive OSEvent where
  | alloc_pages (zero : Bool) (order : Nat) (page : Nat)
  | free_pages (page : Nat) (order : Nat)
  | set_memory_uc (addr : Nat) (ret : Int)
  | set_memory_wc (addr : Nat) (ret : Int)
  | set_memory_wb (addr : Nat)
  | page_write (page : Nat) (bytes : List Nat)
  | kmalloc (slots : Nat) (ret : Nat)
  | kfree (addr : Nat)
  | gen_pool_create (ret : Nat)
  | gen_pool_destroy
  | get_vm_area (size : Nat) (ret : Nat)
  | gen_pool_add (addr : Nat) (size : Nat) (ret : Int)
  | vfree (addr : Nat)
  | gen_pool_alloc (size : Nat) (ret : Nat)
  | gen_pool_free (addr : Nat) (size : Nat)
  | map_vm_area (addr : Nat) (size : Nat) (cache : Nat) (ret : Int)
  | vm_map_ram (count : Nat) (cache : Nat) (ret : Nat)
  | vm_unmap_ram (addr : Nat) (count : Nat)
  | flush_cache_vunmap (start : Nat) (stop : Nat)
  | unmap_kernel_range_noflush (start : Nat) (size : Nat)
  | flush_tlb_single (addr : Nat)
  | PMRCreatePMR (priv : Nat) (ret : PVRSRV_ERROR)
  | PDumpPMRFree (h : Nat)
  deriving DecidableEq, Repr

/-- What one `alloc_pages` call gives: the page (`0` for `NULL`) and the value
that `set_memory_uc` / `set_memory_wc` returns if the code goes on to call one
of them on that page. -/
structure AllocOutcome where
  page : Nat
  setMemRet : Int
  deriving DecidableEq, Repr

/-- What the kernel answers.  Every oracle but `page_address` is indexed by the
number of earlier calls of the function. -/
structure OSEnv where
  alloc_pages : Nat → AllocOutcome
  /-- Kernel virtual address of a page (`0`: the page has none). -/
  page_address : Nat → Nat
  /-- Address returned by `kmalloc` (`0` for `NULL`). -/
  kmalloc : Nat → Nat
  /-- Content found in a scalar field of the block returned by the `n`-th
  `kmalloc` that the code does not initialise. -/
  kmalloc_field : Nat → Nat
  /-- Content found in slot `i` of the table returned by the `n`-th `kmalloc`
  (the memory is not initialised by `kmalloc`). -/
  kmalloc_content : Nat → Nat → Nat
  /-- Pool returned by `gen_pool_create` (`0` for `NULL`). -/
  gen_pool_create : Nat → Nat
  /-- Address of the area returned by `__get_vm_area`; `none` when the call
  returns `NULL`. -/
  get_vm_area : Nat → Option Nat
  gen_pool_add : Nat → Int
  gen_pool_alloc : Nat → Nat
  map_vm_area : Nat → Int
  vm_map_ram : Nat → Nat
  /-- Physical address of a page, `page_to_phys`. -/
  page_to_phys : Nat → Nat
  /-- Result, new PMR and PDump handle of `PMRCreatePMR`. -/
  PMRCreatePMR : Nat → PVRSRV_ERROR × Nat × Nat

/-- State of the kernel as far as the driver changes it. -/
structure OSState where
  /-- The flag word `current->flags`. -/
  flags : Nat
  /-- Page units obtained from `alloc_pages` and not given back. -/
  held : List Nat
  /-- Tables obtained from `kmalloc` and not given back. -/
  tables : List Nat
  /-- The static `pvrsrv_pool_writecombine`, `0` for `NULL`. -/
  pvrsrv_pool_writecombine : Nat
  /-- The static `pool_start`. -/
  pool_start : Nat
  /-- Bytes the driver may still take from the pool: lowered by every
  successful `gen_pool_alloc`, raised by every `gen_pool_free`. -/
  poolAvail : Int
  nAlloc : Nat
  nKmalloc : Nat
  nPoolCreate : Nat
  nPoolAlloc : Nat
  nMapArea : Nat
  nMapRam : Nat
  nCreatePMR : Nat
  /-- Every call made so far, oldest first. -/
  log : List OSEvent
  deriving DecidableEq, Repr

/-- A kernel state in which the driver holds nothing and has called nothing. -/
def OSState.init : OSState :=
  { flags := 0, held := [], tables := [], pvrsrv_pool_writecombine := 0, pool_start := 0,
    poolAvail := 0, nAlloc := 0, nKmalloc := 0, nPoolCreate := 0, nPoolAlloc := 0,
    nMapArea := 0, nMapRam := 0, nCreatePMR := 0, log := [] }

/-- The call `alloc_pages(gfp_flags, uiOrder)`; `zero` tells whether
`__GFP_ZERO` is among the flags. -/
def alloc_pages (env : OSEnv) (zero : Bool) (order : Nat) (os : OSState) : AllocOutcome × OSState :=
  let r := env.alloc_pages os.nAlloc
  (r, { os with nAlloc := os.nAlloc + 1,
                held := if r.page = 0 then os.held else r.page :: os.held,
                log := os.log ++ [OSEvent.alloc_pages zero order r.page] })

/-- The call `__free_pages(page, uiOrder)`. -/
def __free_pages (page : Nat) (order : Nat) (os : OSState) : OSState :=
  { os with held := os.held.erase page, log := os.log ++ [OSEvent.free_pages page order] }

/-- The call `set_memory_uc(addr, 1)`, whose result is `ret`. -/
def set_memory_uc (addr : Nat) (ret : Int) (os : OSState) : OSState :=
  { os with log := os.log ++ [OSEvent.set_memory_uc addr ret] }

/-- The call `set_memory_wc(addr, 1)`, whose result is `ret`. -/
def set_memory_wc (addr : Nat) (ret : Int) (os : OSState) : OSState :=
  { os with log := os.log ++ [OSEvent.set_memory_wc addr ret] }

/-- The call `set_memory_wb(addr, 1)`; its result only selects a debug
message. -/
def set_memory_wb (addr : Nat) (os : OSState) : OSState :=
  { os with log := os.log ++ [OSEvent.set_memory_wb addr] }

/-- The function `DisableOOMKiller`: `current->flags |= PF_DUMPCORE`. -/
def DisableOOMKiller (K : Platform) (os : OSState) : OSState :=
  { os with flags := os.flags ||| K.PF_DUMPCORE }

/-- The function `EnableOOMKiller`: `current->flags &= ~PF_DUMPCORE` on the
32-bit flag word. -/
def EnableOOMKiller (K : Platform) (os : OSState) : OSState :=
  { os with flags := os.flags &&& (0xFFFFFFFF ^^^ K.PF_DUMPCORE) }

/-- The call `kmalloc` for the structure followed by a table of `slots`
page pointers. -/
def kmalloc (env : OSEnv) (slots : Nat) (os : OSState) : Nat × OSState :=
  let p := env.kmalloc os.nKmalloc
  (p, { os with nKmalloc := os.nKmalloc + 1,
                tables := if p = 0 then os.tables else p :: os.tables,
                log := os.log ++ [OSEvent.kmalloc slots p] })

/-- The call `kfree(addr)`. -/
def kfree (addr : Nat) (os : OSState) : OSState :=
  { os with tables := os.tables.erase addr, log := os.log ++ [OSEvent.kfree addr] }

/-! ## The page array -/

/-- The structure `struct _PMR_OSPAGEARRAY_DATA_`.  `addr` is the address of
the `kmalloc` block that holds the structure and its table; `pagearray` is the
table, one slot per page unit, `0` for `NULL`. -/
structure _PMR_OSPAGEARRAY_DATA_ where
  addr : Nat
  uiNumPages : Nat
  uiLog2PageSize : Nat
  pagearray : List Nat
  bPDumpMalloced : Bool
  hPDumpAllocInfo : Nat
  bZero : Bool
  bPoisonOnFree : Bool
  bPoisonOnAlloc : Bool
  bHasOSPages : Bool
  bOnDemand : Bool
  ui32CPUCacheFlags : Nat
  bUnsetMemoryType : Bool
  deriving DecidableEq, Repr

/-- The 32-bit difference `a - b`. -/
def sub32 (a b : Nat) : Nat := (u32 a + (2 ^ 32 - u32 b)) % 2 ^ 32

/-- The inner loop of `_PoisonPages` over the `n` remaining bytes of one
sub-page: the bytes stored, and the value of `uiSrcByteIndex` after them. -/
def poisonBytes (pacPoisonData : List Nat) (uiPoisonSize : Nat) : Nat → Nat → List Nat × Nat
  | 0, uiSrcByteIndex => ([], uiSrcByteIndex)
  | n + 1, uiSrcByteIndex =>
    let b := pacPoisonData.getD uiSrcByteIndex 0
    let src1 := u32 (uiSrcByteIndex + 1)
    let src2 := if src1 = uiPoisonSize then 0 else src1
    let r := poisonBytes pacPoisonData uiPoisonSize n src2
    (b :: r.1, r.2)

/-- The outer loop of `_PoisonPages` over the `n` remaining sub-pages, from
sub-page `uiSubPageIndex` on. -/
def poisonSubPages (K : Platform) (page : Nat) (pacPoisonData : List Nat) (uiPoisonSize : Nat) :
    Nat → Nat → Nat → OSState → OSState
  | 0, _, _, os => os
  | n + 1, uiSubPageIndex, uiSrcByteIndex, os =>
    let r := poisonBytes pacPoisonData uiPoisonSize K.PAGE_SIZE uiSrcByteIndex
    poisonSubPages K page pacPoisonData uiPoisonSize n (uiSubPageIndex + 1) r.2
      { os with log := os.log ++ [OSEvent.page_write (page + uiSubPageIndex) r.1] }

/-- The function `_PoisonPages`: both loops count up to a bound that they do
not change, `1U << uiOrder` sub-pages of `PAGE_SIZE` bytes each. -/
def _PoisonPages (K : Platform) (page uiOrder : Nat) (pacPoisonData : List Nat)
    (uiPoisonSize : Nat) (os : OSState) : OSState :=
  poisonSubPages K page pacPoisonData uiPoisonSize (u32 (1 <<< uiOrder)) 0 0 os

/-- The function `_AllocOSPageArray`.  The second component is what the call
writes to `*ppsPageArrayDataPtr`, `none` when it writes nothing.  The shifts are
those of C for a shift count below 64. -/
def _AllocOSPageArray (env : OSEnv) (uiSize uiLog2PageSize : Nat)
    (bZero bPoisonOnAlloc bPoisonOnFree bOnDemand : Bool) (ui32CPUCacheFlags : Nat)
    (os : OSState) : PVRSRV_ERROR × Option _PMR_OSPAGEARRAY_DATA_ × OSState :=
  if uiSize ≥ 0x1000000000 then
    (PVRSRV_ERROR.PVRSRV_ERROR_INVALID_PARAMS, none, os)
  else if uiSize &&& u64 (u64 (1 <<< uiLog2PageSize) + (2 ^ 64 - 1)) ≠ 0 then
    (PVRSRV_ERROR.PVRSRV_ERROR_PMR_NOT_PAGE_MULTIPLE, none, os)
  else
    let uiNumPages := u32 (u64 ((u64 (uiSize + (2 ^ 64 - 1)) >>> uiLog2PageSize) + 1))
    let r := kmalloc env uiNumPages os
    if r.1 = 0 then
      (PVRSRV_ERROR.PVRSRV_ERROR_INVALID_PARAMS, none, r.2)
    else
      (PVRSRV_ERROR.PVRSRV_OK,
       some { addr := r.1,
              uiNumPages := uiNumPages,
              uiLog2PageSize := uiLog2PageSize,
              pagearray := (List.range uiNumPages).map (env.kmalloc_content os.nKmalloc),
              bPDumpMalloced := false,
              hPDumpAllocInfo := env.kmalloc_field os.nKmalloc,
              bZero := bZero,
              bPoisonOnFree := bPoisonOnFree,
              bPoisonOnAlloc := bPoisonOnAlloc,
              bHasOSPages := false,
              bOnDemand := bOnDemand,
              ui32CPUCacheFlags := ui32CPUCacheFlags,
              bUnsetMemoryType := false },
       r.2)

/-- One pass of the body of the allocation loop of `_AllocOSPages` up to the
test of the slot: `DisableOOMKiller`, `alloc_pages`, `EnableOOMKiller`, the
store into slot `uiPageIndex`, and the `CONFIG_X86` change of the cache
attribute of the existing mapping. -/
def allocUnit (K : Platform) (env : OSEnv) (uiOrder uiPageIndex : Nat)
    (d : _PMR_OSPAGEARRAY_DATA_) (os : OSState) : _PMR_OSPAGEARRAY_DATA_ × OSState :=
  let r := alloc_pages env d.bZero uiOrder (DisableOOMKiller K os)
  let os1 := EnableOOMKiller K r.2
  let page := r.1.page
  let d1 := { d with pagearray := d.pagearray.set uiPageIndex page }
  if page ≠ 0 then
    let pvPageVAddr := env.page_address page
    if pvPageVAddr ≠ 0 then
      if d.ui32CPUCacheFlags = K.PVRSRV_MEMALLOCFLAG_CPU_UNCACHED then
        let os2 := set_memory_uc pvPageVAddr r.1.setMemRet os1
        if r.1.setMemRet ≠ 0 then
          ({ d1 with pagearray := d1.pagearray.set uiPageIndex 0, bUnsetMemoryType := true },
           __free_pages page uiOrder os2)
        else ({ d1 with bUnsetMemoryType := true }, os2)
      else if d.ui32CPUCacheFlags = K.PVRSRV_MEMALLOCFLAG_CPU_WRITE_COMBINE then
        let os2 := set_memory_wc pvPageVAddr r.1.setMemRet os1
        if r.1.setMemRet ≠ 0 then
          ({ d1 with pagearray := d1.pagearray.set uiPageIndex 0, bUnsetMemoryType := true },
           __free_pages page uiOrder os2)
        else ({ d1 with bUnsetMemoryType := true }, os2)
      else (d1, os1)
    else (d1, os1)
  else (d1, os1)

/-- The unwind loop of `_AllocOSPages`,
`for(--uiPageIndex; uiPageIndex < uiNumPages; --uiPageIndex)`, entered with the
index already decremented; the decrement is that of a 32-bit unsigned. -/
def unwindLoop (env : OSEnv) (uiOrder : Nat) (d : _PMR_OSPAGEARRAY_DATA_) :
    Nat → Nat → OSState → Option OSState
  | 0, uiPageIndex, os => if uiPageIndex < d.uiNumPages then none else some os
  | fuel + 1, uiPageIndex, os =>
    if uiPageIndex < d.uiNumPages then
      let page := d.pagearray.getD uiPageIndex 0
      let os1 := if d.bUnsetMemoryType = true
                 then set_memory_wb (env.page_address page) os else os
      unwindLoop env uiOrder d fuel (sub32 uiPageIndex 1) (__free_pages page uiOrder os1)
    else some os

/-- The allocation loop of `_AllocOSPages` with `n` passes left, from index
`uiPageIndex` on, followed by the code after the loop. -/
def allocLoop (K : Platform) (env : OSEnv) (uiOrder : Nat) :
    Nat → Nat → _PMR_OSPAGEARRAY_DATA_ → OSState →
      Option (PVRSRV_ERROR × _PMR_OSPAGEARRAY_DATA_ × OSState)
  | 0, _, d, os => some (PVRSRV_ERROR.PVRSRV_OK, { d with bHasOSPages := true }, os)
  | n + 1, uiPageIndex, d, os =>
    let r := allocUnit K env uiOrder uiPageIndex d os
    if r.1.pagearray.getD uiPageIndex 0 = 0 then
      (unwindLoop env uiOrder r.1 loopFuel (sub32 uiPageIndex 1) r.2).map
        (fun os1 => (PVRSRV_ERROR.PVRSRV_ERROR_PMR_FAILED_TO_ALLOC_PAGES, r.1, os1))
    else
      let os1 := if r.1.bPoisonOnAlloc = true
                 then _PoisonPages K (r.1.pagearray.getD uiPageIndex 0) uiOrder
                        _AllocPoison _AllocPoisonSize r.2
                 else r.2
      allocLoop K env uiOrder n (uiPageIndex + 1) r.1 os1

/-- The function `_AllocOSPages`.  The allocation loop counts `uiPageIndex` from
`0` up to `uiNumPages`, which it does not change, and leaves early only through
the unwind loop. -/
def _AllocOSPages (K : Platform) (env : OSEnv) (d : _PMR_OSPAGEARRAY_DATA_) (os : OSState) :
    Option (PVRSRV_ERROR × _PMR_OSPAGEARRAY_DATA_ × OSState) :=
  allocLoop K env (sub32 d.uiLog2PageSize K.PAGE_SHIFT) d.uiNumPages 0 d os

/-- The function `_FreeOSPagesArray`. -/
def _FreeOSPagesArray (d : _PMR_OSPAGEARRAY_DATA_) (os : OSState) : PVRSRV_ERROR × OSState :=
  (PVRSRV_ERROR.PVRSRV_OK, kfree d.addr os)

/-- The loop of `_FreeOSPages` with `n` passes left, from index `uiPageIndex`
on. -/
def freeLoop (K : Platform) (env : OSEnv) (uiOrder : Nat) (d : _PMR_OSPAGEARRAY_DATA_) :
    Nat → Nat → OSState → OSState
  | 0, _, os => os
  | n + 1, uiPageIndex, os =>
    let page := d.pagearray.getD uiPageIndex 0
    let os1 := if d.bPoisonOnFree = true
               then _PoisonPages K page uiOrder _FreePoison _FreePoisonSize os else os
    let os2 := if d.bUnsetMemoryType = true
               then set_memory_wb (env.page_address page) os1 else os1
    freeLoop K env uiOrder d n (uiPageIndex + 1) (__free_pages page uiOrder os2)

/-- The function `_FreeOSPages`. -/
def _FreeOSPages (K : Platform) (env : OSEnv) (d : _PMR_OSPAGEARRAY_DATA_) (os : OSState) :
    PVRSRV_ERROR × _PMR_OSPAGEARRAY_DATA_ × OSState :=
  (PVRSRV_ERROR.PVRSRV_OK, { d with bHasOSPages := false },
   freeLoop K env (sub32 d.uiLog2PageSize K.PAGE_SHIFT) d d.uiNumPages 0 os)

/-! ## The PMR callbacks -/

/-- The function `PMRFinalizeOSMem`. -/
def PMRFinalizeOSMem (K : Platform) (env : OSEnv) (d : _PMR_OSPAGEARRAY_DATA_) (os : OSState) :
    PVRSRV_ERROR × OSState :=
  let os1 := if d.bPDumpMalloced = true
             then { os with log := os.log ++ [OSEvent.PDumpPMRFree d.hPDumpAllocInfo] } else os
  let r := if d.bHasOSPages = true
           then let f := _FreeOSPages K env d os1
                (f.2.1, f.2.2)
           else (d, os1)
  (PVRSRV_ERROR.PVRSRV_OK, (_FreeOSPagesArray r.1 r.2).2)

/-- The function `PMRLockSysPhysAddressesOSMem`. -/
def PMRLockSysPhysAddressesOSMem (K : Platform) (env : OSEnv) (d : _PMR_OSPAGEARRAY_DATA_)
    (uiLog2DevPageSize : Nat) (os : OSState) :
    Option (PVRSRV_ERROR × _PMR_OSPAGEARRAY_DATA_ × OSState) :=
  let check := fun (d1 : _PMR_OSPAGEARRAY_DATA_) (os1 : OSState) =>
    if uiLog2DevPageSize > d1.uiLog2PageSize then
      (PVRSRV_ERROR.PVRSRV_ERROR_PMR_INCOMPATIBLE_CONTIGUITY, d1, os1)
    else (PVRSRV_ERROR.PVRSRV_OK, d1, os1)
  if d.bOnDemand = true then
    match _AllocOSPages K env d os with
    | none => none
    | some r =>
      if r.1 ≠ PVRSRV_ERROR.PVRSRV_OK then some r
      else some (check r.2.1 r.2.2)
  else some (check d os)

/-- The function `PMRUnlockSysPhysAddressesOSMem`. -/
def PMRUnlockSysPhysAddressesOSMem (K : Platform) (env : OSEnv) (d : _PMR_OSPAGEARRAY_DATA_)
    (os : OSState) : PVRSRV_ERROR × _PMR_OSPAGEARRAY_DATA_ × OSState :=
  if d.bOnDemand = true then
    let r := _FreeOSPages K env d os
    if r.1 ≠ PVRSRV_ERROR.PVRSRV_OK then r
    else (r.1, r.2.1, r.2.2)
  else (PVRSRV_ERROR.PVRSRV_OK, d, os)

/-- The call `vm_map_ram(pagearray, count, -1, prot)`; `cache` is the cache
mode from which `prot` was derived. -/
def vm_map_ram (env : OSEnv) (count cache : Nat) (os : OSState) : Nat × OSState :=
  let a := env.vm_map_ram os.nMapRam
  (a, { os with nMapRam := os.nMapRam + 1, log := os.log ++ [OSEvent.vm_map_ram count cache a] })

/-- The call `vm_unmap_ram(addr, count)`. -/
def vm_unmap_ram (addr count : Nat) (os : OSState) : OSState :=
  { os with log := os.log ++ [OSEvent.vm_unmap_ram addr count] }

/-- The call `gen_pool_alloc(pvrsrv_pool_writecombine, size)`. -/
def gen_pool_alloc (env : OSEnv) (size : Nat) (os : OSState) : Nat × OSState :=
  let a := env.gen_pool_alloc os.nPoolAlloc
  (a, { os with nPoolAlloc := os.nPoolAlloc + 1,
                poolAvail := if a = 0 then os.poolAvail else os.poolAvail - size,
                log := os.log ++ [OSEvent.gen_pool_alloc size a] })

/-- The call `gen_pool_free(pvrsrv_pool_writecombine, addr, size)`. -/
def gen_pool_free (addr size : Nat) (os : OSState) : OSState :=
  { os with poolAvail := os.poolAvail + size,
            log := os.log ++ [OSEvent.gen_pool_free addr size] }

/-- The call `map_vm_area(&tmp_area, prot, &page_array_ptr)` for the area at
`addr` with `tmp_area.size = size`. -/
def map_vm_area (env : OSEnv) (addr size cache : Nat) (os : OSState) : Int × OSState :=
  let ret := env.map_vm_area os.nMapArea
  (ret, { os with nMapArea := os.nMapArea + 1,
                  log := os.log ++ [OSEvent.map_vm_area addr size cache ret] })

/-- The call `PMRCreatePMR(...)` with private data `priv`: result, new PMR and
PDump handle. -/
def PMRCreatePMR (env : OSEnv) (priv : Nat) (os : OSState) : (PVRSRV_ERROR × Nat × Nat) × OSState :=
  let r := env.PMRCreatePMR os.nCreatePMR
  (r, { os with nCreatePMR := os.nCreatePMR + 1,
                log := os.log ++ [OSEvent.PMRCreatePMR priv r.1] })

/-- What `_NewOSAllocPagesPMR` leaves on success: the PMR written to
`*ppsPMRPtr` and the page array that is its private data. -/
structure NewPMR where
  psPMR : Nat
  psPrivData : _PMR_OSPAGEARRAY_DATA_
  deriving DecidableEq, Repr

/-- The function `_NewOSAllocPagesPMR`.  `uiSize`, `ui32NumVirtChunks` and the
mapping table are only handed on to `PMRCreatePMR`; `none` when the page array
is read although `_AllocOSPageArray` wrote none, or when `_AllocOSPages` does
not return. -/
def _NewOSAllocPagesPMR (K : Platform) (env : OSEnv)
    (uiSize uiChunkSize ui32NumPhysChunks ui32NumVirtChunks uiLog2PageSize uiFlags : Nat)
    (os : OSState) : Option (PVRSRV_ERROR × Option NewPMR × OSState) :=
  let bOnDemand := decide (uiFlags &&& K.PVRSRV_MEMALLOCFLAG_NO_OSPAGES_ON_ALLOC > 0)
  let ui32CPUCacheFlags := u32 (K.DevmemCPUCacheMode uiFlags)
  let bZero := decide (uiFlags &&& K.PVRSRV_MEMALLOCFLAG_ZERO_ON_ALLOC ≠ 0)
  let bPoisonOnAlloc := decide (uiFlags &&& K.PVRSRV_MEMALLOCFLAG_POISON_ON_ALLOC ≠ 0)
  let bPoisonOnFree := decide (uiFlags &&& K.PVRSRV_MEMALLOCFLAG_POISON_ON_FREE ≠ 0)
  if uiFlags &&& K.PVRSRV_MEMALLOCFLAG_ZERO_ON_ALLOC ≠ 0
      ∧ uiFlags &&& K.PVRSRV_MEMALLOCFLAG_POISON_ON_ALLOC ≠ 0 then
    some (PVRSRV_ERROR.PVRSRV_ERROR_INVALID_PARAMS, none, os)
  else
    let uiLog2PageSize1 := if K.PAGE_SHIFT > uiLog2PageSize then K.PAGE_SHIFT else uiLog2PageSize
    let a := _AllocOSPageArray env (u64 (uiChunkSize * ui32NumPhysChunks)) uiLog2PageSize1
               bZero bPoisonOnAlloc bPoisonOnFree bOnDemand ui32CPUCacheFlags os
    if a.1 ≠ PVRSRV_ERROR.PVRSRV_OK then some (a.1, none, a.2.2)
    else
      match a.2.1 with
      | none => none
      | some psPrivData =>
        let pages := if bOnDemand = false then _AllocOSPages K env psPrivData a.2.2
                     else some (PVRSRV_ERROR.PVRSRV_OK, psPrivData, a.2.2)
        match pages with
        | none => none
        | some p =>
          if p.1 ≠ PVRSRV_ERROR.PVRSRV_OK then
            some (p.1, none, (_FreeOSPagesArray p.2.1 p.2.2).2)
          else
            let c := PMRCreatePMR env p.2.1.addr p.2.2
            if c.1.1 ≠ PVRSRV_ERROR.PVRSRV_OK then
              let f := if bOnDemand = false
                       then let x := _FreeOSPages K env p.2.1 c.2
                            (x.2.1, x.2.2)
                       else (p.2.1, c.2)
              some (c.1.1, none, (_FreeOSPagesArray f.1 f.2).2)
            else
              some (PVRSRV_ERROR.PVRSRV_OK,
                    some { psPMR := c.1.2.1,
                           psPrivData := { p.2.1 with hPDumpAllocInfo := c.1.2.2,
                                                      bPDumpMalloced := true } },
                    c.2)

/-- The function `PhysmemNewOSRamBackedPMR`. -/
def PhysmemNewOSRamBackedPMR (K : Platform) (env : OSEnv)
    (uiSize uiChunkSize ui32NumPhysChunks ui32NumVirtChunks uiLog2PageSize uiFlags : Nat)
    (os : OSState) : Option (PVRSRV_ERROR × Option NewPMR × OSState) :=
  _NewOSAllocPagesPMR K env uiSize uiChunkSize ui32NumPhysChunks ui32NumVirtChunks
    uiLog2PageSize uiFlags os

/-! ## Observations on the call log -/

/-- The pages given back with `__free_pages`, in the order of the calls. -/
def freedPages : List OSEvent → List Nat
  | [] => []
  | OSEvent.free_pages p _ :: l => p :: freedPages l
  | _ :: l => freedPages l

/-- The results of the `alloc_pages` calls, in the order of the calls. -/
def allocResults : List OSEvent → List Nat
  | [] => []
  | OSEvent.alloc_pages _ _ p :: l => p :: allocResults l
  | _ :: l => allocResults l

/-- A platform on which the definitions can be evaluated: `PAGE_SHIFT` and
`PF_DUMPCORE` as on x86-64, sample values for the Services flags. -/
def samplePlatform : Platform :=
  { PAGE_SHIFT := 12,
    PF_DUMPCORE := 0x200,
    PVRSRV_MEMALLOCFLAG_CPU_UNCACHED := 0x000,
    PVRSRV_MEMALLOCFLAG_CPU_WRITE_COMBINE := 0x100,
    PVRSRV_MEMALLOCFLAG_CPU_CACHED := 0x200,
    PVRSRV_MEMALLOCFLAG_ZERO_ON_ALLOC := 0x80000000,
    PVRSRV_MEMALLOCFLAG_POISON_ON_ALLOC := 0x40000000,
    PVRSRV_MEMALLOCFLAG_POISON_ON_FREE := 0x20000000,
    PVRSRV_MEMALLOCFLAG_NO_OSPAGES_ON_ALLOC := 0x8000,
    PVRSRV_MEMALLOCFLAG_CPU_LOCAL := 0x10000,
    PVRSRV_MEMALLOCFLAGS_PMRFLAGSMASK := 0xFFFFFFFF,
    DevmemCPUCacheMode := fun f => f &&& 0x700 }

/-- A kernel that hands out page `100 + n` at the `n`-th `alloc_pages` call as
long as `n < good` and no page afterwards, maps every page at `page * 4096`,
and lets every other call succeed. -/
def sampleEnv (good : Nat) : OSEnv :=
  { alloc_pages := fun n => { page := if n < good then 100 + n else 0, setMemRet := 0 },
    page_address := fun p => p * 4096,
    kmalloc := fun n => 5000 + n,
    kmalloc_field := fun _ => 0,
    kmalloc_content := fun _ _ => 0,
    gen_pool_create := fun _ => 1,
    get_vm_area := fun _ => some 0x10000000,
    gen_pool_add := fun _ => 0,
    gen_pool_alloc := fun n => 0x10000000 + n * 4096,
    map_vm_area := fun _ => 0,
    vm_map_ram := fun n => 0x20000000 + n * 0x100000,
    page_to_phys := fun p => p * 4096,
    PMRCreatePMR := fun n => (PVRSRV_ERROR.PVRSRV_OK, 7000 + n, 8000 + n) }

/-- A page array of `n` single-page units whose slots are all `NULL`. -/
def sampleArray (n : Nat) (bOnDemand : Bool) (cache : Nat) : _PMR_OSPAGEARRAY_DATA_ :=
  { addr := 5000, uiNumPages := n, uiLog2PageSize := 12, pagearray := List.replicate n 0,
    bPDumpMalloced := false, hPDumpAllocInfo := 0, bZero := false, bPoisonOnFree := false,
    bPoisonOnAlloc := false, bHasOSPages := false, bOnDemand := bOnDemand,
    ui32CPUCacheFlags := cache, bUnsetMemoryType := false }

/-! ## Predicates used in the statements -/

/-- The `n`-th `alloc_pages` call yields a unit that `_AllocOSPages` keeps, for
an array with cache mode `cache`: a page is returned and, if the code changes
the cache attribute of its mapping, the change succeeds. -/
def unitObtained (K : Platform) (env : OSEnv) (cache : Nat) (n : Nat) : Bool :=
  decide ((env.alloc_pages n).page ≠ 0) &&
    (decide (env.page_address (env.alloc_pages n).page = 0) ||
     (decide (cache ≠ K.PVRSRV_MEMALLOCFLAG_CPU_UNCACHED) &&
      decide (cache ≠ K.PVRSRV_MEMALLOCFLAG_CPU_WRITE_COMBINE)) ||
     decide ((env.alloc_pages n).setMemRet = 0))

/-- The table of a page array has one slot per page unit and the number of
units is a 32-bit value. -/
def wellFormed (d : _PMR_OSPAGEARRAY_DATA_) : Prop :=
  d.pagearray.length = d.uiNumPages ∧ d.uiNumPages < 2 ^ 32

instance (d : _PMR_OSPAGEARRAY_DATA_) : Decidable (wellFormed d) := by
  unfold wellFormed
  infer_instance

/-- The page arrays `d` and `e` differ at most in the table content, in
`bHasOSPages` and in `bUnsetMemoryType`. -/
def sameConfig (d e : _PMR_OSPAGEARRAY_DATA_) : Prop :=
  e.addr = d.addr ∧ e.uiNumPages = d.uiNumPages ∧ e.uiLog2PageSize = d.uiLog2PageSize ∧
  e.pagearray.length = d.pagearray.length ∧
  e.bPDumpMalloced = d.bPDumpMalloced ∧ e.hPDumpAllocInfo = d.hPDumpAllocInfo ∧
  e.bZero = d.bZero ∧ e.bPoisonOnFree = d.bPoisonOnFree ∧ e.bPoisonOnAlloc = d.bPoisonOnAlloc ∧
  e.bOnDemand = d.bOnDemand ∧ e.ui32CPUCacheFlags = d.ui32CPUCacheFlags

/-- The kernel states `os` and `os1` differ at most in the flag word, in the
held page units, in the number of `alloc_pages` calls and in the call log. -/
def pagesOnly (os os1 : OSState) : Prop :=
  os1.tables = os.tables ∧ os1.pvrsrv_pool_writecombine = os.pvrsrv_pool_writecombine ∧
  os1.pool_start = os.pool_start ∧ os1.poolAvail = os.poolAvail ∧
  os1.nKmalloc = os.nKmalloc ∧ os1.nPoolCreate = os.nPoolCreate ∧
  os1.nPoolAlloc = os.nPoolAlloc ∧ os1.nMapArea = os.nMapArea ∧ os1.nMapRam = os.nMapRam ∧
  os1.nCreatePMR = os.nCreatePMR

/-- Every slot of the table holds a page, and the page is one of the units the
driver holds. -/
def slotsPopulated (d : _PMR_OSPAGEARRAY_DATA_) (os : OSState) : Prop :=
  ∀ i, i < d.uiNumPages → d.pagearray.getD i 0 ≠ 0 ∧ d.pagearray.getD i 0 ∈ os.held

/-- Page array and kernel state at one point of a run. -/
structure Snapshot where
  d : _PMR_OSPAGEARRAY_DATA_
  os : OSState
  deriving DecidableEq, Repr

/-- The run of `n` pairs of `PMRLockSysPhysAddressesOSMem` followed by
`PMRUnlockSysPhysAddressesOSMem`: for each pair the state after the Lock and
the state after the Unlock, oldest pair first; `none` as soon as a Lock does not
return `PVRSRV_OK`. -/
def lockUnlockPairs (K : Platform) (env : OSEnv) (uiLog2DevPageSize : Nat) :
    Nat → _PMR_OSPAGEARRAY_DATA_ → OSState → Option (List (Snapshot × Snapshot))
  | 0, _, _ => some []
  | n + 1, d, os =>
    match PMRLockSysPhysAddressesOSMem K env d uiLog2DevPageSize os with
    | some (PVRSRV_ERROR.PVRSRV_OK, d1, os1) =>
      let u := PMRUnlockSysPhysAddressesOSMem K env d1 os1
      (lockUnlockPairs K env uiLog2DevPageSize n u.2.1 u.2.2).map
        (fun l => ({ d := d1, os := os1 }, { d := u.2.1, os := u.2.2 }) :: l)
    | _ => none

/-- The run of two Lock/Unlock pairs on a two-page on-demand array over a
kernel with pages to spare. -/
def sampleRun : List (Snapshot × Snapshot) :=
  (lockUnlockPairs samplePlatform (sampleEnv 100) 12 2 (sampleArray 2 true 0x200)
    OSState.init).getD []

/-- The kernel of `sampleEnv 0` with a page for every `alloc_pages` call. -/
def plentyEnv : OSEnv :=
  { sampleEnv 0 with alloc_pages := fun n => { page := 100 + n, setMemRet := 0 } }

/-- The handle type tags named by `server_rgxta3d_bridge.c` (`handle.h`). -/
inductive PVRSRV_HANDLE_TYPE where
  | PVRSRV_HANDLE_TYPE_DEV_NODE
  | PVRSRV_HANDLE_TYPE_DEV_PRIV_DATA
  | PVRSRV_HANDLE_TYPE_DEVMEMINT_RESERVATION
  | PVRSRV_HANDLE_TYPE_PHYSMEM_PMR
  | PVRSRV_HANDLE_TYPE_RGX_FREELIST
  | PVRSRV_HANDLE_TYPE_RGX_FWIF_RENDERTARGET
  | PVRSRV_HANDLE_TYPE_RGX_FWIF_ZSBUFFER
  | PVRSRV_HANDLE_TYPE_RGX_FW_MEMDESC
  | PVRSRV_HANDLE_TYPE_RGX_POPULATION
  | PVRSRV_HANDLE_TYPE_RGX_RC_CLEANUP
  | PVRSRV_HANDLE_TYPE_RGX_RTDATA_CLEANUP
  deriving DecidableEq, Repr

/-- The resource type tags named by `server_rgxta3d_bridge.c` (`resman.h`). -/
inductive RESMAN_TYPE where
  | RESMAN_TYPE_RGX_FWIF_HWRTDATA
  | RESMAN_TYPE_RGX_FWIF_RENDERTARGET
  | RESMAN_TYPE_RGX_FWIF_ZSBUFFER
  | RESMAN_TYPE_RGX_POPULATION
  | RESMAN_TYPE_RGX_FWIF_FREELIST
  | RESMAN_TYPE_RGX_RENDER_CONTEXT
  /-- Any other tag of `resman.h`, by its number. -/
  | other (code : Nat)
  deriving DecidableEq, Repr

/-- The functions of `rgxta3d.h` that the bridge calls or registers as
destructors; `other` stands for the destructors that other modules register. -/
inductive DomainFn where
  | RGXCreateHWRTData
  | RGXDestroyHWRTData
  | RGXCreateRenderTarget
  | RGXDestroyRenderTarget
  | RGXCreateZSBufferKM
  | RGXDestroyZSBufferKM
  | RGXPopulateZSBufferKM
  | RGXUnpopulateZSBufferKM
  | RGXCreateFreeList
  | RGXDestroyFreeList
  | RGXAddBlockToFreeListKM
  | RGXRemoveBlockFromFreeListKM
  | PVRSRVRGXCreateRenderContextKM
  | PVRSRVRGXDestroyRenderContextKM
  | PVRSRVRGXKickTA3DKM
  /-- A function of another module, by a number. -/
  | other (code : Nat)
  deriving DecidableEq, Repr

/-- Constants of headers that are not part of the sources
(`rgx_fwif_shared.h`, `rgx_fwif_resetframework.h`) and the size of a pointer. -/
structure BridgeConsts where
  RGXFW_MAX_FREELISTS : Nat
  RGXFWIF_RF_CMD_SIZE : Nat
  sizeofPointer : Nat

/-- The collaborators of the bridge, over a state `σ` of their own: handle
registry, resource manager, the functions of `rgxta3d.h`, and the OS services.
None of them is part of the sources, so they are parameters.  A function with
output pointers returns, next to its result, the values found in the pointed-to
variables after the call, written by it or not (so `0` for a `NULL`-initialised
local that it left alone); `domain` lists them in the order of the C arguments,
and an entry that is missing from the list reads as `0`. -/
structure Services (σ : Type) where
  OSAllocMem : Nat → σ → Nat × σ
  OSFreeMem : Nat → σ → σ
  /-- The call `OSAccessOK(PVR_VERIFY_READ, src, size)`. -/
  OSAccessOK : Nat → Nat → σ → Bool
  /-- The call `OSCopyFromUser(NULL, dst, src, size)`: result and the words
  copied. -/
  OSCopyFromUser : Nat → Nat → Nat → σ → (PVRSRV_ERROR × List Nat) × σ
  PVRSRVLookupHandle : Nat → PVRSRV_HANDLE_TYPE → σ → (PVRSRV_ERROR × Nat) × σ
  PVRSRVAllocHandle : Nat → PVRSRV_HANDLE_TYPE → σ → (PVRSRV_ERROR × Nat) × σ
  PVRSRVAllocSubHandle : Nat → PVRSRV_HANDLE_TYPE → Nat → σ → (PVRSRV_ERROR × Nat) × σ
  PVRSRVReleaseHandle : Nat → PVRSRV_HANDLE_TYPE → σ → PVRSRV_ERROR × σ
  ResManRegisterRes : RESMAN_TYPE → Nat → DomainFn → σ → Nat × σ
  ResManFindPrivateDataByPtr : Nat → σ → (PVRSRV_ERROR × Nat) × σ
  ResManFreeResByPtr : Nat → σ → PVRSRV_ERROR × σ
  domain : DomainFn → List Nat → σ → (PVRSRV_ERROR × List Nat) × σ

/-- One call made by a bridge function, with its arguments and result. -/
inductive BridgeCall where
  | OSAllocMem (size : Nat) (ret : Nat)
  | OSFreeMem (ptr : Nat)
  | OSAccessOK (src : Nat) (size : Nat) (ret : Bool)
  | OSCopyFromUser (dst : Nat) (src : Nat) (size : Nat) (ret : PVRSRV_ERROR)
  | PVRSRVLookupHandle (h : Nat) (eType : PVRSRV_HANDLE_TYPE) (ret : PVRSRV_ERROR) (data : Nat)
  | PVRSRVAllocHandle (data : Nat) (eType : PVRSRV_HANDLE_TYPE) (ret : PVRSRV_ERROR) (h : Nat)
  | PVRSRVAllocSubHandle (data : Nat) (eType : PVRSRV_HANDLE_TYPE) (parent : Nat)
      (ret : PVRSRV_ERROR) (h : Nat)
  | PVRSRVReleaseHandle (h : Nat) (eType : PVRSRV_HANDLE_TYPE) (ret : PVRSRV_ERROR)
  | ResManRegisterRes (eType : RESMAN_TYPE) (param : Nat) (pfnFree : DomainFn) (item : Nat)
  | ResManFindPrivateDataByPtr (item : Nat) (ret : PVRSRV_ERROR) (data : Nat)
  | ResManFreeResByPtr (item : Nat) (ret : PVRSRV_ERROR)
  | domain (fn : DomainFn) (args : List Nat) (ret : PVRSRV_ERROR) (outs : List Nat)
  deriving DecidableEq, Repr

/-- State of the collaborators together with the calls that the running bridge
function has made so far, oldest first. -/
structure Conn (σ : Type) where
  s : σ
  calls : List BridgeCall

namespace Call

/-- The call `OSAllocMem(size)`. -/
def OSAllocMem {σ : Type} (S : Services σ) (size : Nat) (c : Conn σ) : Nat × Conn σ :=
  let r := S.OSAllocMem size c.s
  (r.1, { s := r.2, calls := c.calls ++ [BridgeCall.OSAllocMem size r.1] })

/-- The call `OSFreeMem(ptr)`. -/
def OSFreeMem {σ : Type} (S : Services σ) (ptr : Nat) (c : Conn σ) : Conn σ :=
  { s := S.OSFreeMem ptr c.s, calls := c.calls ++ [BridgeCall.OSFreeMem ptr] }

/-- The condition `!OSAccessOK(PVR_VERIFY_READ, src, size) ||
(OSCopyFromUser(NULL, dst, src, size) != PVRSRV_OK)`, the copy being made only
if the access is allowed; with the words copied. -/
def copyInFails {σ : Type} (S : Services σ) (dst src size : Nat) (c : Conn σ) :
    (Bool × List Nat) × Conn σ :=
  let ok := S.OSAccessOK src size c.s
  let c1 : Conn σ := { s := c.s, calls := c.calls ++ [BridgeCall.OSAccessOK src size ok] }
  if ok = false then ((true, []), c1)
  else
    let r := S.OSCopyFromUser dst src size c1.s
    ((decide (r.1.1 ≠ PVRSRV_ERROR.PVRSRV_OK), r.1.2),
     { s := r.2, calls := c1.calls ++ [BridgeCall.OSCopyFromUser dst src size r.1.1] })

/-- The call `PVRSRVLookupHandle(psConnection->psHandleBase, &data, h, eType)`. -/
def PVRSRVLookupHandle {σ : Type} (S : Services σ) (h : Nat) (eType : PVRSRV_HANDLE_TYPE)
    (c : Conn σ) : (PVRSRV_ERROR × Nat) × Conn σ :=
  let r := S.PVRSRVLookupHandle h eType c.s
  (r.1, { s := r.2, calls := c.calls ++ [BridgeCall.PVRSRVLookupHandle h eType r.1.1 r.1.2] })

/-- The call `PVRSRVAllocHandle(psConnection->psHandleBase, &h, data, eType,
PVRSRV_HANDLE_ALLOC_FLAG_NONE)`. -/
def PVRSRVAllocHandle {σ : Type} (S : Services σ) (data : Nat) (eType : PVRSRV_HANDLE_TYPE)
    (c : Conn σ) : (PVRSRV_ERROR × Nat) × Conn σ :=
  let r := S.PVRSRVAllocHandle data eType c.s
  (r.1, { s := r.2, calls := c.calls ++ [BridgeCall.PVRSRVAllocHandle data eType r.1.1 r.1.2] })

/-- The call `PVRSRVAllocSubHandle(psConnection->psHandleBase, &h, data, eType,
PVRSRV_HANDLE_ALLOC_FLAG_NONE, parent)`. -/
def PVRSRVAllocSubHandle {σ : Type} (S : Services σ) (data : Nat) (eType : PVRSRV_HANDLE_TYPE)
    (parent : Nat) (c : Conn σ) : (PVRSRV_ERROR × Nat) × Conn σ :=
  let r := S.PVRSRVAllocSubHandle data eType parent c.s
  (r.1, { s := r.2,
          calls := c.calls ++ [BridgeCall.PVRSRVAllocSubHandle data eType parent r.1.1 r.1.2] })

/-- The call `PVRSRVReleaseHandle(psConnection->psHandleBase, h, eType)`. -/
def PVRSRVReleaseHandle {σ : Type} (S : Services σ) (h : Nat) (eType : PVRSRV_HANDLE_TYPE)
    (c : Conn σ) : PVRSRV_ERROR × Conn σ :=
  let r := S.PVRSRVReleaseHandle h eType c.s
  (r.1, { s := r.2, calls := c.calls ++ [BridgeCall.PVRSRVReleaseHandle h eType r.1] })

/-- The call `ResManRegisterRes(psConnection->hResManContext, eType, param,
(RESMAN_FREE_FN)&pfnFree)`. -/
def ResManRegisterRes {σ : Type} (S : Services σ) (eType : RESMAN_TYPE) (param : Nat)
    (pfnFree : DomainFn) (c : Conn σ) : Nat × Conn σ :=
  let r := S.ResManRegisterRes eType param pfnFree c.s
  (r.1, { s := r.2, calls := c.calls ++ [BridgeCall.ResManRegisterRes eType param pfnFree r.1] })

/-- The call `ResManFindPrivateDataByPtr(item, &data)`. -/
def ResManFindPrivateDataByPtr {σ : Type} (S : Services σ) (item : Nat) (c : Conn σ) :
    (PVRSRV_ERROR × Nat) × Conn σ :=
  let r := S.ResManFindPrivateDataByPtr item c.s
  (r.1, { s := r.2,
          calls := c.calls ++ [BridgeCall.ResManFindPrivateDataByPtr item r.1.1 r.1.2] })

/-- The call `ResManFreeResByPtr(item)`. -/
def ResManFreeResByPtr {σ : Type} (S : Services σ) (item : Nat) (c : Conn σ) :
    PVRSRV_ERROR × Conn σ :=
  let r := S.ResManFreeResByPtr item c.s
  (r.1, { s := r.2, calls := c.calls ++ [BridgeCall.ResManFreeResByPtr item r.1] })

/-- The call of the function `fn` of `rgxta3d.h` with the input arguments
`args`. -/
def domain {σ : Type} (S : Services σ) (fn : DomainFn) (args : List Nat) (c : Conn σ) :
    (PVRSRV_ERROR × List Nat) × Conn σ :=
  let r := S.domain fn args c.s
  (r.1, { s := r.2, calls := c.calls ++ [BridgeCall.domain fn args r.1.1 r.1.2] })

end Call

/-! ## The rgxta3d bridge: create-style entry points

Every entry point takes the input structure, the output structure as it is on
entry, and the state of the collaborators; it returns the output structure and
the state with the calls it made.  The label `..._exit` of the C function is a
function of the local variables that the code after the label reads. -/

/-- The structure `PVRSRV_BRIDGE_IN_RGXCREATEHWRTDATA`. -/
structure PVRSRV_BRIDGE_IN_RGXCREATEHWRTDATA where
  hDevNode : Nat
  ui32RenderTarget : Nat
  sPMMlistDevVAddr : Nat
  sVFPPageTableAddr : Nat
  phapsFreeLists : Nat
  ui32PPPScreen : Nat
  ui32PPPGridOffset : Nat
  ui64PPPMultiSampleCtl : Nat
  ui32TPCStride : Nat
  sTailPtrsDevVAddr : Nat
  ui32TPCSize : Nat
  ui32TEScreen : Nat
  ui32TEAA : Nat
  ui32TEMTILE1 : Nat
  ui32TEMTILE2 : Nat
  ui32MTileStride : Nat
  ui16MaxRTs : Nat
  deriving DecidableEq, Repr

/-- The structure `PVRSRV_BRIDGE_OUT_RGXCREATEHWRTDATA`. -/
structure PVRSRV_BRIDGE_OUT_RGXCREATEHWRTDATA where
  hCleanupCookie : Nat
  hRTACtlMemDesc : Nat
  hsHWRTDataMemDesc : Nat
  ui32FWHWRTData : Nat
  eError : PVRSRV_ERROR
  deriving DecidableEq, Repr

/-- The code after the label `RGXCreateHWRTData_exit`. -/
def RGXCreateHWRTData_exit {σ : Type} (S : Services σ)
    (OUT : PVRSRV_BRIDGE_OUT_RGXCREATEHWRTDATA)
    (hCleanupCookieInt2 psCleanupCookieInt psapsFreeListsInt hapsFreeListsInt2 : Nat)
    (c : Conn σ) : PVRSRV_BRIDGE_OUT_RGXCREATEHWRTDATA × Conn σ :=
  let c1 :=
    if OUT.eError ≠ PVRSRV_ERROR.PVRSRV_OK then
      let c2 := if OUT.hCleanupCookie ≠ 0
                then (Call.PVRSRVReleaseHandle S OUT.hCleanupCookie
                        PVRSRV_HANDLE_TYPE.PVRSRV_HANDLE_TYPE_RGX_RTDATA_CLEANUP c).2
                else c
      if hCleanupCookieInt2 ≠ 0 then (Call.ResManFreeResByPtr S hCleanupCookieInt2 c2).2
      else if psCleanupCookieInt ≠ 0
      then (Call.domain S DomainFn.RGXDestroyHWRTData [psCleanupCookieInt] c2).2
      else c2
    else c
  let c3 := if psapsFreeListsInt ≠ 0 then Call.OSFreeMem S psapsFreeListsInt c1 else c1
  let c4 := if hapsFreeListsInt2 ≠ 0 then Call.OSFreeMem S hapsFreeListsInt2 c3 else c3
  (OUT, c4)

/-- The loop of `PVRSRVBridgeRGXCreateHWRTData` over the free-list handles, with
`n` passes left from index `i` on: the error of the lookup that failed, if
one did, and the content of `psapsFreeListsInt` so far. -/
def lookupFreeLists {σ : Type} (S : Services σ) (hapsFreeListsInt2 : List Nat) :
    Nat → Nat → List Nat → Conn σ → (Option PVRSRV_ERROR × List Nat) × Conn σ
  | 0, _, psapsFreeListsInt, c => ((none, psapsFreeListsInt), c)
  | n + 1, i, psapsFreeListsInt, c =>
    let l := Call.PVRSRVLookupHandle S (hapsFreeListsInt2.getD i 0)
               PVRSRV_HANDLE_TYPE.PVRSRV_HANDLE_TYPE_RGX_FREELIST c
    if l.1.1 ≠ PVRSRV_ERROR.PVRSRV_OK then ((some l.1.1, psapsFreeListsInt), l.2)
    else
      let f := Call.ResManFindPrivateDataByPtr S l.1.2 l.2
      if f.1.1 ≠ PVRSRV_ERROR.PVRSRV_OK then ((some f.1.1, psapsFreeListsInt), f.2)
      else lookupFreeLists S hapsFreeListsInt2 n (i + 1) (psapsFreeListsInt ++ [f.1.2]) f.2

/-- The function `PVRSRVBridgeRGXCreateHWRTData`. -/
def PVRSRVBridgeRGXCreateHWRTData {σ : Type} (B : BridgeConsts) (S : Services σ)
    (IN : PVRSRV_BRIDGE_IN_RGXCREATEHWRTDATA) (OUT0 : PVRSRV_BRIDGE_OUT_RGXCREATEHWRTDATA)
    (s : σ) : PVRSRV_BRIDGE_OUT_RGXCREATEHWRTDATA × Conn σ :=
  let OUT1 := { OUT0 with hCleanupCookie := 0 }
  let a1 := Call.OSAllocMem S (B.RGXFW_MAX_FREELISTS * B.sizeofPointer) { s := s, calls := [] }
  if a1.1 = 0 then
    RGXCreateHWRTData_exit S { OUT1 with eError := PVRSRV_ERROR.PVRSRV_ERROR_OUT_OF_MEMORY }
      0 0 a1.1 0 a1.2
  else
  let a2 := Call.OSAllocMem S (B.RGXFW_MAX_FREELISTS * B.sizeofPointer) a1.2
  if a2.1 = 0 then
    RGXCreateHWRTData_exit S { OUT1 with eError := PVRSRV_ERROR.PVRSRV_ERROR_OUT_OF_MEMORY }
      0 0 a1.1 a2.1 a2.2
  else
  let cp := Call.copyInFails S a2.1 IN.phapsFreeLists
              (B.RGXFW_MAX_FREELISTS * B.sizeofPointer) a2.2
  if cp.1.1 = true then
    RGXCreateHWRTData_exit S { OUT1 with eError := PVRSRV_ERROR.PVRSRV_ERROR_INVALID_PARAMS }
      0 0 a1.1 a2.1 cp.2
  else
  let l1 := Call.PVRSRVLookupHandle S IN.hDevNode
              PVRSRV_HANDLE_TYPE.PVRSRV_HANDLE_TYPE_DEV_NODE cp.2
  if l1.1.1 ≠ PVRSRV_ERROR.PVRSRV_OK then
    RGXCreateHWRTData_exit S { OUT1 with eError := l1.1.1 } 0 0 a1.1 a2.1 l1.2
  else
  let lf := lookupFreeLists S cp.1.2 B.RGXFW_MAX_FREELISTS 0 [] l1.2
  match lf.1.1 with
  | some e => RGXCreateHWRTData_exit S { OUT1 with eError := e } 0 0 a1.1 a2.1 lf.2
  | none =>
  let dc := Call.domain S DomainFn.RGXCreateHWRTData
              ([l1.1.2, IN.ui32RenderTarget, IN.sPMMlistDevVAddr, IN.sVFPPageTableAddr]
                ++ lf.1.2 ++
               [IN.ui32PPPScreen, IN.ui32PPPGridOffset, IN.ui64PPPMultiSampleCtl,
                IN.ui32TPCStride, IN.sTailPtrsDevVAddr, IN.ui32TPCSize, IN.ui32TEScreen,
                IN.ui32TEAA, IN.ui32TEMTILE1, IN.ui32TEMTILE2, IN.ui32MTileStride,
                IN.ui16MaxRTs]) lf.2
  let psCleanupCookieInt := dc.1.2.getD 0 0
  let psRTACtlMemDescInt := dc.1.2.getD 1 0
  let pssHWRTDataMemDescInt := dc.1.2.getD 2 0
  let OUT2 := { OUT1 with ui32FWHWRTData := dc.1.2.getD 3 0, eError := dc.1.1 }
  if dc.1.1 ≠ PVRSRV_ERROR.PVRSRV_OK then
    RGXCreateHWRTData_exit S OUT2 0 psCleanupCookieInt a1.1 a2.1 dc.2
  else
  let rg := Call.ResManRegisterRes S RESMAN_TYPE.RESMAN_TYPE_RGX_FWIF_HWRTDATA
              psCleanupCookieInt DomainFn.RGXDestroyHWRTData dc.2
  if rg.1 = 0 then
    RGXCreateHWRTData_exit S
      { OUT2 with eError := PVRSRV_ERROR.PVRSRV_ERROR_UNABLE_TO_REGISTER_RESOURCE }
      rg.1 psCleanupCookieInt a1.1 a2.1 rg.2
  else
  let h1 := Call.PVRSRVAllocHandle S rg.1
              PVRSRV_HANDLE_TYPE.PVRSRV_HANDLE_TYPE_RGX_RTDATA_CLEANUP rg.2
  let OUT3 := { OUT2 with hCleanupCookie := h1.1.2, eError := h1.1.1 }
  if h1.1.1 ≠ PVRSRV_ERROR.PVRSRV_OK then
    RGXCreateHWRTData_exit S OUT3 rg.1 psCleanupCookieInt a1.1 a2.1 h1.2
  else
  let h2 := Call.PVRSRVAllocSubHandle S psRTACtlMemDescInt
              PVRSRV_HANDLE_TYPE.PVRSRV_HANDLE_TYPE_RGX_FW_MEMDESC OUT3.hCleanupCookie h1.2
  let OUT4 := { OUT3 with hRTACtlMemDesc := h2.1.2, eError := h2.1.1 }
  if h2.1.1 ≠ PVRSRV_ERROR.PVRSRV_OK then
    RGXCreateHWRTData_exit S OUT4 rg.1 psCleanupCookieInt a1.1 a2.1 h2.2
  else
  let h3 := Call.PVRSRVAllocSubHandle S pssHWRTDataMemDescInt
              PVRSRV_HANDLE_TYPE.PVRSRV_HANDLE_TYPE_RGX_FW_MEMDESC OUT4.hCleanupCookie h2.2
  let OUT5 := { OUT4 with hsHWRTDataMemDesc := h3.1.2, eError := h3.1.1 }
  RGXCreateHWRTData_exit S OUT5 rg.1 psCleanupCookieInt a1.1 a2.1 h3.2

/-- The structure `PVRSRV_BRIDGE_IN_RGXCREATERENDERTARGET`. -/
structure PVRSRV_BRIDGE_IN_RGXCREATERENDERTARGET where
  hDevNode : Nat
  spsVHeapTableDevVAddr : Nat
  deriving DecidableEq, Repr

/-- The structure `PVRSRV_BRIDGE_OUT_RGXCREATERENDERTARGET`. -/
structure PVRSRV_BRIDGE_OUT_RGXCREATERENDERTARGET where
  hsRenderTargetMemDesc : Nat
  ui32sRenderTargetFWDevVAddr : Nat
  eError : PVRSRV_ERROR
  deriving DecidableEq, Repr

/-- The code after the label `RGXCreateRenderTarget_exit`. -/
def RGXCreateRenderTarget_exit {σ : Type} (S : Services σ)
    (OUT : PVRSRV_BRIDGE_OUT_RGXCREATERENDERTARGET)
    (hsRenderTargetMemDescInt2 pssRenderTargetMemDescInt : Nat) (c : Conn σ) :
    PVRSRV_BRIDGE_OUT_RGXCREATERENDERTARGET × Conn σ :=
  if OUT.eError ≠ PVRSRV_ERROR.PVRSRV_OK then
    if hsRenderTargetMemDescInt2 ≠ 0
    then (OUT, (Call.ResManFreeResByPtr S hsRenderTargetMemDescInt2 c).2)
    else if pssRenderTargetMemDescInt ≠ 0
    then (OUT, (Call.domain S DomainFn.RGXDestroyRenderTarget [pssRenderTargetMemDescInt] c).2)
    else (OUT, c)
  else (OUT, c)

/-- The function `PVRSRVBridgeRGXCreateRenderTarget`. -/
def PVRSRVBridgeRGXCreateRenderTarget {σ : Type} (S : Services σ)
    (IN : PVRSRV_BRIDGE_IN_RGXCREATERENDERTARGET)
    (OUT0 : PVRSRV_BRIDGE_OUT_RGXCREATERENDERTARGET) (s : σ) :
    PVRSRV_BRIDGE_OUT_RGXCREATERENDERTARGET × Conn σ :=
  let l1 := Call.PVRSRVLookupHandle S IN.hDevNode
              PVRSRV_HANDLE_TYPE.PVRSRV_HANDLE_TYPE_DEV_NODE { s := s, calls := [] }
  if l1.1.1 ≠ PVRSRV_ERROR.PVRSRV_OK then
    RGXCreateRenderTarget_exit S { OUT0 with eError := l1.1.1 } 0 0 l1.2
  else
  let dc := Call.domain S DomainFn.RGXCreateRenderTarget
              [l1.1.2, IN.spsVHeapTableDevVAddr] l1.2
  let pssRenderTargetMemDescInt := dc.1.2.getD 0 0
  let OUT1 := { OUT0 with ui32sRenderTargetFWDevVAddr := dc.1.2.getD 1 0, eError := dc.1.1 }
  if dc.1.1 ≠ PVRSRV_ERROR.PVRSRV_OK then
    RGXCreateRenderTarget_exit S OUT1 0 pssRenderTargetMemDescInt dc.2
  else
  let rg := Call.ResManRegisterRes S RESMAN_TYPE.RESMAN_TYPE_RGX_FWIF_RENDERTARGET
              pssRenderTargetMemDescInt DomainFn.RGXDestroyRenderTarget dc.2
  if rg.1 = 0 then
    RGXCreateRenderTarget_exit S
      { OUT1 with eError := PVRSRV_ERROR.PVRSRV_ERROR_UNABLE_TO_REGISTER_RESOURCE }
      rg.1 pssRenderTargetMemDescInt rg.2
  else
  let h1 := Call.PVRSRVAllocHandle S rg.1
              PVRSRV_HANDLE_TYPE.PVRSRV_HANDLE_TYPE_RGX_FWIF_RENDERTARGET rg.2
  RGXCreateRenderTarget_exit S
    { OUT1 with hsRenderTargetMemDesc := h1.1.2, eError := h1.1.1 }
    rg.1 pssRenderTargetMemDescInt h1.2

/-- The structure `PVRSRV_BRIDGE_IN_RGXCREATEZSBUFFER`. -/
structure PVRSRV_BRIDGE_IN_RGXCREATEZSBUFFER where
  hDevNode : Nat
  hReservation : Nat
  hPMR : Nat
  uiMapFlags : Nat
  deriving DecidableEq, Repr

/-- The structure `PVRSRV_BRIDGE_OUT_RGXCREATEZSBUFFER`. -/
structure PVRSRV_BRIDGE_OUT_RGXCREATEZSBUFFER where
  hsZSBufferKM : Nat
  ui32sZSBufferFWDevVAddr : Nat
  eError : PVRSRV_ERROR
  deriving DecidableEq, Repr

/-- The code after the label `RGXCreateZSBuffer_exit`. -/
def RGXCreateZSBuffer_exit {σ : Type} (S : Services σ)
    (OUT : PVRSRV_BRIDGE_OUT_RGXCREATEZSBUFFER) (hsZSBufferKMInt2 pssZSBufferKMInt : Nat)
    (c : Conn σ) : PVRSRV_BRIDGE_OUT_RGXCREATEZSBUFFER × Conn σ :=
  if OUT.eError ≠ PVRSRV_ERROR.PVRSRV_OK then
    if hsZSBufferKMInt2 ≠ 0 then (OUT, (Call.ResManFreeResByPtr S hsZSBufferKMInt2 c).2)
    else if pssZSBufferKMInt ≠ 0
    then (OUT, (Call.domain S DomainFn.RGXDestroyZSBufferKM [pssZSBufferKMInt] c).2)
    else (OUT, c)
  else (OUT, c)

/-- The function `PVRSRVBridgeRGXCreateZSBuffer`. -/
def PVRSRVBridgeRGXCreateZSBuffer {σ : Type} (S : Services σ)
    (IN : PVRSRV_BRIDGE_IN_RGXCREATEZSBUFFER) (OUT0 : PVRSRV_BRIDGE_OUT_RGXCREATEZSBUFFER)
    (s : σ) : PVRSRV_BRIDGE_OUT_RGXCREATEZSBUFFER × Conn σ :=
  let l1 := Call.PVRSRVLookupHandle S IN.hDevNode
              PVRSRV_HANDLE_TYPE.PVRSRV_HANDLE_TYPE_DEV_NODE { s := s, calls := [] }
  if l1.1.1 ≠ PVRSRV_ERROR.PVRSRV_OK then
    RGXCreateZSBuffer_exit S { OUT0 with eError := l1.1.1 } 0 0 l1.2
  else
  let l2 := Call.PVRSRVLookupHandle S IN.hReservation
              PVRSRV_HANDLE_TYPE.PVRSRV_HANDLE_TYPE_DEVMEMINT_RESERVATION l1.2
  if l2.1.1 ≠ PVRSRV_ERROR.PVRSRV_OK then
    RGXCreateZSBuffer_exit S { OUT0 with eError := l2.1.1 } 0 0 l2.2
  else
  let f2 := Call.ResManFindPrivateDataByPtr S l2.1.2 l2.2
  if f2.1.1 ≠ PVRSRV_ERROR.PVRSRV_OK then
    RGXCreateZSBuffer_exit S { OUT0 with eError := f2.1.1 } 0 0 f2.2
  else
  let l3 := Call.PVRSRVLookupHandle S IN.hPMR
              PVRSRV_HANDLE_TYPE.PVRSRV_HANDLE_TYPE_PHYSMEM_PMR f2.2
  if l3.1.1 ≠ PVRSRV_ERROR.PVRSRV_OK then
    RGXCreateZSBuffer_exit S { OUT0 with eError := l3.1.1 } 0 0 l3.2
  else
  let f3 := Call.ResManFindPrivateDataByPtr S l3.1.2 l3.2
  if f3.1.1 ≠ PVRSRV_ERROR.PVRSRV_OK then
    RGXCreateZSBuffer_exit S { OUT0 with eError := f3.1.1 } 0 0 f3.2
  else
  let dc := Call.domain S DomainFn.RGXCreateZSBufferKM
              [l1.1.2, f2.1.2, f3.1.2, IN.uiMapFlags] f3.2
  let pssZSBufferKMInt := dc.1.2.getD 0 0
  let OUT1 := { OUT0 with ui32sZSBufferFWDevVAddr := dc.1.2.getD 1 0, eError := dc.1.1 }
  if dc.1.1 ≠ PVRSRV_ERROR.PVRSRV_OK then
    RGXCreateZSBuffer_exit S OUT1 0 pssZSBufferKMInt dc.2
  else
  let rg := Call.ResManRegisterRes S RESMAN_TYPE.RESMAN_TYPE_RGX_FWIF_ZSBUFFER
              pssZSBufferKMInt DomainFn.RGXDestroyZSBufferKM dc.2
  if rg.1 = 0 then
    RGXCreateZSBuffer_exit S
      { OUT1 with eError := PVRSRV_ERROR.PVRSRV_ERROR_UNABLE_TO_REGISTER_RESOURCE }
      rg.1 pssZSBufferKMInt rg.2
  else
  let h1 := Call.PVRSRVAllocHandle S rg.1
              PVRSRV_HANDLE_TYPE.PVRSRV_HANDLE_TYPE_RGX_FWIF_ZSBUFFER rg.2
  RGXCreateZSBuffer_exit S { OUT1 with hsZSBufferKM := h1.1.2, eError := h1.1.1 }
    rg.1 pssZSBufferKMInt h1.2

/-- The structure `PVRSRV_BRIDGE_IN_RGXPOPULATEZSBUFFER`. -/
structure PVRSRV_BRIDGE_IN_RGXPOPULATEZSBUFFER where
  hsZSBufferKM : Nat
  deriving DecidableEq, Repr

/-- The structure `PVRSRV_BRIDGE_OUT_RGXPOPULATEZSBUFFER`. -/
structure PVRSRV_BRIDGE_OUT_RGXPOPULATEZSBUFFER where
  hsPopulation : Nat
  eError : PVRSRV_ERROR
  deriving DecidableEq, Repr

/-- The code after the label `RGXPopulateZSBuffer_exit`. -/
def RGXPopulateZSBuffer_exit {σ : Type} (S : Services σ)
    (OUT : PVRSRV_BRIDGE_OUT_RGXPOPULATEZSBUFFER) (hsPopulationInt2 pssPopulationInt : Nat)
    (c : Conn σ) : PVRSRV_BRIDGE_OUT_RGXPOPULATEZSBUFFER × Conn σ :=
  if OUT.eError ≠ PVRSRV_ERROR.PVRSRV_OK then
    if hsPopulationInt2 ≠ 0 then (OUT, (Call.ResManFreeResByPtr S hsPopulationInt2 c).2)
    else if pssPopulationInt ≠ 0
    then (OUT, (Call.domain S DomainFn.RGXUnpopulateZSBufferKM [pssPopulationInt] c).2)
    else (OUT, c)
  else (OUT, c)

/-- The function `PVRSRVBridgeRGXPopulateZSBuffer`. -/
def PVRSRVBridgeRGXPopulateZSBuffer {σ : Type} (S : Services σ)
    (IN : PVRSRV_BRIDGE_IN_RGXPOPULATEZSBUFFER) (OUT0 : PVRSRV_BRIDGE_OUT_RGXPOPULATEZSBUFFER)
    (s : σ) : PVRSRV_BRIDGE_OUT_RGXPOPULATEZSBUFFER × Conn σ :=
  let l1 := Call.PVRSRVLookupHandle S IN.hsZSBufferKM
              PVRSRV_HANDLE_TYPE.PVRSRV_HANDLE_TYPE_RGX_FWIF_ZSBUFFER { s := s, calls := [] }
  if l1.1.1 ≠ PVRSRV_ERROR.PVRSRV_OK then
    RGXPopulateZSBuffer_exit S { OUT0 with eError := l1.1.1 } 0 0 l1.2
  else
  let f1 := Call.ResManFindPrivateDataByPtr S l1.1.2 l1.2
  if f1.1.1 ≠ PVRSRV_ERROR.PVRSRV_OK then
    RGXPopulateZSBuffer_exit S { OUT0 with eError := f1.1.1 } 0 0 f1.2
  else
  let dc := Call.domain S DomainFn.RGXPopulateZSBufferKM [f1.1.2] f1.2
  let pssPopulationInt := dc.1.2.getD 0 0
  let OUT1 := { OUT0 with eError := dc.1.1 }
  if dc.1.1 ≠ PVRSRV_ERROR.PVRSRV_OK then
    RGXPopulateZSBuffer_exit S OUT1 0 pssPopulationInt dc.2
  else
  let rg := Call.ResManRegisterRes S RESMAN_TYPE.RESMAN_TYPE_RGX_POPULATION
              pssPopulationInt DomainFn.RGXUnpopulateZSBufferKM dc.2
  if rg.1 = 0 then
    RGXPopulateZSBuffer_exit S
      { OUT1 with eError := PVRSRV_ERROR.PVRSRV_ERROR_UNABLE_TO_REGISTER_RESOURCE }
      rg.1 pssPopulationInt rg.2
  else
  let h1 := Call.PVRSRVAllocHandle S rg.1
              PVRSRV_HANDLE_TYPE.PVRSRV_HANDLE_TYPE_RGX_POPULATION rg.2
  RGXPopulateZSBuffer_exit S { OUT1 with hsPopulation := h1.1.2, eError := h1.1.1 }
    rg.1 pssPopulationInt h1.2

/-- The structure `PVRSRV_BRIDGE_IN_RGXCREATEFREELIST`. -/
structure PVRSRV_BRIDGE_IN_RGXCREATEFREELIST where
  hDevNode : Nat
  ui32ui32MaxFLPages : Nat
  ui32ui32InitFLPages : Nat
  ui32ui32GrowFLPages : Nat
  bbFreeListCheck : Nat
  spsFreeListDevVAddr : Nat
  hsFreeListPMR : Nat
  uiPMROffset : Nat
  deriving DecidableEq, Repr

/-- The structure `PVRSRV_BRIDGE_OUT_RGXCREATEFREELIST`. -/
structure PVRSRV_BRIDGE_OUT_RGXCREATEFREELIST where
  hCleanupCookie : Nat
  eError : PVRSRV_ERROR
  deriving DecidableEq, Repr

/-- The code after the label `RGXCreateFreeList_exit`. -/
def RGXCreateFreeList_exit {σ : Type} (S : Services σ)
    (OUT : PVRSRV_BRIDGE_OUT_RGXCREATEFREELIST) (hCleanupCookieInt2 psCleanupCookieInt : Nat)
    (c : Conn σ) : PVRSRV_BRIDGE_OUT_RGXCREATEFREELIST × Conn σ :=
  if OUT.eError ≠ PVRSRV_ERROR.PVRSRV_OK then
    if hCleanupCookieInt2 ≠ 0 then (OUT, (Call.ResManFreeResByPtr S hCleanupCookieInt2 c).2)
    else if psCleanupCookieInt ≠ 0
    then (OUT, (Call.domain S DomainFn.RGXDestroyFreeList [psCleanupCookieInt] c).2)
    else (OUT, c)
  else (OUT, c)

/-- The function `PVRSRVBridgeRGXCreateFreeList`. -/
def PVRSRVBridgeRGXCreateFreeList {σ : Type} (S : Services σ)
    (IN : PVRSRV_BRIDGE_IN_RGXCREATEFREELIST) (OUT0 : PVRSRV_BRIDGE_OUT_RGXCREATEFREELIST)
    (s : σ) : PVRSRV_BRIDGE_OUT_RGXCREATEFREELIST × Conn σ :=
  let l1 := Call.PVRSRVLookupHandle S IN.hDevNode
              PVRSRV_HANDLE_TYPE.PVRSRV_HANDLE_TYPE_DEV_NODE { s := s, calls := [] }
  if l1.1.1 ≠ PVRSRV_ERROR.PVRSRV_OK then
    RGXCreateFreeList_exit S { OUT0 with eError := l1.1.1 } 0 0 l1.2
  else
  let l2 := Call.PVRSRVLookupHandle S IN.hsFreeListPMR
              PVRSRV_HANDLE_TYPE.PVRSRV_HANDLE_TYPE_PHYSMEM_PMR l1.2
  if l2.1.1 ≠ PVRSRV_ERROR.PVRSRV_OK then
    RGXCreateFreeList_exit S { OUT0 with eError := l2.1.1 } 0 0 l2.2
  else
  let f2 := Call.ResManFindPrivateDataByPtr S l2.1.2 l2.2
  if f2.1.1 ≠ PVRSRV_ERROR.PVRSRV_OK then
    RGXCreateFreeList_exit S { OUT0 with eError := f2.1.1 } 0 0 f2.2
  else
  let dc := Call.domain S DomainFn.RGXCreateFreeList
              [l1.1.2, IN.ui32ui32MaxFLPages, IN.ui32ui32InitFLPages, IN.ui32ui32GrowFLPages,
               IN.bbFreeListCheck, IN.spsFreeListDevVAddr, f2.1.2, IN.uiPMROffset] f2.2
  let psCleanupCookieInt := dc.1.2.getD 0 0
  let OUT1 := { OUT0 with eError := dc.1.1 }
  if dc.1.1 ≠ PVRSRV_ERROR.PVRSRV_OK then
    RGXCreateFreeList_exit S OUT1 0 psCleanupCookieInt dc.2
  else
  let rg := Call.ResManRegisterRes S RESMAN_TYPE.RESMAN_TYPE_RGX_FWIF_FREELIST
              psCleanupCookieInt DomainFn.RGXDestroyFreeList dc.2
  if rg.1 = 0 then
    RGXCreateFreeList_exit S
      { OUT1 with eError := PVRSRV_ERROR.PVRSRV_ERROR_UNABLE_TO_REGISTER_RESOURCE }
      rg.1 psCleanupCookieInt rg.2
  else
  let h1 := Call.PVRSRVAllocHandle S rg.1
              PVRSRV_HANDLE_TYPE.PVRSRV_HANDLE_TYPE_RGX_FREELIST rg.2
  RGXCreateFreeList_exit S { OUT1 with hCleanupCookie := h1.1.2, eError := h1.1.1 }
    rg.1 psCleanupCookieInt h1.2

/-- The structure `PVRSRV_BRIDGE_IN_RGXCREATERENDERCONTEXT`. -/
structure PVRSRV_BRIDGE_IN_RGXCREATERENDERCONTEXT where
  hDevNode : Nat
  hTACCBMemDesc : Nat
  hTACCBCtlMemDesc : Nat
  h3DCCBMemDesc : Nat
  h3DCCBCtlMemDesc : Nat
  ui32Priority : Nat
  sMCUFenceAddr : Nat
  sVDMCallStackAddr : Nat
  ui32FrameworkCmdize : Nat
  psFrameworkCmd : Nat
  hPrivData : Nat
  deriving DecidableEq, Repr

/-- The structure `PVRSRV_BRIDGE_OUT_RGXCREATERENDERCONTEXT`. -/
structure PVRSRV_BRIDGE_OUT_RGXCREATERENDERCONTEXT where
  hCleanupCookie : Nat
  hFWRenderContext : Nat
  hFW3DContextState : Nat
  eError : PVRSRV_ERROR
  deriving DecidableEq, Repr

/-- The code after the label `RGXCreateRenderContext_exit`. -/
def RGXCreateRenderContext_exit {σ : Type} (S : Services σ)
    (OUT : PVRSRV_BRIDGE_OUT_RGXCREATERENDERCONTEXT)
    (hCleanupCookieInt2 psCleanupCookieInt psFrameworkCmdInt : Nat) (c : Conn σ) :
    PVRSRV_BRIDGE_OUT_RGXCREATERENDERCONTEXT × Conn σ :=
  let c1 :=
    if OUT.eError ≠ PVRSRV_ERROR.PVRSRV_OK then
      let c2 := if OUT.hCleanupCookie ≠ 0
                then (Call.PVRSRVReleaseHandle S OUT.hCleanupCookie
                        PVRSRV_HANDLE_TYPE.PVRSRV_HANDLE_TYPE_RGX_RC_CLEANUP c).2
                else c
      if hCleanupCookieInt2 ≠ 0 then (Call.ResManFreeResByPtr S hCleanupCookieInt2 c2).2
      else if psCleanupCookieInt ≠ 0
      then (Call.domain S DomainFn.PVRSRVRGXDestroyRenderContextKM [psCleanupCookieInt] c2).2
      else c2
    else c
  let c3 := if psFrameworkCmdInt ≠ 0 then Call.OSFreeMem S psFrameworkCmdInt c1 else c1
  (OUT, c3)

/-- The function `PVRSRVBridgeRGXCreateRenderContext`. -/
def PVRSRVBridgeRGXCreateRenderContext {σ : Type} (B : BridgeConsts) (S : Services σ)
    (IN : PVRSRV_BRIDGE_IN_RGXCREATERENDERCONTEXT)
    (OUT0 : PVRSRV_BRIDGE_OUT_RGXCREATERENDERCONTEXT) (s : σ) :
    PVRSRV_BRIDGE_OUT_RGXCREATERENDERCONTEXT × Conn σ :=
  let OUT1 := { OUT0 with hCleanupCookie := 0 }
  let a1 := Call.OSAllocMem S (B.RGXFWIF_RF_CMD_SIZE * 1) { s := s, calls := [] }
  if a1.1 = 0 then
    RGXCreateRenderContext_exit S
      { OUT1 with eError := PVRSRV_ERROR.PVRSRV_ERROR_OUT_OF_MEMORY } 0 0 a1.1 a1.2
  else
  let cp := Call.copyInFails S a1.1 IN.psFrameworkCmd (B.RGXFWIF_RF_CMD_SIZE * 1) a1.2
  if cp.1.1 = true then
    RGXCreateRenderContext_exit S
      { OUT1 with eError := PVRSRV_ERROR.PVRSRV_ERROR_INVALID_PARAMS } 0 0 a1.1 cp.2
  else
  let l1 := Call.PVRSRVLookupHandle S IN.hDevNode
              PVRSRV_HANDLE_TYPE.PVRSRV_HANDLE_TYPE_DEV_NODE cp.2
  if l1.1.1 ≠ PVRSRV_ERROR.PVRSRV_OK then
    RGXCreateRenderContext_exit S { OUT1 with eError := l1.1.1 } 0 0 a1.1 l1.2
  else
  let l2 := Call.PVRSRVLookupHandle S IN.hTACCBMemDesc
              PVRSRV_HANDLE_TYPE.PVRSRV_HANDLE_TYPE_RGX_FW_MEMDESC l1.2
  if l2.1.1 ≠ PVRSRV_ERROR.PVRSRV_OK then
    RGXCreateRenderContext_exit S { OUT1 with eError := l2.1.1 } 0 0 a1.1 l2.2
  else
  let l3 := Call.PVRSRVLookupHandle S IN.hTACCBCtlMemDesc
              PVRSRV_HANDLE_TYPE.PVRSRV_HANDLE_TYPE_RGX_FW_MEMDESC l2.2
  if l3.1.1 ≠ PVRSRV_ERROR.PVRSRV_OK then
    RGXCreateRenderContext_exit S { OUT1 with eError := l3.1.1 } 0 0 a1.1 l3.2
  else
  let l4 := Call.PVRSRVLookupHandle S IN.h3DCCBMemDesc
              PVRSRV_HANDLE_TYPE.PVRSRV_HANDLE_TYPE_RGX_FW_MEMDESC l3.2
  if l4.1.1 ≠ PVRSRV_ERROR.PVRSRV_OK then
    RGXCreateRenderContext_exit S { OUT1 with eError := l4.1.1 } 0 0 a1.1 l4.2
  else
  let l5 := Call.PVRSRVLookupHandle S IN.h3DCCBCtlMemDesc
              PVRSRV_HANDLE_TYPE.PVRSRV_HANDLE_TYPE_RGX_FW_MEMDESC l4.2
  if l5.1.1 ≠ PVRSRV_ERROR.PVRSRV_OK then
    RGXCreateRenderContext_exit S { OUT1 with eError := l5.1.1 } 0 0 a1.1 l5.2
  else
  let l6 := Call.PVRSRVLookupHandle S IN.hPrivData
              PVRSRV_HANDLE_TYPE.PVRSRV_HANDLE_TYPE_DEV_PRIV_DATA l5.2
  if l6.1.1 ≠ PVRSRV_ERROR.PVRSRV_OK then
    RGXCreateRenderContext_exit S { OUT1 with eError := l6.1.1 } 0 0 a1.1 l6.2
  else
  let dc := Call.domain S DomainFn.PVRSRVRGXCreateRenderContextKM
              [l1.1.2, l2.1.2, l3.1.2, l4.1.2, l5.1.2, IN.ui32Priority, IN.sMCUFenceAddr,
               IN.sVDMCallStackAddr, IN.ui32FrameworkCmdize, a1.1, l6.1.2] l6.2
  let psCleanupCookieInt := dc.1.2.getD 0 0
  let psFWRenderContextInt := dc.1.2.getD 1 0
  let psFW3DContextStateInt := dc.1.2.getD 2 0
  let OUT2 := { OUT1 with eError := dc.1.1 }
  if dc.1.1 ≠ PVRSRV_ERROR.PVRSRV_OK then
    RGXCreateRenderContext_exit S OUT2 0 psCleanupCookieInt a1.1 dc.2
  else
  let rg := Call.ResManRegisterRes S RESMAN_TYPE.RESMAN_TYPE_RGX_RENDER_CONTEXT
              psCleanupCookieInt DomainFn.PVRSRVRGXDestroyRenderContextKM dc.2
  if rg.1 = 0 then
    RGXCreateRenderContext_exit S
      { OUT2 with eError := PVRSRV_ERROR.PVRSRV_ERROR_UNABLE_TO_REGISTER_RESOURCE }
      rg.1 psCleanupCookieInt a1.1 rg.2
  else
  let h1 := Call.PVRSRVAllocHandle S rg.1
              PVRSRV_HANDLE_TYPE.PVRSRV_HANDLE_TYPE_RGX_RC_CLEANUP rg.2
  let OUT3 := { OUT2 with hCleanupCookie := h1.1.2, eError := h1.1.1 }
  if h1.1.1 ≠ PVRSRV_ERROR.PVRSRV_OK then
    RGXCreateRenderContext_exit S OUT3 rg.1 psCleanupCookieInt a1.1 h1.2
  else
  let h2 := Call.PVRSRVAllocSubHandle S psFWRenderContextInt
              PVRSRV_HANDLE_TYPE.PVRSRV_HANDLE_TYPE_RGX_FW_MEMDESC OUT3.hCleanupCookie h1.2
  let OUT4 := { OUT3 with hFWRenderContext := h2.1.2, eError := h2.1.1 }
  if h2.1.1 ≠ PVRSRV_ERROR.PVRSRV_OK then
    RGXCreateRenderContext_exit S OUT4 rg.1 psCleanupCookieInt a1.1 h2.2
  else
  let h3 := Call.PVRSRVAllocSubHandle S psFW3DContextStateInt
              PVRSRV_HANDLE_TYPE.PVRSRV_HANDLE_TYPE_RGX_FW_MEMDESC OUT4.hCleanupCookie h2.2
  let OUT5 := { OUT4 with hFW3DContextState := h3.1.2, eError := h3.1.1 }
  RGXCreateRenderContext_exit S OUT5 rg.1 psCleanupCookieInt a1.1 h3.2

/-! ## Observations on the calls of a bridge function -/

/-- The items passed to `ResManFreeResByPtr`, in the order of the calls. -/
def resmanFrees : List BridgeCall → List Nat
  | [] => []
  | BridgeCall.ResManFreeResByPtr item _ :: l => item :: resmanFrees l
  | _ :: l => resmanFrees l

/-- The argument lists of the direct calls of the function `fn`, in the order
of the calls. -/
def directCalls (fn : DomainFn) : List BridgeCall → List (List Nat)
  | [] => []
  | BridgeCall.domain f args _ _ :: l =>
    if f = fn then args :: directCalls fn l else directCalls fn l
  | _ :: l => directCalls fn l

/-- Result and first output (the new domain object) of the first direct call of
the function `fn`; `none` if it was not called. -/
def createOutcome (fn : DomainFn) : List BridgeCall → Option (PVRSRV_ERROR × Nat)
  | [] => none
  | BridgeCall.domain f _ ret outs :: l =>
    if f = fn then some (ret, outs.getD 0 0) else createOutcome fn l
  | _ :: l => createOutcome fn l

/-- The item returned by the first `ResManRegisterRes` call; `none` if there
was no such call. -/
def registerOutcome : List BridgeCall → Option Nat
  | [] => none
  | BridgeCall.ResManRegisterRes _ _ _ item :: _ => some item
  | _ :: l => registerOutcome l

/-- A call of one of the six create-style entry points. -/
inductive CreateRequest where
  | HWRTData (B : BridgeConsts) (IN : PVRSRV_BRIDGE_IN_RGXCREATEHWRTDATA)
      (OUT0 : PVRSRV_BRIDGE_OUT_RGXCREATEHWRTDATA)
  | RenderTarget (IN : PVRSRV_BRIDGE_IN_RGXCREATERENDERTARGET)
      (OUT0 : PVRSRV_BRIDGE_OUT_RGXCREATERENDERTARGET)
  | ZSBuffer (IN : PVRSRV_BRIDGE_IN_RGXCREATEZSBUFFER)
      (OUT0 : PVRSRV_BRIDGE_OUT_RGXCREATEZSBUFFER)
  | PopulateZSBuffer (IN : PVRSRV_BRIDGE_IN_RGXPOPULATEZSBUFFER)
      (OUT0 : PVRSRV_BRIDGE_OUT_RGXPOPULATEZSBUFFER)
  | FreeList (IN : PVRSRV_BRIDGE_IN_RGXCREATEFREELIST)
      (OUT0 : PVRSRV_BRIDGE_OUT_RGXCREATEFREELIST)
  | RenderContext (B : BridgeConsts) (IN : PVRSRV_BRIDGE_IN_RGXCREATERENDERCONTEXT)
      (OUT0 : PVRSRV_BRIDGE_OUT_RGXCREATERENDERCONTEXT)

/-- The function of `rgxta3d.h` that creates the domain object of the entry
point. -/
def CreateRequest.createFn : CreateRequest → DomainFn
  | HWRTData _ _ _ => DomainFn.RGXCreateHWRTData
  | RenderTarget _ _ => DomainFn.RGXCreateRenderTarget
  | ZSBuffer _ _ => DomainFn.RGXCreateZSBufferKM
  | PopulateZSBuffer _ _ => DomainFn.RGXPopulateZSBufferKM
  | FreeList _ _ => DomainFn.RGXCreateFreeList
  | RenderContext _ _ _ => DomainFn.PVRSRVRGXCreateRenderContextKM

/-- The destructor that the entry point registers with the resource manager and
calls in its cleanup. -/
def CreateRequest.destroyFn : CreateRequest → DomainFn
  | HWRTData _ _ _ => DomainFn.RGXDestroyHWRTData
  | RenderTarget _ _ => DomainFn.RGXDestroyRenderTarget
  | ZSBuffer _ _ => DomainFn.RGXDestroyZSBufferKM
  | PopulateZSBuffer _ _ => DomainFn.RGXUnpopulateZSBufferKM
  | FreeList _ _ => DomainFn.RGXDestroyFreeList
  | RenderContext _ _ _ => DomainFn.PVRSRVRGXDestroyRenderContextKM

/-- The entry point of the request run on the collaborator state `s`: the
`eError` of its output structure and the calls it made. -/
def CreateRequest.run {σ : Type} (S : Services σ) (s : σ) :
    CreateRequest → PVRSRV_ERROR × List BridgeCall
  | HWRTData B IN OUT0 =>
    let r := PVRSRVBridgeRGXCreateHWRTData B S IN OUT0 s
    (r.1.eError, r.2.calls)
  | RenderTarget IN OUT0 =>
    let r := PVRSRVBridgeRGXCreateRenderTarget S IN OUT0 s
    (r.1.eError, r.2.calls)
  | ZSBuffer IN OUT0 =>
    let r := PVRSRVBridgeRGXCreateZSBuffer S IN OUT0 s
    (r.1.eError, r.2.calls)
  | PopulateZSBuffer IN OUT0 =>
    let r := PVRSRVBridgeRGXPopulateZSBuffer S IN OUT0 s
    (r.1.eError, r.2.calls)
  | FreeList IN OUT0 =>
    let r := PVRSRVBridgeRGXCreateFreeList S IN OUT0 s
    (r.1.eError, r.2.calls)
  | RenderContext B IN OUT0 =>
    let r := PVRSRVBridgeRGXCreateRenderContext B S IN OUT0 s
    (r.1.eError, r.2.calls)

/-! ## A model of the collaborators of the bridge

The handle registry (`handle.c`), the resource manager (`resman.c`), the
functions of `rgxta3d.h` and the OS services are not part of the sources.  The
model below follows sections 4.3 and 4.4 of the specification; what the
specification leaves to the environment (memory running out, a resource with
outstanding dependents) is a field of the state. -/

/-- Modelled from the spec: the error `InvalidHandle` of the handle registry;
`pvrsrv_error.h` is missing, the number stands for its code. -/
def InvalidHandle : PVRSRV_ERROR := PVRSRV_ERROR.other 1

/-- Modelled from the spec: the error `NotFound` of `FindPrivateData`;
`pvrsrv_error.h` is missing, the number stands for its code. -/
def NotFound : PVRSRV_ERROR := PVRSRV_ERROR.other 2

/-- Modelled from the spec: a live handle of the handle registry (`handle.c` is
missing): the handle, its type, the object pointer, and the parent handle (`0`
for none). -/
structure HandleEntry where
  handle : Nat
  eType : PVRSRV_HANDLE_TYPE
  data : Nat
  parent : Nat
  deriving DecidableEq, Repr

/-- Modelled from the spec: a live item of the resource manager (`resman.c` is
missing): the item, its type, the private data and the destructor. -/
structure ResManItem where
  item : Nat
  eType : RESMAN_TYPE
  param : Nat
  pfnFree : DomainFn
  deriving DecidableEq, Repr

/-- Modelled from the spec: the state of the handle registry, the resource
manager, the domain objects and the OS allocator of one connection
(`handle.c`, `resman.c`, `rgxta3d.c` and the OS layer are missing).
`handleBudget`, `itemBudget` and `memBudget` count the allocations that still
succeed, `createResult` is what a creating function answers, `dependents` are
the objects whose destructor answers `Retry`, `destructorRuns` lists the runs
of the destructors with their results, `userWords` is what a copy from user
memory delivers. -/
structure World where
  handles : List HandleEntry
  handlesMade : Nat
  handleBudget : Nat
  items : List ResManItem
  itemsMade : Nat
  itemBudget : Nat
  objects : List Nat
  objectsMade : Nat
  createResult : PVRSRV_ERROR
  dependents : List Nat
  destructorRuns : List (DomainFn × Nat × PVRSRV_ERROR)
  memMade : Nat
  memBudget : Nat
  userWords : List Nat
  deriving DecidableEq, Repr

namespace World

/-- Modelled from the spec: a destructor of `rgxta3d.h` (missing) run on the
object `obj`: `Retry` while the object has outstanding dependents, otherwise
the object is destroyed. -/
def destroy (fn : DomainFn) (obj : Nat) (w : World) : PVRSRV_ERROR × World :=
  if obj ∈ w.dependents then
    (PVRSRV_ERROR.PVRSRV_ERROR_RETRY,
     { w with destructorRuns :=
                w.destructorRuns ++ [(fn, obj, PVRSRV_ERROR.PVRSRV_ERROR_RETRY)] })
  else
    (PVRSRV_ERROR.PVRSRV_OK,
     { w with objects := w.objects.filter (fun o => decide (o ≠ obj))
              destructorRuns := w.destructorRuns ++ [(fn, obj, PVRSRV_ERROR.PVRSRV_OK)] })

/-- Modelled from the spec: `Lookup(handle, expectedType)` of the handle
registry (`handle.c` is missing): fails if the handle is unknown, released, or
of another type. -/
def lookup (h : Nat) (t : PVRSRV_HANDLE_TYPE) (w : World) : (PVRSRV_ERROR × Nat) × World :=
  match w.handles.find? (fun e => decide (e.handle = h ∧ e.eType = t)) with
  | some e => ((PVRSRV_ERROR.PVRSRV_OK, e.data), w)
  | none => ((InvalidHandle, 0), w)

/-- Modelled from the spec: `Allocate` and `AllocateSubHandle` of the handle
registry (`handle.c` is missing): a fresh, never-before-live handle, or
`OutOfMemory` when the registry cannot grow. -/
def allocHandle (data : Nat) (t : PVRSRV_HANDLE_TYPE) (parent : Nat) (w : World) :
    (PVRSRV_ERROR × Nat) × World :=
  if w.handleBudget = 0 then ((PVRSRV_ERROR.PVRSRV_ERROR_OUT_OF_MEMORY, 0), w)
  else
    ((PVRSRV_ERROR.PVRSRV_OK, w.handlesMade + 1),
     { w with handles := w.handles ++
                [{ handle := w.handlesMade + 1, eType := t, data := data, parent := parent }]
              handlesMade := w.handlesMade + 1
              handleBudget := w.handleBudget - 1 })

/-- Modelled from the spec: the cascade of `Release` (`handle.c` is missing):
the handles `dead` leave the registry, then their children, at most `n` levels
deep. -/
def cascade : Nat → List HandleEntry → List Nat → List HandleEntry
  | 0, hs, dead => hs.filter (fun e => decide (e.handle ∉ dead))
  | n + 1, hs, dead =>
    let rest := hs.filter (fun e => decide (e.handle ∉ dead))
    let kids := (rest.filter (fun e => decide (e.parent ∈ dead))).map (fun e => e.handle)
    if kids = [] then rest else cascade n rest kids

/-- Modelled from the spec: `Release(handle, type)` of the handle registry
(`handle.c` is missing): removes the handle and its children; `InvalidHandle`
if unknown. -/
def release (h : Nat) (t : PVRSRV_HANDLE_TYPE) (w : World) : PVRSRV_ERROR × World :=
  if w.handles.any (fun e => decide (e.handle = h ∧ e.eType = t)) then
    (PVRSRV_ERROR.PVRSRV_OK, { w with handles := cascade w.handles.length w.handles [h] })
  else (InvalidHandle, w)

/-- Modelled from the spec: `Register(resourceType, privateData, destructor)`
of the resource manager (`resman.c` is missing); the null item when the
insertion fails. -/
def register (t : RESMAN_TYPE) (p : Nat) (f : DomainFn) (w : World) : Nat × World :=
  if w.itemBudget = 0 then (0, w)
  else
    (w.itemsMade + 1,
     { w with items := w.items ++
                [{ item := w.itemsMade + 1, eType := t, param := p, pfnFree := f }]
              itemsMade := w.itemsMade + 1
              itemBudget := w.itemBudget - 1 })

/-- Modelled from the spec: `FindPrivateData(resManItem)` of the resource
manager (`resman.c` is missing). -/
def findPrivateData (i : Nat) (w : World) : (PVRSRV_ERROR × Nat) × World :=
  match w.items.find? (fun it => decide (it.item = i)) with
  | some it => ((PVRSRV_ERROR.PVRSRV_OK, it.param), w)
  | none => ((NotFound, 0), w)

/-- Modelled from the spec: `FreeByItem(resManItem)` of the resource manager
(`resman.c` is missing): invokes the registered destructor; on `Retry` the
item stays for a later attempt, otherwise it leaves the live-resource set.  An
item that is not registered is a programming defect, answered with
`PVRSRV_ERROR_INVALID_PARAMS`. -/
def freeByItem (i : Nat) (w : World) : PVRSRV_ERROR × World :=
  match w.items.find? (fun it => decide (it.item = i)) with
  | none => (PVRSRV_ERROR.PVRSRV_ERROR_INVALID_PARAMS, w)
  | some it =>
    let r := w.destroy it.pfnFree it.param
    if r.1 = PVRSRV_ERROR.PVRSRV_ERROR_RETRY then (r.1, r.2)
    else (r.1, { r.2 with items := r.2.items.filter (fun x => decide (x.item ≠ i)) })

/-- Modelled from the spec: the functions of `rgxta3d.h` (`rgxta3d.c` is
missing).  A creating function answers `createResult` and, on `PVRSRV_OK`,
makes a new object, which all its output pointers receive; a destructor runs
`destroy` on its argument; the other functions succeed. -/
def domain (fn : DomainFn) (args : List Nat) (w : World) :
    (PVRSRV_ERROR × List Nat) × World :=
  match fn with
  | DomainFn.RGXCreateHWRTData | DomainFn.RGXCreateRenderTarget
  | DomainFn.RGXCreateZSBufferKM | DomainFn.RGXPopulateZSBufferKM
  | DomainFn.RGXCreateFreeList | DomainFn.PVRSRVRGXCreateRenderContextKM =>
    if w.createResult ≠ PVRSRV_ERROR.PVRSRV_OK then ((w.createResult, []), w)
    else
      let obj := w.objectsMade + 1
      ((PVRSRV_ERROR.PVRSRV_OK, [obj, obj, obj, obj]),
       { w with objects := w.objects ++ [obj], objectsMade := w.objectsMade + 1 })
  | DomainFn.RGXDestroyHWRTData | DomainFn.RGXDestroyRenderTarget
  | DomainFn.RGXDestroyZSBufferKM | DomainFn.RGXUnpopulateZSBufferKM
  | DomainFn.RGXDestroyFreeList | DomainFn.PVRSRVRGXDestroyRenderContextKM =>
    let r := w.destroy fn (args.getD 0 0)
    ((r.1, []), r.2)
  | _ => ((PVRSRV_ERROR.PVRSRV_OK, []), w)

/-- Modelled from the spec: `OSAllocMem` (the OS layer is missing): a fresh
pointer, or null when memory has run out. -/
def allocMem (_size : Nat) (w : World) : Nat × World :=
  if w.memBudget = 0 then (0, w)
  else (w.memMade + 1, { w with memMade := w.memMade + 1, memBudget := w.memBudget - 1 })

end World

/-- Modelled from the spec: handles, items and objects are never-before-live
numbers, so the live ones are among those made so far. -/
def World.wellFormed (w : World) : Prop :=
  (∀ e ∈ w.handles, e.handle ≤ w.handlesMade)
  ∧ (∀ it ∈ w.items, it.item ≤ w.itemsMade)
  ∧ (∀ o ∈ w.objects, o ≤ w.objectsMade)

instance (w : World) : Decidable w.wellFormed := by
  unfold World.wellFormed
  exact inferInstance

/-- Modelled from the spec: the collaborators of the bridge over `World`
(`handle.c`, `resman.c`, `rgxta3d.c` and the OS layer are missing). -/
def specServices : Services World where
  OSAllocMem := World.allocMem
  OSFreeMem := fun _ w => w
  OSAccessOK := fun _ _ _ => true
  OSCopyFromUser := fun _ _ _ w => ((PVRSRV_ERROR.PVRSRV_OK, w.userWords), w)
  PVRSRVLookupHandle := World.lookup
  PVRSRVAllocHandle := fun data t w => w.allocHandle data t 0
  PVRSRVAllocSubHandle := fun data t parent w => w.allocHandle data t parent
  PVRSRVReleaseHandle := World.release
  ResManRegisterRes := World.register
  ResManFindPrivateDataByPtr := World.findPrivateData
  ResManFreeResByPtr := World.freeByItem
  domain := World.domain

/-- A connection that holds a handle `1` on a device node `100`, a resource
manager item `1` for a PMR `200` and a handle `2` on that item, and some
memory; the handle registry cannot grow. -/
def sampleWorld : World where
  handles := [{ handle := 1, eType := PVRSRV_HANDLE_TYPE.PVRSRV_HANDLE_TYPE_DEV_NODE,
                data := 100, parent := 0 },
              { handle := 2, eType := PVRSRV_HANDLE_TYPE.PVRSRV_HANDLE_TYPE_PHYSMEM_PMR,
                data := 1, parent := 0 }]
  handlesMade := 2
  handleBudget := 0
  items := [{ item := 1, eType := RESMAN_TYPE.other 0, param := 200,
              pfnFree := DomainFn.other 0 }]
  itemsMade := 1
  itemBudget := 4
  objects := [200]
  objectsMade := 200
  createResult := PVRSRV_ERROR.PVRSRV_OK
  dependents := []
  destructorRuns := []
  memMade := 0
  memBudget := 4
  userWords := []

/-- The connection of `sampleWorld` where the free list that the next creation
makes (object `201`) has outstanding dependents, so that its destructor answers
`Retry`. -/
def retryWorld : World := { sampleWorld with dependents := [201] }

/-- The input of a `PVRSRVBridgeRGXCreateFreeList` call on `sampleWorld`. -/
def sampleFreeListIN : PVRSRV_BRIDGE_IN_RGXCREATEFREELIST where
  hDevNode := 1
  ui32ui32MaxFLPages := 16
  ui32ui32InitFLPages := 4
  ui32ui32GrowFLPages := 4
  bbFreeListCheck := 0
  spsFreeListDevVAddr := 4096
  hsFreeListPMR := 2
  uiPMROffset := 0

/-- The output structure on entry of the sample calls. -/
def sampleFreeListOUT : PVRSRV_BRIDGE_OUT_RGXCREATEFREELIST where
  hCleanupCookie := 0
  eError := PVRSRV_ERROR.PVRSRV_OK

/-- The calls `l` hold no call of the resource manager that registers or frees
an item and no call of a function of `rgxta3d.h`. -/
def silent (l : List BridgeCall) : Prop :=
  resmanFrees l = [] ∧ registerOutcome l = none
  ∧ ∀ fn, directCalls fn l = [] ∧ createOutcome fn l = none

/-- What the code after the exit label of a create-style entry point adds to
the calls, given the `eError` it finds, the registered item `item` and the
domain object `obj` (0 when absent): no creation and no registration; and,
when `eError` is not `PVRSRV_OK`, `ResManFreeResByPtr(item)` alone if there is
an item, the destructor `dfn` on `obj` alone if there is an object but no item,
and neither otherwise. -/
def exitCalls (cfn dfn : DomainFn) (eError : PVRSRV_ERROR) (item obj : Nat)
    (l : List BridgeCall) : Prop :=
  createOutcome cfn l = none ∧ registerOutcome l = none
  ∧ ((eError = PVRSRV_ERROR.PVRSRV_OK ∧ resmanFrees l = [] ∧ directCalls dfn l = [])
     ∨ (eError ≠ PVRSRV_ERROR.PVRSRV_OK ∧ item ≠ 0
          ∧ resmanFrees l = [item] ∧ directCalls dfn l = [])
     ∨ (eError ≠ PVRSRV_ERROR.PVRSRV_OK ∧ item = 0 ∧ obj ≠ 0
          ∧ resmanFrees l = [] ∧ directCalls dfn l = [[obj]])
     ∨ (eError ≠ PVRSRV_ERROR.PVRSRV_OK ∧ item = 0 ∧ obj = 0
          ∧ resmanFrees l = [] ∧ directCalls dfn l = []))

/-- Exactly-one rollback, read off the calls of a failed run of an entry point
whose domain object is created by `cfn` and destroyed by `dfn`.  If `cfn`
returned `PVRSRV_OK` with an object `obj` (not the null pointer), then
`ResManRegisterRes` was called, and either it returned an item, which was
passed to `ResManFreeResByPtr` once while `dfn` was never called directly, or
it returned null, and `dfn` was called directly once, on `obj`, while
`ResManFreeResByPtr` was never called.  If `cfn` was not called, or failed
leaving the object pointer null, neither was called. -/
def rollbackExactlyOne (cfn dfn : DomainFn) (calls : List BridgeCall) : Prop :=
  (∀ obj, createOutcome cfn calls = some (PVRSRV_ERROR.PVRSRV_OK, obj) → obj ≠ 0 →
      ∃ item, registerOutcome calls = some item
        ∧ ((item ≠ 0 ∧ resmanFrees calls = [item] ∧ directCalls dfn calls = [])
           ∨ (item = 0 ∧ resmanFrees calls = [] ∧ directCalls dfn calls = [[obj]])))
  ∧ ((createOutcome cfn calls = none
        ∨ ∃ e, e ≠ PVRSRV_ERROR.PVRSRV_OK ∧ createOutcome cfn calls = some (e, 0)) →
      resmanFrees calls = [] ∧ directCalls dfn calls = [])

/-! ## Further definitions for the statements on the page array -/

/-- The number of page units that `_AllocOSPageArray` stores for a request of
`uiSize` bytes in units of `2 ^ uiLog2PageSize` bytes:
`(IMG_UINT32)(((uiSize-1)>>uiLog2PageSize) + 1)` in the 64-bit arithmetic of
`PMR_SIZE_T`. -/
def numPagesOf (uiSize uiLog2PageSize : Nat) : Nat :=
  u32 (u64 ((u64 (uiSize + (2 ^ 64 - 1)) >>> uiLog2PageSize) + 1))

/-- The state after one `PMRLockSysPhysAddressesOSMem` of a two-page on-demand
array over a kernel with pages to spare: the array holds the pages `100` and
`101`. -/
def lockedOnce : Snapshot :=
  match PMRLockSysPhysAddressesOSMem samplePlatform plentyEnv (sampleArray 2 true 0x200) 12
      OSState.init with
  | some r => { d := r.2.1, os := r.2.2 }
  | none => { d := sampleArray 2 true 0x200, os := OSState.init }

/-- The kernel calls that `_PoisonPages` makes for one unit, oldest first. -/
def poisonEvents (K : Platform) (page uiOrder : Nat) (pacPoisonData : List Nat)
    (uiPoisonSize : Nat) : List OSEvent :=
  (_PoisonPages K page uiOrder pacPoisonData uiPoisonSize OSState.init).log

/-- What `_FreeOSPages` is specified to do with the unit `page` of the array
`d`, in this order: poison it with the free-time pattern if `bPoisonOnFree`,
set the cache attribute of its mapping back to write-back if
`bUnsetMemoryType`, free it. -/
def freeUnitEvents (K : Platform) (env : OSEnv) (d : _PMR_OSPAGEARRAY_DATA_) (page : Nat) :
    List OSEvent :=
  (if d.bPoisonOnFree = true
   then poisonEvents K page (sub32 d.uiLog2PageSize K.PAGE_SHIFT) _FreePoison _FreePoisonSize
   else [])
  ++ (if d.bUnsetMemoryType = true then [OSEvent.set_memory_wb (env.page_address page)] else [])
  ++ [OSEvent.free_pages page (sub32 d.uiLog2PageSize K.PAGE_SHIFT)]

/-! ## The rgxta3d bridge: destroy-style entry points

The labels `..._exit` of these functions are followed by `return 0` alone, so
a jump to the label ends the function with the output structure as it is. -/

/-- The function `RGXDestroyHWRTDataResManProxy`: the result of
`ResManFreeResByPtr(hResmanItem)`, which the function asserts to be
`PVRSRV_OK` or `PVRSRV_ERROR_RETRY` and returns. -/
def RGXDestroyHWRTDataResManProxy {σ : Type} (S : Services σ) (hResmanItem : Nat) (c : Conn σ) :
    PVRSRV_ERROR × Conn σ :=
  Call.ResManFreeResByPtr S hResmanItem c

/-- The structure `PVRSRV_BRIDGE_IN_RGXDESTROYHWRTDATA`. -/
structure PVRSRV_BRIDGE_IN_RGXDESTROYHWRTDATA where
  hCleanupCookie : Nat
  deriving DecidableEq, Repr

/-- The structure `PVRSRV_BRIDGE_OUT_RGXDESTROYHWRTDATA`. -/
structure PVRSRV_BRIDGE_OUT_RGXDESTROYHWRTDATA where
  eError : PVRSRV_ERROR
  deriving DecidableEq, Repr

/-- The function `PVRSRVBridgeRGXDestroyHWRTData`. -/
def PVRSRVBridgeRGXDestroyHWRTData {σ : Type} (S : Services σ)
    (IN : PVRSRV_BRIDGE_IN_RGXDESTROYHWRTDATA) (OUT0 : PVRSRV_BRIDGE_OUT_RGXDESTROYHWRTDATA)
    (s : σ) : PVRSRV_BRIDGE_OUT_RGXDESTROYHWRTDATA × Conn σ :=
  let l1 := Call.PVRSRVLookupHandle S IN.hCleanupCookie
              PVRSRV_HANDLE_TYPE.PVRSRV_HANDLE_TYPE_RGX_RTDATA_CLEANUP { s := s, calls := [] }
  if l1.1.1 ≠ PVRSRV_ERROR.PVRSRV_OK then ({ OUT0 with eError := l1.1.1 }, l1.2)
  else
  let fr := RGXDestroyHWRTDataResManProxy S l1.1.2 l1.2
  if fr.1 ≠ PVRSRV_ERROR.PVRSRV_OK then ({ OUT0 with eError := fr.1 }, fr.2)
  else
  let rl := Call.PVRSRVReleaseHandle S IN.hCleanupCookie
              PVRSRV_HANDLE_TYPE.PVRSRV_HANDLE_TYPE_RGX_RTDATA_CLEANUP fr.2
  ({ OUT0 with eError := rl.1 }, rl.2)

/-- The function `RGXDestroyRenderTargetResManProxy`: the result of
`ResManFreeResByPtr(hResmanItem)`, which the function asserts to be
`PVRSRV_OK` or `PVRSRV_ERROR_RETRY` and returns. -/
def RGXDestroyRenderTargetResManProxy {σ : Type} (S : Services σ) (hResmanItem : Nat) (c : Conn σ) :
    PVRSRV_ERROR × Conn σ :=
  Call.ResManFreeResByPtr S hResmanItem c

/-- The structure `PVRSRV_BRIDGE_IN_RGXDESTROYRENDERTARGET`. -/
structure PVRSRV_BRIDGE_IN_RGXDESTROYRENDERTARGET where
  hsRenderTargetMemDesc : Nat
  deriving DecidableEq, Repr

/-- The structure `PVRSRV_BRIDGE_OUT_RGXDESTROYRENDERTARGET`. -/
structure PVRSRV_BRIDGE_OUT_RGXDESTROYRENDERTARGET where
  eError : PVRSRV_ERROR
  deriving DecidableEq, Repr

/-- The function `PVRSRVBridgeRGXDestroyRenderTarget`. -/
def PVRSRVBridgeRGXDestroyRenderTarget {σ : Type} (S : Services σ)
    (IN : PVRSRV_BRIDGE_IN_RGXDESTROYRENDERTARGET) (OUT0 : PVRSRV_BRIDGE_OUT_RGXDESTROYRENDERTARGET)
    (s : σ) : PVRSRV_BRIDGE_OUT_RGXDESTROYRENDERTARGET × Conn σ :=
  let l1 := Call.PVRSRVLookupHandle S IN.hsRenderTargetMemDesc
              PVRSRV_HANDLE_TYPE.PVRSRV_HANDLE_TYPE_RGX_FWIF_RENDERTARGET { s := s, calls := [] }
  if l1.1.1 ≠ PVRSRV_ERROR.PVRSRV_OK then ({ OUT0 with eError := l1.1.1 }, l1.2)
  else
  let fr := RGXDestroyRenderTargetResManProxy S l1.1.2 l1.2
  if fr.1 ≠ PVRSRV_ERROR.PVRSRV_OK then ({ OUT0 with eError := fr.1 }, fr.2)
  else
  let rl := Call.PVRSRVReleaseHandle S IN.hsRenderTargetMemDesc
              PVRSRV_HANDLE_TYPE.PVRSRV_HANDLE_TYPE_RGX_FWIF_RENDERTARGET fr.2
  ({ OUT0 with eError := rl.1 }, rl.2)

/-- The function `RGXDestroyZSBufferResManProxy`: the result of
`ResManFreeResByPtr(hResmanItem)`, which the function asserts to be
`PVRSRV_OK` or `PVRSRV_ERROR_RETRY` and returns. -/
def RGXDestroyZSBufferResManProxy {σ : Type} (S : Services σ) (hResmanItem : Nat) (c : Conn σ) :
    PVRSRV_ERROR × Conn σ :=
  Call.ResManFreeResByPtr S hResmanItem c

/-- The structure `PVRSRV_BRIDGE_IN_RGXDESTROYZSBUFFER`. -/
structure PVRSRV_BRIDGE_IN_RGXDESTROYZSBUFFER where
  hsZSBufferMemDesc : Nat
  deriving DecidableEq, Repr

/-- The structure `PVRSRV_BRIDGE_OUT_RGXDESTROYZSBUFFER`. -/
structure PVRSRV_BRIDGE_OUT_RGXDESTROYZSBUFFER where
  eError : PVRSRV_ERROR
  deriving DecidableEq, Repr

/-- The function `PVRSRVBridgeRGXDestroyZSBuffer`. -/
def PVRSRVBridgeRGXDestroyZSBuffer {σ : Type} (S : Services σ)
    (IN : PVRSRV_BRIDGE_IN_RGXDESTROYZSBUFFER) (OUT0 : PVRSRV_BRIDGE_OUT_RGXDESTROYZSBUFFER)
    (s : σ) : PVRSRV_BRIDGE_OUT_RGXDESTROYZSBUFFER × Conn σ :=
  let l1 := Call.PVRSRVLookupHandle S IN.hsZSBufferMemDesc
              PVRSRV_HANDLE_TYPE.PVRSRV_HANDLE_TYPE_RGX_FWIF_ZSBUFFER { s := s, calls := [] }
  if l1.1.1 ≠ PVRSRV_ERROR.PVRSRV_OK then ({ OUT0 with eError := l1.1.1 }, l1.2)
  else
  let fr := RGXDestroyZSBufferResManProxy S l1.1.2 l1.2
  if fr.1 ≠ PVRSRV_ERROR.PVRSRV_OK then ({ OUT0 with eError := fr.1 }, fr.2)
  else
  let rl := Call.PVRSRVReleaseHandle S IN.hsZSBufferMemDesc
              PVRSRV_HANDLE_TYPE.PVRSRV_HANDLE_TYPE_RGX_FWIF_ZSBUFFER fr.2
  ({ OUT0 with eError := rl.1 }, rl.2)

/-- The function `RGXUnpopulateZSBufferResManProxy`: the result of
`ResManFreeResByPtr(hResmanItem)`, which the function asserts to be
`PVRSRV_OK` or `PVRSRV_ERROR_RETRY` and returns. -/
def RGXUnpopulateZSBufferResManProxy {σ : Type} (S : Services σ) (hResmanItem : Nat) (c : Conn σ) :
    PVRSRV_ERROR × Conn σ :=
  Call.ResManFreeResByPtr S hResmanItem c

/-- The structure `PVRSRV_BRIDGE_IN_RGXUNPOPULATEZSBUFFER`. -/
structure PVRSRV_BRIDGE_IN_RGXUNPOPULATEZSBUFFER where
  hsPopulation : Nat
  deriving DecidableEq, Repr

/-- The structure `PVRSRV_BRIDGE_OUT_RGXUNPOPULATEZSBUFFER`. -/
structure PVRSRV_BRIDGE_OUT_RGXUNPOPULATEZSBUFFER where
  eError : PVRSRV_ERROR
  deriving DecidableEq, Repr

/-- The function `PVRSRVBridgeRGXUnpopulateZSBuffer`. -/
def PVRSRVBridgeRGXUnpopulateZSBuffer {σ : Type} (S : Services σ)
    (IN : PVRSRV_BRIDGE_IN_RGXUNPOPULATEZSBUFFER) (OUT0 : PVRSRV_BRIDGE_OUT_RGXUNPOPULATEZSBUFFER)
    (s : σ) : PVRSRV_BRIDGE_OUT_RGXUNPOPULATEZSBUFFER × Conn σ :=
  let l1 := Call.PVRSRVLookupHandle S IN.hsPopulation
              PVRSRV_HANDLE_TYPE.PVRSRV_HANDLE_TYPE_RGX_POPULATION { s := s, calls := [] }
  if l1.1.1 ≠ PVRSRV_ERROR.PVRSRV_OK then ({ OUT0 with eError := l1.1.1 }, l1.2)
  else
  let fr := RGXUnpopulateZSBufferResManProxy S l1.1.2 l1.2
  if fr.1 ≠ PVRSRV_ERROR.PVRSRV_OK then ({ OUT0 with eError := fr.1 }, fr.2)
  else
  let rl := Call.PVRSRVReleaseHandle S IN.hsPopulation
              PVRSRV_HANDLE_TYPE.PVRSRV_HANDLE_TYPE_RGX_POPULATION fr.2
  ({ OUT0 with eError := rl.1 }, rl.2)

/-- The function `RGXDestroyFreeListResManProxy`: the result of
`ResManFreeResByPtr(hResmanItem)`, which the function asserts to be
`PVRSRV_OK` or `PVRSRV_ERROR_RETRY` and returns. -/
def RGXDestroyFreeListResManProxy {σ : Type} (S : Services σ) (hResmanItem : Nat) (c : Conn σ) :
    PVRSRV_ERROR × Conn σ :=
  Call.ResManFreeResByPtr S hResmanItem c

/-- The structure `PVRSRV_BRIDGE_IN_RGXDESTROYFREELIST`. -/
structure PVRSRV_BRIDGE_IN_RGXDESTROYFREELIST where
  hCleanupCookie : Nat
  deriving DecidableEq, Repr

/-- The structure `PVRSRV_BRIDGE_OUT_RGXDESTROYFREELIST`. -/
structure PVRSRV_BRIDGE_OUT_RGXDESTROYFREELIST where
  eError : PVRSRV_ERROR
  deriving DecidableEq, Repr

/-- The function `PVRSRVBridgeRGXDestroyFreeList`. -/
def PVRSRVBridgeRGXDestroyFreeList {σ : Type} (S : Services σ)
    (IN : PVRSRV_BRIDGE_IN_RGXDESTROYFREELIST) (OUT0 : PVRSRV_BRIDGE_OUT_RGXDESTROYFREELIST)
    (s : σ) : PVRSRV_BRIDGE_OUT_RGXDESTROYFREELIST × Conn σ :=
  let l1 := Call.PVRSRVLookupHandle S IN.hCleanupCookie
              PVRSRV_HANDLE_TYPE.PVRSRV_HANDLE_TYPE_RGX_FREELIST { s := s, calls := [] }
  if l1.1.1 ≠ PVRSRV_ERROR.PVRSRV_OK then ({ OUT0 with eError := l1.1.1 }, l1.2)
  else
  let fr := RGXDestroyFreeListResManProxy S l1.1.2 l1.2
  if fr.1 ≠ PVRSRV_ERROR.PVRSRV_OK then ({ OUT0 with eError := fr.1 }, fr.2)
  else
  let rl := Call.PVRSRVReleaseHandle S IN.hCleanupCookie
              PVRSRV_HANDLE_TYPE.PVRSRV_HANDLE_TYPE_RGX_FREELIST fr.2
  ({ OUT0 with eError := rl.1 }, rl.2)

/-- The function `RGXDestroyRenderContextResManProxy`: the result of
`ResManFreeResByPtr(hResmanItem)`, which the function asserts to be
`PVRSRV_OK` or `PVRSRV_ERROR_RETRY` and returns. -/
def RGXDestroyRenderContextResManProxy {σ : Type} (S : Services σ) (hResmanItem : Nat) (c : Conn σ) :
    PVRSRV_ERROR × Conn σ :=
  Call.ResManFreeResByPtr S hResmanItem c

/-- The structure `PVRSRV_BRIDGE_IN_RGXDESTROYRENDERCONTEXT`. -/
structure PVRSRV_BRIDGE_IN_RGXDESTROYRENDERCONTEXT where
  hCleanupCookie : Nat
  deriving DecidableEq, Repr

/-- The structure `PVRSRV_BRIDGE_OUT_RGXDESTROYRENDERCONTEXT`. -/
structure PVRSRV_BRIDGE_OUT_RGXDESTROYRENDERCONTEXT where
  eError : PVRSRV_ERROR
  deriving DecidableEq, Repr

/-- The function `PVRSRVBridgeRGXDestroyRenderContext`. -/
def PVRSRVBridgeRGXDestroyRenderContext {σ : Type} (S : Services σ)
    (IN : PVRSRV_BRIDGE_IN_RGXDESTROYRENDERCONTEXT) (OUT0 : PVRSRV_BRIDGE_OUT_RGXDESTROYRENDERCONTEXT)
    (s : σ) : PVRSRV_BRIDGE_OUT_RGXDESTROYRENDERCONTEXT × Conn σ :=
  let l1 := Call.PVRSRVLookupHandle S IN.hCleanupCookie
              PVRSRV_HANDLE_TYPE.PVRSRV_HANDLE_TYPE_RGX_RC_CLEANUP { s := s, calls := [] }
  if l1.1.1 ≠ PVRSRV_ERROR.PVRSRV_OK then ({ OUT0 with eError := l1.1.1 }, l1.2)
  else
  let fr := RGXDestroyRenderContextResManProxy S l1.1.2 l1.2
  if fr.1 ≠ PVRSRV_ERROR.PVRSRV_OK then ({ OUT0 with eError := fr.1 }, fr.2)
  else
  let rl := Call.PVRSRVReleaseHandle S IN.hCleanupCookie
              PVRSRV_HANDLE_TYPE.PVRSRV_HANDLE_TYPE_RGX_RC_CLEANUP fr.2
  ({ OUT0 with eError := rl.1 }, rl.2)

/-! ## The rgxta3d bridge: free-list blocks and the kick -/

/-- The structure `PVRSRV_BRIDGE_IN_RGXADDBLOCKTOFREELIST`. -/
structure PVRSRV_BRIDGE_IN_RGXADDBLOCKTOFREELIST where
  hsFreeList : Nat
  ui3232NumPages : Nat
  deriving DecidableEq, Repr

/-- The structure `PVRSRV_BRIDGE_OUT_RGXADDBLOCKTOFREELIST`. -/
structure PVRSRV_BRIDGE_OUT_RGXADDBLOCKTOFREELIST where
  eError : PVRSRV_ERROR
  deriving DecidableEq, Repr

/-- The function `PVRSRVBridgeRGXAddBlockToFreeList`. -/
def PVRSRVBridgeRGXAddBlockToFreeList {σ : Type} (S : Services σ)
    (IN : PVRSRV_BRIDGE_IN_RGXADDBLOCKTOFREELIST)
    (OUT0 : PVRSRV_BRIDGE_OUT_RGXADDBLOCKTOFREELIST) (s : σ) :
    PVRSRV_BRIDGE_OUT_RGXADDBLOCKTOFREELIST × Conn σ :=
  let l1 := Call.PVRSRVLookupHandle S IN.hsFreeList
              PVRSRV_HANDLE_TYPE.PVRSRV_HANDLE_TYPE_RGX_FREELIST { s := s, calls := [] }
  if l1.1.1 ≠ PVRSRV_ERROR.PVRSRV_OK then ({ OUT0 with eError := l1.1.1 }, l1.2)
  else
  let f1 := Call.ResManFindPrivateDataByPtr S l1.1.2 l1.2
  if f1.1.1 ≠ PVRSRV_ERROR.PVRSRV_OK then ({ OUT0 with eError := f1.1.1 }, f1.2)
  else
  let dc := Call.domain S DomainFn.RGXAddBlockToFreeListKM [f1.1.2, IN.ui3232NumPages] f1.2
  ({ OUT0 with eError := dc.1.1 }, dc.2)

/-- The structure `PVRSRV_BRIDGE_IN_RGXREMOVEBLOCKFROMFREELIST`. -/
structure PVRSRV_BRIDGE_IN_RGXREMOVEBLOCKFROMFREELIST where
  hsFreeList : Nat
  deriving DecidableEq, Repr

/-- The structure `PVRSRV_BRIDGE_OUT_RGXREMOVEBLOCKFROMFREELIST`. -/
structure PVRSRV_BRIDGE_OUT_RGXREMOVEBLOCKFROMFREELIST where
  eError : PVRSRV_ERROR
  deriving DecidableEq, Repr

/-- The function `PVRSRVBridgeRGXRemoveBlockFromFreeList`. -/
def PVRSRVBridgeRGXRemoveBlockFromFreeList {σ : Type} (S : Services σ)
    (IN : PVRSRV_BRIDGE_IN_RGXREMOVEBLOCKFROMFREELIST)
    (OUT0 : PVRSRV_BRIDGE_OUT_RGXREMOVEBLOCKFROMFREELIST) (s : σ) :
    PVRSRV_BRIDGE_OUT_RGXREMOVEBLOCKFROMFREELIST × Conn σ :=
  let l1 := Call.PVRSRVLookupHandle S IN.hsFreeList
              PVRSRV_HANDLE_TYPE.PVRSRV_HANDLE_TYPE_RGX_FREELIST { s := s, calls := [] }
  if l1.1.1 ≠ PVRSRV_ERROR.PVRSRV_OK then ({ OUT0 with eError := l1.1.1 }, l1.2)
  else
  let f1 := Call.ResManFindPrivateDataByPtr S l1.1.2 l1.2
  if f1.1.1 ≠ PVRSRV_ERROR.PVRSRV_OK then ({ OUT0 with eError := f1.1.1 }, f1.2)
  else
  let dc := Call.domain S DomainFn.RGXRemoveBlockFromFreeListKM [f1.1.2] f1.2
  ({ OUT0 with eError := dc.1.1 }, dc.2)

/-- The structure `PVRSRV_BRIDGE_IN_RGXKICKTA3D`. -/
structure PVRSRV_BRIDGE_IN_RGXKICKTA3D where
  hDevNode : Nat
  hFWRenderContext : Nat
  bbLastTAInScene : Nat
  bbKickTA : Nat
  bbKickPR : Nat
  bbKick3D : Nat
  ui32TAcCCBWoffUpdate : Nat
  ui323DcCCBWoffUpdate : Nat
  bbPDumpContinuous : Nat
  hRTDataCleanup : Nat
  hZBuffer : Nat
  hSBuffer : Nat
  deriving DecidableEq, Repr

/-- The structure `PVRSRV_BRIDGE_OUT_RGXKICKTA3D`. -/
structure PVRSRV_BRIDGE_OUT_RGXKICKTA3D where
  eError : PVRSRV_ERROR
  deriving DecidableEq, Repr

/-- The block guarded by `if (h)` that `PVRSRVBridgeRGXKickTA3D` has for each
of `hRTDataCleanup`, `hZBuffer` and `hSBuffer`: for a handle that is not null,
`PVRSRVLookupHandle` with the type `eType`, then `ResManFindPrivateDataByPtr`
on the item found.  The result is the error of the call that failed, if one
did, and the private-data pointer, which stays null when the block is
skipped. -/
def lookupIfSet {σ : Type} (S : Services σ) (h : Nat) (eType : PVRSRV_HANDLE_TYPE)
    (c : Conn σ) : (Option PVRSRV_ERROR × Nat) × Conn σ :=
  if h ≠ 0 then
    let l := Call.PVRSRVLookupHandle S h eType c
    if l.1.1 ≠ PVRSRV_ERROR.PVRSRV_OK then ((some l.1.1, 0), l.2)
    else
      let f := Call.ResManFindPrivateDataByPtr S l.1.2 l.2
      if f.1.1 ≠ PVRSRV_ERROR.PVRSRV_OK then ((some f.1.1, f.1.2), f.2)
      else ((none, f.1.2), f.2)
  else ((none, 0), c)

/-- The function `PVRSRVBridgeRGXKickTA3D`. -/
def PVRSRVBridgeRGXKickTA3D {σ : Type} (S : Services σ)
    (IN : PVRSRV_BRIDGE_IN_RGXKICKTA3D) (OUT0 : PVRSRV_BRIDGE_OUT_RGXKICKTA3D) (s : σ) :
    PVRSRV_BRIDGE_OUT_RGXKICKTA3D × Conn σ :=
  let l1 := Call.PVRSRVLookupHandle S IN.hDevNode
              PVRSRV_HANDLE_TYPE.PVRSRV_HANDLE_TYPE_DEV_NODE { s := s, calls := [] }
  if l1.1.1 ≠ PVRSRV_ERROR.PVRSRV_OK then ({ OUT0 with eError := l1.1.1 }, l1.2)
  else
  let l2 := Call.PVRSRVLookupHandle S IN.hFWRenderContext
              PVRSRV_HANDLE_TYPE.PVRSRV_HANDLE_TYPE_RGX_FW_MEMDESC l1.2
  if l2.1.1 ≠ PVRSRV_ERROR.PVRSRV_OK then ({ OUT0 with eError := l2.1.1 }, l2.2)
  else
  let rt := lookupIfSet S IN.hRTDataCleanup
              PVRSRV_HANDLE_TYPE.PVRSRV_HANDLE_TYPE_RGX_RTDATA_CLEANUP l2.2
  match rt.1.1 with
  | some e => ({ OUT0 with eError := e }, rt.2)
  | none =>
  let zb := lookupIfSet S IN.hZBuffer
              PVRSRV_HANDLE_TYPE.PVRSRV_HANDLE_TYPE_RGX_FWIF_ZSBUFFER rt.2
  match zb.1.1 with
  | some e => ({ OUT0 with eError := e }, zb.2)
  | none =>
  let sb := lookupIfSet S IN.hSBuffer
              PVRSRV_HANDLE_TYPE.PVRSRV_HANDLE_TYPE_RGX_FWIF_ZSBUFFER zb.2
  match sb.1.1 with
  | some e => ({ OUT0 with eError := e }, sb.2)
  | none =>
  let dc := Call.domain S DomainFn.PVRSRVRGXKickTA3DKM
              [l1.1.2, l2.1.2, IN.bbLastTAInScene, IN.bbKickTA, IN.bbKickPR, IN.bbKick3D,
               IN.ui32TAcCCBWoffUpdate, IN.ui323DcCCBWoffUpdate, IN.bbPDumpContinuous,
               rt.1.2, zb.1.2, sb.1.2] sb.2
  ({ OUT0 with eError := dc.1.1 }, dc.2)

/-! ## Requests to the bridge -/

/-- A call of one of the six destroy-style entry points. -/
inductive DestroyRequest where
  | HWRTData (IN : PVRSRV_BRIDGE_IN_RGXDESTROYHWRTDATA)
      (OUT0 : PVRSRV_BRIDGE_OUT_RGXDESTROYHWRTDATA)
  | RenderTarget (IN : PVRSRV_BRIDGE_IN_RGXDESTROYRENDERTARGET)
      (OUT0 : PVRSRV_BRIDGE_OUT_RGXDESTROYRENDERTARGET)
  | ZSBuffer (IN : PVRSRV_BRIDGE_IN_RGXDESTROYZSBUFFER)
      (OUT0 : PVRSRV_BRIDGE_OUT_RGXDESTROYZSBUFFER)
  | UnpopulateZSBuffer (IN : PVRSRV_BRIDGE_IN_RGXUNPOPULATEZSBUFFER)
      (OUT0 : PVRSRV_BRIDGE_OUT_RGXUNPOPULATEZSBUFFER)
  | FreeList (IN : PVRSRV_BRIDGE_IN_RGXDESTROYFREELIST)
      (OUT0 : PVRSRV_BRIDGE_OUT_RGXDESTROYFREELIST)
  | RenderContext (IN : PVRSRV_BRIDGE_IN_RGXDESTROYRENDERCONTEXT)
      (OUT0 : PVRSRV_BRIDGE_OUT_RGXDESTROYRENDERCONTEXT)

/-- The handle that the request passes in. -/
def DestroyRequest.handle : DestroyRequest → Nat
  | HWRTData IN _ => IN.hCleanupCookie
  | RenderTarget IN _ => IN.hsRenderTargetMemDesc
  | ZSBuffer IN _ => IN.hsZSBufferMemDesc
  | UnpopulateZSBuffer IN _ => IN.hsPopulation
  | FreeList IN _ => IN.hCleanupCookie
  | RenderContext IN _ => IN.hCleanupCookie

/-- The type tag that the entry point of the request gives to
`PVRSRVLookupHandle` and `PVRSRVReleaseHandle`. -/
def DestroyRequest.handleType : DestroyRequest → PVRSRV_HANDLE_TYPE
  | HWRTData _ _ => PVRSRV_HANDLE_TYPE.PVRSRV_HANDLE_TYPE_RGX_RTDATA_CLEANUP
  | RenderTarget _ _ => PVRSRV_HANDLE_TYPE.PVRSRV_HANDLE_TYPE_RGX_FWIF_RENDERTARGET
  | ZSBuffer _ _ => PVRSRV_HANDLE_TYPE.PVRSRV_HANDLE_TYPE_RGX_FWIF_ZSBUFFER
  | UnpopulateZSBuffer _ _ => PVRSRV_HANDLE_TYPE.PVRSRV_HANDLE_TYPE_RGX_POPULATION
  | FreeList _ _ => PVRSRV_HANDLE_TYPE.PVRSRV_HANDLE_TYPE_RGX_FREELIST
  | RenderContext _ _ => PVRSRV_HANDLE_TYPE.PVRSRV_HANDLE_TYPE_RGX_RC_CLEANUP

/-- The entry point of the request run on the collaborator state `s`: the
`eError` of its output structure, and the state of the collaborators with the
calls it made. -/
def DestroyRequest.run {σ : Type} (S : Services σ) (s : σ) :
    DestroyRequest → PVRSRV_ERROR × Conn σ
  | HWRTData IN OUT0 =>
    let r := PVRSRVBridgeRGXDestroyHWRTData S IN OUT0 s
    (r.1.eError, r.2)
  | RenderTarget IN OUT0 =>
    let r := PVRSRVBridgeRGXDestroyRenderTarget S IN OUT0 s
    (r.1.eError, r.2)
  | ZSBuffer IN OUT0 =>
    let r := PVRSRVBridgeRGXDestroyZSBuffer S IN OUT0 s
    (r.1.eError, r.2)
  | UnpopulateZSBuffer IN OUT0 =>
    let r := PVRSRVBridgeRGXUnpopulateZSBuffer S IN OUT0 s
    (r.1.eError, r.2)
  | FreeList IN OUT0 =>
    let r := PVRSRVBridgeRGXDestroyFreeList S IN OUT0 s
    (r.1.eError, r.2)
  | RenderContext IN OUT0 =>
    let r := PVRSRVBridgeRGXDestroyRenderContext S IN OUT0 s
    (r.1.eError, r.2)

/-- A call of one of the fifteen entry points of the rgxta3d bridge. -/
inductive BridgeRequest where
  | create (req : CreateRequest)
  | destroy (req : DestroyRequest)
  | AddBlockToFreeList (IN : PVRSRV_BRIDGE_IN_RGXADDBLOCKTOFREELIST)
      (OUT0 : PVRSRV_BRIDGE_OUT_RGXADDBLOCKTOFREELIST)
  | RemoveBlockFromFreeList (IN : PVRSRV_BRIDGE_IN_RGXREMOVEBLOCKFROMFREELIST)
      (OUT0 : PVRSRV_BRIDGE_OUT_RGXREMOVEBLOCKFROMFREELIST)
  | KickTA3D (IN : PVRSRV_BRIDGE_IN_RGXKICKTA3D) (OUT0 : PVRSRV_BRIDGE_OUT_RGXKICKTA3D)

/-- The entry point of the request run on the collaborator state `s`: the
`eError` of its output structure and the calls it made. -/
def BridgeRequest.run {σ : Type} (S : Services σ) (s : σ) :
    BridgeRequest → PVRSRV_ERROR × List BridgeCall
  | create req => req.run S s
  | destroy req => ((req.run S s).1, (req.run S s).2.calls)
  | AddBlockToFreeList IN OUT0 =>
    let r := PVRSRVBridgeRGXAddBlockToFreeList S IN OUT0 s
    (r.1.eError, r.2.calls)
  | RemoveBlockFromFreeList IN OUT0 =>
    let r := PVRSRVBridgeRGXRemoveBlockFromFreeList S IN OUT0 s
    (r.1.eError, r.2.calls)
  | KickTA3D IN OUT0 =>
    let r := PVRSRVBridgeRGXKickTA3D S IN OUT0 s
    (r.1.eError, r.2.calls)

/-! ## Observations on the calls of any entry point -/

/-- The calls that the code after the exit label of a create-style entry point
makes, given what it reads: the `eError` and the `hCleanupCookie` of the
output structure (`0` for the four entry points whose cleanup releases no
handle), the registered item, the domain object, the scratch buffers, and the
results `rr`, `fr`, `de`, `dout` of the calls.  On an error: the release of the
handle if it is not null, then `ResManFreeResByPtr` on the item if there is
one, else the destructor `dfn` on the object if there is one.  Then, error or
not, `OSFreeMem` on every scratch buffer that is not null. -/
def cleanupCalls (eType : PVRSRV_HANDLE_TYPE) (dfn : DomainFn) (eError : PVRSRV_ERROR)
    (hCleanupCookie item obj : Nat) (scratch : List Nat)
    (rr fr de : PVRSRV_ERROR) (dout : List Nat) : List BridgeCall :=
  (if eError ≠ PVRSRV_ERROR.PVRSRV_OK then
     (if hCleanupCookie ≠ 0 then [BridgeCall.PVRSRVReleaseHandle hCleanupCookie eType rr]
      else [])
     ++ (if item ≠ 0 then [BridgeCall.ResManFreeResByPtr item fr]
         else if obj ≠ 0 then [BridgeCall.domain dfn [obj] de dout]
         else [])
   else [])
  ++ (scratch.filter (fun p => decide (p ≠ 0))).map BridgeCall.OSFreeMem

/-- The calls of a `lookupIfSet` block that succeeds: none for a null handle,
else the handle lookup that found the item `d` and the private-data lookup
that found `v`. -/
def lookupIfSetCalls (h : Nat) (eType : PVRSRV_HANDLE_TYPE) (d v : Nat) : List BridgeCall :=
  if h ≠ 0 then
    [BridgeCall.PVRSRVLookupHandle h eType PVRSRV_ERROR.PVRSRV_OK d,
     BridgeCall.ResManFindPrivateDataByPtr d PVRSRV_ERROR.PVRSRV_OK v]
  else []

/-- The result of a call of `PVRSRVLookupHandle` or
`ResManFindPrivateDataByPtr`; `none` for any other call. -/
def BridgeCall.lookupResult : BridgeCall → Option PVRSRV_ERROR
  | BridgeCall.PVRSRVLookupHandle _ _ ret _ => some ret
  | BridgeCall.ResManFindPrivateDataByPtr _ ret _ => some ret
  | _ => none

/-- Every call in `l` is a lookup (`PVRSRVLookupHandle` or
`ResManFindPrivateDataByPtr`) that returned `PVRSRV_OK`. -/
def lookupsOK (l : List BridgeCall) : Prop :=
  ∀ x ∈ l, x.lookupResult = some PVRSRV_ERROR.PVRSRV_OK

/-- The first lookup (`PVRSRVLookupHandle` or `ResManFindPrivateDataByPtr`)
among the calls that did not return `PVRSRV_OK`: its error and the calls made
after it; `none` if every lookup returned `PVRSRV_OK`. -/
def afterFailedLookup : List BridgeCall → Option (PVRSRV_ERROR × List BridgeCall)
  | [] => none
  | c :: l =>
    match c.lookupResult with
    | some e => if e ≠ PVRSRV_ERROR.PVRSRV_OK then some (e, l) else afterFailedLookup l
    | none => afterFailedLookup l

/-- The call is an `OSFreeMem`. -/
def BridgeCall.isOSFreeMem : BridgeCall → Bool
  | BridgeCall.OSFreeMem _ => true
  | _ => false

/-- The call invokes a function of `rgxta3d.h`, registers or frees an item of
the resource manager, or allocates or releases a handle. -/
def BridgeCall.isEffect : BridgeCall → Bool
  | BridgeCall.domain _ _ _ _ => true
  | BridgeCall.ResManRegisterRes _ _ _ _ => true
  | BridgeCall.ResManFreeResByPtr _ _ => true
  | BridgeCall.PVRSRVAllocHandle _ _ _ _ => true
  | BridgeCall.PVRSRVAllocSubHandle _ _ _ _ _ => true
  | BridgeCall.PVRSRVReleaseHandle _ _ _ => true
  | _ => false

/-- The call registers or frees an item of the resource manager, or allocates
or releases a handle. -/
def BridgeCall.changesRegistry : BridgeCall → Bool
  | BridgeCall.ResManRegisterRes _ _ _ _ => true
  | BridgeCall.ResManFreeResByPtr _ _ => true
  | BridgeCall.PVRSRVAllocHandle _ _ _ _ => true
  | BridgeCall.PVRSRVAllocSubHandle _ _ _ _ _ => true
  | BridgeCall.PVRSRVReleaseHandle _ _ _ => true
  | _ => false

/-- Every call in `l` is an `OSFreeMem`. -/
def onlyOSFreeMem (l : List BridgeCall) : Prop := ∀ c ∈ l, c.isOSFreeMem = true

/-- No call in `l` invokes a function of `rgxta3d.h`, registers or frees an
item of the resource manager, or allocates or releases a handle. -/
def noEffect (l : List BridgeCall) : Prop := ∀ c ∈ l, c.isEffect = false

/-- No call in `l` registers or frees an item of the resource manager, or
allocates or releases a handle. -/
def registryUntouched (l : List BridgeCall) : Prop := ∀ c ∈ l, c.changesRegistry = false

/-- A failed lookup short-circuits: if some lookup among `calls` did not
return `PVRSRV_OK`, then `eError` is the error of the first such lookup, the
calls made after it are `OSFreeMem` calls only (so no later lookup), and no
call at all invokes a function of `rgxta3d.h`, registers or frees an item, or
allocates or releases a handle. -/
def lookupShortCircuit (eError : PVRSRV_ERROR) (calls : List BridgeCall) : Prop :=
  ∀ E rest, afterFailedLookup calls = some (E, rest) →
    eError = E ∧ onlyOSFreeMem rest ∧ noEffect calls

/-- The body that the six destroy-style entry points share, for the handle `h`
and the type tag `eType`: the `eError` of the output structure, and the state
of the collaborators with the calls made. -/
def destroyWith {σ : Type} (S : Services σ) (h : Nat) (eType : PVRSRV_HANDLE_TYPE) (s : σ) :
    PVRSRV_ERROR × Conn σ :=
  let l1 := Call.PVRSRVLookupHandle S h eType { s := s, calls := [] }
  if l1.1.1 ≠ PVRSRV_ERROR.PVRSRV_OK then (l1.1.1, l1.2)
  else
  let fr := Call.ResManFreeResByPtr S l1.1.2 l1.2
  if fr.1 ≠ PVRSRV_ERROR.PVRSRV_OK then (fr.1, fr.2)
  else
  let rl := Call.PVRSRVReleaseHandle S h eType fr.2
  (rl.1, rl.2)

/-- A connection that holds a handle `3` on the resource manager item `2` of a
free list `300`, which has outstanding dependents, so that its destructor
answers `Retry`. -/
def busyWorld : World where
  handles := [{ handle := 3, eType := PVRSRV_HANDLE_TYPE.PVRSRV_HANDLE_TYPE_RGX_FREELIST,
                data := 2, parent := 0 }]
  handlesMade := 3
  handleBudget := 4
  items := [{ item := 2, eType := RESMAN_TYPE.RESMAN_TYPE_RGX_FWIF_FREELIST, param := 300,
              pfnFree := DomainFn.RGXDestroyFreeList }]
  itemsMade := 2
  itemBudget := 4
  objects := [300]
  objectsMade := 300
  createResult := PVRSRV_ERROR.PVRSRV_OK
  dependents := [300]
  destructorRuns := []
  memMade := 0
  memBudget := 4
  userWords := []

/-- The request to destroy the free list behind the handle `3`. -/
def sampleDestroyRequest : DestroyRequest :=
  DestroyRequest.FreeList { hCleanupCookie := 3 } { eError := PVRSRV_ERROR.PVRSRV_OK }

/-- The connection of `busyWorld` with a handle `1` on a device node `100` as
well, where a copy from user memory delivers the free-list handles `3` and
`9`, of which `9` is not a handle of the connection. -/
def freeListsWorld : World :=
  { busyWorld with
    handles := { handle := 1, eType := PVRSRV_HANDLE_TYPE.PVRSRV_HANDLE_TYPE_DEV_NODE,
                 data := 100, parent := 0 } :: busyWorld.handles
    userWords := [3, 9] }

/-- A `PVRSRVBridgeRGXCreateHWRTData` request on `freeListsWorld`, with two
free lists for each render-target data set. -/
def sampleHWRTDataRequest : BridgeRequest :=
  BridgeRequest.create (CreateRequest.HWRTData
    { RGXFW_MAX_FREELISTS := 2, RGXFWIF_RF_CMD_SIZE := 64, sizeofPointer := 8 }
    { hDevNode := 1, ui32RenderTarget := 0, sPMMlistDevVAddr := 0, sVFPPageTableAddr := 0,
      phapsFreeLists := 4096, ui32PPPScreen := 0, ui32PPPGridOffset := 0,
      ui64PPPMultiSampleCtl := 0, ui32TPCStride := 0, sTailPtrsDevVAddr := 0, ui32TPCSize := 0,
      ui32TEScreen := 0, ui32TEAA := 0, ui32TEMTILE1 := 0, ui32TEMTILE2 := 0,
      ui32MTileStride := 0, ui16MaxRTs := 1 }
    { hCleanupCookie := 0, hRTACtlMemDesc := 0, hsHWRTDataMemDesc := 0, ui32FWHWRTData := 0,
      eError := PVRSRV_ERROR.PVRSRV_OK })

/-! ## Further definitions for the statements on the page array and the factory -/

/-- The byte that a repeating pattern of `uiPoisonSize` bytes has at the byte
offset `j`. -/
def patternByte (pacPoisonData : List Nat) (uiPoisonSize : Nat) (j : Nat) : Nat :=
  pacPoisonData.getD (j % uiPoisonSize) 0

/-- The bytes of sub-page `i` of a unit filled with the repeating pattern, the
phase carried on from the sub-pages before it. -/
def patternPage (K : Platform) (pacPoisonData : List Nat) (uiPoisonSize : Nat) (i : Nat) :
    List Nat :=
  (List.range K.PAGE_SIZE).map
    (fun j => patternByte pacPoisonData uiPoisonSize (i * K.PAGE_SIZE + j))

/-- PagesBound: every slot of the table holds a page, and the page units that
the driver holds are those of the slots, one unit per slot, besides the units
`H` that it holds for others. -/
def unitsBound (H : List Nat) (d : _PMR_OSPAGEARRAY_DATA_) (os : OSState) : Prop :=
  (∀ p ∈ d.pagearray, p ≠ 0) ∧ os.held.Perm (d.pagearray ++ H)

/-- PagesUnbound: the driver holds the units `H` that it holds for others, and
none for the array. -/
def noUnits (H : List Nat) (os : OSState) : Prop := os.held.Perm H

/-- The two states of a page array: `bHasOSPages` is set and the units are
bound, or it is clear and the array holds no unit. -/
def hasPagesInv (H : List Nat) (d : _PMR_OSPAGEARRAY_DATA_) (os : OSState) : Prop :=
  (d.bHasOSPages = true ∧ unitsBound H d os) ∨ (d.bHasOSPages = false ∧ noUnits H os)

/-- The calls of one pass of the unwind loop of `_AllocOSPages`, on the unit
`page`: with `bUnsetMemoryType` set the mapping goes back to write-back, then
the unit is freed. -/
def unwindUnitEvents (env : OSEnv) (d : _PMR_OSPAGEARRAY_DATA_) (uiOrder page : Nat) :
    List OSEvent :=
  (if d.bUnsetMemoryType = true then [OSEvent.set_memory_wb (env.page_address page)] else [])
  ++ [OSEvent.free_pages page uiOrder]

/-- The tables that `kmalloc` returned, in the order of the calls. -/
def tablesMade : List OSEvent → List Nat
  | [] => []
  | OSEvent.kmalloc _ p :: l => if p = 0 then tablesMade l else p :: tablesMade l
  | _ :: l => tablesMade l

/-- The tables given back with `kfree`, in the order of the calls. -/
def tablesFreed : List OSEvent → List Nat
  | [] => []
  | OSEvent.kfree p :: l => p :: tablesFreed l
  | _ :: l => tablesFreed l

/-- A kernel state in which the thread has `PF_DUMPCORE` (`0x200`) set along
with the flag `0x40`. -/
def dumpcoreSet : OSState := { OSState.init with flags := 0x240 }

/-- A kernel on which `set_memory_uc` fails for the third page handed out. -/
def cacheFailEnv : OSEnv :=
  { sampleEnv 0 with
    alloc_pages := fun n => { page := 100 + n, setMemRet := if n = 2 then -1 else 0 } }


/-- The kernel states `os` and `os1` have seen the same `kmalloc` results and
the same `kfree` calls. -/
def sameTableCalls (os os1 : OSState) : Prop :=
  tablesMade os1.log = tablesMade os.log ∧ tablesFreed os1.log = tablesFreed os.log

/-- The change of the cache attribute fails for the unit of the `n`-th
`alloc_pages` call, for an array with cache mode `cache`: a page is returned,
it has a kernel mapping, the mode asks for `set_memory_uc` or `set_memory_wc`,
and that call returns non-zero. -/
def cacheFails (K : Platform) (env : OSEnv) (cache : Nat) (n : Nat) : Prop :=
  (env.alloc_pages n).page ≠ 0 ∧ env.page_address (env.alloc_pages n).page ≠ 0
  ∧ (cache = K.PVRSRV_MEMALLOCFLAG_CPU_UNCACHED
      ∨ cache = K.PVRSRV_MEMALLOCFLAG_CPU_WRITE_COMBINE)
  ∧ (env.alloc_pages n).setMemRet ≠ 0

/-- The kernel calls of a pass of the allocation loop of `_AllocOSPages` that
keeps the unit of the `n`-th `alloc_pages` call: the allocation, the change of
the cache attribute if the page has a mapping and the mode asks for one, and
the alloc-time poisoning if `bPoisonOnAlloc`. -/
def keptUnitEvents (K : Platform) (env : OSEnv) (d : _PMR_OSPAGEARRAY_DATA_)
    (uiOrder n : Nat) : List OSEvent :=
  [OSEvent.alloc_pages d.bZero uiOrder (env.alloc_pages n).page]
  ++ (if env.page_address (env.alloc_pages n).page ≠ 0 then
        if d.ui32CPUCacheFlags = K.PVRSRV_MEMALLOCFLAG_CPU_UNCACHED then
          [OSEvent.set_memory_uc (env.page_address (env.alloc_pages n).page)
            (env.alloc_pages n).setMemRet]
        else if d.ui32CPUCacheFlags = K.PVRSRV_MEMALLOCFLAG_CPU_WRITE_COMBINE then
          [OSEvent.set_memory_wc (env.page_address (env.alloc_pages n).page)
            (env.alloc_pages n).setMemRet]
        else []
      else [])
  ++ (if d.bPoisonOnAlloc = true
      then poisonEvents K (env.alloc_pages n).page uiOrder _AllocPoison _AllocPoisonSize
      else [])

/-- The kernel calls of a pass of the allocation loop in which the change of
the cache attribute fails: the allocation, the failed `set_memory_uc` or
`set_memory_wc`, and the `__free_pages` of the unit. -/
def failedUnitEvents (K : Platform) (env : OSEnv) (d : _PMR_OSPAGEARRAY_DATA_)
    (uiOrder n : Nat) : List OSEvent :=
  [OSEvent.alloc_pages d.bZero uiOrder (env.alloc_pages n).page,
   if d.ui32CPUCacheFlags = K.PVRSRV_MEMALLOCFLAG_CPU_UNCACHED
   then OSEvent.set_memory_uc (env.page_address (env.alloc_pages n).page)
          (env.alloc_pages n).setMemRet
   else OSEvent.set_memory_wc (env.page_address (env.alloc_pages n).page)
          (env.alloc_pages n).setMemRet,
   OSEvent.free_pages (env.alloc_pages n).page uiOrder]

/-- The kernel calls that give one unit back with its mapping set to
write-back first. -/
def revertUnitEvents (env : OSEnv) (uiOrder page : Nat) : List OSEvent :=
  [OSEvent.set_memory_wb (env.page_address page), OSEvent.free_pages page uiOrder]

/-! ## Further observations on the calls of a bridge function -/

/-- The buffers that `OSAllocMem` returned, in the order of the calls; a call
that returned `NULL` gives none. -/
def osAllocs : List BridgeCall → List Nat
  | [] => []
  | BridgeCall.OSAllocMem _ p :: l => if p = 0 then osAllocs l else p :: osAllocs l
  | _ :: l => osAllocs l

/-- The buffers passed to `OSFreeMem`, in the order of the calls. -/
def osFrees : List BridgeCall → List Nat
  | [] => []
  | BridgeCall.OSFreeMem p :: l => p :: osFrees l
  | _ :: l => osFrees l

/-! ## The calls of a bridge function as a run of the collaborators -/

/-- The call `ev`, made on the collaborators `S` in the state `s`, has the
recorded results and leaves the state `s1`. -/
def BridgeCall.step {σ : Type} (S : Services σ) (s : σ) : BridgeCall → σ → Prop
  | BridgeCall.OSAllocMem size ret, s1 => S.OSAllocMem size s = (ret, s1)
  | BridgeCall.OSFreeMem ptr, s1 => S.OSFreeMem ptr s = s1
  | BridgeCall.OSAccessOK src size ret, s1 => S.OSAccessOK src size s = ret ∧ s1 = s
  | BridgeCall.OSCopyFromUser dst src size ret, s1 =>
    ∃ w, S.OSCopyFromUser dst src size s = ((ret, w), s1)
  | BridgeCall.PVRSRVLookupHandle h eType ret data, s1 =>
    S.PVRSRVLookupHandle h eType s = ((ret, data), s1)
  | BridgeCall.PVRSRVAllocHandle data eType ret h, s1 =>
    S.PVRSRVAllocHandle data eType s = ((ret, h), s1)
  | BridgeCall.PVRSRVAllocSubHandle data eType parent ret h, s1 =>
    S.PVRSRVAllocSubHandle data eType parent s = ((ret, h), s1)
  | BridgeCall.PVRSRVReleaseHandle h eType ret, s1 => S.PVRSRVReleaseHandle h eType s = (ret, s1)
  | BridgeCall.ResManRegisterRes eType param pfnFree item, s1 =>
    S.ResManRegisterRes eType param pfnFree s = (item, s1)
  | BridgeCall.ResManFindPrivateDataByPtr item ret data, s1 =>
    S.ResManFindPrivateDataByPtr item s = ((ret, data), s1)
  | BridgeCall.ResManFreeResByPtr item ret, s1 => S.ResManFreeResByPtr item s = (ret, s1)
  | BridgeCall.domain fn args ret outs, s1 => S.domain fn args s = ((ret, outs), s1)

/-- The calls `l`, made in this order on the collaborators `S` from the state
`s`, have the recorded results and leave the state `s1`. -/
def runsFrom {σ : Type} (S : Services σ) : σ → List BridgeCall → σ → Prop
  | s, [], s1 => s1 = s
  | s, ev :: l, s1 => ∃ s2, ev.step S s s2 ∧ runsFrom S s2 l s1

/-- The calls that the connection `c` records are a run of the collaborators
from the state `s` to the state of `c`. -/
def Conn.runs {σ : Type} (S : Services σ) (s : σ) (c : Conn σ) : Prop :=
  runsFrom S s c.calls c.s

/-- The states `w` and `v` of the model differ at most in the counters of the
OS allocator. -/
def World.sameRegistry (w v : World) : Prop :=
  v = { w with memMade := v.memMade, memBudget := v.memBudget }

/-- The results of the `PVRSRVAllocSubHandle` calls that failed, in the order
of the calls. -/
def failedSubAllocs : List BridgeCall → List PVRSRV_ERROR
  | [] => []
  | BridgeCall.PVRSRVAllocSubHandle _ _ _ e _ :: l =>
    if e ≠ PVRSRV_ERROR.PVRSRV_OK then e :: failedSubAllocs l else failedSubAllocs l
  | _ :: l => failedSubAllocs l

/-- The `PVRSRVAllocHandle` calls, in the order of the calls: the type tag,
the result and the handle found in the output variable. -/
def parentAllocs : List BridgeCall → List (PVRSRV_HANDLE_TYPE × PVRSRV_ERROR × Nat)
  | [] => []
  | BridgeCall.PVRSRVAllocHandle _ t e h :: l => (t, e, h) :: parentAllocs l
  | _ :: l => parentAllocs l

/-- A step of a cleanup: the release of a handle under a type tag, or the
freeing of an item of the resource manager. -/
inductive UnwindStep where
  | release (h : Nat) (eType : PVRSRV_HANDLE_TYPE)
  | free (item : Nat)
  deriving DecidableEq, Repr

/-- The `PVRSRVReleaseHandle` and `ResManFreeResByPtr` calls, in the order of
the calls. -/
def unwindSteps : List BridgeCall → List UnwindStep
  | [] => []
  | BridgeCall.PVRSRVReleaseHandle h t _ :: l => UnwindStep.release h t :: unwindSteps l
  | BridgeCall.ResManFreeResByPtr i _ :: l => UnwindStep.free i :: unwindSteps l
  | _ :: l => unwindSteps l

/-- The `PVRSRVLookupHandle` calls, in the order of the calls: the handle and
the type tag. -/
def handleLookups : List BridgeCall → List (Nat × PVRSRV_HANDLE_TYPE)
  | [] => []
  | BridgeCall.PVRSRVLookupHandle h t _ _ :: l => (h, t) :: handleLookups l
  | _ :: l => handleLookups l

/-- The entry point of the request run on the collaborator state `s`: the
`eError` of its output structure, the handle of the new resource in its output
structure, and the state of the collaborators with the calls it made. -/
def CreateRequest.exec {σ : Type} (S : Services σ) (s : σ) :
    CreateRequest → (PVRSRV_ERROR × Nat) × Conn σ
  | HWRTData B IN OUT0 =>
    let r := PVRSRVBridgeRGXCreateHWRTData B S IN OUT0 s
    ((r.1.eError, r.1.hCleanupCookie), r.2)
  | RenderTarget IN OUT0 =>
    let r := PVRSRVBridgeRGXCreateRenderTarget S IN OUT0 s
    ((r.1.eError, r.1.hsRenderTargetMemDesc), r.2)
  | ZSBuffer IN OUT0 =>
    let r := PVRSRVBridgeRGXCreateZSBuffer S IN OUT0 s
    ((r.1.eError, r.1.hsZSBufferKM), r.2)
  | PopulateZSBuffer IN OUT0 =>
    let r := PVRSRVBridgeRGXPopulateZSBuffer S IN OUT0 s
    ((r.1.eError, r.1.hsPopulation), r.2)
  | FreeList IN OUT0 =>
    let r := PVRSRVBridgeRGXCreateFreeList S IN OUT0 s
    ((r.1.eError, r.1.hCleanupCookie), r.2)
  | RenderContext B IN OUT0 =>
    let r := PVRSRVBridgeRGXCreateRenderContext B S IN OUT0 s
    ((r.1.eError, r.1.hCleanupCookie), r.2)

/-- The type tag that the entry point of the request gives to
`PVRSRVAllocHandle` for the handle of the new resource. -/
def CreateRequest.handleType : CreateRequest → PVRSRV_HANDLE_TYPE
  | HWRTData _ _ _ => PVRSRV_HANDLE_TYPE.PVRSRV_HANDLE_TYPE_RGX_RTDATA_CLEANUP
  | RenderTarget _ _ => PVRSRV_HANDLE_TYPE.PVRSRV_HANDLE_TYPE_RGX_FWIF_RENDERTARGET
  | ZSBuffer _ _ => PVRSRV_HANDLE_TYPE.PVRSRV_HANDLE_TYPE_RGX_FWIF_ZSBUFFER
  | PopulateZSBuffer _ _ => PVRSRV_HANDLE_TYPE.PVRSRV_HANDLE_TYPE_RGX_POPULATION
  | FreeList _ _ => PVRSRV_HANDLE_TYPE.PVRSRV_HANDLE_TYPE_RGX_FREELIST
  | RenderContext _ _ _ => PVRSRV_HANDLE_TYPE.PVRSRV_HANDLE_TYPE_RGX_RC_CLEANUP

/-- The request to the destroy-style entry point of the same resource kind,
for the handle `h`. -/
def CreateRequest.destroyRequest (h : Nat) : CreateRequest → DestroyRequest
  | HWRTData _ _ _ =>
    DestroyRequest.HWRTData { hCleanupCookie := h } { eError := PVRSRV_ERROR.PVRSRV_OK }
  | RenderTarget _ _ =>
    DestroyRequest.RenderTarget { hsRenderTargetMemDesc := h }
      { eError := PVRSRV_ERROR.PVRSRV_OK }
  | ZSBuffer _ _ =>
    DestroyRequest.ZSBuffer { hsZSBufferMemDesc := h } { eError := PVRSRV_ERROR.PVRSRV_OK }
  | PopulateZSBuffer _ _ =>
    DestroyRequest.UnpopulateZSBuffer { hsPopulation := h } { eError := PVRSRV_ERROR.PVRSRV_OK }
  | FreeList _ _ =>
    DestroyRequest.FreeList { hCleanupCookie := h } { eError := PVRSRV_ERROR.PVRSRV_OK }
  | RenderContext _ _ _ =>
    DestroyRequest.RenderContext { hCleanupCookie := h } { eError := PVRSRV_ERROR.PVRSRV_OK }

/-! ## Sample connections for the handle allocations of the create functions -/

/-- Sample values of the constants of the bridge. -/
def sampleConsts : BridgeConsts :=
  { RGXFW_MAX_FREELISTS := 2, RGXFWIF_RF_CMD_SIZE := 64, sizeofPointer := 8 }

/-- A connection that holds handles on a device node (`1`), on the item `1` of
a PMR (`2`), on the item `2` of a free list (`3`), on a firmware memory
descriptor (`4`) and on private data (`5`); the handle registry can grow by
`budget` handles, and a copy from user memory delivers the free-list handle
`3` twice. -/
def roomWorld (budget : Nat) : World where
  handles := [{ handle := 1, eType := PVRSRV_HANDLE_TYPE.PVRSRV_HANDLE_TYPE_DEV_NODE,
                data := 100, parent := 0 },
              { handle := 2, eType := PVRSRV_HANDLE_TYPE.PVRSRV_HANDLE_TYPE_PHYSMEM_PMR,
                data := 1, parent := 0 },
              { handle := 3, eType := PVRSRV_HANDLE_TYPE.PVRSRV_HANDLE_TYPE_RGX_FREELIST,
                data := 2, parent := 0 },
              { handle := 4, eType := PVRSRV_HANDLE_TYPE.PVRSRV_HANDLE_TYPE_RGX_FW_MEMDESC,
                data := 400, parent := 0 },
              { handle := 5, eType := PVRSRV_HANDLE_TYPE.PVRSRV_HANDLE_TYPE_DEV_PRIV_DATA,
                data := 500, parent := 0 }]
  handlesMade := 5
  handleBudget := budget
  items := [{ item := 1, eType := RESMAN_TYPE.other 0, param := 200,
              pfnFree := DomainFn.other 0 },
            { item := 2, eType := RESMAN_TYPE.RESMAN_TYPE_RGX_FWIF_FREELIST, param := 300,
              pfnFree := DomainFn.RGXDestroyFreeList }]
  itemsMade := 2
  itemBudget := 4
  objects := [200, 300]
  objectsMade := 300
  createResult := PVRSRV_ERROR.PVRSRV_OK
  dependents := []
  destructorRuns := []
  memMade := 0
  memBudget := 4
  userWords := [3, 3]

/-- The input of a `PVRSRVBridgeRGXCreateHWRTData` call on `roomWorld`. -/
def sampleHWRTDataIN : PVRSRV_BRIDGE_IN_RGXCREATEHWRTDATA :=
  { hDevNode := 1, ui32RenderTarget := 0, sPMMlistDevVAddr := 0, sVFPPageTableAddr := 0,
    phapsFreeLists := 4096, ui32PPPScreen := 0, ui32PPPGridOffset := 0,
    ui64PPPMultiSampleCtl := 0, ui32TPCStride := 0, sTailPtrsDevVAddr := 0, ui32TPCSize := 0,
    ui32TEScreen := 0, ui32TEAA := 0, ui32TEMTILE1 := 0, ui32TEMTILE2 := 0,
    ui32MTileStride := 0, ui16MaxRTs := 1 }

/-- The output structure on entry of the sample `PVRSRVBridgeRGXCreateHWRTData`
calls. -/
def sampleHWRTDataOUT : PVRSRV_BRIDGE_OUT_RGXCREATEHWRTDATA :=
  { hCleanupCookie := 0, hRTACtlMemDesc := 0, hsHWRTDataMemDesc := 0, ui32FWHWRTData := 0,
    eError := PVRSRV_ERROR.PVRSRV_OK }

/-- The input of a `PVRSRVBridgeRGXCreateRenderContext` call on `roomWorld`. -/
def sampleRenderContextIN : PVRSRV_BRIDGE_IN_RGXCREATERENDERCONTEXT :=
  { hDevNode := 1, hTACCBMemDesc := 4, hTACCBCtlMemDesc := 4, h3DCCBMemDesc := 4,
    h3DCCBCtlMemDesc := 4, ui32Priority := 0, sMCUFenceAddr := 0, sVDMCallStackAddr := 0,
    ui32FrameworkCmdize := 64, psFrameworkCmd := 8192, hPrivData := 5 }

/-- The output structure on entry of the sample
`PVRSRVBridgeRGXCreateRenderContext` calls. -/
def sampleRenderContextOUT : PVRSRV_BRIDGE_OUT_RGXCREATERENDERCONTEXT :=
  { hCleanupCookie := 0, hFWRenderContext := 0, hFW3DContextState := 0,
    eError := PVRSRV_ERROR.PVRSRV_OK }

/-! ## Statements on the handle allocations of the create functions -/

/-- What the calls of a create function with sub-handles show after a failed
`PVRSRVAllocSubHandle`, for the tag `T` of the parent handle, the destructor
`D`, and the `eError` and `hCleanupCookie` of the output structure: no other
sub-handle allocation failed; `eError` is the error of that allocation; the one
`PVRSRVAllocHandle` call made the parent under `T`, returned `PVRSRV_OK` and
left `hCleanupCookie`; an item was registered and it is not null; the cleanup
released `hCleanupCookie` under `T` if it is not null and then freed the item,
and these are all its releases and frees; the destructor was not called
directly. -/
def subHandleUnwind (T : PVRSRV_HANDLE_TYPE) (D : DomainFn) (eError : PVRSRV_ERROR)
    (hCleanupCookie : Nat) (calls : List BridgeCall) : Prop :=
  ∀ e rest, failedSubAllocs calls = e :: rest →
    rest = [] ∧ eError = e
    ∧ parentAllocs calls = [(T, PVRSRV_ERROR.PVRSRV_OK, hCleanupCookie)]
    ∧ registerOutcome calls ≠ none
    ∧ (∀ item, registerOutcome calls = some item →
        item ≠ 0
        ∧ unwindSteps calls
            = (if hCleanupCookie ≠ 0 then [UnwindStep.release hCleanupCookie T] else [])
              ++ [UnwindStep.free item]
        ∧ resmanFrees calls = [item])
    ∧ directCalls D calls = []

/-- What the calls of a create function show after a failed `PVRSRVAllocHandle`
of the parent handle, for the tag `T`, the destructor `D`, and the `eError` and
`hCleanupCookie` of the output structure: the allocation was under `T`, no
sub-handle allocation was made that failed, `eError` is the error of the
allocation and `hCleanupCookie` what the call left in it; an item was
registered and it is not null; the cleanup released `hCleanupCookie` only if
the failed call left it not null, and freed the item; the destructor was not
called directly. -/
def parentHandleUnwind (T : PVRSRV_HANDLE_TYPE) (D : DomainFn) (eError : PVRSRV_ERROR)
    (hCleanupCookie : Nat) (calls : List BridgeCall) : Prop :=
  ∀ t e h, parentAllocs calls = [(t, e, h)] → e ≠ PVRSRV_ERROR.PVRSRV_OK →
    failedSubAllocs calls = [] ∧ eError = e ∧ hCleanupCookie = h ∧ t = T
    ∧ registerOutcome calls ≠ none
    ∧ (∀ item, registerOutcome calls = some item →
        item ≠ 0
        ∧ unwindSteps calls
            = (if h ≠ 0 then [UnwindStep.release h T] else []) ++ [UnwindStep.free item]
        ∧ resmanFrees calls = [item])
    ∧ directCalls D calls = []

/-- Every `PVRSRVLookupHandle` call that the connection `c` records looks up a
handle and tag that satisfy `Q`. -/
def Conn.lookupsAmong {σ : Type} (Q : Nat × PVRSRV_HANDLE_TYPE → Prop) (c : Conn σ) : Prop :=
  ∀ x ∈ handleLookups c.calls, Q x

/-- The request to `PVRSRVBridgeRGXCreateRenderContext` with the sample
input. -/
def sampleRenderContextRequest : CreateRequest :=
  CreateRequest.RenderContext sampleConsts sampleRenderContextIN sampleRenderContextOUT

/-! ## Machine arithmetic and page array creation -/

theorem mask_eq (n : Nat) (h : n < 64) : u64 (u64 (1 <<< n) + (2 ^ 64 - 1)) = 2 ^ n - 1 := by
  have h1 : (2:Nat) ^ n < 2 ^ 64 := Nat.pow_lt_pow_right (by norm_num) h
  have h2 : 0 < (2:Nat) ^ n := Nat.pos_pow_of_pos _ (by norm_num)
  simp only [u64, Nat.one_shiftLeft, Nat.mod_eq_of_lt h1]
  have : 2 ^ n + (2 ^ 64 - 1) = (2 ^ n - 1) + 2 ^ 64 := by omega
  rw [this, Nat.add_mod_right, Nat.mod_eq_of_lt (by omega)]

theorem AllocOSPageArray_oversize (env : OSEnv) (uiSize uiLog2PageSize : Nat)
    (bZero bPoisonOnAlloc bPoisonOnFree bOnDemand : Bool) (ui32CPUCacheFlags : Nat) (os : OSState)
    (h : 0x1000000000 ≤ uiSize) :
    _AllocOSPageArray env uiSize uiLog2PageSize bZero bPoisonOnAlloc bPoisonOnFree bOnDemand
      ui32CPUCacheFlags os = (PVRSRV_ERROR.PVRSRV_ERROR_INVALID_PARAMS, none, os) := by
  simp [_AllocOSPageArray, h]

theorem AllocOSPageArray_unaligned (env : OSEnv) (uiSize uiLog2PageSize : Nat)
    (bZero bPoisonOnAlloc bPoisonOnFree bOnDemand : Bool) (ui32CPUCacheFlags : Nat) (os : OSState)
    (h : uiSize < 0x1000000000) (hn : uiLog2PageSize < 64) (hm : ¬ 2 ^ uiLog2PageSize ∣ uiSize) :
    _AllocOSPageArray env uiSize uiLog2PageSize bZero bPoisonOnAlloc bPoisonOnFree bOnDemand
      ui32CPUCacheFlags os = (PVRSRV_ERROR.PVRSRV_ERROR_PMR_NOT_PAGE_MULTIPLE, none, os) := by
  have h1 : ¬ (0x1000000000 ≤ uiSize) := by omega
  have h2 : uiSize &&& (2 ^ uiLog2PageSize - 1) ≠ 0 := by
    rw [Nat.and_pow_two_sub_one_eq_mod]
    intro h0
    exact hm (Nat.dvd_of_mod_eq_zero h0)
  simp only [_AllocOSPageArray, ge_iff_le, h1, if_false, mask_eq _ hn, h2, ne_eq, not_false_eq_true, if_true]

/-! ## The unwind loop -/

theorem freedPages_append (l1 l2 : List OSEvent) :
    freedPages (l1 ++ l2) = freedPages l1 ++ freedPages l2 := by
  induction l1 with
  | nil => simp [freedPages]
  | cons e l ih => cases e <;> simp [freedPages, ih]

theorem allocResults_append (l1 l2 : List OSEvent) :
    allocResults (l1 ++ l2) = allocResults l1 ++ allocResults l2 := by
  induction l1 with
  | nil => simp [allocResults]
  | cons e l ih => cases e <;> simp [allocResults, ih]

theorem sub32_succ (m : Nat) (h : m + 1 < 2 ^ 32) : sub32 (m + 1) 1 = m := by
  simp only [sub32, u32]
  omega

theorem sub32_zero : sub32 0 1 = 2 ^ 32 - 1 := by decide

theorem unwindLoop_spec (env : OSEnv) (uiOrder : Nat) (d : _PMR_OSPAGEARRAY_DATA_)
    (h32 : d.uiNumPages < 2 ^ 32) :
    ∀ (R : List Nat) (fuel : Nat) (os : OSState) (H : List Nat),
      R.length ≤ d.uiNumPages → R.length ≤ fuel →
      d.pagearray.take R.length = R.reverse → os.held = R ++ H →
      ∃ os', unwindLoop env uiOrder d fuel (sub32 R.length 1) os = some os'
        ∧ os'.held = H ∧ freedPages os'.log = freedPages os.log ++ R
        ∧ allocResults os'.log = allocResults os.log
        ∧ os'.flags = os.flags ∧ os'.nAlloc = os.nAlloc ∧ os'.tables = os.tables := by
  intro R
  induction R with
  | nil =>
    intro fuel os H _ _ _ hheld
    have h0 : ¬ (2 ^ 32 - 1 < d.uiNumPages) := by omega
    refine ⟨os, ?_, by simpa using hheld, by simp, rfl, rfl, rfl, rfl⟩
    have h1 : ¬ (4294967295 < d.uiNumPages) := by omega
    cases fuel <;> simp [unwindLoop, sub32_zero, h1]
  | cons q R ih =>
    intro fuel os H hlen hfuel htake hheld
    simp only [List.length_cons] at hlen hfuel htake
    obtain ⟨fuel, rfl⟩ : ∃ f, fuel = f + 1 := ⟨fuel - 1, by omega⟩
    have hlt : R.length < d.uiNumPages := by omega
    have hslot : d.pagearray.getD R.length 0 = q := by
      have h1 : (d.pagearray.take (R.length + 1)).getD R.length 0 = q := by
        rw [htake]; simp [List.getD_eq_getElem?_getD, List.getElem?_append_right]
      rw [List.getD_eq_getElem?_getD, List.getElem?_take] at h1
      simpa [List.getD_eq_getElem?_getD] using h1
    have htake' : d.pagearray.take R.length = R.reverse := by
      have := congrArg (List.take R.length) htake
      simpa [List.take_take, List.take_append_of_le_length] using this
    have hs : sub32 (R.length + 1) 1 = R.length := sub32_succ _ (by omega)
    simp only [List.length_cons, hs, unwindLoop, hlt, if_true, hslot]
    by_cases hb : d.bUnsetMemoryType = true
    · simp only [hb, if_true]
      obtain ⟨os', h1, h2, h3, h4, h5, h6, h7⟩ := ih fuel
        (__free_pages q uiOrder (set_memory_wb (env.page_address q) os)) H (by omega) (by omega) htake'
        (by simp [__free_pages, set_memory_wb, hheld])
      refine ⟨os', h1, h2, ?_, ?_, ?_, ?_, ?_⟩
      · rw [h3]; simp [__free_pages, set_memory_wb, freedPages_append, freedPages]
      · rw [h4]; simp [__free_pages, set_memory_wb, allocResults_append, allocResults]
      · rw [h5]; simp [__free_pages, set_memory_wb]
      · rw [h6]; simp [__free_pages, set_memory_wb]
      · rw [h7]; simp [__free_pages, set_memory_wb]
    · simp only [hb, if_false]
      obtain ⟨os', h1, h2, h3, h4, h5, h6, h7⟩ := ih fuel
        (__free_pages q uiOrder os) H (by omega) (by omega) htake'
        (by simp [__free_pages, hheld])
      refine ⟨os', h1, h2, ?_, ?_, ?_, ?_, ?_⟩
      · rw [h3]; simp [__free_pages, freedPages_append, freedPages]
      · rw [h4]; simp [__free_pages, allocResults_append, allocResults]
      · rw [h5]; simp [__free_pages]
      · rw [h6]; simp [__free_pages]
      · rw [h7]; simp [__free_pages]

/-! ## One pass of the allocation loop -/

theorem poisonSubPages_frame (K : Platform) (page : Nat) (data : List Nat) (size : Nat) :
    ∀ (n sub src : Nat) (os : OSState),
      (poisonSubPages K page data size n sub src os).held = os.held
      ∧ (poisonSubPages K page data size n sub src os).nAlloc = os.nAlloc
      ∧ (poisonSubPages K page data size n sub src os).tables = os.tables
      ∧ (poisonSubPages K page data size n sub src os).flags = os.flags
      ∧ freedPages (poisonSubPages K page data size n sub src os).log = freedPages os.log
      ∧ allocResults (poisonSubPages K page data size n sub src os).log = allocResults os.log := by
  intro n
  induction n with
  | zero => intro sub src os; simp [poisonSubPages]
  | succ n ih =>
    intro sub src os
    simp only [poisonSubPages]
    obtain ⟨h1, h2, h3, h4, h5, h6⟩ := ih (sub + 1)
      (poisonBytes data size K.PAGE_SIZE src).2
      { os with log := os.log ++ [OSEvent.page_write (page + sub) (poisonBytes data size K.PAGE_SIZE src).1] }
    refine ⟨h1, h2, h3, h4, ?_, ?_⟩
    · rw [h5]; simp [freedPages_append, freedPages]
    · rw [h6]; simp [allocResults_append, allocResults]

theorem PoisonPages_frame (K : Platform) (page order : Nat) (data : List Nat) (size : Nat)
    (os : OSState) :
    (_PoisonPages K page order data size os).held = os.held
      ∧ (_PoisonPages K page order data size os).nAlloc = os.nAlloc
      ∧ (_PoisonPages K page order data size os).tables = os.tables
      ∧ (_PoisonPages K page order data size os).flags = os.flags
      ∧ freedPages (_PoisonPages K page order data size os).log = freedPages os.log
      ∧ allocResults (_PoisonPages K page order data size os).log = allocResults os.log :=
  poisonSubPages_frame K page data size _ 0 0 os

/-- What one pass of the allocation loop does. -/
theorem allocUnit_spec (K : Platform) (env : OSEnv) (uiOrder i : Nat)
    (d : _PMR_OSPAGEARRAY_DATA_) (os : OSState) :
    ∃ q b, (allocUnit K env uiOrder i d os).1
              = { d with pagearray := d.pagearray.set i q, bUnsetMemoryType := b }
      ∧ (allocUnit K env uiOrder i d os).2.nAlloc = os.nAlloc + 1
      ∧ (allocUnit K env uiOrder i d os).2.tables = os.tables
      ∧ allocResults (allocUnit K env uiOrder i d os).2.log
          = allocResults os.log ++ [(env.alloc_pages os.nAlloc).page]
      ∧ ((unitObtained K env d.ui32CPUCacheFlags os.nAlloc = true
            ∧ q = (env.alloc_pages os.nAlloc).page ∧ q ≠ 0
            ∧ (allocUnit K env uiOrder i d os).2.held = q :: os.held
            ∧ freedPages (allocUnit K env uiOrder i d os).2.log = freedPages os.log)
         ∨ (unitObtained K env d.ui32CPUCacheFlags os.nAlloc = false
            ∧ q = 0 ∧ (allocUnit K env uiOrder i d os).2.held = os.held
            ∧ freedPages (allocUnit K env uiOrder i d os).2.log
                = freedPages os.log ++ (if (env.alloc_pages os.nAlloc).page = 0 then []
                                        else [(env.alloc_pages os.nAlloc).page]))) := by
  simp only [allocUnit, alloc_pages, DisableOOMKiller, EnableOOMKiller, set_memory_uc,
    set_memory_wc, __free_pages, unitObtained]
  by_cases hp : (env.alloc_pages os.nAlloc).page = 0
  · refine ⟨0, d.bUnsetMemoryType, ?_⟩
    simp [hp, allocResults_append, allocResults, freedPages_append, freedPages]
  · by_cases hv : env.page_address (env.alloc_pages os.nAlloc).page = 0
    · refine ⟨(env.alloc_pages os.nAlloc).page, d.bUnsetMemoryType, ?_⟩
      simp [hp, hv, allocResults_append, allocResults, freedPages_append, freedPages]
    · by_cases huc : d.ui32CPUCacheFlags = K.PVRSRV_MEMALLOCFLAG_CPU_UNCACHED
      · by_cases hr : (env.alloc_pages os.nAlloc).setMemRet = 0
        · refine ⟨(env.alloc_pages os.nAlloc).page, true, ?_⟩
          simp [hp, hv, huc, hr, allocResults_append, allocResults, freedPages_append, freedPages]
        · refine ⟨0, true, ?_⟩
          simp [hp, hv, huc, hr, allocResults_append, allocResults, freedPages_append, freedPages]
      · by_cases hwc : d.ui32CPUCacheFlags = K.PVRSRV_MEMALLOCFLAG_CPU_WRITE_COMBINE
        · have hne : ¬ K.PVRSRV_MEMALLOCFLAG_CPU_WRITE_COMBINE = K.PVRSRV_MEMALLOCFLAG_CPU_UNCACHED :=
            hwc ▸ huc
          by_cases hr : (env.alloc_pages os.nAlloc).setMemRet = 0
          · refine ⟨(env.alloc_pages os.nAlloc).page, true, ?_⟩
            simp [hp, hv, hne, hwc, hr, allocResults_append, allocResults, freedPages_append, freedPages]
          · refine ⟨0, true, ?_⟩
            simp [hp, hv, hne, hwc, hr, allocResults_append, allocResults, freedPages_append, freedPages]
        · refine ⟨(env.alloc_pages os.nAlloc).page, d.bUnsetMemoryType, ?_⟩
          simp [hp, hv, huc, hwc, allocResults_append, allocResults, freedPages_append, freedPages]

/-! ## The allocation loop -/

theorem sameConfig_trans {a b c : _PMR_OSPAGEARRAY_DATA_} (h1 : sameConfig a b)
    (h2 : sameConfig b c) : sameConfig a c := by
  simp only [sameConfig] at *
  obtain ⟨a1, a2, a3, a4, a5, a6, a7, a8, a9, a10, a11⟩ := h1
  obtain ⟨b1, b2, b3, b4, b5, b6, b7, b8, b9, b10, b11⟩ := h2
  exact ⟨b1.trans a1, b2.trans a2, b3.trans a3, b4.trans a4, b5.trans a5, b6.trans a6,
    b7.trans a7, b8.trans a8, b9.trans a9, b10.trans a10, b11.trans a11⟩

theorem take_set_self (l : List Nat) (i a : Nat) : (l.set i a).take i = l.take i := by
  rw [List.set_take]
  exact List.set_eq_of_length_le (by simp)

theorem range_succ_map_reverse (f : Nat → Nat) (k : Nat) :
    ((List.range (k + 1)).map f).reverse = ((List.range k).map (fun j => f (j + 1))).reverse ++ [f 0] := by
  rw [List.range_succ_eq_map]
  simp [List.map_map, Function.comp_def]

/-- Total correctness of the allocation loop of `_AllocOSPages`: it returns, and
either every unit was obtained and is held, or the first unit that was not
obtained ends the call with everything obtained before given back. -/
theorem allocLoop_spec (K : Platform) (env : OSEnv) (uiOrder : Nat) :
    ∀ (n i : Nat) (d : _PMR_OSPAGEARRAY_DATA_) (os : OSState) (R H : List Nat),
      d.pagearray.length = d.uiNumPages → d.uiNumPages < 2 ^ 32 → i + n = d.uiNumPages →
      R.length = i → d.pagearray.take i = R.reverse → os.held = R ++ H →
      ∃ e d' os', allocLoop K env uiOrder n i d os = some (e, d', os')
        ∧ sameConfig d d' ∧ os'.tables = os.tables
        ∧ ((e = PVRSRV_ERROR.PVRSRV_OK ∧ d'.bHasOSPages = true
              ∧ (∀ j, j < n → unitObtained K env d.ui32CPUCacheFlags (os.nAlloc + j) = true)
              ∧ os'.nAlloc = os.nAlloc + n
              ∧ freedPages os'.log = freedPages os.log
              ∧ ∃ P : List Nat, P.length = n ∧ d'.pagearray = R.reverse ++ P
                  ∧ os'.held = P.reverse ++ (R ++ H) ∧ (∀ p ∈ P, p ≠ 0)
                  ∧ P = (List.range n).map (fun j => (env.alloc_pages (os.nAlloc + j)).page))
           ∨ (e = PVRSRV_ERROR.PVRSRV_ERROR_PMR_FAILED_TO_ALLOC_PAGES
              ∧ d'.bHasOSPages = d.bHasOSPages ∧ os'.held = H
              ∧ ∃ k, k < n
                  ∧ (∀ j, j < k → unitObtained K env d.ui32CPUCacheFlags (os.nAlloc + j) = true)
                  ∧ unitObtained K env d.ui32CPUCacheFlags (os.nAlloc + k) = false
                  ∧ os'.nAlloc = os.nAlloc + k + 1
                  ∧ freedPages os'.log = freedPages os.log
                      ++ (if (env.alloc_pages (os.nAlloc + k)).page = 0 then []
                          else [(env.alloc_pages (os.nAlloc + k)).page])
                      ++ ((List.range k).map (fun j => (env.alloc_pages (os.nAlloc + j)).page)).reverse
                      ++ R)) := by
  intro n
  induction n with
  | zero =>
    intro i d os R H hlen h32 hin hR htake hheld
    refine ⟨PVRSRV_ERROR.PVRSRV_OK, { d with bHasOSPages := true }, os, by simp [allocLoop],
      by simp [sameConfig], rfl, Or.inl ⟨rfl, rfl, by intro j hj; omega, rfl, rfl, [], rfl, ?_, by simpa using hheld, by simp, by simp⟩⟩
    have : d.pagearray.take i = d.pagearray := List.take_of_length_le (by omega)
    simp [← htake, this]
  | succ n ih =>
    intro i d os R H hlen h32 hin hR htake hheld
    have hi : i < d.pagearray.length := by omega
    obtain ⟨q, b, hd1, hn1, ht1, _, hcase⟩ := allocUnit_spec K env uiOrder i d os
    simp only [allocLoop]
    generalize allocUnit K env uiOrder i d os = r at *
    obtain ⟨d1, os1⟩ := r
    simp only at hd1 hn1 ht1 hcase
    subst hd1
    have hq : (d.pagearray.set i q).getD i 0 = q := by
      simp [List.getD_eq_getElem?_getD, List.getElem?_set, hi]
    simp only [hq]
    rcases hcase with ⟨hob, hqp, hq0, hheld1, hfreed1⟩ | ⟨hob, hq0, hheld1, hfreed1⟩
    · -- the unit is kept
      simp only [hq0, if_false]
      have htake1 : (d.pagearray.set i q).take (i + 1) = (q :: R).reverse := by
        rw [List.take_succ, take_set_self]
        simp [htake, List.getElem?_set, hi]
      obtain ⟨hp1, hp2, hp3, hp4, hp5, hp6⟩ :=
        PoisonPages_frame K q uiOrder _AllocPoison _AllocPoisonSize os1
      generalize hos2 : (if d.bPoisonOnAlloc = true
          then _PoisonPages K q uiOrder _AllocPoison _AllocPoisonSize os1 else os1) = os2
      have hf : os2.held = os1.held ∧ os2.nAlloc = os1.nAlloc ∧ os2.tables = os1.tables
          ∧ freedPages os2.log = freedPages os1.log := by
        subst hos2
        split
        · exact ⟨hp1, hp2, hp3, hp5⟩
        · exact ⟨rfl, rfl, rfl, rfl⟩
      obtain ⟨hf1, hf2, hf3, hf4⟩ := hf
      obtain ⟨e, d', os', hrun, hsame, htab, hres⟩ := ih (i + 1)
        { d with pagearray := d.pagearray.set i q, bUnsetMemoryType := b } os2 (q :: R) H
        (by simpa using hlen) (by simpa using h32) (by simp; omega) (by simp [hR]) htake1
        (by rw [hf1, hheld1, hheld]; simp)
      refine ⟨e, d', os', hrun, ?_, by rw [htab, hf3, ht1], ?_⟩
      · exact sameConfig_trans (by simp [sameConfig]) hsame
      · rcases hres with ⟨he, hhas, hall, hna, hfr, P, hP1, hP2, hP3, hP4, hP5⟩ |
          ⟨he, hhas, hh, k, hk, hall, hbad, hna, hfr⟩
        · refine Or.inl ⟨he, hhas, ?_, by rw [hna, hf2, hn1]; omega, by rw [hfr, hf4, hfreed1],
            q :: P, by simp [hP1], by simp [hP2], by simp [hP3], ?_, ?_⟩
          · intro j hj
            cases j with
            | zero => simpa using hob
            | succ j =>
              have := hall j (by omega)
              simp only [hf2, hn1] at this
              have e1 : os.nAlloc + (j + 1) = os.nAlloc + 1 + j := by omega
              rw [e1]; exact this
          · intro p hp
            rcases List.mem_cons.mp hp with h | h
            · rw [h]; exact hq0
            · exact hP4 p h
          · rw [List.range_succ_eq_map, hP5, hf2, hn1, hqp]
            simp [List.map_map, Function.comp_def, Nat.add_assoc, Nat.add_comm 1]
        · refine Or.inr ⟨he, hhas, hh, k + 1, by omega, ?_, ?_, by rw [hna, hf2, hn1]; omega, ?_⟩
          · intro j hj
            cases j with
            | zero => simpa using hob
            | succ j =>
              have := hall j (by omega)
              simp only [hf2, hn1] at this
              have e1 : os.nAlloc + (j + 1) = os.nAlloc + 1 + j := by omega
              rw [e1]; exact this
          · simp only [hf2, hn1] at hbad
            have e1 : os.nAlloc + (k + 1) = os.nAlloc + 1 + k := by omega
            rw [e1]; exact hbad
          · rw [hfr, hf4, hfreed1, hf2, hn1]
            have e1 : os.nAlloc + (k + 1) = os.nAlloc + 1 + k := by omega
            rw [range_succ_map_reverse (fun j => (env.alloc_pages (os.nAlloc + j)).page) k, e1, hqp]
            simp [Nat.add_assoc, Nat.add_comm 1]
    · -- the unit is not kept: unwind
      simp only [hq0, if_true]
      obtain ⟨os', hu, hh, hfr, _, _, _, htab⟩ := unwindLoop_spec env uiOrder
        { d with pagearray := d.pagearray.set i 0, bUnsetMemoryType := b } (by simpa using h32)
        R loopFuel os1 H (by simp; omega) (by simp [loopFuel]; omega)
        (by simp only [hR]; rw [take_set_self]; exact htake)
        (by rw [hheld1, hheld])
      rw [hR] at hu
      refine ⟨PVRSRV_ERROR.PVRSRV_ERROR_PMR_FAILED_TO_ALLOC_PAGES,
        { d with pagearray := d.pagearray.set i 0, bUnsetMemoryType := b }, os', by simp [hu],
        by simp [sameConfig], by rw [htab, ht1], Or.inr ⟨rfl, rfl, hh, 0, by omega, by intro j hj; omega,
          by simpa using hob, by rw [‹os'.nAlloc = os1.nAlloc›, hn1], ?_⟩⟩
      rw [hfr, hfreed1]
      simp

/-! ## Freeing, and `_AllocOSPages` as a whole -/

theorem foldl_erase_perm : ∀ (P L H : List Nat), L.Perm (P ++ H) → (P.foldl List.erase L).Perm H := by
  intro P
  induction P with
  | nil => intro L H h; simpa using h
  | cons p P ih =>
    intro L H h
    simp only [List.foldl_cons]
    apply ih
    have := h.erase p
    simpa using this

theorem freeLoop_spec (K : Platform) (env : OSEnv) (uiOrder : Nat) (d : _PMR_OSPAGEARRAY_DATA_) :
    ∀ (n i : Nat) (os : OSState), i + n ≤ d.pagearray.length →
      (freeLoop K env uiOrder d n i os).held = ((d.pagearray.drop i).take n).foldl List.erase os.held
      ∧ freedPages (freeLoop K env uiOrder d n i os).log
          = freedPages os.log ++ (d.pagearray.drop i).take n
      ∧ allocResults (freeLoop K env uiOrder d n i os).log = allocResults os.log
      ∧ (freeLoop K env uiOrder d n i os).tables = os.tables
      ∧ (freeLoop K env uiOrder d n i os).nAlloc = os.nAlloc
      ∧ (freeLoop K env uiOrder d n i os).flags = os.flags := by
  intro n
  induction n with
  | zero => intro i os _; simp [freeLoop]
  | succ n ih =>
    intro i os hi
    have hlt : i < d.pagearray.length := by omega
    have hdrop : (d.pagearray.drop i).take (n + 1)
        = d.pagearray.getD i 0 :: (d.pagearray.drop (i + 1)).take n := by
      have e1 : d.pagearray.getD i 0 = d.pagearray[i] := by
        simp [List.getD_eq_getElem?_getD, List.getElem?_eq_getElem hlt]
      rw [e1, List.drop_eq_getElem_cons hlt, List.take_succ_cons]
    simp only [freeLoop, hdrop, List.foldl_cons]
    obtain ⟨hp1, hp2, hp3, hp4, hp5, hp6⟩ :=
      PoisonPages_frame K (d.pagearray.getD i 0) uiOrder _FreePoison _FreePoisonSize os
    generalize hos1 : (if d.bPoisonOnFree = true
      then _PoisonPages K (d.pagearray.getD i 0) uiOrder _FreePoison _FreePoisonSize os else os) = os1
    have hf : os1.held = os.held ∧ os1.nAlloc = os.nAlloc ∧ os1.tables = os.tables
        ∧ os1.flags = os.flags ∧ freedPages os1.log = freedPages os.log
        ∧ allocResults os1.log = allocResults os.log := by
      subst hos1
      split
      · exact ⟨hp1, hp2, hp3, hp4, hp5, hp6⟩
      · exact ⟨rfl, rfl, rfl, rfl, rfl, rfl⟩
    obtain ⟨hf1, hf2, hf3, hf4, hf5, hf6⟩ := hf
    generalize hos2 : (if d.bUnsetMemoryType = true
      then set_memory_wb (env.page_address (d.pagearray.getD i 0)) os1 else os1) = os2
    have hg : os2.held = os.held ∧ os2.nAlloc = os.nAlloc ∧ os2.tables = os.tables
        ∧ os2.flags = os.flags ∧ freedPages os2.log = freedPages os.log
        ∧ allocResults os2.log = allocResults os.log := by
      subst hos2
      split
      · simp [set_memory_wb, freedPages_append, freedPages, allocResults_append, allocResults, *]
      · exact ⟨hf1, hf2, hf3, hf4, hf5, hf6⟩
    obtain ⟨hg1, hg2, hg3, hg4, hg5, hg6⟩ := hg
    obtain ⟨h1, h2, h3, h4, h5, h6⟩ := ih (i + 1)
      (__free_pages (d.pagearray.getD i 0) uiOrder os2) (by omega)
    refine ⟨?_, ?_, ?_, ?_, ?_, ?_⟩
    · rw [h1]; simp [__free_pages, hg1]
    · rw [h2]; simp [__free_pages, freedPages_append, freedPages, hg5]
    · rw [h3]; simp [__free_pages, allocResults_append, allocResults, hg6]
    · rw [h4]; simp [__free_pages, hg3]
    · rw [h5]; simp [__free_pages, hg2]
    · rw [h6]; simp [__free_pages, hg4]

/-- The function `_AllocOSPages` returns; see `allocLoop_spec`. -/
theorem AllocOSPages_spec (K : Platform) (env : OSEnv) (d : _PMR_OSPAGEARRAY_DATA_) (os : OSState)
    (hwf : wellFormed d) :
    ∃ e d' os', _AllocOSPages K env d os = some (e, d', os')
      ∧ sameConfig d d' ∧ os'.tables = os.tables
      ∧ ((e = PVRSRV_ERROR.PVRSRV_OK ∧ d'.bHasOSPages = true
            ∧ (∀ j, j < d.uiNumPages → unitObtained K env d.ui32CPUCacheFlags (os.nAlloc + j) = true)
            ∧ os'.nAlloc = os.nAlloc + d.uiNumPages
            ∧ freedPages os'.log = freedPages os.log
            ∧ d'.pagearray.length = d.uiNumPages
            ∧ os'.held = d'.pagearray.reverse ++ os.held ∧ (∀ p ∈ d'.pagearray, p ≠ 0)
            ∧ d'.pagearray = (List.range d.uiNumPages).map
                (fun j => (env.alloc_pages (os.nAlloc + j)).page))
         ∨ (e = PVRSRV_ERROR.PVRSRV_ERROR_PMR_FAILED_TO_ALLOC_PAGES
            ∧ d'.bHasOSPages = d.bHasOSPages ∧ os'.held = os.held
            ∧ ∃ k, k < d.uiNumPages
                ∧ (∀ j, j < k → unitObtained K env d.ui32CPUCacheFlags (os.nAlloc + j) = true)
                ∧ unitObtained K env d.ui32CPUCacheFlags (os.nAlloc + k) = false
                ∧ os'.nAlloc = os.nAlloc + k + 1
                ∧ freedPages os'.log = freedPages os.log
                    ++ (if (env.alloc_pages (os.nAlloc + k)).page = 0 then []
                        else [(env.alloc_pages (os.nAlloc + k)).page])
                    ++ ((List.range k).map (fun j => (env.alloc_pages (os.nAlloc + j)).page)).reverse)) := by
  obtain ⟨hlen, h32⟩ := hwf
  obtain ⟨e, d', os', hrun, hsame, htab, hres⟩ := allocLoop_spec K env
    (sub32 d.uiLog2PageSize K.PAGE_SHIFT) d.uiNumPages 0 d os [] os.held hlen h32 (by omega) rfl
    (by simp) (by simp)
  refine ⟨e, d', os', hrun, hsame, htab, ?_⟩
  rcases hres with ⟨he, hhas, hall, hna, hfr, P, hP1, hP2, hP3, hP4, hP5⟩ |
    ⟨he, hhas, hh, k, hk, hall, hbad, hna, hfr⟩
  · simp only [List.reverse_nil, List.nil_append] at hP2 hP3
    exact Or.inl ⟨he, hhas, hall, hna, hfr, by rw [hP2, hP1], by rw [hP2, hP3], by rw [hP2]; exact hP4,
      by rw [hP2, hP5]⟩
  · exact Or.inr ⟨he, hhas, hh, k, hk, hall, hbad, hna, by simpa using hfr⟩

/-! ## Lock and Unlock -/

/-- A successful Lock of an on-demand array binds every slot; the following
Unlock gives every unit back. -/
theorem lock_unlock_step (K : Platform) (env : OSEnv) (uiLog2DevPageSize : Nat)
    (d d1 : _PMR_OSPAGEARRAY_DATA_) (os os1 : OSState)
    (hwf : wellFormed d) (hd : d.bOnDemand = true)
    (hlock : PMRLockSysPhysAddressesOSMem K env d uiLog2DevPageSize os
      = some (PVRSRV_ERROR.PVRSRV_OK, d1, os1)) :
    d1.bHasOSPages = true ∧ slotsPopulated d1 os1 ∧ wellFormed d1 ∧ d1.bOnDemand = true
    ∧ (PMRUnlockSysPhysAddressesOSMem K env d1 os1).1 = PVRSRV_ERROR.PVRSRV_OK
    ∧ (PMRUnlockSysPhysAddressesOSMem K env d1 os1).2.1.bHasOSPages = false
    ∧ wellFormed (PMRUnlockSysPhysAddressesOSMem K env d1 os1).2.1
    ∧ (PMRUnlockSysPhysAddressesOSMem K env d1 os1).2.1.bOnDemand = true
    ∧ (PMRUnlockSysPhysAddressesOSMem K env d1 os1).2.2.held.Perm os.held := by
  obtain ⟨e, d', os', hrun, hsame, _, hres⟩ := AllocOSPages_spec K env d os hwf
  simp only [PMRLockSysPhysAddressesOSMem, hd, if_true, hrun] at hlock
  rcases hres with ⟨he, hhas, _, _, _, hlen, hheld, hnz, _⟩ | ⟨he, _⟩
  · subst he
    simp only [ne_eq, not_true_eq_false, if_false, Option.some.injEq] at hlock
    split at hlock
    · simp at hlock
    · simp only [Prod.mk.injEq, true_and] at hlock
      obtain ⟨h1, h2⟩ := hlock
      subst h1 h2
      have hwf1 : wellFormed d' := ⟨by rw [hlen, hsame.2.1], by rw [hsame.2.1]; exact hwf.2⟩
      have hd1 : d'.bOnDemand = true := by rw [hsame.2.2.2.2.2.2.2.2.2.1]; exact hd
      have hN : d'.uiNumPages = d'.pagearray.length := hwf1.1.symm
      obtain ⟨hf1, _⟩ := freeLoop_spec K env (sub32 d'.uiLog2PageSize K.PAGE_SHIFT) d'
        d'.uiNumPages 0 os' (by omega)
      refine ⟨hhas, ?_, hwf1, hd1, ?_, ?_, ?_, ?_, ?_⟩
      · intro i hi
        have hi' : i < d'.pagearray.length := by omega
        have hm : d'.pagearray.getD i 0 ∈ d'.pagearray := by
          simp only [List.getD_eq_getElem?_getD, List.getElem?_eq_getElem hi', Option.getD_some]
          exact List.getElem_mem _
        exact ⟨hnz _ hm, by rw [hheld]; exact List.mem_append_left _ (List.mem_reverse.mpr hm)⟩
      · simp [PMRUnlockSysPhysAddressesOSMem, hd1, _FreeOSPages]
      · simp [PMRUnlockSysPhysAddressesOSMem, hd1, _FreeOSPages]
      · simpa [PMRUnlockSysPhysAddressesOSMem, hd1, _FreeOSPages, wellFormed] using hwf1
      · simp [PMRUnlockSysPhysAddressesOSMem, hd1, _FreeOSPages]
      · have : (PMRUnlockSysPhysAddressesOSMem K env d' os').2.2.held
            = (d'.pagearray).foldl List.erase os'.held := by
          simp only [PMRUnlockSysPhysAddressesOSMem, hd1, if_true, _FreeOSPages]
          simp only [ne_eq, not_true_eq_false, if_false]
          rw [hf1, hN]
          simp
        rw [this]
        apply foldl_erase_perm
        rw [hheld]
        exact List.Perm.append_right _ (List.reverse_perm _)
  · subst he
    simp at hlock

theorem lockUnlockPairs_spec (K : Platform) (env : OSEnv) (uiLog2DevPageSize : Nat)
    (held0 : List Nat) :
    ∀ (n : Nat) (d : _PMR_OSPAGEARRAY_DATA_) (os : OSState) (l : List (Snapshot × Snapshot)),
      wellFormed d → d.bOnDemand = true → os.held.Perm held0 →
      lockUnlockPairs K env uiLog2DevPageSize n d os = some l →
      l.length = n
      ∧ ∀ p ∈ l, p.1.d.bHasOSPages = true ∧ slotsPopulated p.1.d p.1.os
          ∧ p.2.d.bHasOSPages = false ∧ p.2.os.held.Perm held0 := by
  intro n
  induction n with
  | zero =>
    intro d os l _ _ _ h
    simp only [lockUnlockPairs, Option.some.injEq] at h
    subst h
    simp
  | succ n ih =>
    intro d os l hwf hd hperm h
    simp only [lockUnlockPairs] at h
    split at h
    · rename_i d1 os1 hlock
      obtain ⟨h1, h2, _, _, _, h6, h7, h8, h9⟩ :=
        lock_unlock_step K env uiLog2DevPageSize d d1 os os1 hwf hd hlock
      simp only [Option.map_eq_some'] at h
      obtain ⟨l', hl', rfl⟩ := h
      obtain ⟨hlen, hall⟩ := ih _ _ l' h7 h8 (h9.trans hperm) hl'
      refine ⟨by simp [hlen], ?_⟩
      intro p hp
      rcases List.mem_cons.mp hp with rfl | hp
      · exact ⟨h1, h2, h6, h9.trans hperm⟩
      · exact hall p hp
    · simp at h

/-! ## What the page loops leave alone -/

theorem pagesOnly_refl (os : OSState) : pagesOnly os os := by
  simp [pagesOnly]

theorem pagesOnly_trans {a b c : OSState} (h1 : pagesOnly a b) (h2 : pagesOnly b c) :
    pagesOnly a c := by
  simp only [pagesOnly] at *
  obtain ⟨a1, a2, a3, a4, a5, a6, a7, a8, a9, a10⟩ := h1
  obtain ⟨b1, b2, b3, b4, b5, b6, b7, b8, b9, b10⟩ := h2
  exact ⟨b1.trans a1, b2.trans a2, b3.trans a3, b4.trans a4, b5.trans a5, b6.trans a6,
    b7.trans a7, b8.trans a8, b9.trans a9, b10.trans a10⟩

theorem poisonSubPages_pagesOnly (K : Platform) (page : Nat) (data : List Nat) (size : Nat) :
    ∀ (n sub src : Nat) (os : OSState),
      pagesOnly os (poisonSubPages K page data size n sub src os) := by
  intro n
  induction n with
  | zero => intro sub src os; exact pagesOnly_refl os
  | succ n ih =>
    intro sub src os
    simp only [poisonSubPages]
    exact pagesOnly_trans (by simp [pagesOnly]) (ih _ _ _)

theorem PoisonPages_pagesOnly (K : Platform) (page order : Nat) (data : List Nat) (size : Nat)
    (os : OSState) : pagesOnly os (_PoisonPages K page order data size os) :=
  poisonSubPages_pagesOnly K page data size _ 0 0 os

theorem allocUnit_pagesOnly (K : Platform) (env : OSEnv) (uiOrder i : Nat)
    (d : _PMR_OSPAGEARRAY_DATA_) (os : OSState) :
    pagesOnly os (allocUnit K env uiOrder i d os).2 := by
  simp only [allocUnit, alloc_pages, DisableOOMKiller, EnableOOMKiller, set_memory_uc,
    set_memory_wc, __free_pages]
  split_ifs <;> simp [pagesOnly]

theorem unwindLoop_pagesOnly (env : OSEnv) (uiOrder : Nat) (d : _PMR_OSPAGEARRAY_DATA_) :
    ∀ (fuel i : Nat) (os os' : OSState),
      unwindLoop env uiOrder d fuel i os = some os' → pagesOnly os os' := by
  intro fuel
  induction fuel with
  | zero =>
    intro i os os' h
    simp only [unwindLoop] at h
    split at h
    · simp at h
    · simp only [Option.some.injEq] at h
      subst h
      exact pagesOnly_refl os
  | succ fuel ih =>
    intro i os os' h
    simp only [unwindLoop] at h
    split at h
    · refine pagesOnly_trans ?_ (ih _ _ _ h)
      simp only [__free_pages, set_memory_wb]
      split_ifs <;> simp [pagesOnly]
    · simp only [Option.some.injEq] at h
      subst h
      exact pagesOnly_refl os

theorem allocLoop_pagesOnly (K : Platform) (env : OSEnv) (uiOrder : Nat) :
    ∀ (n i : Nat) (d : _PMR_OSPAGEARRAY_DATA_) (os : OSState) (e : PVRSRV_ERROR)
      (d' : _PMR_OSPAGEARRAY_DATA_) (os' : OSState),
      allocLoop K env uiOrder n i d os = some (e, d', os') → pagesOnly os os' := by
  intro n
  induction n with
  | zero =>
    intro i d os e d' os' h
    simp only [allocLoop, Option.some.injEq, Prod.mk.injEq] at h
    obtain ⟨_, _, h⟩ := h
    subst h
    exact pagesOnly_refl os
  | succ n ih =>
    intro i d os e d' os' h
    simp only [allocLoop] at h
    have h0 := allocUnit_pagesOnly K env uiOrder i d os
    split at h
    · simp only [Option.map_eq_some', Prod.mk.injEq] at h
      obtain ⟨os1, hu, _, _, rfl⟩ := h
      exact pagesOnly_trans h0 (unwindLoop_pagesOnly env uiOrder _ _ _ _ _ hu)
    · refine pagesOnly_trans (pagesOnly_trans h0 ?_) (ih _ _ _ _ _ _ h)
      split
      · exact PoisonPages_pagesOnly _ _ _ _ _ _
      · exact pagesOnly_refl _

theorem freeLoop_pagesOnly (K : Platform) (env : OSEnv) (uiOrder : Nat)
    (d : _PMR_OSPAGEARRAY_DATA_) :
    ∀ (n i : Nat) (os : OSState), pagesOnly os (freeLoop K env uiOrder d n i os) := by
  intro n
  induction n with
  | zero => intro i os; exact pagesOnly_refl os
  | succ n ih =>
    intro i os
    simp only [freeLoop]
    refine pagesOnly_trans ?_ (ih _ _)
    generalize d.pagearray.getD i 0 = p
    have hp := PoisonPages_pagesOnly K p uiOrder _FreePoison _FreePoisonSize os
    simp only [pagesOnly] at hp ⊢
    simp only [__free_pages, set_memory_wb]
    split_ifs <;> simp [hp]

/-! ## Successful creation of the page array -/

theorem AllocOSPageArray_ok (env : OSEnv) (uiSize uiLog2PageSize : Nat)
    (bZero bPoisonOnAlloc bPoisonOnFree bOnDemand : Bool) (ui32CPUCacheFlags : Nat) (os : OSState)
    (h : uiSize < 0x1000000000) (hn : uiLog2PageSize < 64) (hm : 2 ^ uiLog2PageSize ∣ uiSize)
    (hk : env.kmalloc os.nKmalloc ≠ 0) :
    ∃ d os1, _AllocOSPageArray env uiSize uiLog2PageSize bZero bPoisonOnAlloc bPoisonOnFree
        bOnDemand ui32CPUCacheFlags os = (PVRSRV_ERROR.PVRSRV_OK, some d, os1)
      ∧ wellFormed d ∧ d.bHasOSPages = false ∧ d.bZero = bZero
      ∧ d.bPoisonOnAlloc = bPoisonOnAlloc ∧ d.bPoisonOnFree = bPoisonOnFree
      ∧ d.bOnDemand = bOnDemand ∧ d.ui32CPUCacheFlags = ui32CPUCacheFlags
      ∧ d.uiLog2PageSize = uiLog2PageSize ∧ d.addr = env.kmalloc os.nKmalloc
      ∧ os1.nAlloc = os.nAlloc ∧ os1.held = os.held ∧ os1.nCreatePMR = os.nCreatePMR
      ∧ os1.tables = d.addr :: os.tables := by
  have h1 : ¬ (0x1000000000 ≤ uiSize) := by omega
  have h2 : uiSize &&& (2 ^ uiLog2PageSize - 1) = 0 := by
    rw [Nat.and_pow_two_sub_one_eq_mod]
    exact Nat.mod_eq_zero_of_dvd hm
  simp only [_AllocOSPageArray, ge_iff_le, h1, if_false, mask_eq _ hn, h2, ne_eq,
    not_true_eq_false, kmalloc, hk]
  refine ⟨_, _, rfl, ?_⟩
  simp [wellFormed, u32]
  exact Nat.mod_lt _ (by norm_num)

theorem roundUp_eq (a b : Nat) : (if a > b then a else b) = max a b := by
  split <;> omega

/-! ## The calls of the bridge entry points -/

theorem resmanFrees_append (a b : List BridgeCall) :
    resmanFrees (a ++ b) = resmanFrees a ++ resmanFrees b := by
  induction a with
  | nil => simp [resmanFrees]
  | cons e l ih => cases e <;> simp [resmanFrees, ih]

theorem directCalls_append (fn : DomainFn) (a b : List BridgeCall) :
    directCalls fn (a ++ b) = directCalls fn a ++ directCalls fn b := by
  induction a with
  | nil => simp [directCalls]
  | cons e l ih =>
    cases e <;> simp [directCalls, ih]
    split <;> simp

theorem createOutcome_append (fn : DomainFn) (a b : List BridgeCall) :
    createOutcome fn (a ++ b)
      = match createOutcome fn a with
        | some x => some x
        | none => createOutcome fn b := by
  induction a with
  | nil => simp [createOutcome]
  | cons e l ih =>
    cases e <;> simp [createOutcome, ih]
    split <;> simp

theorem registerOutcome_append (a b : List BridgeCall) :
    registerOutcome (a ++ b)
      = match registerOutcome a with
        | some x => some x
        | none => registerOutcome b := by
  induction a with
  | nil => simp [registerOutcome]
  | cons e l ih => cases e <;> simp [registerOutcome, ih]

theorem silent_nil : silent [] := by
  simp [silent, resmanFrees, registerOutcome, directCalls, createOutcome]

theorem silent_append {a b : List BridgeCall} (ha : silent a) (hb : silent b) :
    silent (a ++ b) := by
  obtain ⟨a1, a2, a3⟩ := ha
  obtain ⟨b1, b2, b3⟩ := hb
  refine ⟨by simp [resmanFrees_append, a1, b1], by simp [registerOutcome_append, a2, b2], ?_⟩
  intro fn
  exact ⟨by simp [directCalls_append, (a3 fn).1, (b3 fn).1],
    by simp [createOutcome_append, (a3 fn).2, (b3 fn).2]⟩

section calls
variable {σ : Type} (S : Services σ)

theorem lookup_step (h : Nat) (t : PVRSRV_HANDLE_TYPE) (c : Conn σ) :
    ∃ e d c', Call.PVRSRVLookupHandle S h t c = ((e, d), c')
      ∧ c'.calls = c.calls ++ [BridgeCall.PVRSRVLookupHandle h t e d] :=
  ⟨_, _, _, rfl, rfl⟩

theorem find_step (i : Nat) (c : Conn σ) :
    ∃ e d c', Call.ResManFindPrivateDataByPtr S i c = ((e, d), c')
      ∧ c'.calls = c.calls ++ [BridgeCall.ResManFindPrivateDataByPtr i e d] :=
  ⟨_, _, _, rfl, rfl⟩

theorem domain_step (f : DomainFn) (a : List Nat) (c : Conn σ) :
    ∃ e o c', Call.domain S f a c = ((e, o), c')
      ∧ c'.calls = c.calls ++ [BridgeCall.domain f a e o] :=
  ⟨_, _, _, rfl, rfl⟩

theorem register_step (t : RESMAN_TYPE) (p : Nat) (f : DomainFn) (c : Conn σ) :
    ∃ i c', Call.ResManRegisterRes S t p f c = (i, c')
      ∧ c'.calls = c.calls ++ [BridgeCall.ResManRegisterRes t p f i] :=
  ⟨_, _, rfl, rfl⟩

theorem allocHandle_step (d : Nat) (t : PVRSRV_HANDLE_TYPE) (c : Conn σ) :
    ∃ e h c', Call.PVRSRVAllocHandle S d t c = ((e, h), c')
      ∧ c'.calls = c.calls ++ [BridgeCall.PVRSRVAllocHandle d t e h] :=
  ⟨_, _, _, rfl, rfl⟩

theorem allocSubHandle_step (d : Nat) (t : PVRSRV_HANDLE_TYPE) (p : Nat) (c : Conn σ) :
    ∃ e h c', Call.PVRSRVAllocSubHandle S d t p c = ((e, h), c')
      ∧ c'.calls = c.calls ++ [BridgeCall.PVRSRVAllocSubHandle d t p e h] :=
  ⟨_, _, _, rfl, rfl⟩

theorem release_step (h : Nat) (t : PVRSRV_HANDLE_TYPE) (c : Conn σ) :
    ∃ e c', Call.PVRSRVReleaseHandle S h t c = (e, c')
      ∧ c'.calls = c.calls ++ [BridgeCall.PVRSRVReleaseHandle h t e] :=
  ⟨_, _, rfl, rfl⟩

theorem free_step (i : Nat) (c : Conn σ) :
    ∃ e c', Call.ResManFreeResByPtr S i c = (e, c')
      ∧ c'.calls = c.calls ++ [BridgeCall.ResManFreeResByPtr i e] :=
  ⟨_, _, rfl, rfl⟩

theorem allocMem_step (n : Nat) (c : Conn σ) :
    ∃ p c', Call.OSAllocMem S n c = (p, c')
      ∧ c'.calls = c.calls ++ [BridgeCall.OSAllocMem n p] :=
  ⟨_, _, rfl, rfl⟩

theorem freeMem_calls (p : Nat) (c : Conn σ) :
    (Call.OSFreeMem S p c).calls = c.calls ++ [BridgeCall.OSFreeMem p] := rfl

theorem copyIn_step (dst src size : Nat) (c : Conn σ) :
    ∃ b w c' l, Call.copyInFails S dst src size c = ((b, w), c')
      ∧ c'.calls = c.calls ++ l ∧ silent l := by
  unfold Call.copyInFails
  dsimp only
  split
  · exact ⟨_, _, _, _, rfl, rfl,
      by simp [silent, resmanFrees, registerOutcome, directCalls, createOutcome]⟩
  · exact ⟨_, _, _, _, rfl, by simp [List.append_assoc]; rfl,
      by simp [silent, resmanFrees, registerOutcome, directCalls, createOutcome]⟩

theorem lookupFreeLists_step (hs : List Nat) (n : Nat) :
    ∀ (i : Nat) (ps : List Nat) (c : Conn σ),
    ∃ oe ps' c' l, lookupFreeLists S hs n i ps c = ((oe, ps'), c')
      ∧ c'.calls = c.calls ++ l ∧ silent l := by
  induction n with
  | zero =>
    intro i ps c
    exact ⟨_, _, _, [], rfl, by simp, silent_nil⟩
  | succ n ih =>
    intro i ps c
    unfold lookupFreeLists
    dsimp only
    obtain ⟨e1, d1, c1, hl1, hc1⟩ := lookup_step S (hs.getD i 0)
      PVRSRV_HANDLE_TYPE.PVRSRV_HANDLE_TYPE_RGX_FREELIST c
    rw [hl1]
    dsimp only
    have hs1 : silent [BridgeCall.PVRSRVLookupHandle (hs.getD i 0)
        PVRSRV_HANDLE_TYPE.PVRSRV_HANDLE_TYPE_RGX_FREELIST e1 d1] := by
      simp [silent, resmanFrees, registerOutcome, directCalls, createOutcome]
    split
    · exact ⟨_, _, _, _, rfl, hc1, hs1⟩
    · obtain ⟨e2, d2, c2, hl2, hc2⟩ := find_step S d1 c1
      rw [hl2]
      dsimp only
      have hs2 : silent [BridgeCall.ResManFindPrivateDataByPtr d1 e2 d2] := by
        simp [silent, resmanFrees, registerOutcome, directCalls, createOutcome]
      split
      · exact ⟨_, _, _, _, rfl, by rw [hc2, hc1, List.append_assoc], silent_append hs1 hs2⟩
      · obtain ⟨oe, ps', c', l, h, hc, hq⟩ := ih (i + 1) (ps ++ [d2]) c2
        exact ⟨_, _, _, _, h, by rw [hc, hc2, hc1, List.append_assoc, List.append_assoc],
          silent_append hs1 (silent_append hs2 hq)⟩

theorem RGXCreateRenderTarget_exit_spec (OUT : PVRSRV_BRIDGE_OUT_RGXCREATERENDERTARGET) (item obj : Nat) (c : Conn σ)
    (r : PVRSRV_BRIDGE_OUT_RGXCREATERENDERTARGET × Conn σ) (hr : RGXCreateRenderTarget_exit S OUT item obj c = r) :
    r.1 = OUT
    ∧ ∃ l, r.2.calls = c.calls ++ l
      ∧ exitCalls DomainFn.RGXCreateRenderTarget DomainFn.RGXDestroyRenderTarget OUT.eError item obj l := by
  subst hr
  unfold RGXCreateRenderTarget_exit exitCalls
  by_cases h1 : OUT.eError = PVRSRV_ERROR.PVRSRV_OK
  · exact ⟨by simp [h1], [],
      by simp [h1, createOutcome, registerOutcome, resmanFrees, directCalls]⟩
  · by_cases h2 : item = 0
    · by_cases h3 : obj = 0
      · exact ⟨by simp [h1, h2, h3], [],
          by simp [h1, h2, h3, createOutcome, registerOutcome, resmanFrees, directCalls]⟩
      · obtain ⟨e, o, c', hd, hc⟩ := domain_step S DomainFn.RGXDestroyRenderTarget [obj] c
        exact ⟨by simp [h1, h2, h3], [BridgeCall.domain DomainFn.RGXDestroyRenderTarget [obj] e o],
          by simp [h1, h2, h3, hd, hc, createOutcome, registerOutcome, resmanFrees,
            directCalls]⟩
    · obtain ⟨e, c', hd, hc⟩ := free_step S item c
      exact ⟨by simp [h1, h2], [BridgeCall.ResManFreeResByPtr item e],
        by simp [h1, h2, hd, hc, createOutcome, registerOutcome, resmanFrees, directCalls]⟩

theorem RGXCreateZSBuffer_exit_spec (OUT : PVRSRV_BRIDGE_OUT_RGXCREATEZSBUFFER) (item obj : Nat) (c : Conn σ)
    (r : PVRSRV_BRIDGE_OUT_RGXCREATEZSBUFFER × Conn σ) (hr : RGXCreateZSBuffer_exit S OUT item obj c = r) :
    r.1 = OUT
    ∧ ∃ l, r.2.calls = c.calls ++ l
      ∧ exitCalls DomainFn.RGXCreateZSBufferKM DomainFn.RGXDestroyZSBufferKM OUT.eError item obj l := by
  subst hr
  unfold RGXCreateZSBuffer_exit exitCalls
  by_cases h1 : OUT.eError = PVRSRV_ERROR.PVRSRV_OK
  · exact ⟨by simp [h1], [],
      by simp [h1, createOutcome, registerOutcome, resmanFrees, directCalls]⟩
  · by_cases h2 : item = 0
    · by_cases h3 : obj = 0
      · exact ⟨by simp [h1, h2, h3], [],
          by simp [h1, h2, h3, createOutcome, registerOutcome, resmanFrees, directCalls]⟩
      · obtain ⟨e, o, c', hd, hc⟩ := domain_step S DomainFn.RGXDestroyZSBufferKM [obj] c
        exact ⟨by simp [h1, h2, h3], [BridgeCall.domain DomainFn.RGXDestroyZSBufferKM [obj] e o],
          by simp [h1, h2, h3, hd, hc, createOutcome, registerOutcome, resmanFrees,
            directCalls]⟩
    · obtain ⟨e, c', hd, hc⟩ := free_step S item c
      exact ⟨by simp [h1, h2], [BridgeCall.ResManFreeResByPtr item e],
        by simp [h1, h2, hd, hc, createOutcome, registerOutcome, resmanFrees, directCalls]⟩

theorem RGXPopulateZSBuffer_exit_spec (OUT : PVRSRV_BRIDGE_OUT_RGXPOPULATEZSBUFFER) (item obj : Nat) (c : Conn σ)
    (r : PVRSRV_BRIDGE_OUT_RGXPOPULATEZSBUFFER × Conn σ) (hr : RGXPopulateZSBuffer_exit S OUT item obj c = r) :
    r.1 = OUT
    ∧ ∃ l, r.2.calls = c.calls ++ l
      ∧ exitCalls DomainFn.RGXPopulateZSBufferKM DomainFn.RGXUnpopulateZSBufferKM OUT.eError item obj l := by
  subst hr
  unfold RGXPopulateZSBuffer_exit exitCalls
  by_cases h1 : OUT.eError = PVRSRV_ERROR.PVRSRV_OK
  · exact ⟨by simp [h1], [],
      by simp [h1, createOutcome, registerOutcome, resmanFrees, directCalls]⟩
  · by_cases h2 : item = 0
    · by_cases h3 : obj = 0
      · exact ⟨by simp [h1, h2, h3], [],
          by simp [h1, h2, h3, createOutcome, registerOutcome, resmanFrees, directCalls]⟩
      · obtain ⟨e, o, c', hd, hc⟩ := domain_step S DomainFn.RGXUnpopulateZSBufferKM [obj] c
        exact ⟨by simp [h1, h2, h3], [BridgeCall.domain DomainFn.RGXUnpopulateZSBufferKM [obj] e o],
          by simp [h1, h2, h3, hd, hc, createOutcome, registerOutcome, resmanFrees,
            directCalls]⟩
    · obtain ⟨e, c', hd, hc⟩ := free_step S item c
      exact ⟨by simp [h1, h2], [BridgeCall.ResManFreeResByPtr item e],
        by simp [h1, h2, hd, hc, createOutcome, registerOutcome, resmanFrees, directCalls]⟩

theorem RGXCreateFreeList_exit_spec (OUT : PVRSRV_BRIDGE_OUT_RGXCREATEFREELIST) (item obj : Nat) (c : Conn σ)
    (r : PVRSRV_BRIDGE_OUT_RGXCREATEFREELIST × Conn σ) (hr : RGXCreateFreeList_exit S OUT item obj c = r) :
    r.1 = OUT
    ∧ ∃ l, r.2.calls = c.calls ++ l
      ∧ exitCalls DomainFn.RGXCreateFreeList DomainFn.RGXDestroyFreeList OUT.eError item obj l := by
  subst hr
  unfold RGXCreateFreeList_exit exitCalls
  by_cases h1 : OUT.eError = PVRSRV_ERROR.PVRSRV_OK
  · exact ⟨by simp [h1], [],
      by simp [h1, createOutcome, registerOutcome, resmanFrees, directCalls]⟩
  · by_cases h2 : item = 0
    · by_cases h3 : obj = 0
      · exact ⟨by simp [h1, h2, h3], [],
          by simp [h1, h2, h3, createOutcome, registerOutcome, resmanFrees, directCalls]⟩
      · obtain ⟨e, o, c', hd, hc⟩ := domain_step S DomainFn.RGXDestroyFreeList [obj] c
        exact ⟨by simp [h1, h2, h3], [BridgeCall.domain DomainFn.RGXDestroyFreeList [obj] e o],
          by simp [h1, h2, h3, hd, hc, createOutcome, registerOutcome, resmanFrees,
            directCalls]⟩
    · obtain ⟨e, c', hd, hc⟩ := free_step S item c
      exact ⟨by simp [h1, h2], [BridgeCall.ResManFreeResByPtr item e],
        by simp [h1, h2, hd, hc, createOutcome, registerOutcome, resmanFrees, directCalls]⟩

theorem RGXCreateHWRTData_exit_spec (OUT : PVRSRV_BRIDGE_OUT_RGXCREATEHWRTDATA)
    (item obj p1 p2 : Nat) (c : Conn σ)
    (r : PVRSRV_BRIDGE_OUT_RGXCREATEHWRTDATA × Conn σ)
    (hr : RGXCreateHWRTData_exit S OUT item obj p1 p2 c = r) :
    r.1 = OUT
    ∧ ∃ l, r.2.calls = c.calls ++ l
      ∧ exitCalls DomainFn.RGXCreateHWRTData DomainFn.RGXDestroyHWRTData OUT.eError item obj
          l := by
  subst hr
  unfold RGXCreateHWRTData_exit exitCalls
  simp only [Call.OSFreeMem, Call.ResManFreeResByPtr, Call.domain, Call.PVRSRVReleaseHandle]
  refine ⟨trivial, ?_⟩
  split_ifs <;>
    simp_all [List.append_assoc, createOutcome, registerOutcome, resmanFrees, directCalls]

theorem RGXCreateRenderContext_exit_spec (OUT : PVRSRV_BRIDGE_OUT_RGXCREATERENDERCONTEXT)
    (item obj p1 : Nat) (c : Conn σ)
    (r : PVRSRV_BRIDGE_OUT_RGXCREATERENDERCONTEXT × Conn σ)
    (hr : RGXCreateRenderContext_exit S OUT item obj p1 c = r) :
    r.1 = OUT
    ∧ ∃ l, r.2.calls = c.calls ++ l
      ∧ exitCalls DomainFn.PVRSRVRGXCreateRenderContextKM
          DomainFn.PVRSRVRGXDestroyRenderContextKM OUT.eError item obj l := by
  subst hr
  unfold RGXCreateRenderContext_exit exitCalls
  simp only [Call.OSFreeMem, Call.ResManFreeResByPtr, Call.domain, Call.PVRSRVReleaseHandle]
  refine ⟨trivial, ?_⟩
  split_ifs <;>
    simp_all [List.append_assoc, createOutcome, registerOutcome, resmanFrees, directCalls]

end calls

/-! ## The model of the collaborators -/

theorem freeList_allocHandle_failure_trace {σ : Type} (S : Services σ) (s : σ)
    (IN : PVRSRV_BRIDGE_IN_RGXCREATEFREELIST) (OUT0 : PVRSRV_BRIDGE_OUT_RGXCREATEFREELIST)
    (l1 l2 f2 : (PVRSRV_ERROR × Nat) × σ) (dc : (PVRSRV_ERROR × List Nat) × σ)
    (rg : Nat × σ) (ah : (PVRSRV_ERROR × Nat) × σ) (fr : PVRSRV_ERROR × σ)
    (h1 : S.PVRSRVLookupHandle IN.hDevNode PVRSRV_HANDLE_TYPE.PVRSRV_HANDLE_TYPE_DEV_NODE s = l1)
    (h2 : S.PVRSRVLookupHandle IN.hsFreeListPMR
            PVRSRV_HANDLE_TYPE.PVRSRV_HANDLE_TYPE_PHYSMEM_PMR l1.2 = l2)
    (h3 : S.ResManFindPrivateDataByPtr l2.1.2 l2.2 = f2)
    (h4 : S.domain DomainFn.RGXCreateFreeList
            [l1.1.2, IN.ui32ui32MaxFLPages, IN.ui32ui32InitFLPages, IN.ui32ui32GrowFLPages,
             IN.bbFreeListCheck, IN.spsFreeListDevVAddr, f2.1.2, IN.uiPMROffset] f2.2 = dc)
    (h5 : S.ResManRegisterRes RESMAN_TYPE.RESMAN_TYPE_RGX_FWIF_FREELIST (dc.1.2.getD 0 0)
            DomainFn.RGXDestroyFreeList dc.2 = rg)
    (h6 : S.PVRSRVAllocHandle rg.1 PVRSRV_HANDLE_TYPE.PVRSRV_HANDLE_TYPE_RGX_FREELIST rg.2 = ah)
    (h7 : S.ResManFreeResByPtr rg.1 ah.2 = fr)
    (ok1 : l1.1.1 = PVRSRV_ERROR.PVRSRV_OK) (ok2 : l2.1.1 = PVRSRV_ERROR.PVRSRV_OK)
    (ok3 : f2.1.1 = PVRSRV_ERROR.PVRSRV_OK) (ok4 : dc.1.1 = PVRSRV_ERROR.PVRSRV_OK)
    (ok5 : rg.1 ≠ 0) (bad6 : ah.1.1 ≠ PVRSRV_ERROR.PVRSRV_OK) :
    PVRSRVBridgeRGXCreateFreeList S IN OUT0 s
      = ({ hCleanupCookie := ah.1.2, eError := ah.1.1 },
         { s := fr.2,
           calls := [BridgeCall.PVRSRVLookupHandle IN.hDevNode
                       PVRSRV_HANDLE_TYPE.PVRSRV_HANDLE_TYPE_DEV_NODE l1.1.1 l1.1.2,
                     BridgeCall.PVRSRVLookupHandle IN.hsFreeListPMR
                       PVRSRV_HANDLE_TYPE.PVRSRV_HANDLE_TYPE_PHYSMEM_PMR l2.1.1 l2.1.2,
                     BridgeCall.ResManFindPrivateDataByPtr l2.1.2 f2.1.1 f2.1.2,
                     BridgeCall.domain DomainFn.RGXCreateFreeList
                       [l1.1.2, IN.ui32ui32MaxFLPages, IN.ui32ui32InitFLPages,
                        IN.ui32ui32GrowFLPages, IN.bbFreeListCheck, IN.spsFreeListDevVAddr,
                        f2.1.2, IN.uiPMROffset] dc.1.1 dc.1.2,
                     BridgeCall.ResManRegisterRes RESMAN_TYPE.RESMAN_TYPE_RGX_FWIF_FREELIST
                       (dc.1.2.getD 0 0) DomainFn.RGXDestroyFreeList rg.1,
                     BridgeCall.PVRSRVAllocHandle rg.1
                       PVRSRV_HANDLE_TYPE.PVRSRV_HANDLE_TYPE_RGX_FREELIST ah.1.1 ah.1.2,
                     BridgeCall.ResManFreeResByPtr rg.1 fr.1] }) := by
  unfold PVRSRVBridgeRGXCreateFreeList RGXCreateFreeList_exit
  simp only [Call.PVRSRVLookupHandle, Call.ResManFindPrivateDataByPtr, Call.domain,
    Call.ResManRegisterRes, Call.PVRSRVAllocHandle, Call.ResManFreeResByPtr,
    h1, h2, h3, h4, h5, h6, h7, ok1, ok2, ok3, ok4, ok5, bad6,
    ne_eq, not_true_eq_false, not_false_eq_true, if_true, if_false, ite_true, ite_false,
    List.nil_append, List.cons_append, List.append_assoc, List.singleton_append]


theorem World.find_fresh_item (w : World) (hw : w.wellFormed) (x : ResManItem)
    (hx : x.item = w.itemsMade + 1) :
    (w.items ++ [x]).find? (fun it => decide (it.item = w.itemsMade + 1)) = some x := by
  have h : w.items.find? (fun it => decide (it.item = w.itemsMade + 1)) = none := by
    rw [List.find?_eq_none]
    intro it hit
    have := hw.2.1 it hit
    simp
    omega
  simp [List.find?_append, h, hx]

theorem World.filter_fresh_item (w : World) (hw : w.wellFormed) (x : ResManItem)
    (hx : x.item = w.itemsMade + 1) :
    (w.items ++ [x]).filter (fun it => decide (it.item ≠ w.itemsMade + 1)) = w.items := by
  have hall : ∀ it ∈ w.items, ¬ it.item = w.itemsMade + 1 := by
    intro it hit
    have := hw.2.1 it hit
    omega
  simpa [List.filter_append, hx] using hall

theorem World.filter_fresh_object (w : World) (hw : w.wellFormed) :
    (w.objects ++ [w.objectsMade + 1]).filter (fun o => decide (o ≠ w.objectsMade + 1))
      = w.objects := by
  have hall : ∀ o ∈ w.objects, ¬ o = w.objectsMade + 1 := by
    intro o ho
    have := hw.2.2 o ho
    omega
  simpa [List.filter_append] using hall

theorem World.lookup_state (h : Nat) (t : PVRSRV_HANDLE_TYPE) (w : World) :
    (w.lookup h t).2 = w := by
  unfold World.lookup
  split <;> rfl

theorem World.findPrivateData_state (i : Nat) (w : World) : (w.findPrivateData i).2 = w := by
  unfold World.findPrivateData
  split <;> rfl

theorem svc_lookup : specServices.PVRSRVLookupHandle = World.lookup := rfl

theorem svc_find : specServices.ResManFindPrivateDataByPtr = World.findPrivateData := rfl

theorem svc_domain : specServices.domain = World.domain := rfl

theorem svc_register : specServices.ResManRegisterRes = World.register := rfl

theorem svc_alloc (d : Nat) (t : PVRSRV_HANDLE_TYPE) (w : World) :
    specServices.PVRSRVAllocHandle d t w = w.allocHandle d t 0 := rfl

theorem svc_free : specServices.ResManFreeResByPtr = World.freeByItem := rfl

theorem World.domain_create_ok (w : World) (args : List Nat)
    (h : w.createResult = PVRSRV_ERROR.PVRSRV_OK) :
    w.domain DomainFn.RGXCreateFreeList args
      = ((PVRSRV_ERROR.PVRSRV_OK,
          [w.objectsMade + 1, w.objectsMade + 1, w.objectsMade + 1, w.objectsMade + 1]),
         { w with objects := w.objects ++ [w.objectsMade + 1]
                  objectsMade := w.objectsMade + 1 }) := by
  simp [World.domain, h]

theorem World.register_ok (w : World) (t : RESMAN_TYPE) (p : Nat) (f : DomainFn)
    (h : w.itemBudget ≠ 0) :
    w.register t p f
      = (w.itemsMade + 1,
         { w with items := w.items ++
                    [{ item := w.itemsMade + 1, eType := t, param := p, pfnFree := f }]
                  itemsMade := w.itemsMade + 1
                  itemBudget := w.itemBudget - 1 }) := by
  simp [World.register, h]

theorem World.allocHandle_full (w : World) (d : Nat) (t : PVRSRV_HANDLE_TYPE) (p : Nat)
    (h : w.handleBudget = 0) :
    w.allocHandle d t p = ((PVRSRV_ERROR.PVRSRV_ERROR_OUT_OF_MEMORY, 0), w) := by
  simp [World.allocHandle, h]

theorem World.freeByItem_fresh (w : World) (hw : w.wellFormed) (t : RESMAN_TYPE) (p : Nat)
    (f : DomainFn) (hp : p ∉ w.dependents) :
    World.freeByItem (w.itemsMade + 1)
        { w with items := w.items ++
                   [{ item := w.itemsMade + 1, eType := t, param := p, pfnFree := f }]
                 itemsMade := w.itemsMade + 1
                 itemBudget := w.itemBudget - 1 }
      = (PVRSRV_ERROR.PVRSRV_OK,
         { w with itemsMade := w.itemsMade + 1
                  itemBudget := w.itemBudget - 1
                  objects := w.objects.filter (fun o => decide (o ≠ p))
                  destructorRuns := w.destructorRuns ++ [(f, p, PVRSRV_ERROR.PVRSRV_OK)] }) := by
  unfold World.freeByItem
  dsimp only
  rw [World.find_fresh_item w hw _ rfl]
  simp only [World.destroy, hp, if_false, ↓reduceIte, reduceCtorEq]
  rw [World.filter_fresh_item w hw
    { item := w.itemsMade + 1, eType := t, param := p, pfnFree := f } rfl]

/-- When `ResManRegisterRes` returns null after `RGXCreateFreeList` has made the
object `201`, the cleanup calls `RGXDestroyFreeList` on the object, once, and
never calls `ResManFreeResByPtr`. -/
theorem freeList_register_failure_example :
    (PVRSRVBridgeRGXCreateFreeList specServices sampleFreeListIN sampleFreeListOUT
        { sampleWorld with itemBudget := 0 }).1.eError
        = PVRSRV_ERROR.PVRSRV_ERROR_UNABLE_TO_REGISTER_RESOURCE
    ∧ directCalls DomainFn.RGXDestroyFreeList
        (PVRSRVBridgeRGXCreateFreeList specServices sampleFreeListIN sampleFreeListOUT
          { sampleWorld with itemBudget := 0 }).2.calls = [[201]]
    ∧ resmanFrees
        (PVRSRVBridgeRGXCreateFreeList specServices sampleFreeListIN sampleFreeListOUT
          { sampleWorld with itemBudget := 0 }).2.calls = [] := by
  decide

/-- When the first lookup fails, the call ends after it: no creation, no
registration, no cleanup call. -/
theorem freeList_lookup_failure_example :
    (PVRSRVBridgeRGXCreateFreeList specServices { sampleFreeListIN with hDevNode := 7 }
        sampleFreeListOUT sampleWorld).1.eError = InvalidHandle
    ∧ (PVRSRVBridgeRGXCreateFreeList specServices { sampleFreeListIN with hDevNode := 7 }
        sampleFreeListOUT sampleWorld).2.calls
        = [BridgeCall.PVRSRVLookupHandle 7 PVRSRV_HANDLE_TYPE.PVRSRV_HANDLE_TYPE_DEV_NODE
             InvalidHandle 0] := by
  decide

/-! ## The page count of a new page array -/

theorem pow_mul_sub_one_div (a m : Nat) (ha : 0 < a) (hm : 0 < m) : (m * a - 1) / a = m - 1 := by
  obtain ⟨k, rfl⟩ := Nat.exists_eq_succ_of_ne_zero (Nat.pos_iff_ne_zero.mp hm)
  have h : (k + 1) * a - 1 = (a - 1) + a * k := by
    rw [Nat.add_mul, Nat.one_mul, Nat.mul_comm k a]
    omega
  rw [h, Nat.add_mul_div_left _ _ ha, Nat.div_eq_of_lt (by omega)]
  simp

theorem numPagesOf_zero_small (L : Nat) (h4 : 1 ≤ L) (h32 : L ≤ 32) : numPagesOf 0 L = 0 := by
  have hm : (2:Nat) ^ 64 = 2 ^ (64 - L) * 2 ^ L := by rw [← Nat.pow_add]; congr 1; omega
  have hpos : 0 < (2:Nat) ^ (64 - L) := Nat.pos_pow_of_pos _ (by norm_num)
  have hdiv : (2 ^ 64 - 1) / 2 ^ L = 2 ^ (64 - L) - 1 := by
    rw [hm]
    exact pow_mul_sub_one_div _ _ (Nat.pos_pow_of_pos _ (by norm_num)) hpos
  have hlt : (2:Nat) ^ (64 - L) < 2 ^ 64 := Nat.pow_lt_pow_right (by norm_num) (by omega)
  have h2 : (2:Nat) ^ (64 - L) = 2 ^ 32 * 2 ^ (32 - L) := by rw [← Nat.pow_add]; congr 1; omega
  simp only [numPagesOf, u32, u64, Nat.zero_add, Nat.shiftRight_eq_div_pow]
  rw [Nat.mod_eq_of_lt (by norm_num : 2 ^ 64 - 1 < 2 ^ 64), hdiv,
    Nat.sub_add_cancel hpos, Nat.mod_eq_of_lt hlt, h2, Nat.mul_mod_right]

theorem numPagesOf_zero_large (L : Nat) (h33 : 33 ≤ L) (h64 : L < 64) :
    numPagesOf 0 L = 2 ^ (64 - L) := by
  have hm : (2:Nat) ^ 64 = 2 ^ (64 - L) * 2 ^ L := by rw [← Nat.pow_add]; congr 1; omega
  have hpos : 0 < (2:Nat) ^ (64 - L) := Nat.pos_pow_of_pos _ (by norm_num)
  have hdiv : (2 ^ 64 - 1) / 2 ^ L = 2 ^ (64 - L) - 1 := by
    rw [hm]
    exact pow_mul_sub_one_div _ _ (Nat.pos_pow_of_pos _ (by norm_num)) hpos
  have hlt : (2:Nat) ^ (64 - L) < 2 ^ 32 := Nat.pow_lt_pow_right (by norm_num) (by omega)
  simp only [numPagesOf, u32, u64, Nat.zero_add, Nat.shiftRight_eq_div_pow]
  rw [Nat.mod_eq_of_lt (by norm_num : 2 ^ 64 - 1 < 2 ^ 64), hdiv,
    Nat.sub_add_cancel hpos, Nat.mod_eq_of_lt (show 2 ^ (64 - L) < 2 ^ 64 by omega),
    Nat.mod_eq_of_lt hlt]

theorem numPagesOf_pos (uiSize L : Nat) (h0 : 0 < uiSize) (hs : uiSize < 2 ^ 36) (h4 : 4 ≤ L)
    (hd : 2 ^ L ∣ uiSize) : numPagesOf uiSize L * 2 ^ L = uiSize := by
  obtain ⟨k, rfl⟩ := hd
  have ha : 0 < (2:Nat) ^ L := Nat.pos_pow_of_pos _ (by norm_num)
  have hk : 0 < k := by
    rcases Nat.eq_zero_or_pos k with h | h
    · simp [h] at h0
    · exact h
  have h16 : (2:Nat) ^ 4 ≤ 2 ^ L := Nat.pow_le_pow_right (by norm_num) h4
  have hk32 : k < 2 ^ 32 := by
    by_contra hc
    have : 2 ^ 32 * 2 ^ 4 ≤ k * 2 ^ L := Nat.mul_le_mul (by omega) h16
    rw [Nat.mul_comm k] at this
    omega
  have e1 : (2 ^ L * k + (2 ^ 64 - 1)) % 2 ^ 64 = 2 ^ L * k - 1 := by
    have : 2 ^ L * k + (2 ^ 64 - 1) = (2 ^ L * k - 1) + 2 ^ 64 := by omega
    rw [this, Nat.add_mod_right, Nat.mod_eq_of_lt (by omega)]
  simp only [numPagesOf, u32, u64, Nat.shiftRight_eq_div_pow]
  rw [e1, Nat.mul_comm (2 ^ L) k, pow_mul_sub_one_div _ _ ha hk, Nat.sub_add_cancel hk,
    Nat.mod_eq_of_lt (show k < 2 ^ 64 by omega), Nat.mod_eq_of_lt hk32]

theorem numPagesOf_lt (uiSize L : Nat) : numPagesOf uiSize L < 2 ^ 32 :=
  Nat.mod_lt _ (by norm_num)

/-! ## The calls of `_PoisonPages` and `_FreeOSPages` -/

theorem poisonSubPages_log (K : Platform) (page : Nat) (data : List Nat) (size : Nat) :
    ∀ (n sub src : Nat) (os : OSState),
      poisonSubPages K page data size n sub src os
        = { os with log := os.log
              ++ (poisonSubPages K page data size n sub src OSState.init).log } := by
  intro n
  induction n with
  | zero => intro sub src os; simp [poisonSubPages, OSState.init]
  | succ n ih =>
    intro sub src os
    have h1 := ih (sub + 1) (poisonBytes data size K.PAGE_SIZE src).2
      { os with log := os.log
          ++ [OSEvent.page_write (page + sub) (poisonBytes data size K.PAGE_SIZE src).1] }
    have h2 := ih (sub + 1) (poisonBytes data size K.PAGE_SIZE src).2
      { OSState.init with log := OSState.init.log
          ++ [OSEvent.page_write (page + sub) (poisonBytes data size K.PAGE_SIZE src).1] }
    simp only [poisonSubPages]
    rw [h1]
    conv => rhs; rw [h2]
    simp [OSState.init, List.append_assoc]

theorem PoisonPages_log (K : Platform) (page uiOrder : Nat) (data : List Nat) (size : Nat)
    (os : OSState) :
    _PoisonPages K page uiOrder data size os
      = { os with log := os.log ++ poisonEvents K page uiOrder data size } :=
  poisonSubPages_log K page data size _ 0 0 os

theorem freeLoop_log (K : Platform) (env : OSEnv) (d : _PMR_OSPAGEARRAY_DATA_) :
    ∀ (n i : Nat) (os : OSState), i + n ≤ d.pagearray.length →
      (freeLoop K env (sub32 d.uiLog2PageSize K.PAGE_SHIFT) d n i os).log
        = os.log ++ ((d.pagearray.drop i).take n).flatMap (freeUnitEvents K env d) := by
  intro n
  induction n with
  | zero => intro i os _; simp [freeLoop]
  | succ n ih =>
    intro i os hi
    have hlt : i < d.pagearray.length := by omega
    have hdrop : (d.pagearray.drop i).take (n + 1)
        = d.pagearray.getD i 0 :: (d.pagearray.drop (i + 1)).take n := by
      have e1 : d.pagearray.getD i 0 = d.pagearray[i] := by
        simp [List.getD_eq_getElem?_getD, List.getElem?_eq_getElem hlt]
      rw [e1, List.drop_eq_getElem_cons hlt, List.take_succ_cons]
    simp only [freeLoop, hdrop, List.flatMap_cons]
    rw [ih (i + 1) _ (by omega)]
    generalize d.pagearray.getD i 0 = p
    simp only [freeUnitEvents, PoisonPages_log, __free_pages, set_memory_wb]
    by_cases h1 : d.bPoisonOnFree = true <;> by_cases h2 : d.bUnsetMemoryType = true <;>
      simp [h1, h2, List.append_assoc]

/-! ## Kernel mappings -/

section paths
variable {σ : Type} (S : Services σ)

theorem copyIn_cases (dst src size : Nat) (c : Conn σ) :
    ∃ b w c', Call.copyInFails S dst src size c = ((b, w), c')
      ∧ ((b = true ∧ c'.calls = c.calls ++ [BridgeCall.OSAccessOK src size false])
         ∨ ∃ e, b = decide (e ≠ PVRSRV_ERROR.PVRSRV_OK)
             ∧ c'.calls = c.calls ++ [BridgeCall.OSAccessOK src size true,
                                      BridgeCall.OSCopyFromUser dst src size e]) := by
  unfold Call.copyInFails
  dsimp only
  by_cases h : S.OSAccessOK src size c.s = false
  · rw [if_pos h, h]
    exact ⟨_, _, _, rfl, Or.inl ⟨rfl, rfl⟩⟩
  · rw [if_neg h]
    have h1 : S.OSAccessOK src size c.s = true := by simpa using h
    rw [h1]
    exact ⟨_, _, _, rfl, Or.inr ⟨_, rfl, by simp [List.append_assoc]⟩⟩

theorem lookupFreeLists_cases (hs : List Nat) (n : Nat) :
    ∀ (i : Nat) (ps : List Nat) (c : Conn σ),
    ∃ oe ps' c' l, lookupFreeLists S hs n i ps c = ((oe, ps'), c')
      ∧ c'.calls = c.calls ++ l
      ∧ (oe = none → lookupsOK l)
      ∧ (∀ e, oe = some e → e ≠ PVRSRV_ERROR.PVRSRV_OK
          ∧ ∃ l' x, l = l' ++ [x] ∧ lookupsOK l' ∧ x.lookupResult = some e) := by
  induction n with
  | zero =>
    intro i ps c
    exact ⟨_, _, _, [], rfl, by simp, (fun _ => by simp [lookupsOK]), (fun e h => by cases h)⟩
  | succ n ih =>
    intro i ps c
    unfold lookupFreeLists
    dsimp only
    obtain ⟨e1, d1, c1, hl1, hc1⟩ := lookup_step S (hs.getD i 0)
      PVRSRV_HANDLE_TYPE.PVRSRV_HANDLE_TYPE_RGX_FREELIST c
    rw [hl1]
    dsimp only
    by_cases hk1 : e1 = PVRSRV_ERROR.PVRSRV_OK
    swap
    · rw [if_pos hk1]
      refine ⟨_, _, _, _, rfl, hc1, (fun h => by cases h), fun e h => ?_⟩
      cases h
      exact ⟨hk1, [], _, rfl, by simp [lookupsOK], rfl⟩
    rw [if_neg (not_not_intro hk1)]
    subst hk1
    obtain ⟨e2, d2, c2, hl2, hc2⟩ := find_step S d1 c1
    rw [hl2]
    dsimp only
    by_cases hk2 : e2 = PVRSRV_ERROR.PVRSRV_OK
    swap
    · rw [if_pos hk2]
      refine ⟨_, _, _, _, rfl, by rw [hc2, hc1, List.append_assoc], (fun h => by cases h),
        fun e h => ?_⟩
      cases h
      exact ⟨hk2, [_], _, rfl, by simp [lookupsOK, BridgeCall.lookupResult], rfl⟩
    rw [if_neg (not_not_intro hk2)]
    subst hk2
    obtain ⟨oe, ps', c', l, h, hc, hq1, hq2⟩ := ih (i + 1) (ps ++ [d2]) c2
    refine ⟨_, _, _, _, h, by rw [hc, hc2, hc1, List.append_assoc, List.append_assoc],
      fun ho => ?_, fun e ho => ?_⟩
    · have := hq1 ho
      intro x hx
      simp only [List.append_assoc, List.singleton_append, List.mem_cons] at hx
      rcases hx with rfl | rfl | hx
      · rfl
      · rfl
      · exact this x hx
    · obtain ⟨hne, l', x, hl, hok, hx⟩ := hq2 e ho
      refine ⟨hne,
        BridgeCall.PVRSRVLookupHandle (hs.getD i 0)
          PVRSRV_HANDLE_TYPE.PVRSRV_HANDLE_TYPE_RGX_FREELIST PVRSRV_ERROR.PVRSRV_OK d1
        :: BridgeCall.ResManFindPrivateDataByPtr d1 PVRSRV_ERROR.PVRSRV_OK d2 :: l',
        x, by simp [hl], ?_, hx⟩
      intro y hy
      simp only [List.mem_cons] at hy
      rcases hy with rfl | rfl | hy
      · rfl
      · rfl
      · exact hok y hy

theorem lookupIfSet_cases (h : Nat) (t : PVRSRV_HANDLE_TYPE) (c : Conn σ) :
    ∃ oe v c', lookupIfSet S h t c = ((oe, v), c')
      ∧ ((oe = none ∧ ∃ d, c'.calls = c.calls ++ lookupIfSetCalls h t d v ∧ (h = 0 → v = 0))
         ∨ (∃ e d, oe = some e ∧ e ≠ PVRSRV_ERROR.PVRSRV_OK ∧ h ≠ 0
              ∧ c'.calls = c.calls ++ [BridgeCall.PVRSRVLookupHandle h t e d])
         ∨ (∃ e d x, oe = some e ∧ e ≠ PVRSRV_ERROR.PVRSRV_OK ∧ h ≠ 0
              ∧ c'.calls = c.calls ++ [BridgeCall.PVRSRVLookupHandle h t
                                          PVRSRV_ERROR.PVRSRV_OK d,
                                       BridgeCall.ResManFindPrivateDataByPtr d e x])) := by
  unfold lookupIfSet
  by_cases h0 : h = 0
  · rw [if_neg (not_not_intro h0)]
    exact ⟨_, _, _, rfl, Or.inl ⟨rfl, 0, by simp [lookupIfSetCalls, h0], fun _ => rfl⟩⟩
  · rw [if_pos h0]
    dsimp only
    obtain ⟨e1, d1, c1, hl1, hc1⟩ := lookup_step S h t c
    rw [hl1]
    dsimp only
    by_cases hk1 : e1 = PVRSRV_ERROR.PVRSRV_OK
    swap
    · rw [if_pos hk1]
      exact ⟨_, _, _, rfl, Or.inr (Or.inl ⟨_, _, rfl, hk1, h0, hc1⟩)⟩
    rw [if_neg (not_not_intro hk1)]
    subst hk1
    obtain ⟨e2, d2, c2, hl2, hc2⟩ := find_step S d1 c1
    rw [hl2]
    dsimp only
    by_cases hk2 : e2 = PVRSRV_ERROR.PVRSRV_OK
    swap
    · rw [if_pos hk2]
      exact ⟨_, _, _, rfl, Or.inr (Or.inr ⟨_, _, _, rfl, hk2, h0,
        by rw [hc2, hc1, List.append_assoc]; rfl⟩)⟩
    rw [if_neg (not_not_intro hk2)]
    subst hk2
    exact ⟨_, _, _, rfl, Or.inl ⟨rfl, d1,
      by rw [hc2, hc1, List.append_assoc]; simp [lookupIfSetCalls, h0], fun h1 => absurd h1 h0⟩⟩

theorem RGXCreateRenderTarget_exit_calls (OUT : PVRSRV_BRIDGE_OUT_RGXCREATERENDERTARGET)
    (item obj : Nat) (c : Conn σ) (r : PVRSRV_BRIDGE_OUT_RGXCREATERENDERTARGET × Conn σ)
    (hr : RGXCreateRenderTarget_exit S OUT item obj c = r) :
    r.1 = OUT
    ∧ ∃ rr fr de dout, r.2.calls = c.calls ++ cleanupCalls
        PVRSRV_HANDLE_TYPE.PVRSRV_HANDLE_TYPE_RGX_FWIF_RENDERTARGET DomainFn.RGXDestroyRenderTarget OUT.eError
        0 item obj [] rr fr de dout := by
  subst hr
  refine ⟨by unfold RGXCreateRenderTarget_exit; split_ifs <;> rfl, PVRSRV_ERROR.PVRSRV_OK,
    (Call.ResManFreeResByPtr S item c).1,
    (Call.domain S DomainFn.RGXDestroyRenderTarget [obj] c).1.1,
    (Call.domain S DomainFn.RGXDestroyRenderTarget [obj] c).1.2, ?_⟩
  unfold RGXCreateRenderTarget_exit cleanupCalls
  simp only [Call.OSFreeMem, Call.ResManFreeResByPtr, Call.domain, Call.PVRSRVReleaseHandle]
  split_ifs <;> simp_all

theorem RGXCreateZSBuffer_exit_calls (OUT : PVRSRV_BRIDGE_OUT_RGXCREATEZSBUFFER)
    (item obj : Nat) (c : Conn σ) (r : PVRSRV_BRIDGE_OUT_RGXCREATEZSBUFFER × Conn σ)
    (hr : RGXCreateZSBuffer_exit S OUT item obj c = r) :
    r.1 = OUT
    ∧ ∃ rr fr de dout, r.2.calls = c.calls ++ cleanupCalls
        PVRSRV_HANDLE_TYPE.PVRSRV_HANDLE_TYPE_RGX_FWIF_ZSBUFFER DomainFn.RGXDestroyZSBufferKM OUT.eError
        0 item obj [] rr fr de dout := by
  subst hr
  refine ⟨by unfold RGXCreateZSBuffer_exit; split_ifs <;> rfl, PVRSRV_ERROR.PVRSRV_OK,
    (Call.ResManFreeResByPtr S item c).1,
    (Call.domain S DomainFn.RGXDestroyZSBufferKM [obj] c).1.1,
    (Call.domain S DomainFn.RGXDestroyZSBufferKM [obj] c).1.2, ?_⟩
  unfold RGXCreateZSBuffer_exit cleanupCalls
  simp only [Call.OSFreeMem, Call.ResManFreeResByPtr, Call.domain, Call.PVRSRVReleaseHandle]
  split_ifs <;> simp_all

theorem RGXPopulateZSBuffer_exit_calls (OUT : PVRSRV_BRIDGE_OUT_RGXPOPULATEZSBUFFER)
    (item obj : Nat) (c : Conn σ) (r : PVRSRV_BRIDGE_OUT_RGXPOPULATEZSBUFFER × Conn σ)
    (hr : RGXPopulateZSBuffer_exit S OUT item obj c = r) :
    r.1 = OUT
    ∧ ∃ rr fr de dout, r.2.calls = c.calls ++ cleanupCalls
        PVRSRV_HANDLE_TYPE.PVRSRV_HANDLE_TYPE_RGX_POPULATION DomainFn.RGXUnpopulateZSBufferKM OUT.eError
        0 item obj [] rr fr de dout := by
  subst hr
  refine ⟨by unfold RGXPopulateZSBuffer_exit; split_ifs <;> rfl, PVRSRV_ERROR.PVRSRV_OK,
    (Call.ResManFreeResByPtr S item c).1,
    (Call.domain S DomainFn.RGXUnpopulateZSBufferKM [obj] c).1.1,
    (Call.domain S DomainFn.RGXUnpopulateZSBufferKM [obj] c).1.2, ?_⟩
  unfold RGXPopulateZSBuffer_exit cleanupCalls
  simp only [Call.OSFreeMem, Call.ResManFreeResByPtr, Call.domain, Call.PVRSRVReleaseHandle]
  split_ifs <;> simp_all

theorem RGXCreateFreeList_exit_calls (OUT : PVRSRV_BRIDGE_OUT_RGXCREATEFREELIST)
    (item obj : Nat) (c : Conn σ) (r : PVRSRV_BRIDGE_OUT_RGXCREATEFREELIST × Conn σ)
    (hr : RGXCreateFreeList_exit S OUT item obj c = r) :
    r.1 = OUT
    ∧ ∃ rr fr de dout, r.2.calls = c.calls ++ cleanupCalls
        PVRSRV_HANDLE_TYPE.PVRSRV_HANDLE_TYPE_RGX_FREELIST DomainFn.RGXDestroyFreeList OUT.eError
        0 item obj [] rr fr de dout := by
  subst hr
  refine ⟨by unfold RGXCreateFreeList_exit; split_ifs <;> rfl, PVRSRV_ERROR.PVRSRV_OK,
    (Call.ResManFreeResByPtr S item c).1,
    (Call.domain S DomainFn.RGXDestroyFreeList [obj] c).1.1,
    (Call.domain S DomainFn.RGXDestroyFreeList [obj] c).1.2, ?_⟩
  unfold RGXCreateFreeList_exit cleanupCalls
  simp only [Call.OSFreeMem, Call.ResManFreeResByPtr, Call.domain, Call.PVRSRVReleaseHandle]
  split_ifs <;> simp_all

theorem RGXCreateHWRTData_exit_calls (OUT : PVRSRV_BRIDGE_OUT_RGXCREATEHWRTDATA)
    (item obj p1 p2 : Nat) (c : Conn σ) (r : PVRSRV_BRIDGE_OUT_RGXCREATEHWRTDATA × Conn σ)
    (hr : RGXCreateHWRTData_exit S OUT item obj p1 p2 c = r) :
    r.1 = OUT
    ∧ ∃ rr fr de dout, r.2.calls = c.calls ++ cleanupCalls
        PVRSRV_HANDLE_TYPE.PVRSRV_HANDLE_TYPE_RGX_RTDATA_CLEANUP DomainFn.RGXDestroyHWRTData OUT.eError
        OUT.hCleanupCookie item obj [p1, p2] rr fr de dout := by
  subst hr
  refine ⟨by unfold RGXCreateHWRTData_exit; rfl, (Call.PVRSRVReleaseHandle S OUT.hCleanupCookie
      PVRSRV_HANDLE_TYPE.PVRSRV_HANDLE_TYPE_RGX_RTDATA_CLEANUP c).1,
    (Call.ResManFreeResByPtr S item (if OUT.hCleanupCookie ≠ 0 then (Call.PVRSRVReleaseHandle S OUT.hCleanupCookie
        PVRSRV_HANDLE_TYPE.PVRSRV_HANDLE_TYPE_RGX_RTDATA_CLEANUP c).2 else c)).1,
    (Call.domain S DomainFn.RGXDestroyHWRTData [obj] (if OUT.hCleanupCookie ≠ 0 then (Call.PVRSRVReleaseHandle S OUT.hCleanupCookie
        PVRSRV_HANDLE_TYPE.PVRSRV_HANDLE_TYPE_RGX_RTDATA_CLEANUP c).2 else c)).1.1,
    (Call.domain S DomainFn.RGXDestroyHWRTData [obj] (if OUT.hCleanupCookie ≠ 0 then (Call.PVRSRVReleaseHandle S OUT.hCleanupCookie
        PVRSRV_HANDLE_TYPE.PVRSRV_HANDLE_TYPE_RGX_RTDATA_CLEANUP c).2 else c)).1.2, ?_⟩
  unfold RGXCreateHWRTData_exit cleanupCalls
  simp only [Call.OSFreeMem, Call.ResManFreeResByPtr, Call.domain, Call.PVRSRVReleaseHandle]
  split_ifs <;> simp_all

theorem RGXCreateRenderContext_exit_calls (OUT : PVRSRV_BRIDGE_OUT_RGXCREATERENDERCONTEXT)
    (item obj p1 : Nat) (c : Conn σ) (r : PVRSRV_BRIDGE_OUT_RGXCREATERENDERCONTEXT × Conn σ)
    (hr : RGXCreateRenderContext_exit S OUT item obj p1 c = r) :
    r.1 = OUT
    ∧ ∃ rr fr de dout, r.2.calls = c.calls ++ cleanupCalls
        PVRSRV_HANDLE_TYPE.PVRSRV_HANDLE_TYPE_RGX_RC_CLEANUP DomainFn.PVRSRVRGXDestroyRenderContextKM OUT.eError
        OUT.hCleanupCookie item obj [p1] rr fr de dout := by
  subst hr
  refine ⟨by unfold RGXCreateRenderContext_exit; rfl, (Call.PVRSRVReleaseHandle S OUT.hCleanupCookie
      PVRSRV_HANDLE_TYPE.PVRSRV_HANDLE_TYPE_RGX_RC_CLEANUP c).1,
    (Call.ResManFreeResByPtr S item (if OUT.hCleanupCookie ≠ 0 then (Call.PVRSRVReleaseHandle S OUT.hCleanupCookie
        PVRSRV_HANDLE_TYPE.PVRSRV_HANDLE_TYPE_RGX_RC_CLEANUP c).2 else c)).1,
    (Call.domain S DomainFn.PVRSRVRGXDestroyRenderContextKM [obj] (if OUT.hCleanupCookie ≠ 0 then (Call.PVRSRVReleaseHandle S OUT.hCleanupCookie
        PVRSRV_HANDLE_TYPE.PVRSRV_HANDLE_TYPE_RGX_RC_CLEANUP c).2 else c)).1.1,
    (Call.domain S DomainFn.PVRSRVRGXDestroyRenderContextKM [obj] (if OUT.hCleanupCookie ≠ 0 then (Call.PVRSRVReleaseHandle S OUT.hCleanupCookie
        PVRSRV_HANDLE_TYPE.PVRSRV_HANDLE_TYPE_RGX_RC_CLEANUP c).2 else c)).1.2, ?_⟩
  unfold RGXCreateRenderContext_exit cleanupCalls
  simp only [Call.OSFreeMem, Call.ResManFreeResByPtr, Call.domain, Call.PVRSRVReleaseHandle]
  split_ifs <;> simp_all

end paths

theorem RGXCreateRenderTarget_paths {σ : Type} (S : Services σ) (s : σ)
    (IN : PVRSRV_BRIDGE_IN_RGXCREATERENDERTARGET) (OUT0 : PVRSRV_BRIDGE_OUT_RGXCREATERENDERTARGET)
    (P : PVRSRV_BRIDGE_OUT_RGXCREATERENDERTARGET → List BridgeCall → Prop)
    (path1 :
      ∀ (d1 : Nat) (e1 rr fr de : PVRSRV_ERROR) (dout : List Nat), e1 ≠ PVRSRV_ERROR.PVRSRV_OK → P
        { OUT0 with eError := e1 } (BridgeCall.PVRSRVLookupHandle IN.hDevNode
        PVRSRV_HANDLE_TYPE.PVRSRV_HANDLE_TYPE_DEV_NODE e1 d1 :: cleanupCalls
        PVRSRV_HANDLE_TYPE.PVRSRV_HANDLE_TYPE_RGX_FWIF_RENDERTARGET
        DomainFn.RGXDestroyRenderTarget e1 0 0 0 [] rr fr de dout))
    (path2 :
      ∀ (d1 : Nat) (o2 : List Nat) (e2 rr fr de : PVRSRV_ERROR) (dout : List Nat), e2 ≠
        PVRSRV_ERROR.PVRSRV_OK → P
        { OUT0 with eError := e2, ui32sRenderTargetFWDevVAddr := o2.getD 1 0 }
        (BridgeCall.PVRSRVLookupHandle IN.hDevNode PVRSRV_HANDLE_TYPE.PVRSRV_HANDLE_TYPE_DEV_NODE
        PVRSRV_ERROR.PVRSRV_OK d1 :: (BridgeCall.domain DomainFn.RGXCreateRenderTarget [d1,
        IN.spsVHeapTableDevVAddr] e2 o2 :: cleanupCalls
        PVRSRV_HANDLE_TYPE.PVRSRV_HANDLE_TYPE_RGX_FWIF_RENDERTARGET
        DomainFn.RGXDestroyRenderTarget e2 0 0 (o2.getD 0 0) [] rr fr de dout)))
    (path3 :
      ∀ (d1 : Nat) (o2 : List Nat) (rr fr de : PVRSRV_ERROR) (dout : List Nat), P
        { OUT0 with eError := PVRSRV_ERROR.PVRSRV_ERROR_UNABLE_TO_REGISTER_RESOURCE, ui32sRenderTargetFWDevVAddr := o2.getD 1 0 }
        (BridgeCall.PVRSRVLookupHandle IN.hDevNode PVRSRV_HANDLE_TYPE.PVRSRV_HANDLE_TYPE_DEV_NODE
        PVRSRV_ERROR.PVRSRV_OK d1 :: (BridgeCall.domain DomainFn.RGXCreateRenderTarget [d1,
        IN.spsVHeapTableDevVAddr] PVRSRV_ERROR.PVRSRV_OK o2 :: (BridgeCall.ResManRegisterRes
        RESMAN_TYPE.RESMAN_TYPE_RGX_FWIF_RENDERTARGET (o2.getD 0 0)
        DomainFn.RGXDestroyRenderTarget 0 :: cleanupCalls
        PVRSRV_HANDLE_TYPE.PVRSRV_HANDLE_TYPE_RGX_FWIF_RENDERTARGET
        DomainFn.RGXDestroyRenderTarget (PVRSRV_ERROR.PVRSRV_ERROR_UNABLE_TO_REGISTER_RESOURCE) 0
        0 (o2.getD 0 0) [] rr fr de dout))))
    (path4 :
      ∀ (d1 : Nat) (o2 : List Nat) (i3 h4 : Nat) (e4 rr fr de : PVRSRV_ERROR) (dout : List Nat),
        i3 ≠ 0 → P
        { OUT0 with eError := e4, ui32sRenderTargetFWDevVAddr := o2.getD 1 0, hsRenderTargetMemDesc := h4 }
        (BridgeCall.PVRSRVLookupHandle IN.hDevNode PVRSRV_HANDLE_TYPE.PVRSRV_HANDLE_TYPE_DEV_NODE
        PVRSRV_ERROR.PVRSRV_OK d1 :: (BridgeCall.domain DomainFn.RGXCreateRenderTarget [d1,
        IN.spsVHeapTableDevVAddr] PVRSRV_ERROR.PVRSRV_OK o2 :: (BridgeCall.ResManRegisterRes
        RESMAN_TYPE.RESMAN_TYPE_RGX_FWIF_RENDERTARGET (o2.getD 0 0)
        DomainFn.RGXDestroyRenderTarget i3 :: (BridgeCall.PVRSRVAllocHandle i3
        PVRSRV_HANDLE_TYPE.PVRSRV_HANDLE_TYPE_RGX_FWIF_RENDERTARGET e4 h4 :: cleanupCalls
        PVRSRV_HANDLE_TYPE.PVRSRV_HANDLE_TYPE_RGX_FWIF_RENDERTARGET
        DomainFn.RGXDestroyRenderTarget e4 0 i3 (o2.getD 0 0) [] rr fr de dout))))) :
    P (PVRSRVBridgeRGXCreateRenderTarget S IN OUT0 s).1
      (PVRSRVBridgeRGXCreateRenderTarget S IN OUT0 s).2.calls := by
  generalize hr : PVRSRVBridgeRGXCreateRenderTarget S IN OUT0 s = r
  unfold PVRSRVBridgeRGXCreateRenderTarget at hr
  dsimp only at hr
  obtain ⟨e1, d1, c1, hl1, hc1⟩ := lookup_step S IN.hDevNode
      PVRSRV_HANDLE_TYPE.PVRSRV_HANDLE_TYPE_DEV_NODE { s := s, calls := [] }
  rw [hl1] at hr
  dsimp only at hr
  by_cases hk1 : e1 = PVRSRV_ERROR.PVRSRV_OK
  swap
  · rw [if_pos hk1] at hr
    obtain ⟨hx, rr, fr, de, dout, hl⟩ := RGXCreateRenderTarget_exit_calls S _ _ _ _ _ hr
    rw [hx, hl, hc1]
    simp only [List.nil_append, List.append_assoc, List.cons_append, List.singleton_append]
    exact path1 d1 e1 rr fr de dout hk1
  rw [if_neg (not_not_intro hk1)] at hr
  subst hk1
  obtain ⟨e2, o2, c2, hl2, hc2⟩ := domain_step S DomainFn.RGXCreateRenderTarget [d1,
      IN.spsVHeapTableDevVAddr] c1
  rw [hl2] at hr
  dsimp only at hr
  by_cases hk2 : e2 = PVRSRV_ERROR.PVRSRV_OK
  swap
  · rw [if_pos hk2] at hr
    obtain ⟨hx, rr, fr, de, dout, hl⟩ := RGXCreateRenderTarget_exit_calls S _ _ _ _ _ hr
    rw [hx, hl, hc2, hc1]
    simp only [List.nil_append, List.append_assoc, List.cons_append, List.singleton_append]
    exact path2 d1 o2 e2 rr fr de dout hk2
  rw [if_neg (not_not_intro hk2)] at hr
  subst hk2
  obtain ⟨i3, c3, hl3, hc3⟩ := register_step S RESMAN_TYPE.RESMAN_TYPE_RGX_FWIF_RENDERTARGET
      (o2.getD 0 0) DomainFn.RGXDestroyRenderTarget c2
  rw [hl3] at hr
  dsimp only at hr
  by_cases hk3 : i3 = 0
  · subst hk3
    rw [if_pos rfl] at hr
    obtain ⟨hx, rr, fr, de, dout, hl⟩ := RGXCreateRenderTarget_exit_calls S _ _ _ _ _ hr
    rw [hx, hl, hc3, hc2, hc1]
    simp only [List.nil_append, List.append_assoc, List.cons_append, List.singleton_append]
    exact path3 d1 o2 rr fr de dout
  rw [if_neg hk3] at hr
  obtain ⟨e4, h4, c4, hl4, hc4⟩ := allocHandle_step S i3
      PVRSRV_HANDLE_TYPE.PVRSRV_HANDLE_TYPE_RGX_FWIF_RENDERTARGET c3
  rw [hl4] at hr
  dsimp only at hr
  obtain ⟨hx, rr, fr, de, dout, hl⟩ := RGXCreateRenderTarget_exit_calls S _ _ _ _ _ hr
  rw [hx, hl, hc4, hc3, hc2, hc1]
  simp only [List.nil_append, List.append_assoc, List.cons_append, List.singleton_append]
  exact path4 d1 o2 i3 h4 e4 rr fr de dout hk3

theorem RGXCreateZSBuffer_paths {σ : Type} (S : Services σ) (s : σ)
    (IN : PVRSRV_BRIDGE_IN_RGXCREATEZSBUFFER) (OUT0 : PVRSRV_BRIDGE_OUT_RGXCREATEZSBUFFER)
    (P : PVRSRV_BRIDGE_OUT_RGXCREATEZSBUFFER → List BridgeCall → Prop)
    (path1 :
      ∀ (d1 : Nat) (e1 rr fr de : PVRSRV_ERROR) (dout : List Nat), e1 ≠ PVRSRV_ERROR.PVRSRV_OK → P
        { OUT0 with eError := e1 } (BridgeCall.PVRSRVLookupHandle IN.hDevNode
        PVRSRV_HANDLE_TYPE.PVRSRV_HANDLE_TYPE_DEV_NODE e1 d1 :: cleanupCalls
        PVRSRV_HANDLE_TYPE.PVRSRV_HANDLE_TYPE_RGX_FWIF_ZSBUFFER DomainFn.RGXDestroyZSBufferKM e1 0
        0 0 [] rr fr de dout))
    (path2 :
      ∀ (d1 d2 : Nat) (e2 rr fr de : PVRSRV_ERROR) (dout : List Nat), e2 ≠ PVRSRV_ERROR.PVRSRV_OK
        → P { OUT0 with eError := e2 } (BridgeCall.PVRSRVLookupHandle IN.hDevNode
        PVRSRV_HANDLE_TYPE.PVRSRV_HANDLE_TYPE_DEV_NODE PVRSRV_ERROR.PVRSRV_OK d1 ::
        (BridgeCall.PVRSRVLookupHandle IN.hReservation
        PVRSRV_HANDLE_TYPE.PVRSRV_HANDLE_TYPE_DEVMEMINT_RESERVATION e2 d2 :: cleanupCalls
        PVRSRV_HANDLE_TYPE.PVRSRV_HANDLE_TYPE_RGX_FWIF_ZSBUFFER DomainFn.RGXDestroyZSBufferKM e2 0
        0 0 [] rr fr de dout)))
    (path3 :
      ∀ (d1 d2 d3 : Nat) (e3 rr fr de : PVRSRV_ERROR) (dout : List Nat), e3 ≠
        PVRSRV_ERROR.PVRSRV_OK → P { OUT0 with eError := e3 } (BridgeCall.PVRSRVLookupHandle
        IN.hDevNode PVRSRV_HANDLE_TYPE.PVRSRV_HANDLE_TYPE_DEV_NODE PVRSRV_ERROR.PVRSRV_OK d1 ::
        (BridgeCall.PVRSRVLookupHandle IN.hReservation
        PVRSRV_HANDLE_TYPE.PVRSRV_HANDLE_TYPE_DEVMEMINT_RESERVATION PVRSRV_ERROR.PVRSRV_OK d2 ::
        (BridgeCall.ResManFindPrivateDataByPtr d2 e3 d3 :: cleanupCalls
        PVRSRV_HANDLE_TYPE.PVRSRV_HANDLE_TYPE_RGX_FWIF_ZSBUFFER DomainFn.RGXDestroyZSBufferKM e3 0
        0 0 [] rr fr de dout))))
    (path4 :
      ∀ (d1 d2 d3 d4 : Nat) (e4 rr fr de : PVRSRV_ERROR) (dout : List Nat), e4 ≠
        PVRSRV_ERROR.PVRSRV_OK → P { OUT0 with eError := e4 } (BridgeCall.PVRSRVLookupHandle
        IN.hDevNode PVRSRV_HANDLE_TYPE.PVRSRV_HANDLE_TYPE_DEV_NODE PVRSRV_ERROR.PVRSRV_OK d1 ::
        (BridgeCall.PVRSRVLookupHandle IN.hReservation
        PVRSRV_HANDLE_TYPE.PVRSRV_HANDLE_TYPE_DEVMEMINT_RESERVATION PVRSRV_ERROR.PVRSRV_OK d2 ::
        (BridgeCall.ResManFindPrivateDataByPtr d2 PVRSRV_ERROR.PVRSRV_OK d3 ::
        (BridgeCall.PVRSRVLookupHandle IN.hPMR PVRSRV_HANDLE_TYPE.PVRSRV_HANDLE_TYPE_PHYSMEM_PMR
        e4 d4 :: cleanupCalls PVRSRV_HANDLE_TYPE.PVRSRV_HANDLE_TYPE_RGX_FWIF_ZSBUFFER
        DomainFn.RGXDestroyZSBufferKM e4 0 0 0 [] rr fr de dout)))))
    (path5 :
      ∀ (d1 d2 d3 d4 d5 : Nat) (e5 rr fr de : PVRSRV_ERROR) (dout : List Nat), e5 ≠
        PVRSRV_ERROR.PVRSRV_OK → P { OUT0 with eError := e5 } (BridgeCall.PVRSRVLookupHandle
        IN.hDevNode PVRSRV_HANDLE_TYPE.PVRSRV_HANDLE_TYPE_DEV_NODE PVRSRV_ERROR.PVRSRV_OK d1 ::
        (BridgeCall.PVRSRVLookupHandle IN.hReservation
        PVRSRV_HANDLE_TYPE.PVRSRV_HANDLE_TYPE_DEVMEMINT_RESERVATION PVRSRV_ERROR.PVRSRV_OK d2 ::
        (BridgeCall.ResManFindPrivateDataByPtr d2 PVRSRV_ERROR.PVRSRV_OK d3 ::
        (BridgeCall.PVRSRVLookupHandle IN.hPMR PVRSRV_HANDLE_TYPE.PVRSRV_HANDLE_TYPE_PHYSMEM_PMR
        PVRSRV_ERROR.PVRSRV_OK d4 :: (BridgeCall.ResManFindPrivateDataByPtr d4 e5 d5 ::
        cleanupCalls PVRSRV_HANDLE_TYPE.PVRSRV_HANDLE_TYPE_RGX_FWIF_ZSBUFFER
        DomainFn.RGXDestroyZSBufferKM e5 0 0 0 [] rr fr de dout))))))
    (path6 :
      ∀ (d1 d2 d3 d4 d5 : Nat) (o6 : List Nat) (e6 rr fr de : PVRSRV_ERROR) (dout : List Nat), e6
        ≠ PVRSRV_ERROR.PVRSRV_OK → P
        { OUT0 with eError := e6, ui32sZSBufferFWDevVAddr := o6.getD 1 0 }
        (BridgeCall.PVRSRVLookupHandle IN.hDevNode PVRSRV_HANDLE_TYPE.PVRSRV_HANDLE_TYPE_DEV_NODE
        PVRSRV_ERROR.PVRSRV_OK d1 :: (BridgeCall.PVRSRVLookupHandle IN.hReservation
        PVRSRV_HANDLE_TYPE.PVRSRV_HANDLE_TYPE_DEVMEMINT_RESERVATION PVRSRV_ERROR.PVRSRV_OK d2 ::
        (BridgeCall.ResManFindPrivateDataByPtr d2 PVRSRV_ERROR.PVRSRV_OK d3 ::
        (BridgeCall.PVRSRVLookupHandle IN.hPMR PVRSRV_HANDLE_TYPE.PVRSRV_HANDLE_TYPE_PHYSMEM_PMR
        PVRSRV_ERROR.PVRSRV_OK d4 :: (BridgeCall.ResManFindPrivateDataByPtr d4
        PVRSRV_ERROR.PVRSRV_OK d5 :: (BridgeCall.domain DomainFn.RGXCreateZSBufferKM [d1, d3, d5,
        IN.uiMapFlags] e6 o6 :: cleanupCalls
        PVRSRV_HANDLE_TYPE.PVRSRV_HANDLE_TYPE_RGX_FWIF_ZSBUFFER DomainFn.RGXDestroyZSBufferKM e6 0
        0 (o6.getD 0 0) [] rr fr de dout)))))))
    (path7 :
      ∀ (d1 d2 d3 d4 d5 : Nat) (o6 : List Nat) (rr fr de : PVRSRV_ERROR) (dout : List Nat), P
        { OUT0 with eError := PVRSRV_ERROR.PVRSRV_ERROR_UNABLE_TO_REGISTER_RESOURCE, ui32sZSBufferFWDevVAddr := o6.getD 1 0 }
        (BridgeCall.PVRSRVLookupHandle IN.hDevNode PVRSRV_HANDLE_TYPE.PVRSRV_HANDLE_TYPE_DEV_NODE
        PVRSRV_ERROR.PVRSRV_OK d1 :: (BridgeCall.PVRSRVLookupHandle IN.hReservation
        PVRSRV_HANDLE_TYPE.PVRSRV_HANDLE_TYPE_DEVMEMINT_RESERVATION PVRSRV_ERROR.PVRSRV_OK d2 ::
        (BridgeCall.ResManFindPrivateDataByPtr d2 PVRSRV_ERROR.PVRSRV_OK d3 ::
        (BridgeCall.PVRSRVLookupHandle IN.hPMR PVRSRV_HANDLE_TYPE.PVRSRV_HANDLE_TYPE_PHYSMEM_PMR
        PVRSRV_ERROR.PVRSRV_OK d4 :: (BridgeCall.ResManFindPrivateDataByPtr d4
        PVRSRV_ERROR.PVRSRV_OK d5 :: (BridgeCall.domain DomainFn.RGXCreateZSBufferKM [d1, d3, d5,
        IN.uiMapFlags] PVRSRV_ERROR.PVRSRV_OK o6 :: (BridgeCall.ResManRegisterRes
        RESMAN_TYPE.RESMAN_TYPE_RGX_FWIF_ZSBUFFER (o6.getD 0 0) DomainFn.RGXDestroyZSBufferKM 0 ::
        cleanupCalls PVRSRV_HANDLE_TYPE.PVRSRV_HANDLE_TYPE_RGX_FWIF_ZSBUFFER
        DomainFn.RGXDestroyZSBufferKM (PVRSRV_ERROR.PVRSRV_ERROR_UNABLE_TO_REGISTER_RESOURCE) 0 0
        (o6.getD 0 0) [] rr fr de dout))))))))
    (path8 :
      ∀ (d1 d2 d3 d4 d5 : Nat) (o6 : List Nat) (i7 h8 : Nat) (e8 rr fr de : PVRSRV_ERROR) (dout :
        List Nat), i7 ≠ 0 → P
        { OUT0 with eError := e8, ui32sZSBufferFWDevVAddr := o6.getD 1 0, hsZSBufferKM := h8 }
        (BridgeCall.PVRSRVLookupHandle IN.hDevNode PVRSRV_HANDLE_TYPE.PVRSRV_HANDLE_TYPE_DEV_NODE
        PVRSRV_ERROR.PVRSRV_OK d1 :: (BridgeCall.PVRSRVLookupHandle IN.hReservation
        PVRSRV_HANDLE_TYPE.PVRSRV_HANDLE_TYPE_DEVMEMINT_RESERVATION PVRSRV_ERROR.PVRSRV_OK d2 ::
        (BridgeCall.ResManFindPrivateDataByPtr d2 PVRSRV_ERROR.PVRSRV_OK d3 ::
        (BridgeCall.PVRSRVLookupHandle IN.hPMR PVRSRV_HANDLE_TYPE.PVRSRV_HANDLE_TYPE_PHYSMEM_PMR
        PVRSRV_ERROR.PVRSRV_OK d4 :: (BridgeCall.ResManFindPrivateDataByPtr d4
        PVRSRV_ERROR.PVRSRV_OK d5 :: (BridgeCall.domain DomainFn.RGXCreateZSBufferKM [d1, d3, d5,
        IN.uiMapFlags] PVRSRV_ERROR.PVRSRV_OK o6 :: (BridgeCall.ResManRegisterRes
        RESMAN_TYPE.RESMAN_TYPE_RGX_FWIF_ZSBUFFER (o6.getD 0 0) DomainFn.RGXDestroyZSBufferKM i7
        :: (BridgeCall.PVRSRVAllocHandle i7
        PVRSRV_HANDLE_TYPE.PVRSRV_HANDLE_TYPE_RGX_FWIF_ZSBUFFER e8 h8 :: cleanupCalls
        PVRSRV_HANDLE_TYPE.PVRSRV_HANDLE_TYPE_RGX_FWIF_ZSBUFFER DomainFn.RGXDestroyZSBufferKM e8 0
        i7 (o6.getD 0 0) [] rr fr de dout))))))))) :
    P (PVRSRVBridgeRGXCreateZSBuffer S IN OUT0 s).1
      (PVRSRVBridgeRGXCreateZSBuffer S IN OUT0 s).2.calls := by
  generalize hr : PVRSRVBridgeRGXCreateZSBuffer S IN OUT0 s = r
  unfold PVRSRVBridgeRGXCreateZSBuffer at hr
  dsimp only at hr
  obtain ⟨e1, d1, c1, hl1, hc1⟩ := lookup_step S IN.hDevNode
      PVRSRV_HANDLE_TYPE.PVRSRV_HANDLE_TYPE_DEV_NODE { s := s, calls := [] }
  rw [hl1] at hr
  dsimp only at hr
  by_cases hk1 : e1 = PVRSRV_ERROR.PVRSRV_OK
  swap
  · rw [if_pos hk1] at hr
    obtain ⟨hx, rr, fr, de, dout, hl⟩ := RGXCreateZSBuffer_exit_calls S _ _ _ _ _ hr
    rw [hx, hl, hc1]
    simp only [List.nil_append, List.append_assoc, List.cons_append, List.singleton_append]
    exact path1 d1 e1 rr fr de dout hk1
  rw [if_neg (not_not_intro hk1)] at hr
  subst hk1
  obtain ⟨e2, d2, c2, hl2, hc2⟩ := lookup_step S IN.hReservation
      PVRSRV_HANDLE_TYPE.PVRSRV_HANDLE_TYPE_DEVMEMINT_RESERVATION c1
  rw [hl2] at hr
  dsimp only at hr
  by_cases hk2 : e2 = PVRSRV_ERROR.PVRSRV_OK
  swap
  · rw [if_pos hk2] at hr
    obtain ⟨hx, rr, fr, de, dout, hl⟩ := RGXCreateZSBuffer_exit_calls S _ _ _ _ _ hr
    rw [hx, hl, hc2, hc1]
    simp only [List.nil_append, List.append_assoc, List.cons_append, List.singleton_append]
    exact path2 d1 d2 e2 rr fr de dout hk2
  rw [if_neg (not_not_intro hk2)] at hr
  subst hk2
  obtain ⟨e3, d3, c3, hl3, hc3⟩ := find_step S d2 c2
  rw [hl3] at hr
  dsimp only at hr
  by_cases hk3 : e3 = PVRSRV_ERROR.PVRSRV_OK
  swap
  · rw [if_pos hk3] at hr
    obtain ⟨hx, rr, fr, de, dout, hl⟩ := RGXCreateZSBuffer_exit_calls S _ _ _ _ _ hr
    rw [hx, hl, hc3, hc2, hc1]
    simp only [List.nil_append, List.append_assoc, List.cons_append, List.singleton_append]
    exact path3 d1 d2 d3 e3 rr fr de dout hk3
  rw [if_neg (not_not_intro hk3)] at hr
  subst hk3
  obtain ⟨e4, d4, c4, hl4, hc4⟩ := lookup_step S IN.hPMR
      PVRSRV_HANDLE_TYPE.PVRSRV_HANDLE_TYPE_PHYSMEM_PMR c3
  rw [hl4] at hr
  dsimp only at hr
  by_cases hk4 : e4 = PVRSRV_ERROR.PVRSRV_OK
  swap
  · rw [if_pos hk4] at hr
    obtain ⟨hx, rr, fr, de, dout, hl⟩ := RGXCreateZSBuffer_exit_calls S _ _ _ _ _ hr
    rw [hx, hl, hc4, hc3, hc2, hc1]
    simp only [List.nil_append, List.append_assoc, List.cons_append, List.singleton_append]
    exact path4 d1 d2 d3 d4 e4 rr fr de dout hk4
  rw [if_neg (not_not_intro hk4)] at hr
  subst hk4
  obtain ⟨e5, d5, c5, hl5, hc5⟩ := find_step S d4 c4
  rw [hl5] at hr
  dsimp only at hr
  by_cases hk5 : e5 = PVRSRV_ERROR.PVRSRV_OK
  swap
  · rw [if_pos hk5] at hr
    obtain ⟨hx, rr, fr, de, dout, hl⟩ := RGXCreateZSBuffer_exit_calls S _ _ _ _ _ hr
    rw [hx, hl, hc5, hc4, hc3, hc2, hc1]
    simp only [List.nil_append, List.append_assoc, List.cons_append, List.singleton_append]
    exact path5 d1 d2 d3 d4 d5 e5 rr fr de dout hk5
  rw [if_neg (not_not_intro hk5)] at hr
  subst hk5
  obtain ⟨e6, o6, c6, hl6, hc6⟩ := domain_step S DomainFn.RGXCreateZSBufferKM [d1, d3, d5,
      IN.uiMapFlags] c5
  rw [hl6] at hr
  dsimp only at hr
  by_cases hk6 : e6 = PVRSRV_ERROR.PVRSRV_OK
  swap
  · rw [if_pos hk6] at hr
    obtain ⟨hx, rr, fr, de, dout, hl⟩ := RGXCreateZSBuffer_exit_calls S _ _ _ _ _ hr
    rw [hx, hl, hc6, hc5, hc4, hc3, hc2, hc1]
    simp only [List.nil_append, List.append_assoc, List.cons_append, List.singleton_append]
    exact path6 d1 d2 d3 d4 d5 o6 e6 rr fr de dout hk6
  rw [if_neg (not_not_intro hk6)] at hr
  subst hk6
  obtain ⟨i7, c7, hl7, hc7⟩ := register_step S RESMAN_TYPE.RESMAN_TYPE_RGX_FWIF_ZSBUFFER (o6.getD 0
      0) DomainFn.RGXDestroyZSBufferKM c6
  rw [hl7] at hr
  dsimp only at hr
  by_cases hk7 : i7 = 0
  · subst hk7
    rw [if_pos rfl] at hr
    obtain ⟨hx, rr, fr, de, dout, hl⟩ := RGXCreateZSBuffer_exit_calls S _ _ _ _ _ hr
    rw [hx, hl, hc7, hc6, hc5, hc4, hc3, hc2, hc1]
    simp only [List.nil_append, List.append_assoc, List.cons_append, List.singleton_append]
    exact path7 d1 d2 d3 d4 d5 o6 rr fr de dout
  rw [if_neg hk7] at hr
  obtain ⟨e8, h8, c8, hl8, hc8⟩ := allocHandle_step S i7
      PVRSRV_HANDLE_TYPE.PVRSRV_HANDLE_TYPE_RGX_FWIF_ZSBUFFER c7
  rw [hl8] at hr
  dsimp only at hr
  obtain ⟨hx, rr, fr, de, dout, hl⟩ := RGXCreateZSBuffer_exit_calls S _ _ _ _ _ hr
  rw [hx, hl, hc8, hc7, hc6, hc5, hc4, hc3, hc2, hc1]
  simp only [List.nil_append, List.append_assoc, List.cons_append, List.singleton_append]
  exact path8 d1 d2 d3 d4 d5 o6 i7 h8 e8 rr fr de dout hk7

theorem RGXPopulateZSBuffer_paths {σ : Type} (S : Services σ) (s : σ)
    (IN : PVRSRV_BRIDGE_IN_RGXPOPULATEZSBUFFER) (OUT0 : PVRSRV_BRIDGE_OUT_RGXPOPULATEZSBUFFER)
    (P : PVRSRV_BRIDGE_OUT_RGXPOPULATEZSBUFFER → List BridgeCall → Prop)
    (path1 :
      ∀ (d1 : Nat) (e1 rr fr de : PVRSRV_ERROR) (dout : List Nat), e1 ≠ PVRSRV_ERROR.PVRSRV_OK → P
        { OUT0 with eError := e1 } (BridgeCall.PVRSRVLookupHandle IN.hsZSBufferKM
        PVRSRV_HANDLE_TYPE.PVRSRV_HANDLE_TYPE_RGX_FWIF_ZSBUFFER e1 d1 :: cleanupCalls
        PVRSRV_HANDLE_TYPE.PVRSRV_HANDLE_TYPE_RGX_POPULATION DomainFn.RGXUnpopulateZSBufferKM e1 0
        0 0 [] rr fr de dout))
    (path2 :
      ∀ (d1 d2 : Nat) (e2 rr fr de : PVRSRV_ERROR) (dout : List Nat), e2 ≠ PVRSRV_ERROR.PVRSRV_OK
        → P { OUT0 with eError := e2 } (BridgeCall.PVRSRVLookupHandle IN.hsZSBufferKM
        PVRSRV_HANDLE_TYPE.PVRSRV_HANDLE_TYPE_RGX_FWIF_ZSBUFFER PVRSRV_ERROR.PVRSRV_OK d1 ::
        (BridgeCall.ResManFindPrivateDataByPtr d1 e2 d2 :: cleanupCalls
        PVRSRV_HANDLE_TYPE.PVRSRV_HANDLE_TYPE_RGX_POPULATION DomainFn.RGXUnpopulateZSBufferKM e2 0
        0 0 [] rr fr de dout)))
    (path3 :
      ∀ (d1 d2 : Nat) (o3 : List Nat) (e3 rr fr de : PVRSRV_ERROR) (dout : List Nat), e3 ≠
        PVRSRV_ERROR.PVRSRV_OK → P { OUT0 with eError := e3 } (BridgeCall.PVRSRVLookupHandle
        IN.hsZSBufferKM PVRSRV_HANDLE_TYPE.PVRSRV_HANDLE_TYPE_RGX_FWIF_ZSBUFFER
        PVRSRV_ERROR.PVRSRV_OK d1 :: (BridgeCall.ResManFindPrivateDataByPtr d1
        PVRSRV_ERROR.PVRSRV_OK d2 :: (BridgeCall.domain DomainFn.RGXPopulateZSBufferKM [d2] e3 o3
        :: cleanupCalls PVRSRV_HANDLE_TYPE.PVRSRV_HANDLE_TYPE_RGX_POPULATION
        DomainFn.RGXUnpopulateZSBufferKM e3 0 0 (o3.getD 0 0) [] rr fr de dout))))
    (path4 :
      ∀ (d1 d2 : Nat) (o3 : List Nat) (rr fr de : PVRSRV_ERROR) (dout : List Nat), P
        { OUT0 with eError := PVRSRV_ERROR.PVRSRV_ERROR_UNABLE_TO_REGISTER_RESOURCE }
        (BridgeCall.PVRSRVLookupHandle IN.hsZSBufferKM
        PVRSRV_HANDLE_TYPE.PVRSRV_HANDLE_TYPE_RGX_FWIF_ZSBUFFER PVRSRV_ERROR.PVRSRV_OK d1 ::
        (BridgeCall.ResManFindPrivateDataByPtr d1 PVRSRV_ERROR.PVRSRV_OK d2 :: (BridgeCall.domain
        DomainFn.RGXPopulateZSBufferKM [d2] PVRSRV_ERROR.PVRSRV_OK o3 ::
        (BridgeCall.ResManRegisterRes RESMAN_TYPE.RESMAN_TYPE_RGX_POPULATION (o3.getD 0 0)
        DomainFn.RGXUnpopulateZSBufferKM 0 :: cleanupCalls
        PVRSRV_HANDLE_TYPE.PVRSRV_HANDLE_TYPE_RGX_POPULATION DomainFn.RGXUnpopulateZSBufferKM
        (PVRSRV_ERROR.PVRSRV_ERROR_UNABLE_TO_REGISTER_RESOURCE) 0 0 (o3.getD 0 0) [] rr fr de
        dout)))))
    (path5 :
      ∀ (d1 d2 : Nat) (o3 : List Nat) (i4 h5 : Nat) (e5 rr fr de : PVRSRV_ERROR) (dout : List
        Nat), i4 ≠ 0 → P { OUT0 with eError := e5, hsPopulation := h5 }
        (BridgeCall.PVRSRVLookupHandle IN.hsZSBufferKM
        PVRSRV_HANDLE_TYPE.PVRSRV_HANDLE_TYPE_RGX_FWIF_ZSBUFFER PVRSRV_ERROR.PVRSRV_OK d1 ::
        (BridgeCall.ResManFindPrivateDataByPtr d1 PVRSRV_ERROR.PVRSRV_OK d2 :: (BridgeCall.domain
        DomainFn.RGXPopulateZSBufferKM [d2] PVRSRV_ERROR.PVRSRV_OK o3 ::
        (BridgeCall.ResManRegisterRes RESMAN_TYPE.RESMAN_TYPE_RGX_POPULATION (o3.getD 0 0)
        DomainFn.RGXUnpopulateZSBufferKM i4 :: (BridgeCall.PVRSRVAllocHandle i4
        PVRSRV_HANDLE_TYPE.PVRSRV_HANDLE_TYPE_RGX_POPULATION e5 h5 :: cleanupCalls
        PVRSRV_HANDLE_TYPE.PVRSRV_HANDLE_TYPE_RGX_POPULATION DomainFn.RGXUnpopulateZSBufferKM e5 0
        i4 (o3.getD 0 0) [] rr fr de dout)))))) :
    P (PVRSRVBridgeRGXPopulateZSBuffer S IN OUT0 s).1
      (PVRSRVBridgeRGXPopulateZSBuffer S IN OUT0 s).2.calls := by
  generalize hr : PVRSRVBridgeRGXPopulateZSBuffer S IN OUT0 s = r
  unfold PVRSRVBridgeRGXPopulateZSBuffer at hr
  dsimp only at hr
  obtain ⟨e1, d1, c1, hl1, hc1⟩ := lookup_step S IN.hsZSBufferKM
      PVRSRV_HANDLE_TYPE.PVRSRV_HANDLE_TYPE_RGX_FWIF_ZSBUFFER { s := s, calls := [] }
  rw [hl1] at hr
  dsimp only at hr
  by_cases hk1 : e1 = PVRSRV_ERROR.PVRSRV_OK
  swap
  · rw [if_pos hk1] at hr
    obtain ⟨hx, rr, fr, de, dout, hl⟩ := RGXPopulateZSBuffer_exit_calls S _ _ _ _ _ hr
    rw [hx, hl, hc1]
    simp only [List.nil_append, List.append_assoc, List.cons_append, List.singleton_append]
    exact path1 d1 e1 rr fr de dout hk1
  rw [if_neg (not_not_intro hk1)] at hr
  subst hk1
  obtain ⟨e2, d2, c2, hl2, hc2⟩ := find_step S d1 c1
  rw [hl2] at hr
  dsimp only at hr
  by_cases hk2 : e2 = PVRSRV_ERROR.PVRSRV_OK
  swap
  · rw [if_pos hk2] at hr
    obtain ⟨hx, rr, fr, de, dout, hl⟩ := RGXPopulateZSBuffer_exit_calls S _ _ _ _ _ hr
    rw [hx, hl, hc2, hc1]
    simp only [List.nil_append, List.append_assoc, List.cons_append, List.singleton_append]
    exact path2 d1 d2 e2 rr fr de dout hk2
  rw [if_neg (not_not_intro hk2)] at hr
  subst hk2
  obtain ⟨e3, o3, c3, hl3, hc3⟩ := domain_step S DomainFn.RGXPopulateZSBufferKM [d2] c2
  rw [hl3] at hr
  dsimp only at hr
  by_cases hk3 : e3 = PVRSRV_ERROR.PVRSRV_OK
  swap
  · rw [if_pos hk3] at hr
    obtain ⟨hx, rr, fr, de, dout, hl⟩ := RGXPopulateZSBuffer_exit_calls S _ _ _ _ _ hr
    rw [hx, hl, hc3, hc2, hc1]
    simp only [List.nil_append, List.append_assoc, List.cons_append, List.singleton_append]
    exact path3 d1 d2 o3 e3 rr fr de dout hk3
  rw [if_neg (not_not_intro hk3)] at hr
  subst hk3
  obtain ⟨i4, c4, hl4, hc4⟩ := register_step S RESMAN_TYPE.RESMAN_TYPE_RGX_POPULATION (o3.getD 0 0)
      DomainFn.RGXUnpopulateZSBufferKM c3
  rw [hl4] at hr
  dsimp only at hr
  by_cases hk4 : i4 = 0
  · subst hk4
    rw [if_pos rfl] at hr
    obtain ⟨hx, rr, fr, de, dout, hl⟩ := RGXPopulateZSBuffer_exit_calls S _ _ _ _ _ hr
    rw [hx, hl, hc4, hc3, hc2, hc1]
    simp only [List.nil_append, List.append_assoc, List.cons_append, List.singleton_append]
    exact path4 d1 d2 o3 rr fr de dout
  rw [if_neg hk4] at hr
  obtain ⟨e5, h5, c5, hl5, hc5⟩ := allocHandle_step S i4
      PVRSRV_HANDLE_TYPE.PVRSRV_HANDLE_TYPE_RGX_POPULATION c4
  rw [hl5] at hr
  dsimp only at hr
  obtain ⟨hx, rr, fr, de, dout, hl⟩ := RGXPopulateZSBuffer_exit_calls S _ _ _ _ _ hr
  rw [hx, hl, hc5, hc4, hc3, hc2, hc1]
  simp only [List.nil_append, List.append_assoc, List.cons_append, List.singleton_append]
  exact path5 d1 d2 o3 i4 h5 e5 rr fr de dout hk4

theorem RGXCreateFreeList_paths {σ : Type} (S : Services σ) (s : σ)
    (IN : PVRSRV_BRIDGE_IN_RGXCREATEFREELIST) (OUT0 : PVRSRV_BRIDGE_OUT_RGXCREATEFREELIST)
    (P : PVRSRV_BRIDGE_OUT_RGXCREATEFREELIST → List BridgeCall → Prop)
    (path1 :
      ∀ (d1 : Nat) (e1 rr fr de : PVRSRV_ERROR) (dout : List Nat), e1 ≠ PVRSRV_ERROR.PVRSRV_OK → P
        { OUT0 with eError := e1 } (BridgeCall.PVRSRVLookupHandle IN.hDevNode
        PVRSRV_HANDLE_TYPE.PVRSRV_HANDLE_TYPE_DEV_NODE e1 d1 :: cleanupCalls
        PVRSRV_HANDLE_TYPE.PVRSRV_HANDLE_TYPE_RGX_FREELIST DomainFn.RGXDestroyFreeList e1 0 0 0 []
        rr fr de dout))
    (path2 :
      ∀ (d1 d2 : Nat) (e2 rr fr de : PVRSRV_ERROR) (dout : List Nat), e2 ≠ PVRSRV_ERROR.PVRSRV_OK
        → P { OUT0 with eError := e2 } (BridgeCall.PVRSRVLookupHandle IN.hDevNode
        PVRSRV_HANDLE_TYPE.PVRSRV_HANDLE_TYPE_DEV_NODE PVRSRV_ERROR.PVRSRV_OK d1 ::
        (BridgeCall.PVRSRVLookupHandle IN.hsFreeListPMR
        PVRSRV_HANDLE_TYPE.PVRSRV_HANDLE_TYPE_PHYSMEM_PMR e2 d2 :: cleanupCalls
        PVRSRV_HANDLE_TYPE.PVRSRV_HANDLE_TYPE_RGX_FREELIST DomainFn.RGXDestroyFreeList e2 0 0 0 []
        rr fr de dout)))
    (path3 :
      ∀ (d1 d2 d3 : Nat) (e3 rr fr de : PVRSRV_ERROR) (dout : List Nat), e3 ≠
        PVRSRV_ERROR.PVRSRV_OK → P { OUT0 with eError := e3 } (BridgeCall.PVRSRVLookupHandle
        IN.hDevNode PVRSRV_HANDLE_TYPE.PVRSRV_HANDLE_TYPE_DEV_NODE PVRSRV_ERROR.PVRSRV_OK d1 ::
        (BridgeCall.PVRSRVLookupHandle IN.hsFreeListPMR
        PVRSRV_HANDLE_TYPE.PVRSRV_HANDLE_TYPE_PHYSMEM_PMR PVRSRV_ERROR.PVRSRV_OK d2 ::
        (BridgeCall.ResManFindPrivateDataByPtr d2 e3 d3 :: cleanupCalls
        PVRSRV_HANDLE_TYPE.PVRSRV_HANDLE_TYPE_RGX_FREELIST DomainFn.RGXDestroyFreeList e3 0 0 0 []
        rr fr de dout))))
    (path4 :
      ∀ (d1 d2 d3 : Nat) (o4 : List Nat) (e4 rr fr de : PVRSRV_ERROR) (dout : List Nat), e4 ≠
        PVRSRV_ERROR.PVRSRV_OK → P { OUT0 with eError := e4 } (BridgeCall.PVRSRVLookupHandle
        IN.hDevNode PVRSRV_HANDLE_TYPE.PVRSRV_HANDLE_TYPE_DEV_NODE PVRSRV_ERROR.PVRSRV_OK d1 ::
        (BridgeCall.PVRSRVLookupHandle IN.hsFreeListPMR
        PVRSRV_HANDLE_TYPE.PVRSRV_HANDLE_TYPE_PHYSMEM_PMR PVRSRV_ERROR.PVRSRV_OK d2 ::
        (BridgeCall.ResManFindPrivateDataByPtr d2 PVRSRV_ERROR.PVRSRV_OK d3 :: (BridgeCall.domain
        DomainFn.RGXCreateFreeList [d1, IN.ui32ui32MaxFLPages, IN.ui32ui32InitFLPages,
        IN.ui32ui32GrowFLPages, IN.bbFreeListCheck, IN.spsFreeListDevVAddr, d3, IN.uiPMROffset] e4
        o4 :: cleanupCalls PVRSRV_HANDLE_TYPE.PVRSRV_HANDLE_TYPE_RGX_FREELIST
        DomainFn.RGXDestroyFreeList e4 0 0 (o4.getD 0 0) [] rr fr de dout)))))
    (path5 :
      ∀ (d1 d2 d3 : Nat) (o4 : List Nat) (rr fr de : PVRSRV_ERROR) (dout : List Nat), P
        { OUT0 with eError := PVRSRV_ERROR.PVRSRV_ERROR_UNABLE_TO_REGISTER_RESOURCE }
        (BridgeCall.PVRSRVLookupHandle IN.hDevNode PVRSRV_HANDLE_TYPE.PVRSRV_HANDLE_TYPE_DEV_NODE
        PVRSRV_ERROR.PVRSRV_OK d1 :: (BridgeCall.PVRSRVLookupHandle IN.hsFreeListPMR
        PVRSRV_HANDLE_TYPE.PVRSRV_HANDLE_TYPE_PHYSMEM_PMR PVRSRV_ERROR.PVRSRV_OK d2 ::
        (BridgeCall.ResManFindPrivateDataByPtr d2 PVRSRV_ERROR.PVRSRV_OK d3 :: (BridgeCall.domain
        DomainFn.RGXCreateFreeList [d1, IN.ui32ui32MaxFLPages, IN.ui32ui32InitFLPages,
        IN.ui32ui32GrowFLPages, IN.bbFreeListCheck, IN.spsFreeListDevVAddr, d3, IN.uiPMROffset]
        PVRSRV_ERROR.PVRSRV_OK o4 :: (BridgeCall.ResManRegisterRes
        RESMAN_TYPE.RESMAN_TYPE_RGX_FWIF_FREELIST (o4.getD 0 0) DomainFn.RGXDestroyFreeList 0 ::
        cleanupCalls PVRSRV_HANDLE_TYPE.PVRSRV_HANDLE_TYPE_RGX_FREELIST
        DomainFn.RGXDestroyFreeList (PVRSRV_ERROR.PVRSRV_ERROR_UNABLE_TO_REGISTER_RESOURCE) 0 0
        (o4.getD 0 0) [] rr fr de dout))))))
    (path6 :
      ∀ (d1 d2 d3 : Nat) (o4 : List Nat) (i5 h6 : Nat) (e6 rr fr de : PVRSRV_ERROR) (dout : List
        Nat), i5 ≠ 0 → P { OUT0 with eError := e6, hCleanupCookie := h6 }
        (BridgeCall.PVRSRVLookupHandle IN.hDevNode PVRSRV_HANDLE_TYPE.PVRSRV_HANDLE_TYPE_DEV_NODE
        PVRSRV_ERROR.PVRSRV_OK d1 :: (BridgeCall.PVRSRVLookupHandle IN.hsFreeListPMR
        PVRSRV_HANDLE_TYPE.PVRSRV_HANDLE_TYPE_PHYSMEM_PMR PVRSRV_ERROR.PVRSRV_OK d2 ::
        (BridgeCall.ResManFindPrivateDataByPtr d2 PVRSRV_ERROR.PVRSRV_OK d3 :: (BridgeCall.domain
        DomainFn.RGXCreateFreeList [d1, IN.ui32ui32MaxFLPages, IN.ui32ui32InitFLPages,
        IN.ui32ui32GrowFLPages, IN.bbFreeListCheck, IN.spsFreeListDevVAddr, d3, IN.uiPMROffset]
        PVRSRV_ERROR.PVRSRV_OK o4 :: (BridgeCall.ResManRegisterRes
        RESMAN_TYPE.RESMAN_TYPE_RGX_FWIF_FREELIST (o4.getD 0 0) DomainFn.RGXDestroyFreeList i5 ::
        (BridgeCall.PVRSRVAllocHandle i5 PVRSRV_HANDLE_TYPE.PVRSRV_HANDLE_TYPE_RGX_FREELIST e6 h6
        :: cleanupCalls PVRSRV_HANDLE_TYPE.PVRSRV_HANDLE_TYPE_RGX_FREELIST
        DomainFn.RGXDestroyFreeList e6 0 i5 (o4.getD 0 0) [] rr fr de dout))))))) :
    P (PVRSRVBridgeRGXCreateFreeList S IN OUT0 s).1
      (PVRSRVBridgeRGXCreateFreeList S IN OUT0 s).2.calls := by
  generalize hr : PVRSRVBridgeRGXCreateFreeList S IN OUT0 s = r
  unfold PVRSRVBridgeRGXCreateFreeList at hr
  dsimp only at hr
  obtain ⟨e1, d1, c1, hl1, hc1⟩ := lookup_step S IN.hDevNode
      PVRSRV_HANDLE_TYPE.PVRSRV_HANDLE_TYPE_DEV_NODE { s := s, calls := [] }
  rw [hl1] at hr
  dsimp only at hr
  by_cases hk1 : e1 = PVRSRV_ERROR.PVRSRV_OK
  swap
  · rw [if_pos hk1] at hr
    obtain ⟨hx, rr, fr, de, dout, hl⟩ := RGXCreateFreeList_exit_calls S _ _ _ _ _ hr
    rw [hx, hl, hc1]
    simp only [List.nil_append, List.append_assoc, List.cons_append, List.singleton_append]
    exact path1 d1 e1 rr fr de dout hk1
  rw [if_neg (not_not_intro hk1)] at hr
  subst hk1
  obtain ⟨e2, d2, c2, hl2, hc2⟩ := lookup_step S IN.hsFreeListPMR
      PVRSRV_HANDLE_TYPE.PVRSRV_HANDLE_TYPE_PHYSMEM_PMR c1
  rw [hl2] at hr
  dsimp only at hr
  by_cases hk2 : e2 = PVRSRV_ERROR.PVRSRV_OK
  swap
  · rw [if_pos hk2] at hr
    obtain ⟨hx, rr, fr, de, dout, hl⟩ := RGXCreateFreeList_exit_calls S _ _ _ _ _ hr
    rw [hx, hl, hc2, hc1]
    simp only [List.nil_append, List.append_assoc, List.cons_append, List.singleton_append]
    exact path2 d1 d2 e2 rr fr de dout hk2
  rw [if_neg (not_not_intro hk2)] at hr
  subst hk2
  obtain ⟨e3, d3, c3, hl3, hc3⟩ := find_step S d2 c2
  rw [hl3] at hr
  dsimp only at hr
  by_cases hk3 : e3 = PVRSRV_ERROR.PVRSRV_OK
  swap
  · rw [if_pos hk3] at hr
    obtain ⟨hx, rr, fr, de, dout, hl⟩ := RGXCreateFreeList_exit_calls S _ _ _ _ _ hr
    rw [hx, hl, hc3, hc2, hc1]
    simp only [List.nil_append, List.append_assoc, List.cons_append, List.singleton_append]
    exact path3 d1 d2 d3 e3 rr fr de dout hk3
  rw [if_neg (not_not_intro hk3)] at hr
  subst hk3
  obtain ⟨e4, o4, c4, hl4, hc4⟩ := domain_step S DomainFn.RGXCreateFreeList [d1,
      IN.ui32ui32MaxFLPages, IN.ui32ui32InitFLPages, IN.ui32ui32GrowFLPages, IN.bbFreeListCheck,
      IN.spsFreeListDevVAddr, d3, IN.uiPMROffset] c3
  rw [hl4] at hr
  dsimp only at hr
  by_cases hk4 : e4 = PVRSRV_ERROR.PVRSRV_OK
  swap
  · rw [if_pos hk4] at hr
    obtain ⟨hx, rr, fr, de, dout, hl⟩ := RGXCreateFreeList_exit_calls S _ _ _ _ _ hr
    rw [hx, hl, hc4, hc3, hc2, hc1]
    simp only [List.nil_append, List.append_assoc, List.cons_append, List.singleton_append]
    exact path4 d1 d2 d3 o4 e4 rr fr de dout hk4
  rw [if_neg (not_not_intro hk4)] at hr
  subst hk4
  obtain ⟨i5, c5, hl5, hc5⟩ := register_step S RESMAN_TYPE.RESMAN_TYPE_RGX_FWIF_FREELIST (o4.getD 0
      0) DomainFn.RGXDestroyFreeList c4
  rw [hl5] at hr
  dsimp only at hr
  by_cases hk5 : i5 = 0
  · subst hk5
    rw [if_pos rfl] at hr
    obtain ⟨hx, rr, fr, de, dout, hl⟩ := RGXCreateFreeList_exit_calls S _ _ _ _ _ hr
    rw [hx, hl, hc5, hc4, hc3, hc2, hc1]
    simp only [List.nil_append, List.append_assoc, List.cons_append, List.singleton_append]
    exact path5 d1 d2 d3 o4 rr fr de dout
  rw [if_neg hk5] at hr
  obtain ⟨e6, h6, c6, hl6, hc6⟩ := allocHandle_step S i5
      PVRSRV_HANDLE_TYPE.PVRSRV_HANDLE_TYPE_RGX_FREELIST c5
  rw [hl6] at hr
  dsimp only at hr
  obtain ⟨hx, rr, fr, de, dout, hl⟩ := RGXCreateFreeList_exit_calls S _ _ _ _ _ hr
  rw [hx, hl, hc6, hc5, hc4, hc3, hc2, hc1]
  simp only [List.nil_append, List.append_assoc, List.cons_append, List.singleton_append]
  exact path6 d1 d2 d3 o4 i5 h6 e6 rr fr de dout hk5

set_option maxHeartbeats 2000000 in
theorem RGXCreateHWRTData_paths {σ : Type} (S : Services σ) (s : σ) (B : BridgeConsts)
    (IN : PVRSRV_BRIDGE_IN_RGXCREATEHWRTDATA) (OUT0 : PVRSRV_BRIDGE_OUT_RGXCREATEHWRTDATA)
    (P : PVRSRV_BRIDGE_OUT_RGXCREATEHWRTDATA → List BridgeCall → Prop)
    (path1 :
      ∀ (rr fr de : PVRSRV_ERROR) (dout : List Nat), P
        { OUT0 with hCleanupCookie := 0, eError := PVRSRV_ERROR.PVRSRV_ERROR_OUT_OF_MEMORY }
        (BridgeCall.OSAllocMem (B.RGXFW_MAX_FREELISTS * B.sizeofPointer) 0 :: cleanupCalls
        PVRSRV_HANDLE_TYPE.PVRSRV_HANDLE_TYPE_RGX_RTDATA_CLEANUP DomainFn.RGXDestroyHWRTData
        (PVRSRV_ERROR.PVRSRV_ERROR_OUT_OF_MEMORY) 0 0 0 [0, 0] rr fr de dout))
    (path2 :
      ∀ (p1 : Nat) (rr fr de : PVRSRV_ERROR) (dout : List Nat), p1 ≠ 0 → P
        { OUT0 with hCleanupCookie := 0, eError := PVRSRV_ERROR.PVRSRV_ERROR_OUT_OF_MEMORY }
        (BridgeCall.OSAllocMem (B.RGXFW_MAX_FREELISTS * B.sizeofPointer) p1 ::
        (BridgeCall.OSAllocMem (B.RGXFW_MAX_FREELISTS * B.sizeofPointer) 0 :: cleanupCalls
        PVRSRV_HANDLE_TYPE.PVRSRV_HANDLE_TYPE_RGX_RTDATA_CLEANUP DomainFn.RGXDestroyHWRTData
        (PVRSRV_ERROR.PVRSRV_ERROR_OUT_OF_MEMORY) 0 0 0 [p1, 0] rr fr de dout)))
    (path3a :
      ∀ (p1 p2 : Nat) (rr fr de : PVRSRV_ERROR) (dout : List Nat), p1 ≠ 0 → p2 ≠ 0 → P
        { OUT0 with hCleanupCookie := 0, eError := PVRSRV_ERROR.PVRSRV_ERROR_INVALID_PARAMS }
        (BridgeCall.OSAllocMem (B.RGXFW_MAX_FREELISTS * B.sizeofPointer) p1 ::
        (BridgeCall.OSAllocMem (B.RGXFW_MAX_FREELISTS * B.sizeofPointer) p2 ::
        (BridgeCall.OSAccessOK IN.phapsFreeLists (B.RGXFW_MAX_FREELISTS * B.sizeofPointer) false
        :: cleanupCalls PVRSRV_HANDLE_TYPE.PVRSRV_HANDLE_TYPE_RGX_RTDATA_CLEANUP
        DomainFn.RGXDestroyHWRTData (PVRSRV_ERROR.PVRSRV_ERROR_INVALID_PARAMS) 0 0 0 [p1, p2] rr
        fr de dout))))
    (path3b :
      ∀ (p1 p2 : Nat) (e3 rr fr de : PVRSRV_ERROR) (dout : List Nat), p1 ≠ 0 → p2 ≠ 0 → e3 ≠
        PVRSRV_ERROR.PVRSRV_OK → P
        { OUT0 with hCleanupCookie := 0, eError := PVRSRV_ERROR.PVRSRV_ERROR_INVALID_PARAMS }
        (BridgeCall.OSAllocMem (B.RGXFW_MAX_FREELISTS * B.sizeofPointer) p1 ::
        (BridgeCall.OSAllocMem (B.RGXFW_MAX_FREELISTS * B.sizeofPointer) p2 ::
        (BridgeCall.OSAccessOK IN.phapsFreeLists (B.RGXFW_MAX_FREELISTS * B.sizeofPointer) true ::
        (BridgeCall.OSCopyFromUser p2 IN.phapsFreeLists (B.RGXFW_MAX_FREELISTS * B.sizeofPointer)
        e3 :: cleanupCalls PVRSRV_HANDLE_TYPE.PVRSRV_HANDLE_TYPE_RGX_RTDATA_CLEANUP
        DomainFn.RGXDestroyHWRTData (PVRSRV_ERROR.PVRSRV_ERROR_INVALID_PARAMS) 0 0 0 [p1, p2] rr
        fr de dout)))))
    (path4 :
      ∀ (p1 p2 d4 : Nat) (e4 rr fr de : PVRSRV_ERROR) (dout : List Nat), p1 ≠ 0 → p2 ≠ 0 → e4 ≠
        PVRSRV_ERROR.PVRSRV_OK → P { OUT0 with hCleanupCookie := 0, eError := e4 }
        (BridgeCall.OSAllocMem (B.RGXFW_MAX_FREELISTS * B.sizeofPointer) p1 ::
        (BridgeCall.OSAllocMem (B.RGXFW_MAX_FREELISTS * B.sizeofPointer) p2 ::
        (BridgeCall.OSAccessOK IN.phapsFreeLists (B.RGXFW_MAX_FREELISTS * B.sizeofPointer) true ::
        (BridgeCall.OSCopyFromUser p2 IN.phapsFreeLists (B.RGXFW_MAX_FREELISTS * B.sizeofPointer)
        PVRSRV_ERROR.PVRSRV_OK :: (BridgeCall.PVRSRVLookupHandle IN.hDevNode
        PVRSRV_HANDLE_TYPE.PVRSRV_HANDLE_TYPE_DEV_NODE e4 d4 :: cleanupCalls
        PVRSRV_HANDLE_TYPE.PVRSRV_HANDLE_TYPE_RGX_RTDATA_CLEANUP DomainFn.RGXDestroyHWRTData e4 0
        0 0 [p1, p2] rr fr de dout))))))
    (path5 :
      ∀ (p1 p2 d4 : Nat) (l5 : List BridgeCall) (x5 : BridgeCall) (e5 rr fr de : PVRSRV_ERROR)
        (dout : List Nat), p1 ≠ 0 → p2 ≠ 0 → lookupsOK l5 → x5.lookupResult = some e5 → e5 ≠
        PVRSRV_ERROR.PVRSRV_OK → P { OUT0 with hCleanupCookie := 0, eError := e5 }
        (BridgeCall.OSAllocMem (B.RGXFW_MAX_FREELISTS * B.sizeofPointer) p1 ::
        (BridgeCall.OSAllocMem (B.RGXFW_MAX_FREELISTS * B.sizeofPointer) p2 ::
        (BridgeCall.OSAccessOK IN.phapsFreeLists (B.RGXFW_MAX_FREELISTS * B.sizeofPointer) true ::
        (BridgeCall.OSCopyFromUser p2 IN.phapsFreeLists (B.RGXFW_MAX_FREELISTS * B.sizeofPointer)
        PVRSRV_ERROR.PVRSRV_OK :: (BridgeCall.PVRSRVLookupHandle IN.hDevNode
        PVRSRV_HANDLE_TYPE.PVRSRV_HANDLE_TYPE_DEV_NODE PVRSRV_ERROR.PVRSRV_OK d4 :: (l5 ++ (x5 ::
        cleanupCalls PVRSRV_HANDLE_TYPE.PVRSRV_HANDLE_TYPE_RGX_RTDATA_CLEANUP
        DomainFn.RGXDestroyHWRTData e5 0 0 0 [p1, p2] rr fr de dout))))))))
    (path6 :
      ∀ (p1 p2 d4 : Nat) (l5 : List BridgeCall) (ps5 o6 : List Nat) (e6 rr fr de : PVRSRV_ERROR)
        (dout : List Nat), p1 ≠ 0 → p2 ≠ 0 → lookupsOK l5 → e6 ≠ PVRSRV_ERROR.PVRSRV_OK → P
        { OUT0 with hCleanupCookie := 0, eError := e6, ui32FWHWRTData := o6.getD 3 0 }
        (BridgeCall.OSAllocMem (B.RGXFW_MAX_FREELISTS * B.sizeofPointer) p1 ::
        (BridgeCall.OSAllocMem (B.RGXFW_MAX_FREELISTS * B.sizeofPointer) p2 ::
        (BridgeCall.OSAccessOK IN.phapsFreeLists (B.RGXFW_MAX_FREELISTS * B.sizeofPointer) true ::
        (BridgeCall.OSCopyFromUser p2 IN.phapsFreeLists (B.RGXFW_MAX_FREELISTS * B.sizeofPointer)
        PVRSRV_ERROR.PVRSRV_OK :: (BridgeCall.PVRSRVLookupHandle IN.hDevNode
        PVRSRV_HANDLE_TYPE.PVRSRV_HANDLE_TYPE_DEV_NODE PVRSRV_ERROR.PVRSRV_OK d4 :: (l5 ++
        (BridgeCall.domain DomainFn.RGXCreateHWRTData ([d4, IN.ui32RenderTarget,
        IN.sPMMlistDevVAddr, IN.sVFPPageTableAddr] ++ ps5 ++ [IN.ui32PPPScreen,
        IN.ui32PPPGridOffset, IN.ui64PPPMultiSampleCtl, IN.ui32TPCStride, IN.sTailPtrsDevVAddr,
        IN.ui32TPCSize, IN.ui32TEScreen, IN.ui32TEAA, IN.ui32TEMTILE1, IN.ui32TEMTILE2,
        IN.ui32MTileStride, IN.ui16MaxRTs]) e6 o6 :: cleanupCalls
        PVRSRV_HANDLE_TYPE.PVRSRV_HANDLE_TYPE_RGX_RTDATA_CLEANUP DomainFn.RGXDestroyHWRTData e6 0
        0 (o6.getD 0 0) [p1, p2] rr fr de dout))))))))
    (path7 :
      ∀ (p1 p2 d4 : Nat) (l5 : List BridgeCall) (ps5 o6 : List Nat) (rr fr de : PVRSRV_ERROR)
        (dout : List Nat), p1 ≠ 0 → p2 ≠ 0 → lookupsOK l5 → P
        { OUT0 with hCleanupCookie := 0, eError := PVRSRV_ERROR.PVRSRV_ERROR_UNABLE_TO_REGISTER_RESOURCE, ui32FWHWRTData := o6.getD 3 0 }
        (BridgeCall.OSAllocMem (B.RGXFW_MAX_FREELISTS * B.sizeofPointer) p1 ::
        (BridgeCall.OSAllocMem (B.RGXFW_MAX_FREELISTS * B.sizeofPointer) p2 ::
        (BridgeCall.OSAccessOK IN.phapsFreeLists (B.RGXFW_MAX_FREELISTS * B.sizeofPointer) true ::
        (BridgeCall.OSCopyFromUser p2 IN.phapsFreeLists (B.RGXFW_MAX_FREELISTS * B.sizeofPointer)
        PVRSRV_ERROR.PVRSRV_OK :: (BridgeCall.PVRSRVLookupHandle IN.hDevNode
        PVRSRV_HANDLE_TYPE.PVRSRV_HANDLE_TYPE_DEV_NODE PVRSRV_ERROR.PVRSRV_OK d4 :: (l5 ++
        (BridgeCall.domain DomainFn.RGXCreateHWRTData ([d4, IN.ui32RenderTarget,
        IN.sPMMlistDevVAddr, IN.sVFPPageTableAddr] ++ ps5 ++ [IN.ui32PPPScreen,
        IN.ui32PPPGridOffset, IN.ui64PPPMultiSampleCtl, IN.ui32TPCStride, IN.sTailPtrsDevVAddr,
        IN.ui32TPCSize, IN.ui32TEScreen, IN.ui32TEAA, IN.ui32TEMTILE1, IN.ui32TEMTILE2,
        IN.ui32MTileStride, IN.ui16MaxRTs]) PVRSRV_ERROR.PVRSRV_OK o6 ::
        (BridgeCall.ResManRegisterRes RESMAN_TYPE.RESMAN_TYPE_RGX_FWIF_HWRTDATA (o6.getD 0 0)
        DomainFn.RGXDestroyHWRTData 0 :: cleanupCalls
        PVRSRV_HANDLE_TYPE.PVRSRV_HANDLE_TYPE_RGX_RTDATA_CLEANUP DomainFn.RGXDestroyHWRTData
        (PVRSRV_ERROR.PVRSRV_ERROR_UNABLE_TO_REGISTER_RESOURCE) 0 0 (o6.getD 0 0) [p1, p2] rr fr
        de dout)))))))))
    (path8 :
      ∀ (p1 p2 d4 : Nat) (l5 : List BridgeCall) (ps5 o6 : List Nat) (i7 h8 : Nat) (e8 rr fr de :
        PVRSRV_ERROR) (dout : List Nat), p1 ≠ 0 → p2 ≠ 0 → lookupsOK l5 → i7 ≠ 0 → e8 ≠
        PVRSRV_ERROR.PVRSRV_OK → P
        { OUT0 with hCleanupCookie := h8, eError := e8, ui32FWHWRTData := o6.getD 3 0 }
        (BridgeCall.OSAllocMem (B.RGXFW_MAX_FREELISTS * B.sizeofPointer) p1 ::
        (BridgeCall.OSAllocMem (B.RGXFW_MAX_FREELISTS * B.sizeofPointer) p2 ::
        (BridgeCall.OSAccessOK IN.phapsFreeLists (B.RGXFW_MAX_FREELISTS * B.sizeofPointer) true ::
        (BridgeCall.OSCopyFromUser p2 IN.phapsFreeLists (B.RGXFW_MAX_FREELISTS * B.sizeofPointer)
        PVRSRV_ERROR.PVRSRV_OK :: (BridgeCall.PVRSRVLookupHandle IN.hDevNode
        PVRSRV_HANDLE_TYPE.PVRSRV_HANDLE_TYPE_DEV_NODE PVRSRV_ERROR.PVRSRV_OK d4 :: (l5 ++
        (BridgeCall.domain DomainFn.RGXCreateHWRTData ([d4, IN.ui32RenderTarget,
        IN.sPMMlistDevVAddr, IN.sVFPPageTableAddr] ++ ps5 ++ [IN.ui32PPPScreen,
        IN.ui32PPPGridOffset, IN.ui64PPPMultiSampleCtl, IN.ui32TPCStride, IN.sTailPtrsDevVAddr,
        IN.ui32TPCSize, IN.ui32TEScreen, IN.ui32TEAA, IN.ui32TEMTILE1, IN.ui32TEMTILE2,
        IN.ui32MTileStride, IN.ui16MaxRTs]) PVRSRV_ERROR.PVRSRV_OK o6 ::
        (BridgeCall.ResManRegisterRes RESMAN_TYPE.RESMAN_TYPE_RGX_FWIF_HWRTDATA (o6.getD 0 0)
        DomainFn.RGXDestroyHWRTData i7 :: (BridgeCall.PVRSRVAllocHandle i7
        PVRSRV_HANDLE_TYPE.PVRSRV_HANDLE_TYPE_RGX_RTDATA_CLEANUP e8 h8 :: cleanupCalls
        PVRSRV_HANDLE_TYPE.PVRSRV_HANDLE_TYPE_RGX_RTDATA_CLEANUP DomainFn.RGXDestroyHWRTData e8 h8
        i7 (o6.getD 0 0) [p1, p2] rr fr de dout))))))))))
    (path9 :
      ∀ (p1 p2 d4 : Nat) (l5 : List BridgeCall) (ps5 o6 : List Nat) (i7 h8 h9 : Nat) (e9 rr fr de
        : PVRSRV_ERROR) (dout : List Nat), p1 ≠ 0 → p2 ≠ 0 → lookupsOK l5 → i7 ≠ 0 → e9 ≠
        PVRSRV_ERROR.PVRSRV_OK → P
        { OUT0 with hCleanupCookie := h8, eError := e9, ui32FWHWRTData := o6.getD 3 0, hRTACtlMemDesc := h9 }
        (BridgeCall.OSAllocMem (B.RGXFW_MAX_FREELISTS * B.sizeofPointer) p1 ::
        (BridgeCall.OSAllocMem (B.RGXFW_MAX_FREELISTS * B.sizeofPointer) p2 ::
        (BridgeCall.OSAccessOK IN.phapsFreeLists (B.RGXFW_MAX_FREELISTS * B.sizeofPointer) true ::
        (BridgeCall.OSCopyFromUser p2 IN.phapsFreeLists (B.RGXFW_MAX_FREELISTS * B.sizeofPointer)
        PVRSRV_ERROR.PVRSRV_OK :: (BridgeCall.PVRSRVLookupHandle IN.hDevNode
        PVRSRV_HANDLE_TYPE.PVRSRV_HANDLE_TYPE_DEV_NODE PVRSRV_ERROR.PVRSRV_OK d4 :: (l5 ++
        (BridgeCall.domain DomainFn.RGXCreateHWRTData ([d4, IN.ui32RenderTarget,
        IN.sPMMlistDevVAddr, IN.sVFPPageTableAddr] ++ ps5 ++ [IN.ui32PPPScreen,
        IN.ui32PPPGridOffset, IN.ui64PPPMultiSampleCtl, IN.ui32TPCStride, IN.sTailPtrsDevVAddr,
        IN.ui32TPCSize, IN.ui32TEScreen, IN.ui32TEAA, IN.ui32TEMTILE1, IN.ui32TEMTILE2,
        IN.ui32MTileStride, IN.ui16MaxRTs]) PVRSRV_ERROR.PVRSRV_OK o6 ::
        (BridgeCall.ResManRegisterRes RESMAN_TYPE.RESMAN_TYPE_RGX_FWIF_HWRTDATA (o6.getD 0 0)
        DomainFn.RGXDestroyHWRTData i7 :: (BridgeCall.PVRSRVAllocHandle i7
        PVRSRV_HANDLE_TYPE.PVRSRV_HANDLE_TYPE_RGX_RTDATA_CLEANUP PVRSRV_ERROR.PVRSRV_OK h8 ::
        (BridgeCall.PVRSRVAllocSubHandle (o6.getD 1 0)
        PVRSRV_HANDLE_TYPE.PVRSRV_HANDLE_TYPE_RGX_FW_MEMDESC h8 e9 h9 :: cleanupCalls
        PVRSRV_HANDLE_TYPE.PVRSRV_HANDLE_TYPE_RGX_RTDATA_CLEANUP DomainFn.RGXDestroyHWRTData e9 h8
        i7 (o6.getD 0 0) [p1, p2] rr fr de dout)))))))))))
    (path10 :
      ∀ (p1 p2 d4 : Nat) (l5 : List BridgeCall) (ps5 o6 : List Nat) (i7 h8 h9 h10 : Nat) (e10 rr
        fr de : PVRSRV_ERROR) (dout : List Nat), p1 ≠ 0 → p2 ≠ 0 → lookupsOK l5 → i7 ≠ 0 → P
        { OUT0 with hCleanupCookie := h8, eError := e10, ui32FWHWRTData := o6.getD 3 0, hRTACtlMemDesc := h9, hsHWRTDataMemDesc := h10 }
        (BridgeCall.OSAllocMem (B.RGXFW_MAX_FREELISTS * B.sizeofPointer) p1 ::
        (BridgeCall.OSAllocMem (B.RGXFW_MAX_FREELISTS * B.sizeofPointer) p2 ::
        (BridgeCall.OSAccessOK IN.phapsFreeLists (B.RGXFW_MAX_FREELISTS * B.sizeofPointer) true ::
        (BridgeCall.OSCopyFromUser p2 IN.phapsFreeLists (B.RGXFW_MAX_FREELISTS * B.sizeofPointer)
        PVRSRV_ERROR.PVRSRV_OK :: (BridgeCall.PVRSRVLookupHandle IN.hDevNode
        PVRSRV_HANDLE_TYPE.PVRSRV_HANDLE_TYPE_DEV_NODE PVRSRV_ERROR.PVRSRV_OK d4 :: (l5 ++
        (BridgeCall.domain DomainFn.RGXCreateHWRTData ([d4, IN.ui32RenderTarget,
        IN.sPMMlistDevVAddr, IN.sVFPPageTableAddr] ++ ps5 ++ [IN.ui32PPPScreen,
        IN.ui32PPPGridOffset, IN.ui64PPPMultiSampleCtl, IN.ui32TPCStride, IN.sTailPtrsDevVAddr,
        IN.ui32TPCSize, IN.ui32TEScreen, IN.ui32TEAA, IN.ui32TEMTILE1, IN.ui32TEMTILE2,
        IN.ui32MTileStride, IN.ui16MaxRTs]) PVRSRV_ERROR.PVRSRV_OK o6 ::
        (BridgeCall.ResManRegisterRes RESMAN_TYPE.RESMAN_TYPE_RGX_FWIF_HWRTDATA (o6.getD 0 0)
        DomainFn.RGXDestroyHWRTData i7 :: (BridgeCall.PVRSRVAllocHandle i7
        PVRSRV_HANDLE_TYPE.PVRSRV_HANDLE_TYPE_RGX_RTDATA_CLEANUP PVRSRV_ERROR.PVRSRV_OK h8 ::
        (BridgeCall.PVRSRVAllocSubHandle (o6.getD 1 0)
        PVRSRV_HANDLE_TYPE.PVRSRV_HANDLE_TYPE_RGX_FW_MEMDESC h8 PVRSRV_ERROR.PVRSRV_OK h9 ::
        (BridgeCall.PVRSRVAllocSubHandle (o6.getD 2 0)
        PVRSRV_HANDLE_TYPE.PVRSRV_HANDLE_TYPE_RGX_FW_MEMDESC h8 e10 h10 :: cleanupCalls
        PVRSRV_HANDLE_TYPE.PVRSRV_HANDLE_TYPE_RGX_RTDATA_CLEANUP DomainFn.RGXDestroyHWRTData e10
        h8 i7 (o6.getD 0 0) [p1, p2] rr fr de dout)))))))))))) :
    P (PVRSRVBridgeRGXCreateHWRTData B S IN OUT0 s).1
      (PVRSRVBridgeRGXCreateHWRTData B S IN OUT0 s).2.calls := by
  generalize hr : PVRSRVBridgeRGXCreateHWRTData B S IN OUT0 s = r
  unfold PVRSRVBridgeRGXCreateHWRTData at hr
  dsimp only at hr
  obtain ⟨p1, c1, hl1, hc1⟩ := allocMem_step S (B.RGXFW_MAX_FREELISTS * B.sizeofPointer)
      { s := s, calls := [] }
  rw [hl1] at hr
  dsimp only at hr
  by_cases hk1 : p1 = 0
  · subst hk1
    rw [if_pos rfl] at hr
    obtain ⟨hx, rr, fr, de, dout, hl⟩ := RGXCreateHWRTData_exit_calls S _ _ _ _ _ _ _ hr
    rw [hx, hl, hc1]
    simp only [List.nil_append, List.append_assoc, List.cons_append, List.singleton_append]
    exact path1 rr fr de dout
  rw [if_neg hk1] at hr
  obtain ⟨p2, c2, hl2, hc2⟩ := allocMem_step S (B.RGXFW_MAX_FREELISTS * B.sizeofPointer) c1
  rw [hl2] at hr
  dsimp only at hr
  by_cases hk2 : p2 = 0
  · subst hk2
    rw [if_pos rfl] at hr
    obtain ⟨hx, rr, fr, de, dout, hl⟩ := RGXCreateHWRTData_exit_calls S _ _ _ _ _ _ _ hr
    rw [hx, hl, hc2, hc1]
    simp only [List.nil_append, List.append_assoc, List.cons_append, List.singleton_append]
    exact path2 p1 rr fr de dout hk1
  rw [if_neg hk2] at hr
  obtain ⟨b3, w3, c3, hl3, hq3⟩ := copyIn_cases S p2 IN.phapsFreeLists (B.RGXFW_MAX_FREELISTS *
      B.sizeofPointer) c2
  rw [hl3] at hr
  dsimp only at hr
  rcases hq3 with ⟨hb, hc3⟩ | ⟨e3, hb, hc3⟩
  · subst hb
    rw [if_pos rfl] at hr
    obtain ⟨hx, rr, fr, de, dout, hl⟩ := RGXCreateHWRTData_exit_calls S _ _ _ _ _ _ _ hr
    rw [hx, hl, hc3, hc2, hc1]
    simp only [List.nil_append, List.append_assoc, List.cons_append, List.singleton_append]
    exact path3a p1 p2 rr fr de dout hk1 hk2
  subst hb
  by_cases hk3 : e3 = PVRSRV_ERROR.PVRSRV_OK
  swap
  · rw [if_pos (decide_eq_true hk3)] at hr
    obtain ⟨hx, rr, fr, de, dout, hl⟩ := RGXCreateHWRTData_exit_calls S _ _ _ _ _ _ _ hr
    rw [hx, hl, hc3, hc2, hc1]
    simp only [List.nil_append, List.append_assoc, List.cons_append, List.singleton_append]
    exact path3b p1 p2 e3 rr fr de dout hk1 hk2 hk3
  subst hk3
  have hn3 : ¬ (decide (PVRSRV_ERROR.PVRSRV_OK ≠ PVRSRV_ERROR.PVRSRV_OK) = true) := by decide
  rw [if_neg hn3] at hr
  clear hn3
  obtain ⟨e4, d4, c4, hl4, hc4⟩ := lookup_step S IN.hDevNode
      PVRSRV_HANDLE_TYPE.PVRSRV_HANDLE_TYPE_DEV_NODE c3
  rw [hl4] at hr
  dsimp only at hr
  by_cases hk4 : e4 = PVRSRV_ERROR.PVRSRV_OK
  swap
  · rw [if_pos hk4] at hr
    obtain ⟨hx, rr, fr, de, dout, hl⟩ := RGXCreateHWRTData_exit_calls S _ _ _ _ _ _ _ hr
    rw [hx, hl, hc4, hc3, hc2, hc1]
    simp only [List.nil_append, List.append_assoc, List.cons_append, List.singleton_append]
    exact path4 p1 p2 d4 e4 rr fr de dout hk1 hk2 hk4
  rw [if_neg (not_not_intro hk4)] at hr
  subst hk4
  obtain ⟨oe5, ps5, c5, l5, hl5, hc5, hq5a, hq5b⟩ := lookupFreeLists_cases S w3
      B.RGXFW_MAX_FREELISTS 0 [] c4
  rw [hl5] at hr
  dsimp only at hr
  rcases oe5 with _ | e5
  swap
  · dsimp only at hr
    obtain ⟨hk5, lp5, x5, hll, hok5, hx5⟩ := hq5b e5 rfl
    subst hll
    obtain ⟨hx, rr, fr, de, dout, hl⟩ := RGXCreateHWRTData_exit_calls S _ _ _ _ _ _ _ hr
    rw [hx, hl, hc5, hc4, hc3, hc2, hc1]
    simp only [List.nil_append, List.append_assoc, List.cons_append, List.singleton_append]
    exact path5 p1 p2 d4 lp5 x5 e5 rr fr de dout hk1 hk2 hok5 hx5 hk5
  dsimp only at hr
  have hok5 := hq5a rfl
  obtain ⟨e6, o6, c6, hl6, hc6⟩ := domain_step S DomainFn.RGXCreateHWRTData ([d4,
      IN.ui32RenderTarget, IN.sPMMlistDevVAddr, IN.sVFPPageTableAddr] ++ ps5 ++ [IN.ui32PPPScreen,
      IN.ui32PPPGridOffset, IN.ui64PPPMultiSampleCtl, IN.ui32TPCStride, IN.sTailPtrsDevVAddr,
      IN.ui32TPCSize, IN.ui32TEScreen, IN.ui32TEAA, IN.ui32TEMTILE1, IN.ui32TEMTILE2,
      IN.ui32MTileStride, IN.ui16MaxRTs]) c5
  rw [hl6] at hr
  dsimp only at hr
  by_cases hk6 : e6 = PVRSRV_ERROR.PVRSRV_OK
  swap
  · rw [if_pos hk6] at hr
    obtain ⟨hx, rr, fr, de, dout, hl⟩ := RGXCreateHWRTData_exit_calls S _ _ _ _ _ _ _ hr
    rw [hx, hl, hc6, hc5, hc4, hc3, hc2, hc1]
    simp only [List.nil_append, List.append_assoc, List.cons_append, List.singleton_append]
    exact path6 p1 p2 d4 l5 ps5 o6 e6 rr fr de dout hk1 hk2 hok5 hk6
  rw [if_neg (not_not_intro hk6)] at hr
  subst hk6
  obtain ⟨i7, c7, hl7, hc7⟩ := register_step S RESMAN_TYPE.RESMAN_TYPE_RGX_FWIF_HWRTDATA (o6.getD 0
      0) DomainFn.RGXDestroyHWRTData c6
  rw [hl7] at hr
  dsimp only at hr
  by_cases hk7 : i7 = 0
  · subst hk7
    rw [if_pos rfl] at hr
    obtain ⟨hx, rr, fr, de, dout, hl⟩ := RGXCreateHWRTData_exit_calls S _ _ _ _ _ _ _ hr
    rw [hx, hl, hc7, hc6, hc5, hc4, hc3, hc2, hc1]
    simp only [List.nil_append, List.append_assoc, List.cons_append, List.singleton_append]
    exact path7 p1 p2 d4 l5 ps5 o6 rr fr de dout hk1 hk2 hok5
  rw [if_neg hk7] at hr
  obtain ⟨e8, h8, c8, hl8, hc8⟩ := allocHandle_step S i7
      PVRSRV_HANDLE_TYPE.PVRSRV_HANDLE_TYPE_RGX_RTDATA_CLEANUP c7
  rw [hl8] at hr
  dsimp only at hr
  by_cases hk8 : e8 = PVRSRV_ERROR.PVRSRV_OK
  swap
  · rw [if_pos hk8] at hr
    obtain ⟨hx, rr, fr, de, dout, hl⟩ := RGXCreateHWRTData_exit_calls S _ _ _ _ _ _ _ hr
    rw [hx, hl, hc8, hc7, hc6, hc5, hc4, hc3, hc2, hc1]
    simp only [List.nil_append, List.append_assoc, List.cons_append, List.singleton_append]
    exact path8 p1 p2 d4 l5 ps5 o6 i7 h8 e8 rr fr de dout hk1 hk2 hok5 hk7 hk8
  rw [if_neg (not_not_intro hk8)] at hr
  subst hk8
  obtain ⟨e9, h9, c9, hl9, hc9⟩ := allocSubHandle_step S (o6.getD 1 0)
      PVRSRV_HANDLE_TYPE.PVRSRV_HANDLE_TYPE_RGX_FW_MEMDESC h8 c8
  rw [hl9] at hr
  dsimp only at hr
  by_cases hk9 : e9 = PVRSRV_ERROR.PVRSRV_OK
  swap
  · rw [if_pos hk9] at hr
    obtain ⟨hx, rr, fr, de, dout, hl⟩ := RGXCreateHWRTData_exit_calls S _ _ _ _ _ _ _ hr
    rw [hx, hl, hc9, hc8, hc7, hc6, hc5, hc4, hc3, hc2, hc1]
    simp only [List.nil_append, List.append_assoc, List.cons_append, List.singleton_append]
    exact path9 p1 p2 d4 l5 ps5 o6 i7 h8 h9 e9 rr fr de dout hk1 hk2 hok5 hk7 hk9
  rw [if_neg (not_not_intro hk9)] at hr
  subst hk9
  obtain ⟨e10, h10, c10, hl10, hc10⟩ := allocSubHandle_step S (o6.getD 2 0)
      PVRSRV_HANDLE_TYPE.PVRSRV_HANDLE_TYPE_RGX_FW_MEMDESC h8 c9
  rw [hl10] at hr
  dsimp only at hr
  obtain ⟨hx, rr, fr, de, dout, hl⟩ := RGXCreateHWRTData_exit_calls S _ _ _ _ _ _ _ hr
  rw [hx, hl, hc10, hc9, hc8, hc7, hc6, hc5, hc4, hc3, hc2, hc1]
  simp only [List.nil_append, List.append_assoc, List.cons_append, List.singleton_append]
  exact path10 p1 p2 d4 l5 ps5 o6 i7 h8 h9 h10 e10 rr fr de dout hk1 hk2 hok5 hk7

set_option maxHeartbeats 2000000 in
theorem RGXCreateRenderContext_paths {σ : Type} (S : Services σ) (s : σ) (B : BridgeConsts)
    (IN : PVRSRV_BRIDGE_IN_RGXCREATERENDERCONTEXT) (OUT0 : PVRSRV_BRIDGE_OUT_RGXCREATERENDERCONTEXT)
    (P : PVRSRV_BRIDGE_OUT_RGXCREATERENDERCONTEXT → List BridgeCall → Prop)
    (path1 :
      ∀ (rr fr de : PVRSRV_ERROR) (dout : List Nat), P
        { OUT0 with hCleanupCookie := 0, eError := PVRSRV_ERROR.PVRSRV_ERROR_OUT_OF_MEMORY }
        (BridgeCall.OSAllocMem (B.RGXFWIF_RF_CMD_SIZE * 1) 0 :: cleanupCalls
        PVRSRV_HANDLE_TYPE.PVRSRV_HANDLE_TYPE_RGX_RC_CLEANUP
        DomainFn.PVRSRVRGXDestroyRenderContextKM (PVRSRV_ERROR.PVRSRV_ERROR_OUT_OF_MEMORY) 0 0 0
        [0] rr fr de dout))
    (path2a :
      ∀ (p1 : Nat) (rr fr de : PVRSRV_ERROR) (dout : List Nat), p1 ≠ 0 → P
        { OUT0 with hCleanupCookie := 0, eError := PVRSRV_ERROR.PVRSRV_ERROR_INVALID_PARAMS }
        (BridgeCall.OSAllocMem (B.RGXFWIF_RF_CMD_SIZE * 1) p1 :: (BridgeCall.OSAccessOK
        IN.psFrameworkCmd (B.RGXFWIF_RF_CMD_SIZE * 1) false :: cleanupCalls
        PVRSRV_HANDLE_TYPE.PVRSRV_HANDLE_TYPE_RGX_RC_CLEANUP
        DomainFn.PVRSRVRGXDestroyRenderContextKM (PVRSRV_ERROR.PVRSRV_ERROR_INVALID_PARAMS) 0 0 0
        [p1] rr fr de dout)))
    (path2b :
      ∀ (p1 : Nat) (e2 rr fr de : PVRSRV_ERROR) (dout : List Nat), p1 ≠ 0 → e2 ≠
        PVRSRV_ERROR.PVRSRV_OK → P
        { OUT0 with hCleanupCookie := 0, eError := PVRSRV_ERROR.PVRSRV_ERROR_INVALID_PARAMS }
        (BridgeCall.OSAllocMem (B.RGXFWIF_RF_CMD_SIZE * 1) p1 :: (BridgeCall.OSAccessOK
        IN.psFrameworkCmd (B.RGXFWIF_RF_CMD_SIZE * 1) true :: (BridgeCall.OSCopyFromUser p1
        IN.psFrameworkCmd (B.RGXFWIF_RF_CMD_SIZE * 1) e2 :: cleanupCalls
        PVRSRV_HANDLE_TYPE.PVRSRV_HANDLE_TYPE_RGX_RC_CLEANUP
        DomainFn.PVRSRVRGXDestroyRenderContextKM (PVRSRV_ERROR.PVRSRV_ERROR_INVALID_PARAMS) 0 0 0
        [p1] rr fr de dout))))
    (path3 :
      ∀ (p1 d3 : Nat) (e3 rr fr de : PVRSRV_ERROR) (dout : List Nat), p1 ≠ 0 → e3 ≠
        PVRSRV_ERROR.PVRSRV_OK → P { OUT0 with hCleanupCookie := 0, eError := e3 }
        (BridgeCall.OSAllocMem (B.RGXFWIF_RF_CMD_SIZE * 1) p1 :: (BridgeCall.OSAccessOK
        IN.psFrameworkCmd (B.RGXFWIF_RF_CMD_SIZE * 1) true :: (BridgeCall.OSCopyFromUser p1
        IN.psFrameworkCmd (B.RGXFWIF_RF_CMD_SIZE * 1) PVRSRV_ERROR.PVRSRV_OK ::
        (BridgeCall.PVRSRVLookupHandle IN.hDevNode PVRSRV_HANDLE_TYPE.PVRSRV_HANDLE_TYPE_DEV_NODE
        e3 d3 :: cleanupCalls PVRSRV_HANDLE_TYPE.PVRSRV_HANDLE_TYPE_RGX_RC_CLEANUP
        DomainFn.PVRSRVRGXDestroyRenderContextKM e3 0 0 0 [p1] rr fr de dout)))))
    (path4 :
      ∀ (p1 d3 d4 : Nat) (e4 rr fr de : PVRSRV_ERROR) (dout : List Nat), p1 ≠ 0 → e4 ≠
        PVRSRV_ERROR.PVRSRV_OK → P { OUT0 with hCleanupCookie := 0, eError := e4 }
        (BridgeCall.OSAllocMem (B.RGXFWIF_RF_CMD_SIZE * 1) p1 :: (BridgeCall.OSAccessOK
        IN.psFrameworkCmd (B.RGXFWIF_RF_CMD_SIZE * 1) true :: (BridgeCall.OSCopyFromUser p1
        IN.psFrameworkCmd (B.RGXFWIF_RF_CMD_SIZE * 1) PVRSRV_ERROR.PVRSRV_OK ::
        (BridgeCall.PVRSRVLookupHandle IN.hDevNode PVRSRV_HANDLE_TYPE.PVRSRV_HANDLE_TYPE_DEV_NODE
        PVRSRV_ERROR.PVRSRV_OK d3 :: (BridgeCall.PVRSRVLookupHandle IN.hTACCBMemDesc
        PVRSRV_HANDLE_TYPE.PVRSRV_HANDLE_TYPE_RGX_FW_MEMDESC e4 d4 :: cleanupCalls
        PVRSRV_HANDLE_TYPE.PVRSRV_HANDLE_TYPE_RGX_RC_CLEANUP
        DomainFn.PVRSRVRGXDestroyRenderContextKM e4 0 0 0 [p1] rr fr de dout))))))
    (path5 :
      ∀ (p1 d3 d4 d5 : Nat) (e5 rr fr de : PVRSRV_ERROR) (dout : List Nat), p1 ≠ 0 → e5 ≠
        PVRSRV_ERROR.PVRSRV_OK → P { OUT0 with hCleanupCookie := 0, eError := e5 }
        (BridgeCall.OSAllocMem (B.RGXFWIF_RF_CMD_SIZE * 1) p1 :: (BridgeCall.OSAccessOK
        IN.psFrameworkCmd (B.RGXFWIF_RF_CMD_SIZE * 1) true :: (BridgeCall.OSCopyFromUser p1
        IN.psFrameworkCmd (B.RGXFWIF_RF_CMD_SIZE * 1) PVRSRV_ERROR.PVRSRV_OK ::
        (BridgeCall.PVRSRVLookupHandle IN.hDevNode PVRSRV_HANDLE_TYPE.PVRSRV_HANDLE_TYPE_DEV_NODE
        PVRSRV_ERROR.PVRSRV_OK d3 :: (BridgeCall.PVRSRVLookupHandle IN.hTACCBMemDesc
        PVRSRV_HANDLE_TYPE.PVRSRV_HANDLE_TYPE_RGX_FW_MEMDESC PVRSRV_ERROR.PVRSRV_OK d4 ::
        (BridgeCall.PVRSRVLookupHandle IN.hTACCBCtlMemDesc
        PVRSRV_HANDLE_TYPE.PVRSRV_HANDLE_TYPE_RGX_FW_MEMDESC e5 d5 :: cleanupCalls
        PVRSRV_HANDLE_TYPE.PVRSRV_HANDLE_TYPE_RGX_RC_CLEANUP
        DomainFn.PVRSRVRGXDestroyRenderContextKM e5 0 0 0 [p1] rr fr de dout)))))))
    (path6 :
      ∀ (p1 d3 d4 d5 d6 : Nat) (e6 rr fr de : PVRSRV_ERROR) (dout : List Nat), p1 ≠ 0 → e6 ≠
        PVRSRV_ERROR.PVRSRV_OK → P { OUT0 with hCleanupCookie := 0, eError := e6 }
        (BridgeCall.OSAllocMem (B.RGXFWIF_RF_CMD_SIZE * 1) p1 :: (BridgeCall.OSAccessOK
        IN.psFrameworkCmd (B.RGXFWIF_RF_CMD_SIZE * 1) true :: (BridgeCall.OSCopyFromUser p1
        IN.psFrameworkCmd (B.RGXFWIF_RF_CMD_SIZE * 1) PVRSRV_ERROR.PVRSRV_OK ::
        (BridgeCall.PVRSRVLookupHandle IN.hDevNode PVRSRV_HANDLE_TYPE.PVRSRV_HANDLE_TYPE_DEV_NODE
        PVRSRV_ERROR.PVRSRV_OK d3 :: (BridgeCall.PVRSRVLookupHandle IN.hTACCBMemDesc
        PVRSRV_HANDLE_TYPE.PVRSRV_HANDLE_TYPE_RGX_FW_MEMDESC PVRSRV_ERROR.PVRSRV_OK d4 ::
        (BridgeCall.PVRSRVLookupHandle IN.hTACCBCtlMemDesc
        PVRSRV_HANDLE_TYPE.PVRSRV_HANDLE_TYPE_RGX_FW_MEMDESC PVRSRV_ERROR.PVRSRV_OK d5 ::
        (BridgeCall.PVRSRVLookupHandle IN.h3DCCBMemDesc
        PVRSRV_HANDLE_TYPE.PVRSRV_HANDLE_TYPE_RGX_FW_MEMDESC e6 d6 :: cleanupCalls
        PVRSRV_HANDLE_TYPE.PVRSRV_HANDLE_TYPE_RGX_RC_CLEANUP
        DomainFn.PVRSRVRGXDestroyRenderContextKM e6 0 0 0 [p1] rr fr de dout))))))))
    (path7 :
      ∀ (p1 d3 d4 d5 d6 d7 : Nat) (e7 rr fr de : PVRSRV_ERROR) (dout : List Nat), p1 ≠ 0 → e7 ≠
        PVRSRV_ERROR.PVRSRV_OK → P { OUT0 with hCleanupCookie := 0, eError := e7 }
        (BridgeCall.OSAllocMem (B.RGXFWIF_RF_CMD_SIZE * 1) p1 :: (BridgeCall.OSAccessOK
        IN.psFrameworkCmd (B.RGXFWIF_RF_CMD_SIZE * 1) true :: (BridgeCall.OSCopyFromUser p1
        IN.psFrameworkCmd (B.RGXFWIF_RF_CMD_SIZE * 1) PVRSRV_ERROR.PVRSRV_OK ::
        (BridgeCall.PVRSRVLookupHandle IN.hDevNode PVRSRV_HANDLE_TYPE.PVRSRV_HANDLE_TYPE_DEV_NODE
        PVRSRV_ERROR.PVRSRV_OK d3 :: (BridgeCall.PVRSRVLookupHandle IN.hTACCBMemDesc
        PVRSRV_HANDLE_TYPE.PVRSRV_HANDLE_TYPE_RGX_FW_MEMDESC PVRSRV_ERROR.PVRSRV_OK d4 ::
        (BridgeCall.PVRSRVLookupHandle IN.hTACCBCtlMemDesc
        PVRSRV_HANDLE_TYPE.PVRSRV_HANDLE_TYPE_RGX_FW_MEMDESC PVRSRV_ERROR.PVRSRV_OK d5 ::
        (BridgeCall.PVRSRVLookupHandle IN.h3DCCBMemDesc
        PVRSRV_HANDLE_TYPE.PVRSRV_HANDLE_TYPE_RGX_FW_MEMDESC PVRSRV_ERROR.PVRSRV_OK d6 ::
        (BridgeCall.PVRSRVLookupHandle IN.h3DCCBCtlMemDesc
        PVRSRV_HANDLE_TYPE.PVRSRV_HANDLE_TYPE_RGX_FW_MEMDESC e7 d7 :: cleanupCalls
        PVRSRV_HANDLE_TYPE.PVRSRV_HANDLE_TYPE_RGX_RC_CLEANUP
        DomainFn.PVRSRVRGXDestroyRenderContextKM e7 0 0 0 [p1] rr fr de dout)))))))))
    (path8 :
      ∀ (p1 d3 d4 d5 d6 d7 d8 : Nat) (e8 rr fr de : PVRSRV_ERROR) (dout : List Nat), p1 ≠ 0 → e8 ≠
        PVRSRV_ERROR.PVRSRV_OK → P { OUT0 with hCleanupCookie := 0, eError := e8 }
        (BridgeCall.OSAllocMem (B.RGXFWIF_RF_CMD_SIZE * 1) p1 :: (BridgeCall.OSAccessOK
        IN.psFrameworkCmd (B.RGXFWIF_RF_CMD_SIZE * 1) true :: (BridgeCall.OSCopyFromUser p1
        IN.psFrameworkCmd (B.RGXFWIF_RF_CMD_SIZE * 1) PVRSRV_ERROR.PVRSRV_OK ::
        (BridgeCall.PVRSRVLookupHandle IN.hDevNode PVRSRV_HANDLE_TYPE.PVRSRV_HANDLE_TYPE_DEV_NODE
        PVRSRV_ERROR.PVRSRV_OK d3 :: (BridgeCall.PVRSRVLookupHandle IN.hTACCBMemDesc
        PVRSRV_HANDLE_TYPE.PVRSRV_HANDLE_TYPE_RGX_FW_MEMDESC PVRSRV_ERROR.PVRSRV_OK d4 ::
        (BridgeCall.PVRSRVLookupHandle IN.hTACCBCtlMemDesc
        PVRSRV_HANDLE_TYPE.PVRSRV_HANDLE_TYPE_RGX_FW_MEMDESC PVRSRV_ERROR.PVRSRV_OK d5 ::
        (BridgeCall.PVRSRVLookupHandle IN.h3DCCBMemDesc
        PVRSRV_HANDLE_TYPE.PVRSRV_HANDLE_TYPE_RGX_FW_MEMDESC PVRSRV_ERROR.PVRSRV_OK d6 ::
        (BridgeCall.PVRSRVLookupHandle IN.h3DCCBCtlMemDesc
        PVRSRV_HANDLE_TYPE.PVRSRV_HANDLE_TYPE_RGX_FW_MEMDESC PVRSRV_ERROR.PVRSRV_OK d7 ::
        (BridgeCall.PVRSRVLookupHandle IN.hPrivData
        PVRSRV_HANDLE_TYPE.PVRSRV_HANDLE_TYPE_DEV_PRIV_DATA e8 d8 :: cleanupCalls
        PVRSRV_HANDLE_TYPE.PVRSRV_HANDLE_TYPE_RGX_RC_CLEANUP
        DomainFn.PVRSRVRGXDestroyRenderContextKM e8 0 0 0 [p1] rr fr de dout))))))))))
    (path9 :
      ∀ (p1 d3 d4 d5 d6 d7 d8 : Nat) (o9 : List Nat) (e9 rr fr de : PVRSRV_ERROR) (dout : List
        Nat), p1 ≠ 0 → e9 ≠ PVRSRV_ERROR.PVRSRV_OK → P
        { OUT0 with hCleanupCookie := 0, eError := e9 } (BridgeCall.OSAllocMem
        (B.RGXFWIF_RF_CMD_SIZE * 1) p1 :: (BridgeCall.OSAccessOK IN.psFrameworkCmd
        (B.RGXFWIF_RF_CMD_SIZE * 1) true :: (BridgeCall.OSCopyFromUser p1 IN.psFrameworkCmd
        (B.RGXFWIF_RF_CMD_SIZE * 1) PVRSRV_ERROR.PVRSRV_OK :: (BridgeCall.PVRSRVLookupHandle
        IN.hDevNode PVRSRV_HANDLE_TYPE.PVRSRV_HANDLE_TYPE_DEV_NODE PVRSRV_ERROR.PVRSRV_OK d3 ::
        (BridgeCall.PVRSRVLookupHandle IN.hTACCBMemDesc
        PVRSRV_HANDLE_TYPE.PVRSRV_HANDLE_TYPE_RGX_FW_MEMDESC PVRSRV_ERROR.PVRSRV_OK d4 ::
        (BridgeCall.PVRSRVLookupHandle IN.hTACCBCtlMemDesc
        PVRSRV_HANDLE_TYPE.PVRSRV_HANDLE_TYPE_RGX_FW_MEMDESC PVRSRV_ERROR.PVRSRV_OK d5 ::
        (BridgeCall.PVRSRVLookupHandle IN.h3DCCBMemDesc
        PVRSRV_HANDLE_TYPE.PVRSRV_HANDLE_TYPE_RGX_FW_MEMDESC PVRSRV_ERROR.PVRSRV_OK d6 ::
        (BridgeCall.PVRSRVLookupHandle IN.h3DCCBCtlMemDesc
        PVRSRV_HANDLE_TYPE.PVRSRV_HANDLE_TYPE_RGX_FW_MEMDESC PVRSRV_ERROR.PVRSRV_OK d7 ::
        (BridgeCall.PVRSRVLookupHandle IN.hPrivData
        PVRSRV_HANDLE_TYPE.PVRSRV_HANDLE_TYPE_DEV_PRIV_DATA PVRSRV_ERROR.PVRSRV_OK d8 ::
        (BridgeCall.domain DomainFn.PVRSRVRGXCreateRenderContextKM [d3, d4, d5, d6, d7,
        IN.ui32Priority, IN.sMCUFenceAddr, IN.sVDMCallStackAddr, IN.ui32FrameworkCmdize, p1, d8]
        e9 o9 :: cleanupCalls PVRSRV_HANDLE_TYPE.PVRSRV_HANDLE_TYPE_RGX_RC_CLEANUP
        DomainFn.PVRSRVRGXDestroyRenderContextKM e9 0 0 (o9.getD 0 0) [p1] rr fr de dout)))))))))))
    (path10 :
      ∀ (p1 d3 d4 d5 d6 d7 d8 : Nat) (o9 : List Nat) (rr fr de : PVRSRV_ERROR) (dout : List Nat),
        p1 ≠ 0 → P
        { OUT0 with hCleanupCookie := 0, eError := PVRSRV_ERROR.PVRSRV_ERROR_UNABLE_TO_REGISTER_RESOURCE }
        (BridgeCall.OSAllocMem (B.RGXFWIF_RF_CMD_SIZE * 1) p1 :: (BridgeCall.OSAccessOK
        IN.psFrameworkCmd (B.RGXFWIF_RF_CMD_SIZE * 1) true :: (BridgeCall.OSCopyFromUser p1
        IN.psFrameworkCmd (B.RGXFWIF_RF_CMD_SIZE * 1) PVRSRV_ERROR.PVRSRV_OK ::
        (BridgeCall.PVRSRVLookupHandle IN.hDevNode PVRSRV_HANDLE_TYPE.PVRSRV_HANDLE_TYPE_DEV_NODE
        PVRSRV_ERROR.PVRSRV_OK d3 :: (BridgeCall.PVRSRVLookupHandle IN.hTACCBMemDesc
        PVRSRV_HANDLE_TYPE.PVRSRV_HANDLE_TYPE_RGX_FW_MEMDESC PVRSRV_ERROR.PVRSRV_OK d4 ::
        (BridgeCall.PVRSRVLookupHandle IN.hTACCBCtlMemDesc
        PVRSRV_HANDLE_TYPE.PVRSRV_HANDLE_TYPE_RGX_FW_MEMDESC PVRSRV_ERROR.PVRSRV_OK d5 ::
        (BridgeCall.PVRSRVLookupHandle IN.h3DCCBMemDesc
        PVRSRV_HANDLE_TYPE.PVRSRV_HANDLE_TYPE_RGX_FW_MEMDESC PVRSRV_ERROR.PVRSRV_OK d6 ::
        (BridgeCall.PVRSRVLookupHandle IN.h3DCCBCtlMemDesc
        PVRSRV_HANDLE_TYPE.PVRSRV_HANDLE_TYPE_RGX_FW_MEMDESC PVRSRV_ERROR.PVRSRV_OK d7 ::
        (BridgeCall.PVRSRVLookupHandle IN.hPrivData
        PVRSRV_HANDLE_TYPE.PVRSRV_HANDLE_TYPE_DEV_PRIV_DATA PVRSRV_ERROR.PVRSRV_OK d8 ::
        (BridgeCall.domain DomainFn.PVRSRVRGXCreateRenderContextKM [d3, d4, d5, d6, d7,
        IN.ui32Priority, IN.sMCUFenceAddr, IN.sVDMCallStackAddr, IN.ui32FrameworkCmdize, p1, d8]
        PVRSRV_ERROR.PVRSRV_OK o9 :: (BridgeCall.ResManRegisterRes
        RESMAN_TYPE.RESMAN_TYPE_RGX_RENDER_CONTEXT (o9.getD 0 0)
        DomainFn.PVRSRVRGXDestroyRenderContextKM 0 :: cleanupCalls
        PVRSRV_HANDLE_TYPE.PVRSRV_HANDLE_TYPE_RGX_RC_CLEANUP
        DomainFn.PVRSRVRGXDestroyRenderContextKM
        (PVRSRV_ERROR.PVRSRV_ERROR_UNABLE_TO_REGISTER_RESOURCE) 0 0 (o9.getD 0 0) [p1] rr fr de
        dout))))))))))))
    (path11 :
      ∀ (p1 d3 d4 d5 d6 d7 d8 : Nat) (o9 : List Nat) (i10 h11 : Nat) (e11 rr fr de : PVRSRV_ERROR)
        (dout : List Nat), p1 ≠ 0 → i10 ≠ 0 → e11 ≠ PVRSRV_ERROR.PVRSRV_OK → P
        { OUT0 with hCleanupCookie := h11, eError := e11 } (BridgeCall.OSAllocMem
        (B.RGXFWIF_RF_CMD_SIZE * 1) p1 :: (BridgeCall.OSAccessOK IN.psFrameworkCmd
        (B.RGXFWIF_RF_CMD_SIZE * 1) true :: (BridgeCall.OSCopyFromUser p1 IN.psFrameworkCmd
        (B.RGXFWIF_RF_CMD_SIZE * 1) PVRSRV_ERROR.PVRSRV_OK :: (BridgeCall.PVRSRVLookupHandle
        IN.hDevNode PVRSRV_HANDLE_TYPE.PVRSRV_HANDLE_TYPE_DEV_NODE PVRSRV_ERROR.PVRSRV_OK d3 ::
        (BridgeCall.PVRSRVLookupHandle IN.hTACCBMemDesc
        PVRSRV_HANDLE_TYPE.PVRSRV_HANDLE_TYPE_RGX_FW_MEMDESC PVRSRV_ERROR.PVRSRV_OK d4 ::
        (BridgeCall.PVRSRVLookupHandle IN.hTACCBCtlMemDesc
        PVRSRV_HANDLE_TYPE.PVRSRV_HANDLE_TYPE_RGX_FW_MEMDESC PVRSRV_ERROR.PVRSRV_OK d5 ::
        (BridgeCall.PVRSRVLookupHandle IN.h3DCCBMemDesc
        PVRSRV_HANDLE_TYPE.PVRSRV_HANDLE_TYPE_RGX_FW_MEMDESC PVRSRV_ERROR.PVRSRV_OK d6 ::
        (BridgeCall.PVRSRVLookupHandle IN.h3DCCBCtlMemDesc
        PVRSRV_HANDLE_TYPE.PVRSRV_HANDLE_TYPE_RGX_FW_MEMDESC PVRSRV_ERROR.PVRSRV_OK d7 ::
        (BridgeCall.PVRSRVLookupHandle IN.hPrivData
        PVRSRV_HANDLE_TYPE.PVRSRV_HANDLE_TYPE_DEV_PRIV_DATA PVRSRV_ERROR.PVRSRV_OK d8 ::
        (BridgeCall.domain DomainFn.PVRSRVRGXCreateRenderContextKM [d3, d4, d5, d6, d7,
        IN.ui32Priority, IN.sMCUFenceAddr, IN.sVDMCallStackAddr, IN.ui32FrameworkCmdize, p1, d8]
        PVRSRV_ERROR.PVRSRV_OK o9 :: (BridgeCall.ResManRegisterRes
        RESMAN_TYPE.RESMAN_TYPE_RGX_RENDER_CONTEXT (o9.getD 0 0)
        DomainFn.PVRSRVRGXDestroyRenderContextKM i10 :: (BridgeCall.PVRSRVAllocHandle i10
        PVRSRV_HANDLE_TYPE.PVRSRV_HANDLE_TYPE_RGX_RC_CLEANUP e11 h11 :: cleanupCalls
        PVRSRV_HANDLE_TYPE.PVRSRV_HANDLE_TYPE_RGX_RC_CLEANUP
        DomainFn.PVRSRVRGXDestroyRenderContextKM e11 h11 i10 (o9.getD 0 0) [p1] rr fr de
        dout)))))))))))))
    (path12 :
      ∀ (p1 d3 d4 d5 d6 d7 d8 : Nat) (o9 : List Nat) (i10 h11 h12 : Nat) (e12 rr fr de :
        PVRSRV_ERROR) (dout : List Nat), p1 ≠ 0 → i10 ≠ 0 → e12 ≠ PVRSRV_ERROR.PVRSRV_OK → P
        { OUT0 with hCleanupCookie := h11, eError := e12, hFWRenderContext := h12 }
        (BridgeCall.OSAllocMem (B.RGXFWIF_RF_CMD_SIZE * 1) p1 :: (BridgeCall.OSAccessOK
        IN.psFrameworkCmd (B.RGXFWIF_RF_CMD_SIZE * 1) true :: (BridgeCall.OSCopyFromUser p1
        IN.psFrameworkCmd (B.RGXFWIF_RF_CMD_SIZE * 1) PVRSRV_ERROR.PVRSRV_OK ::
        (BridgeCall.PVRSRVLookupHandle IN.hDevNode PVRSRV_HANDLE_TYPE.PVRSRV_HANDLE_TYPE_DEV_NODE
        PVRSRV_ERROR.PVRSRV_OK d3 :: (BridgeCall.PVRSRVLookupHandle IN.hTACCBMemDesc
        PVRSRV_HANDLE_TYPE.PVRSRV_HANDLE_TYPE_RGX_FW_MEMDESC PVRSRV_ERROR.PVRSRV_OK d4 ::
        (BridgeCall.PVRSRVLookupHandle IN.hTACCBCtlMemDesc
        PVRSRV_HANDLE_TYPE.PVRSRV_HANDLE_TYPE_RGX_FW_MEMDESC PVRSRV_ERROR.PVRSRV_OK d5 ::
        (BridgeCall.PVRSRVLookupHandle IN.h3DCCBMemDesc
        PVRSRV_HANDLE_TYPE.PVRSRV_HANDLE_TYPE_RGX_FW_MEMDESC PVRSRV_ERROR.PVRSRV_OK d6 ::
        (BridgeCall.PVRSRVLookupHandle IN.h3DCCBCtlMemDesc
        PVRSRV_HANDLE_TYPE.PVRSRV_HANDLE_TYPE_RGX_FW_MEMDESC PVRSRV_ERROR.PVRSRV_OK d7 ::
        (BridgeCall.PVRSRVLookupHandle IN.hPrivData
        PVRSRV_HANDLE_TYPE.PVRSRV_HANDLE_TYPE_DEV_PRIV_DATA PVRSRV_ERROR.PVRSRV_OK d8 ::
        (BridgeCall.domain DomainFn.PVRSRVRGXCreateRenderContextKM [d3, d4, d5, d6, d7,
        IN.ui32Priority, IN.sMCUFenceAddr, IN.sVDMCallStackAddr, IN.ui32FrameworkCmdize, p1, d8]
        PVRSRV_ERROR.PVRSRV_OK o9 :: (BridgeCall.ResManRegisterRes
        RESMAN_TYPE.RESMAN_TYPE_RGX_RENDER_CONTEXT (o9.getD 0 0)
        DomainFn.PVRSRVRGXDestroyRenderContextKM i10 :: (BridgeCall.PVRSRVAllocHandle i10
        PVRSRV_HANDLE_TYPE.PVRSRV_HANDLE_TYPE_RGX_RC_CLEANUP PVRSRV_ERROR.PVRSRV_OK h11 ::
        (BridgeCall.PVRSRVAllocSubHandle (o9.getD 1 0)
        PVRSRV_HANDLE_TYPE.PVRSRV_HANDLE_TYPE_RGX_FW_MEMDESC h11 e12 h12 :: cleanupCalls
        PVRSRV_HANDLE_TYPE.PVRSRV_HANDLE_TYPE_RGX_RC_CLEANUP
        DomainFn.PVRSRVRGXDestroyRenderContextKM e12 h11 i10 (o9.getD 0 0) [p1] rr fr de
        dout))))))))))))))
    (path13 :
      ∀ (p1 d3 d4 d5 d6 d7 d8 : Nat) (o9 : List Nat) (i10 h11 h12 h13 : Nat) (e13 rr fr de :
        PVRSRV_ERROR) (dout : List Nat), p1 ≠ 0 → i10 ≠ 0 → P
        { OUT0 with hCleanupCookie := h11, eError := e13, hFWRenderContext := h12, hFW3DContextState := h13 }
        (BridgeCall.OSAllocMem (B.RGXFWIF_RF_CMD_SIZE * 1) p1 :: (BridgeCall.OSAccessOK
        IN.psFrameworkCmd (B.RGXFWIF_RF_CMD_SIZE * 1) true :: (BridgeCall.OSCopyFromUser p1
        IN.psFrameworkCmd (B.RGXFWIF_RF_CMD_SIZE * 1) PVRSRV_ERROR.PVRSRV_OK ::
        (BridgeCall.PVRSRVLookupHandle IN.hDevNode PVRSRV_HANDLE_TYPE.PVRSRV_HANDLE_TYPE_DEV_NODE
        PVRSRV_ERROR.PVRSRV_OK d3 :: (BridgeCall.PVRSRVLookupHandle IN.hTACCBMemDesc
        PVRSRV_HANDLE_TYPE.PVRSRV_HANDLE_TYPE_RGX_FW_MEMDESC PVRSRV_ERROR.PVRSRV_OK d4 ::
        (BridgeCall.PVRSRVLookupHandle IN.hTACCBCtlMemDesc
        PVRSRV_HANDLE_TYPE.PVRSRV_HANDLE_TYPE_RGX_FW_MEMDESC PVRSRV_ERROR.PVRSRV_OK d5 ::
        (BridgeCall.PVRSRVLookupHandle IN.h3DCCBMemDesc
        PVRSRV_HANDLE_TYPE.PVRSRV_HANDLE_TYPE_RGX_FW_MEMDESC PVRSRV_ERROR.PVRSRV_OK d6 ::
        (BridgeCall.PVRSRVLookupHandle IN.h3DCCBCtlMemDesc
        PVRSRV_HANDLE_TYPE.PVRSRV_HANDLE_TYPE_RGX_FW_MEMDESC PVRSRV_ERROR.PVRSRV_OK d7 ::
        (BridgeCall.PVRSRVLookupHandle IN.hPrivData
        PVRSRV_HANDLE_TYPE.PVRSRV_HANDLE_TYPE_DEV_PRIV_DATA PVRSRV_ERROR.PVRSRV_OK d8 ::
        (BridgeCall.domain DomainFn.PVRSRVRGXCreateRenderContextKM [d3, d4, d5, d6, d7,
        IN.ui32Priority, IN.sMCUFenceAddr, IN.sVDMCallStackAddr, IN.ui32FrameworkCmdize, p1, d8]
        PVRSRV_ERROR.PVRSRV_OK o9 :: (BridgeCall.ResManRegisterRes
        RESMAN_TYPE.RESMAN_TYPE_RGX_RENDER_CONTEXT (o9.getD 0 0)
        DomainFn.PVRSRVRGXDestroyRenderContextKM i10 :: (BridgeCall.PVRSRVAllocHandle i10
        PVRSRV_HANDLE_TYPE.PVRSRV_HANDLE_TYPE_RGX_RC_CLEANUP PVRSRV_ERROR.PVRSRV_OK h11 ::
        (BridgeCall.PVRSRVAllocSubHandle (o9.getD 1 0)
        PVRSRV_HANDLE_TYPE.PVRSRV_HANDLE_TYPE_RGX_FW_MEMDESC h11 PVRSRV_ERROR.PVRSRV_OK h12 ::
        (BridgeCall.PVRSRVAllocSubHandle (o9.getD 2 0)
        PVRSRV_HANDLE_TYPE.PVRSRV_HANDLE_TYPE_RGX_FW_MEMDESC h11 e13 h13 :: cleanupCalls
        PVRSRV_HANDLE_TYPE.PVRSRV_HANDLE_TYPE_RGX_RC_CLEANUP
        DomainFn.PVRSRVRGXDestroyRenderContextKM e13 h11 i10 (o9.getD 0 0) [p1] rr fr de
        dout))))))))))))))) :
    P (PVRSRVBridgeRGXCreateRenderContext B S IN OUT0 s).1
      (PVRSRVBridgeRGXCreateRenderContext B S IN OUT0 s).2.calls := by
  generalize hr : PVRSRVBridgeRGXCreateRenderContext B S IN OUT0 s = r
  unfold PVRSRVBridgeRGXCreateRenderContext at hr
  dsimp only at hr
  obtain ⟨p1, c1, hl1, hc1⟩ := allocMem_step S (B.RGXFWIF_RF_CMD_SIZE * 1) { s := s, calls := [] }
  rw [hl1] at hr
  dsimp only at hr
  by_cases hk1 : p1 = 0
  · subst hk1
    rw [if_pos rfl] at hr
    obtain ⟨hx, rr, fr, de, dout, hl⟩ := RGXCreateRenderContext_exit_calls S _ _ _ _ _ _ hr
    rw [hx, hl, hc1]
    simp only [List.nil_append, List.append_assoc, List.cons_append, List.singleton_append]
    exact path1 rr fr de dout
  rw [if_neg hk1] at hr
  obtain ⟨b2, w2, c2, hl2, hq2⟩ := copyIn_cases S p1 IN.psFrameworkCmd (B.RGXFWIF_RF_CMD_SIZE * 1)
      c1
  rw [hl2] at hr
  dsimp only at hr
  rcases hq2 with ⟨hb, hc2⟩ | ⟨e2, hb, hc2⟩
  · subst hb
    rw [if_pos rfl] at hr
    obtain ⟨hx, rr, fr, de, dout, hl⟩ := RGXCreateRenderContext_exit_calls S _ _ _ _ _ _ hr
    rw [hx, hl, hc2, hc1]
    simp only [List.nil_append, List.append_assoc, List.cons_append, List.singleton_append]
    exact path2a p1 rr fr de dout hk1
  subst hb
  by_cases hk2 : e2 = PVRSRV_ERROR.PVRSRV_OK
  swap
  · rw [if_pos (decide_eq_true hk2)] at hr
    obtain ⟨hx, rr, fr, de, dout, hl⟩ := RGXCreateRenderContext_exit_calls S _ _ _ _ _ _ hr
    rw [hx, hl, hc2, hc1]
    simp only [List.nil_append, List.append_assoc, List.cons_append, List.singleton_append]
    exact path2b p1 e2 rr fr de dout hk1 hk2
  subst hk2
  have hn2 : ¬ (decide (PVRSRV_ERROR.PVRSRV_OK ≠ PVRSRV_ERROR.PVRSRV_OK) = true) := by decide
  rw [if_neg hn2] at hr
  clear hn2
  obtain ⟨e3, d3, c3, hl3, hc3⟩ := lookup_step S IN.hDevNode
      PVRSRV_HANDLE_TYPE.PVRSRV_HANDLE_TYPE_DEV_NODE c2
  rw [hl3] at hr
  dsimp only at hr
  by_cases hk3 : e3 = PVRSRV_ERROR.PVRSRV_OK
  swap
  · rw [if_pos hk3] at hr
    obtain ⟨hx, rr, fr, de, dout, hl⟩ := RGXCreateRenderContext_exit_calls S _ _ _ _ _ _ hr
    rw [hx, hl, hc3, hc2, hc1]
    simp only [List.nil_append, List.append_assoc, List.cons_append, List.singleton_append]
    exact path3 p1 d3 e3 rr fr de dout hk1 hk3
  rw [if_neg (not_not_intro hk3)] at hr
  subst hk3
  obtain ⟨e4, d4, c4, hl4, hc4⟩ := lookup_step S IN.hTACCBMemDesc
      PVRSRV_HANDLE_TYPE.PVRSRV_HANDLE_TYPE_RGX_FW_MEMDESC c3
  rw [hl4] at hr
  dsimp only at hr
  by_cases hk4 : e4 = PVRSRV_ERROR.PVRSRV_OK
  swap
  · rw [if_pos hk4] at hr
    obtain ⟨hx, rr, fr, de, dout, hl⟩ := RGXCreateRenderContext_exit_calls S _ _ _ _ _ _ hr
    rw [hx, hl, hc4, hc3, hc2, hc1]
    simp only [List.nil_append, List.append_assoc, List.cons_append, List.singleton_append]
    exact path4 p1 d3 d4 e4 rr fr de dout hk1 hk4
  rw [if_neg (not_not_intro hk4)] at hr
  subst hk4
  obtain ⟨e5, d5, c5, hl5, hc5⟩ := lookup_step S IN.hTACCBCtlMemDesc
      PVRSRV_HANDLE_TYPE.PVRSRV_HANDLE_TYPE_RGX_FW_MEMDESC c4
  rw [hl5] at hr
  dsimp only at hr
  by_cases hk5 : e5 = PVRSRV_ERROR.PVRSRV_OK
  swap
  · rw [if_pos hk5] at hr
    obtain ⟨hx, rr, fr, de, dout, hl⟩ := RGXCreateRenderContext_exit_calls S _ _ _ _ _ _ hr
    rw [hx, hl, hc5, hc4, hc3, hc2, hc1]
    simp only [List.nil_append, List.append_assoc, List.cons_append, List.singleton_append]
    exact path5 p1 d3 d4 d5 e5 rr fr de dout hk1 hk5
  rw [if_neg (not_not_intro hk5)] at hr
  subst hk5
  obtain ⟨e6, d6, c6, hl6, hc6⟩ := lookup_step S IN.h3DCCBMemDesc
      PVRSRV_HANDLE_TYPE.PVRSRV_HANDLE_TYPE_RGX_FW_MEMDESC c5
  rw [hl6] at hr
  dsimp only at hr
  by_cases hk6 : e6 = PVRSRV_ERROR.PVRSRV_OK
  swap
  · rw [if_pos hk6] at hr
    obtain ⟨hx, rr, fr, de, dout, hl⟩ := RGXCreateRenderContext_exit_calls S _ _ _ _ _ _ hr
    rw [hx, hl, hc6, hc5, hc4, hc3, hc2, hc1]
    simp only [List.nil_append, List.append_assoc, List.cons_append, List.singleton_append]
    exact path6 p1 d3 d4 d5 d6 e6 rr fr de dout hk1 hk6
  rw [if_neg (not_not_intro hk6)] at hr
  subst hk6
  obtain ⟨e7, d7, c7, hl7, hc7⟩ := lookup_step S IN.h3DCCBCtlMemDesc
      PVRSRV_HANDLE_TYPE.PVRSRV_HANDLE_TYPE_RGX_FW_MEMDESC c6
  rw [hl7] at hr
  dsimp only at hr
  by_cases hk7 : e7 = PVRSRV_ERROR.PVRSRV_OK
  swap
  · rw [if_pos hk7] at hr
    obtain ⟨hx, rr, fr, de, dout, hl⟩ := RGXCreateRenderContext_exit_calls S _ _ _ _ _ _ hr
    rw [hx, hl, hc7, hc6, hc5, hc4, hc3, hc2, hc1]
    simp only [List.nil_append, List.append_assoc, List.cons_append, List.singleton_append]
    exact path7 p1 d3 d4 d5 d6 d7 e7 rr fr de dout hk1 hk7
  rw [if_neg (not_not_intro hk7)] at hr
  subst hk7
  obtain ⟨e8, d8, c8, hl8, hc8⟩ := lookup_step S IN.hPrivData
      PVRSRV_HANDLE_TYPE.PVRSRV_HANDLE_TYPE_DEV_PRIV_DATA c7
  rw [hl8] at hr
  dsimp only at hr
  by_cases hk8 : e8 = PVRSRV_ERROR.PVRSRV_OK
  swap
  · rw [if_pos hk8] at hr
    obtain ⟨hx, rr, fr, de, dout, hl⟩ := RGXCreateRenderContext_exit_calls S _ _ _ _ _ _ hr
    rw [hx, hl, hc8, hc7, hc6, hc5, hc4, hc3, hc2, hc1]
    simp only [List.nil_append, List.append_assoc, List.cons_append, List.singleton_append]
    exact path8 p1 d3 d4 d5 d6 d7 d8 e8 rr fr de dout hk1 hk8
  rw [if_neg (not_not_intro hk8)] at hr
  subst hk8
  obtain ⟨e9, o9, c9, hl9, hc9⟩ := domain_step S DomainFn.PVRSRVRGXCreateRenderContextKM [d3, d4,
      d5, d6, d7, IN.ui32Priority, IN.sMCUFenceAddr, IN.sVDMCallStackAddr, IN.ui32FrameworkCmdize,
      p1, d8] c8
  rw [hl9] at hr
  dsimp only at hr
  by_cases hk9 : e9 = PVRSRV_ERROR.PVRSRV_OK
  swap
  · rw [if_pos hk9] at hr
    obtain ⟨hx, rr, fr, de, dout, hl⟩ := RGXCreateRenderContext_exit_calls S _ _ _ _ _ _ hr
    rw [hx, hl, hc9, hc8, hc7, hc6, hc5, hc4, hc3, hc2, hc1]
    simp only [List.nil_append, List.append_assoc, List.cons_append, List.singleton_append]
    exact path9 p1 d3 d4 d5 d6 d7 d8 o9 e9 rr fr de dout hk1 hk9
  rw [if_neg (not_not_intro hk9)] at hr
  subst hk9
  obtain ⟨i10, c10, hl10, hc10⟩ := register_step S RESMAN_TYPE.RESMAN_TYPE_RGX_RENDER_CONTEXT
      (o9.getD 0 0) DomainFn.PVRSRVRGXDestroyRenderContextKM c9
  rw [hl10] at hr
  dsimp only at hr
  by_cases hk10 : i10 = 0
  · subst hk10
    rw [if_pos rfl] at hr
    obtain ⟨hx, rr, fr, de, dout, hl⟩ := RGXCreateRenderContext_exit_calls S _ _ _ _ _ _ hr
    rw [hx, hl, hc10, hc9, hc8, hc7, hc6, hc5, hc4, hc3, hc2, hc1]
    simp only [List.nil_append, List.append_assoc, List.cons_append, List.singleton_append]
    exact path10 p1 d3 d4 d5 d6 d7 d8 o9 rr fr de dout hk1
  rw [if_neg hk10] at hr
  obtain ⟨e11, h11, c11, hl11, hc11⟩ := allocHandle_step S i10
      PVRSRV_HANDLE_TYPE.PVRSRV_HANDLE_TYPE_RGX_RC_CLEANUP c10
  rw [hl11] at hr
  dsimp only at hr
  by_cases hk11 : e11 = PVRSRV_ERROR.PVRSRV_OK
  swap
  · rw [if_pos hk11] at hr
    obtain ⟨hx, rr, fr, de, dout, hl⟩ := RGXCreateRenderContext_exit_calls S _ _ _ _ _ _ hr
    rw [hx, hl, hc11, hc10, hc9, hc8, hc7, hc6, hc5, hc4, hc3, hc2, hc1]
    simp only [List.nil_append, List.append_assoc, List.cons_append, List.singleton_append]
    exact path11 p1 d3 d4 d5 d6 d7 d8 o9 i10 h11 e11 rr fr de dout hk1 hk10 hk11
  rw [if_neg (not_not_intro hk11)] at hr
  subst hk11
  obtain ⟨e12, h12, c12, hl12, hc12⟩ := allocSubHandle_step S (o9.getD 1 0)
      PVRSRV_HANDLE_TYPE.PVRSRV_HANDLE_TYPE_RGX_FW_MEMDESC h11 c11
  rw [hl12] at hr
  dsimp only at hr
  by_cases hk12 : e12 = PVRSRV_ERROR.PVRSRV_OK
  swap
  · rw [if_pos hk12] at hr
    obtain ⟨hx, rr, fr, de, dout, hl⟩ := RGXCreateRenderContext_exit_calls S _ _ _ _ _ _ hr
    rw [hx, hl, hc12, hc11, hc10, hc9, hc8, hc7, hc6, hc5, hc4, hc3, hc2, hc1]
    simp only [List.nil_append, List.append_assoc, List.cons_append, List.singleton_append]
    exact path12 p1 d3 d4 d5 d6 d7 d8 o9 i10 h11 h12 e12 rr fr de dout hk1 hk10 hk12
  rw [if_neg (not_not_intro hk12)] at hr
  subst hk12
  obtain ⟨e13, h13, c13, hl13, hc13⟩ := allocSubHandle_step S (o9.getD 2 0)
      PVRSRV_HANDLE_TYPE.PVRSRV_HANDLE_TYPE_RGX_FW_MEMDESC h11 c12
  rw [hl13] at hr
  dsimp only at hr
  obtain ⟨hx, rr, fr, de, dout, hl⟩ := RGXCreateRenderContext_exit_calls S _ _ _ _ _ _ hr
  rw [hx, hl, hc13, hc12, hc11, hc10, hc9, hc8, hc7, hc6, hc5, hc4, hc3, hc2, hc1]
  simp only [List.nil_append, List.append_assoc, List.cons_append, List.singleton_append]
  exact path13 p1 d3 d4 d5 d6 d7 d8 o9 i10 h11 h12 h13 e13 rr fr de dout hk1 hk10

theorem RGXDestroyHWRTData_paths {σ : Type} (S : Services σ) (s : σ)
    (IN : PVRSRV_BRIDGE_IN_RGXDESTROYHWRTDATA) (OUT0 : PVRSRV_BRIDGE_OUT_RGXDESTROYHWRTDATA)
    (P : PVRSRV_BRIDGE_OUT_RGXDESTROYHWRTDATA → List BridgeCall → Prop)
    (path1 :
      ∀ (d1 : Nat) (e1 : PVRSRV_ERROR), e1 ≠ PVRSRV_ERROR.PVRSRV_OK → P { OUT0 with eError := e1 }
        ([BridgeCall.PVRSRVLookupHandle IN.hCleanupCookie
        PVRSRV_HANDLE_TYPE.PVRSRV_HANDLE_TYPE_RGX_RTDATA_CLEANUP e1 d1]))
    (path2 :
      ∀ (d1 : Nat) (e2 : PVRSRV_ERROR), e2 ≠ PVRSRV_ERROR.PVRSRV_OK → P { OUT0 with eError := e2 }
        (BridgeCall.PVRSRVLookupHandle IN.hCleanupCookie
        PVRSRV_HANDLE_TYPE.PVRSRV_HANDLE_TYPE_RGX_RTDATA_CLEANUP PVRSRV_ERROR.PVRSRV_OK d1 ::
        ([BridgeCall.ResManFreeResByPtr d1 e2])))
    (path3 :
      ∀ (d1 : Nat) (e3 : PVRSRV_ERROR), P { OUT0 with eError := e3 }
        (BridgeCall.PVRSRVLookupHandle IN.hCleanupCookie
        PVRSRV_HANDLE_TYPE.PVRSRV_HANDLE_TYPE_RGX_RTDATA_CLEANUP PVRSRV_ERROR.PVRSRV_OK d1 ::
        (BridgeCall.ResManFreeResByPtr d1 PVRSRV_ERROR.PVRSRV_OK ::
        ([BridgeCall.PVRSRVReleaseHandle IN.hCleanupCookie
        PVRSRV_HANDLE_TYPE.PVRSRV_HANDLE_TYPE_RGX_RTDATA_CLEANUP e3])))) :
    P (PVRSRVBridgeRGXDestroyHWRTData S IN OUT0 s).1
      (PVRSRVBridgeRGXDestroyHWRTData S IN OUT0 s).2.calls := by
  generalize hr : PVRSRVBridgeRGXDestroyHWRTData S IN OUT0 s = r
  unfold PVRSRVBridgeRGXDestroyHWRTData RGXDestroyHWRTDataResManProxy at hr
  dsimp only at hr
  obtain ⟨e1, d1, c1, hl1, hc1⟩ := lookup_step S IN.hCleanupCookie
      PVRSRV_HANDLE_TYPE.PVRSRV_HANDLE_TYPE_RGX_RTDATA_CLEANUP { s := s, calls := [] }
  rw [hl1] at hr
  dsimp only at hr
  by_cases hk1 : e1 = PVRSRV_ERROR.PVRSRV_OK
  swap
  · rw [if_pos hk1] at hr
    subst hr
    dsimp only
    rw [hc1]
    simp only [List.nil_append, List.append_assoc, List.cons_append, List.singleton_append]
    exact path1 d1 e1 hk1
  rw [if_neg (not_not_intro hk1)] at hr
  subst hk1
  obtain ⟨e2, c2, hl2, hc2⟩ := free_step S d1 c1
  rw [hl2] at hr
  dsimp only at hr
  by_cases hk2 : e2 = PVRSRV_ERROR.PVRSRV_OK
  swap
  · rw [if_pos hk2] at hr
    subst hr
    dsimp only
    rw [hc2, hc1]
    simp only [List.nil_append, List.append_assoc, List.cons_append, List.singleton_append]
    exact path2 d1 e2 hk2
  rw [if_neg (not_not_intro hk2)] at hr
  subst hk2
  obtain ⟨e3, c3, hl3, hc3⟩ := release_step S IN.hCleanupCookie
      PVRSRV_HANDLE_TYPE.PVRSRV_HANDLE_TYPE_RGX_RTDATA_CLEANUP c2
  rw [hl3] at hr
  dsimp only at hr
  subst hr
  dsimp only
  rw [hc3, hc2, hc1]
  simp only [List.nil_append, List.append_assoc, List.cons_append, List.singleton_append]
  exact path3 d1 e3

theorem RGXDestroyRenderTarget_paths {σ : Type} (S : Services σ) (s : σ)
    (IN : PVRSRV_BRIDGE_IN_RGXDESTROYRENDERTARGET) (OUT0 : PVRSRV_BRIDGE_OUT_RGXDESTROYRENDERTARGET)
    (P : PVRSRV_BRIDGE_OUT_RGXDESTROYRENDERTARGET → List BridgeCall → Prop)
    (path1 :
      ∀ (d1 : Nat) (e1 : PVRSRV_ERROR), e1 ≠ PVRSRV_ERROR.PVRSRV_OK → P { OUT0 with eError := e1 }
        ([BridgeCall.PVRSRVLookupHandle IN.hsRenderTargetMemDesc
        PVRSRV_HANDLE_TYPE.PVRSRV_HANDLE_TYPE_RGX_FWIF_RENDERTARGET e1 d1]))
    (path2 :
      ∀ (d1 : Nat) (e2 : PVRSRV_ERROR), e2 ≠ PVRSRV_ERROR.PVRSRV_OK → P { OUT0 with eError := e2 }
        (BridgeCall.PVRSRVLookupHandle IN.hsRenderTargetMemDesc
        PVRSRV_HANDLE_TYPE.PVRSRV_HANDLE_TYPE_RGX_FWIF_RENDERTARGET PVRSRV_ERROR.PVRSRV_OK d1 ::
        ([BridgeCall.ResManFreeResByPtr d1 e2])))
    (path3 :
      ∀ (d1 : Nat) (e3 : PVRSRV_ERROR), P { OUT0 with eError := e3 }
        (BridgeCall.PVRSRVLookupHandle IN.hsRenderTargetMemDesc
        PVRSRV_HANDLE_TYPE.PVRSRV_HANDLE_TYPE_RGX_FWIF_RENDERTARGET PVRSRV_ERROR.PVRSRV_OK d1 ::
        (BridgeCall.ResManFreeResByPtr d1 PVRSRV_ERROR.PVRSRV_OK ::
        ([BridgeCall.PVRSRVReleaseHandle IN.hsRenderTargetMemDesc
        PVRSRV_HANDLE_TYPE.PVRSRV_HANDLE_TYPE_RGX_FWIF_RENDERTARGET e3])))) :
    P (PVRSRVBridgeRGXDestroyRenderTarget S IN OUT0 s).1
      (PVRSRVBridgeRGXDestroyRenderTarget S IN OUT0 s).2.calls := by
  generalize hr : PVRSRVBridgeRGXDestroyRenderTarget S IN OUT0 s = r
  unfold PVRSRVBridgeRGXDestroyRenderTarget RGXDestroyRenderTargetResManProxy at hr
  dsimp only at hr
  obtain ⟨e1, d1, c1, hl1, hc1⟩ := lookup_step S IN.hsRenderTargetMemDesc
      PVRSRV_HANDLE_TYPE.PVRSRV_HANDLE_TYPE_RGX_FWIF_RENDERTARGET { s := s, calls := [] }
  rw [hl1] at hr
  dsimp only at hr
  by_cases hk1 : e1 = PVRSRV_ERROR.PVRSRV_OK
  swap
  · rw [if_pos hk1] at hr
    subst hr
    dsimp only
    rw [hc1]
    simp only [List.nil_append, List.append_assoc, List.cons_append, List.singleton_append]
    exact path1 d1 e1 hk1
  rw [if_neg (not_not_intro hk1)] at hr
  subst hk1
  obtain ⟨e2, c2, hl2, hc2⟩ := free_step S d1 c1
  rw [hl2] at hr
  dsimp only at hr
  by_cases hk2 : e2 = PVRSRV_ERROR.PVRSRV_OK
  swap
  · rw [if_pos hk2] at hr
    subst hr
    dsimp only
    rw [hc2, hc1]
    simp only [List.nil_append, List.append_assoc, List.cons_append, List.singleton_append]
    exact path2 d1 e2 hk2
  rw [if_neg (not_not_intro hk2)] at hr
  subst hk2
  obtain ⟨e3, c3, hl3, hc3⟩ := release_step S IN.hsRenderTargetMemDesc
      PVRSRV_HANDLE_TYPE.PVRSRV_HANDLE_TYPE_RGX_FWIF_RENDERTARGET c2
  rw [hl3] at hr
  dsimp only at hr
  subst hr
  dsimp only
  rw [hc3, hc2, hc1]
  simp only [List.nil_append, List.append_assoc, List.cons_append, List.singleton_append]
  exact path3 d1 e3

theorem RGXDestroyZSBuffer_paths {σ : Type} (S : Services σ) (s : σ)
    (IN : PVRSRV_BRIDGE_IN_RGXDESTROYZSBUFFER) (OUT0 : PVRSRV_BRIDGE_OUT_RGXDESTROYZSBUFFER)
    (P : PVRSRV_BRIDGE_OUT_RGXDESTROYZSBUFFER → List BridgeCall → Prop)
    (path1 :
      ∀ (d1 : Nat) (e1 : PVRSRV_ERROR), e1 ≠ PVRSRV_ERROR.PVRSRV_OK → P { OUT0 with eError := e1 }
        ([BridgeCall.PVRSRVLookupHandle IN.hsZSBufferMemDesc
        PVRSRV_HANDLE_TYPE.PVRSRV_HANDLE_TYPE_RGX_FWIF_ZSBUFFER e1 d1]))
    (path2 :
      ∀ (d1 : Nat) (e2 : PVRSRV_ERROR), e2 ≠ PVRSRV_ERROR.PVRSRV_OK → P { OUT0 with eError := e2 }
        (BridgeCall.PVRSRVLookupHandle IN.hsZSBufferMemDesc
        PVRSRV_HANDLE_TYPE.PVRSRV_HANDLE_TYPE_RGX_FWIF_ZSBUFFER PVRSRV_ERROR.PVRSRV_OK d1 ::
        ([BridgeCall.ResManFreeResByPtr d1 e2])))
    (path3 :
      ∀ (d1 : Nat) (e3 : PVRSRV_ERROR), P { OUT0 with eError := e3 }
        (BridgeCall.PVRSRVLookupHandle IN.hsZSBufferMemDesc
        PVRSRV_HANDLE_TYPE.PVRSRV_HANDLE_TYPE_RGX_FWIF_ZSBUFFER PVRSRV_ERROR.PVRSRV_OK d1 ::
        (BridgeCall.ResManFreeResByPtr d1 PVRSRV_ERROR.PVRSRV_OK ::
        ([BridgeCall.PVRSRVReleaseHandle IN.hsZSBufferMemDesc
        PVRSRV_HANDLE_TYPE.PVRSRV_HANDLE_TYPE_RGX_FWIF_ZSBUFFER e3])))) :
    P (PVRSRVBridgeRGXDestroyZSBuffer S IN OUT0 s).1
      (PVRSRVBridgeRGXDestroyZSBuffer S IN OUT0 s).2.calls := by
  generalize hr : PVRSRVBridgeRGXDestroyZSBuffer S IN OUT0 s = r
  unfold PVRSRVBridgeRGXDestroyZSBuffer RGXDestroyZSBufferResManProxy at hr
  dsimp only at hr
  obtain ⟨e1, d1, c1, hl1, hc1⟩ := lookup_step S IN.hsZSBufferMemDesc
      PVRSRV_HANDLE_TYPE.PVRSRV_HANDLE_TYPE_RGX_FWIF_ZSBUFFER { s := s, calls := [] }
  rw [hl1] at hr
  dsimp only at hr
  by_cases hk1 : e1 = PVRSRV_ERROR.PVRSRV_OK
  swap
  · rw [if_pos hk1] at hr
    subst hr
    dsimp only
    rw [hc1]
    simp only [List.nil_append, List.append_assoc, List.cons_append, List.singleton_append]
    exact path1 d1 e1 hk1
  rw [if_neg (not_not_intro hk1)] at hr
  subst hk1
  obtain ⟨e2, c2, hl2, hc2⟩ := free_step S d1 c1
  rw [hl2] at hr
  dsimp only at hr
  by_cases hk2 : e2 = PVRSRV_ERROR.PVRSRV_OK
  swap
  · rw [if_pos hk2] at hr
    subst hr
    dsimp only
    rw [hc2, hc1]
    simp only [List.nil_append, List.append_assoc, List.cons_append, List.singleton_append]
    exact path2 d1 e2 hk2
  rw [if_neg (not_not_intro hk2)] at hr
  subst hk2
  obtain ⟨e3, c3, hl3, hc3⟩ := release_step S IN.hsZSBufferMemDesc
      PVRSRV_HANDLE_TYPE.PVRSRV_HANDLE_TYPE_RGX_FWIF_ZSBUFFER c2
  rw [hl3] at hr
  dsimp only at hr
  subst hr
  dsimp only
  rw [hc3, hc2, hc1]
  simp only [List.nil_append, List.append_assoc, List.cons_append, List.singleton_append]
  exact path3 d1 e3

theorem RGXUnpopulateZSBuffer_paths {σ : Type} (S : Services σ) (s : σ)
    (IN : PVRSRV_BRIDGE_IN_RGXUNPOPULATEZSBUFFER) (OUT0 : PVRSRV_BRIDGE_OUT_RGXUNPOPULATEZSBUFFER)
    (P : PVRSRV_BRIDGE_OUT_RGXUNPOPULATEZSBUFFER → List BridgeCall → Prop)
    (path1 :
      ∀ (d1 : Nat) (e1 : PVRSRV_ERROR), e1 ≠ PVRSRV_ERROR.PVRSRV_OK → P { OUT0 with eError := e1 }
        ([BridgeCall.PVRSRVLookupHandle IN.hsPopulation
        PVRSRV_HANDLE_TYPE.PVRSRV_HANDLE_TYPE_RGX_POPULATION e1 d1]))
    (path2 :
      ∀ (d1 : Nat) (e2 : PVRSRV_ERROR), e2 ≠ PVRSRV_ERROR.PVRSRV_OK → P { OUT0 with eError := e2 }
        (BridgeCall.PVRSRVLookupHandle IN.hsPopulation
        PVRSRV_HANDLE_TYPE.PVRSRV_HANDLE_TYPE_RGX_POPULATION PVRSRV_ERROR.PVRSRV_OK d1 ::
        ([BridgeCall.ResManFreeResByPtr d1 e2])))
    (path3 :
      ∀ (d1 : Nat) (e3 : PVRSRV_ERROR), P { OUT0 with eError := e3 }
        (BridgeCall.PVRSRVLookupHandle IN.hsPopulation
        PVRSRV_HANDLE_TYPE.PVRSRV_HANDLE_TYPE_RGX_POPULATION PVRSRV_ERROR.PVRSRV_OK d1 ::
        (BridgeCall.ResManFreeResByPtr d1 PVRSRV_ERROR.PVRSRV_OK ::
        ([BridgeCall.PVRSRVReleaseHandle IN.hsPopulation
        PVRSRV_HANDLE_TYPE.PVRSRV_HANDLE_TYPE_RGX_POPULATION e3])))) :
    P (PVRSRVBridgeRGXUnpopulateZSBuffer S IN OUT0 s).1
      (PVRSRVBridgeRGXUnpopulateZSBuffer S IN OUT0 s).2.calls := by
  generalize hr : PVRSRVBridgeRGXUnpopulateZSBuffer S IN OUT0 s = r
  unfold PVRSRVBridgeRGXUnpopulateZSBuffer RGXUnpopulateZSBufferResManProxy at hr
  dsimp only at hr
  obtain ⟨e1, d1, c1, hl1, hc1⟩ := lookup_step S IN.hsPopulation
      PVRSRV_HANDLE_TYPE.PVRSRV_HANDLE_TYPE_RGX_POPULATION { s := s, calls := [] }
  rw [hl1] at hr
  dsimp only at hr
  by_cases hk1 : e1 = PVRSRV_ERROR.PVRSRV_OK
  swap
  · rw [if_pos hk1] at hr
    subst hr
    dsimp only
    rw [hc1]
    simp only [List.nil_append, List.append_assoc, List.cons_append, List.singleton_append]
    exact path1 d1 e1 hk1
  rw [if_neg (not_not_intro hk1)] at hr
  subst hk1
  obtain ⟨e2, c2, hl2, hc2⟩ := free_step S d1 c1
  rw [hl2] at hr
  dsimp only at hr
  by_cases hk2 : e2 = PVRSRV_ERROR.PVRSRV_OK
  swap
  · rw [if_pos hk2] at hr
    subst hr
    dsimp only
    rw [hc2, hc1]
    simp only [List.nil_append, List.append_assoc, List.cons_append, List.singleton_append]
    exact path2 d1 e2 hk2
  rw [if_neg (not_not_intro hk2)] at hr
  subst hk2
  obtain ⟨e3, c3, hl3, hc3⟩ := release_step S IN.hsPopulation
      PVRSRV_HANDLE_TYPE.PVRSRV_HANDLE_TYPE_RGX_POPULATION c2
  rw [hl3] at hr
  dsimp only at hr
  subst hr
  dsimp only
  rw [hc3, hc2, hc1]
  simp only [List.nil_append, List.append_assoc, List.cons_append, List.singleton_append]
  exact path3 d1 e3

theorem RGXDestroyFreeList_paths {σ : Type} (S : Services σ) (s : σ)
    (IN : PVRSRV_BRIDGE_IN_RGXDESTROYFREELIST) (OUT0 : PVRSRV_BRIDGE_OUT_RGXDESTROYFREELIST)
    (P : PVRSRV_BRIDGE_OUT_RGXDESTROYFREELIST → List BridgeCall → Prop)
    (path1 :
      ∀ (d1 : Nat) (e1 : PVRSRV_ERROR), e1 ≠ PVRSRV_ERROR.PVRSRV_OK → P { OUT0 with eError := e1 }
        ([BridgeCall.PVRSRVLookupHandle IN.hCleanupCookie
        PVRSRV_HANDLE_TYPE.PVRSRV_HANDLE_TYPE_RGX_FREELIST e1 d1]))
    (path2 :
      ∀ (d1 : Nat) (e2 : PVRSRV_ERROR), e2 ≠ PVRSRV_ERROR.PVRSRV_OK → P { OUT0 with eError := e2 }
        (BridgeCall.PVRSRVLookupHandle IN.hCleanupCookie
        PVRSRV_HANDLE_TYPE.PVRSRV_HANDLE_TYPE_RGX_FREELIST PVRSRV_ERROR.PVRSRV_OK d1 ::
        ([BridgeCall.ResManFreeResByPtr d1 e2])))
    (path3 :
      ∀ (d1 : Nat) (e3 : PVRSRV_ERROR), P { OUT0 with eError := e3 }
        (BridgeCall.PVRSRVLookupHandle IN.hCleanupCookie
        PVRSRV_HANDLE_TYPE.PVRSRV_HANDLE_TYPE_RGX_FREELIST PVRSRV_ERROR.PVRSRV_OK d1 ::
        (BridgeCall.ResManFreeResByPtr d1 PVRSRV_ERROR.PVRSRV_OK ::
        ([BridgeCall.PVRSRVReleaseHandle IN.hCleanupCookie
        PVRSRV_HANDLE_TYPE.PVRSRV_HANDLE_TYPE_RGX_FREELIST e3])))) :
    P (PVRSRVBridgeRGXDestroyFreeList S IN OUT0 s).1
      (PVRSRVBridgeRGXDestroyFreeList S IN OUT0 s).2.calls := by
  generalize hr : PVRSRVBridgeRGXDestroyFreeList S IN OUT0 s = r
  unfold PVRSRVBridgeRGXDestroyFreeList RGXDestroyFreeListResManProxy at hr
  dsimp only at hr
  obtain ⟨e1, d1, c1, hl1, hc1⟩ := lookup_step S IN.hCleanupCookie
      PVRSRV_HANDLE_TYPE.PVRSRV_HANDLE_TYPE_RGX_FREELIST { s := s, calls := [] }
  rw [hl1] at hr
  dsimp only at hr
  by_cases hk1 : e1 = PVRSRV_ERROR.PVRSRV_OK
  swap
  · rw [if_pos hk1] at hr
    subst hr
    dsimp only
    rw [hc1]
    simp only [List.nil_append, List.append_assoc, List.cons_append, List.singleton_append]
    exact path1 d1 e1 hk1
  rw [if_neg (not_not_intro hk1)] at hr
  subst hk1
  obtain ⟨e2, c2, hl2, hc2⟩ := free_step S d1 c1
  rw [hl2] at hr
  dsimp only at hr
  by_cases hk2 : e2 = PVRSRV_ERROR.PVRSRV_OK
  swap
  · rw [if_pos hk2] at hr
    subst hr
    dsimp only
    rw [hc2, hc1]
    simp only [List.nil_append, List.append_assoc, List.cons_append, List.singleton_append]
    exact path2 d1 e2 hk2
  rw [if_neg (not_not_intro hk2)] at hr
  subst hk2
  obtain ⟨e3, c3, hl3, hc3⟩ := release_step S IN.hCleanupCookie
      PVRSRV_HANDLE_TYPE.PVRSRV_HANDLE_TYPE_RGX_FREELIST c2
  rw [hl3] at hr
  dsimp only at hr
  subst hr
  dsimp only
  rw [hc3, hc2, hc1]
  simp only [List.nil_append, List.append_assoc, List.cons_append, List.singleton_append]
  exact path3 d1 e3

theorem RGXDestroyRenderContext_paths {σ : Type} (S : Services σ) (s : σ)
    (IN : PVRSRV_BRIDGE_IN_RGXDESTROYRENDERCONTEXT) (OUT0 : PVRSRV_BRIDGE_OUT_RGXDESTROYRENDERCONTEXT)
    (P : PVRSRV_BRIDGE_OUT_RGXDESTROYRENDERCONTEXT → List BridgeCall → Prop)
    (path1 :
      ∀ (d1 : Nat) (e1 : PVRSRV_ERROR), e1 ≠ PVRSRV_ERROR.PVRSRV_OK → P { OUT0 with eError := e1 }
        ([BridgeCall.PVRSRVLookupHandle IN.hCleanupCookie
        PVRSRV_HANDLE_TYPE.PVRSRV_HANDLE_TYPE_RGX_RC_CLEANUP e1 d1]))
    (path2 :
      ∀ (d1 : Nat) (e2 : PVRSRV_ERROR), e2 ≠ PVRSRV_ERROR.PVRSRV_OK → P { OUT0 with eError := e2 }
        (BridgeCall.PVRSRVLookupHandle IN.hCleanupCookie
        PVRSRV_HANDLE_TYPE.PVRSRV_HANDLE_TYPE_RGX_RC_CLEANUP PVRSRV_ERROR.PVRSRV_OK d1 ::
        ([BridgeCall.ResManFreeResByPtr d1 e2])))
    (path3 :
      ∀ (d1 : Nat) (e3 : PVRSRV_ERROR), P { OUT0 with eError := e3 }
        (BridgeCall.PVRSRVLookupHandle IN.hCleanupCookie
        PVRSRV_HANDLE_TYPE.PVRSRV_HANDLE_TYPE_RGX_RC_CLEANUP PVRSRV_ERROR.PVRSRV_OK d1 ::
        (BridgeCall.ResManFreeResByPtr d1 PVRSRV_ERROR.PVRSRV_OK ::
        ([BridgeCall.PVRSRVReleaseHandle IN.hCleanupCookie
        PVRSRV_HANDLE_TYPE.PVRSRV_HANDLE_TYPE_RGX_RC_CLEANUP e3])))) :
    P (PVRSRVBridgeRGXDestroyRenderContext S IN OUT0 s).1
      (PVRSRVBridgeRGXDestroyRenderContext S IN OUT0 s).2.calls := by
  generalize hr : PVRSRVBridgeRGXDestroyRenderContext S IN OUT0 s = r
  unfold PVRSRVBridgeRGXDestroyRenderContext RGXDestroyRenderContextResManProxy at hr
  dsimp only at hr
  obtain ⟨e1, d1, c1, hl1, hc1⟩ := lookup_step S IN.hCleanupCookie
      PVRSRV_HANDLE_TYPE.PVRSRV_HANDLE_TYPE_RGX_RC_CLEANUP { s := s, calls := [] }
  rw [hl1] at hr
  dsimp only at hr
  by_cases hk1 : e1 = PVRSRV_ERROR.PVRSRV_OK
  swap
  · rw [if_pos hk1] at hr
    subst hr
    dsimp only
    rw [hc1]
    simp only [List.nil_append, List.append_assoc, List.cons_append, List.singleton_append]
    exact path1 d1 e1 hk1
  rw [if_neg (not_not_intro hk1)] at hr
  subst hk1
  obtain ⟨e2, c2, hl2, hc2⟩ := free_step S d1 c1
  rw [hl2] at hr
  dsimp only at hr
  by_cases hk2 : e2 = PVRSRV_ERROR.PVRSRV_OK
  swap
  · rw [if_pos hk2] at hr
    subst hr
    dsimp only
    rw [hc2, hc1]
    simp only [List.nil_append, List.append_assoc, List.cons_append, List.singleton_append]
    exact path2 d1 e2 hk2
  rw [if_neg (not_not_intro hk2)] at hr
  subst hk2
  obtain ⟨e3, c3, hl3, hc3⟩ := release_step S IN.hCleanupCookie
      PVRSRV_HANDLE_TYPE.PVRSRV_HANDLE_TYPE_RGX_RC_CLEANUP c2
  rw [hl3] at hr
  dsimp only at hr
  subst hr
  dsimp only
  rw [hc3, hc2, hc1]
  simp only [List.nil_append, List.append_assoc, List.cons_append, List.singleton_append]
  exact path3 d1 e3

theorem RGXAddBlockToFreeList_paths {σ : Type} (S : Services σ) (s : σ)
    (IN : PVRSRV_BRIDGE_IN_RGXADDBLOCKTOFREELIST) (OUT0 : PVRSRV_BRIDGE_OUT_RGXADDBLOCKTOFREELIST)
    (P : PVRSRV_BRIDGE_OUT_RGXADDBLOCKTOFREELIST → List BridgeCall → Prop)
    (path1 :
      ∀ (d1 : Nat) (e1 : PVRSRV_ERROR), e1 ≠ PVRSRV_ERROR.PVRSRV_OK → P { OUT0 with eError := e1 }
        ([BridgeCall.PVRSRVLookupHandle IN.hsFreeList
        PVRSRV_HANDLE_TYPE.PVRSRV_HANDLE_TYPE_RGX_FREELIST e1 d1]))
    (path2 :
      ∀ (d1 d2 : Nat) (e2 : PVRSRV_ERROR), e2 ≠ PVRSRV_ERROR.PVRSRV_OK → P
        { OUT0 with eError := e2 } (BridgeCall.PVRSRVLookupHandle IN.hsFreeList
        PVRSRV_HANDLE_TYPE.PVRSRV_HANDLE_TYPE_RGX_FREELIST PVRSRV_ERROR.PVRSRV_OK d1 ::
        ([BridgeCall.ResManFindPrivateDataByPtr d1 e2 d2])))
    (path3 :
      ∀ (d1 d2 : Nat) (o3 : List Nat) (e3 : PVRSRV_ERROR), P { OUT0 with eError := e3 }
        (BridgeCall.PVRSRVLookupHandle IN.hsFreeList
        PVRSRV_HANDLE_TYPE.PVRSRV_HANDLE_TYPE_RGX_FREELIST PVRSRV_ERROR.PVRSRV_OK d1 ::
        (BridgeCall.ResManFindPrivateDataByPtr d1 PVRSRV_ERROR.PVRSRV_OK d2 :: ([BridgeCall.domain
        DomainFn.RGXAddBlockToFreeListKM [d2, IN.ui3232NumPages] e3 o3])))) :
    P (PVRSRVBridgeRGXAddBlockToFreeList S IN OUT0 s).1
      (PVRSRVBridgeRGXAddBlockToFreeList S IN OUT0 s).2.calls := by
  generalize hr : PVRSRVBridgeRGXAddBlockToFreeList S IN OUT0 s = r
  unfold PVRSRVBridgeRGXAddBlockToFreeList at hr
  dsimp only at hr
  obtain ⟨e1, d1, c1, hl1, hc1⟩ := lookup_step S IN.hsFreeList
      PVRSRV_HANDLE_TYPE.PVRSRV_HANDLE_TYPE_RGX_FREELIST { s := s, calls := [] }
  rw [hl1] at hr
  dsimp only at hr
  by_cases hk1 : e1 = PVRSRV_ERROR.PVRSRV_OK
  swap
  · rw [if_pos hk1] at hr
    subst hr
    dsimp only
    rw [hc1]
    simp only [List.nil_append, List.append_assoc, List.cons_append, List.singleton_append]
    exact path1 d1 e1 hk1
  rw [if_neg (not_not_intro hk1)] at hr
  subst hk1
  obtain ⟨e2, d2, c2, hl2, hc2⟩ := find_step S d1 c1
  rw [hl2] at hr
  dsimp only at hr
  by_cases hk2 : e2 = PVRSRV_ERROR.PVRSRV_OK
  swap
  · rw [if_pos hk2] at hr
    subst hr
    dsimp only
    rw [hc2, hc1]
    simp only [List.nil_append, List.append_assoc, List.cons_append, List.singleton_append]
    exact path2 d1 d2 e2 hk2
  rw [if_neg (not_not_intro hk2)] at hr
  subst hk2
  obtain ⟨e3, o3, c3, hl3, hc3⟩ := domain_step S DomainFn.RGXAddBlockToFreeListKM [d2,
      IN.ui3232NumPages] c2
  rw [hl3] at hr
  dsimp only at hr
  subst hr
  dsimp only
  rw [hc3, hc2, hc1]
  simp only [List.nil_append, List.append_assoc, List.cons_append, List.singleton_append]
  exact path3 d1 d2 o3 e3

theorem RGXRemoveBlockFromFreeList_paths {σ : Type} (S : Services σ) (s : σ)
    (IN : PVRSRV_BRIDGE_IN_RGXREMOVEBLOCKFROMFREELIST) (OUT0 : PVRSRV_BRIDGE_OUT_RGXREMOVEBLOCKFROMFREELIST)
    (P : PVRSRV_BRIDGE_OUT_RGXREMOVEBLOCKFROMFREELIST → List BridgeCall → Prop)
    (path1 :
      ∀ (d1 : Nat) (e1 : PVRSRV_ERROR), e1 ≠ PVRSRV_ERROR.PVRSRV_OK → P { OUT0 with eError := e1 }
        ([BridgeCall.PVRSRVLookupHandle IN.hsFreeList
        PVRSRV_HANDLE_TYPE.PVRSRV_HANDLE_TYPE_RGX_FREELIST e1 d1]))
    (path2 :
      ∀ (d1 d2 : Nat) (e2 : PVRSRV_ERROR), e2 ≠ PVRSRV_ERROR.PVRSRV_OK → P
        { OUT0 with eError := e2 } (BridgeCall.PVRSRVLookupHandle IN.hsFreeList
        PVRSRV_HANDLE_TYPE.PVRSRV_HANDLE_TYPE_RGX_FREELIST PVRSRV_ERROR.PVRSRV_OK d1 ::
        ([BridgeCall.ResManFindPrivateDataByPtr d1 e2 d2])))
    (path3 :
      ∀ (d1 d2 : Nat) (o3 : List Nat) (e3 : PVRSRV_ERROR), P { OUT0 with eError := e3 }
        (BridgeCall.PVRSRVLookupHandle IN.hsFreeList
        PVRSRV_HANDLE_TYPE.PVRSRV_HANDLE_TYPE_RGX_FREELIST PVRSRV_ERROR.PVRSRV_OK d1 ::
        (BridgeCall.ResManFindPrivateDataByPtr d1 PVRSRV_ERROR.PVRSRV_OK d2 :: ([BridgeCall.domain
        DomainFn.RGXRemoveBlockFromFreeListKM [d2] e3 o3])))) :
    P (PVRSRVBridgeRGXRemoveBlockFromFreeList S IN OUT0 s).1
      (PVRSRVBridgeRGXRemoveBlockFromFreeList S IN OUT0 s).2.calls := by
  generalize hr : PVRSRVBridgeRGXRemoveBlockFromFreeList S IN OUT0 s = r
  unfold PVRSRVBridgeRGXRemoveBlockFromFreeList at hr
  dsimp only at hr
  obtain ⟨e1, d1, c1, hl1, hc1⟩ := lookup_step S IN.hsFreeList
      PVRSRV_HANDLE_TYPE.PVRSRV_HANDLE_TYPE_RGX_FREELIST { s := s, calls := [] }
  rw [hl1] at hr
  dsimp only at hr
  by_cases hk1 : e1 = PVRSRV_ERROR.PVRSRV_OK
  swap
  · rw [if_pos hk1] at hr
    subst hr
    dsimp only
    rw [hc1]
    simp only [List.nil_append, List.append_assoc, List.cons_append, List.singleton_append]
    exact path1 d1 e1 hk1
  rw [if_neg (not_not_intro hk1)] at hr
  subst hk1
  obtain ⟨e2, d2, c2, hl2, hc2⟩ := find_step S d1 c1
  rw [hl2] at hr
  dsimp only at hr
  by_cases hk2 : e2 = PVRSRV_ERROR.PVRSRV_OK
  swap
  · rw [if_pos hk2] at hr
    subst hr
    dsimp only
    rw [hc2, hc1]
    simp only [List.nil_append, List.append_assoc, List.cons_append, List.singleton_append]
    exact path2 d1 d2 e2 hk2
  rw [if_neg (not_not_intro hk2)] at hr
  subst hk2
  obtain ⟨e3, o3, c3, hl3, hc3⟩ := domain_step S DomainFn.RGXRemoveBlockFromFreeListKM [d2] c2
  rw [hl3] at hr
  dsimp only at hr
  subst hr
  dsimp only
  rw [hc3, hc2, hc1]
  simp only [List.nil_append, List.append_assoc, List.cons_append, List.singleton_append]
  exact path3 d1 d2 o3 e3

theorem RGXKickTA3D_paths {σ : Type} (S : Services σ) (s : σ)
    (IN : PVRSRV_BRIDGE_IN_RGXKICKTA3D) (OUT0 : PVRSRV_BRIDGE_OUT_RGXKICKTA3D)
    (P : PVRSRV_BRIDGE_OUT_RGXKICKTA3D → List BridgeCall → Prop)
    (path1 :
      ∀ (d1 : Nat) (e1 : PVRSRV_ERROR), e1 ≠ PVRSRV_ERROR.PVRSRV_OK → P { OUT0 with eError := e1 }
        ([BridgeCall.PVRSRVLookupHandle IN.hDevNode PVRSRV_HANDLE_TYPE.PVRSRV_HANDLE_TYPE_DEV_NODE
        e1 d1]))
    (path2 :
      ∀ (d1 d2 : Nat) (e2 : PVRSRV_ERROR), e2 ≠ PVRSRV_ERROR.PVRSRV_OK → P
        { OUT0 with eError := e2 } (BridgeCall.PVRSRVLookupHandle IN.hDevNode
        PVRSRV_HANDLE_TYPE.PVRSRV_HANDLE_TYPE_DEV_NODE PVRSRV_ERROR.PVRSRV_OK d1 ::
        ([BridgeCall.PVRSRVLookupHandle IN.hFWRenderContext
        PVRSRV_HANDLE_TYPE.PVRSRV_HANDLE_TYPE_RGX_FW_MEMDESC e2 d2])))
    (path3a :
      ∀ (d1 d2 : Nat) (e3 : PVRSRV_ERROR) (d3 : Nat), e3 ≠ PVRSRV_ERROR.PVRSRV_OK →
        IN.hRTDataCleanup ≠ 0 → P { OUT0 with eError := e3 } (BridgeCall.PVRSRVLookupHandle
        IN.hDevNode PVRSRV_HANDLE_TYPE.PVRSRV_HANDLE_TYPE_DEV_NODE PVRSRV_ERROR.PVRSRV_OK d1 ::
        (BridgeCall.PVRSRVLookupHandle IN.hFWRenderContext
        PVRSRV_HANDLE_TYPE.PVRSRV_HANDLE_TYPE_RGX_FW_MEMDESC PVRSRV_ERROR.PVRSRV_OK d2 ::
        ([BridgeCall.PVRSRVLookupHandle IN.hRTDataCleanup
        PVRSRV_HANDLE_TYPE.PVRSRV_HANDLE_TYPE_RGX_RTDATA_CLEANUP e3 d3]))))
    (path3b :
      ∀ (d1 d2 : Nat) (e3 : PVRSRV_ERROR) (d3 x3 : Nat), e3 ≠ PVRSRV_ERROR.PVRSRV_OK →
        IN.hRTDataCleanup ≠ 0 → P { OUT0 with eError := e3 } (BridgeCall.PVRSRVLookupHandle
        IN.hDevNode PVRSRV_HANDLE_TYPE.PVRSRV_HANDLE_TYPE_DEV_NODE PVRSRV_ERROR.PVRSRV_OK d1 ::
        (BridgeCall.PVRSRVLookupHandle IN.hFWRenderContext
        PVRSRV_HANDLE_TYPE.PVRSRV_HANDLE_TYPE_RGX_FW_MEMDESC PVRSRV_ERROR.PVRSRV_OK d2 ::
        (BridgeCall.PVRSRVLookupHandle IN.hRTDataCleanup
        PVRSRV_HANDLE_TYPE.PVRSRV_HANDLE_TYPE_RGX_RTDATA_CLEANUP PVRSRV_ERROR.PVRSRV_OK d3 ::
        ([BridgeCall.ResManFindPrivateDataByPtr d3 e3 x3])))))
    (path4a :
      ∀ (d1 d2 d3 v3 : Nat) (e4 : PVRSRV_ERROR) (d4 : Nat), (IN.hRTDataCleanup = 0 → v3 = 0) → e4
        ≠ PVRSRV_ERROR.PVRSRV_OK → IN.hZBuffer ≠ 0 → P { OUT0 with eError := e4 }
        (BridgeCall.PVRSRVLookupHandle IN.hDevNode PVRSRV_HANDLE_TYPE.PVRSRV_HANDLE_TYPE_DEV_NODE
        PVRSRV_ERROR.PVRSRV_OK d1 :: (BridgeCall.PVRSRVLookupHandle IN.hFWRenderContext
        PVRSRV_HANDLE_TYPE.PVRSRV_HANDLE_TYPE_RGX_FW_MEMDESC PVRSRV_ERROR.PVRSRV_OK d2 ::
        (lookupIfSetCalls IN.hRTDataCleanup
        PVRSRV_HANDLE_TYPE.PVRSRV_HANDLE_TYPE_RGX_RTDATA_CLEANUP d3 v3 ++
        ([BridgeCall.PVRSRVLookupHandle IN.hZBuffer
        PVRSRV_HANDLE_TYPE.PVRSRV_HANDLE_TYPE_RGX_FWIF_ZSBUFFER e4 d4])))))
    (path4b :
      ∀ (d1 d2 d3 v3 : Nat) (e4 : PVRSRV_ERROR) (d4 x4 : Nat), (IN.hRTDataCleanup = 0 → v3 = 0) →
        e4 ≠ PVRSRV_ERROR.PVRSRV_OK → IN.hZBuffer ≠ 0 → P { OUT0 with eError := e4 }
        (BridgeCall.PVRSRVLookupHandle IN.hDevNode PVRSRV_HANDLE_TYPE.PVRSRV_HANDLE_TYPE_DEV_NODE
        PVRSRV_ERROR.PVRSRV_OK d1 :: (BridgeCall.PVRSRVLookupHandle IN.hFWRenderContext
        PVRSRV_HANDLE_TYPE.PVRSRV_HANDLE_TYPE_RGX_FW_MEMDESC PVRSRV_ERROR.PVRSRV_OK d2 ::
        (lookupIfSetCalls IN.hRTDataCleanup
        PVRSRV_HANDLE_TYPE.PVRSRV_HANDLE_TYPE_RGX_RTDATA_CLEANUP d3 v3 ++
        (BridgeCall.PVRSRVLookupHandle IN.hZBuffer
        PVRSRV_HANDLE_TYPE.PVRSRV_HANDLE_TYPE_RGX_FWIF_ZSBUFFER PVRSRV_ERROR.PVRSRV_OK d4 ::
        ([BridgeCall.ResManFindPrivateDataByPtr d4 e4 x4]))))))
    (path5a :
      ∀ (d1 d2 d3 v3 d4 v4 : Nat) (e5 : PVRSRV_ERROR) (d5 : Nat), (IN.hRTDataCleanup = 0 → v3 = 0)
        → (IN.hZBuffer = 0 → v4 = 0) → e5 ≠ PVRSRV_ERROR.PVRSRV_OK → IN.hSBuffer ≠ 0 → P
        { OUT0 with eError := e5 } (BridgeCall.PVRSRVLookupHandle IN.hDevNode
        PVRSRV_HANDLE_TYPE.PVRSRV_HANDLE_TYPE_DEV_NODE PVRSRV_ERROR.PVRSRV_OK d1 ::
        (BridgeCall.PVRSRVLookupHandle IN.hFWRenderContext
        PVRSRV_HANDLE_TYPE.PVRSRV_HANDLE_TYPE_RGX_FW_MEMDESC PVRSRV_ERROR.PVRSRV_OK d2 ::
        (lookupIfSetCalls IN.hRTDataCleanup
        PVRSRV_HANDLE_TYPE.PVRSRV_HANDLE_TYPE_RGX_RTDATA_CLEANUP d3 v3 ++ (lookupIfSetCalls
        IN.hZBuffer PVRSRV_HANDLE_TYPE.PVRSRV_HANDLE_TYPE_RGX_FWIF_ZSBUFFER d4 v4 ++
        ([BridgeCall.PVRSRVLookupHandle IN.hSBuffer
        PVRSRV_HANDLE_TYPE.PVRSRV_HANDLE_TYPE_RGX_FWIF_ZSBUFFER e5 d5]))))))
    (path5b :
      ∀ (d1 d2 d3 v3 d4 v4 : Nat) (e5 : PVRSRV_ERROR) (d5 x5 : Nat), (IN.hRTDataCleanup = 0 → v3 =
        0) → (IN.hZBuffer = 0 → v4 = 0) → e5 ≠ PVRSRV_ERROR.PVRSRV_OK → IN.hSBuffer ≠ 0 → P
        { OUT0 with eError := e5 } (BridgeCall.PVRSRVLookupHandle IN.hDevNode
        PVRSRV_HANDLE_TYPE.PVRSRV_HANDLE_TYPE_DEV_NODE PVRSRV_ERROR.PVRSRV_OK d1 ::
        (BridgeCall.PVRSRVLookupHandle IN.hFWRenderContext
        PVRSRV_HANDLE_TYPE.PVRSRV_HANDLE_TYPE_RGX_FW_MEMDESC PVRSRV_ERROR.PVRSRV_OK d2 ::
        (lookupIfSetCalls IN.hRTDataCleanup
        PVRSRV_HANDLE_TYPE.PVRSRV_HANDLE_TYPE_RGX_RTDATA_CLEANUP d3 v3 ++ (lookupIfSetCalls
        IN.hZBuffer PVRSRV_HANDLE_TYPE.PVRSRV_HANDLE_TYPE_RGX_FWIF_ZSBUFFER d4 v4 ++
        (BridgeCall.PVRSRVLookupHandle IN.hSBuffer
        PVRSRV_HANDLE_TYPE.PVRSRV_HANDLE_TYPE_RGX_FWIF_ZSBUFFER PVRSRV_ERROR.PVRSRV_OK d5 ::
        ([BridgeCall.ResManFindPrivateDataByPtr d5 e5 x5])))))))
    (path6 :
      ∀ (d1 d2 d3 v3 d4 v4 d5 v5 : Nat) (o6 : List Nat) (e6 : PVRSRV_ERROR), (IN.hRTDataCleanup =
        0 → v3 = 0) → (IN.hZBuffer = 0 → v4 = 0) → (IN.hSBuffer = 0 → v5 = 0) → P
        { OUT0 with eError := e6 } (BridgeCall.PVRSRVLookupHandle IN.hDevNode
        PVRSRV_HANDLE_TYPE.PVRSRV_HANDLE_TYPE_DEV_NODE PVRSRV_ERROR.PVRSRV_OK d1 ::
        (BridgeCall.PVRSRVLookupHandle IN.hFWRenderContext
        PVRSRV_HANDLE_TYPE.PVRSRV_HANDLE_TYPE_RGX_FW_MEMDESC PVRSRV_ERROR.PVRSRV_OK d2 ::
        (lookupIfSetCalls IN.hRTDataCleanup
        PVRSRV_HANDLE_TYPE.PVRSRV_HANDLE_TYPE_RGX_RTDATA_CLEANUP d3 v3 ++ (lookupIfSetCalls
        IN.hZBuffer PVRSRV_HANDLE_TYPE.PVRSRV_HANDLE_TYPE_RGX_FWIF_ZSBUFFER d4 v4 ++
        (lookupIfSetCalls IN.hSBuffer PVRSRV_HANDLE_TYPE.PVRSRV_HANDLE_TYPE_RGX_FWIF_ZSBUFFER d5
        v5 ++ ([BridgeCall.domain DomainFn.PVRSRVRGXKickTA3DKM [d1, d2, IN.bbLastTAInScene,
        IN.bbKickTA, IN.bbKickPR, IN.bbKick3D, IN.ui32TAcCCBWoffUpdate, IN.ui323DcCCBWoffUpdate,
        IN.bbPDumpContinuous, v3, v4, v5] e6 o6]))))))) :
    P (PVRSRVBridgeRGXKickTA3D S IN OUT0 s).1
      (PVRSRVBridgeRGXKickTA3D S IN OUT0 s).2.calls := by
  generalize hr : PVRSRVBridgeRGXKickTA3D S IN OUT0 s = r
  unfold PVRSRVBridgeRGXKickTA3D at hr
  dsimp only at hr
  obtain ⟨e1, d1, c1, hl1, hc1⟩ := lookup_step S IN.hDevNode
      PVRSRV_HANDLE_TYPE.PVRSRV_HANDLE_TYPE_DEV_NODE { s := s, calls := [] }
  rw [hl1] at hr
  dsimp only at hr
  by_cases hk1 : e1 = PVRSRV_ERROR.PVRSRV_OK
  swap
  · rw [if_pos hk1] at hr
    subst hr
    dsimp only
    rw [hc1]
    simp only [List.nil_append, List.append_assoc, List.cons_append, List.singleton_append]
    exact path1 d1 e1 hk1
  rw [if_neg (not_not_intro hk1)] at hr
  subst hk1
  obtain ⟨e2, d2, c2, hl2, hc2⟩ := lookup_step S IN.hFWRenderContext
      PVRSRV_HANDLE_TYPE.PVRSRV_HANDLE_TYPE_RGX_FW_MEMDESC c1
  rw [hl2] at hr
  dsimp only at hr
  by_cases hk2 : e2 = PVRSRV_ERROR.PVRSRV_OK
  swap
  · rw [if_pos hk2] at hr
    subst hr
    dsimp only
    rw [hc2, hc1]
    simp only [List.nil_append, List.append_assoc, List.cons_append, List.singleton_append]
    exact path2 d1 d2 e2 hk2
  rw [if_neg (not_not_intro hk2)] at hr
  subst hk2
  obtain ⟨oe3, v3, c3, hl3, hq3⟩ := lookupIfSet_cases S IN.hRTDataCleanup
      PVRSRV_HANDLE_TYPE.PVRSRV_HANDLE_TYPE_RGX_RTDATA_CLEANUP c2
  rw [hl3] at hr
  dsimp only at hr
  rcases hq3 with ⟨ho, d3, hc3, hv3⟩ | ⟨e3, d3, ho, hk3, hn3, hc3⟩ | ⟨e3, d3, x3, ho, hk3, hn3, hc3⟩
  rotate_left
  · subst ho
    dsimp only at hr
    subst hr
    dsimp only
    rw [hc3, hc2, hc1]
    simp only [List.nil_append, List.append_assoc, List.cons_append, List.singleton_append]
    exact path3a d1 d2 e3 d3 hk3 hn3
  · subst ho
    dsimp only at hr
    subst hr
    dsimp only
    rw [hc3, hc2, hc1]
    simp only [List.nil_append, List.append_assoc, List.cons_append, List.singleton_append]
    exact path3b d1 d2 e3 d3 x3 hk3 hn3
  subst ho
  dsimp only at hr
  obtain ⟨oe4, v4, c4, hl4, hq4⟩ := lookupIfSet_cases S IN.hZBuffer
      PVRSRV_HANDLE_TYPE.PVRSRV_HANDLE_TYPE_RGX_FWIF_ZSBUFFER c3
  rw [hl4] at hr
  dsimp only at hr
  rcases hq4 with ⟨ho, d4, hc4, hv4⟩ | ⟨e4, d4, ho, hk4, hn4, hc4⟩ | ⟨e4, d4, x4, ho, hk4, hn4, hc4⟩
  rotate_left
  · subst ho
    dsimp only at hr
    subst hr
    dsimp only
    rw [hc4, hc3, hc2, hc1]
    simp only [List.nil_append, List.append_assoc, List.cons_append, List.singleton_append]
    exact path4a d1 d2 d3 v3 e4 d4 hv3 hk4 hn4
  · subst ho
    dsimp only at hr
    subst hr
    dsimp only
    rw [hc4, hc3, hc2, hc1]
    simp only [List.nil_append, List.append_assoc, List.cons_append, List.singleton_append]
    exact path4b d1 d2 d3 v3 e4 d4 x4 hv3 hk4 hn4
  subst ho
  dsimp only at hr
  obtain ⟨oe5, v5, c5, hl5, hq5⟩ := lookupIfSet_cases S IN.hSBuffer
      PVRSRV_HANDLE_TYPE.PVRSRV_HANDLE_TYPE_RGX_FWIF_ZSBUFFER c4
  rw [hl5] at hr
  dsimp only at hr
  rcases hq5 with ⟨ho, d5, hc5, hv5⟩ | ⟨e5, d5, ho, hk5, hn5, hc5⟩ | ⟨e5, d5, x5, ho, hk5, hn5, hc5⟩
  rotate_left
  · subst ho
    dsimp only at hr
    subst hr
    dsimp only
    rw [hc5, hc4, hc3, hc2, hc1]
    simp only [List.nil_append, List.append_assoc, List.cons_append, List.singleton_append]
    exact path5a d1 d2 d3 v3 d4 v4 e5 d5 hv3 hv4 hk5 hn5
  · subst ho
    dsimp only at hr
    subst hr
    dsimp only
    rw [hc5, hc4, hc3, hc2, hc1]
    simp only [List.nil_append, List.append_assoc, List.cons_append, List.singleton_append]
    exact path5b d1 d2 d3 v3 d4 v4 e5 d5 x5 hv3 hv4 hk5 hn5
  subst ho
  dsimp only at hr
  obtain ⟨e6, o6, c6, hl6, hc6⟩ := domain_step S DomainFn.PVRSRVRGXKickTA3DKM [d1, d2,
      IN.bbLastTAInScene, IN.bbKickTA, IN.bbKickPR, IN.bbKick3D, IN.ui32TAcCCBWoffUpdate,
      IN.ui323DcCCBWoffUpdate, IN.bbPDumpContinuous, v3, v4, v5] c5
  rw [hl6] at hr
  dsimp only at hr
  subst hr
  dsimp only
  rw [hc6, hc5, hc4, hc3, hc2, hc1]
  simp only [List.nil_append, List.append_assoc, List.cons_append, List.singleton_append]
  exact path6 d1 d2 d3 v3 d4 v4 d5 v5 o6 e6 hv3 hv4 hv5

/-! ## Observations on the calls, call by call -/

theorem lookupResult_OSAllocMem (size ret : Nat) :
    (BridgeCall.OSAllocMem size ret).lookupResult = none := rfl

theorem isEffect_OSAllocMem (size ret : Nat) :
    (BridgeCall.OSAllocMem size ret).isEffect = false := rfl

theorem isOSFreeMem_OSAllocMem (size ret : Nat) :
    (BridgeCall.OSAllocMem size ret).isOSFreeMem = false := rfl

theorem changesRegistry_OSAllocMem (size ret : Nat) :
    (BridgeCall.OSAllocMem size ret).changesRegistry = false := rfl

theorem lookupResult_OSFreeMem (ptr : Nat) :
    (BridgeCall.OSFreeMem ptr).lookupResult = none := rfl

theorem isEffect_OSFreeMem (ptr : Nat) :
    (BridgeCall.OSFreeMem ptr).isEffect = false := rfl

theorem isOSFreeMem_OSFreeMem (ptr : Nat) :
    (BridgeCall.OSFreeMem ptr).isOSFreeMem = true := rfl

theorem changesRegistry_OSFreeMem (ptr : Nat) :
    (BridgeCall.OSFreeMem ptr).changesRegistry = false := rfl

theorem lookupResult_OSAccessOK (src size : Nat) (ret : Bool) :
    (BridgeCall.OSAccessOK src size ret).lookupResult = none := rfl

theorem isEffect_OSAccessOK (src size : Nat) (ret : Bool) :
    (BridgeCall.OSAccessOK src size ret).isEffect = false := rfl

theorem isOSFreeMem_OSAccessOK (src size : Nat) (ret : Bool) :
    (BridgeCall.OSAccessOK src size ret).isOSFreeMem = false := rfl

theorem changesRegistry_OSAccessOK (src size : Nat) (ret : Bool) :
    (BridgeCall.OSAccessOK src size ret).changesRegistry = false := rfl

theorem lookupResult_OSCopyFromUser (dst src size : Nat) (ret : PVRSRV_ERROR) :
    (BridgeCall.OSCopyFromUser dst src size ret).lookupResult = none := rfl

theorem isEffect_OSCopyFromUser (dst src size : Nat) (ret : PVRSRV_ERROR) :
    (BridgeCall.OSCopyFromUser dst src size ret).isEffect = false := rfl

theorem isOSFreeMem_OSCopyFromUser (dst src size : Nat) (ret : PVRSRV_ERROR) :
    (BridgeCall.OSCopyFromUser dst src size ret).isOSFreeMem = false := rfl

theorem changesRegistry_OSCopyFromUser (dst src size : Nat) (ret : PVRSRV_ERROR) :
    (BridgeCall.OSCopyFromUser dst src size ret).changesRegistry = false := rfl

theorem lookupResult_PVRSRVLookupHandle (h : Nat) (t : PVRSRV_HANDLE_TYPE) (ret : PVRSRV_ERROR) (data : Nat) :
    (BridgeCall.PVRSRVLookupHandle h t ret data).lookupResult = some ret := rfl

theorem isEffect_PVRSRVLookupHandle (h : Nat) (t : PVRSRV_HANDLE_TYPE) (ret : PVRSRV_ERROR) (data : Nat) :
    (BridgeCall.PVRSRVLookupHandle h t ret data).isEffect = false := rfl

theorem isOSFreeMem_PVRSRVLookupHandle (h : Nat) (t : PVRSRV_HANDLE_TYPE) (ret : PVRSRV_ERROR) (data : Nat) :
    (BridgeCall.PVRSRVLookupHandle h t ret data).isOSFreeMem = false := rfl

theorem changesRegistry_PVRSRVLookupHandle (h : Nat) (t : PVRSRV_HANDLE_TYPE) (ret : PVRSRV_ERROR) (data : Nat) :
    (BridgeCall.PVRSRVLookupHandle h t ret data).changesRegistry = false := rfl

theorem lookupResult_PVRSRVAllocHandle (data : Nat) (t : PVRSRV_HANDLE_TYPE) (ret : PVRSRV_ERROR) (h : Nat) :
    (BridgeCall.PVRSRVAllocHandle data t ret h).lookupResult = none := rfl

theorem isEffect_PVRSRVAllocHandle (data : Nat) (t : PVRSRV_HANDLE_TYPE) (ret : PVRSRV_ERROR) (h : Nat) :
    (BridgeCall.PVRSRVAllocHandle data t ret h).isEffect = true := rfl

theorem isOSFreeMem_PVRSRVAllocHandle (data : Nat) (t : PVRSRV_HANDLE_TYPE) (ret : PVRSRV_ERROR) (h : Nat) :
    (BridgeCall.PVRSRVAllocHandle data t ret h).isOSFreeMem = false := rfl

theorem changesRegistry_PVRSRVAllocHandle (data : Nat) (t : PVRSRV_HANDLE_TYPE) (ret : PVRSRV_ERROR) (h : Nat) :
    (BridgeCall.PVRSRVAllocHandle data t ret h).changesRegistry = true := rfl

theorem lookupResult_PVRSRVAllocSubHandle (data : Nat) (t : PVRSRV_HANDLE_TYPE) (parent : Nat) (ret : PVRSRV_ERROR) (h : Nat) :
    (BridgeCall.PVRSRVAllocSubHandle data t parent ret h).lookupResult = none := rfl

theorem isEffect_PVRSRVAllocSubHandle (data : Nat) (t : PVRSRV_HANDLE_TYPE) (parent : Nat) (ret : PVRSRV_ERROR) (h : Nat) :
    (BridgeCall.PVRSRVAllocSubHandle data t parent ret h).isEffect = true := rfl

theorem isOSFreeMem_PVRSRVAllocSubHandle (data : Nat) (t : PVRSRV_HANDLE_TYPE) (parent : Nat) (ret : PVRSRV_ERROR) (h : Nat) :
    (BridgeCall.PVRSRVAllocSubHandle data t parent ret h).isOSFreeMem = false := rfl

theorem changesRegistry_PVRSRVAllocSubHandle (data : Nat) (t : PVRSRV_HANDLE_TYPE) (parent : Nat) (ret : PVRSRV_ERROR) (h : Nat) :
    (BridgeCall.PVRSRVAllocSubHandle data t parent ret h).changesRegistry = true := rfl

theorem lookupResult_PVRSRVReleaseHandle (h : Nat) (t : PVRSRV_HANDLE_TYPE) (ret : PVRSRV_ERROR) :
    (BridgeCall.PVRSRVReleaseHandle h t ret).lookupResult = none := rfl

theorem isEffect_PVRSRVReleaseHandle (h : Nat) (t : PVRSRV_HANDLE_TYPE) (ret : PVRSRV_ERROR) :
    (BridgeCall.PVRSRVReleaseHandle h t ret).isEffect = true := rfl

theorem isOSFreeMem_PVRSRVReleaseHandle (h : Nat) (t : PVRSRV_HANDLE_TYPE) (ret : PVRSRV_ERROR) :
    (BridgeCall.PVRSRVReleaseHandle h t ret).isOSFreeMem = false := rfl

theorem changesRegistry_PVRSRVReleaseHandle (h : Nat) (t : PVRSRV_HANDLE_TYPE) (ret : PVRSRV_ERROR) :
    (BridgeCall.PVRSRVReleaseHandle h t ret).changesRegistry = true := rfl

theorem lookupResult_ResManRegisterRes (t : RESMAN_TYPE) (param : Nat) (f : DomainFn) (item : Nat) :
    (BridgeCall.ResManRegisterRes t param f item).lookupResult = none := rfl

theorem isEffect_ResManRegisterRes (t : RESMAN_TYPE) (param : Nat) (f : DomainFn) (item : Nat) :
    (BridgeCall.ResManRegisterRes t param f item).isEffect = true := rfl

theorem isOSFreeMem_ResManRegisterRes (t : RESMAN_TYPE) (param : Nat) (f : DomainFn) (item : Nat) :
    (BridgeCall.ResManRegisterRes t param f item).isOSFreeMem = false := rfl

theorem changesRegistry_ResManRegisterRes (t : RESMAN_TYPE) (param : Nat) (f : DomainFn) (item : Nat) :
    (BridgeCall.ResManRegisterRes t param f item).changesRegistry = true := rfl

theorem lookupResult_ResManFindPrivateDataByPtr (item : Nat) (ret : PVRSRV_ERROR) (data : Nat) :
    (BridgeCall.ResManFindPrivateDataByPtr item ret data).lookupResult = some ret := rfl

theorem isEffect_ResManFindPrivateDataByPtr (item : Nat) (ret : PVRSRV_ERROR) (data : Nat) :
    (BridgeCall.ResManFindPrivateDataByPtr item ret data).isEffect = false := rfl

theorem isOSFreeMem_ResManFindPrivateDataByPtr (item : Nat) (ret : PVRSRV_ERROR) (data : Nat) :
    (BridgeCall.ResManFindPrivateDataByPtr item ret data).isOSFreeMem = false := rfl

theorem changesRegistry_ResManFindPrivateDataByPtr (item : Nat) (ret : PVRSRV_ERROR) (data : Nat) :
    (BridgeCall.ResManFindPrivateDataByPtr item ret data).changesRegistry = false := rfl

theorem lookupResult_ResManFreeResByPtr (item : Nat) (ret : PVRSRV_ERROR) :
    (BridgeCall.ResManFreeResByPtr item ret).lookupResult = none := rfl

theorem isEffect_ResManFreeResByPtr (item : Nat) (ret : PVRSRV_ERROR) :
    (BridgeCall.ResManFreeResByPtr item ret).isEffect = true := rfl

theorem isOSFreeMem_ResManFreeResByPtr (item : Nat) (ret : PVRSRV_ERROR) :
    (BridgeCall.ResManFreeResByPtr item ret).isOSFreeMem = false := rfl

theorem changesRegistry_ResManFreeResByPtr (item : Nat) (ret : PVRSRV_ERROR) :
    (BridgeCall.ResManFreeResByPtr item ret).changesRegistry = true := rfl

theorem lookupResult_domain (fn : DomainFn) (args : List Nat) (ret : PVRSRV_ERROR) (outs : List Nat) :
    (BridgeCall.domain fn args ret outs).lookupResult = none := rfl

theorem isEffect_domain (fn : DomainFn) (args : List Nat) (ret : PVRSRV_ERROR) (outs : List Nat) :
    (BridgeCall.domain fn args ret outs).isEffect = true := rfl

theorem isOSFreeMem_domain (fn : DomainFn) (args : List Nat) (ret : PVRSRV_ERROR) (outs : List Nat) :
    (BridgeCall.domain fn args ret outs).isOSFreeMem = false := rfl

theorem changesRegistry_domain (fn : DomainFn) (args : List Nat) (ret : PVRSRV_ERROR) (outs : List Nat) :
    (BridgeCall.domain fn args ret outs).changesRegistry = false := rfl

theorem lookupsOK_nil : lookupsOK [] := fun _ h => nomatch h

theorem lookupsOK_lookupIfSetCalls (h : Nat) (t : PVRSRV_HANDLE_TYPE) (d v : Nat) :
    lookupsOK (lookupIfSetCalls h t d v) := by
  unfold lookupIfSetCalls lookupsOK
  split_ifs <;> simp [BridgeCall.lookupResult]

theorem afterFailedLookup_cons (c : BridgeCall) (l : List BridgeCall) :
    afterFailedLookup (c :: l)
      = match c.lookupResult with
        | some e => if e ≠ PVRSRV_ERROR.PVRSRV_OK then some (e, l) else afterFailedLookup l
        | none => afterFailedLookup l := rfl

theorem afterFailedLookup_nil : afterFailedLookup [] = none := rfl

theorem afterFailedLookup_append_ok {a : List BridgeCall} (h : lookupsOK a)
    (b : List BridgeCall) : afterFailedLookup (a ++ b) = afterFailedLookup b := by
  induction a with
  | nil => rfl
  | cons x l ih =>
    have hx : x.lookupResult = some PVRSRV_ERROR.PVRSRV_OK := h x (List.mem_cons_self _ _)
    have hl : lookupsOK l := fun y hy => h y (List.mem_cons_of_mem _ hy)
    simp [afterFailedLookup, hx, ih hl]

theorem afterFailedLookup_cleanupCalls (T : PVRSRV_HANDLE_TYPE) (D : DomainFn)
    (e : PVRSRV_ERROR) (h i o : Nat) (ps : List Nat) (rr fr de : PVRSRV_ERROR)
    (dout : List Nat) : afterFailedLookup (cleanupCalls T D e h i o ps rr fr de dout) = none := by
  have hf : ∀ l : List Nat, afterFailedLookup (l.map BridgeCall.OSFreeMem) = none := by
    intro l
    induction l with
    | nil => rfl
    | cons x l ih => simpa [afterFailedLookup, BridgeCall.lookupResult] using ih
  unfold cleanupCalls
  split_ifs <;> simp [afterFailedLookup, BridgeCall.lookupResult, hf]

theorem noEffect_nil : noEffect [] := fun _ h => nomatch h

theorem noEffect_cons (c : BridgeCall) (l : List BridgeCall) :
    noEffect (c :: l) ↔ c.isEffect = false ∧ noEffect l := by
  simp [noEffect]

theorem noEffect_append (a b : List BridgeCall) :
    noEffect (a ++ b) ↔ noEffect a ∧ noEffect b := by
  simp only [noEffect, List.mem_append]
  exact ⟨fun h => ⟨fun c hc => h c (Or.inl hc), fun c hc => h c (Or.inr hc)⟩,
    fun h c hc => hc.elim (h.1 c) (h.2 c)⟩

theorem onlyOSFreeMem_nil : onlyOSFreeMem [] := fun _ h => nomatch h

theorem cleanupCalls_of_nothing (T : PVRSRV_HANDLE_TYPE) (D : DomainFn)
    (e : PVRSRV_ERROR) (ps : List Nat) (rr fr de : PVRSRV_ERROR) (dout : List Nat) :
    cleanupCalls T D e 0 0 0 ps rr fr de dout
      = (ps.filter (fun p => decide (p ≠ 0))).map BridgeCall.OSFreeMem := by
  simp [cleanupCalls]

theorem onlyOSFreeMem_cleanupCalls (T : PVRSRV_HANDLE_TYPE) (D : DomainFn)
    (e : PVRSRV_ERROR) (ps : List Nat) (rr fr de : PVRSRV_ERROR) (dout : List Nat) :
    onlyOSFreeMem (cleanupCalls T D e 0 0 0 ps rr fr de dout) := by
  rw [cleanupCalls_of_nothing]
  intro c hc
  obtain ⟨p, _, rfl⟩ := List.mem_map.mp hc
  rfl

theorem noEffect_cleanupCalls (T : PVRSRV_HANDLE_TYPE) (D : DomainFn)
    (e : PVRSRV_ERROR) (ps : List Nat) (rr fr de : PVRSRV_ERROR) (dout : List Nat) :
    noEffect (cleanupCalls T D e 0 0 0 ps rr fr de dout) := by
  rw [cleanupCalls_of_nothing]
  intro c hc
  obtain ⟨p, _, rfl⟩ := List.mem_map.mp hc
  rfl

theorem isEffect_of_lookupResult {c : BridgeCall} {e : PVRSRV_ERROR}
    (h : c.lookupResult = some e) : c.isEffect = false := by
  cases c <;> simp [BridgeCall.lookupResult] at h <;> rfl

theorem noEffect_of_lookupsOK {l : List BridgeCall} (h : lookupsOK l) : noEffect l :=
  fun c hc => isEffect_of_lookupResult (h c hc)

theorem registryUntouched_nil : registryUntouched [] := fun _ h => nomatch h

theorem registryUntouched_cons (c : BridgeCall) (l : List BridgeCall) :
    registryUntouched (c :: l) ↔ c.changesRegistry = false ∧ registryUntouched l := by
  simp [registryUntouched]

theorem registryUntouched_append (a b : List BridgeCall) :
    registryUntouched (a ++ b) ↔ registryUntouched a ∧ registryUntouched b := by
  simp only [registryUntouched, List.mem_append]
  exact ⟨fun h => ⟨fun c hc => h c (Or.inl hc), fun c hc => h c (Or.inr hc)⟩,
    fun h c hc => hc.elim (h.1 c) (h.2 c)⟩

theorem registryUntouched_lookupIfSetCalls (h : Nat) (t : PVRSRV_HANDLE_TYPE) (d v : Nat) :
    registryUntouched (lookupIfSetCalls h t d v) := by
  unfold lookupIfSetCalls registryUntouched
  split_ifs <;> simp [BridgeCall.changesRegistry]

theorem directCalls_lookupIfSetCalls (fn : DomainFn) (h : Nat) (t : PVRSRV_HANDLE_TYPE)
    (d v : Nat) : directCalls fn (lookupIfSetCalls h t d v) = [] := by
  unfold lookupIfSetCalls
  split_ifs <;> simp [directCalls]

/-! ## Observations on the calls of the cleanup -/

theorem resmanFrees_map_OSFreeMem (l : List Nat) :
    resmanFrees (l.map BridgeCall.OSFreeMem) = [] := by
  induction l with
  | nil => rfl
  | cons x l ih => simpa [resmanFrees] using ih

theorem directCalls_map_OSFreeMem (fn : DomainFn) (l : List Nat) :
    directCalls fn (l.map BridgeCall.OSFreeMem) = [] := by
  induction l with
  | nil => rfl
  | cons x l ih => simpa [directCalls] using ih

theorem createOutcome_map_OSFreeMem (fn : DomainFn) (l : List Nat) :
    createOutcome fn (l.map BridgeCall.OSFreeMem) = none := by
  induction l with
  | nil => rfl
  | cons x l ih => simpa [createOutcome] using ih

theorem registerOutcome_map_OSFreeMem (l : List Nat) :
    registerOutcome (l.map BridgeCall.OSFreeMem) = none := by
  induction l with
  | nil => rfl
  | cons x l ih => simpa [registerOutcome] using ih

theorem resmanFrees_cleanupCalls (T : PVRSRV_HANDLE_TYPE) (D : DomainFn)
    (e : PVRSRV_ERROR) (h i o : Nat) (ps : List Nat) (rr fr de : PVRSRV_ERROR)
    (dout : List Nat) :
    resmanFrees (cleanupCalls T D e h i o ps rr fr de dout)
      = if e ≠ PVRSRV_ERROR.PVRSRV_OK ∧ i ≠ 0 then [i] else [] := by
  unfold cleanupCalls
  split_ifs <;>
    simp_all [resmanFrees, resmanFrees_append, resmanFrees_map_OSFreeMem]

theorem directCalls_cleanupCalls (fn : DomainFn) (T : PVRSRV_HANDLE_TYPE) (D : DomainFn)
    (e : PVRSRV_ERROR) (h i o : Nat) (ps : List Nat) (rr fr de : PVRSRV_ERROR)
    (dout : List Nat) :
    directCalls fn (cleanupCalls T D e h i o ps rr fr de dout)
      = if e ≠ PVRSRV_ERROR.PVRSRV_OK ∧ i = 0 ∧ o ≠ 0 ∧ D = fn then [[o]] else [] := by
  unfold cleanupCalls
  split_ifs <;>
    simp_all [directCalls, directCalls_append, directCalls_map_OSFreeMem]

theorem createOutcome_cleanupCalls (fn : DomainFn) (T : PVRSRV_HANDLE_TYPE) (D : DomainFn)
    (e : PVRSRV_ERROR) (h i o : Nat) (ps : List Nat) (rr fr de : PVRSRV_ERROR)
    (dout : List Nat) (hfn : D ≠ fn) :
    createOutcome fn (cleanupCalls T D e h i o ps rr fr de dout) = none := by
  unfold cleanupCalls
  split_ifs <;>
    simp_all [createOutcome, createOutcome_append, createOutcome_map_OSFreeMem]

theorem registerOutcome_cleanupCalls (T : PVRSRV_HANDLE_TYPE) (D : DomainFn)
    (e : PVRSRV_ERROR) (h i o : Nat) (ps : List Nat) (rr fr de : PVRSRV_ERROR)
    (dout : List Nat) :
    registerOutcome (cleanupCalls T D e h i o ps rr fr de dout) = none := by
  unfold cleanupCalls
  split_ifs <;>
    simp_all [registerOutcome, registerOutcome_append, registerOutcome_map_OSFreeMem]

theorem resmanFrees_of_lookupsOK {l : List BridgeCall} (h : lookupsOK l) :
    resmanFrees l = [] := by
  induction l with
  | nil => rfl
  | cons x l ih =>
    have hx := h x (List.mem_cons_self _ _)
    have hl : lookupsOK l := fun y hy => h y (List.mem_cons_of_mem _ hy)
    cases x <;> simp [BridgeCall.lookupResult] at hx <;> simpa [resmanFrees] using ih hl

theorem directCalls_of_lookupsOK (fn : DomainFn) {l : List BridgeCall} (h : lookupsOK l) :
    directCalls fn l = [] := by
  induction l with
  | nil => rfl
  | cons x l ih =>
    have hx := h x (List.mem_cons_self _ _)
    have hl : lookupsOK l := fun y hy => h y (List.mem_cons_of_mem _ hy)
    cases x <;> simp [BridgeCall.lookupResult] at hx <;> simpa [directCalls] using ih hl

theorem createOutcome_of_lookupsOK (fn : DomainFn) {l : List BridgeCall} (h : lookupsOK l) :
    createOutcome fn l = none := by
  induction l with
  | nil => rfl
  | cons x l ih =>
    have hx := h x (List.mem_cons_self _ _)
    have hl : lookupsOK l := fun y hy => h y (List.mem_cons_of_mem _ hy)
    cases x <;> simp [BridgeCall.lookupResult] at hx <;> simpa [createOutcome] using ih hl

theorem registerOutcome_of_lookupsOK {l : List BridgeCall} (h : lookupsOK l) :
    registerOutcome l = none := by
  induction l with
  | nil => rfl
  | cons x l ih =>
    have hx := h x (List.mem_cons_self _ _)
    have hl : lookupsOK l := fun y hy => h y (List.mem_cons_of_mem _ hy)
    cases x <;> simp [BridgeCall.lookupResult] at hx <;> simpa [registerOutcome] using ih hl

theorem resmanFrees_cons_of_lookup {x : BridgeCall} {e : PVRSRV_ERROR}
    (hx : x.lookupResult = some e) (l : List BridgeCall) :
    resmanFrees (x :: l) = resmanFrees l := by
  cases x <;> simp [BridgeCall.lookupResult] at hx <;> rfl

theorem directCalls_cons_of_lookup (fn : DomainFn) {x : BridgeCall} {e : PVRSRV_ERROR}
    (hx : x.lookupResult = some e) (l : List BridgeCall) :
    directCalls fn (x :: l) = directCalls fn l := by
  cases x <;> simp [BridgeCall.lookupResult] at hx <;> rfl

theorem createOutcome_cons_of_lookup (fn : DomainFn) {x : BridgeCall} {e : PVRSRV_ERROR}
    (hx : x.lookupResult = some e) (l : List BridgeCall) :
    createOutcome fn (x :: l) = createOutcome fn l := by
  cases x <;> simp [BridgeCall.lookupResult] at hx <;> rfl

theorem registerOutcome_cons_of_lookup {x : BridgeCall} {e : PVRSRV_ERROR}
    (hx : x.lookupResult = some e) (l : List BridgeCall) :
    registerOutcome (x :: l) = registerOutcome l := by
  cases x <;> simp [BridgeCall.lookupResult] at hx <;> rfl

/-! ## Exactly-one rollback on every create-style entry point -/

theorem RGXCreateRenderTarget_rollback {σ : Type} (S : Services σ) (s : σ)
    (IN : PVRSRV_BRIDGE_IN_RGXCREATERENDERTARGET) (OUT0 : PVRSRV_BRIDGE_OUT_RGXCREATERENDERTARGET)
    (hfail : (PVRSRVBridgeRGXCreateRenderTarget S IN OUT0 s).1.eError ≠ PVRSRV_ERROR.PVRSRV_OK) :
    rollbackExactlyOne DomainFn.RGXCreateRenderTarget DomainFn.RGXDestroyRenderTarget
      (PVRSRVBridgeRGXCreateRenderTarget S IN OUT0 s).2.calls := by
  revert hfail
  apply RGXCreateRenderTarget_paths S s IN OUT0 (fun out calls =>
    out.eError ≠ PVRSRV_ERROR.PVRSRV_OK →
      rollbackExactlyOne DomainFn.RGXCreateRenderTarget DomainFn.RGXDestroyRenderTarget calls)
  all_goals
    intros
    simp [rollbackExactlyOne, createOutcome, registerOutcome, resmanFrees, directCalls,
      resmanFrees_append, directCalls_append, createOutcome_append, registerOutcome_append,
      resmanFrees_cleanupCalls, directCalls_cleanupCalls, createOutcome_cleanupCalls,
      registerOutcome_cleanupCalls, resmanFrees_of_lookupsOK, directCalls_of_lookupsOK,
      createOutcome_of_lookupsOK, registerOutcome_of_lookupsOK, resmanFrees_cons_of_lookup,
      directCalls_cons_of_lookup, createOutcome_cons_of_lookup,
      registerOutcome_cons_of_lookup, *]
  all_goals
    intro x h1 h2
    exact absurd h2.symm h1

theorem RGXCreateZSBuffer_rollback {σ : Type} (S : Services σ) (s : σ)
    (IN : PVRSRV_BRIDGE_IN_RGXCREATEZSBUFFER) (OUT0 : PVRSRV_BRIDGE_OUT_RGXCREATEZSBUFFER)
    (hfail : (PVRSRVBridgeRGXCreateZSBuffer S IN OUT0 s).1.eError ≠ PVRSRV_ERROR.PVRSRV_OK) :
    rollbackExactlyOne DomainFn.RGXCreateZSBufferKM DomainFn.RGXDestroyZSBufferKM
      (PVRSRVBridgeRGXCreateZSBuffer S IN OUT0 s).2.calls := by
  revert hfail
  apply RGXCreateZSBuffer_paths S s IN OUT0 (fun out calls =>
    out.eError ≠ PVRSRV_ERROR.PVRSRV_OK →
      rollbackExactlyOne DomainFn.RGXCreateZSBufferKM DomainFn.RGXDestroyZSBufferKM calls)
  all_goals
    intros
    simp [rollbackExactlyOne, createOutcome, registerOutcome, resmanFrees, directCalls,
      resmanFrees_append, directCalls_append, createOutcome_append, registerOutcome_append,
      resmanFrees_cleanupCalls, directCalls_cleanupCalls, createOutcome_cleanupCalls,
      registerOutcome_cleanupCalls, resmanFrees_of_lookupsOK, directCalls_of_lookupsOK,
      createOutcome_of_lookupsOK, registerOutcome_of_lookupsOK, resmanFrees_cons_of_lookup,
      directCalls_cons_of_lookup, createOutcome_cons_of_lookup,
      registerOutcome_cons_of_lookup, *]
  all_goals
    intro x h1 h2
    exact absurd h2.symm h1

theorem RGXPopulateZSBuffer_rollback {σ : Type} (S : Services σ) (s : σ)
    (IN : PVRSRV_BRIDGE_IN_RGXPOPULATEZSBUFFER) (OUT0 : PVRSRV_BRIDGE_OUT_RGXPOPULATEZSBUFFER)
    (hfail : (PVRSRVBridgeRGXPopulateZSBuffer S IN OUT0 s).1.eError ≠ PVRSRV_ERROR.PVRSRV_OK) :
    rollbackExactlyOne DomainFn.RGXPopulateZSBufferKM DomainFn.RGXUnpopulateZSBufferKM
      (PVRSRVBridgeRGXPopulateZSBuffer S IN OUT0 s).2.calls := by
  revert hfail
  apply RGXPopulateZSBuffer_paths S s IN OUT0 (fun out calls =>
    out.eError ≠ PVRSRV_ERROR.PVRSRV_OK →
      rollbackExactlyOne DomainFn.RGXPopulateZSBufferKM DomainFn.RGXUnpopulateZSBufferKM calls)
  all_goals
    intros
    simp [rollbackExactlyOne, createOutcome, registerOutcome, resmanFrees, directCalls,
      resmanFrees_append, directCalls_append, createOutcome_append, registerOutcome_append,
      resmanFrees_cleanupCalls, directCalls_cleanupCalls, createOutcome_cleanupCalls,
      registerOutcome_cleanupCalls, resmanFrees_of_lookupsOK, directCalls_of_lookupsOK,
      createOutcome_of_lookupsOK, registerOutcome_of_lookupsOK, resmanFrees_cons_of_lookup,
      directCalls_cons_of_lookup, createOutcome_cons_of_lookup,
      registerOutcome_cons_of_lookup, *]
  all_goals
    intro x h1 h2
    exact absurd h2.symm h1

theorem RGXCreateFreeList_rollback {σ : Type} (S : Services σ) (s : σ)
    (IN : PVRSRV_BRIDGE_IN_RGXCREATEFREELIST) (OUT0 : PVRSRV_BRIDGE_OUT_RGXCREATEFREELIST)
    (hfail : (PVRSRVBridgeRGXCreateFreeList S IN OUT0 s).1.eError ≠ PVRSRV_ERROR.PVRSRV_OK) :
    rollbackExactlyOne DomainFn.RGXCreateFreeList DomainFn.RGXDestroyFreeList
      (PVRSRVBridgeRGXCreateFreeList S IN OUT0 s).2.calls := by
  revert hfail
  apply RGXCreateFreeList_paths S s IN OUT0 (fun out calls =>
    out.eError ≠ PVRSRV_ERROR.PVRSRV_OK →
      rollbackExactlyOne DomainFn.RGXCreateFreeList DomainFn.RGXDestroyFreeList calls)
  all_goals
    intros
    simp [rollbackExactlyOne, createOutcome, registerOutcome, resmanFrees, directCalls,
      resmanFrees_append, directCalls_append, createOutcome_append, registerOutcome_append,
      resmanFrees_cleanupCalls, directCalls_cleanupCalls, createOutcome_cleanupCalls,
      registerOutcome_cleanupCalls, resmanFrees_of_lookupsOK, directCalls_of_lookupsOK,
      createOutcome_of_lookupsOK, registerOutcome_of_lookupsOK, resmanFrees_cons_of_lookup,
      directCalls_cons_of_lookup, createOutcome_cons_of_lookup,
      registerOutcome_cons_of_lookup, *]
  all_goals
    intro x h1 h2
    exact absurd h2.symm h1

theorem RGXCreateHWRTData_rollback {σ : Type} (S : Services σ) (s : σ) (B : BridgeConsts)
    (IN : PVRSRV_BRIDGE_IN_RGXCREATEHWRTDATA) (OUT0 : PVRSRV_BRIDGE_OUT_RGXCREATEHWRTDATA)
    (hfail : (PVRSRVBridgeRGXCreateHWRTData B S IN OUT0 s).1.eError ≠ PVRSRV_ERROR.PVRSRV_OK) :
    rollbackExactlyOne DomainFn.RGXCreateHWRTData DomainFn.RGXDestroyHWRTData
      (PVRSRVBridgeRGXCreateHWRTData B S IN OUT0 s).2.calls := by
  revert hfail
  apply RGXCreateHWRTData_paths S s B IN OUT0 (fun out calls =>
    out.eError ≠ PVRSRV_ERROR.PVRSRV_OK →
      rollbackExactlyOne DomainFn.RGXCreateHWRTData DomainFn.RGXDestroyHWRTData calls)
  all_goals
    intros
    simp [rollbackExactlyOne, createOutcome, registerOutcome, resmanFrees, directCalls,
      resmanFrees_append, directCalls_append, createOutcome_append, registerOutcome_append,
      resmanFrees_cleanupCalls, directCalls_cleanupCalls, createOutcome_cleanupCalls,
      registerOutcome_cleanupCalls, resmanFrees_of_lookupsOK, directCalls_of_lookupsOK,
      createOutcome_of_lookupsOK, registerOutcome_of_lookupsOK, resmanFrees_cons_of_lookup,
      directCalls_cons_of_lookup, createOutcome_cons_of_lookup,
      registerOutcome_cons_of_lookup, *]
  all_goals
    intro x h1 h2
    exact absurd h2.symm h1

theorem RGXCreateRenderContext_rollback {σ : Type} (S : Services σ) (s : σ) (B : BridgeConsts)
    (IN : PVRSRV_BRIDGE_IN_RGXCREATERENDERCONTEXT) (OUT0 : PVRSRV_BRIDGE_OUT_RGXCREATERENDERCONTEXT)
    (hfail : (PVRSRVBridgeRGXCreateRenderContext B S IN OUT0 s).1.eError ≠ PVRSRV_ERROR.PVRSRV_OK) :
    rollbackExactlyOne DomainFn.PVRSRVRGXCreateRenderContextKM DomainFn.PVRSRVRGXDestroyRenderContextKM
      (PVRSRVBridgeRGXCreateRenderContext B S IN OUT0 s).2.calls := by
  revert hfail
  apply RGXCreateRenderContext_paths S s B IN OUT0 (fun out calls =>
    out.eError ≠ PVRSRV_ERROR.PVRSRV_OK →
      rollbackExactlyOne DomainFn.PVRSRVRGXCreateRenderContextKM DomainFn.PVRSRVRGXDestroyRenderContextKM calls)
  all_goals
    intros
    simp [rollbackExactlyOne, createOutcome, registerOutcome, resmanFrees, directCalls,
      resmanFrees_append, directCalls_append, createOutcome_append, registerOutcome_append,
      resmanFrees_cleanupCalls, directCalls_cleanupCalls, createOutcome_cleanupCalls,
      registerOutcome_cleanupCalls, resmanFrees_of_lookupsOK, directCalls_of_lookupsOK,
      createOutcome_of_lookupsOK, registerOutcome_of_lookupsOK, resmanFrees_cons_of_lookup,
      directCalls_cons_of_lookup, createOutcome_cons_of_lookup,
      registerOutcome_cons_of_lookup, *]
  all_goals
    intro x h1 h2
    exact absurd h2.symm h1

/-! ## A failed lookup on every entry point -/

theorem RGXCreateHWRTData_lookup_failure {σ : Type} (S : Services σ) (s : σ) (B : BridgeConsts)
    (IN : PVRSRV_BRIDGE_IN_RGXCREATEHWRTDATA) (OUT0 : PVRSRV_BRIDGE_OUT_RGXCREATEHWRTDATA) :
    lookupShortCircuit (PVRSRVBridgeRGXCreateHWRTData B S IN OUT0 s).1.eError
      (PVRSRVBridgeRGXCreateHWRTData B S IN OUT0 s).2.calls := by
  apply RGXCreateHWRTData_paths S s B IN OUT0 (fun out calls => lookupShortCircuit out.eError calls)
  all_goals
    intros
    intro E rest h
    simp [afterFailedLookup_cons, afterFailedLookup_nil, afterFailedLookup_cleanupCalls,
      afterFailedLookup_append_ok, lookupsOK_lookupIfSetCalls,
      lookupResult_OSAllocMem, lookupResult_OSFreeMem, lookupResult_OSAccessOK,
      lookupResult_OSCopyFromUser, lookupResult_PVRSRVLookupHandle,
      lookupResult_PVRSRVAllocHandle, lookupResult_PVRSRVAllocSubHandle,
      lookupResult_PVRSRVReleaseHandle, lookupResult_ResManRegisterRes,
      lookupResult_ResManFindPrivateDataByPtr, lookupResult_ResManFreeResByPtr,
      lookupResult_domain, *] at h
  all_goals
    obtain ⟨rfl, rfl⟩ := h
    simp [noEffect_cons, noEffect_append, noEffect_nil, onlyOSFreeMem_nil,
      noEffect_cleanupCalls, onlyOSFreeMem_cleanupCalls, noEffect_of_lookupsOK,
      isEffect_of_lookupResult, lookupsOK_lookupIfSetCalls,
      isEffect_OSAllocMem, isEffect_OSFreeMem, isEffect_OSAccessOK, isEffect_OSCopyFromUser,
      isEffect_PVRSRVLookupHandle, isEffect_PVRSRVAllocHandle, isEffect_PVRSRVAllocSubHandle,
      isEffect_PVRSRVReleaseHandle, isEffect_ResManRegisterRes,
      isEffect_ResManFindPrivateDataByPtr, isEffect_ResManFreeResByPtr, isEffect_domain, *]

theorem RGXCreateRenderTarget_lookup_failure {σ : Type} (S : Services σ) (s : σ)
    (IN : PVRSRV_BRIDGE_IN_RGXCREATERENDERTARGET) (OUT0 : PVRSRV_BRIDGE_OUT_RGXCREATERENDERTARGET) :
    lookupShortCircuit (PVRSRVBridgeRGXCreateRenderTarget S IN OUT0 s).1.eError
      (PVRSRVBridgeRGXCreateRenderTarget S IN OUT0 s).2.calls := by
  apply RGXCreateRenderTarget_paths S s IN OUT0 (fun out calls => lookupShortCircuit out.eError calls)
  all_goals
    intros
    intro E rest h
    simp [afterFailedLookup_cons, afterFailedLookup_nil, afterFailedLookup_cleanupCalls,
      afterFailedLookup_append_ok, lookupsOK_lookupIfSetCalls,
      lookupResult_OSAllocMem, lookupResult_OSFreeMem, lookupResult_OSAccessOK,
      lookupResult_OSCopyFromUser, lookupResult_PVRSRVLookupHandle,
      lookupResult_PVRSRVAllocHandle, lookupResult_PVRSRVAllocSubHandle,
      lookupResult_PVRSRVReleaseHandle, lookupResult_ResManRegisterRes,
      lookupResult_ResManFindPrivateDataByPtr, lookupResult_ResManFreeResByPtr,
      lookupResult_domain, *] at h
  all_goals
    obtain ⟨rfl, rfl⟩ := h
    simp [noEffect_cons, noEffect_append, noEffect_nil, onlyOSFreeMem_nil,
      noEffect_cleanupCalls, onlyOSFreeMem_cleanupCalls, noEffect_of_lookupsOK,
      isEffect_of_lookupResult, lookupsOK_lookupIfSetCalls,
      isEffect_OSAllocMem, isEffect_OSFreeMem, isEffect_OSAccessOK, isEffect_OSCopyFromUser,
      isEffect_PVRSRVLookupHandle, isEffect_PVRSRVAllocHandle, isEffect_PVRSRVAllocSubHandle,
      isEffect_PVRSRVReleaseHandle, isEffect_ResManRegisterRes,
      isEffect_ResManFindPrivateDataByPtr, isEffect_ResManFreeResByPtr, isEffect_domain, *]

theorem RGXCreateZSBuffer_lookup_failure {σ : Type} (S : Services σ) (s : σ)
    (IN : PVRSRV_BRIDGE_IN_RGXCREATEZSBUFFER) (OUT0 : PVRSRV_BRIDGE_OUT_RGXCREATEZSBUFFER) :
    lookupShortCircuit (PVRSRVBridgeRGXCreateZSBuffer S IN OUT0 s).1.eError
      (PVRSRVBridgeRGXCreateZSBuffer S IN OUT0 s).2.calls := by
  apply RGXCreateZSBuffer_paths S s IN OUT0 (fun out calls => lookupShortCircuit out.eError calls)
  all_goals
    intros
    intro E rest h
    simp [afterFailedLookup_cons, afterFailedLookup_nil, afterFailedLookup_cleanupCalls,
      afterFailedLookup_append_ok, lookupsOK_lookupIfSetCalls,
      lookupResult_OSAllocMem, lookupResult_OSFreeMem, lookupResult_OSAccessOK,
      lookupResult_OSCopyFromUser, lookupResult_PVRSRVLookupHandle,
      lookupResult_PVRSRVAllocHandle, lookupResult_PVRSRVAllocSubHandle,
      lookupResult_PVRSRVReleaseHandle, lookupResult_ResManRegisterRes,
      lookupResult_ResManFindPrivateDataByPtr, lookupResult_ResManFreeResByPtr,
      lookupResult_domain, *] at h
  all_goals
    obtain ⟨rfl, rfl⟩ := h
    simp [noEffect_cons, noEffect_append, noEffect_nil, onlyOSFreeMem_nil,
      noEffect_cleanupCalls, onlyOSFreeMem_cleanupCalls, noEffect_of_lookupsOK,
      isEffect_of_lookupResult, lookupsOK_lookupIfSetCalls,
      isEffect_OSAllocMem, isEffect_OSFreeMem, isEffect_OSAccessOK, isEffect_OSCopyFromUser,
      isEffect_PVRSRVLookupHandle, isEffect_PVRSRVAllocHandle, isEffect_PVRSRVAllocSubHandle,
      isEffect_PVRSRVReleaseHandle, isEffect_ResManRegisterRes,
      isEffect_ResManFindPrivateDataByPtr, isEffect_ResManFreeResByPtr, isEffect_domain, *]

theorem RGXPopulateZSBuffer_lookup_failure {σ : Type} (S : Services σ) (s : σ)
    (IN : PVRSRV_BRIDGE_IN_RGXPOPULATEZSBUFFER) (OUT0 : PVRSRV_BRIDGE_OUT_RGXPOPULATEZSBUFFER) :
    lookupShortCircuit (PVRSRVBridgeRGXPopulateZSBuffer S IN OUT0 s).1.eError
      (PVRSRVBridgeRGXPopulateZSBuffer S IN OUT0 s).2.calls := by
  apply RGXPopulateZSBuffer_paths S s IN OUT0 (fun out calls => lookupShortCircuit out.eError calls)
  all_goals
    intros
    intro E rest h
    simp [afterFailedLookup_cons, afterFailedLookup_nil, afterFailedLookup_cleanupCalls,
      afterFailedLookup_append_ok, lookupsOK_lookupIfSetCalls,
      lookupResult_OSAllocMem, lookupResult_OSFreeMem, lookupResult_OSAccessOK,
      lookupResult_OSCopyFromUser, lookupResult_PVRSRVLookupHandle,
      lookupResult_PVRSRVAllocHandle, lookupResult_PVRSRVAllocSubHandle,
      lookupResult_PVRSRVReleaseHandle, lookupResult_ResManRegisterRes,
      lookupResult_ResManFindPrivateDataByPtr, lookupResult_ResManFreeResByPtr,
      lookupResult_domain, *] at h
  all_goals
    obtain ⟨rfl, rfl⟩ := h
    simp [noEffect_cons, noEffect_append, noEffect_nil, onlyOSFreeMem_nil,
      noEffect_cleanupCalls, onlyOSFreeMem_cleanupCalls, noEffect_of_lookupsOK,
      isEffect_of_lookupResult, lookupsOK_lookupIfSetCalls,
      isEffect_OSAllocMem, isEffect_OSFreeMem, isEffect_OSAccessOK, isEffect_OSCopyFromUser,
      isEffect_PVRSRVLookupHandle, isEffect_PVRSRVAllocHandle, isEffect_PVRSRVAllocSubHandle,
      isEffect_PVRSRVReleaseHandle, isEffect_ResManRegisterRes,
      isEffect_ResManFindPrivateDataByPtr, isEffect_ResManFreeResByPtr, isEffect_domain, *]

theorem RGXCreateFreeList_lookup_failure {σ : Type} (S : Services σ) (s : σ)
    (IN : PVRSRV_BRIDGE_IN_RGXCREATEFREELIST) (OUT0 : PVRSRV_BRIDGE_OUT_RGXCREATEFREELIST) :
    lookupShortCircuit (PVRSRVBridgeRGXCreateFreeList S IN OUT0 s).1.eError
      (PVRSRVBridgeRGXCreateFreeList S IN OUT0 s).2.calls := by
  apply RGXCreateFreeList_paths S s IN OUT0 (fun out calls => lookupShortCircuit out.eError calls)
  all_goals
    intros
    intro E rest h
    simp [afterFailedLookup_cons, afterFailedLookup_nil, afterFailedLookup_cleanupCalls,
      afterFailedLookup_append_ok, lookupsOK_lookupIfSetCalls,
      lookupResult_OSAllocMem, lookupResult_OSFreeMem, lookupResult_OSAccessOK,
      lookupResult_OSCopyFromUser, lookupResult_PVRSRVLookupHandle,
      lookupResult_PVRSRVAllocHandle, lookupResult_PVRSRVAllocSubHandle,
      lookupResult_PVRSRVReleaseHandle, lookupResult_ResManRegisterRes,
      lookupResult_ResManFindPrivateDataByPtr, lookupResult_ResManFreeResByPtr,
      lookupResult_domain, *] at h
  all_goals
    obtain ⟨rfl, rfl⟩ := h
    simp [noEffect_cons, noEffect_append, noEffect_nil, onlyOSFreeMem_nil,
      noEffect_cleanupCalls, onlyOSFreeMem_cleanupCalls, noEffect_of_lookupsOK,
      isEffect_of_lookupResult, lookupsOK_lookupIfSetCalls,
      isEffect_OSAllocMem, isEffect_OSFreeMem, isEffect_OSAccessOK, isEffect_OSCopyFromUser,
      isEffect_PVRSRVLookupHandle, isEffect_PVRSRVAllocHandle, isEffect_PVRSRVAllocSubHandle,
      isEffect_PVRSRVReleaseHandle, isEffect_ResManRegisterRes,
      isEffect_ResManFindPrivateDataByPtr, isEffect_ResManFreeResByPtr, isEffect_domain, *]

theorem RGXCreateRenderContext_lookup_failure {σ : Type} (S : Services σ) (s : σ) (B : BridgeConsts)
    (IN : PVRSRV_BRIDGE_IN_RGXCREATERENDERCONTEXT) (OUT0 : PVRSRV_BRIDGE_OUT_RGXCREATERENDERCONTEXT) :
    lookupShortCircuit (PVRSRVBridgeRGXCreateRenderContext B S IN OUT0 s).1.eError
      (PVRSRVBridgeRGXCreateRenderContext B S IN OUT0 s).2.calls := by
  apply RGXCreateRenderContext_paths S s B IN OUT0 (fun out calls => lookupShortCircuit out.eError calls)
  all_goals
    intros
    intro E rest h
    simp [afterFailedLookup_cons, afterFailedLookup_nil, afterFailedLookup_cleanupCalls,
      afterFailedLookup_append_ok, lookupsOK_lookupIfSetCalls,
      lookupResult_OSAllocMem, lookupResult_OSFreeMem, lookupResult_OSAccessOK,
      lookupResult_OSCopyFromUser, lookupResult_PVRSRVLookupHandle,
      lookupResult_PVRSRVAllocHandle, lookupResult_PVRSRVAllocSubHandle,
      lookupResult_PVRSRVReleaseHandle, lookupResult_ResManRegisterRes,
      lookupResult_ResManFindPrivateDataByPtr, lookupResult_ResManFreeResByPtr,
      lookupResult_domain, *] at h
  all_goals
    obtain ⟨rfl, rfl⟩ := h
    simp [noEffect_cons, noEffect_append, noEffect_nil, onlyOSFreeMem_nil,
      noEffect_cleanupCalls, onlyOSFreeMem_cleanupCalls, noEffect_of_lookupsOK,
      isEffect_of_lookupResult, lookupsOK_lookupIfSetCalls,
      isEffect_OSAllocMem, isEffect_OSFreeMem, isEffect_OSAccessOK, isEffect_OSCopyFromUser,
      isEffect_PVRSRVLookupHandle, isEffect_PVRSRVAllocHandle, isEffect_PVRSRVAllocSubHandle,
      isEffect_PVRSRVReleaseHandle, isEffect_ResManRegisterRes,
      isEffect_ResManFindPrivateDataByPtr, isEffect_ResManFreeResByPtr, isEffect_domain, *]

theorem RGXDestroyHWRTData_lookup_failure {σ : Type} (S : Services σ) (s : σ)
    (IN : PVRSRV_BRIDGE_IN_RGXDESTROYHWRTDATA) (OUT0 : PVRSRV_BRIDGE_OUT_RGXDESTROYHWRTDATA) :
    lookupShortCircuit (PVRSRVBridgeRGXDestroyHWRTData S IN OUT0 s).1.eError
      (PVRSRVBridgeRGXDestroyHWRTData S IN OUT0 s).2.calls := by
  apply RGXDestroyHWRTData_paths S s IN OUT0 (fun out calls => lookupShortCircuit out.eError calls)
  all_goals
    intros
    intro E rest h
    simp [afterFailedLookup_cons, afterFailedLookup_nil, afterFailedLookup_cleanupCalls,
      afterFailedLookup_append_ok, lookupsOK_lookupIfSetCalls,
      lookupResult_OSAllocMem, lookupResult_OSFreeMem, lookupResult_OSAccessOK,
      lookupResult_OSCopyFromUser, lookupResult_PVRSRVLookupHandle,
      lookupResult_PVRSRVAllocHandle, lookupResult_PVRSRVAllocSubHandle,
      lookupResult_PVRSRVReleaseHandle, lookupResult_ResManRegisterRes,
      lookupResult_ResManFindPrivateDataByPtr, lookupResult_ResManFreeResByPtr,
      lookupResult_domain, *] at h
  all_goals
    obtain ⟨rfl, rfl⟩ := h
    simp [noEffect_cons, noEffect_append, noEffect_nil, onlyOSFreeMem_nil,
      noEffect_cleanupCalls, onlyOSFreeMem_cleanupCalls, noEffect_of_lookupsOK,
      isEffect_of_lookupResult, lookupsOK_lookupIfSetCalls,
      isEffect_OSAllocMem, isEffect_OSFreeMem, isEffect_OSAccessOK, isEffect_OSCopyFromUser,
      isEffect_PVRSRVLookupHandle, isEffect_PVRSRVAllocHandle, isEffect_PVRSRVAllocSubHandle,
      isEffect_PVRSRVReleaseHandle, isEffect_ResManRegisterRes,
      isEffect_ResManFindPrivateDataByPtr, isEffect_ResManFreeResByPtr, isEffect_domain, *]

theorem RGXDestroyRenderTarget_lookup_failure {σ : Type} (S : Services σ) (s : σ)
    (IN : PVRSRV_BRIDGE_IN_RGXDESTROYRENDERTARGET) (OUT0 : PVRSRV_BRIDGE_OUT_RGXDESTROYRENDERTARGET) :
    lookupShortCircuit (PVRSRVBridgeRGXDestroyRenderTarget S IN OUT0 s).1.eError
      (PVRSRVBridgeRGXDestroyRenderTarget S IN OUT0 s).2.calls := by
  apply RGXDestroyRenderTarget_paths S s IN OUT0 (fun out calls => lookupShortCircuit out.eError calls)
  all_goals
    intros
    intro E rest h
    simp [afterFailedLookup_cons, afterFailedLookup_nil, afterFailedLookup_cleanupCalls,
      afterFailedLookup_append_ok, lookupsOK_lookupIfSetCalls,
      lookupResult_OSAllocMem, lookupResult_OSFreeMem, lookupResult_OSAccessOK,
      lookupResult_OSCopyFromUser, lookupResult_PVRSRVLookupHandle,
      lookupResult_PVRSRVAllocHandle, lookupResult_PVRSRVAllocSubHandle,
      lookupResult_PVRSRVReleaseHandle, lookupResult_ResManRegisterRes,
      lookupResult_ResManFindPrivateDataByPtr, lookupResult_ResManFreeResByPtr,
      lookupResult_domain, *] at h
  all_goals
    obtain ⟨rfl, rfl⟩ := h
    simp [noEffect_cons, noEffect_append, noEffect_nil, onlyOSFreeMem_nil,
      noEffect_cleanupCalls, onlyOSFreeMem_cleanupCalls, noEffect_of_lookupsOK,
      isEffect_of_lookupResult, lookupsOK_lookupIfSetCalls,
      isEffect_OSAllocMem, isEffect_OSFreeMem, isEffect_OSAccessOK, isEffect_OSCopyFromUser,
      isEffect_PVRSRVLookupHandle, isEffect_PVRSRVAllocHandle, isEffect_PVRSRVAllocSubHandle,
      isEffect_PVRSRVReleaseHandle, isEffect_ResManRegisterRes,
      isEffect_ResManFindPrivateDataByPtr, isEffect_ResManFreeResByPtr, isEffect_domain, *]

theorem RGXDestroyZSBuffer_lookup_failure {σ : Type} (S : Services σ) (s : σ)
    (IN : PVRSRV_BRIDGE_IN_RGXDESTROYZSBUFFER) (OUT0 : PVRSRV_BRIDGE_OUT_RGXDESTROYZSBUFFER) :
    lookupShortCircuit (PVRSRVBridgeRGXDestroyZSBuffer S IN OUT0 s).1.eError
      (PVRSRVBridgeRGXDestroyZSBuffer S IN OUT0 s).2.calls := by
  apply RGXDestroyZSBuffer_paths S s IN OUT0 (fun out calls => lookupShortCircuit out.eError calls)
  all_goals
    intros
    intro E rest h
    simp [afterFailedLookup_cons, afterFailedLookup_nil, afterFailedLookup_cleanupCalls,
      afterFailedLookup_append_ok, lookupsOK_lookupIfSetCalls,
      lookupResult_OSAllocMem, lookupResult_OSFreeMem, lookupResult_OSAccessOK,
      lookupResult_OSCopyFromUser, lookupResult_PVRSRVLookupHandle,
      lookupResult_PVRSRVAllocHandle, lookupResult_PVRSRVAllocSubHandle,
      lookupResult_PVRSRVReleaseHandle, lookupResult_ResManRegisterRes,
      lookupResult_ResManFindPrivateDataByPtr, lookupResult_ResManFreeResByPtr,
      lookupResult_domain, *] at h
  all_goals
    obtain ⟨rfl, rfl⟩ := h
    simp [noEffect_cons, noEffect_append, noEffect_nil, onlyOSFreeMem_nil,
      noEffect_cleanupCalls, onlyOSFreeMem_cleanupCalls, noEffect_of_lookupsOK,
      isEffect_of_lookupResult, lookupsOK_lookupIfSetCalls,
      isEffect_OSAllocMem, isEffect_OSFreeMem, isEffect_OSAccessOK, isEffect_OSCopyFromUser,
      isEffect_PVRSRVLookupHandle, isEffect_PVRSRVAllocHandle, isEffect_PVRSRVAllocSubHandle,
      isEffect_PVRSRVReleaseHandle, isEffect_ResManRegisterRes,
      isEffect_ResManFindPrivateDataByPtr, isEffect_ResManFreeResByPtr, isEffect_domain, *]

theorem RGXUnpopulateZSBuffer_lookup_failure {σ : Type} (S : Services σ) (s : σ)
    (IN : PVRSRV_BRIDGE_IN_RGXUNPOPULATEZSBUFFER) (OUT0 : PVRSRV_BRIDGE_OUT_RGXUNPOPULATEZSBUFFER) :
    lookupShortCircuit (PVRSRVBridgeRGXUnpopulateZSBuffer S IN OUT0 s).1.eError
      (PVRSRVBridgeRGXUnpopulateZSBuffer S IN OUT0 s).2.calls := by
  apply RGXUnpopulateZSBuffer_paths S s IN OUT0 (fun out calls => lookupShortCircuit out.eError calls)
  all_goals
    intros
    intro E rest h
    simp [afterFailedLookup_cons, afterFailedLookup_nil, afterFailedLookup_cleanupCalls,
      afterFailedLookup_append_ok, lookupsOK_lookupIfSetCalls,
      lookupResult_OSAllocMem, lookupResult_OSFreeMem, lookupResult_OSAccessOK,
      lookupResult_OSCopyFromUser, lookupResult_PVRSRVLookupHandle,
      lookupResult_PVRSRVAllocHandle, lookupResult_PVRSRVAllocSubHandle,
      lookupResult_PVRSRVReleaseHandle, lookupResult_ResManRegisterRes,
      lookupResult_ResManFindPrivateDataByPtr, lookupResult_ResManFreeResByPtr,
      lookupResult_domain, *] at h
  all_goals
    obtain ⟨rfl, rfl⟩ := h
    simp [noEffect_cons, noEffect_append, noEffect_nil, onlyOSFreeMem_nil,
      noEffect_cleanupCalls, onlyOSFreeMem_cleanupCalls, noEffect_of_lookupsOK,
      isEffect_of_lookupResult, lookupsOK_lookupIfSetCalls,
      isEffect_OSAllocMem, isEffect_OSFreeMem, isEffect_OSAccessOK, isEffect_OSCopyFromUser,
      isEffect_PVRSRVLookupHandle, isEffect_PVRSRVAllocHandle, isEffect_PVRSRVAllocSubHandle,
      isEffect_PVRSRVReleaseHandle, isEffect_ResManRegisterRes,
      isEffect_ResManFindPrivateDataByPtr, isEffect_ResManFreeResByPtr, isEffect_domain, *]

theorem RGXDestroyFreeList_lookup_failure {σ : Type} (S : Services σ) (s : σ)
    (IN : PVRSRV_BRIDGE_IN_RGXDESTROYFREELIST) (OUT0 : PVRSRV_BRIDGE_OUT_RGXDESTROYFREELIST) :
    lookupShortCircuit (PVRSRVBridgeRGXDestroyFreeList S IN OUT0 s).1.eError
      (PVRSRVBridgeRGXDestroyFreeList S IN OUT0 s).2.calls := by
  apply RGXDestroyFreeList_paths S s IN OUT0 (fun out calls => lookupShortCircuit out.eError calls)
  all_goals
    intros
    intro E rest h
    simp [afterFailedLookup_cons, afterFailedLookup_nil, afterFailedLookup_cleanupCalls,
      afterFailedLookup_append_ok, lookupsOK_lookupIfSetCalls,
      lookupResult_OSAllocMem, lookupResult_OSFreeMem, lookupResult_OSAccessOK,
      lookupResult_OSCopyFromUser, lookupResult_PVRSRVLookupHandle,
      lookupResult_PVRSRVAllocHandle, lookupResult_PVRSRVAllocSubHandle,
      lookupResult_PVRSRVReleaseHandle, lookupResult_ResManRegisterRes,
      lookupResult_ResManFindPrivateDataByPtr, lookupResult_ResManFreeResByPtr,
      lookupResult_domain, *] at h
  all_goals
    obtain ⟨rfl, rfl⟩ := h
    simp [noEffect_cons, noEffect_append, noEffect_nil, onlyOSFreeMem_nil,
      noEffect_cleanupCalls, onlyOSFreeMem_cleanupCalls, noEffect_of_lookupsOK,
      isEffect_of_lookupResult, lookupsOK_lookupIfSetCalls,
      isEffect_OSAllocMem, isEffect_OSFreeMem, isEffect_OSAccessOK, isEffect_OSCopyFromUser,
      isEffect_PVRSRVLookupHandle, isEffect_PVRSRVAllocHandle, isEffect_PVRSRVAllocSubHandle,
      isEffect_PVRSRVReleaseHandle, isEffect_ResManRegisterRes,
      isEffect_ResManFindPrivateDataByPtr, isEffect_ResManFreeResByPtr, isEffect_domain, *]

theorem RGXDestroyRenderContext_lookup_failure {σ : Type} (S : Services σ) (s : σ)
    (IN : PVRSRV_BRIDGE_IN_RGXDESTROYRENDERCONTEXT) (OUT0 : PVRSRV_BRIDGE_OUT_RGXDESTROYRENDERCONTEXT) :
    lookupShortCircuit (PVRSRVBridgeRGXDestroyRenderContext S IN OUT0 s).1.eError
      (PVRSRVBridgeRGXDestroyRenderContext S IN OUT0 s).2.calls := by
  apply RGXDestroyRenderContext_paths S s IN OUT0 (fun out calls => lookupShortCircuit out.eError calls)
  all_goals
    intros
    intro E rest h
    simp [afterFailedLookup_cons, afterFailedLookup_nil, afterFailedLookup_cleanupCalls,
      afterFailedLookup_append_ok, lookupsOK_lookupIfSetCalls,
      lookupResult_OSAllocMem, lookupResult_OSFreeMem, lookupResult_OSAccessOK,
      lookupResult_OSCopyFromUser, lookupResult_PVRSRVLookupHandle,
      lookupResult_PVRSRVAllocHandle, lookupResult_PVRSRVAllocSubHandle,
      lookupResult_PVRSRVReleaseHandle, lookupResult_ResManRegisterRes,
      lookupResult_ResManFindPrivateDataByPtr, lookupResult_ResManFreeResByPtr,
      lookupResult_domain, *] at h
  all_goals
    obtain ⟨rfl, rfl⟩ := h
    simp [noEffect_cons, noEffect_append, noEffect_nil, onlyOSFreeMem_nil,
      noEffect_cleanupCalls, onlyOSFreeMem_cleanupCalls, noEffect_of_lookupsOK,
      isEffect_of_lookupResult, lookupsOK_lookupIfSetCalls,
      isEffect_OSAllocMem, isEffect_OSFreeMem, isEffect_OSAccessOK, isEffect_OSCopyFromUser,
      isEffect_PVRSRVLookupHandle, isEffect_PVRSRVAllocHandle, isEffect_PVRSRVAllocSubHandle,
      isEffect_PVRSRVReleaseHandle, isEffect_ResManRegisterRes,
      isEffect_ResManFindPrivateDataByPtr, isEffect_ResManFreeResByPtr, isEffect_domain, *]

theorem RGXAddBlockToFreeList_lookup_failure {σ : Type} (S : Services σ) (s : σ)
    (IN : PVRSRV_BRIDGE_IN_RGXADDBLOCKTOFREELIST) (OUT0 : PVRSRV_BRIDGE_OUT_RGXADDBLOCKTOFREELIST) :
    lookupShortCircuit (PVRSRVBridgeRGXAddBlockToFreeList S IN OUT0 s).1.eError
      (PVRSRVBridgeRGXAddBlockToFreeList S IN OUT0 s).2.calls := by
  apply RGXAddBlockToFreeList_paths S s IN OUT0 (fun out calls => lookupShortCircuit out.eError calls)
  all_goals
    intros
    intro E rest h
    simp [afterFailedLookup_cons, afterFailedLookup_nil, afterFailedLookup_cleanupCalls,
      afterFailedLookup_append_ok, lookupsOK_lookupIfSetCalls,
      lookupResult_OSAllocMem, lookupResult_OSFreeMem, lookupResult_OSAccessOK,
      lookupResult_OSCopyFromUser, lookupResult_PVRSRVLookupHandle,
      lookupResult_PVRSRVAllocHandle, lookupResult_PVRSRVAllocSubHandle,
      lookupResult_PVRSRVReleaseHandle, lookupResult_ResManRegisterRes,
      lookupResult_ResManFindPrivateDataByPtr, lookupResult_ResManFreeResByPtr,
      lookupResult_domain, *] at h
  all_goals
    obtain ⟨rfl, rfl⟩ := h
    simp [noEffect_cons, noEffect_append, noEffect_nil, onlyOSFreeMem_nil,
      noEffect_cleanupCalls, onlyOSFreeMem_cleanupCalls, noEffect_of_lookupsOK,
      isEffect_of_lookupResult, lookupsOK_lookupIfSetCalls,
      isEffect_OSAllocMem, isEffect_OSFreeMem, isEffect_OSAccessOK, isEffect_OSCopyFromUser,
      isEffect_PVRSRVLookupHandle, isEffect_PVRSRVAllocHandle, isEffect_PVRSRVAllocSubHandle,
      isEffect_PVRSRVReleaseHandle, isEffect_ResManRegisterRes,
      isEffect_ResManFindPrivateDataByPtr, isEffect_ResManFreeResByPtr, isEffect_domain, *]

theorem RGXRemoveBlockFromFreeList_lookup_failure {σ : Type} (S : Services σ) (s : σ)
    (IN : PVRSRV_BRIDGE_IN_RGXREMOVEBLOCKFROMFREELIST) (OUT0 : PVRSRV_BRIDGE_OUT_RGXREMOVEBLOCKFROMFREELIST) :
    lookupShortCircuit (PVRSRVBridgeRGXRemoveBlockFromFreeList S IN OUT0 s).1.eError
      (PVRSRVBridgeRGXRemoveBlockFromFreeList S IN OUT0 s).2.calls := by
  apply RGXRemoveBlockFromFreeList_paths S s IN OUT0 (fun out calls => lookupShortCircuit out.eError calls)
  all_goals
    intros
    intro E rest h
    simp [afterFailedLookup_cons, afterFailedLookup_nil, afterFailedLookup_cleanupCalls,
      afterFailedLookup_append_ok, lookupsOK_lookupIfSetCalls,
      lookupResult_OSAllocMem, lookupResult_OSFreeMem, lookupResult_OSAccessOK,
      lookupResult_OSCopyFromUser, lookupResult_PVRSRVLookupHandle,
      lookupResult_PVRSRVAllocHandle, lookupResult_PVRSRVAllocSubHandle,
      lookupResult_PVRSRVReleaseHandle, lookupResult_ResManRegisterRes,
      lookupResult_ResManFindPrivateDataByPtr, lookupResult_ResManFreeResByPtr,
      lookupResult_domain, *] at h
  all_goals
    obtain ⟨rfl, rfl⟩ := h
    simp [noEffect_cons, noEffect_append, noEffect_nil, onlyOSFreeMem_nil,
      noEffect_cleanupCalls, onlyOSFreeMem_cleanupCalls, noEffect_of_lookupsOK,
      isEffect_of_lookupResult, lookupsOK_lookupIfSetCalls,
      isEffect_OSAllocMem, isEffect_OSFreeMem, isEffect_OSAccessOK, isEffect_OSCopyFromUser,
      isEffect_PVRSRVLookupHandle, isEffect_PVRSRVAllocHandle, isEffect_PVRSRVAllocSubHandle,
      isEffect_PVRSRVReleaseHandle, isEffect_ResManRegisterRes,
      isEffect_ResManFindPrivateDataByPtr, isEffect_ResManFreeResByPtr, isEffect_domain, *]

theorem RGXKickTA3D_lookup_failure {σ : Type} (S : Services σ) (s : σ)
    (IN : PVRSRV_BRIDGE_IN_RGXKICKTA3D) (OUT0 : PVRSRV_BRIDGE_OUT_RGXKICKTA3D) :
    lookupShortCircuit (PVRSRVBridgeRGXKickTA3D S IN OUT0 s).1.eError
      (PVRSRVBridgeRGXKickTA3D S IN OUT0 s).2.calls := by
  apply RGXKickTA3D_paths S s IN OUT0 (fun out calls => lookupShortCircuit out.eError calls)
  all_goals
    intros
    intro E rest h
    simp [afterFailedLookup_cons, afterFailedLookup_nil, afterFailedLookup_cleanupCalls,
      afterFailedLookup_append_ok, lookupsOK_lookupIfSetCalls,
      lookupResult_OSAllocMem, lookupResult_OSFreeMem, lookupResult_OSAccessOK,
      lookupResult_OSCopyFromUser, lookupResult_PVRSRVLookupHandle,
      lookupResult_PVRSRVAllocHandle, lookupResult_PVRSRVAllocSubHandle,
      lookupResult_PVRSRVReleaseHandle, lookupResult_ResManRegisterRes,
      lookupResult_ResManFindPrivateDataByPtr, lookupResult_ResManFreeResByPtr,
      lookupResult_domain, *] at h
  all_goals
    obtain ⟨rfl, rfl⟩ := h
    simp [noEffect_cons, noEffect_append, noEffect_nil, onlyOSFreeMem_nil,
      noEffect_cleanupCalls, onlyOSFreeMem_cleanupCalls, noEffect_of_lookupsOK,
      isEffect_of_lookupResult, lookupsOK_lookupIfSetCalls,
      isEffect_OSAllocMem, isEffect_OSFreeMem, isEffect_OSAccessOK, isEffect_OSCopyFromUser,
      isEffect_PVRSRVLookupHandle, isEffect_PVRSRVAllocHandle, isEffect_PVRSRVAllocSubHandle,
      isEffect_PVRSRVReleaseHandle, isEffect_ResManRegisterRes,
      isEffect_ResManFindPrivateDataByPtr, isEffect_ResManFreeResByPtr, isEffect_domain, *]

theorem BridgeRequest.lookup_failure {σ : Type} (S : Services σ) (s : σ)
    (req : BridgeRequest) : lookupShortCircuit (req.run S s).1 (req.run S s).2 := by
  cases req with
  | create req =>
    cases req with
    | HWRTData B IN OUT0 => exact RGXCreateHWRTData_lookup_failure S s B IN OUT0
    | RenderTarget IN OUT0 => exact RGXCreateRenderTarget_lookup_failure S s IN OUT0
    | ZSBuffer IN OUT0 => exact RGXCreateZSBuffer_lookup_failure S s IN OUT0
    | PopulateZSBuffer IN OUT0 => exact RGXPopulateZSBuffer_lookup_failure S s IN OUT0
    | FreeList IN OUT0 => exact RGXCreateFreeList_lookup_failure S s IN OUT0
    | RenderContext B IN OUT0 => exact RGXCreateRenderContext_lookup_failure S s B IN OUT0
  | destroy req =>
    cases req with
    | HWRTData IN OUT0 => exact RGXDestroyHWRTData_lookup_failure S s IN OUT0
    | RenderTarget IN OUT0 => exact RGXDestroyRenderTarget_lookup_failure S s IN OUT0
    | ZSBuffer IN OUT0 => exact RGXDestroyZSBuffer_lookup_failure S s IN OUT0
    | UnpopulateZSBuffer IN OUT0 => exact RGXUnpopulateZSBuffer_lookup_failure S s IN OUT0
    | FreeList IN OUT0 => exact RGXDestroyFreeList_lookup_failure S s IN OUT0
    | RenderContext IN OUT0 => exact RGXDestroyRenderContext_lookup_failure S s IN OUT0
  | AddBlockToFreeList IN OUT0 => exact RGXAddBlockToFreeList_lookup_failure S s IN OUT0
  | RemoveBlockFromFreeList IN OUT0 => exact RGXRemoveBlockFromFreeList_lookup_failure S s IN OUT0
  | KickTA3D IN OUT0 => exact RGXKickTA3D_lookup_failure S s IN OUT0

/-! ## The destroy-style entry points -/

theorem DestroyRequest.run_eq {σ : Type} (S : Services σ) (s : σ) (req : DestroyRequest) :
    req.run S s = destroyWith S req.handle req.handleType s := by
  cases req <;>
  · simp only [DestroyRequest.run, DestroyRequest.handle, DestroyRequest.handleType,
      destroyWith, PVRSRVBridgeRGXDestroyHWRTData, PVRSRVBridgeRGXDestroyRenderTarget,
      PVRSRVBridgeRGXDestroyZSBuffer, PVRSRVBridgeRGXUnpopulateZSBuffer,
      PVRSRVBridgeRGXDestroyFreeList, PVRSRVBridgeRGXDestroyRenderContext,
      RGXDestroyHWRTDataResManProxy, RGXDestroyRenderTargetResManProxy,
      RGXDestroyZSBufferResManProxy, RGXUnpopulateZSBufferResManProxy,
      RGXDestroyFreeListResManProxy, RGXDestroyRenderContextResManProxy]
    split_ifs <;> rfl

theorem destroyWith_calls {σ : Type} (S : Services σ) (s : σ) (h : Nat)
    (t : PVRSRV_HANDLE_TYPE) :
    ∃ e d,
      (e ≠ PVRSRV_ERROR.PVRSRV_OK ∧ (destroyWith S h t s).1 = e
        ∧ (destroyWith S h t s).2.calls = [BridgeCall.PVRSRVLookupHandle h t e d])
      ∨ (e = PVRSRV_ERROR.PVRSRV_OK ∧ ∃ f,
          (f ≠ PVRSRV_ERROR.PVRSRV_OK ∧ (destroyWith S h t s).1 = f
            ∧ (destroyWith S h t s).2.calls
                = [BridgeCall.PVRSRVLookupHandle h t PVRSRV_ERROR.PVRSRV_OK d,
                   BridgeCall.ResManFreeResByPtr d f])
          ∨ (f = PVRSRV_ERROR.PVRSRV_OK ∧ ∃ r, (destroyWith S h t s).1 = r
            ∧ (destroyWith S h t s).2.calls
                = [BridgeCall.PVRSRVLookupHandle h t PVRSRV_ERROR.PVRSRV_OK d,
                   BridgeCall.ResManFreeResByPtr d PVRSRV_ERROR.PVRSRV_OK,
                   BridgeCall.PVRSRVReleaseHandle h t r])) := by
  unfold destroyWith
  dsimp only
  obtain ⟨e1, d1, c1, hl1, hc1⟩ := lookup_step S h t { s := s, calls := [] }
  rw [hl1]
  dsimp only
  refine ⟨e1, d1, ?_⟩
  by_cases hk1 : e1 = PVRSRV_ERROR.PVRSRV_OK
  swap
  · rw [if_pos hk1]
    exact Or.inl ⟨hk1, rfl, by rw [hc1]; rfl⟩
  rw [if_neg (not_not_intro hk1)]
  subst hk1
  obtain ⟨e2, c2, hl2, hc2⟩ := free_step S d1 c1
  rw [hl2]
  dsimp only
  refine Or.inr ⟨rfl, e2, ?_⟩
  by_cases hk2 : e2 = PVRSRV_ERROR.PVRSRV_OK
  swap
  · rw [if_pos hk2]
    exact Or.inl ⟨hk2, rfl, by rw [hc2, hc1]; rfl⟩
  rw [if_neg (not_not_intro hk2)]
  subst hk2
  obtain ⟨e3, c3, hl3, hc3⟩ := release_step S h t c2
  rw [hl3]
  exact Or.inr ⟨rfl, e3, rfl, by rw [hc3, hc2, hc1]; rfl⟩

theorem World.release_ne_retry (h : Nat) (t : PVRSRV_HANDLE_TYPE) (w : World) :
    (w.release h t).1 ≠ PVRSRV_ERROR.PVRSRV_ERROR_RETRY := by
  unfold World.release
  split <;> simp [InvalidHandle]

theorem World.lookup_ne_retry (h : Nat) (t : PVRSRV_HANDLE_TYPE) (w : World) :
    (w.lookup h t).1.1 ≠ PVRSRV_ERROR.PVRSRV_ERROR_RETRY := by
  unfold World.lookup
  split <;> simp [InvalidHandle]

theorem World.freeByItem_retry (i : Nat) (w : World)
    (h : (w.freeByItem i).1 = PVRSRV_ERROR.PVRSRV_ERROR_RETRY) :
    (w.freeByItem i).2.handles = w.handles ∧ (w.freeByItem i).2.items = w.items := by
  unfold World.freeByItem at h ⊢
  split at h
  · simp at h
  · dsimp only at h ⊢
    split_ifs at h ⊢ with h1
    · unfold World.destroy
      split_ifs <;> exact ⟨rfl, rfl⟩
    · exact absurd h h1

theorem World.lookup_congr (h : Nat) (t : PVRSRV_HANDLE_TYPE) (w v : World)
    (hh : v.handles = w.handles) : (v.lookup h t).1 = (w.lookup h t).1 := by
  unfold World.lookup
  rw [hh]
  split <;> rfl

theorem destroyWith_retry (h : Nat) (t : PVRSRV_HANDLE_TYPE) (w : World)
    (hr : (destroyWith specServices h t w).1 = PVRSRV_ERROR.PVRSRV_ERROR_RETRY) :
    (destroyWith specServices h t w).2.s.handles = w.handles
    ∧ (destroyWith specServices h t w).2.s.items = w.items
    ∧ ((destroyWith specServices h t w).2.s.lookup h t).1.1 = PVRSRV_ERROR.PVRSRV_OK
    ∧ ∃ d, (destroyWith specServices h t w).2.calls
        = [BridgeCall.PVRSRVLookupHandle h t PVRSRV_ERROR.PVRSRV_OK d,
           BridgeCall.ResManFreeResByPtr d PVRSRV_ERROR.PVRSRV_ERROR_RETRY] := by
  unfold destroyWith at hr ⊢
  simp only [Call.PVRSRVLookupHandle, Call.ResManFreeResByPtr, Call.PVRSRVReleaseHandle,
    svc_lookup, svc_free] at hr ⊢
  have hs := World.lookup_state h t w
  by_cases hk1 : (w.lookup h t).1.1 = PVRSRV_ERROR.PVRSRV_OK
  swap
  · rw [if_pos hk1] at hr
    exact absurd hr (World.lookup_ne_retry h t w)
  rw [if_neg (not_not_intro hk1)] at hr ⊢
  rw [hs] at hr ⊢
  by_cases hk2 : (w.freeByItem (w.lookup h t).1.2).1 = PVRSRV_ERROR.PVRSRV_OK
  · rw [if_neg (not_not_intro hk2)] at hr
    exact absurd hr (World.release_ne_retry _ _ _)
  · rw [if_pos hk2] at hr ⊢
    dsimp only at hr ⊢
    obtain ⟨h1, h2⟩ := World.freeByItem_retry _ w hr
    refine ⟨h1, h2, ?_, _, by rw [hk1, hr]; rfl⟩
    rw [World.lookup_congr h t w _ h1]
    exact hk1

/-! ## The bytes that `_PoisonPages` writes -/

theorem poisonBytes_spec (data : List Nat) (s : Nat) (hs : 0 < s) (h32 : s < 2 ^ 32) :
    ∀ (n src : Nat), src < s →
      poisonBytes data s n src
        = ((List.range n).map (fun t => data.getD ((src + t) % s) 0), (src + n) % s) := by
  intro n
  induction n with
  | zero =>
    intro src h
    simp [poisonBytes, Nat.mod_eq_of_lt h]
  | succ n ih =>
    intro src h
    have h1 : u32 (src + 1) = src + 1 := by
      unfold u32
      exact Nat.mod_eq_of_lt (by omega)
    have h2 : (if src + 1 = s then 0 else src + 1) = (src + 1) % s := by
      split
      · next he => rw [he, Nat.mod_self]
      · next hne => rw [Nat.mod_eq_of_lt (by omega)]
    have h3 : (src + 1) % s < s := Nat.mod_lt _ hs
    simp only [poisonBytes, h1, h2, ih _ h3]
    refine Prod.ext ?_ ?_
    · simp only [List.range_succ_eq_map, List.map_cons, List.map_map]
      congr 1
      · simp [Nat.mod_eq_of_lt h]
      · apply List.map_congr_left
        intro t _
        simp only [Function.comp]
        congr 1
        rw [Nat.add_mod, Nat.mod_mod, ← Nat.add_mod]
        congr 1
        omega
    · simp only
      rw [Nat.add_mod, Nat.mod_mod, ← Nat.add_mod]
      congr 1
      omega

theorem poisonSubPages_closed (K : Platform) (page : Nat) (data : List Nat) (s : Nat)
    (hs : 0 < s) (h32 : s < 2 ^ 32) :
    ∀ (m sub : Nat) (os : OSState),
      (poisonSubPages K page data s m sub ((sub * K.PAGE_SIZE) % s) os).log
        = os.log ++ (List.range m).map
            (fun i => OSEvent.page_write (page + (sub + i)) (patternPage K data s (sub + i))) := by
  intro m
  induction m with
  | zero => intro sub os; simp [poisonSubPages]
  | succ m ih =>
    intro sub os
    have hlt : (sub * K.PAGE_SIZE) % s < s := Nat.mod_lt _ hs
    simp only [poisonSubPages, poisonBytes_spec data s hs h32 _ _ hlt]
    have e : (sub * K.PAGE_SIZE % s + K.PAGE_SIZE) % s = ((sub + 1) * K.PAGE_SIZE) % s := by
      rw [Nat.add_mod, Nat.mod_mod, ← Nat.add_mod]
      congr 1
      ring
    rw [e, ih (sub + 1)]
    simp only [List.append_assoc, List.singleton_append, List.range_succ_eq_map, List.map_cons,
      List.map_map, Nat.add_zero]
    congr 2
    · congr 1
      unfold patternPage patternByte
      apply List.map_congr_left
      intro j _
      congr 1
      rw [Nat.add_mod, Nat.mod_mod, ← Nat.add_mod]
    · apply List.map_congr_left
      intro i _
      simp only [Function.comp]
      have : sub + 1 + i = sub + (i + 1) := by omega
      rw [this]

/-! ## The flag word of the thread -/

theorem or_and_xor_mask (a p : Nat) (hp : p < 2 ^ 32) :
    (a ||| p) &&& (0xFFFFFFFF ^^^ p) = a &&& (0xFFFFFFFF ^^^ p) := by
  apply Nat.eq_of_testBit_eq
  intro i
  have hm : (0xFFFFFFFF : Nat) = 2 ^ 32 - 1 := by norm_num
  simp only [Nat.testBit_and, Nat.testBit_or, Nat.testBit_xor, hm, Nat.testBit_two_pow_sub_one]
  by_cases hi : i < 32
  · cases Nat.testBit a i <;> cases Nat.testBit p i <;> simp [hi]
  · have : Nat.testBit p i = false := by
      apply Nat.testBit_lt_two_pow
      calc p < 2 ^ 32 := hp
        _ ≤ 2 ^ i := Nat.pow_le_pow_right (by norm_num) (by omega)
    simp [hi, this]

theorem and_xor_mask_idem (a p : Nat) :
    (a &&& (0xFFFFFFFF ^^^ p)) &&& (0xFFFFFFFF ^^^ p) = a &&& (0xFFFFFFFF ^^^ p) := by
  rw [Nat.and_assoc, Nat.and_self]

theorem and_xor_mask_of_clear (a p : Nat) (ha : a < 2 ^ 32) (hc : a &&& p = 0) :
    a &&& (0xFFFFFFFF ^^^ p) = a := by
  apply Nat.eq_of_testBit_eq
  intro i
  have hm : (0xFFFFFFFF : Nat) = 2 ^ 32 - 1 := by norm_num
  have hb : (Nat.testBit a i && Nat.testBit p i) = false := by
    rw [← Nat.testBit_and, hc, Nat.zero_testBit]
  simp only [Nat.testBit_and, Nat.testBit_xor, hm, Nat.testBit_two_pow_sub_one]
  by_cases hi : i < 32
  · cases h1 : Nat.testBit a i <;> cases h2 : Nat.testBit p i <;> simp_all
  · have : Nat.testBit a i = false := by
      apply Nat.testBit_lt_two_pow
      calc a < 2 ^ 32 := ha
        _ ≤ 2 ^ i := Nat.pow_le_pow_right (by norm_num) (by omega)
    simp [this]

theorem allocUnit_flags (K : Platform) (env : OSEnv) (uiOrder i : Nat)
    (d : _PMR_OSPAGEARRAY_DATA_) (os : OSState) (hp : K.PF_DUMPCORE < 2 ^ 32) :
    (allocUnit K env uiOrder i d os).2.flags = os.flags &&& (0xFFFFFFFF ^^^ K.PF_DUMPCORE) := by
  unfold allocUnit
  simp only [alloc_pages, DisableOOMKiller, EnableOOMKiller, set_memory_uc, set_memory_wc,
    __free_pages]
  split_ifs <;> exact or_and_xor_mask _ _ hp

theorem unwindLoop_flags (env : OSEnv) (uiOrder : Nat) (d : _PMR_OSPAGEARRAY_DATA_) :
    ∀ (fuel i : Nat) (os os1 : OSState), unwindLoop env uiOrder d fuel i os = some os1 →
      os1.flags = os.flags := by
  intro fuel
  induction fuel with
  | zero =>
    intro i os os1 h
    simp only [unwindLoop] at h
    split at h
    · cases h
    · cases h; rfl
  | succ fuel ih =>
    intro i os os1 h
    simp only [unwindLoop] at h
    split at h
    · rw [ih _ _ _ h]
      simp only [__free_pages, set_memory_wb]
      split <;> rfl
    · cases h; rfl

theorem allocLoop_flags (K : Platform) (env : OSEnv) (uiOrder : Nat)
    (hp : K.PF_DUMPCORE < 2 ^ 32) :
    ∀ (n i : Nat) (d : _PMR_OSPAGEARRAY_DATA_) (os : OSState)
      (r : PVRSRV_ERROR × _PMR_OSPAGEARRAY_DATA_ × OSState),
      allocLoop K env uiOrder n i d os = some r →
      r.2.2.flags = if n = 0 then os.flags
                    else os.flags &&& (0xFFFFFFFF ^^^ K.PF_DUMPCORE) := by
  intro n
  induction n with
  | zero =>
    intro i d os r h
    simp only [allocLoop, Option.some.injEq] at h
    subst h
    rfl
  | succ n ih =>
    intro i d os r h
    simp only [allocLoop] at h
    have hu := allocUnit_flags K env uiOrder i d os hp
    rw [if_neg (Nat.succ_ne_zero n)]
    split at h
    · simp only [Option.map_eq_some'] at h
      obtain ⟨os1, h1, h2⟩ := h
      subst h2
      rw [unwindLoop_flags env uiOrder _ _ _ _ _ h1, hu]
    · have := ih _ _ _ _ h
      rw [this]
      have hf : (if (allocUnit K env uiOrder i d os).1.bPoisonOnAlloc = true
          then _PoisonPages K ((allocUnit K env uiOrder i d os).1.pagearray.getD i 0) uiOrder
                 _AllocPoison _AllocPoisonSize (allocUnit K env uiOrder i d os).2
          else (allocUnit K env uiOrder i d os).2).flags
          = os.flags &&& (0xFFFFFFFF ^^^ K.PF_DUMPCORE) := by
        split
        · rw [(PoisonPages_frame K _ _ _ _ _).2.2.2.1, hu]
        · exact hu
      rw [hf]
      split
      · rfl
      · exact and_xor_mask_idem _ _

theorem and_xor_mask_testBit (a p i : Nat) (ha : a < 2 ^ 32) (hb : Nat.testBit p i = false) :
    Nat.testBit (a &&& (0xFFFFFFFF ^^^ p)) i = Nat.testBit a i := by
  have hm : (0xFFFFFFFF : Nat) = 2 ^ 32 - 1 := by norm_num
  simp only [Nat.testBit_and, Nat.testBit_xor, hm, Nat.testBit_two_pow_sub_one, hb]
  by_cases hi : i < 32
  · simp [hi]
  · have : Nat.testBit a i = false := by
      apply Nat.testBit_lt_two_pow
      calc a < 2 ^ 32 := ha
        _ ≤ 2 ^ i := Nat.pow_le_pow_right (by norm_num) (by omega)
    simp [this]

theorem and_xor_mask_clear (a p i : Nat) (hp : p < 2 ^ 32) (hb : Nat.testBit p i = true) :
    Nat.testBit (a &&& (0xFFFFFFFF ^^^ p)) i = false := by
  have hm : (0xFFFFFFFF : Nat) = 2 ^ 32 - 1 := by norm_num
  have hi : i < 32 := by
    by_contra hc
    have : Nat.testBit p i = false := by
      apply Nat.testBit_lt_two_pow
      calc p < 2 ^ 32 := hp
        _ ≤ 2 ^ i := Nat.pow_le_pow_right (by norm_num) (by omega)
    rw [this] at hb
    cases hb
  simp only [Nat.testBit_and, Nat.testBit_xor, hm, Nat.testBit_two_pow_sub_one, hb]
  simp [hi]

/-! ## The calls on the bookkeeping table -/

theorem tablesMade_append (l1 l2 : List OSEvent) :
    tablesMade (l1 ++ l2) = tablesMade l1 ++ tablesMade l2 := by
  induction l1 with
  | nil => rfl
  | cons e l ih =>
    have ih1 : tablesMade (l.append l2) = tablesMade l ++ tablesMade l2 := ih
    cases e <;> simp only [List.cons_append, tablesMade, ih, ih1]
    split <;> simp

theorem tablesFreed_append (l1 l2 : List OSEvent) :
    tablesFreed (l1 ++ l2) = tablesFreed l1 ++ tablesFreed l2 := by
  induction l1 with
  | nil => rfl
  | cons e l ih => cases e <;> simp [tablesFreed, ih]

theorem sameTableCalls_refl (os : OSState) : sameTableCalls os os := ⟨rfl, rfl⟩

theorem sameTableCalls_trans {a b c : OSState} (h1 : sameTableCalls a b)
    (h2 : sameTableCalls b c) : sameTableCalls a c :=
  ⟨h2.1.trans h1.1, h2.2.trans h1.2⟩

theorem poisonSubPages_sameTableCalls (K : Platform) (page : Nat) (data : List Nat) (size : Nat) :
    ∀ (n sub src : Nat) (os : OSState),
      sameTableCalls os (poisonSubPages K page data size n sub src os) := by
  intro n
  induction n with
  | zero => intro sub src os; exact sameTableCalls_refl os
  | succ n ih =>
    intro sub src os
    simp only [poisonSubPages]
    exact sameTableCalls_trans
      (by simp [sameTableCalls, tablesMade_append, tablesFreed_append, tablesMade, tablesFreed])
      (ih _ _ _)

theorem PoisonPages_sameTableCalls (K : Platform) (page order : Nat) (data : List Nat)
    (size : Nat) (os : OSState) : sameTableCalls os (_PoisonPages K page order data size os) :=
  poisonSubPages_sameTableCalls K page data size _ 0 0 os

theorem allocUnit_sameTableCalls (K : Platform) (env : OSEnv) (uiOrder i : Nat)
    (d : _PMR_OSPAGEARRAY_DATA_) (os : OSState) :
    sameTableCalls os (allocUnit K env uiOrder i d os).2 := by
  simp only [allocUnit, alloc_pages, DisableOOMKiller, EnableOOMKiller, set_memory_uc,
    set_memory_wc, __free_pages]
  split_ifs <;>
    simp [sameTableCalls, tablesMade_append, tablesFreed_append, tablesMade, tablesFreed]

theorem unwindLoop_sameTableCalls (env : OSEnv) (uiOrder : Nat) (d : _PMR_OSPAGEARRAY_DATA_) :
    ∀ (fuel i : Nat) (os os' : OSState),
      unwindLoop env uiOrder d fuel i os = some os' → sameTableCalls os os' := by
  intro fuel
  induction fuel with
  | zero =>
    intro i os os' h
    simp only [unwindLoop] at h
    split at h
    · simp at h
    · simp only [Option.some.injEq] at h
      subst h
      exact sameTableCalls_refl os
  | succ fuel ih =>
    intro i os os' h
    simp only [unwindLoop] at h
    split at h
    · refine sameTableCalls_trans ?_ (ih _ _ _ h)
      simp only [__free_pages, set_memory_wb]
      split_ifs <;>
        simp [sameTableCalls, tablesMade_append, tablesFreed_append, tablesMade, tablesFreed]
    · simp only [Option.some.injEq] at h
      subst h
      exact sameTableCalls_refl os

theorem allocLoop_sameTableCalls (K : Platform) (env : OSEnv) (uiOrder : Nat) :
    ∀ (n i : Nat) (d : _PMR_OSPAGEARRAY_DATA_) (os : OSState) (e : PVRSRV_ERROR)
      (d' : _PMR_OSPAGEARRAY_DATA_) (os' : OSState),
      allocLoop K env uiOrder n i d os = some (e, d', os') → sameTableCalls os os' := by
  intro n
  induction n with
  | zero =>
    intro i d os e d' os' h
    simp only [allocLoop, Option.some.injEq, Prod.mk.injEq] at h
    obtain ⟨_, _, h⟩ := h
    subst h
    exact sameTableCalls_refl os
  | succ n ih =>
    intro i d os e d' os' h
    simp only [allocLoop] at h
    have h0 := allocUnit_sameTableCalls K env uiOrder i d os
    split at h
    · simp only [Option.map_eq_some', Prod.mk.injEq] at h
      obtain ⟨os1, hu, _, _, rfl⟩ := h
      exact sameTableCalls_trans h0 (unwindLoop_sameTableCalls env uiOrder _ _ _ _ _ hu)
    · refine sameTableCalls_trans (sameTableCalls_trans h0 ?_) (ih _ _ _ _ _ _ h)
      split
      · exact PoisonPages_sameTableCalls _ _ _ _ _ _
      · exact sameTableCalls_refl _

theorem freeLoop_sameTableCalls (K : Platform) (env : OSEnv) (uiOrder : Nat)
    (d : _PMR_OSPAGEARRAY_DATA_) :
    ∀ (n i : Nat) (os : OSState), sameTableCalls os (freeLoop K env uiOrder d n i os) := by
  intro n
  induction n with
  | zero => intro i os; exact sameTableCalls_refl os
  | succ n ih =>
    intro i os
    simp only [freeLoop]
    refine sameTableCalls_trans ?_ (ih _ _)
    generalize d.pagearray.getD i 0 = p
    have hp := PoisonPages_sameTableCalls K p uiOrder _FreePoison _FreePoisonSize os
    simp only [sameTableCalls] at hp ⊢
    simp only [__free_pages, set_memory_wb]
    split_ifs <;> simp [hp, tablesMade_append, tablesFreed_append, tablesMade, tablesFreed]

/-! ## The two states of a page array -/

theorem AllocOSPageArray_result (env : OSEnv) (uiSize uiLog2PageSize : Nat)
    (bZero bPoisonOnAlloc bPoisonOnFree bOnDemand : Bool) (ui32CPUCacheFlags : Nat)
    (os : OSState) :
    ((_AllocOSPageArray env uiSize uiLog2PageSize bZero bPoisonOnAlloc bPoisonOnFree bOnDemand
        ui32CPUCacheFlags os).1 = PVRSRV_ERROR.PVRSRV_OK
      ∧ ∃ d, (_AllocOSPageArray env uiSize uiLog2PageSize bZero bPoisonOnAlloc bPoisonOnFree
          bOnDemand ui32CPUCacheFlags os).2.1 = some d
        ∧ wellFormed d ∧ d.bHasOSPages = false ∧ d.bOnDemand = bOnDemand ∧ d.addr ≠ 0
        ∧ (_AllocOSPageArray env uiSize uiLog2PageSize bZero bPoisonOnAlloc bPoisonOnFree
            bOnDemand ui32CPUCacheFlags os).2.2
          = { os with nKmalloc := os.nKmalloc + 1, tables := d.addr :: os.tables,
                      log := os.log ++ [OSEvent.kmalloc d.uiNumPages d.addr] })
    ∨ ((_AllocOSPageArray env uiSize uiLog2PageSize bZero bPoisonOnAlloc bPoisonOnFree bOnDemand
        ui32CPUCacheFlags os).1 ≠ PVRSRV_ERROR.PVRSRV_OK
      ∧ (_AllocOSPageArray env uiSize uiLog2PageSize bZero bPoisonOnAlloc bPoisonOnFree
          bOnDemand ui32CPUCacheFlags os).2.1 = none
      ∧ ((_AllocOSPageArray env uiSize uiLog2PageSize bZero bPoisonOnAlloc bPoisonOnFree
            bOnDemand ui32CPUCacheFlags os).2.2 = os
         ∨ ∃ n, (_AllocOSPageArray env uiSize uiLog2PageSize bZero bPoisonOnAlloc bPoisonOnFree
            bOnDemand ui32CPUCacheFlags os).2.2
          = { os with nKmalloc := os.nKmalloc + 1, log := os.log ++ [OSEvent.kmalloc n 0] })) := by
  unfold _AllocOSPageArray
  split
  · exact Or.inr ⟨by simp, rfl, Or.inl rfl⟩
  · split
    · exact Or.inr ⟨by simp, rfl, Or.inl rfl⟩
    · simp only [kmalloc]
      split
      · next h0 =>
        refine Or.inr ⟨by simp, rfl, Or.inr
          ⟨u32 (u64 ((u64 (uiSize + (2 ^ 64 - 1)) >>> uiLog2PageSize) + 1)), ?_⟩⟩
        simp only [h0, if_true]
      · next h0 =>
        refine Or.inl ⟨rfl, _, rfl, ?_, rfl, rfl, h0, ?_⟩
        · simp only [wellFormed, List.length_map, List.length_range, true_and]
          exact Nat.mod_lt _ (by norm_num)
        · simp only [h0, if_false]

theorem unitsBound_slotsPopulated (H : List Nat) (d : _PMR_OSPAGEARRAY_DATA_) (os : OSState)
    (hwf : wellFormed d) (h : unitsBound H d os) : slotsPopulated d os := by
  intro i hi
  have hlt : i < d.pagearray.length := by rw [hwf.1]; exact hi
  have hm : d.pagearray.getD i 0 ∈ d.pagearray := by
    rw [List.getD_eq_getElem?_getD, List.getElem?_eq_getElem hlt]
    exact List.getElem_mem hlt
  exact ⟨h.1 _ hm, h.2.symm.subset (List.mem_append_left _ hm)⟩

theorem hasPagesInv_iff (H : List Nat) (d : _PMR_OSPAGEARRAY_DATA_) (os : OSState)
    (hwf : wellFormed d) (hn : 1 ≤ d.uiNumPages) (h : hasPagesInv H d os) :
    d.bHasOSPages = true ↔ unitsBound H d os := by
  rcases h with ⟨h1, h2⟩ | ⟨h1, h2⟩
  · exact ⟨fun _ => h2, fun _ => h1⟩
  · constructor
    · intro h3
      rw [h1] at h3
      cases h3
    · intro h3
      have e1 := h3.2.length_eq
      have e2 := List.Perm.length_eq h2
      rw [List.length_append, hwf.1] at e1
      omega

theorem AllocOSPages_inv (K : Platform) (env : OSEnv) (d : _PMR_OSPAGEARRAY_DATA_)
    (os : OSState) (H : List Nat) (hwf : wellFormed d) (hb : d.bHasOSPages = false)
    (hinv : hasPagesInv H d os) :
    ∃ e d1 os1, _AllocOSPages K env d os = some (e, d1, os1)
      ∧ wellFormed d1 ∧ hasPagesInv H d1 os1 ∧ sameConfig d d1 ∧ os1.tables = os.tables
      ∧ (e = PVRSRV_ERROR.PVRSRV_OK ∧ d1.bHasOSPages = true
         ∨ e = PVRSRV_ERROR.PVRSRV_ERROR_PMR_FAILED_TO_ALLOC_PAGES ∧ d1.bHasOSPages = false) := by
  have hH : os.held.Perm H := by
    rcases hinv with ⟨h1, _⟩ | ⟨_, h2⟩
    · rw [hb] at h1; cases h1
    · exact h2
  obtain ⟨e, d1, os1, hrun, hsame, htab, hres⟩ := AllocOSPages_spec K env d os hwf
  have hwf1 : wellFormed d1 := by
    obtain ⟨_, s2, _, s4, _⟩ := hsame
    exact ⟨by rw [s4, hwf.1, s2], by rw [s2]; exact hwf.2⟩
  refine ⟨e, d1, os1, hrun, hwf1, ?_, hsame, htab, ?_⟩
  · rcases hres with ⟨_, hhas, _, _, _, _, hheld, hnz, _⟩ | ⟨_, hhas, hheld, _⟩
    · refine Or.inl ⟨hhas, hnz, ?_⟩
      rw [hheld]
      exact (List.reverse_perm _).append hH
    · exact Or.inr ⟨by rw [hhas, hb], by unfold noUnits; rw [hheld]; exact hH⟩
  · rcases hres with ⟨he, hhas, _⟩ | ⟨he, hhas, _⟩
    · exact Or.inl ⟨he, hhas⟩
    · exact Or.inr ⟨he, by rw [hhas, hb]⟩

theorem FreeOSPages_inv (K : Platform) (env : OSEnv) (d : _PMR_OSPAGEARRAY_DATA_)
    (os : OSState) (H : List Nat) (hwf : wellFormed d) (hb : d.bHasOSPages = true)
    (hinv : hasPagesInv H d os) :
    (_FreeOSPages K env d os).1 = PVRSRV_ERROR.PVRSRV_OK
    ∧ (_FreeOSPages K env d os).2.1 = { d with bHasOSPages := false }
    ∧ wellFormed (_FreeOSPages K env d os).2.1
    ∧ hasPagesInv H (_FreeOSPages K env d os).2.1 (_FreeOSPages K env d os).2.2
    ∧ noUnits H (_FreeOSPages K env d os).2.2
    ∧ (_FreeOSPages K env d os).2.2.tables = os.tables
    ∧ freedPages (_FreeOSPages K env d os).2.2.log = freedPages os.log ++ d.pagearray := by
  have hU : os.held.Perm (d.pagearray ++ H) := by
    rcases hinv with ⟨_, h2⟩ | ⟨h1, _⟩
    · exact h2.2
    · rw [hb] at h1; cases h1
  obtain ⟨f1, f2, _, f4, _, _⟩ := freeLoop_spec K env (sub32 d.uiLog2PageSize K.PAGE_SHIFT) d
    d.uiNumPages 0 os (by rw [hwf.1]; omega)
  have hall : (d.pagearray.drop 0).take d.uiNumPages = d.pagearray := by
    rw [List.drop_zero, ← hwf.1, List.take_length]
  rw [hall] at f1 f2
  have hno : noUnits H (_FreeOSPages K env d os).2.2 := by
    show ((freeLoop K env (sub32 d.uiLog2PageSize K.PAGE_SHIFT) d d.uiNumPages 0 os).held).Perm H
    rw [f1]
    exact foldl_erase_perm _ _ _ hU
  exact ⟨rfl, rfl, hwf, Or.inr ⟨rfl, hno⟩, hno, f4, f2⟩

/-! ## The factory -/

theorem hasPagesInv_congr (H : List Nat) (d d1 : _PMR_OSPAGEARRAY_DATA_) (os os1 : OSState)
    (h1 : d1.bHasOSPages = d.bHasOSPages) (h2 : d1.pagearray = d.pagearray)
    (h3 : os1.held = os.held) (h : hasPagesInv H d os) : hasPagesInv H d1 os1 := by
  unfold hasPagesInv unitsBound noUnits at *
  rw [h1, h2, h3]
  exact h

theorem NewOSAllocPagesPMR_post (K : Platform) (env : OSEnv)
    (uiSize uiChunkSize ui32NumPhysChunks ui32NumVirtChunks uiLog2PageSize uiFlags : Nat)
    (os : OSState) :
    ∃ e r os1, _NewOSAllocPagesPMR K env uiSize uiChunkSize ui32NumPhysChunks ui32NumVirtChunks
        uiLog2PageSize uiFlags os = some (e, r, os1)
      ∧ ((e = PVRSRV_ERROR.PVRSRV_OK
          ∧ ∃ p, r = some p ∧ wellFormed p.psPrivData
            ∧ p.psPrivData.bOnDemand
                = decide (uiFlags &&& K.PVRSRV_MEMALLOCFLAG_NO_OSPAGES_ON_ALLOC > 0)
            ∧ p.psPrivData.bHasOSPages = !p.psPrivData.bOnDemand
            ∧ hasPagesInv os.held p.psPrivData os1
            ∧ os1.tables = p.psPrivData.addr :: os.tables
            ∧ tablesMade os1.log = tablesMade os.log ++ [p.psPrivData.addr]
            ∧ tablesFreed os1.log = tablesFreed os.log)
        ∨ (e ≠ PVRSRV_ERROR.PVRSRV_OK ∧ r = none ∧ noUnits os.held os1
          ∧ os1.tables = os.tables
          ∧ ∃ T : List Nat, T.length ≤ 1 ∧ tablesMade os1.log = tablesMade os.log ++ T
              ∧ tablesFreed os1.log = tablesFreed os.log ++ T)) := by
  unfold _NewOSAllocPagesPMR
  simp only
  split
  · exact ⟨_, _, _, rfl, Or.inr ⟨by simp, rfl, List.Perm.refl _, rfl, [], by simp, by simp,
      by simp⟩⟩
  · generalize hbod : decide (uiFlags &&& K.PVRSRV_MEMALLOCFLAG_NO_OSPAGES_ON_ALLOC > 0) = bOnDemand
    generalize (if K.PAGE_SHIFT > uiLog2PageSize then K.PAGE_SHIFT else uiLog2PageSize) = L
    rcases AllocOSPageArray_result env (u64 (uiChunkSize * ui32NumPhysChunks)) L
        (decide (uiFlags &&& K.PVRSRV_MEMALLOCFLAG_ZERO_ON_ALLOC ≠ 0))
        (decide (uiFlags &&& K.PVRSRV_MEMALLOCFLAG_POISON_ON_ALLOC ≠ 0))
        (decide (uiFlags &&& K.PVRSRV_MEMALLOCFLAG_POISON_ON_FREE ≠ 0))
        bOnDemand (u32 (K.DevmemCPUCacheMode uiFlags)) os with
      ⟨hok, d, hd, hwf, hb, hod, hne, hos⟩ | ⟨hne, hn, hos⟩
    · -- the page array exists
      generalize _AllocOSPageArray env (u64 (uiChunkSize * ui32NumPhysChunks)) L
        (decide (uiFlags &&& K.PVRSRV_MEMALLOCFLAG_ZERO_ON_ALLOC ≠ 0))
        (decide (uiFlags &&& K.PVRSRV_MEMALLOCFLAG_POISON_ON_ALLOC ≠ 0))
        (decide (uiFlags &&& K.PVRSRV_MEMALLOCFLAG_POISON_ON_FREE ≠ 0))
        bOnDemand (u32 (K.DevmemCPUCacheMode uiFlags)) os = a at *
      obtain ⟨a1, a2, a3⟩ := a
      simp only at hok hd hos
      subst hok hd hos
      simp only [ne_eq, not_true_eq_false, if_false]
      have hinv0 : hasPagesInv os.held d
          { os with nKmalloc := os.nKmalloc + 1, tables := d.addr :: os.tables,
                    log := os.log ++ [OSEvent.kmalloc d.uiNumPages d.addr] } :=
        Or.inr ⟨hb, List.Perm.refl _⟩
      have hmade0 : tablesMade (os.log ++ [OSEvent.kmalloc d.uiNumPages d.addr])
          = tablesMade os.log ++ [d.addr] := by
        rw [tablesMade_append]
        simp [tablesMade, hne]
      have hfreed0 : tablesFreed (os.log ++ [OSEvent.kmalloc d.uiNumPages d.addr])
          = tablesFreed os.log := by
        rw [tablesFreed_append]
        simp [tablesFreed]
      cases hbo : bOnDemand with
      | true =>
        -- on demand: no page is allocated
        simp only [Bool.true_eq_false, if_false]
        by_cases hc : (env.PMRCreatePMR os.nCreatePMR).1 = PVRSRV_ERROR.PVRSRV_OK
        · simp only [PMRCreatePMR, hc, ne_eq, not_true_eq_false, if_false]
          refine ⟨_, _, _, rfl,
            Or.inl ⟨rfl, _, rfl, hwf, ?_, ?_, ?_, rfl, ?_, ?_⟩⟩
          · simp only [hod, hbo]
          · simp only [hod, hbo, hb, Bool.not_true]
          · exact hasPagesInv_congr _ _ _ _ _ rfl rfl rfl hinv0
          · simp only [tablesMade_append, tablesMade, List.append_nil] at hmade0 ⊢
            simp [hne]
          · simp only [tablesFreed_append, tablesFreed, List.append_nil]
        · simp only [PMRCreatePMR, ne_eq, hc, not_false_eq_true, if_true]
          refine ⟨_, _, _, rfl,
            Or.inr ⟨hc, rfl, ?_, ?_, [d.addr], by simp, ?_, ?_⟩⟩
          · exact List.Perm.refl _
          · simp [_FreeOSPagesArray, kfree]
          · simp only [_FreeOSPagesArray, kfree, tablesMade_append, tablesMade, List.append_nil]
            simp [hne]
          · simp only [_FreeOSPagesArray, kfree, tablesFreed_append, tablesFreed, List.append_nil]
      | false =>
        simp only [if_true]
        obtain ⟨e, d1, os1, hrun, hwf1, hinv1, hsame, htab, hres⟩ := AllocOSPages_inv K env d
          { os with nKmalloc := os.nKmalloc + 1, tables := d.addr :: os.tables,
                    log := os.log ++ [OSEvent.kmalloc d.uiNumPages d.addr] } os.held hwf hb hinv0
        have hstc := allocLoop_sameTableCalls K env _ _ _ _ _ _ _ _ hrun
        obtain ⟨haddr, _, _, _, _, _, _, _, _, hod1, _⟩ := hsame
        simp only [hrun]
        rcases hres with ⟨he, hhas⟩ | ⟨he, hhas⟩
        · subst he
          simp only [ne_eq, not_true_eq_false, if_false]
          by_cases hc : (env.PMRCreatePMR os1.nCreatePMR).1 = PVRSRV_ERROR.PVRSRV_OK
          · simp only [PMRCreatePMR, hc, ne_eq, not_true_eq_false, if_false]
            refine ⟨_, _, _, rfl,
              Or.inl ⟨rfl, _, rfl, hwf1, ?_, ?_, ?_, ?_, ?_, ?_⟩⟩
            · simp only [hod1, hod, hbo]
            · simp only [hod1, hod, hbo, hhas, Bool.not_false]
            · exact hasPagesInv_congr _ _ _ _ _ rfl rfl rfl hinv1
            · simp only [htab, haddr]
            · simp only [tablesMade_append, tablesMade, List.append_nil, hstc.1, haddr]
              simp [hne]
            · simp only [tablesFreed_append, tablesFreed, List.append_nil, hstc.2]
          · obtain ⟨_, _, _, _, g5, g6, _⟩ := FreeOSPages_inv K env d1
              { os1 with nCreatePMR := os1.nCreatePMR + 1,
                         log := os1.log ++ [OSEvent.PMRCreatePMR d1.addr
                           (env.PMRCreatePMR os1.nCreatePMR).1] } os.held hwf1 hhas
              (hasPagesInv_congr _ _ _ _ _ rfl rfl rfl hinv1)
            have g7 := freeLoop_sameTableCalls K env (sub32 d1.uiLog2PageSize K.PAGE_SHIFT) d1
              d1.uiNumPages 0
              { os1 with nCreatePMR := os1.nCreatePMR + 1,
                         log := os1.log ++ [OSEvent.PMRCreatePMR d1.addr
                           (env.PMRCreatePMR os1.nCreatePMR).1] }
            simp only [PMRCreatePMR, ne_eq, hc, not_false_eq_true, if_true]
            refine ⟨_, _, _, rfl,
              Or.inr ⟨hc, rfl, ?_, ?_, [d.addr], by simp, ?_, ?_⟩⟩
            · exact g5
            · simp only [_FreeOSPagesArray, kfree]
              rw [g6]
              simp only [htab, _FreeOSPages, haddr, List.erase_cons_head]
            · simp only [_FreeOSPagesArray, kfree, tablesMade_append, tablesMade, List.append_nil]
              have := g7.1
              simp only [_FreeOSPages] at this ⊢
              rw [this]
              simp only [tablesMade_append, tablesMade, List.append_nil, hstc.1]
              simp [hne]
            · simp only [_FreeOSPagesArray, kfree, tablesFreed_append, tablesFreed]
              have := g7.2
              simp only [_FreeOSPages] at this ⊢
              rw [this]
              simp only [tablesFreed_append, tablesFreed, List.append_nil, hstc.2, haddr]
        · subst he
          simp only [ne_eq, reduceCtorEq, not_false_eq_true, if_true]
          refine ⟨_, _, _, rfl, Or.inr ⟨by simp, rfl, ?_, ?_, [d.addr], by simp, ?_, ?_⟩⟩
          · rcases hinv1 with ⟨h1, _⟩ | ⟨_, h2⟩
            · rw [hhas] at h1; cases h1
            · exact h2
          · simp only [_FreeOSPagesArray, kfree, htab, haddr, List.erase_cons_head]
          · simp only [_FreeOSPagesArray, kfree, tablesMade_append, tablesMade, List.append_nil,
              hstc.1]
            simp [hne]
          · simp only [_FreeOSPagesArray, kfree, tablesFreed_append, tablesFreed, hstc.2, haddr,
              List.append_nil]
    · -- no page array
      simp only [ne_eq, hne, not_false_eq_true, if_true]
      refine ⟨_, _, _, rfl, Or.inr ⟨hne, rfl, ?_⟩⟩
      rcases hos with h | ⟨n, h⟩
      · rw [h]
        exact ⟨List.Perm.refl _, rfl, [], by simp, by simp, by simp⟩
      · rw [h]
        refine ⟨List.Perm.refl _, rfl, [], by simp, ?_, ?_⟩
        · simp [tablesMade_append, tablesMade]
        · simp [tablesFreed_append, tablesFreed]

/-! ## A failed change of the cache attribute -/

theorem cacheFails_not_obtained (K : Platform) (env : OSEnv) (cache n : Nat)
    (h : cacheFails K env cache n) : unitObtained K env cache n = false := by
  obtain ⟨h1, h2, h3, h4⟩ := h
  unfold unitObtained
  rcases h3 with h3 | h3 <;> simp [h1, h2, h3, h4]

theorem unwindLoop_log (env : OSEnv) (uiOrder : Nat) (d : _PMR_OSPAGEARRAY_DATA_)
    (h32 : d.uiNumPages < 2 ^ 32) :
    ∀ (R : List Nat) (fuel : Nat) (os os1 : OSState),
      R.length ≤ d.uiNumPages → R.length ≤ fuel →
      d.pagearray.take R.length = R.reverse →
      unwindLoop env uiOrder d fuel (sub32 R.length 1) os = some os1 →
      os1.log = os.log ++ R.flatMap (unwindUnitEvents env d uiOrder) := by
  intro R
  induction R with
  | nil =>
    intro fuel os os1 _ _ _ h
    have h1 : ¬ (4294967295 < d.uiNumPages) := by omega
    cases fuel <;> simp [unwindLoop, sub32_zero, h1] at h <;> simp [← h]
  | cons q R ih =>
    intro fuel os os1 hlen hfuel htake h
    simp only [List.length_cons] at hlen hfuel htake h
    obtain ⟨fuel, rfl⟩ : ∃ f, fuel = f + 1 := ⟨fuel - 1, by omega⟩
    have hlt : R.length < d.uiNumPages := by omega
    have hslot : d.pagearray.getD R.length 0 = q := by
      have h1 : (d.pagearray.take (R.length + 1)).getD R.length 0 = q := by
        rw [htake]; simp [List.getD_eq_getElem?_getD, List.getElem?_append_right]
      rw [List.getD_eq_getElem?_getD, List.getElem?_take] at h1
      simpa [List.getD_eq_getElem?_getD] using h1
    have htake1 : d.pagearray.take R.length = R.reverse := by
      have := congrArg (List.take R.length) htake
      simpa [List.take_take, List.take_append_of_le_length] using this
    have hs : sub32 (R.length + 1) 1 = R.length := sub32_succ _ (by omega)
    simp only [hs, unwindLoop, hlt, if_true, hslot] at h
    rw [ih fuel _ os1 (by omega) (by omega) htake1 h]
    simp only [List.flatMap_cons, unwindUnitEvents, __free_pages, set_memory_wb]
    split <;> simp [List.append_assoc]

theorem allocUnit_kept_log (K : Platform) (env : OSEnv) (uiOrder i : Nat)
    (d : _PMR_OSPAGEARRAY_DATA_) (os : OSState)
    (h : unitObtained K env d.ui32CPUCacheFlags os.nAlloc = true) :
    (if (allocUnit K env uiOrder i d os).1.bPoisonOnAlloc = true
      then _PoisonPages K (env.alloc_pages os.nAlloc).page uiOrder _AllocPoison _AllocPoisonSize
             (allocUnit K env uiOrder i d os).2
      else (allocUnit K env uiOrder i d os).2).log
      = os.log ++ keptUnitEvents K env d uiOrder os.nAlloc
    ∧ (if (allocUnit K env uiOrder i d os).1.bPoisonOnAlloc = true
      then _PoisonPages K (env.alloc_pages os.nAlloc).page uiOrder _AllocPoison _AllocPoisonSize
             (allocUnit K env uiOrder i d os).2
      else (allocUnit K env uiOrder i d os).2).nAlloc = os.nAlloc + 1 := by
  have hb : (allocUnit K env uiOrder i d os).1.bPoisonOnAlloc = d.bPoisonOnAlloc := by
    obtain ⟨q, b, hd1, _⟩ := allocUnit_spec K env uiOrder i d os
    rw [hd1]
  have hn : (allocUnit K env uiOrder i d os).2.nAlloc = os.nAlloc + 1 :=
    (allocUnit_spec K env uiOrder i d os).choose_spec.choose_spec.2.1
  have hl : (allocUnit K env uiOrder i d os).2.log
      = os.log ++ ([OSEvent.alloc_pages d.bZero uiOrder (env.alloc_pages os.nAlloc).page]
        ++ (if env.page_address (env.alloc_pages os.nAlloc).page ≠ 0 then
              if d.ui32CPUCacheFlags = K.PVRSRV_MEMALLOCFLAG_CPU_UNCACHED then
                [OSEvent.set_memory_uc (env.page_address (env.alloc_pages os.nAlloc).page)
                  (env.alloc_pages os.nAlloc).setMemRet]
              else if d.ui32CPUCacheFlags = K.PVRSRV_MEMALLOCFLAG_CPU_WRITE_COMBINE then
                [OSEvent.set_memory_wc (env.page_address (env.alloc_pages os.nAlloc).page)
                  (env.alloc_pages os.nAlloc).setMemRet]
              else []
            else [])) := by
    simp only [unitObtained, Bool.and_eq_true, Bool.or_eq_true, decide_eq_true_eq] at h
    obtain ⟨hp, hrest⟩ := h
    simp only [allocUnit, alloc_pages, DisableOOMKiller, EnableOOMKiller, set_memory_uc,
      set_memory_wc, __free_pages, hp, ne_eq, not_false_eq_true, if_true]
    by_cases hv : env.page_address (env.alloc_pages os.nAlloc).page = 0
    · simp [hv]
    · by_cases huc : d.ui32CPUCacheFlags = K.PVRSRV_MEMALLOCFLAG_CPU_UNCACHED
      · have hr : (env.alloc_pages os.nAlloc).setMemRet = 0 := by
          rcases hrest with (h1 | h1) | h1
          · exact absurd h1 hv
          · exact absurd huc h1.1
          · exact h1
        simp [hv, huc, hr]
      · by_cases hwc : d.ui32CPUCacheFlags = K.PVRSRV_MEMALLOCFLAG_CPU_WRITE_COMBINE
        · have hr : (env.alloc_pages os.nAlloc).setMemRet = 0 := by
            rcases hrest with (h1 | h1) | h1
            · exact absurd h1 hv
            · exact absurd hwc h1.2
            · exact h1
          have hne : ¬ K.PVRSRV_MEMALLOCFLAG_CPU_WRITE_COMBINE
              = K.PVRSRV_MEMALLOCFLAG_CPU_UNCACHED := hwc ▸ huc
          simp [hv, hne, hwc, hr]
        · simp [hv, huc, hwc]
  rw [hb]
  unfold keptUnitEvents
  split
  · rw [PoisonPages_log]
    exact ⟨by simp only [hl, List.append_assoc], hn⟩
  · exact ⟨by simp only [hl, List.append_nil, List.append_assoc], hn⟩

theorem allocUnit_cacheFails (K : Platform) (env : OSEnv) (uiOrder i : Nat)
    (d : _PMR_OSPAGEARRAY_DATA_) (os : OSState)
    (h : cacheFails K env d.ui32CPUCacheFlags os.nAlloc) :
    (allocUnit K env uiOrder i d os).1
      = { d with pagearray := (d.pagearray.set i (env.alloc_pages os.nAlloc).page).set i 0,
                 bUnsetMemoryType := true }
    ∧ (allocUnit K env uiOrder i d os).2.log
      = os.log ++ failedUnitEvents K env d uiOrder os.nAlloc := by
  obtain ⟨h1, h2, h3, h4⟩ := h
  simp only [allocUnit, alloc_pages, DisableOOMKiller, EnableOOMKiller, set_memory_uc,
    set_memory_wc, __free_pages, failedUnitEvents]
  by_cases huc : d.ui32CPUCacheFlags = K.PVRSRV_MEMALLOCFLAG_CPU_UNCACHED
  · simp [h1, h2, h4, huc]
  · have hwc : d.ui32CPUCacheFlags = K.PVRSRV_MEMALLOCFLAG_CPU_WRITE_COMBINE := by
      rcases h3 with h3 | h3
      · exact absurd h3 huc
      · exact h3
    have hne : ¬ K.PVRSRV_MEMALLOCFLAG_CPU_WRITE_COMBINE
        = K.PVRSRV_MEMALLOCFLAG_CPU_UNCACHED := hwc ▸ huc
    simp [h1, h2, h4, hne, hwc]

theorem allocLoop_cacheFail (K : Platform) (env : OSEnv) (uiOrder : Nat) :
    ∀ (k n i : Nat) (d : _PMR_OSPAGEARRAY_DATA_) (os : OSState) (R : List Nat),
      d.pagearray.length = d.uiNumPages → d.uiNumPages < 2 ^ 32 → i + n = d.uiNumPages →
      k < n → R.length = i → d.pagearray.take i = R.reverse →
      (∀ j, j < k → unitObtained K env d.ui32CPUCacheFlags (os.nAlloc + j) = true) →
      cacheFails K env d.ui32CPUCacheFlags (os.nAlloc + k) →
      ∀ r, allocLoop K env uiOrder n i d os = some r →
        r.1 = PVRSRV_ERROR.PVRSRV_ERROR_PMR_FAILED_TO_ALLOC_PAGES
        ∧ r.2.2.log = os.log
            ++ (List.range k).flatMap (fun j => keptUnitEvents K env d uiOrder (os.nAlloc + j))
            ++ failedUnitEvents K env d uiOrder (os.nAlloc + k)
            ++ (((List.range k).map (fun j => (env.alloc_pages (os.nAlloc + j)).page)).reverse
                  ++ R).flatMap (revertUnitEvents env uiOrder) := by
  intro k
  induction k with
  | zero =>
    intro n i d os R hlen h32 hin hk hR htake _ hfail r hrun
    obtain ⟨n, rfl⟩ : ∃ m, n = m + 1 := ⟨n - 1, by omega⟩
    have hi : i < d.pagearray.length := by omega
    simp only [Nat.add_zero] at hfail
    obtain ⟨hd1, hl1⟩ := allocUnit_cacheFails K env uiOrder i d os hfail
    simp only [allocLoop] at hrun
    have hslot : (allocUnit K env uiOrder i d os).1.pagearray.getD i 0 = 0 := by
      rw [hd1]
      simp [List.getD_eq_getElem?_getD, List.getElem?_set, hi]
    rw [if_pos hslot] at hrun
    simp only [Option.map_eq_some'] at hrun
    obtain ⟨os1, hu, hr⟩ := hrun
    subst hr
    have hlog := unwindLoop_log env uiOrder (allocUnit K env uiOrder i d os).1
      (by rw [hd1]; exact h32) R loopFuel _ os1
      (by rw [hd1]; simp only; omega) (by simp [loopFuel]; omega)
      (by rw [hd1]; simp only [hR]; rw [take_set_self, take_set_self]; exact htake)
      (by rw [hR]; exact hu)
    refine ⟨rfl, ?_⟩
    simp only
    rw [hlog, hl1]
    have hev : unwindUnitEvents env (allocUnit K env uiOrder i d os).1 uiOrder
        = revertUnitEvents env uiOrder := by
      funext p
      rw [hd1]
      simp [unwindUnitEvents, revertUnitEvents]
    rw [hev]
    simp
  | succ k ih =>
    intro n i d os R hlen h32 hin hk hR htake hpre hfail r hrun
    obtain ⟨n, rfl⟩ : ∃ m, n = m + 1 := ⟨n - 1, by omega⟩
    have hi : i < d.pagearray.length := by omega
    have hob : unitObtained K env d.ui32CPUCacheFlags os.nAlloc = true := by
      simpa using hpre 0 (by omega)
    obtain ⟨hl1, hn1⟩ := allocUnit_kept_log K env uiOrder i d os hob
    obtain ⟨q, b, hd1, _, _, _, hcase⟩ := allocUnit_spec K env uiOrder i d os
    rcases hcase with ⟨_, hqp, hq0, _, _⟩ | ⟨hbad, _⟩
    · simp only [allocLoop] at hrun
      have hslot : (allocUnit K env uiOrder i d os).1.pagearray.getD i 0 = q := by
        rw [hd1]
        simp [List.getD_eq_getElem?_getD, List.getElem?_set, hi]
      rw [hslot, if_neg hq0] at hrun
      rw [← hqp] at hl1 hn1
      have htake1 : (d.pagearray.set i q).take (i + 1) = (q :: R).reverse := by
        rw [List.take_succ, take_set_self]
        simp [htake, List.getElem?_set, hi]
      rw [hd1] at hrun hl1 hn1
      have hres := ih n (i + 1)
        { d with pagearray := d.pagearray.set i q, bUnsetMemoryType := b } _ (q :: R)
        (by simpa using hlen) (by simpa using h32) (by simp only; omega) (by omega)
        (by simp [hR]) htake1
        (by
          intro j hj
          rw [hn1]
          have := hpre (j + 1) (by omega)
          have e1 : os.nAlloc + 1 + j = os.nAlloc + (j + 1) := by omega
          rw [e1]; exact this)
        (by
          rw [hn1]
          have e1 : os.nAlloc + 1 + k = os.nAlloc + (k + 1) := by omega
          rw [e1]; exact hfail)
        r hrun
      obtain ⟨hr1, hr2⟩ := hres
      refine ⟨hr1, ?_⟩
      rw [hr2, hl1, hn1]
      have e2 : ∀ j, os.nAlloc + 1 + j = os.nAlloc + (j + 1) := by intro j; omega
      have e3 : os.nAlloc + 1 + k = os.nAlloc + (k + 1) := by omega
      have hk1 : (List.range (k + 1)).flatMap (fun j => keptUnitEvents K env d uiOrder (os.nAlloc + j))
          = keptUnitEvents K env d uiOrder os.nAlloc
            ++ (List.range k).flatMap (fun j => keptUnitEvents K env d uiOrder (os.nAlloc + 1 + j)) := by
        rw [List.range_succ_eq_map, List.flatMap_cons, List.flatMap_map]
        simp only [Nat.add_zero, e2]
      have hk2 : ((List.range (k + 1)).map (fun j => (env.alloc_pages (os.nAlloc + j)).page)).reverse
          = ((List.range k).map (fun j => (env.alloc_pages (os.nAlloc + 1 + j)).page)).reverse
            ++ [q] := by
        rw [range_succ_map_reverse (fun j => (env.alloc_pages (os.nAlloc + j)).page) k, hqp]
        simp only [Nat.add_zero, e2]
      rw [hk1, hk2, e3]
      simp only [keptUnitEvents, failedUnitEvents, List.append_assoc, List.singleton_append]
    · rw [hob] at hbad
      cases hbad

/-! ## The scratch buffers -/

theorem osAllocs_append (l1 l2 : List BridgeCall) :
    osAllocs (l1 ++ l2) = osAllocs l1 ++ osAllocs l2 := by
  induction l1 with
  | nil => rfl
  | cons e l ih =>
    have ih1 : osAllocs (l.append l2) = osAllocs l ++ osAllocs l2 := ih
    cases e <;> simp only [List.cons_append, osAllocs, ih, ih1]
    split <;> simp

theorem osFrees_append (l1 l2 : List BridgeCall) :
    osFrees (l1 ++ l2) = osFrees l1 ++ osFrees l2 := by
  induction l1 with
  | nil => rfl
  | cons e l ih => cases e <;> simp [osFrees, ih]

theorem osAllocs_map_OSFreeMem (l : List Nat) : osAllocs (l.map BridgeCall.OSFreeMem) = [] := by
  induction l with
  | nil => rfl
  | cons x l ih => simpa [osAllocs] using ih

theorem osFrees_map_OSFreeMem (l : List Nat) : osFrees (l.map BridgeCall.OSFreeMem) = l := by
  induction l with
  | nil => rfl
  | cons x l ih => simpa [osFrees] using ih

theorem osAllocs_cleanupCalls (T : PVRSRV_HANDLE_TYPE) (D : DomainFn)
    (e : PVRSRV_ERROR) (h i o : Nat) (ps : List Nat) (rr fr de : PVRSRV_ERROR)
    (dout : List Nat) :
    osAllocs (cleanupCalls T D e h i o ps rr fr de dout) = [] := by
  unfold cleanupCalls
  split_ifs <;> simp_all [osAllocs, osAllocs_append, osAllocs_map_OSFreeMem]

theorem osFrees_cleanupCalls (T : PVRSRV_HANDLE_TYPE) (D : DomainFn)
    (e : PVRSRV_ERROR) (h i o : Nat) (ps : List Nat) (rr fr de : PVRSRV_ERROR)
    (dout : List Nat) :
    osFrees (cleanupCalls T D e h i o ps rr fr de dout)
      = ps.filter (fun p => decide (p ≠ 0)) := by
  unfold cleanupCalls
  split_ifs <;> simp_all [osFrees, osFrees_append, osFrees_map_OSFreeMem]

theorem osAllocs_of_lookupsOK {l : List BridgeCall} (h : lookupsOK l) : osAllocs l = [] := by
  induction l with
  | nil => rfl
  | cons x l ih =>
    have hx := h x (List.mem_cons_self _ _)
    have hl : lookupsOK l := fun y hy => h y (List.mem_cons_of_mem _ hy)
    cases x <;> simp [BridgeCall.lookupResult] at hx <;> simpa [osAllocs] using ih hl

theorem osFrees_of_lookupsOK {l : List BridgeCall} (h : lookupsOK l) : osFrees l = [] := by
  induction l with
  | nil => rfl
  | cons x l ih =>
    have hx := h x (List.mem_cons_self _ _)
    have hl : lookupsOK l := fun y hy => h y (List.mem_cons_of_mem _ hy)
    cases x <;> simp [BridgeCall.lookupResult] at hx <;> simpa [osFrees] using ih hl

theorem osAllocs_cons_of_lookup {x : BridgeCall} {e : PVRSRV_ERROR}
    (hx : x.lookupResult = some e) (l : List BridgeCall) :
    osAllocs (x :: l) = osAllocs l := by
  cases x <;> simp [BridgeCall.lookupResult] at hx <;> rfl

theorem osFrees_cons_of_lookup {x : BridgeCall} {e : PVRSRV_ERROR}
    (hx : x.lookupResult = some e) (l : List BridgeCall) :
    osFrees (x :: l) = osFrees l := by
  cases x <;> simp [BridgeCall.lookupResult] at hx <;> rfl

/-! ## The calls of an entry point are a run of the collaborators -/

theorem runsFrom_append {σ : Type} (S : Services σ) :
    ∀ (l1 l2 : List BridgeCall) (s s1 : σ),
      runsFrom S s (l1 ++ l2) s1 ↔ ∃ s2, runsFrom S s l1 s2 ∧ runsFrom S s2 l2 s1 := by
  intro l1
  induction l1 with
  | nil =>
    intro l2 s s1
    simp only [List.nil_append, runsFrom]
    constructor
    · intro h; exact ⟨s, rfl, h⟩
    · rintro ⟨s2, rfl, h⟩; exact h
  | cons e l ih =>
    intro l2 s s1
    show (∃ s2, e.step S s s2 ∧ runsFrom S s2 (l ++ l2) s1)
      ↔ ∃ s2, (∃ s3, e.step S s s3 ∧ runsFrom S s3 l s2) ∧ runsFrom S s2 l2 s1
    constructor
    · rintro ⟨s2, h1, h2⟩
      obtain ⟨s3, h3, h4⟩ := (ih l2 s2 s1).mp h2
      exact ⟨s3, ⟨s2, h1, h3⟩, h4⟩
    · rintro ⟨s3, ⟨s2, h1, h2⟩, h3⟩
      exact ⟨s2, h1, (ih l2 s2 s1).mpr ⟨s3, h2, h3⟩⟩

theorem runsFrom_snoc {σ : Type} (S : Services σ) (l : List BridgeCall) (ev : BridgeCall)
    (s s1 s2 : σ) (h1 : runsFrom S s l s1) (h2 : ev.step S s1 s2) :
    runsFrom S s (l ++ [ev]) s2 :=
  (runsFrom_append S l [ev] s s2).mpr ⟨s1, h1, s2, h2, rfl⟩

theorem runs_init {σ : Type} (S : Services σ) (s : σ) :
    Conn.runs S s { s := s, calls := [] } := rfl

theorem runs_OSAllocMem {σ : Type} (S : Services σ) (s : σ) (size : Nat) (c : Conn σ)
    (h : Conn.runs S s c) : Conn.runs S s (Call.OSAllocMem S size c).2 :=
  runsFrom_snoc S _ _ _ _ _ h rfl

theorem runs_OSFreeMem {σ : Type} (S : Services σ) (s : σ) (p : Nat) (c : Conn σ)
    (h : Conn.runs S s c) : Conn.runs S s (Call.OSFreeMem S p c) :=
  runsFrom_snoc S _ _ _ _ _ h rfl

theorem runs_copyInFails {σ : Type} (S : Services σ) (s : σ) (dst src size : Nat) (c : Conn σ)
    (h : Conn.runs S s c) : Conn.runs S s (Call.copyInFails S dst src size c).2 := by
  unfold Call.copyInFails
  dsimp only
  have h1 : runsFrom S s (c.calls ++ [BridgeCall.OSAccessOK src size (S.OSAccessOK src size c.s)])
      c.s := runsFrom_snoc S _ _ _ _ _ h ⟨rfl, rfl⟩
  split
  · exact h1
  · exact runsFrom_snoc S _ _ _ _ _ h1 ⟨_, rfl⟩

theorem runs_PVRSRVLookupHandle {σ : Type} (S : Services σ) (s : σ) (x : Nat)
    (t : PVRSRV_HANDLE_TYPE) (c : Conn σ) (h : Conn.runs S s c) :
    Conn.runs S s (Call.PVRSRVLookupHandle S x t c).2 :=
  runsFrom_snoc S _ _ _ _ _ h rfl

theorem runs_PVRSRVAllocHandle {σ : Type} (S : Services σ) (s : σ) (x : Nat)
    (t : PVRSRV_HANDLE_TYPE) (c : Conn σ) (h : Conn.runs S s c) :
    Conn.runs S s (Call.PVRSRVAllocHandle S x t c).2 :=
  runsFrom_snoc S _ _ _ _ _ h rfl

theorem runs_PVRSRVAllocSubHandle {σ : Type} (S : Services σ) (s : σ) (x : Nat)
    (t : PVRSRV_HANDLE_TYPE) (p : Nat) (c : Conn σ) (h : Conn.runs S s c) :
    Conn.runs S s (Call.PVRSRVAllocSubHandle S x t p c).2 :=
  runsFrom_snoc S _ _ _ _ _ h rfl

theorem runs_PVRSRVReleaseHandle {σ : Type} (S : Services σ) (s : σ) (x : Nat)
    (t : PVRSRV_HANDLE_TYPE) (c : Conn σ) (h : Conn.runs S s c) :
    Conn.runs S s (Call.PVRSRVReleaseHandle S x t c).2 :=
  runsFrom_snoc S _ _ _ _ _ h rfl

theorem runs_ResManRegisterRes {σ : Type} (S : Services σ) (s : σ) (t : RESMAN_TYPE)
    (p : Nat) (f : DomainFn) (c : Conn σ) (h : Conn.runs S s c) :
    Conn.runs S s (Call.ResManRegisterRes S t p f c).2 :=
  runsFrom_snoc S _ _ _ _ _ h rfl

theorem runs_ResManFindPrivateDataByPtr {σ : Type} (S : Services σ) (s : σ) (i : Nat)
    (c : Conn σ) (h : Conn.runs S s c) :
    Conn.runs S s (Call.ResManFindPrivateDataByPtr S i c).2 :=
  runsFrom_snoc S _ _ _ _ _ h rfl

theorem runs_ResManFreeResByPtr {σ : Type} (S : Services σ) (s : σ) (i : Nat)
    (c : Conn σ) (h : Conn.runs S s c) :
    Conn.runs S s (Call.ResManFreeResByPtr S i c).2 :=
  runsFrom_snoc S _ _ _ _ _ h rfl

theorem runs_domain {σ : Type} (S : Services σ) (s : σ) (fn : DomainFn) (args : List Nat)
    (c : Conn σ) (h : Conn.runs S s c) :
    Conn.runs S s (Call.domain S fn args c).2 :=
  runsFrom_snoc S _ _ _ _ _ h rfl

theorem runs_lookupFreeLists {σ : Type} (S : Services σ) (s : σ) (hs : List Nat) :
    ∀ (n i : Nat) (ps : List Nat) (c : Conn σ), Conn.runs S s c →
      Conn.runs S s (lookupFreeLists S hs n i ps c).2 := by
  intro n
  induction n with
  | zero => intro i ps c h; exact h
  | succ n ih =>
    intro i ps c h
    simp only [lookupFreeLists]
    split
    · exact runs_PVRSRVLookupHandle S s _ _ c h
    · split
      · exact runs_ResManFindPrivateDataByPtr S s _ _
          (runs_PVRSRVLookupHandle S s _ _ c h)
      · exact ih _ _ _ (runs_ResManFindPrivateDataByPtr S s _ _
          (runs_PVRSRVLookupHandle S s _ _ c h))

theorem runs_ite {σ α : Type} (S : Services σ) (s : σ) (p : Prop) [Decidable p]
    (a b : α × Conn σ) (ha : p → Conn.runs S s a.2) (hb : ¬ p → Conn.runs S s b.2) :
    Conn.runs S s (if p then a else b).2 := by
  split
  · exact ha ‹_›
  · exact hb ‹_›

theorem RGXCreateFreeList_exit_runs {σ : Type} (S : Services σ) (s : σ)
    (OUT : PVRSRV_BRIDGE_OUT_RGXCREATEFREELIST) (a b : Nat) (c : Conn σ)
    (h : Conn.runs S s c) : Conn.runs S s (RGXCreateFreeList_exit S OUT a b c).2 := by
  unfold RGXCreateFreeList_exit
  split_ifs
  all_goals first
    | exact h
    | exact runs_ResManFreeResByPtr S s _ _ h
    | exact runs_domain S s _ _ _ h

theorem RGXCreateFreeList_runs {σ : Type} (S : Services σ) (s : σ)
    (IN : PVRSRV_BRIDGE_IN_RGXCREATEFREELIST) (OUT0 : PVRSRV_BRIDGE_OUT_RGXCREATEFREELIST) :
    Conn.runs S s (PVRSRVBridgeRGXCreateFreeList S IN OUT0 s).2 := by
  unfold PVRSRVBridgeRGXCreateFreeList
  dsimp only
  split_ifs
  all_goals
    apply RGXCreateFreeList_exit_runs
    repeat first
      | with_reducible exact runs_init S s
      | with_reducible apply runs_PVRSRVLookupHandle
      | with_reducible apply runs_ResManFindPrivateDataByPtr
      | with_reducible apply runs_domain
      | with_reducible apply runs_ResManRegisterRes
      | with_reducible apply runs_PVRSRVAllocHandle
      | with_reducible apply runs_PVRSRVAllocSubHandle
      | with_reducible apply runs_copyInFails
      | with_reducible apply runs_OSAllocMem
      | with_reducible apply runs_lookupFreeLists

theorem RGXCreateHWRTData_exit_runs {σ : Type} (S : Services σ) (s : σ)
    (OUT : PVRSRV_BRIDGE_OUT_RGXCREATEHWRTDATA) (a0 a1 a2 a3 : Nat) (c : Conn σ)
    (h : Conn.runs S s c) : Conn.runs S s (RGXCreateHWRTData_exit S OUT a0 a1 a2 a3 c).2 := by
  unfold RGXCreateHWRTData_exit
  try dsimp only
  split_ifs
  all_goals
    repeat first
      | with_reducible exact h
      | with_reducible apply runs_OSFreeMem
      | with_reducible apply runs_ResManFreeResByPtr
      | with_reducible apply runs_domain
      | with_reducible apply runs_PVRSRVReleaseHandle

theorem RGXCreateHWRTData_runs {σ : Type} (S : Services σ) (s : σ) (B : BridgeConsts)
    (IN : PVRSRV_BRIDGE_IN_RGXCREATEHWRTDATA) (OUT0 : PVRSRV_BRIDGE_OUT_RGXCREATEHWRTDATA) :
    Conn.runs S s (PVRSRVBridgeRGXCreateHWRTData B S IN OUT0 s).2 := by
  unfold PVRSRVBridgeRGXCreateHWRTData
  dsimp only
  repeat' first
    | with_reducible exact runs_init S s
    | with_reducible apply RGXCreateHWRTData_exit_runs
    | with_reducible apply runs_PVRSRVLookupHandle
    | with_reducible apply runs_ResManFindPrivateDataByPtr
    | with_reducible apply runs_domain
    | with_reducible apply runs_ResManRegisterRes
    | with_reducible apply runs_PVRSRVAllocHandle
    | with_reducible apply runs_PVRSRVAllocSubHandle
    | with_reducible apply runs_copyInFails
    | with_reducible apply runs_OSAllocMem
    | with_reducible apply runs_lookupFreeLists
    | (with_reducible apply runs_ite <;> intro _)
    | split

theorem RGXCreateRenderTarget_exit_runs {σ : Type} (S : Services σ) (s : σ)
    (OUT : PVRSRV_BRIDGE_OUT_RGXCREATERENDERTARGET) (a0 a1 : Nat) (c : Conn σ)
    (h : Conn.runs S s c) : Conn.runs S s (RGXCreateRenderTarget_exit S OUT a0 a1 c).2 := by
  unfold RGXCreateRenderTarget_exit
  try dsimp only
  split_ifs
  all_goals
    repeat first
      | with_reducible exact h
      | with_reducible apply runs_OSFreeMem
      | with_reducible apply runs_ResManFreeResByPtr
      | with_reducible apply runs_domain
      | with_reducible apply runs_PVRSRVReleaseHandle

theorem RGXCreateRenderTarget_runs {σ : Type} (S : Services σ) (s : σ)
    (IN : PVRSRV_BRIDGE_IN_RGXCREATERENDERTARGET) (OUT0 : PVRSRV_BRIDGE_OUT_RGXCREATERENDERTARGET) :
    Conn.runs S s (PVRSRVBridgeRGXCreateRenderTarget S IN OUT0 s).2 := by
  unfold PVRSRVBridgeRGXCreateRenderTarget
  dsimp only
  repeat' first
    | with_reducible exact runs_init S s
    | with_reducible apply RGXCreateRenderTarget_exit_runs
    | with_reducible apply runs_PVRSRVLookupHandle
    | with_reducible apply runs_ResManFindPrivateDataByPtr
    | with_reducible apply runs_domain
    | with_reducible apply runs_ResManRegisterRes
    | with_reducible apply runs_PVRSRVAllocHandle
    | with_reducible apply runs_PVRSRVAllocSubHandle
    | with_reducible apply runs_copyInFails
    | with_reducible apply runs_OSAllocMem
    | with_reducible apply runs_lookupFreeLists
    | (with_reducible apply runs_ite <;> intro _)

theorem RGXCreateZSBuffer_exit_runs {σ : Type} (S : Services σ) (s : σ)
    (OUT : PVRSRV_BRIDGE_OUT_RGXCREATEZSBUFFER) (a0 a1 : Nat) (c : Conn σ)
    (h : Conn.runs S s c) : Conn.runs S s (RGXCreateZSBuffer_exit S OUT a0 a1 c).2 := by
  unfold RGXCreateZSBuffer_exit
  try dsimp only
  split_ifs
  all_goals
    repeat first
      | with_reducible exact h
      | with_reducible apply runs_OSFreeMem
      | with_reducible apply runs_ResManFreeResByPtr
      | with_reducible apply runs_domain
      | with_reducible apply runs_PVRSRVReleaseHandle

theorem RGXCreateZSBuffer_runs {σ : Type} (S : Services σ) (s : σ)
    (IN : PVRSRV_BRIDGE_IN_RGXCREATEZSBUFFER) (OUT0 : PVRSRV_BRIDGE_OUT_RGXCREATEZSBUFFER) :
    Conn.runs S s (PVRSRVBridgeRGXCreateZSBuffer S IN OUT0 s).2 := by
  unfold PVRSRVBridgeRGXCreateZSBuffer
  dsimp only
  repeat' first
    | with_reducible exact runs_init S s
    | with_reducible apply RGXCreateZSBuffer_exit_runs
    | with_reducible apply runs_PVRSRVLookupHandle
    | with_reducible apply runs_ResManFindPrivateDataByPtr
    | with_reducible apply runs_domain
    | with_reducible apply runs_ResManRegisterRes
    | with_reducible apply runs_PVRSRVAllocHandle
    | with_reducible apply runs_PVRSRVAllocSubHandle
    | with_reducible apply runs_copyInFails
    | with_reducible apply runs_OSAllocMem
    | with_reducible apply runs_lookupFreeLists
    | (with_reducible apply runs_ite <;> intro _)

theorem RGXPopulateZSBuffer_exit_runs {σ : Type} (S : Services σ) (s : σ)
    (OUT : PVRSRV_BRIDGE_OUT_RGXPOPULATEZSBUFFER) (a0 a1 : Nat) (c : Conn σ)
    (h : Conn.runs S s c) : Conn.runs S s (RGXPopulateZSBuffer_exit S OUT a0 a1 c).2 := by
  unfold RGXPopulateZSBuffer_exit
  try dsimp only
  split_ifs
  all_goals
    repeat first
      | with_reducible exact h
      | with_reducible apply runs_OSFreeMem
      | with_reducible apply runs_ResManFreeResByPtr
      | with_reducible apply runs_domain
      | with_reducible apply runs_PVRSRVReleaseHandle

theorem RGXPopulateZSBuffer_runs {σ : Type} (S : Services σ) (s : σ)
    (IN : PVRSRV_BRIDGE_IN_RGXPOPULATEZSBUFFER) (OUT0 : PVRSRV_BRIDGE_OUT_RGXPOPULATEZSBUFFER) :
    Conn.runs S s (PVRSRVBridgeRGXPopulateZSBuffer S IN OUT0 s).2 := by
  unfold PVRSRVBridgeRGXPopulateZSBuffer
  dsimp only
  repeat' first
    | with_reducible exact runs_init S s
    | with_reducible apply RGXPopulateZSBuffer_exit_runs
    | with_reducible apply runs_PVRSRVLookupHandle
    | with_reducible apply runs_ResManFindPrivateDataByPtr
    | with_reducible apply runs_domain
    | with_reducible apply runs_ResManRegisterRes
    | with_reducible apply runs_PVRSRVAllocHandle
    | with_reducible apply runs_PVRSRVAllocSubHandle
    | with_reducible apply runs_copyInFails
    | with_reducible apply runs_OSAllocMem
    | with_reducible apply runs_lookupFreeLists
    | (with_reducible apply runs_ite <;> intro _)

theorem RGXCreateRenderContext_exit_runs {σ : Type} (S : Services σ) (s : σ)
    (OUT : PVRSRV_BRIDGE_OUT_RGXCREATERENDERCONTEXT) (a0 a1 a2 : Nat) (c : Conn σ)
    (h : Conn.runs S s c) : Conn.runs S s (RGXCreateRenderContext_exit S OUT a0 a1 a2 c).2 := by
  unfold RGXCreateRenderContext_exit
  try dsimp only
  split_ifs
  all_goals
    repeat first
      | with_reducible exact h
      | with_reducible apply runs_OSFreeMem
      | with_reducible apply runs_ResManFreeResByPtr
      | with_reducible apply runs_domain
      | with_reducible apply runs_PVRSRVReleaseHandle

set_option maxHeartbeats 1000000 in
theorem RGXCreateRenderContext_runs {σ : Type} (S : Services σ) (s : σ) (B : BridgeConsts)
    (IN : PVRSRV_BRIDGE_IN_RGXCREATERENDERCONTEXT) (OUT0 : PVRSRV_BRIDGE_OUT_RGXCREATERENDERCONTEXT) :
    Conn.runs S s (PVRSRVBridgeRGXCreateRenderContext B S IN OUT0 s).2 := by
  unfold PVRSRVBridgeRGXCreateRenderContext
  dsimp only
  repeat' first
    | with_reducible exact runs_init S s
    | with_reducible apply RGXCreateRenderContext_exit_runs
    | with_reducible apply runs_PVRSRVLookupHandle
    | with_reducible apply runs_ResManFindPrivateDataByPtr
    | with_reducible apply runs_domain
    | with_reducible apply runs_ResManRegisterRes
    | with_reducible apply runs_PVRSRVAllocHandle
    | with_reducible apply runs_PVRSRVAllocSubHandle
    | with_reducible apply runs_copyInFails
    | with_reducible apply runs_OSAllocMem
    | (with_reducible apply runs_ite <;> intro _)

/-! ## Runs of the model of the collaborators -/

theorem World.sameRegistry_refl (w : World) : w.sameRegistry w := rfl

theorem World.sameRegistry_trans {a b c : World} (h1 : a.sameRegistry b)
    (h2 : b.sameRegistry c) : a.sameRegistry c := by
  unfold World.sameRegistry at *
  rw [h2, h1]

theorem World.sameRegistry_fields {w v : World} (h : w.sameRegistry v) :
    v.handles = w.handles ∧ v.handlesMade = w.handlesMade ∧ v.handleBudget = w.handleBudget
    ∧ v.items = w.items ∧ v.itemsMade = w.itemsMade ∧ v.itemBudget = w.itemBudget
    ∧ v.objects = w.objects ∧ v.objectsMade = w.objectsMade
    ∧ v.createResult = w.createResult ∧ v.dependents = w.dependents
    ∧ v.destructorRuns = w.destructorRuns := by
  unfold World.sameRegistry at h
  refine ⟨?_, ?_, ?_, ?_, ?_, ?_, ?_, ?_, ?_, ?_, ?_⟩ <;> (rw [h])

theorem World.sameRegistry_wellFormed {w v : World} (h : w.sameRegistry v)
    (hw : w.wellFormed) : v.wellFormed := by
  obtain ⟨h1, h2, _, h4, h5, _, h7, h8, _⟩ := World.sameRegistry_fields h
  unfold World.wellFormed at *
  rw [h1, h2, h4, h5, h7, h8]
  exact hw

theorem step_noEffect (w w1 : World) (ev : BridgeCall) (he : ev.isEffect = false)
    (h : ev.step specServices w w1) : w.sameRegistry w1 := by
  cases ev with
  | OSAllocMem size ret =>
    have h1 : w1 = (w.allocMem size).2 := by
      have : w.allocMem size = (ret, w1) := h
      rw [this]
    rw [h1]
    unfold World.allocMem
    split <;> rfl
  | OSFreeMem p =>
    have h1 : w = w1 := h
    rw [h1]
    rfl
  | OSAccessOK src size ret =>
    rw [h.2]
    rfl
  | OSCopyFromUser dst src size ret =>
    obtain ⟨x, hx⟩ := h
    have h1 : w1 = w := by
      have : ((PVRSRV_ERROR.PVRSRV_OK, w.userWords), w) = ((ret, x), w1) := hx
      exact (congrArg Prod.snd this).symm
    rw [h1]
    rfl
  | PVRSRVLookupHandle x t ret data =>
    have h1 : w1 = (w.lookup x t).2 := by
      have : w.lookup x t = ((ret, data), w1) := h
      rw [this]
    rw [h1, World.lookup_state]
    rfl
  | ResManFindPrivateDataByPtr i ret data =>
    have h1 : w1 = (w.findPrivateData i).2 := by
      have : w.findPrivateData i = ((ret, data), w1) := h
      rw [this]
    rw [h1, World.findPrivateData_state]
    rfl
  | PVRSRVAllocHandle _ _ _ _ => cases he
  | PVRSRVAllocSubHandle _ _ _ _ _ => cases he
  | PVRSRVReleaseHandle _ _ _ => cases he
  | ResManRegisterRes _ _ _ _ => cases he
  | ResManFreeResByPtr _ _ => cases he
  | domain _ _ _ _ => cases he

theorem runsFrom_dropWhile :
    ∀ (l : List BridgeCall) (w w1 : World), runsFrom specServices w l w1 →
      ∃ w5, w.sameRegistry w5
        ∧ runsFrom specServices w5 (l.dropWhile (fun c => !c.isEffect)) w1 := by
  intro l
  induction l with
  | nil =>
    intro w w1 h
    exact ⟨w, World.sameRegistry_refl w, h⟩
  | cons ev l ih =>
    intro w w1 h
    by_cases he : ev.isEffect = true
    · refine ⟨w, World.sameRegistry_refl w, ?_⟩
      simp only [List.dropWhile_cons, he, Bool.not_true, Bool.false_eq_true, if_false]
      exact h
    · have he1 : ev.isEffect = false := by simpa using he
      obtain ⟨w2, h1, h2⟩ := h
      obtain ⟨w5, h3, h4⟩ := ih w2 w1 h2
      refine ⟨w5, World.sameRegistry_trans (step_noEffect w w2 ev he1 h1) h3, ?_⟩
      simp only [List.dropWhile_cons, he1, Bool.not_false, if_true]
      exact h4

theorem dropWhile_noEffect_append (l1 l2 : List BridgeCall) (h : noEffect l1) :
    (l1 ++ l2).dropWhile (fun c => !c.isEffect) = l2.dropWhile (fun c => !c.isEffect) := by
  induction l1 with
  | nil => rfl
  | cons x l ih =>
    have hx : x.isEffect = false := h x (List.mem_cons_self _ _)
    have hl : noEffect l := fun y hy => h y (List.mem_cons_of_mem _ hy)
    simp only [List.cons_append, List.dropWhile_cons, hx, Bool.not_false, if_true]
    exact ih hl

theorem runsFrom_onlyOSFreeMem :
    ∀ (l : List BridgeCall) (w w1 : World), onlyOSFreeMem l →
      runsFrom specServices w l w1 → w1 = w := by
  intro l
  induction l with
  | nil => intro w w1 _ h; exact h
  | cons ev l ih =>
    intro w w1 ho h
    have hev : ev.isOSFreeMem = true := ho ev (List.mem_cons_self _ _)
    have hl : onlyOSFreeMem l := fun y hy => ho y (List.mem_cons_of_mem _ hy)
    obtain ⟨w2, h1, h2⟩ := h
    cases ev <;> simp [BridgeCall.isOSFreeMem] at hev
    have h3 : w = w2 := h1
    rw [h3]
    exact ih w2 w1 hl h2

theorem onlyOSFreeMem_cleanupCalls_ok (T : PVRSRV_HANDLE_TYPE) (D : DomainFn)
    (h i o : Nat) (ps : List Nat) (rr fr de : PVRSRV_ERROR) (dout : List Nat) :
    onlyOSFreeMem (cleanupCalls T D PVRSRV_ERROR.PVRSRV_OK h i o ps rr fr de dout) := by
  have e : cleanupCalls T D PVRSRV_ERROR.PVRSRV_OK h i o ps rr fr de dout
      = (ps.filter (fun p => decide (p ≠ 0))).map BridgeCall.OSFreeMem := by
    simp [cleanupCalls]
  rw [e]
  intro c hc
  obtain ⟨p, _, rfl⟩ := List.mem_map.mp hc
  rfl

theorem World.domain_createFn_inv (req : CreateRequest) (w w1 : World) (args outs : List Nat)
    (h : w.domain req.createFn args = ((PVRSRV_ERROR.PVRSRV_OK, outs), w1)) :
    outs = [w.objectsMade + 1, w.objectsMade + 1, w.objectsMade + 1, w.objectsMade + 1]
    ∧ w1 = { w with objects := w.objects ++ [w.objectsMade + 1]
                    objectsMade := w.objectsMade + 1 } := by
  have key : ∀ r : (PVRSRV_ERROR × List Nat) × World,
      (if w.createResult ≠ PVRSRV_ERROR.PVRSRV_OK then ((w.createResult, []), w)
       else ((PVRSRV_ERROR.PVRSRV_OK,
              [w.objectsMade + 1, w.objectsMade + 1, w.objectsMade + 1, w.objectsMade + 1]),
             { w with objects := w.objects ++ [w.objectsMade + 1]
                      objectsMade := w.objectsMade + 1 })) = r →
      r.1.1 = PVRSRV_ERROR.PVRSRV_OK →
      r.1.2 = [w.objectsMade + 1, w.objectsMade + 1, w.objectsMade + 1, w.objectsMade + 1]
      ∧ r.2 = { w with objects := w.objects ++ [w.objectsMade + 1]
                       objectsMade := w.objectsMade + 1 } := by
    intro r hr hok
    split at hr
    · next hc =>
      rw [← hr] at hok
      exact absurd hok hc
    · rw [← hr]
      exact ⟨rfl, rfl⟩
  cases req <;> exact key _ h rfl

theorem World.register_inv (w w1 : World) (t : RESMAN_TYPE) (p : Nat) (f : DomainFn) (i : Nat)
    (h : w.register t p f = (i, w1)) (hi : i ≠ 0) :
    i = w.itemsMade + 1
    ∧ w1 = { w with items := w.items ++
                      [{ item := w.itemsMade + 1, eType := t, param := p, pfnFree := f }]
                    itemsMade := w.itemsMade + 1
                    itemBudget := w.itemBudget - 1 } := by
  unfold World.register at h
  split at h
  · exact absurd (congrArg Prod.fst h).symm hi
  · exact ⟨(congrArg Prod.fst h).symm, (congrArg Prod.snd h).symm⟩

theorem World.allocHandle_inv (w w1 : World) (d : Nat) (t : PVRSRV_HANDLE_TYPE) (p h : Nat)
    (h0 : w.allocHandle d t p = ((PVRSRV_ERROR.PVRSRV_OK, h), w1)) :
    h = w.handlesMade + 1
    ∧ w1 = { w with handles := w.handles ++
                      [{ handle := w.handlesMade + 1, eType := t, data := d, parent := p }]
                    handlesMade := w.handlesMade + 1
                    handleBudget := w.handleBudget - 1 } := by
  unfold World.allocHandle at h0
  split at h0
  · have := congrArg (fun r => r.1.1) h0
    simp at this
  · exact ⟨(congrArg (fun r => r.1.2) h0).symm, (congrArg Prod.snd h0).symm⟩

theorem World.allocHandle_inv_fail (w w1 : World) (d : Nat) (t : PVRSRV_HANDLE_TYPE)
    (p h : Nat) (e : PVRSRV_ERROR) (h0 : w.allocHandle d t p = ((e, h), w1))
    (he : e ≠ PVRSRV_ERROR.PVRSRV_OK) : h = 0 ∧ w1 = w := by
  unfold World.allocHandle at h0
  split at h0
  · exact ⟨(congrArg (fun r => r.1.2) h0).symm, (congrArg Prod.snd h0).symm⟩
  · exact absurd (congrArg (fun r => r.1.1) h0).symm he

theorem World.freeByItem_handles (i : Nat) (w : World) :
    (w.freeByItem i).2.handles = w.handles ∧ (w.freeByItem i).2.handlesMade = w.handlesMade := by
  unfold World.freeByItem
  split
  · exact ⟨rfl, rfl⟩
  · dsimp only
    unfold World.destroy
    split_ifs <;> exact ⟨rfl, rfl⟩

theorem filter_handles_fresh (hs : List HandleEntry) (m : Nat) (dead : List Nat)
    (hfresh : ∀ e ∈ hs, e.handle ≤ m ∧ e.parent ≤ m) (hdead : ∀ x ∈ dead, m < x) :
    hs.filter (fun e => decide (e.handle ∉ dead)) = hs
    ∧ hs.filter (fun e => decide (e.parent ∈ dead)) = [] := by
  constructor
  · rw [List.filter_eq_self]
    intro e he
    have h1 := (hfresh e he).1
    simp only [decide_eq_true_eq]
    intro hc
    have := hdead _ hc
    omega
  · rw [List.filter_eq_nil_iff]
    intro e he
    have h1 := (hfresh e he).2
    simp only [decide_eq_true_eq]
    intro hc
    have := hdead _ hc
    omega

theorem cascade_fresh (hs kids : List HandleEntry) (m : Nat) (e1 : HandleEntry)
    (hfresh : ∀ e ∈ hs, e.handle ≤ m ∧ e.parent ≤ m)
    (h1 : e1.handle = m + 1)
    (hkids : ∀ k ∈ kids, k.parent = m + 1 ∧ m + 1 < k.handle) :
    World.cascade (hs ++ e1 :: kids).length (hs ++ e1 :: kids) [m + 1] = hs := by
  obtain ⟨f1, f2⟩ := filter_handles_fresh hs m [m + 1] hfresh (by simp)
  have hk1 : kids.filter (fun e => decide (e.handle ∉ [m + 1])) = kids := by
    rw [List.filter_eq_self]
    intro k hk
    have := (hkids k hk).2
    simp only [List.mem_singleton, decide_eq_true_eq]
    omega
  have hk2 : kids.filter (fun e => decide (e.parent ∈ [m + 1])) = kids := by
    rw [List.filter_eq_self]
    intro k hk
    have := (hkids k hk).1
    simp only [List.mem_singleton, decide_eq_true_eq]
    exact this
  have hrest : (hs ++ e1 :: kids).filter (fun e => decide (e.handle ∉ [m + 1])) = hs ++ kids := by
    rw [List.filter_append, f1, List.filter_cons, hk1]
    simp [h1]
  have hlen : (hs ++ e1 :: kids).length = (hs.length + kids.length) + 1 := by
    simp only [List.length_append, List.length_cons]
    omega
  rw [hlen]
  simp only [World.cascade, hrest, List.filter_append, f2, hk2, List.nil_append]
  cases kids with
  | nil => simp
  | cons k ks =>
    simp only [List.map_cons, reduceCtorEq, if_false, List.length_cons]
    obtain ⟨g1, g2⟩ := filter_handles_fresh hs m ((k :: ks).map (fun e => e.handle)) hfresh
      (by
        intro x hx
        obtain ⟨y, hy, rfl⟩ := List.mem_map.mp hx
        have := (hkids y hy).2
        omega)
    have hk3 : (k :: ks).filter (fun e => decide (e.handle ∉ (k :: ks).map (fun e => e.handle)))
        = [] := by
      rw [List.filter_eq_nil_iff]
      intro y hy
      simp only [decide_eq_true_eq, not_not]
      exact List.mem_map.mpr ⟨y, hy, rfl⟩
    have hlen2 : hs.length + (ks.length + 1) = (hs.length + ks.length) + 1 := by omega
    rw [hlen2]
    simp only [World.cascade]
    simp only [List.map_cons] at g1 g2 hk3
    rw [List.filter_append, g1, hk3, List.append_nil, g2]
    simp

theorem destroyWith_fresh (w4 : World) (hs kids : List HandleEntry) (m : Nat)
    (T : PVRSRV_HANDLE_TYPE) (i p0 : Nat) (its : List ResManItem) (RT : RESMAN_TYPE) (o : Nat)
    (D : DomainFn)
    (hH : w4.handles = hs ++ { handle := m + 1, eType := T, data := i, parent := p0 } :: kids)
    (hfresh : ∀ e ∈ hs, e.handle ≤ m ∧ e.parent ≤ m)
    (hkids : ∀ k ∈ kids, k.parent = m + 1 ∧ m + 1 < k.handle)
    (hI : w4.items = its ++ [{ item := i, eType := RT, param := o, pfnFree := D }])
    (hits : ∀ x ∈ its, x.item ≠ i)
    (hD : o ∉ w4.dependents) :
    (destroyWith specServices (m + 1) T w4).1 = PVRSRV_ERROR.PVRSRV_OK
    ∧ (destroyWith specServices (m + 1) T w4).2.s.handles = hs
    ∧ (destroyWith specServices (m + 1) T w4).2.s.items = its
    ∧ (destroyWith specServices (m + 1) T w4).2.s.destructorRuns
        = w4.destructorRuns ++ [(D, o, PVRSRV_ERROR.PVRSRV_OK)]
    ∧ (destroyWith specServices (m + 1) T w4).2.calls
        = [BridgeCall.PVRSRVLookupHandle (m + 1) T PVRSRV_ERROR.PVRSRV_OK i,
           BridgeCall.ResManFreeResByPtr i PVRSRV_ERROR.PVRSRV_OK,
           BridgeCall.PVRSRVReleaseHandle (m + 1) T PVRSRV_ERROR.PVRSRV_OK] := by
  have hfind : w4.handles.find? (fun e => decide (e.handle = m + 1 ∧ e.eType = T))
      = some { handle := m + 1, eType := T, data := i, parent := p0 } := by
    rw [hH, List.find?_append]
    have hnone : hs.find? (fun e => decide (e.handle = m + 1 ∧ e.eType = T)) = none := by
      rw [List.find?_eq_none]
      intro e he
      have := (hfresh e he).1
      simp only [decide_eq_true_eq, not_and]
      intro hc
      omega
    rw [hnone]
    simp
  have hlook : w4.lookup (m + 1) T = ((PVRSRV_ERROR.PVRSRV_OK, i), w4) := by
    unfold World.lookup
    rw [hfind]
  have hitem : w4.items.find? (fun it => decide (it.item = i))
      = some { item := i, eType := RT, param := o, pfnFree := D } := by
    rw [hI, List.find?_append]
    have hnone : its.find? (fun it => decide (it.item = i)) = none := by
      rw [List.find?_eq_none]
      intro x hx
      simpa using hits x hx
    rw [hnone]
    simp
  have hfilter : w4.items.filter (fun x => decide (x.item ≠ i)) = its := by
    rw [hI, List.filter_append]
    have : its.filter (fun x => decide (x.item ≠ i)) = its := by
      rw [List.filter_eq_self]
      intro x hx
      simpa using hits x hx
    rw [this]
    simp
  have hfree : w4.freeByItem i
      = (PVRSRV_ERROR.PVRSRV_OK,
         { w4 with objects := w4.objects.filter (fun x => decide (x ≠ o))
                   destructorRuns := w4.destructorRuns ++ [(D, o, PVRSRV_ERROR.PVRSRV_OK)]
                   items := its }) := by
    unfold World.freeByItem
    rw [hitem]
    simp only [World.destroy, hD, if_false, reduceCtorEq, hfilter]
  have hany : w4.handles.any (fun e => decide (e.handle = m + 1 ∧ e.eType = T)) = true := by
    rw [hH]
    simp
  have hcas : World.cascade w4.handles.length w4.handles [m + 1] = hs := by
    rw [hH]
    exact cascade_fresh hs kids m _ hfresh rfl hkids
  unfold destroyWith
  simp only [Call.PVRSRVLookupHandle, Call.ResManFreeResByPtr, Call.PVRSRVReleaseHandle,
    svc_lookup, svc_free, hlook, hfree, ne_eq, not_true_eq_false, if_false]
  have hrel : specServices.PVRSRVReleaseHandle (m + 1) T
      { w4 with objects := w4.objects.filter (fun x => decide (x ≠ o))
                destructorRuns := w4.destructorRuns ++ [(D, o, PVRSRV_ERROR.PVRSRV_OK)]
                items := its }
      = (PVRSRV_ERROR.PVRSRV_OK,
         { w4 with objects := w4.objects.filter (fun x => decide (x ≠ o))
                   destructorRuns := w4.destructorRuns ++ [(D, o, PVRSRV_ERROR.PVRSRV_OK)]
                   items := its
                   handles := hs }) := by
    show World.release _ _ _ = _
    unfold World.release
    simp only [hany, if_true, hcas]
  rw [hrel]
  exact ⟨rfl, rfl, rfl, rfl, rfl⟩

theorem create_core (req : CreateRequest) (w5 w1 : World) {args outs : List Nat}
    {RT : RESMAN_TYPE} {D : DomainFn} {item h : Nat} {T : PVRSRV_HANDLE_TYPE}
    {l : List BridgeCall}
    (hrun : runsFrom specServices w5
      (BridgeCall.domain req.createFn args PVRSRV_ERROR.PVRSRV_OK outs
        :: BridgeCall.ResManRegisterRes RT (outs.getD 0 0) D item
        :: BridgeCall.PVRSRVAllocHandle item T PVRSRV_ERROR.PVRSRV_OK h :: l) w1)
    (hi : item ≠ 0) :
    ∃ w4, runsFrom specServices w4 l w1
      ∧ h = w5.handlesMade + 1 ∧ item = w5.itemsMade + 1
      ∧ outs = [w5.objectsMade + 1, w5.objectsMade + 1, w5.objectsMade + 1, w5.objectsMade + 1]
      ∧ w4.handles = w5.handles ++
          [{ handle := w5.handlesMade + 1, eType := T, data := item, parent := 0 }]
      ∧ w4.handlesMade = w5.handlesMade + 1
      ∧ w4.items = w5.items ++
          [{ item := w5.itemsMade + 1, eType := RT, param := w5.objectsMade + 1, pfnFree := D }]
      ∧ w4.dependents = w5.dependents ∧ w4.destructorRuns = w5.destructorRuns := by
  obtain ⟨w2, h1, w3, h2, w4, h3, h4⟩ := hrun
  have h1' : w5.domain req.createFn args = ((PVRSRV_ERROR.PVRSRV_OK, outs), w2) := h1
  obtain ⟨ho, hw2⟩ := World.domain_createFn_inv req w5 w2 args outs h1'
  have h2' : w2.register RT (outs.getD 0 0) D = (item, w3) := h2
  obtain ⟨hit, hw3⟩ := World.register_inv w2 w3 RT _ D item h2' hi
  have h3' : w3.allocHandle item T 0 = ((PVRSRV_ERROR.PVRSRV_OK, h), w4) := h3
  obtain ⟨hh, hw4⟩ := World.allocHandle_inv w3 w4 item T 0 h h3'
  subst hw2 hw3 hw4
  subst ho
  refine ⟨_, h4, hh, hit, rfl, ?_, rfl, ?_, rfl, rfl⟩
  · show w5.handles ++ _ = _
    rfl
  · show w5.items ++ _ = _
    rfl

theorem sub_step_ok (w w1 : World) {d : Nat} {T : PVRSRV_HANDLE_TYPE} {p h : Nat}
    {l : List BridgeCall}
    (hrun : runsFrom specServices w
      (BridgeCall.PVRSRVAllocSubHandle d T p PVRSRV_ERROR.PVRSRV_OK h :: l) w1) :
    ∃ w2, runsFrom specServices w2 l w1
      ∧ h = w.handlesMade + 1
      ∧ w2.handles = w.handles ++ [{ handle := w.handlesMade + 1, eType := T, data := d,
                                     parent := p }]
      ∧ w2.handlesMade = w.handlesMade + 1
      ∧ w2.items = w.items ∧ w2.dependents = w.dependents
      ∧ w2.destructorRuns = w.destructorRuns := by
  obtain ⟨w2, h1, h2⟩ := hrun
  have h1' : w.allocHandle d T p = ((PVRSRV_ERROR.PVRSRV_OK, h), w2) := h1
  obtain ⟨hh, hw2⟩ := World.allocHandle_inv w w2 d T p h h1'
  subst hw2
  exact ⟨_, h2, hh, rfl, rfl, rfl, rfl, rfl⟩

theorem sub_step_fail (w w1 : World) {d : Nat} {T : PVRSRV_HANDLE_TYPE} {p h : Nat}
    {e : PVRSRV_ERROR} {l : List BridgeCall}
    (hrun : runsFrom specServices w (BridgeCall.PVRSRVAllocSubHandle d T p e h :: l) w1)
    (he : e ≠ PVRSRV_ERROR.PVRSRV_OK) :
    runsFrom specServices w l w1 ∧ h = 0 := by
  obtain ⟨w2, h1, h2⟩ := hrun
  have h1' : w.allocHandle d T p = ((e, h), w2) := h1
  obtain ⟨hh, hw2⟩ := World.allocHandle_inv_fail w w2 d T p h e h1' he
  subst hw2
  exact ⟨h2, hh⟩

theorem cleanupCalls_error (T : PVRSRV_HANDLE_TYPE) (D : DomainFn) (e : PVRSRV_ERROR)
    (h i o : Nat) (ps : List Nat) (rr fr de : PVRSRV_ERROR) (dout : List Nat)
    (he : e ≠ PVRSRV_ERROR.PVRSRV_OK) (hi : i ≠ 0) :
    cleanupCalls T D e h i o ps rr fr de dout
      = (if h ≠ 0 then [BridgeCall.PVRSRVReleaseHandle h T rr] else [])
        ++ BridgeCall.ResManFreeResByPtr i fr
        :: (ps.filter (fun p => decide (p ≠ 0))).map BridgeCall.OSFreeMem := by
  unfold cleanupCalls
  simp [he, hi]

theorem unwind_core (w4 w1 : World) (hs kids : List HandleEntry) (m : Nat)
    (T : PVRSRV_HANDLE_TYPE) (D : DomainFn) (e : PVRSRV_ERROR) (i d0 p0 o : Nat)
    (ps : List Nat) (rr fr de : PVRSRV_ERROR) (dout : List Nat)
    (hH : w4.handles = hs ++ { handle := m + 1, eType := T, data := d0, parent := p0 } :: kids)
    (hfresh : ∀ x ∈ hs, x.handle ≤ m ∧ x.parent ≤ m)
    (hkids : ∀ k ∈ kids, k.parent = m + 1 ∧ m + 1 < k.handle)
    (he : e ≠ PVRSRV_ERROR.PVRSRV_OK) (hi : i ≠ 0)
    (hrun : runsFrom specServices w4 (cleanupCalls T D e (m + 1) i o ps rr fr de dout) w1) :
    w1.handles = hs ∧ rr = PVRSRV_ERROR.PVRSRV_OK := by
  rw [cleanupCalls_error T D e (m + 1) i o ps rr fr de dout he hi] at hrun
  simp only [ne_eq, Nat.add_one_ne_zero, not_false_eq_true, if_true, List.singleton_append]
    at hrun
  obtain ⟨w5, h1, w6, h2, h3⟩ := hrun
  have h1' : w4.release (m + 1) T = (rr, w5) := h1
  have hany : w4.handles.any (fun x => decide (x.handle = m + 1 ∧ x.eType = T)) = true := by
    rw [hH]
    simp
  have hcas : World.cascade w4.handles.length w4.handles [m + 1] = hs := by
    rw [hH]
    exact cascade_fresh hs kids m _ hfresh rfl hkids
  unfold World.release at h1'
  simp only [hany, if_true, hcas] at h1'
  have hw5 : w5 = { w4 with handles := hs } := (congrArg Prod.snd h1').symm
  have hrr : rr = PVRSRV_ERROR.PVRSRV_OK := (congrArg Prod.fst h1').symm
  have h2' : w5.freeByItem i = (fr, w6) := h2
  have hw6 : w6.handles = w5.handles := by
    have := (World.freeByItem_handles i w5).1
    rw [h2'] at this
    exact this
  have hfin : w1 = w6 := runsFrom_onlyOSFreeMem _ w6 w1 (by
    intro c hc
    obtain ⟨p, _, rfl⟩ := List.mem_map.mp hc
    rfl) h3
  rw [hfin, hw6, hw5]
  exact ⟨rfl, hrr⟩

theorem fresh_of_wellFormed (w w5 : World) (hw : w.wellFormed)
    (hp : ∀ e ∈ w.handles, e.parent ≤ w.handlesMade) (hs : w.sameRegistry w5) :
    (∀ x ∈ w5.handles, x.handle ≤ w5.handlesMade ∧ x.parent ≤ w5.handlesMade)
    ∧ (∀ x ∈ w5.items, x.item ≠ w5.itemsMade + 1) := by
  obtain ⟨h1, h2, _, h4, h5, _⟩ := World.sameRegistry_fields hs
  rw [h1, h2, h4, h5]
  constructor
  · intro x hx
    exact ⟨hw.1 x hx, hp x hx⟩
  · intro x hx
    have := hw.2.1 x hx
    omega

theorem rollback_sub1 (req : CreateRequest) (w w5 w1 : World) (hw : w.wellFormed)
    (hp : ∀ e ∈ w.handles, e.parent ≤ w.handlesMade) (hs : w.sameRegistry w5)
    {args outs : List Nat} {RT : RESMAN_TYPE} {D : DomainFn} {item h : Nat}
    {T T1 : PVRSRV_HANDLE_TYPE} {d1 h9 o : Nat} {e : PVRSRV_ERROR} {ps : List Nat}
    {rr fr de : PVRSRV_ERROR} {dout : List Nat}
    (hrun : runsFrom specServices w5
      (BridgeCall.domain req.createFn args PVRSRV_ERROR.PVRSRV_OK outs
        :: BridgeCall.ResManRegisterRes RT (outs.getD 0 0) D item
        :: BridgeCall.PVRSRVAllocHandle item T PVRSRV_ERROR.PVRSRV_OK h
        :: BridgeCall.PVRSRVAllocSubHandle d1 T1 h e h9
        :: cleanupCalls T D e h item o ps rr fr de dout) w1)
    (hi : item ≠ 0) (he : e ≠ PVRSRV_ERROR.PVRSRV_OK) :
    w1.handles = w.handles ∧ h ≠ 0 ∧ rr = PVRSRV_ERROR.PVRSRV_OK := by
  obtain ⟨hf, _⟩ := fresh_of_wellFormed w w5 hw hp hs
  obtain ⟨w4, h4, hh, _, _, hH, _, _, _, _⟩ := create_core req w5 w1 hrun hi
  obtain ⟨h5, _⟩ := sub_step_fail w4 w1 h4 he
  subst hh
  obtain ⟨this, hrr⟩ := unwind_core w4 w1 w5.handles [] w5.handlesMade T D e item item 0 o ps
    rr fr de dout (by rw [hH]) hf (by simp) he hi h5
  exact ⟨by rw [this, (World.sameRegistry_fields hs).1], Nat.succ_ne_zero _, hrr⟩

theorem rollback_sub2 (req : CreateRequest) (w w5 w1 : World) (hw : w.wellFormed)
    (hp : ∀ e ∈ w.handles, e.parent ≤ w.handlesMade) (hs : w.sameRegistry w5)
    {args outs : List Nat} {RT : RESMAN_TYPE} {D : DomainFn} {item h : Nat}
    {T T1 T2 : PVRSRV_HANDLE_TYPE} {d1 h9 d2 h10 o : Nat} {e : PVRSRV_ERROR} {ps : List Nat}
    {rr fr de : PVRSRV_ERROR} {dout : List Nat}
    (hrun : runsFrom specServices w5
      (BridgeCall.domain req.createFn args PVRSRV_ERROR.PVRSRV_OK outs
        :: BridgeCall.ResManRegisterRes RT (outs.getD 0 0) D item
        :: BridgeCall.PVRSRVAllocHandle item T PVRSRV_ERROR.PVRSRV_OK h
        :: BridgeCall.PVRSRVAllocSubHandle d1 T1 h PVRSRV_ERROR.PVRSRV_OK h9
        :: BridgeCall.PVRSRVAllocSubHandle d2 T2 h e h10
        :: cleanupCalls T D e h item o ps rr fr de dout) w1)
    (hi : item ≠ 0) (he : e ≠ PVRSRV_ERROR.PVRSRV_OK) :
    w1.handles = w.handles ∧ h ≠ 0 ∧ rr = PVRSRV_ERROR.PVRSRV_OK := by
  obtain ⟨hf, _⟩ := fresh_of_wellFormed w w5 hw hp hs
  obtain ⟨w4, h4, hh, _, _, hH, hM, _, _, _⟩ := create_core req w5 w1 hrun hi
  obtain ⟨w6, h6, hh9, hH6, _, _, _, _⟩ := sub_step_ok w4 w1 h4
  obtain ⟨h7, _⟩ := sub_step_fail w6 w1 h6 he
  subst hh
  obtain ⟨this, hrr⟩ := (unwind_core w6 w1 w5.handles
    [{ handle := w4.handlesMade + 1, eType := T1, data := d1, parent := w5.handlesMade + 1 }]
    w5.handlesMade T D e item item 0 o ps rr fr de dout
    (by rw [hH6, hH]; simp) hf
    (by
      intro k hk
      simp only [List.mem_singleton] at hk
      subst hk
      exact ⟨rfl, by simp only; omega⟩) he hi h7)
  exact ⟨by rw [this, (World.sameRegistry_fields hs).1], Nat.succ_ne_zero _, hrr⟩

theorem rollback_parent (req : CreateRequest) (w w5 w1 : World)
    (hs : w.sameRegistry w5)
    {args outs : List Nat} {RT : RESMAN_TYPE} {D : DomainFn} {item h : Nat}
    {T : PVRSRV_HANDLE_TYPE} {o : Nat} {e : PVRSRV_ERROR} {ps : List Nat}
    {rr fr de : PVRSRV_ERROR} {dout : List Nat}
    (hrun : runsFrom specServices w5
      (BridgeCall.domain req.createFn args PVRSRV_ERROR.PVRSRV_OK outs
        :: BridgeCall.ResManRegisterRes RT (outs.getD 0 0) D item
        :: BridgeCall.PVRSRVAllocHandle item T e h
        :: cleanupCalls T D e h item o ps rr fr de dout) w1)
    (hi : item ≠ 0) (he : e ≠ PVRSRV_ERROR.PVRSRV_OK) :
    h = 0 ∧ w1.handles = w.handles := by
  obtain ⟨w2, h1, w3, h2, w4, h3, h4⟩ := hrun
  have h1' : w5.domain req.createFn args = ((PVRSRV_ERROR.PVRSRV_OK, outs), w2) := h1
  obtain ⟨_, hw2⟩ := World.domain_createFn_inv req w5 w2 args outs h1'
  have h2' : w2.register RT (outs.getD 0 0) D = (item, w3) := h2
  obtain ⟨_, hw3⟩ := World.register_inv w2 w3 RT _ D item h2' hi
  have h3' : w3.allocHandle item T 0 = ((e, h), w4) := h3
  obtain ⟨hh, hw4⟩ := World.allocHandle_inv_fail w3 w4 item T 0 h e h3' he
  subst hh
  refine ⟨rfl, ?_⟩
  rw [cleanupCalls_error T D e 0 item o ps rr fr de dout he hi] at h4
  simp only [ne_eq, not_true_eq_false, if_false, List.nil_append] at h4
  obtain ⟨w6, h5, h6⟩ := h4
  have h5' : w4.freeByItem item = (fr, w6) := h5
  have hw6 : w6.handles = w4.handles := by
    have := (World.freeByItem_handles item w4).1
    rw [h5'] at this
    exact this
  have hfin : w1 = w6 := runsFrom_onlyOSFreeMem _ w6 w1 (by
    intro c hc
    obtain ⟨p, _, rfl⟩ := List.mem_map.mp hc
    rfl) h6
  rw [hfin, hw6, hw4, hw3, hw2]
  exact (World.sameRegistry_fields hs).1

theorem roundtrip_core (req : CreateRequest) (w w5 w1 : World) (hw : w.wellFormed)
    (hp : ∀ e ∈ w.handles, e.parent ≤ w.handlesMade) (hs : w.sameRegistry w5)
    (hfree : w.objectsMade + 1 ∉ w.dependents)
    {args outs : List Nat} {RT : RESMAN_TYPE} {D : DomainFn} {item h : Nat}
    {T : PVRSRV_HANDLE_TYPE} {l : List BridgeCall}
    (hrun : runsFrom specServices w5
      (BridgeCall.domain req.createFn args PVRSRV_ERROR.PVRSRV_OK outs
        :: BridgeCall.ResManRegisterRes RT (outs.getD 0 0) D item
        :: BridgeCall.PVRSRVAllocHandle item T PVRSRV_ERROR.PVRSRV_OK h :: l) w1)
    (hi : item ≠ 0) (hl : onlyOSFreeMem l) :
    w1.destructorRuns = w.destructorRuns
    ∧ (destroyWith specServices h T w1).1 = PVRSRV_ERROR.PVRSRV_OK
    ∧ (destroyWith specServices h T w1).2.s.handles = w.handles
    ∧ (destroyWith specServices h T w1).2.s.items = w.items
    ∧ (destroyWith specServices h T w1).2.s.destructorRuns
        = w.destructorRuns ++ [(D, w.objectsMade + 1, PVRSRV_ERROR.PVRSRV_OK)] := by
  obtain ⟨hf, hfi⟩ := fresh_of_wellFormed w w5 hw hp hs
  obtain ⟨f1, _, _, f4, _, _, _, f8, _, f10, f11⟩ := World.sameRegistry_fields hs
  obtain ⟨w4, h4, hh, hit, _, hH, _, hI, hD, hR⟩ := create_core req w5 w1 hrun hi
  have hfin : w1 = w4 := runsFrom_onlyOSFreeMem _ w4 w1 hl h4
  subst hfin hh
  obtain ⟨g1, g2, g3, g4, _⟩ := destroyWith_fresh w1 w5.handles [] w5.handlesMade T item 0
    w5.items RT (w5.objectsMade + 1) D hH hf (by simp) (by rw [hI, hit])
    (by rw [hit]; exact hfi) (by rw [hD, f10, f8]; exact hfree)
  exact ⟨by rw [hR, f11], g1, by rw [g2, f1], by rw [g3, f4], by rw [g4, hR, f11, f8]⟩

theorem roundtrip_core_subs (req : CreateRequest) (w w5 w1 : World) (hw : w.wellFormed)
    (hp : ∀ e ∈ w.handles, e.parent ≤ w.handlesMade) (hs : w.sameRegistry w5)
    (hfree : w.objectsMade + 1 ∉ w.dependents)
    {args outs : List Nat} {RT : RESMAN_TYPE} {D : DomainFn} {item h : Nat}
    {T T1 T2 : PVRSRV_HANDLE_TYPE} {d1 h1 d2 h2 : Nat} {l : List BridgeCall}
    (hrun : runsFrom specServices w5
      (BridgeCall.domain req.createFn args PVRSRV_ERROR.PVRSRV_OK outs
        :: BridgeCall.ResManRegisterRes RT (outs.getD 0 0) D item
        :: BridgeCall.PVRSRVAllocHandle item T PVRSRV_ERROR.PVRSRV_OK h
        :: BridgeCall.PVRSRVAllocSubHandle d1 T1 h PVRSRV_ERROR.PVRSRV_OK h1
        :: BridgeCall.PVRSRVAllocSubHandle d2 T2 h PVRSRV_ERROR.PVRSRV_OK h2 :: l) w1)
    (hi : item ≠ 0) (hl : onlyOSFreeMem l) :
    w1.destructorRuns = w.destructorRuns
    ∧ (destroyWith specServices h T w1).1 = PVRSRV_ERROR.PVRSRV_OK
    ∧ (destroyWith specServices h T w1).2.s.handles = w.handles
    ∧ (destroyWith specServices h T w1).2.s.items = w.items
    ∧ (destroyWith specServices h T w1).2.s.destructorRuns
        = w.destructorRuns ++ [(D, w.objectsMade + 1, PVRSRV_ERROR.PVRSRV_OK)] := by
  obtain ⟨hf, hfi⟩ := fresh_of_wellFormed w w5 hw hp hs
  obtain ⟨f1, _, _, f4, _, _, _, f8, _, f10, f11⟩ := World.sameRegistry_fields hs
  obtain ⟨w4, h4, hh, hit, _, hH, hM, hI, hD, hR⟩ := create_core req w5 w1 hrun hi
  obtain ⟨w6, h6, _, hH6, hM6, hI6, hD6, hR6⟩ := sub_step_ok w4 w1 h4
  obtain ⟨w7, h7, _, hH7, _, hI7, hD7, hR7⟩ := sub_step_ok w6 w1 h6
  have hfin : w1 = w7 := runsFrom_onlyOSFreeMem _ w7 w1 hl h7
  subst hfin hh
  obtain ⟨g1, g2, g3, g4, _⟩ := destroyWith_fresh w1 w5.handles
    [{ handle := w4.handlesMade + 1, eType := T1, data := d1, parent := w5.handlesMade + 1 },
     { handle := w6.handlesMade + 1, eType := T2, data := d2, parent := w5.handlesMade + 1 }]
    w5.handlesMade T item 0 w5.items RT (w5.objectsMade + 1) D
    (by rw [hH7, hH6, hH]; simp) hf
    (by
      intro k hk
      simp only [List.mem_cons, List.mem_singleton, List.not_mem_nil, or_false] at hk
      rcases hk with rfl | rfl
      · exact ⟨rfl, by simp only; omega⟩
      · exact ⟨rfl, by simp only; omega⟩)
    (by rw [hI7, hI6, hI, hit])
    (by rw [hit]; exact hfi) (by rw [hD7, hD6, hD, f10, f8]; exact hfree)
  exact ⟨by rw [hR7, hR6, hR, f11], g1, by rw [g2, f1], by rw [g3, f4],
    by rw [g4, hR7, hR6, hR, f11, f8]⟩

/-! ## Handle allocations and unwind steps among the calls -/

theorem failedSubAllocs_append (l1 l2 : List BridgeCall) :
    failedSubAllocs (l1 ++ l2) = failedSubAllocs l1 ++ failedSubAllocs l2 := by
  induction l1 with
  | nil => rfl
  | cons e l ih =>
    have ih1 : failedSubAllocs (l.append l2) = failedSubAllocs l ++ failedSubAllocs l2 := ih
    cases e <;> simp only [List.cons_append, failedSubAllocs, ih, ih1]
    split <;> simp

theorem failedSubAllocs_map_OSFreeMem (l : List Nat) : failedSubAllocs (l.map BridgeCall.OSFreeMem) = [] := by
  induction l with
  | nil => rfl
  | cons x l ih => simpa [failedSubAllocs] using ih

theorem parentAllocs_append (l1 l2 : List BridgeCall) :
    parentAllocs (l1 ++ l2) = parentAllocs l1 ++ parentAllocs l2 := by
  induction l1 with
  | nil => rfl
  | cons e l ih =>
    have ih1 : parentAllocs (l.append l2) = parentAllocs l ++ parentAllocs l2 := ih
    cases e <;> simp only [List.cons_append, parentAllocs, ih, ih1]

theorem parentAllocs_map_OSFreeMem (l : List Nat) : parentAllocs (l.map BridgeCall.OSFreeMem) = [] := by
  induction l with
  | nil => rfl
  | cons x l ih => simpa [parentAllocs] using ih

theorem unwindSteps_append (l1 l2 : List BridgeCall) :
    unwindSteps (l1 ++ l2) = unwindSteps l1 ++ unwindSteps l2 := by
  induction l1 with
  | nil => rfl
  | cons e l ih =>
    have ih1 : unwindSteps (l.append l2) = unwindSteps l ++ unwindSteps l2 := ih
    cases e <;> simp only [List.cons_append, unwindSteps, ih, ih1]

theorem unwindSteps_map_OSFreeMem (l : List Nat) : unwindSteps (l.map BridgeCall.OSFreeMem) = [] := by
  induction l with
  | nil => rfl
  | cons x l ih => simpa [unwindSteps] using ih

theorem handleLookups_append (l1 l2 : List BridgeCall) :
    handleLookups (l1 ++ l2) = handleLookups l1 ++ handleLookups l2 := by
  induction l1 with
  | nil => rfl
  | cons e l ih =>
    have ih1 : handleLookups (l.append l2) = handleLookups l ++ handleLookups l2 := ih
    cases e <;> simp only [List.cons_append, handleLookups, ih, ih1]

theorem handleLookups_map_OSFreeMem (l : List Nat) : handleLookups (l.map BridgeCall.OSFreeMem) = [] := by
  induction l with
  | nil => rfl
  | cons x l ih => simpa [handleLookups] using ih

theorem failedSubAllocs_cleanupCalls (T : PVRSRV_HANDLE_TYPE) (D : DomainFn)
    (e : PVRSRV_ERROR) (h i o : Nat) (ps : List Nat) (rr fr de : PVRSRV_ERROR)
    (dout : List Nat) :
    failedSubAllocs (cleanupCalls T D e h i o ps rr fr de dout) = [] := by
  unfold cleanupCalls
  split_ifs <;> simp_all [failedSubAllocs, failedSubAllocs_append, failedSubAllocs_map_OSFreeMem]

theorem parentAllocs_cleanupCalls (T : PVRSRV_HANDLE_TYPE) (D : DomainFn)
    (e : PVRSRV_ERROR) (h i o : Nat) (ps : List Nat) (rr fr de : PVRSRV_ERROR)
    (dout : List Nat) :
    parentAllocs (cleanupCalls T D e h i o ps rr fr de dout) = [] := by
  unfold cleanupCalls
  split_ifs <;> simp_all [parentAllocs, parentAllocs_append, parentAllocs_map_OSFreeMem]

theorem handleLookups_cleanupCalls (T : PVRSRV_HANDLE_TYPE) (D : DomainFn)
    (e : PVRSRV_ERROR) (h i o : Nat) (ps : List Nat) (rr fr de : PVRSRV_ERROR)
    (dout : List Nat) :
    handleLookups (cleanupCalls T D e h i o ps rr fr de dout) = [] := by
  unfold cleanupCalls
  split_ifs <;> simp_all [handleLookups, handleLookups_append, handleLookups_map_OSFreeMem]

theorem unwindSteps_cleanupCalls (T : PVRSRV_HANDLE_TYPE) (D : DomainFn)
    (e : PVRSRV_ERROR) (h i o : Nat) (ps : List Nat) (rr fr de : PVRSRV_ERROR)
    (dout : List Nat) :
    unwindSteps (cleanupCalls T D e h i o ps rr fr de dout)
      = if e ≠ PVRSRV_ERROR.PVRSRV_OK then
          (if h ≠ 0 then [UnwindStep.release h T] else [])
          ++ (if i ≠ 0 then [UnwindStep.free i] else [])
        else [] := by
  unfold cleanupCalls
  split_ifs <;> simp_all [unwindSteps, unwindSteps_append, unwindSteps_map_OSFreeMem]

theorem failedSubAllocs_of_lookupsOK {l : List BridgeCall} (h : lookupsOK l) : failedSubAllocs l = [] := by
  induction l with
  | nil => rfl
  | cons x l ih =>
    have hx := h x (List.mem_cons_self _ _)
    have hl : lookupsOK l := fun y hy => h y (List.mem_cons_of_mem _ hy)
    cases x <;> simp [BridgeCall.lookupResult] at hx <;> simpa [failedSubAllocs] using ih hl

theorem failedSubAllocs_cons_of_lookup {x : BridgeCall} {e : PVRSRV_ERROR}
    (hx : x.lookupResult = some e) (l : List BridgeCall) :
    failedSubAllocs (x :: l) = failedSubAllocs l := by
  cases x <;> simp [BridgeCall.lookupResult] at hx <;> rfl

theorem parentAllocs_of_lookupsOK {l : List BridgeCall} (h : lookupsOK l) : parentAllocs l = [] := by
  induction l with
  | nil => rfl
  | cons x l ih =>
    have hx := h x (List.mem_cons_self _ _)
    have hl : lookupsOK l := fun y hy => h y (List.mem_cons_of_mem _ hy)
    cases x <;> simp [BridgeCall.lookupResult] at hx <;> simpa [parentAllocs] using ih hl

theorem parentAllocs_cons_of_lookup {x : BridgeCall} {e : PVRSRV_ERROR}
    (hx : x.lookupResult = some e) (l : List BridgeCall) :
    parentAllocs (x :: l) = parentAllocs l := by
  cases x <;> simp [BridgeCall.lookupResult] at hx <;> rfl

theorem unwindSteps_of_lookupsOK {l : List BridgeCall} (h : lookupsOK l) : unwindSteps l = [] := by
  induction l with
  | nil => rfl
  | cons x l ih =>
    have hx := h x (List.mem_cons_self _ _)
    have hl : lookupsOK l := fun y hy => h y (List.mem_cons_of_mem _ hy)
    cases x <;> simp [BridgeCall.lookupResult] at hx <;> simpa [unwindSteps] using ih hl

theorem unwindSteps_cons_of_lookup {x : BridgeCall} {e : PVRSRV_ERROR}
    (hx : x.lookupResult = some e) (l : List BridgeCall) :
    unwindSteps (x :: l) = unwindSteps l := by
  cases x <;> simp [BridgeCall.lookupResult] at hx <;> rfl

theorem handleLookups_lookupIfSetCalls (h : Nat) (t : PVRSRV_HANDLE_TYPE) (d v : Nat) :
    handleLookups (lookupIfSetCalls h t d v) = if h ≠ 0 then [(h, t)] else [] := by
  unfold lookupIfSetCalls
  split_ifs <;> simp_all [handleLookups]

/-! ## The cleanup after a failed handle allocation -/

/-- The cleanup of `PVRSRVBridgeRGXCreateHWRTData` after a failed handle
allocation, on any collaborators. -/
theorem RGXCreateHWRTData_handle_unwind {σ : Type} (S : Services σ) (s : σ) (B : BridgeConsts)
    (IN : PVRSRV_BRIDGE_IN_RGXCREATEHWRTDATA) (OUT0 : PVRSRV_BRIDGE_OUT_RGXCREATEHWRTDATA) :
    subHandleUnwind PVRSRV_HANDLE_TYPE.PVRSRV_HANDLE_TYPE_RGX_RTDATA_CLEANUP
        DomainFn.RGXDestroyHWRTData (PVRSRVBridgeRGXCreateHWRTData B S IN OUT0 s).1.eError
        (PVRSRVBridgeRGXCreateHWRTData B S IN OUT0 s).1.hCleanupCookie
        (PVRSRVBridgeRGXCreateHWRTData B S IN OUT0 s).2.calls
    ∧ parentHandleUnwind PVRSRV_HANDLE_TYPE.PVRSRV_HANDLE_TYPE_RGX_RTDATA_CLEANUP
        DomainFn.RGXDestroyHWRTData (PVRSRVBridgeRGXCreateHWRTData B S IN OUT0 s).1.eError
        (PVRSRVBridgeRGXCreateHWRTData B S IN OUT0 s).1.hCleanupCookie
        (PVRSRVBridgeRGXCreateHWRTData B S IN OUT0 s).2.calls := by
  apply RGXCreateHWRTData_paths S s B IN OUT0 (fun out calls =>
    subHandleUnwind PVRSRV_HANDLE_TYPE.PVRSRV_HANDLE_TYPE_RGX_RTDATA_CLEANUP
        DomainFn.RGXDestroyHWRTData out.eError out.hCleanupCookie calls
    ∧ parentHandleUnwind PVRSRV_HANDLE_TYPE.PVRSRV_HANDLE_TYPE_RGX_RTDATA_CLEANUP
        DomainFn.RGXDestroyHWRTData out.eError out.hCleanupCookie calls)
  all_goals
    intros
    simp only [subHandleUnwind, parentHandleUnwind]
    simp [
      failedSubAllocs, parentAllocs, unwindSteps, registerOutcome, directCalls, resmanFrees,
        failedSubAllocs_append, parentAllocs_append, unwindSteps_append, registerOutcome_append,
        directCalls_append, resmanFrees_append, failedSubAllocs_cleanupCalls,
        parentAllocs_cleanupCalls, unwindSteps_cleanupCalls, registerOutcome_cleanupCalls,
        directCalls_cleanupCalls, resmanFrees_cleanupCalls, failedSubAllocs_of_lookupsOK,
        parentAllocs_of_lookupsOK, unwindSteps_of_lookupsOK, registerOutcome_of_lookupsOK,
        directCalls_of_lookupsOK, resmanFrees_of_lookupsOK, failedSubAllocs_cons_of_lookup,
        parentAllocs_cons_of_lookup, unwindSteps_cons_of_lookup, registerOutcome_cons_of_lookup,
        directCalls_cons_of_lookup, resmanFrees_cons_of_lookup, *]
  all_goals
    intro e rest h
    split at h <;> simp_all

/-- The cleanup of `PVRSRVBridgeRGXCreateRenderContext` after a failed handle
allocation, on any collaborators. -/
theorem RGXCreateRenderContext_handle_unwind {σ : Type} (S : Services σ) (s : σ) (B : BridgeConsts)
    (IN : PVRSRV_BRIDGE_IN_RGXCREATERENDERCONTEXT) (OUT0 : PVRSRV_BRIDGE_OUT_RGXCREATERENDERCONTEXT) :
    subHandleUnwind PVRSRV_HANDLE_TYPE.PVRSRV_HANDLE_TYPE_RGX_RC_CLEANUP
        DomainFn.PVRSRVRGXDestroyRenderContextKM (PVRSRVBridgeRGXCreateRenderContext B S IN OUT0 s).1.eError
        (PVRSRVBridgeRGXCreateRenderContext B S IN OUT0 s).1.hCleanupCookie
        (PVRSRVBridgeRGXCreateRenderContext B S IN OUT0 s).2.calls
    ∧ parentHandleUnwind PVRSRV_HANDLE_TYPE.PVRSRV_HANDLE_TYPE_RGX_RC_CLEANUP
        DomainFn.PVRSRVRGXDestroyRenderContextKM (PVRSRVBridgeRGXCreateRenderContext B S IN OUT0 s).1.eError
        (PVRSRVBridgeRGXCreateRenderContext B S IN OUT0 s).1.hCleanupCookie
        (PVRSRVBridgeRGXCreateRenderContext B S IN OUT0 s).2.calls := by
  apply RGXCreateRenderContext_paths S s B IN OUT0 (fun out calls =>
    subHandleUnwind PVRSRV_HANDLE_TYPE.PVRSRV_HANDLE_TYPE_RGX_RC_CLEANUP
        DomainFn.PVRSRVRGXDestroyRenderContextKM out.eError out.hCleanupCookie calls
    ∧ parentHandleUnwind PVRSRV_HANDLE_TYPE.PVRSRV_HANDLE_TYPE_RGX_RC_CLEANUP
        DomainFn.PVRSRVRGXDestroyRenderContextKM out.eError out.hCleanupCookie calls)
  all_goals
    intros
    simp only [subHandleUnwind, parentHandleUnwind]
    simp [
      failedSubAllocs, parentAllocs, unwindSteps, registerOutcome, directCalls, resmanFrees,
        failedSubAllocs_append, parentAllocs_append, unwindSteps_append, registerOutcome_append,
        directCalls_append, resmanFrees_append, failedSubAllocs_cleanupCalls,
        parentAllocs_cleanupCalls, unwindSteps_cleanupCalls, registerOutcome_cleanupCalls,
        directCalls_cleanupCalls, resmanFrees_cleanupCalls, failedSubAllocs_of_lookupsOK,
        parentAllocs_of_lookupsOK, unwindSteps_of_lookupsOK, registerOutcome_of_lookupsOK,
        directCalls_of_lookupsOK, resmanFrees_of_lookupsOK, failedSubAllocs_cons_of_lookup,
        parentAllocs_cons_of_lookup, unwindSteps_cons_of_lookup, registerOutcome_cons_of_lookup,
        directCalls_cons_of_lookup, resmanFrees_cons_of_lookup, *]
  all_goals
    intro e rest h
    split at h <;> simp_all

/-- The same on the model of the collaborators, from a well-formed state whose
handles have known parents: after a failed sub-handle allocation the parent
handle is not null and the handle registry is as it was before the call; a
failed allocation of the parent handle leaves a null handle, the cleanup
releases no handle, and the registry is as it was before the call. -/
theorem RGXCreateHWRTData_handle_rollback (w : World) (B : BridgeConsts)
    (IN : PVRSRV_BRIDGE_IN_RGXCREATEHWRTDATA) (OUT0 : PVRSRV_BRIDGE_OUT_RGXCREATEHWRTDATA)
    (hw : w.wellFormed) (hp : ∀ e ∈ w.handles, e.parent ≤ w.handlesMade) :
    (∀ e rest,
      failedSubAllocs (PVRSRVBridgeRGXCreateHWRTData B specServices IN OUT0 w).2.calls
        = e :: rest →
      (PVRSRVBridgeRGXCreateHWRTData B specServices IN OUT0 w).1.hCleanupCookie ≠ 0
      ∧ (PVRSRVBridgeRGXCreateHWRTData B specServices IN OUT0 w).2.s.handles = w.handles)
    ∧ (∀ t e h,
        parentAllocs (PVRSRVBridgeRGXCreateHWRTData B specServices IN OUT0 w).2.calls
          = [(t, e, h)] →
        e ≠ PVRSRV_ERROR.PVRSRV_OK →
        h = 0
        ∧ (∀ h1 t1, UnwindStep.release h1 t1 ∉ unwindSteps
            (PVRSRVBridgeRGXCreateHWRTData B specServices IN OUT0 w).2.calls)
        ∧ (PVRSRVBridgeRGXCreateHWRTData B specServices IN OUT0 w).2.s.handles = w.handles) := by
  have hruns : runsFrom specServices w
      (PVRSRVBridgeRGXCreateHWRTData B specServices IN OUT0 w).2.calls
      (PVRSRVBridgeRGXCreateHWRTData B specServices IN OUT0 w).2.s :=
    RGXCreateHWRTData_runs specServices w B IN OUT0
  revert hruns
  generalize (PVRSRVBridgeRGXCreateHWRTData B specServices IN OUT0 w).2.s = w1
  apply RGXCreateHWRTData_paths specServices w B IN OUT0 (fun out calls =>
    runsFrom specServices w calls w1 →
    (∀ e rest, failedSubAllocs calls = e :: rest →
      out.hCleanupCookie ≠ 0 ∧ w1.handles = w.handles)
    ∧ (∀ t e h, parentAllocs calls = [(t, e, h)] → e ≠ PVRSRV_ERROR.PVRSRV_OK →
        h = 0 ∧ (∀ h1 t1, UnwindStep.release h1 t1 ∉ unwindSteps calls)
        ∧ w1.handles = w.handles))
  case path8 =>
    intro p1 p2 d4 l5 ps5 o6 i7 h8 e8 rr fr de dout _ _ hl5 hi7 he8 hr
    obtain ⟨w5, hs, hc⟩ := runsFrom_dropWhile _ _ _ hr
    simp only [List.dropWhile_cons, isEffect_OSAllocMem, isEffect_OSAccessOK,
      isEffect_OSCopyFromUser, isEffect_PVRSRVLookupHandle, isEffect_domain, Bool.not_false,
      Bool.not_true, if_true, Bool.false_eq_true, if_false,
      dropWhile_noEffect_append l5 _ (noEffect_of_lookupsOK hl5)] at hc
    have hrb := rollback_parent (CreateRequest.HWRTData B IN OUT0) w w5 w1 hs hc hi7 he8
    constructor
    · intro e rest h
      simp [failedSubAllocs, failedSubAllocs_append, failedSubAllocs_cleanupCalls,
        failedSubAllocs_of_lookupsOK hl5] at h
    · intro t e h hpa _
      simp [parentAllocs, parentAllocs_append, parentAllocs_cleanupCalls,
        parentAllocs_of_lookupsOK hl5] at hpa
      obtain ⟨_, _, rfl⟩ := hpa
      obtain ⟨h0, hh⟩ := hrb
      subst h0
      refine ⟨rfl, ?_, hh⟩
      intro h1 t1
      simp [unwindSteps, unwindSteps_append, unwindSteps_cleanupCalls,
        unwindSteps_of_lookupsOK hl5]
  case path9 =>
    intro p1 p2 d4 l5 ps5 o6 i7 h8 h9 e9 rr fr de dout _ _ hl5 hi7 he9 hr
    obtain ⟨w5, hs, hc⟩ := runsFrom_dropWhile _ _ _ hr
    simp only [List.dropWhile_cons, isEffect_OSAllocMem, isEffect_OSAccessOK,
      isEffect_OSCopyFromUser, isEffect_PVRSRVLookupHandle, isEffect_domain, Bool.not_false,
      Bool.not_true, if_true, Bool.false_eq_true, if_false,
      dropWhile_noEffect_append l5 _ (noEffect_of_lookupsOK hl5)] at hc
    have hrb := rollback_sub1 (CreateRequest.HWRTData B IN OUT0) w w5 w1 hw hp hs hc hi7 he9
    constructor
    · intro e rest _
      exact ⟨hrb.2.1, hrb.1⟩
    · intro t e h hpa hne
      simp [parentAllocs, parentAllocs_append, parentAllocs_cleanupCalls,
        parentAllocs_of_lookupsOK hl5] at hpa
      exact absurd hpa.2.1.symm hne
  case path10 =>
    intro p1 p2 d4 l5 ps5 o6 i7 h8 h9 h10 e10 rr fr de dout _ _ hl5 hi7 hr
    constructor
    · intro e rest h
      have he10 : e10 ≠ PVRSRV_ERROR.PVRSRV_OK := by
        intro h0
        subst h0
        simp [failedSubAllocs, failedSubAllocs_append, failedSubAllocs_cleanupCalls,
          failedSubAllocs_of_lookupsOK hl5] at h
      obtain ⟨w5, hs, hc⟩ := runsFrom_dropWhile _ _ _ hr
      simp only [List.dropWhile_cons, isEffect_OSAllocMem, isEffect_OSAccessOK,
        isEffect_OSCopyFromUser, isEffect_PVRSRVLookupHandle, isEffect_domain, Bool.not_false,
        Bool.not_true, if_true, Bool.false_eq_true, if_false,
        dropWhile_noEffect_append l5 _ (noEffect_of_lookupsOK hl5)] at hc
      have hrb := rollback_sub2 (CreateRequest.HWRTData B IN OUT0) w w5 w1 hw hp hs hc hi7 he10
      exact ⟨hrb.2.1, hrb.1⟩
    · intro t e h hpa hne
      simp [parentAllocs, parentAllocs_append, parentAllocs_cleanupCalls,
        parentAllocs_of_lookupsOK hl5] at hpa
      exact absurd hpa.2.1.symm hne
  all_goals
    intros
    constructor
    · intro e rest h
      simp [failedSubAllocs, failedSubAllocs_append, failedSubAllocs_cleanupCalls,
        failedSubAllocs_of_lookupsOK, failedSubAllocs_cons_of_lookup, *] at h
    · intro t e h hpa _
      simp [parentAllocs, parentAllocs_append, parentAllocs_cleanupCalls,
        parentAllocs_of_lookupsOK, parentAllocs_cons_of_lookup, *] at hpa

/-- The same on the model of the collaborators, from a well-formed state whose
handles have known parents: after a failed sub-handle allocation the parent
handle is not null and the handle registry is as it was before the call; a
failed allocation of the parent handle leaves a null handle, the cleanup
releases no handle, and the registry is as it was before the call. -/
theorem RGXCreateRenderContext_handle_rollback (w : World) (B : BridgeConsts)
    (IN : PVRSRV_BRIDGE_IN_RGXCREATERENDERCONTEXT) (OUT0 : PVRSRV_BRIDGE_OUT_RGXCREATERENDERCONTEXT)
    (hw : w.wellFormed) (hp : ∀ e ∈ w.handles, e.parent ≤ w.handlesMade) :
    (∀ e rest,
      failedSubAllocs (PVRSRVBridgeRGXCreateRenderContext B specServices IN OUT0 w).2.calls
        = e :: rest →
      (PVRSRVBridgeRGXCreateRenderContext B specServices IN OUT0 w).1.hCleanupCookie ≠ 0
      ∧ (PVRSRVBridgeRGXCreateRenderContext B specServices IN OUT0 w).2.s.handles = w.handles)
    ∧ (∀ t e h,
        parentAllocs (PVRSRVBridgeRGXCreateRenderContext B specServices IN OUT0 w).2.calls
          = [(t, e, h)] →
        e ≠ PVRSRV_ERROR.PVRSRV_OK →
        h = 0
        ∧ (∀ h1 t1, UnwindStep.release h1 t1 ∉ unwindSteps
            (PVRSRVBridgeRGXCreateRenderContext B specServices IN OUT0 w).2.calls)
        ∧ (PVRSRVBridgeRGXCreateRenderContext B specServices IN OUT0 w).2.s.handles = w.handles) := by
  have hruns : runsFrom specServices w
      (PVRSRVBridgeRGXCreateRenderContext B specServices IN OUT0 w).2.calls
      (PVRSRVBridgeRGXCreateRenderContext B specServices IN OUT0 w).2.s :=
    RGXCreateRenderContext_runs specServices w B IN OUT0
  revert hruns
  generalize (PVRSRVBridgeRGXCreateRenderContext B specServices IN OUT0 w).2.s = w1
  apply RGXCreateRenderContext_paths specServices w B IN OUT0 (fun out calls =>
    runsFrom specServices w calls w1 →
    (∀ e rest, failedSubAllocs calls = e :: rest →
      out.hCleanupCookie ≠ 0 ∧ w1.handles = w.handles)
    ∧ (∀ t e h, parentAllocs calls = [(t, e, h)] → e ≠ PVRSRV_ERROR.PVRSRV_OK →
        h = 0 ∧ (∀ h1 t1, UnwindStep.release h1 t1 ∉ unwindSteps calls)
        ∧ w1.handles = w.handles))
  case path11 =>
    intro p1 d3 d4 d5 d6 d7 d8 o9 i7 h8 e8 rr fr de dout _ hi7 he8 hr
    obtain ⟨w5, hs, hc⟩ := runsFrom_dropWhile _ _ _ hr
    simp only [List.dropWhile_cons, isEffect_OSAllocMem, isEffect_OSAccessOK,
      isEffect_OSCopyFromUser, isEffect_PVRSRVLookupHandle, isEffect_domain, Bool.not_false,
      Bool.not_true, if_true, Bool.false_eq_true, if_false] at hc
    have hrb := rollback_parent (CreateRequest.RenderContext B IN OUT0) w w5 w1 hs hc hi7 he8
    constructor
    · intro e rest h
      simp [failedSubAllocs, failedSubAllocs_append, failedSubAllocs_cleanupCalls] at h
    · intro t e h hpa _
      simp [parentAllocs, parentAllocs_append, parentAllocs_cleanupCalls] at hpa
      obtain ⟨_, _, rfl⟩ := hpa
      obtain ⟨h0, hh⟩ := hrb
      subst h0
      refine ⟨rfl, ?_, hh⟩
      intro h1 t1
      simp [unwindSteps, unwindSteps_append, unwindSteps_cleanupCalls]
  case path12 =>
    intro p1 d3 d4 d5 d6 d7 d8 o9 i7 h8 h9 e9 rr fr de dout _ hi7 he9 hr
    obtain ⟨w5, hs, hc⟩ := runsFrom_dropWhile _ _ _ hr
    simp only [List.dropWhile_cons, isEffect_OSAllocMem, isEffect_OSAccessOK,
      isEffect_OSCopyFromUser, isEffect_PVRSRVLookupHandle, isEffect_domain, Bool.not_false,
      Bool.not_true, if_true, Bool.false_eq_true, if_false] at hc
    have hrb := rollback_sub1 (CreateRequest.RenderContext B IN OUT0) w w5 w1 hw hp hs hc hi7 he9
    constructor
    · intro e rest _
      exact ⟨hrb.2.1, hrb.1⟩
    · intro t e h hpa hne
      simp [parentAllocs, parentAllocs_append, parentAllocs_cleanupCalls] at hpa
      exact absurd hpa.2.1.symm hne
  case path13 =>
    intro p1 d3 d4 d5 d6 d7 d8 o9 i7 h8 h9 h10 e10 rr fr de dout _ hi7 hr
    constructor
    · intro e rest h
      have he10 : e10 ≠ PVRSRV_ERROR.PVRSRV_OK := by
        intro h0
        subst h0
        simp [failedSubAllocs, failedSubAllocs_append, failedSubAllocs_cleanupCalls] at h
      obtain ⟨w5, hs, hc⟩ := runsFrom_dropWhile _ _ _ hr
      simp only [List.dropWhile_cons, isEffect_OSAllocMem, isEffect_OSAccessOK,
        isEffect_OSCopyFromUser, isEffect_PVRSRVLookupHandle, isEffect_domain, Bool.not_false,
        Bool.not_true, if_true, Bool.false_eq_true, if_false] at hc
      have hrb := rollback_sub2 (CreateRequest.RenderContext B IN OUT0) w w5 w1 hw hp hs hc hi7 he10
      exact ⟨hrb.2.1, hrb.1⟩
    · intro t e h hpa hne
      simp [parentAllocs, parentAllocs_append, parentAllocs_cleanupCalls] at hpa
      exact absurd hpa.2.1.symm hne
  all_goals
    intros
    constructor
    · intro e rest h
      simp [failedSubAllocs, failedSubAllocs_append, failedSubAllocs_cleanupCalls,
        failedSubAllocs_of_lookupsOK, failedSubAllocs_cons_of_lookup, *] at h
    · intro t e h hpa _
      simp [parentAllocs, parentAllocs_append, parentAllocs_cleanupCalls,
        parentAllocs_of_lookupsOK, parentAllocs_cons_of_lookup, *] at hpa

/-! ## Create followed by destroy -/

/-- On the model of the collaborators: a successful `PVRSRVBridgeRGXCreateHWRTData`
runs no destructor, and the destroy-style body on the handle it returns, under
the tag `PVRSRV_HANDLE_TYPE_RGX_RTDATA_CLEANUP`, returns `PVRSRV_OK`, runs the
destructor of the new object once, and leaves the handles and the items that
were there before the create. -/
theorem RGXCreateHWRTData_roundtrip (w : World) (B : BridgeConsts) (IN : PVRSRV_BRIDGE_IN_RGXCREATEHWRTDATA)
    (OUT0 : PVRSRV_BRIDGE_OUT_RGXCREATEHWRTDATA) (hw : w.wellFormed)
    (hp : ∀ e ∈ w.handles, e.parent ≤ w.handlesMade)
    (hfree : w.objectsMade + 1 ∉ w.dependents)
    (hok : (PVRSRVBridgeRGXCreateHWRTData B specServices IN OUT0 w).1.eError = PVRSRV_ERROR.PVRSRV_OK) :
    (PVRSRVBridgeRGXCreateHWRTData B specServices IN OUT0 w).2.s.destructorRuns = w.destructorRuns
    ∧ (destroyWith specServices (PVRSRVBridgeRGXCreateHWRTData B specServices IN OUT0 w).1.hCleanupCookie PVRSRV_HANDLE_TYPE.PVRSRV_HANDLE_TYPE_RGX_RTDATA_CLEANUP (PVRSRVBridgeRGXCreateHWRTData B specServices IN OUT0 w).2.s).1 = PVRSRV_ERROR.PVRSRV_OK
    ∧ (destroyWith specServices (PVRSRVBridgeRGXCreateHWRTData B specServices IN OUT0 w).1.hCleanupCookie PVRSRV_HANDLE_TYPE.PVRSRV_HANDLE_TYPE_RGX_RTDATA_CLEANUP (PVRSRVBridgeRGXCreateHWRTData B specServices IN OUT0 w).2.s).2.s.handles = w.handles
    ∧ (destroyWith specServices (PVRSRVBridgeRGXCreateHWRTData B specServices IN OUT0 w).1.hCleanupCookie PVRSRV_HANDLE_TYPE.PVRSRV_HANDLE_TYPE_RGX_RTDATA_CLEANUP (PVRSRVBridgeRGXCreateHWRTData B specServices IN OUT0 w).2.s).2.s.items = w.items
    ∧ (destroyWith specServices (PVRSRVBridgeRGXCreateHWRTData B specServices IN OUT0 w).1.hCleanupCookie PVRSRV_HANDLE_TYPE.PVRSRV_HANDLE_TYPE_RGX_RTDATA_CLEANUP (PVRSRVBridgeRGXCreateHWRTData B specServices IN OUT0 w).2.s).2.s.destructorRuns
        = w.destructorRuns ++ [(DomainFn.RGXDestroyHWRTData, w.objectsMade + 1, PVRSRV_ERROR.PVRSRV_OK)] := by
  have hruns : runsFrom specServices w (PVRSRVBridgeRGXCreateHWRTData B specServices IN OUT0 w).2.calls (PVRSRVBridgeRGXCreateHWRTData B specServices IN OUT0 w).2.s :=
    RGXCreateHWRTData_runs specServices w B IN OUT0
  revert hok hruns
  generalize (PVRSRVBridgeRGXCreateHWRTData B specServices IN OUT0 w).2.s = w1
  apply RGXCreateHWRTData_paths specServices w B IN OUT0 (fun out calls =>
    out.eError = PVRSRV_ERROR.PVRSRV_OK → runsFrom specServices w calls w1 →
    w1.destructorRuns = w.destructorRuns
    ∧ (destroyWith specServices out.hCleanupCookie PVRSRV_HANDLE_TYPE.PVRSRV_HANDLE_TYPE_RGX_RTDATA_CLEANUP w1).1 = PVRSRV_ERROR.PVRSRV_OK
    ∧ (destroyWith specServices out.hCleanupCookie PVRSRV_HANDLE_TYPE.PVRSRV_HANDLE_TYPE_RGX_RTDATA_CLEANUP w1).2.s.handles = w.handles
    ∧ (destroyWith specServices out.hCleanupCookie PVRSRV_HANDLE_TYPE.PVRSRV_HANDLE_TYPE_RGX_RTDATA_CLEANUP w1).2.s.items = w.items
    ∧ (destroyWith specServices out.hCleanupCookie PVRSRV_HANDLE_TYPE.PVRSRV_HANDLE_TYPE_RGX_RTDATA_CLEANUP w1).2.s.destructorRuns
        = w.destructorRuns ++ [(DomainFn.RGXDestroyHWRTData, w.objectsMade + 1, PVRSRV_ERROR.PVRSRV_OK)])
  case path10 =>
    intro p1 p2 d4 l5 ps5 o6 i7 h8 h9 h10 e10 rr fr de dout _ _ hl5 hi7 hok hr
    dsimp only at hok
    subst hok
    obtain ⟨w5, hs, hc⟩ := runsFrom_dropWhile _ _ _ hr
    simp only [List.dropWhile_cons, isEffect_OSAllocMem, isEffect_OSAccessOK,
      isEffect_OSCopyFromUser, isEffect_PVRSRVLookupHandle,
      isEffect_ResManFindPrivateDataByPtr, isEffect_domain, Bool.not_false, Bool.not_true,
      if_true, Bool.false_eq_true, if_false, dropWhile_noEffect_append l5 _ (noEffect_of_lookupsOK hl5)] at hc
    exact roundtrip_core_subs (CreateRequest.HWRTData B IN OUT0) w w5 w1 hw hp hs hfree hc hi7
      (onlyOSFreeMem_cleanupCalls_ok _ _ _ _ _ _ _ _ _ _)
  all_goals
    intros
    rename_i hok _
    dsimp only at hok
    contradiction

/-- On the model of the collaborators: a successful `PVRSRVBridgeRGXCreateRenderTarget`
runs no destructor, and the destroy-style body on the handle it returns, under
the tag `PVRSRV_HANDLE_TYPE_RGX_FWIF_RENDERTARGET`, returns `PVRSRV_OK`, runs the
destructor of the new object once, and leaves the handles and the items that
were there before the create. -/
theorem RGXCreateRenderTarget_roundtrip (w : World) (IN : PVRSRV_BRIDGE_IN_RGXCREATERENDERTARGET)
    (OUT0 : PVRSRV_BRIDGE_OUT_RGXCREATERENDERTARGET) (hw : w.wellFormed)
    (hp : ∀ e ∈ w.handles, e.parent ≤ w.handlesMade)
    (hfree : w.objectsMade + 1 ∉ w.dependents)
    (hok : (PVRSRVBridgeRGXCreateRenderTarget specServices IN OUT0 w).1.eError = PVRSRV_ERROR.PVRSRV_OK) :
    (PVRSRVBridgeRGXCreateRenderTarget specServices IN OUT0 w).2.s.destructorRuns = w.destructorRuns
    ∧ (destroyWith specServices (PVRSRVBridgeRGXCreateRenderTarget specServices IN OUT0 w).1.hsRenderTargetMemDesc PVRSRV_HANDLE_TYPE.PVRSRV_HANDLE_TYPE_RGX_FWIF_RENDERTARGET (PVRSRVBridgeRGXCreateRenderTarget specServices IN OUT0 w).2.s).1 = PVRSRV_ERROR.PVRSRV_OK
    ∧ (destroyWith specServices (PVRSRVBridgeRGXCreateRenderTarget specServices IN OUT0 w).1.hsRenderTargetMemDesc PVRSRV_HANDLE_TYPE.PVRSRV_HANDLE_TYPE_RGX_FWIF_RENDERTARGET (PVRSRVBridgeRGXCreateRenderTarget specServices IN OUT0 w).2.s).2.s.handles = w.handles
    ∧ (destroyWith specServices (PVRSRVBridgeRGXCreateRenderTarget specServices IN OUT0 w).1.hsRenderTargetMemDesc PVRSRV_HANDLE_TYPE.PVRSRV_HANDLE_TYPE_RGX_FWIF_RENDERTARGET (PVRSRVBridgeRGXCreateRenderTarget specServices IN OUT0 w).2.s).2.s.items = w.items
    ∧ (destroyWith specServices (PVRSRVBridgeRGXCreateRenderTarget specServices IN OUT0 w).1.hsRenderTargetMemDesc PVRSRV_HANDLE_TYPE.PVRSRV_HANDLE_TYPE_RGX_FWIF_RENDERTARGET (PVRSRVBridgeRGXCreateRenderTarget specServices IN OUT0 w).2.s).2.s.destructorRuns
        = w.destructorRuns ++ [(DomainFn.RGXDestroyRenderTarget, w.objectsMade + 1, PVRSRV_ERROR.PVRSRV_OK)] := by
  have hruns : runsFrom specServices w (PVRSRVBridgeRGXCreateRenderTarget specServices IN OUT0 w).2.calls (PVRSRVBridgeRGXCreateRenderTarget specServices IN OUT0 w).2.s :=
    RGXCreateRenderTarget_runs specServices w IN OUT0
  revert hok hruns
  generalize (PVRSRVBridgeRGXCreateRenderTarget specServices IN OUT0 w).2.s = w1
  apply RGXCreateRenderTarget_paths specServices w IN OUT0 (fun out calls =>
    out.eError = PVRSRV_ERROR.PVRSRV_OK → runsFrom specServices w calls w1 →
    w1.destructorRuns = w.destructorRuns
    ∧ (destroyWith specServices out.hsRenderTargetMemDesc PVRSRV_HANDLE_TYPE.PVRSRV_HANDLE_TYPE_RGX_FWIF_RENDERTARGET w1).1 = PVRSRV_ERROR.PVRSRV_OK
    ∧ (destroyWith specServices out.hsRenderTargetMemDesc PVRSRV_HANDLE_TYPE.PVRSRV_HANDLE_TYPE_RGX_FWIF_RENDERTARGET w1).2.s.handles = w.handles
    ∧ (destroyWith specServices out.hsRenderTargetMemDesc PVRSRV_HANDLE_TYPE.PVRSRV_HANDLE_TYPE_RGX_FWIF_RENDERTARGET w1).2.s.items = w.items
    ∧ (destroyWith specServices out.hsRenderTargetMemDesc PVRSRV_HANDLE_TYPE.PVRSRV_HANDLE_TYPE_RGX_FWIF_RENDERTARGET w1).2.s.destructorRuns
        = w.destructorRuns ++ [(DomainFn.RGXDestroyRenderTarget, w.objectsMade + 1, PVRSRV_ERROR.PVRSRV_OK)])
  all_goals
    intros
    first
    | (rename_i hok _; dsimp only at hok; contradiction)
    | (rename_i hok hr
       dsimp only at hok
       subst hok
       obtain ⟨w5, hs, hc⟩ := runsFrom_dropWhile _ _ _ hr
       simp only [List.dropWhile_cons, isEffect_OSAllocMem, isEffect_OSAccessOK,
      isEffect_OSCopyFromUser, isEffect_PVRSRVLookupHandle,
      isEffect_ResManFindPrivateDataByPtr, isEffect_domain, Bool.not_false, Bool.not_true,
      if_true, Bool.false_eq_true, if_false] at hc
       exact roundtrip_core (CreateRequest.RenderTarget IN OUT0) w w5 w1 hw hp hs hfree hc
         (by assumption) (onlyOSFreeMem_cleanupCalls_ok _ _ _ _ _ _ _ _ _ _))

/-- On the model of the collaborators: a successful `PVRSRVBridgeRGXCreateZSBuffer`
runs no destructor, and the destroy-style body on the handle it returns, under
the tag `PVRSRV_HANDLE_TYPE_RGX_FWIF_ZSBUFFER`, returns `PVRSRV_OK`, runs the
destructor of the new object once, and leaves the handles and the items that
were there before the create. -/
theorem RGXCreateZSBuffer_roundtrip (w : World) (IN : PVRSRV_BRIDGE_IN_RGXCREATEZSBUFFER)
    (OUT0 : PVRSRV_BRIDGE_OUT_RGXCREATEZSBUFFER) (hw : w.wellFormed)
    (hp : ∀ e ∈ w.handles, e.parent ≤ w.handlesMade)
    (hfree : w.objectsMade + 1 ∉ w.dependents)
    (hok : (PVRSRVBridgeRGXCreateZSBuffer specServices IN OUT0 w).1.eError = PVRSRV_ERROR.PVRSRV_OK) :
    (PVRSRVBridgeRGXCreateZSBuffer specServices IN OUT0 w).2.s.destructorRuns = w.destructorRuns
    ∧ (destroyWith specServices (PVRSRVBridgeRGXCreateZSBuffer specServices IN OUT0 w).1.hsZSBufferKM PVRSRV_HANDLE_TYPE.PVRSRV_HANDLE_TYPE_RGX_FWIF_ZSBUFFER (PVRSRVBridgeRGXCreateZSBuffer specServices IN OUT0 w).2.s).1 = PVRSRV_ERROR.PVRSRV_OK
    ∧ (destroyWith specServices (PVRSRVBridgeRGXCreateZSBuffer specServices IN OUT0 w).1.hsZSBufferKM PVRSRV_HANDLE_TYPE.PVRSRV_HANDLE_TYPE_RGX_FWIF_ZSBUFFER (PVRSRVBridgeRGXCreateZSBuffer specServices IN OUT0 w).2.s).2.s.handles = w.handles
    ∧ (destroyWith specServices (PVRSRVBridgeRGXCreateZSBuffer specServices IN OUT0 w).1.hsZSBufferKM PVRSRV_HANDLE_TYPE.PVRSRV_HANDLE_TYPE_RGX_FWIF_ZSBUFFER (PVRSRVBridgeRGXCreateZSBuffer specServices IN OUT0 w).2.s).2.s.items = w.items
    ∧ (destroyWith specServices (PVRSRVBridgeRGXCreateZSBuffer specServices IN OUT0 w).1.hsZSBufferKM PVRSRV_HANDLE_TYPE.PVRSRV_HANDLE_TYPE_RGX_FWIF_ZSBUFFER (PVRSRVBridgeRGXCreateZSBuffer specServices IN OUT0 w).2.s).2.s.destructorRuns
        = w.destructorRuns ++ [(DomainFn.RGXDestroyZSBufferKM, w.objectsMade + 1, PVRSRV_ERROR.PVRSRV_OK)] := by
  have hruns : runsFrom specServices w (PVRSRVBridgeRGXCreateZSBuffer specServices IN OUT0 w).2.calls (PVRSRVBridgeRGXCreateZSBuffer specServices IN OUT0 w).2.s :=
    RGXCreateZSBuffer_runs specServices w IN OUT0
  revert hok hruns
  generalize (PVRSRVBridgeRGXCreateZSBuffer specServices IN OUT0 w).2.s = w1
  apply RGXCreateZSBuffer_paths specServices w IN OUT0 (fun out calls =>
    out.eError = PVRSRV_ERROR.PVRSRV_OK → runsFrom specServices w calls w1 →
    w1.destructorRuns = w.destructorRuns
    ∧ (destroyWith specServices out.hsZSBufferKM PVRSRV_HANDLE_TYPE.PVRSRV_HANDLE_TYPE_RGX_FWIF_ZSBUFFER w1).1 = PVRSRV_ERROR.PVRSRV_OK
    ∧ (destroyWith specServices out.hsZSBufferKM PVRSRV_HANDLE_TYPE.PVRSRV_HANDLE_TYPE_RGX_FWIF_ZSBUFFER w1).2.s.handles = w.handles
    ∧ (destroyWith specServices out.hsZSBufferKM PVRSRV_HANDLE_TYPE.PVRSRV_HANDLE_TYPE_RGX_FWIF_ZSBUFFER w1).2.s.items = w.items
    ∧ (destroyWith specServices out.hsZSBufferKM PVRSRV_HANDLE_TYPE.PVRSRV_HANDLE_TYPE_RGX_FWIF_ZSBUFFER w1).2.s.destructorRuns
        = w.destructorRuns ++ [(DomainFn.RGXDestroyZSBufferKM, w.objectsMade + 1, PVRSRV_ERROR.PVRSRV_OK)])
  all_goals
    intros
    first
    | (rename_i hok _; dsimp only at hok; contradiction)
    | (rename_i hok hr
       dsimp only at hok
       subst hok
       obtain ⟨w5, hs, hc⟩ := runsFrom_dropWhile _ _ _ hr
       simp only [List.dropWhile_cons, isEffect_OSAllocMem, isEffect_OSAccessOK,
      isEffect_OSCopyFromUser, isEffect_PVRSRVLookupHandle,
      isEffect_ResManFindPrivateDataByPtr, isEffect_domain, Bool.not_false, Bool.not_true,
      if_true, Bool.false_eq_true, if_false] at hc
       exact roundtrip_core (CreateRequest.ZSBuffer IN OUT0) w w5 w1 hw hp hs hfree hc
         (by assumption) (onlyOSFreeMem_cleanupCalls_ok _ _ _ _ _ _ _ _ _ _))

/-- On the model of the collaborators: a successful `PVRSRVBridgeRGXPopulateZSBuffer`
runs no destructor, and the destroy-style body on the handle it returns, under
the tag `PVRSRV_HANDLE_TYPE_RGX_POPULATION`, returns `PVRSRV_OK`, runs the
destructor of the new object once, and leaves the handles and the items that
were there before the create. -/
theorem RGXPopulateZSBuffer_roundtrip (w : World) (IN : PVRSRV_BRIDGE_IN_RGXPOPULATEZSBUFFER)
    (OUT0 : PVRSRV_BRIDGE_OUT_RGXPOPULATEZSBUFFER) (hw : w.wellFormed)
    (hp : ∀ e ∈ w.handles, e.parent ≤ w.handlesMade)
    (hfree : w.objectsMade + 1 ∉ w.dependents)
    (hok : (PVRSRVBridgeRGXPopulateZSBuffer specServices IN OUT0 w).1.eError = PVRSRV_ERROR.PVRSRV_OK) :
    (PVRSRVBridgeRGXPopulateZSBuffer specServices IN OUT0 w).2.s.destructorRuns = w.destructorRuns
    ∧ (destroyWith specServices (PVRSRVBridgeRGXPopulateZSBuffer specServices IN OUT0 w).1.hsPopulation PVRSRV_HANDLE_TYPE.PVRSRV_HANDLE_TYPE_RGX_POPULATION (PVRSRVBridgeRGXPopulateZSBuffer specServices IN OUT0 w).2.s).1 = PVRSRV_ERROR.PVRSRV_OK
    ∧ (destroyWith specServices (PVRSRVBridgeRGXPopulateZSBuffer specServices IN OUT0 w).1.hsPopulation PVRSRV_HANDLE_TYPE.PVRSRV_HANDLE_TYPE_RGX_POPULATION (PVRSRVBridgeRGXPopulateZSBuffer specServices IN OUT0 w).2.s).2.s.handles = w.handles
    ∧ (destroyWith specServices (PVRSRVBridgeRGXPopulateZSBuffer specServices IN OUT0 w).1.hsPopulation PVRSRV_HANDLE_TYPE.PVRSRV_HANDLE_TYPE_RGX_POPULATION (PVRSRVBridgeRGXPopulateZSBuffer specServices IN OUT0 w).2.s).2.s.items = w.items
    ∧ (destroyWith specServices (PVRSRVBridgeRGXPopulateZSBuffer specServices IN OUT0 w).1.hsPopulation PVRSRV_HANDLE_TYPE.PVRSRV_HANDLE_TYPE_RGX_POPULATION (PVRSRVBridgeRGXPopulateZSBuffer specServices IN OUT0 w).2.s).2.s.destructorRuns
        = w.destructorRuns ++ [(DomainFn.RGXUnpopulateZSBufferKM, w.objectsMade + 1, PVRSRV_ERROR.PVRSRV_OK)] := by
  have hruns : runsFrom specServices w (PVRSRVBridgeRGXPopulateZSBuffer specServices IN OUT0 w).2.calls (PVRSRVBridgeRGXPopulateZSBuffer specServices IN OUT0 w).2.s :=
    RGXPopulateZSBuffer_runs specServices w IN OUT0
  revert hok hruns
  generalize (PVRSRVBridgeRGXPopulateZSBuffer specServices IN OUT0 w).2.s = w1
  apply RGXPopulateZSBuffer_paths specServices w IN OUT0 (fun out calls =>
    out.eError = PVRSRV_ERROR.PVRSRV_OK → runsFrom specServices w calls w1 →
    w1.destructorRuns = w.destructorRuns
    ∧ (destroyWith specServices out.hsPopulation PVRSRV_HANDLE_TYPE.PVRSRV_HANDLE_TYPE_RGX_POPULATION w1).1 = PVRSRV_ERROR.PVRSRV_OK
    ∧ (destroyWith specServices out.hsPopulation PVRSRV_HANDLE_TYPE.PVRSRV_HANDLE_TYPE_RGX_POPULATION w1).2.s.handles = w.handles
    ∧ (destroyWith specServices out.hsPopulation PVRSRV_HANDLE_TYPE.PVRSRV_HANDLE_TYPE_RGX_POPULATION w1).2.s.items = w.items
    ∧ (destroyWith specServices out.hsPopulation PVRSRV_HANDLE_TYPE.PVRSRV_HANDLE_TYPE_RGX_POPULATION w1).2.s.destructorRuns
        = w.destructorRuns ++ [(DomainFn.RGXUnpopulateZSBufferKM, w.objectsMade + 1, PVRSRV_ERROR.PVRSRV_OK)])
  all_goals
    intros
    first
    | (rename_i hok _; dsimp only at hok; contradiction)
    | (rename_i hok hr
       dsimp only at hok
       subst hok
       obtain ⟨w5, hs, hc⟩ := runsFrom_dropWhile _ _ _ hr
       simp only [List.dropWhile_cons, isEffect_OSAllocMem, isEffect_OSAccessOK,
      isEffect_OSCopyFromUser, isEffect_PVRSRVLookupHandle,
      isEffect_ResManFindPrivateDataByPtr, isEffect_domain, Bool.not_false, Bool.not_true,
      if_true, Bool.false_eq_true, if_false] at hc
       exact roundtrip_core (CreateRequest.PopulateZSBuffer IN OUT0) w w5 w1 hw hp hs hfree hc
         (by assumption) (onlyOSFreeMem_cleanupCalls_ok _ _ _ _ _ _ _ _ _ _))

/-- On the model of the collaborators: a successful `PVRSRVBridgeRGXCreateFreeList`
runs no destructor, and the destroy-style body on the handle it returns, under
the tag `PVRSRV_HANDLE_TYPE_RGX_FREELIST`, returns `PVRSRV_OK`, runs the
destructor of the new object once, and leaves the handles and the items that
were there before the create. -/
theorem RGXCreateFreeList_roundtrip (w : World) (IN : PVRSRV_BRIDGE_IN_RGXCREATEFREELIST)
    (OUT0 : PVRSRV_BRIDGE_OUT_RGXCREATEFREELIST) (hw : w.wellFormed)
    (hp : ∀ e ∈ w.handles, e.parent ≤ w.handlesMade)
    (hfree : w.objectsMade + 1 ∉ w.dependents)
    (hok : (PVRSRVBridgeRGXCreateFreeList specServices IN OUT0 w).1.eError = PVRSRV_ERROR.PVRSRV_OK) :
    (PVRSRVBridgeRGXCreateFreeList specServices IN OUT0 w).2.s.destructorRuns = w.destructorRuns
    ∧ (destroyWith specServices (PVRSRVBridgeRGXCreateFreeList specServices IN OUT0 w).1.hCleanupCookie PVRSRV_HANDLE_TYPE.PVRSRV_HANDLE_TYPE_RGX_FREELIST (PVRSRVBridgeRGXCreateFreeList specServices IN OUT0 w).2.s).1 = PVRSRV_ERROR.PVRSRV_OK
    ∧ (destroyWith specServices (PVRSRVBridgeRGXCreateFreeList specServices IN OUT0 w).1.hCleanupCookie PVRSRV_HANDLE_TYPE.PVRSRV_HANDLE_TYPE_RGX_FREELIST (PVRSRVBridgeRGXCreateFreeList specServices IN OUT0 w).2.s).2.s.handles = w.handles
    ∧ (destroyWith specServices (PVRSRVBridgeRGXCreateFreeList specServices IN OUT0 w).1.hCleanupCookie PVRSRV_HANDLE_TYPE.PVRSRV_HANDLE_TYPE_RGX_FREELIST (PVRSRVBridgeRGXCreateFreeList specServices IN OUT0 w).2.s).2.s.items = w.items
    ∧ (destroyWith specServices (PVRSRVBridgeRGXCreateFreeList specServices IN OUT0 w).1.hCleanupCookie PVRSRV_HANDLE_TYPE.PVRSRV_HANDLE_TYPE_RGX_FREELIST (PVRSRVBridgeRGXCreateFreeList specServices IN OUT0 w).2.s).2.s.destructorRuns
        = w.destructorRuns ++ [(DomainFn.RGXDestroyFreeList, w.objectsMade + 1, PVRSRV_ERROR.PVRSRV_OK)] := by
  have hruns : runsFrom specServices w (PVRSRVBridgeRGXCreateFreeList specServices IN OUT0 w).2.calls (PVRSRVBridgeRGXCreateFreeList specServices IN OUT0 w).2.s :=
    RGXCreateFreeList_runs specServices w IN OUT0
  revert hok hruns
  generalize (PVRSRVBridgeRGXCreateFreeList specServices IN OUT0 w).2.s = w1
  apply RGXCreateFreeList_paths specServices w IN OUT0 (fun out calls =>
    out.eError = PVRSRV_ERROR.PVRSRV_OK → runsFrom specServices w calls w1 →
    w1.destructorRuns = w.destructorRuns
    ∧ (destroyWith specServices out.hCleanupCookie PVRSRV_HANDLE_TYPE.PVRSRV_HANDLE_TYPE_RGX_FREELIST w1).1 = PVRSRV_ERROR.PVRSRV_OK
    ∧ (destroyWith specServices out.hCleanupCookie PVRSRV_HANDLE_TYPE.PVRSRV_HANDLE_TYPE_RGX_FREELIST w1).2.s.handles = w.handles
    ∧ (destroyWith specServices out.hCleanupCookie PVRSRV_HANDLE_TYPE.PVRSRV_HANDLE_TYPE_RGX_FREELIST w1).2.s.items = w.items
    ∧ (destroyWith specServices out.hCleanupCookie PVRSRV_HANDLE_TYPE.PVRSRV_HANDLE_TYPE_RGX_FREELIST w1).2.s.destructorRuns
        = w.destructorRuns ++ [(DomainFn.RGXDestroyFreeList, w.objectsMade + 1, PVRSRV_ERROR.PVRSRV_OK)])
  all_goals
    intros
    first
    | (rename_i hok _; dsimp only at hok; contradiction)
    | (rename_i hok hr
       dsimp only at hok
       subst hok
       obtain ⟨w5, hs, hc⟩ := runsFrom_dropWhile _ _ _ hr
       simp only [List.dropWhile_cons, isEffect_OSAllocMem, isEffect_OSAccessOK,
      isEffect_OSCopyFromUser, isEffect_PVRSRVLookupHandle,
      isEffect_ResManFindPrivateDataByPtr, isEffect_domain, Bool.not_false, Bool.not_true,
      if_true, Bool.false_eq_true, if_false] at hc
       exact roundtrip_core (CreateRequest.FreeList IN OUT0) w w5 w1 hw hp hs hfree hc
         (by assumption) (onlyOSFreeMem_cleanupCalls_ok _ _ _ _ _ _ _ _ _ _))

/-- On the model of the collaborators: a successful `PVRSRVBridgeRGXCreateRenderContext`
runs no destructor, and the destroy-style body on the handle it returns, under
the tag `PVRSRV_HANDLE_TYPE_RGX_RC_CLEANUP`, returns `PVRSRV_OK`, runs the
destructor of the new object once, and leaves the handles and the items that
were there before the create. -/
theorem RGXCreateRenderContext_roundtrip (w : World) (B : BridgeConsts) (IN : PVRSRV_BRIDGE_IN_RGXCREATERENDERCONTEXT)
    (OUT0 : PVRSRV_BRIDGE_OUT_RGXCREATERENDERCONTEXT) (hw : w.wellFormed)
    (hp : ∀ e ∈ w.handles, e.parent ≤ w.handlesMade)
    (hfree : w.objectsMade + 1 ∉ w.dependents)
    (hok : (PVRSRVBridgeRGXCreateRenderContext B specServices IN OUT0 w).1.eError = PVRSRV_ERROR.PVRSRV_OK) :
    (PVRSRVBridgeRGXCreateRenderContext B specServices IN OUT0 w).2.s.destructorRuns = w.destructorRuns
    ∧ (destroyWith specServices (PVRSRVBridgeRGXCreateRenderContext B specServices IN OUT0 w).1.hCleanupCookie PVRSRV_HANDLE_TYPE.PVRSRV_HANDLE_TYPE_RGX_RC_CLEANUP (PVRSRVBridgeRGXCreateRenderContext B specServices IN OUT0 w).2.s).1 = PVRSRV_ERROR.PVRSRV_OK
    ∧ (destroyWith specServices (PVRSRVBridgeRGXCreateRenderContext B specServices IN OUT0 w).1.hCleanupCookie PVRSRV_HANDLE_TYPE.PVRSRV_HANDLE_TYPE_RGX_RC_CLEANUP (PVRSRVBridgeRGXCreateRenderContext B specServices IN OUT0 w).2.s).2.s.handles = w.handles
    ∧ (destroyWith specServices (PVRSRVBridgeRGXCreateRenderContext B specServices IN OUT0 w).1.hCleanupCookie PVRSRV_HANDLE_TYPE.PVRSRV_HANDLE_TYPE_RGX_RC_CLEANUP (PVRSRVBridgeRGXCreateRenderContext B specServices IN OUT0 w).2.s).2.s.items = w.items
    ∧ (destroyWith specServices (PVRSRVBridgeRGXCreateRenderContext B specServices IN OUT0 w).1.hCleanupCookie PVRSRV_HANDLE_TYPE.PVRSRV_HANDLE_TYPE_RGX_RC_CLEANUP (PVRSRVBridgeRGXCreateRenderContext B specServices IN OUT0 w).2.s).2.s.destructorRuns
        = w.destructorRuns ++ [(DomainFn.PVRSRVRGXDestroyRenderContextKM, w.objectsMade + 1, PVRSRV_ERROR.PVRSRV_OK)] := by
  have hruns : runsFrom specServices w (PVRSRVBridgeRGXCreateRenderContext B specServices IN OUT0 w).2.calls (PVRSRVBridgeRGXCreateRenderContext B specServices IN OUT0 w).2.s :=
    RGXCreateRenderContext_runs specServices w B IN OUT0
  revert hok hruns
  generalize (PVRSRVBridgeRGXCreateRenderContext B specServices IN OUT0 w).2.s = w1
  apply RGXCreateRenderContext_paths specServices w B IN OUT0 (fun out calls =>
    out.eError = PVRSRV_ERROR.PVRSRV_OK → runsFrom specServices w calls w1 →
    w1.destructorRuns = w.destructorRuns
    ∧ (destroyWith specServices out.hCleanupCookie PVRSRV_HANDLE_TYPE.PVRSRV_HANDLE_TYPE_RGX_RC_CLEANUP w1).1 = PVRSRV_ERROR.PVRSRV_OK
    ∧ (destroyWith specServices out.hCleanupCookie PVRSRV_HANDLE_TYPE.PVRSRV_HANDLE_TYPE_RGX_RC_CLEANUP w1).2.s.handles = w.handles
    ∧ (destroyWith specServices out.hCleanupCookie PVRSRV_HANDLE_TYPE.PVRSRV_HANDLE_TYPE_RGX_RC_CLEANUP w1).2.s.items = w.items
    ∧ (destroyWith specServices out.hCleanupCookie PVRSRV_HANDLE_TYPE.PVRSRV_HANDLE_TYPE_RGX_RC_CLEANUP w1).2.s.destructorRuns
        = w.destructorRuns ++ [(DomainFn.PVRSRVRGXDestroyRenderContextKM, w.objectsMade + 1, PVRSRV_ERROR.PVRSRV_OK)])
  case path13 =>
    intro p1 d3 d4 d5 d6 d7 d8 o9 i7 h8 h9 h10 e10 rr fr de dout _ hi7 hok hr
    dsimp only at hok
    subst hok
    obtain ⟨w5, hs, hc⟩ := runsFrom_dropWhile _ _ _ hr
    simp only [List.dropWhile_cons, isEffect_OSAllocMem, isEffect_OSAccessOK,
      isEffect_OSCopyFromUser, isEffect_PVRSRVLookupHandle,
      isEffect_ResManFindPrivateDataByPtr, isEffect_domain, Bool.not_false, Bool.not_true,
      if_true, Bool.false_eq_true, if_false] at hc
    exact roundtrip_core_subs (CreateRequest.RenderContext B IN OUT0) w w5 w1 hw hp hs hfree hc hi7
      (onlyOSFreeMem_cleanupCalls_ok _ _ _ _ _ _ _ _ _ _)
  all_goals
    intros
    rename_i hok _
    dsimp only at hok
    contradiction

/-! ## The type tags of the handles of the six resource kinds -/

/-- On any collaborators, every `PVRSRVAllocHandle` call of
`PVRSRVBridgeRGXCreateHWRTData` is under the tag `PVRSRV_HANDLE_TYPE_RGX_RTDATA_CLEANUP`
and leaves the handle that the output structure returns; a call that returns
`PVRSRV_OK` made exactly one such allocation, which succeeded. -/
theorem RGXCreateHWRTData_tag {σ : Type} (S : Services σ) (s : σ) (B : BridgeConsts) 
    (IN : PVRSRV_BRIDGE_IN_RGXCREATEHWRTDATA) (OUT0 : PVRSRV_BRIDGE_OUT_RGXCREATEHWRTDATA) :
    (∀ x ∈ parentAllocs (PVRSRVBridgeRGXCreateHWRTData B S IN OUT0 s).2.calls,
      x.1 = PVRSRV_HANDLE_TYPE.PVRSRV_HANDLE_TYPE_RGX_RTDATA_CLEANUP
      ∧ x.2.2 = (PVRSRVBridgeRGXCreateHWRTData B S IN OUT0 s).1.hCleanupCookie)
    ∧ ((PVRSRVBridgeRGXCreateHWRTData B S IN OUT0 s).1.eError = PVRSRV_ERROR.PVRSRV_OK →
        parentAllocs (PVRSRVBridgeRGXCreateHWRTData B S IN OUT0 s).2.calls
          = [(PVRSRV_HANDLE_TYPE.PVRSRV_HANDLE_TYPE_RGX_RTDATA_CLEANUP, PVRSRV_ERROR.PVRSRV_OK,
              (PVRSRVBridgeRGXCreateHWRTData B S IN OUT0 s).1.hCleanupCookie)]) := by
  apply RGXCreateHWRTData_paths S s B IN OUT0 (fun out calls =>
    (∀ x ∈ parentAllocs calls,
      x.1 = PVRSRV_HANDLE_TYPE.PVRSRV_HANDLE_TYPE_RGX_RTDATA_CLEANUP ∧ x.2.2 = out.hCleanupCookie)
    ∧ (out.eError = PVRSRV_ERROR.PVRSRV_OK →
        parentAllocs calls
          = [(PVRSRV_HANDLE_TYPE.PVRSRV_HANDLE_TYPE_RGX_RTDATA_CLEANUP, PVRSRV_ERROR.PVRSRV_OK, out.hCleanupCookie)]))
  all_goals
    intros
    simp [parentAllocs, parentAllocs_append, parentAllocs_cleanupCalls, parentAllocs_of_lookupsOK,
      parentAllocs_cons_of_lookup, *]

/-- On any collaborators, every `PVRSRVAllocHandle` call of
`PVRSRVBridgeRGXCreateRenderTarget` is under the tag `PVRSRV_HANDLE_TYPE_RGX_FWIF_RENDERTARGET`
and leaves the handle that the output structure returns; a call that returns
`PVRSRV_OK` made exactly one such allocation, which succeeded. -/
theorem RGXCreateRenderTarget_tag {σ : Type} (S : Services σ) (s : σ) 
    (IN : PVRSRV_BRIDGE_IN_RGXCREATERENDERTARGET) (OUT0 : PVRSRV_BRIDGE_OUT_RGXCREATERENDERTARGET) :
    (∀ x ∈ parentAllocs (PVRSRVBridgeRGXCreateRenderTarget S IN OUT0 s).2.calls,
      x.1 = PVRSRV_HANDLE_TYPE.PVRSRV_HANDLE_TYPE_RGX_FWIF_RENDERTARGET
      ∧ x.2.2 = (PVRSRVBridgeRGXCreateRenderTarget S IN OUT0 s).1.hsRenderTargetMemDesc)
    ∧ ((PVRSRVBridgeRGXCreateRenderTarget S IN OUT0 s).1.eError = PVRSRV_ERROR.PVRSRV_OK →
        parentAllocs (PVRSRVBridgeRGXCreateRenderTarget S IN OUT0 s).2.calls
          = [(PVRSRV_HANDLE_TYPE.PVRSRV_HANDLE_TYPE_RGX_FWIF_RENDERTARGET, PVRSRV_ERROR.PVRSRV_OK,
              (PVRSRVBridgeRGXCreateRenderTarget S IN OUT0 s).1.hsRenderTargetMemDesc)]) := by
  apply RGXCreateRenderTarget_paths S s IN OUT0 (fun out calls =>
    (∀ x ∈ parentAllocs calls,
      x.1 = PVRSRV_HANDLE_TYPE.PVRSRV_HANDLE_TYPE_RGX_FWIF_RENDERTARGET ∧ x.2.2 = out.hsRenderTargetMemDesc)
    ∧ (out.eError = PVRSRV_ERROR.PVRSRV_OK →
        parentAllocs calls
          = [(PVRSRV_HANDLE_TYPE.PVRSRV_HANDLE_TYPE_RGX_FWIF_RENDERTARGET, PVRSRV_ERROR.PVRSRV_OK, out.hsRenderTargetMemDesc)]))
  all_goals
    intros
    simp [parentAllocs, parentAllocs_append, parentAllocs_cleanupCalls, parentAllocs_of_lookupsOK,
      parentAllocs_cons_of_lookup, *]

/-- On any collaborators, every `PVRSRVAllocHandle` call of
`PVRSRVBridgeRGXCreateZSBuffer` is under the tag `PVRSRV_HANDLE_TYPE_RGX_FWIF_ZSBUFFER`
and leaves the handle that the output structure returns; a call that returns
`PVRSRV_OK` made exactly one such allocation, which succeeded. -/
theorem RGXCreateZSBuffer_tag {σ : Type} (S : Services σ) (s : σ) 
    (IN : PVRSRV_BRIDGE_IN_RGXCREATEZSBUFFER) (OUT0 : PVRSRV_BRIDGE_OUT_RGXCREATEZSBUFFER) :
    (∀ x ∈ parentAllocs (PVRSRVBridgeRGXCreateZSBuffer S IN OUT0 s).2.calls,
      x.1 = PVRSRV_HANDLE_TYPE.PVRSRV_HANDLE_TYPE_RGX_FWIF_ZSBUFFER
      ∧ x.2.2 = (PVRSRVBridgeRGXCreateZSBuffer S IN OUT0 s).1.hsZSBufferKM)
    ∧ ((PVRSRVBridgeRGXCreateZSBuffer S IN OUT0 s).1.eError = PVRSRV_ERROR.PVRSRV_OK →
        parentAllocs (PVRSRVBridgeRGXCreateZSBuffer S IN OUT0 s).2.calls
          = [(PVRSRV_HANDLE_TYPE.PVRSRV_HANDLE_TYPE_RGX_FWIF_ZSBUFFER, PVRSRV_ERROR.PVRSRV_OK,
              (PVRSRVBridgeRGXCreateZSBuffer S IN OUT0 s).1.hsZSBufferKM)]) := by
  apply RGXCreateZSBuffer_paths S s IN OUT0 (fun out calls =>
    (∀ x ∈ parentAllocs calls,
      x.1 = PVRSRV_HANDLE_TYPE.PVRSRV_HANDLE_TYPE_RGX_FWIF_ZSBUFFER ∧ x.2.2 = out.hsZSBufferKM)
    ∧ (out.eError = PVRSRV_ERROR.PVRSRV_OK →
        parentAllocs calls
          = [(PVRSRV_HANDLE_TYPE.PVRSRV_HANDLE_TYPE_RGX_FWIF_ZSBUFFER, PVRSRV_ERROR.PVRSRV_OK, out.hsZSBufferKM)]))
  all_goals
    intros
    simp [parentAllocs, parentAllocs_append, parentAllocs_cleanupCalls, parentAllocs_of_lookupsOK,
      parentAllocs_cons_of_lookup, *]

/-- On any collaborators, every `PVRSRVAllocHandle` call of
`PVRSRVBridgeRGXPopulateZSBuffer` is under the tag `PVRSRV_HANDLE_TYPE_RGX_POPULATION`
and leaves the handle that the output structure returns; a call that returns
`PVRSRV_OK` made exactly one such allocation, which succeeded. -/
theorem RGXPopulateZSBuffer_tag {σ : Type} (S : Services σ) (s : σ) 
    (IN : PVRSRV_BRIDGE_IN_RGXPOPULATEZSBUFFER) (OUT0 : PVRSRV_BRIDGE_OUT_RGXPOPULATEZSBUFFER) :
    (∀ x ∈ parentAllocs (PVRSRVBridgeRGXPopulateZSBuffer S IN OUT0 s).2.calls,
      x.1 = PVRSRV_HANDLE_TYPE.PVRSRV_HANDLE_TYPE_RGX_POPULATION
      ∧ x.2.2 = (PVRSRVBridgeRGXPopulateZSBuffer S IN OUT0 s).1.hsPopulation)
    ∧ ((PVRSRVBridgeRGXPopulateZSBuffer S IN OUT0 s).1.eError = PVRSRV_ERROR.PVRSRV_OK →
        parentAllocs (PVRSRVBridgeRGXPopulateZSBuffer S IN OUT0 s).2.calls
          = [(PVRSRV_HANDLE_TYPE.PVRSRV_HANDLE_TYPE_RGX_POPULATION, PVRSRV_ERROR.PVRSRV_OK,
              (PVRSRVBridgeRGXPopulateZSBuffer S IN OUT0 s).1.hsPopulation)]) := by
  apply RGXPopulateZSBuffer_paths S s IN OUT0 (fun out calls =>
    (∀ x ∈ parentAllocs calls,
      x.1 = PVRSRV_HANDLE_TYPE.PVRSRV_HANDLE_TYPE_RGX_POPULATION ∧ x.2.2 = out.hsPopulation)
    ∧ (out.eError = PVRSRV_ERROR.PVRSRV_OK →
        parentAllocs calls
          = [(PVRSRV_HANDLE_TYPE.PVRSRV_HANDLE_TYPE_RGX_POPULATION, PVRSRV_ERROR.PVRSRV_OK, out.hsPopulation)]))
  all_goals
    intros
    simp [parentAllocs, parentAllocs_append, parentAllocs_cleanupCalls, parentAllocs_of_lookupsOK,
      parentAllocs_cons_of_lookup, *]

/-- On any collaborators, every `PVRSRVAllocHandle` call of
`PVRSRVBridgeRGXCreateFreeList` is under the tag `PVRSRV_HANDLE_TYPE_RGX_FREELIST`
and leaves the handle that the output structure returns; a call that returns
`PVRSRV_OK` made exactly one such allocation, which succeeded. -/
theorem RGXCreateFreeList_tag {σ : Type} (S : Services σ) (s : σ) 
    (IN : PVRSRV_BRIDGE_IN_RGXCREATEFREELIST) (OUT0 : PVRSRV_BRIDGE_OUT_RGXCREATEFREELIST) :
    (∀ x ∈ parentAllocs (PVRSRVBridgeRGXCreateFreeList S IN OUT0 s).2.calls,
      x.1 = PVRSRV_HANDLE_TYPE.PVRSRV_HANDLE_TYPE_RGX_FREELIST
      ∧ x.2.2 = (PVRSRVBridgeRGXCreateFreeList S IN OUT0 s).1.hCleanupCookie)
    ∧ ((PVRSRVBridgeRGXCreateFreeList S IN OUT0 s).1.eError = PVRSRV_ERROR.PVRSRV_OK →
        parentAllocs (PVRSRVBridgeRGXCreateFreeList S IN OUT0 s).2.calls
          = [(PVRSRV_HANDLE_TYPE.PVRSRV_HANDLE_TYPE_RGX_FREELIST, PVRSRV_ERROR.PVRSRV_OK,
              (PVRSRVBridgeRGXCreateFreeList S IN OUT0 s).1.hCleanupCookie)]) := by
  apply RGXCreateFreeList_paths S s IN OUT0 (fun out calls =>
    (∀ x ∈ parentAllocs calls,
      x.1 = PVRSRV_HANDLE_TYPE.PVRSRV_HANDLE_TYPE_RGX_FREELIST ∧ x.2.2 = out.hCleanupCookie)
    ∧ (out.eError = PVRSRV_ERROR.PVRSRV_OK →
        parentAllocs calls
          = [(PVRSRV_HANDLE_TYPE.PVRSRV_HANDLE_TYPE_RGX_FREELIST, PVRSRV_ERROR.PVRSRV_OK, out.hCleanupCookie)]))
  all_goals
    intros
    simp [parentAllocs, parentAllocs_append, parentAllocs_cleanupCalls, parentAllocs_of_lookupsOK,
      parentAllocs_cons_of_lookup, *]

/-- On any collaborators, every `PVRSRVAllocHandle` call of
`PVRSRVBridgeRGXCreateRenderContext` is under the tag `PVRSRV_HANDLE_TYPE_RGX_RC_CLEANUP`
and leaves the handle that the output structure returns; a call that returns
`PVRSRV_OK` made exactly one such allocation, which succeeded. -/
theorem RGXCreateRenderContext_tag {σ : Type} (S : Services σ) (s : σ) (B : BridgeConsts) 
    (IN : PVRSRV_BRIDGE_IN_RGXCREATERENDERCONTEXT) (OUT0 : PVRSRV_BRIDGE_OUT_RGXCREATERENDERCONTEXT) :
    (∀ x ∈ parentAllocs (PVRSRVBridgeRGXCreateRenderContext B S IN OUT0 s).2.calls,
      x.1 = PVRSRV_HANDLE_TYPE.PVRSRV_HANDLE_TYPE_RGX_RC_CLEANUP
      ∧ x.2.2 = (PVRSRVBridgeRGXCreateRenderContext B S IN OUT0 s).1.hCleanupCookie)
    ∧ ((PVRSRVBridgeRGXCreateRenderContext B S IN OUT0 s).1.eError = PVRSRV_ERROR.PVRSRV_OK →
        parentAllocs (PVRSRVBridgeRGXCreateRenderContext B S IN OUT0 s).2.calls
          = [(PVRSRV_HANDLE_TYPE.PVRSRV_HANDLE_TYPE_RGX_RC_CLEANUP, PVRSRV_ERROR.PVRSRV_OK,
              (PVRSRVBridgeRGXCreateRenderContext B S IN OUT0 s).1.hCleanupCookie)]) := by
  apply RGXCreateRenderContext_paths S s B IN OUT0 (fun out calls =>
    (∀ x ∈ parentAllocs calls,
      x.1 = PVRSRV_HANDLE_TYPE.PVRSRV_HANDLE_TYPE_RGX_RC_CLEANUP ∧ x.2.2 = out.hCleanupCookie)
    ∧ (out.eError = PVRSRV_ERROR.PVRSRV_OK →
        parentAllocs calls
          = [(PVRSRV_HANDLE_TYPE.PVRSRV_HANDLE_TYPE_RGX_RC_CLEANUP, PVRSRV_ERROR.PVRSRV_OK, out.hCleanupCookie)]))
  all_goals
    intros
    simp [parentAllocs, parentAllocs_append, parentAllocs_cleanupCalls, parentAllocs_of_lookupsOK,
      parentAllocs_cons_of_lookup, *]

/-- On any collaborators, every `PVRSRVAllocHandle` call of a create function
is under the tag of its resource kind and leaves the handle that the function
returns; a call that returns `PVRSRV_OK` made exactly one such allocation. -/
theorem CreateRequest.exec_tag {σ : Type} (S : Services σ) (s : σ) (req : CreateRequest) :
    (∀ x ∈ parentAllocs (req.exec S s).2.calls,
      x.1 = req.handleType ∧ x.2.2 = (req.exec S s).1.2)
    ∧ ((req.exec S s).1.1 = PVRSRV_ERROR.PVRSRV_OK →
        parentAllocs (req.exec S s).2.calls
          = [(req.handleType, PVRSRV_ERROR.PVRSRV_OK, (req.exec S s).1.2)]) := by
  cases req with
  | HWRTData B IN OUT0 => exact RGXCreateHWRTData_tag S s B IN OUT0
  | RenderTarget IN OUT0 => exact RGXCreateRenderTarget_tag S s IN OUT0
  | ZSBuffer IN OUT0 => exact RGXCreateZSBuffer_tag S s IN OUT0
  | PopulateZSBuffer IN OUT0 => exact RGXPopulateZSBuffer_tag S s IN OUT0
  | FreeList IN OUT0 => exact RGXCreateFreeList_tag S s IN OUT0
  | RenderContext B IN OUT0 => exact RGXCreateRenderContext_tag S s B IN OUT0

/-- On any collaborators, the destroy-style body looks up the handle it is
given under the tag it is given, and no other handle; a handle that it
releases is that handle, under that tag. -/
theorem destroyWith_tags {σ : Type} (S : Services σ) (s : σ) (h : Nat)
    (t : PVRSRV_HANDLE_TYPE) :
    handleLookups (destroyWith S h t s).2.calls = [(h, t)]
    ∧ (∀ x ∈ unwindSteps (destroyWith S h t s).2.calls,
        ∀ h1 t1, x = UnwindStep.release h1 t1 → h1 = h ∧ t1 = t) := by
  obtain ⟨e, d, hc⟩ := destroyWith_calls S s h t
  rcases hc with ⟨_, _, hc⟩ | ⟨_, f, ⟨_, _, hc⟩ | ⟨_, r, _, hc⟩⟩
  all_goals
    rw [hc]
    simp [handleLookups, unwindSteps]

/-- The destroy request of a create request is for the same resource kind: it
passes the handle it is given, its entry point looks that handle up under the
tag of the create function and no other handle, and a handle it releases is
that handle under that tag. -/
theorem CreateRequest.destroy_tag {σ : Type} (S : Services σ) (s : σ) (req : CreateRequest)
    (h : Nat) :
    (req.destroyRequest h).handle = h
    ∧ (req.destroyRequest h).handleType = req.handleType
    ∧ handleLookups ((req.destroyRequest h).run S s).2.calls = [(h, req.handleType)]
    ∧ (∀ x ∈ unwindSteps ((req.destroyRequest h).run S s).2.calls,
        ∀ h1 t1, x = UnwindStep.release h1 t1 → h1 = h ∧ t1 = req.handleType) := by
  have h1 : (req.destroyRequest h).handle = h := by cases req <;> rfl
  have h2 : (req.destroyRequest h).handleType = req.handleType := by cases req <;> rfl
  refine ⟨h1, h2, ?_⟩
  rw [DestroyRequest.run_eq, h1, h2]
  exact destroyWith_tags S s h req.handleType

/-- On the model of the collaborators: a successful create runs no destructor,
and the matching destroy on the handle it returns gives `PVRSRV_OK`, runs the
destructor of the new object once, and leaves the handles and the items that
were there before the create. -/
theorem CreateRequest.roundtrip (req : CreateRequest) (w : World) (hw : w.wellFormed)
    (hp : ∀ e ∈ w.handles, e.parent ≤ w.handlesMade)
    (hfree : w.objectsMade + 1 ∉ w.dependents)
    (hok : (req.exec specServices w).1.1 = PVRSRV_ERROR.PVRSRV_OK) :
    (req.exec specServices w).2.s.destructorRuns = w.destructorRuns
    ∧ ((req.destroyRequest (req.exec specServices w).1.2).run specServices
        (req.exec specServices w).2.s).1 = PVRSRV_ERROR.PVRSRV_OK
    ∧ ((req.destroyRequest (req.exec specServices w).1.2).run specServices
        (req.exec specServices w).2.s).2.s.handles = w.handles
    ∧ ((req.destroyRequest (req.exec specServices w).1.2).run specServices
        (req.exec specServices w).2.s).2.s.items = w.items
    ∧ ((req.destroyRequest (req.exec specServices w).1.2).run specServices
        (req.exec specServices w).2.s).2.s.destructorRuns
        = w.destructorRuns ++ [(req.destroyFn, w.objectsMade + 1, PVRSRV_ERROR.PVRSRV_OK)] := by
  rw [DestroyRequest.run_eq, (CreateRequest.destroy_tag specServices w req _).1,
    (CreateRequest.destroy_tag specServices w req _).2.1]
  cases req with
  | HWRTData B IN OUT0 => exact RGXCreateHWRTData_roundtrip w B IN OUT0 hw hp hfree hok
  | RenderTarget IN OUT0 => exact RGXCreateRenderTarget_roundtrip w IN OUT0 hw hp hfree hok
  | ZSBuffer IN OUT0 => exact RGXCreateZSBuffer_roundtrip w IN OUT0 hw hp hfree hok
  | PopulateZSBuffer IN OUT0 => exact RGXPopulateZSBuffer_roundtrip w IN OUT0 hw hp hfree hok
  | FreeList IN OUT0 => exact RGXCreateFreeList_roundtrip w IN OUT0 hw hp hfree hok
  | RenderContext B IN OUT0 => exact RGXCreateRenderContext_roundtrip w B IN OUT0 hw hp hfree hok

/-! ## The look-ups of the functions that use a handle of one of the six kinds -/

/-- On any collaborators, `PVRSRVBridgeRGXPopulateZSBuffer` looks up the handle
of the ZS buffer under the tag `PVRSRV_HANDLE_TYPE_RGX_FWIF_ZSBUFFER`, and no
other handle. -/
theorem RGXPopulateZSBuffer_lookups {σ : Type} (S : Services σ) (s : σ)
    (IN : PVRSRV_BRIDGE_IN_RGXPOPULATEZSBUFFER) (OUT0 : PVRSRV_BRIDGE_OUT_RGXPOPULATEZSBUFFER) :
    handleLookups (PVRSRVBridgeRGXPopulateZSBuffer S IN OUT0 s).2.calls
      = [(IN.hsZSBufferKM, PVRSRV_HANDLE_TYPE.PVRSRV_HANDLE_TYPE_RGX_FWIF_ZSBUFFER)] := by
  apply RGXPopulateZSBuffer_paths S s IN OUT0 (fun _ calls =>
    handleLookups calls
      = [(IN.hsZSBufferKM, PVRSRV_HANDLE_TYPE.PVRSRV_HANDLE_TYPE_RGX_FWIF_ZSBUFFER)])
  all_goals
    intros
    simp [handleLookups, handleLookups_append, handleLookups_cleanupCalls]

/-- On any collaborators, `PVRSRVBridgeRGXAddBlockToFreeList` looks up the
handle of the free list under the tag `PVRSRV_HANDLE_TYPE_RGX_FREELIST`, and no
other handle. -/
theorem RGXAddBlockToFreeList_lookups {σ : Type} (S : Services σ) (s : σ)
    (IN : PVRSRV_BRIDGE_IN_RGXADDBLOCKTOFREELIST)
    (OUT0 : PVRSRV_BRIDGE_OUT_RGXADDBLOCKTOFREELIST) :
    handleLookups (PVRSRVBridgeRGXAddBlockToFreeList S IN OUT0 s).2.calls
      = [(IN.hsFreeList, PVRSRV_HANDLE_TYPE.PVRSRV_HANDLE_TYPE_RGX_FREELIST)] := by
  apply RGXAddBlockToFreeList_paths S s IN OUT0 (fun _ calls =>
    handleLookups calls
      = [(IN.hsFreeList, PVRSRV_HANDLE_TYPE.PVRSRV_HANDLE_TYPE_RGX_FREELIST)])
  all_goals
    intros
    simp [handleLookups]

/-- On any collaborators, `PVRSRVBridgeRGXRemoveBlockFromFreeList` looks up the
handle of the free list under the tag `PVRSRV_HANDLE_TYPE_RGX_FREELIST`, and no
other handle. -/
theorem RGXRemoveBlockFromFreeList_lookups {σ : Type} (S : Services σ) (s : σ)
    (IN : PVRSRV_BRIDGE_IN_RGXREMOVEBLOCKFROMFREELIST)
    (OUT0 : PVRSRV_BRIDGE_OUT_RGXREMOVEBLOCKFROMFREELIST) :
    handleLookups (PVRSRVBridgeRGXRemoveBlockFromFreeList S IN OUT0 s).2.calls
      = [(IN.hsFreeList, PVRSRV_HANDLE_TYPE.PVRSRV_HANDLE_TYPE_RGX_FREELIST)] := by
  apply RGXRemoveBlockFromFreeList_paths S s IN OUT0 (fun _ calls =>
    handleLookups calls
      = [(IN.hsFreeList, PVRSRV_HANDLE_TYPE.PVRSRV_HANDLE_TYPE_RGX_FREELIST)])
  all_goals
    intros
    simp [handleLookups]

/-- On any collaborators, every handle that `PVRSRVBridgeRGXKickTA3D` looks up
is one of its five input handles under the tag of its kind: the cleanup cookie
of the render-target data under `PVRSRV_HANDLE_TYPE_RGX_RTDATA_CLEANUP`, the Z
and the S buffer under `PVRSRV_HANDLE_TYPE_RGX_FWIF_ZSBUFFER`. -/
theorem RGXKickTA3D_lookups {σ : Type} (S : Services σ) (s : σ)
    (IN : PVRSRV_BRIDGE_IN_RGXKICKTA3D) (OUT0 : PVRSRV_BRIDGE_OUT_RGXKICKTA3D) :
    ∀ x ∈ handleLookups (PVRSRVBridgeRGXKickTA3D S IN OUT0 s).2.calls,
      x ∈ [(IN.hDevNode, PVRSRV_HANDLE_TYPE.PVRSRV_HANDLE_TYPE_DEV_NODE),
           (IN.hFWRenderContext, PVRSRV_HANDLE_TYPE.PVRSRV_HANDLE_TYPE_RGX_FW_MEMDESC),
           (IN.hRTDataCleanup, PVRSRV_HANDLE_TYPE.PVRSRV_HANDLE_TYPE_RGX_RTDATA_CLEANUP),
           (IN.hZBuffer, PVRSRV_HANDLE_TYPE.PVRSRV_HANDLE_TYPE_RGX_FWIF_ZSBUFFER),
           (IN.hSBuffer, PVRSRV_HANDLE_TYPE.PVRSRV_HANDLE_TYPE_RGX_FWIF_ZSBUFFER)] := by
  apply RGXKickTA3D_paths S s IN OUT0 (fun _ calls =>
    ∀ x ∈ handleLookups calls,
      x ∈ [(IN.hDevNode, PVRSRV_HANDLE_TYPE.PVRSRV_HANDLE_TYPE_DEV_NODE),
           (IN.hFWRenderContext, PVRSRV_HANDLE_TYPE.PVRSRV_HANDLE_TYPE_RGX_FW_MEMDESC),
           (IN.hRTDataCleanup, PVRSRV_HANDLE_TYPE.PVRSRV_HANDLE_TYPE_RGX_RTDATA_CLEANUP),
           (IN.hZBuffer, PVRSRV_HANDLE_TYPE.PVRSRV_HANDLE_TYPE_RGX_FWIF_ZSBUFFER),
           (IN.hSBuffer, PVRSRV_HANDLE_TYPE.PVRSRV_HANDLE_TYPE_RGX_FWIF_ZSBUFFER)])
  all_goals
    intros
    simp only [handleLookups, handleLookups_append, handleLookups_lookupIfSetCalls] at *
    first
    | (split_ifs at * <;> simp_all <;> tauto)
    | (simp_all <;> tauto)

theorem lookupsAmong_init {σ : Type} (Q : Nat × PVRSRV_HANDLE_TYPE → Prop) (s : σ) :
    Conn.lookupsAmong Q ({ s := s, calls := [] } : Conn σ) := by
  intro x hx
  simp [handleLookups] at hx

theorem lookupsAmong_snoc {σ : Type} (Q : Nat × PVRSRV_HANDLE_TYPE → Prop) (c : Conn σ)
    (s1 : σ) (ev : BridgeCall) (hev : ∀ x ∈ handleLookups [ev], Q x)
    (h : Conn.lookupsAmong Q c) :
    Conn.lookupsAmong Q ({ s := s1, calls := c.calls ++ [ev] } : Conn σ) := by
  intro x hx
  simp only [handleLookups_append, List.mem_append] at hx
  rcases hx with hx | hx
  · exact h x hx
  · exact hev x hx

theorem lookupsAmong_OSAllocMem {σ : Type} (Q : Nat × PVRSRV_HANDLE_TYPE → Prop)
    (S : Services σ) (size : Nat) (c : Conn σ) (h : Conn.lookupsAmong Q c) :
    Conn.lookupsAmong Q (Call.OSAllocMem S size c).2 :=
  lookupsAmong_snoc Q c _ _ (by simp [handleLookups]) h

theorem lookupsAmong_OSFreeMem {σ : Type} (Q : Nat × PVRSRV_HANDLE_TYPE → Prop)
    (S : Services σ) (p : Nat) (c : Conn σ) (h : Conn.lookupsAmong Q c) :
    Conn.lookupsAmong Q (Call.OSFreeMem S p c) :=
  lookupsAmong_snoc Q c _ _ (by simp [handleLookups]) h

theorem lookupsAmong_copyInFails {σ : Type} (Q : Nat × PVRSRV_HANDLE_TYPE → Prop)
    (S : Services σ) (dst src size : Nat) (c : Conn σ) (h : Conn.lookupsAmong Q c) :
    Conn.lookupsAmong Q (Call.copyInFails S dst src size c).2 := by
  unfold Call.copyInFails
  dsimp only
  have h1 : Conn.lookupsAmong Q ({ s := c.s, calls := c.calls
      ++ [BridgeCall.OSAccessOK src size (S.OSAccessOK src size c.s)] } : Conn σ) :=
    lookupsAmong_snoc Q c _ _ (by simp [handleLookups]) h
  split
  · exact h1
  · exact lookupsAmong_snoc Q _ _ _ (by simp [handleLookups]) h1

theorem lookupsAmong_PVRSRVLookupHandle {σ : Type} (Q : Nat × PVRSRV_HANDLE_TYPE → Prop)
    (S : Services σ) (x : Nat) (t : PVRSRV_HANDLE_TYPE) (c : Conn σ) (hq : Q (x, t))
    (h : Conn.lookupsAmong Q c) :
    Conn.lookupsAmong Q (Call.PVRSRVLookupHandle S x t c).2 :=
  lookupsAmong_snoc Q c _ _ (by simpa [handleLookups] using hq) h

theorem lookupsAmong_PVRSRVAllocHandle {σ : Type} (Q : Nat × PVRSRV_HANDLE_TYPE → Prop)
    (S : Services σ) (x : Nat) (t : PVRSRV_HANDLE_TYPE) (c : Conn σ)
    (h : Conn.lookupsAmong Q c) :
    Conn.lookupsAmong Q (Call.PVRSRVAllocHandle S x t c).2 :=
  lookupsAmong_snoc Q c _ _ (by simp [handleLookups]) h

theorem lookupsAmong_PVRSRVAllocSubHandle {σ : Type} (Q : Nat × PVRSRV_HANDLE_TYPE → Prop)
    (S : Services σ) (x : Nat) (t : PVRSRV_HANDLE_TYPE) (p : Nat) (c : Conn σ)
    (h : Conn.lookupsAmong Q c) :
    Conn.lookupsAmong Q (Call.PVRSRVAllocSubHandle S x t p c).2 :=
  lookupsAmong_snoc Q c _ _ (by simp [handleLookups]) h

theorem lookupsAmong_PVRSRVReleaseHandle {σ : Type} (Q : Nat × PVRSRV_HANDLE_TYPE → Prop)
    (S : Services σ) (x : Nat) (t : PVRSRV_HANDLE_TYPE) (c : Conn σ)
    (h : Conn.lookupsAmong Q c) :
    Conn.lookupsAmong Q (Call.PVRSRVReleaseHandle S x t c).2 :=
  lookupsAmong_snoc Q c _ _ (by simp [handleLookups]) h

theorem lookupsAmong_ResManRegisterRes {σ : Type} (Q : Nat × PVRSRV_HANDLE_TYPE → Prop)
    (S : Services σ) (t : RESMAN_TYPE) (p : Nat) (f : DomainFn) (c : Conn σ)
    (h : Conn.lookupsAmong Q c) :
    Conn.lookupsAmong Q (Call.ResManRegisterRes S t p f c).2 :=
  lookupsAmong_snoc Q c _ _ (by simp [handleLookups]) h

theorem lookupsAmong_ResManFindPrivateDataByPtr {σ : Type}
    (Q : Nat × PVRSRV_HANDLE_TYPE → Prop) (S : Services σ) (i : Nat) (c : Conn σ)
    (h : Conn.lookupsAmong Q c) :
    Conn.lookupsAmong Q (Call.ResManFindPrivateDataByPtr S i c).2 :=
  lookupsAmong_snoc Q c _ _ (by simp [handleLookups]) h

theorem lookupsAmong_ResManFreeResByPtr {σ : Type} (Q : Nat × PVRSRV_HANDLE_TYPE → Prop)
    (S : Services σ) (i : Nat) (c : Conn σ) (h : Conn.lookupsAmong Q c) :
    Conn.lookupsAmong Q (Call.ResManFreeResByPtr S i c).2 :=
  lookupsAmong_snoc Q c _ _ (by simp [handleLookups]) h

theorem lookupsAmong_domain {σ : Type} (Q : Nat × PVRSRV_HANDLE_TYPE → Prop)
    (S : Services σ) (fn : DomainFn) (args : List Nat) (c : Conn σ)
    (h : Conn.lookupsAmong Q c) :
    Conn.lookupsAmong Q (Call.domain S fn args c).2 :=
  lookupsAmong_snoc Q c _ _ (by simp [handleLookups]) h

theorem lookupsAmong_lookupFreeLists {σ : Type} (Q : Nat × PVRSRV_HANDLE_TYPE → Prop)
    (S : Services σ) (hs : List Nat)
    (hq : ∀ h, Q (h, PVRSRV_HANDLE_TYPE.PVRSRV_HANDLE_TYPE_RGX_FREELIST)) :
    ∀ (n i : Nat) (ps : List Nat) (c : Conn σ), Conn.lookupsAmong Q c →
      Conn.lookupsAmong Q (lookupFreeLists S hs n i ps c).2 := by
  intro n
  induction n with
  | zero => intro i ps c h; exact h
  | succ n ih =>
    intro i ps c h
    simp only [lookupFreeLists]
    split
    · exact lookupsAmong_PVRSRVLookupHandle Q S _ _ c (hq _) h
    · split
      · exact lookupsAmong_ResManFindPrivateDataByPtr Q S _ _
          (lookupsAmong_PVRSRVLookupHandle Q S _ _ c (hq _) h)
      · exact ih _ _ _ (lookupsAmong_ResManFindPrivateDataByPtr Q S _ _
          (lookupsAmong_PVRSRVLookupHandle Q S _ _ c (hq _) h))

theorem lookupsAmong_ite {σ α : Type} (Q : Nat × PVRSRV_HANDLE_TYPE → Prop) (p : Prop)
    [Decidable p] (a b : α × Conn σ) (ha : p → Conn.lookupsAmong Q a.2)
    (hb : ¬ p → Conn.lookupsAmong Q b.2) :
    Conn.lookupsAmong Q (if p then a else b).2 := by
  split
  · exact ha ‹_›
  · exact hb ‹_›

theorem RGXCreateHWRTData_exit_lookups {σ : Type} (Q : Nat × PVRSRV_HANDLE_TYPE → Prop)
    (S : Services σ) (OUT : PVRSRV_BRIDGE_OUT_RGXCREATEHWRTDATA) (a0 a1 a2 a3 : Nat)
    (c : Conn σ) (h : Conn.lookupsAmong Q c) :
    Conn.lookupsAmong Q (RGXCreateHWRTData_exit S OUT a0 a1 a2 a3 c).2 := by
  unfold RGXCreateHWRTData_exit
  try dsimp only
  split_ifs
  all_goals
    repeat first
      | with_reducible exact h
      | with_reducible apply lookupsAmong_OSFreeMem
      | with_reducible apply lookupsAmong_ResManFreeResByPtr
      | with_reducible apply lookupsAmong_domain
      | with_reducible apply lookupsAmong_PVRSRVReleaseHandle

/-- On any collaborators, every handle that `PVRSRVBridgeRGXCreateHWRTData`
looks up is the device node, under `PVRSRV_HANDLE_TYPE_DEV_NODE`, or a free
list, under the tag `PVRSRV_HANDLE_TYPE_RGX_FREELIST`. -/
theorem RGXCreateHWRTData_lookups {σ : Type} (S : Services σ) (s : σ) (B : BridgeConsts)
    (IN : PVRSRV_BRIDGE_IN_RGXCREATEHWRTDATA) (OUT0 : PVRSRV_BRIDGE_OUT_RGXCREATEHWRTDATA) :
    Conn.lookupsAmong
      (fun x => x = (IN.hDevNode, PVRSRV_HANDLE_TYPE.PVRSRV_HANDLE_TYPE_DEV_NODE)
        ∨ x.2 = PVRSRV_HANDLE_TYPE.PVRSRV_HANDLE_TYPE_RGX_FREELIST)
      (PVRSRVBridgeRGXCreateHWRTData B S IN OUT0 s).2 := by
  unfold PVRSRVBridgeRGXCreateHWRTData
  dsimp only
  repeat' first
    | with_reducible exact lookupsAmong_init _ s
    | with_reducible apply RGXCreateHWRTData_exit_lookups
    | with_reducible refine lookupsAmong_PVRSRVLookupHandle _ S _ _ _ (Or.inl rfl) ?_
    | with_reducible apply lookupsAmong_ResManFindPrivateDataByPtr
    | with_reducible apply lookupsAmong_domain
    | with_reducible apply lookupsAmong_ResManRegisterRes
    | with_reducible apply lookupsAmong_PVRSRVAllocHandle
    | with_reducible apply lookupsAmong_PVRSRVAllocSubHandle
    | with_reducible apply lookupsAmong_copyInFails
    | with_reducible apply lookupsAmong_OSAllocMem
    | with_reducible refine lookupsAmong_lookupFreeLists _ S _ (fun _ => Or.inr rfl) _ _ _ _ ?_
    | (with_reducible apply lookupsAmong_ite <;> intro _)
    | split

/-! ## The claims -/

/-- C1 (no partial allocation). If the units `0 .. k-1` of a call of
`_AllocOSPages` are obtained and `alloc_pages` returns no page for unit `k`,
with `k` below the number of slots, then the call returns
`PVRSRV_ERROR_PMR_FAILED_TO_ALLOC_PAGES`, `bHasOSPages` is still false, the
pages given back by the call are exactly the `k` pages obtained, each once,
newest first, and the units held are those held before the call.  For `k = 0`
the unwind index wraps to `0xFFFFFFFF`, nothing is given back, and the call
returns. -/
theorem C1_no_partial_allocation (K : Platform) (env : OSEnv) (d : _PMR_OSPAGEARRAY_DATA_)
    (os : OSState) (k : Nat) (hwf : wellFormed d) (hno : d.bHasOSPages = false)
    (hk : k < d.uiNumPages)
    (hprev : ∀ j, j < k → unitObtained K env d.ui32CPUCacheFlags (os.nAlloc + j) = true)
    (hfail : (env.alloc_pages (os.nAlloc + k)).page = 0) :
    ∃ d' os', _AllocOSPages K env d os
        = some (PVRSRV_ERROR.PVRSRV_ERROR_PMR_FAILED_TO_ALLOC_PAGES, d', os')
      ∧ d'.bHasOSPages = false
      ∧ freedPages os'.log = freedPages os.log
          ++ ((List.range k).map (fun j => (env.alloc_pages (os.nAlloc + j)).page)).reverse
      ∧ os'.held = os.held := by
  have hbad : unitObtained K env d.ui32CPUCacheFlags (os.nAlloc + k) = false := by
    simp [unitObtained, hfail]
  obtain ⟨e, d', os', hrun, _, _, hres⟩ := AllocOSPages_spec K env d os hwf
  rcases hres with ⟨_, _, hall, _⟩ | ⟨he, hhas, hh, k', hk', hall, hbad', _, hfr⟩
  · have := hall k hk
    rw [hbad] at this
    exact absurd this (by simp)
  · have hkk : k' = k := by
      rcases Nat.lt_trichotomy k' k with h | h | h
      · have := hprev k' h
        rw [hbad'] at this
        exact absurd this (by simp)
      · exact h
      · have := hall k h
        rw [hbad] at this
        exact absurd this (by simp)
    subst hkk
    refine ⟨d', os', by rw [hrun, he], by rw [hhas, hno], ?_, hh⟩
    rw [hfr, hfail]
    simp

theorem C1_no_partial_allocation_witness :
    wellFormed (sampleArray 3 true 0) ∧ (sampleArray 3 true 0).bHasOSPages = false
    ∧ 2 < (sampleArray 3 true 0).uiNumPages
    ∧ (∀ j, j < 2 → unitObtained samplePlatform (sampleEnv 2)
          (sampleArray 3 true 0).ui32CPUCacheFlags (OSState.init.nAlloc + j) = true)
    ∧ ((sampleEnv 2).alloc_pages (OSState.init.nAlloc + 2)).page = 0
    ∧ ∃ d' os', _AllocOSPages samplePlatform (sampleEnv 2) (sampleArray 3 true 0) OSState.init
        = some (PVRSRV_ERROR.PVRSRV_ERROR_PMR_FAILED_TO_ALLOC_PAGES, d', os')
      ∧ d'.bHasOSPages = false
      ∧ freedPages os'.log = freedPages OSState.init.log
          ++ ((List.range 2).map
                (fun j => ((sampleEnv 2).alloc_pages (OSState.init.nAlloc + j)).page)).reverse
      ∧ os'.held = OSState.init.held :=
  ⟨by decide, by decide, by decide, by decide, by decide,
   C1_no_partial_allocation samplePlatform (sampleEnv 2) (sampleArray 3 true 0) OSState.init 2
    (by decide) (by decide) (by decide) (by decide) (by decide)⟩

/-- C2, counterexample. Requests of granularity 13 on on-demand arrays of
granularity 12: when the kernel has no page the Lock returns
`PVRSRV_ERROR_PMR_FAILED_TO_ALLOC_PAGES`, not
`PVRSRV_ERROR_PMR_INCOMPATIBLE_CONTIGUITY`; when the kernel has a page the Lock
returns `PVRSRV_ERROR_PMR_INCOMPATIBLE_CONTIGUITY` with `bHasOSPages` turned
from false to true and page 100 held where none was. -/
theorem C2_counterexample :
    13 > (sampleArray 1 true 0x200).uiLog2PageSize
    ∧ (PMRLockSysPhysAddressesOSMem samplePlatform (sampleEnv 0) (sampleArray 1 true 0x200) 13
          OSState.init).map (fun r => r.1)
        = some PVRSRV_ERROR.PVRSRV_ERROR_PMR_FAILED_TO_ALLOC_PAGES
    ∧ (PMRLockSysPhysAddressesOSMem samplePlatform (sampleEnv 1) (sampleArray 1 true 0x200) 13
          OSState.init).map (fun r => (r.1, r.2.1.bHasOSPages, r.2.2.held))
        = some (PVRSRV_ERROR.PVRSRV_ERROR_PMR_INCOMPATIBLE_CONTIGUITY, true, [100])
    ∧ (sampleArray 1 true 0x200).bHasOSPages = false ∧ OSState.init.held = [] := by
  decide

/-- C2 (granularity check), amended. For a requested `uiLog2DevPageSize`
above the `uiLog2PageSize` of the array: on an eager array the Lock returns
`PVRSRV_ERROR_PMR_INCOMPATIBLE_CONTIGUITY` and leaves the array and the kernel
state as they were; on an on-demand array `_AllocOSPages` runs first, and
the Lock returns its `PVRSRV_ERROR_PMR_FAILED_TO_ALLOC_PAGES` with `bHasOSPages`
and the held units as before when it fails, and
`PVRSRV_ERROR_PMR_INCOMPATIBLE_CONTIGUITY` when it succeeds. -/
theorem C2_granularity_check (K : Platform) (env : OSEnv) (d : _PMR_OSPAGEARRAY_DATA_)
    (uiLog2DevPageSize : Nat) (os : OSState) (hwf : wellFormed d)
    (hgt : uiLog2DevPageSize > d.uiLog2PageSize) :
    (d.bOnDemand = false →
      PMRLockSysPhysAddressesOSMem K env d uiLog2DevPageSize os
        = some (PVRSRV_ERROR.PVRSRV_ERROR_PMR_INCOMPATIBLE_CONTIGUITY, d, os))
    ∧ (d.bOnDemand = true →
        ∃ e d' os', _AllocOSPages K env d os = some (e, d', os')
          ∧ ((e = PVRSRV_ERROR.PVRSRV_ERROR_PMR_FAILED_TO_ALLOC_PAGES
                ∧ PMRLockSysPhysAddressesOSMem K env d uiLog2DevPageSize os = some (e, d', os')
                ∧ d'.bHasOSPages = d.bHasOSPages ∧ os'.held = os.held)
             ∨ (e = PVRSRV_ERROR.PVRSRV_OK
                ∧ PMRLockSysPhysAddressesOSMem K env d uiLog2DevPageSize os
                    = some (PVRSRV_ERROR.PVRSRV_ERROR_PMR_INCOMPATIBLE_CONTIGUITY, d', os')))) := by
  constructor
  · intro hd
    simp [PMRLockSysPhysAddressesOSMem, hd, hgt]
  · intro hd
    obtain ⟨e, d', os', hrun, hsame, _, hres⟩ := AllocOSPages_spec K env d os hwf
    refine ⟨e, d', os', hrun, ?_⟩
    have hlog : uiLog2DevPageSize > d'.uiLog2PageSize := by
      rw [hsame.2.2.1]; exact hgt
    rcases hres with ⟨he, _⟩ | ⟨he, hhas, hh, _⟩
    · refine Or.inr ⟨he, ?_⟩
      simp [PMRLockSysPhysAddressesOSMem, hd, hrun, he, hlog]
    · refine Or.inl ⟨he, ?_, hhas, hh⟩
      simp [PMRLockSysPhysAddressesOSMem, hd, hrun, he]

theorem C2_granularity_check_witness :
    wellFormed (sampleArray 2 false 0x200) ∧ 13 > (sampleArray 2 false 0x200).uiLog2PageSize
    ∧ (sampleArray 2 false 0x200).bOnDemand = false
    ∧ PMRLockSysPhysAddressesOSMem samplePlatform (sampleEnv 0) (sampleArray 2 false 0x200) 13
          OSState.init
        = some (PVRSRV_ERROR.PVRSRV_ERROR_PMR_INCOMPATIBLE_CONTIGUITY, sampleArray 2 false 0x200,
                OSState.init) :=
  ⟨by decide, by decide, by decide,
   (C2_granularity_check samplePlatform (sampleEnv 0) (sampleArray 2 false 0x200) 13 OSState.init
    (by decide) (by decide)).1 (by decide)⟩

/-- C3 (lock/unlock round trip). On an on-demand array that starts with
`bHasOSPages` false, in a run of `n ≥ 1` pairs of a Lock returning `PVRSRV_OK`
and an Unlock: after every Lock `bHasOSPages` is true and every slot holds a
held page; after every Unlock, the last one included, `bHasOSPages` is false
and the held units are those held before the run, none if none was held. -/
theorem C3_lock_unlock_round_trip (K : Platform) (env : OSEnv) (uiLog2DevPageSize n : Nat)
    (d : _PMR_OSPAGEARRAY_DATA_) (os : OSState) (l : List (Snapshot × Snapshot))
    (hwf : wellFormed d) (hd : d.bOnDemand = true) (hno : d.bHasOSPages = false) (hn : 1 ≤ n)
    (hrun : lockUnlockPairs K env uiLog2DevPageSize n d os = some l) :
    d.bHasOSPages = false ∧ l.length = n
    ∧ (∀ p ∈ l, p.1.d.bHasOSPages = true ∧ slotsPopulated p.1.d p.1.os
        ∧ p.2.d.bHasOSPages = false ∧ p.2.os.held.Perm os.held
        ∧ (os.held = [] → p.2.os.held = []))
    ∧ ∃ last, l.getLast? = some last ∧ last.2.d.bHasOSPages = false
        ∧ last.2.os.held.Perm os.held ∧ (os.held = [] → last.2.os.held = []) := by
  obtain ⟨hlen, hall⟩ := lockUnlockPairs_spec K env uiLog2DevPageSize os.held n d os l hwf hd
    (List.Perm.refl _) hrun
  have hall' : ∀ p ∈ l, p.1.d.bHasOSPages = true ∧ slotsPopulated p.1.d p.1.os
      ∧ p.2.d.bHasOSPages = false ∧ p.2.os.held.Perm os.held
      ∧ (os.held = [] → p.2.os.held = []) := by
    intro p hp
    obtain ⟨h1, h2, h3, h4⟩ := hall p hp
    refine ⟨h1, h2, h3, h4, ?_⟩
    intro h0
    rw [h0] at h4
    exact List.Perm.eq_nil h4
  refine ⟨hno, hlen, hall', ?_⟩
  have hne : l ≠ [] := by
    intro h0
    rw [h0] at hlen
    simp at hlen
    omega
  refine ⟨l.getLast hne, List.getLast?_eq_getLast _ hne, ?_⟩
  obtain ⟨_, _, h3, h4, h5⟩ := hall' _ (List.getLast_mem hne)
  exact ⟨h3, h4, h5⟩

theorem C3_lock_unlock_round_trip_witness :
    wellFormed (sampleArray 2 true 0x200) ∧ (sampleArray 2 true 0x200).bOnDemand = true
    ∧ (sampleArray 2 true 0x200).bHasOSPages = false ∧ 1 ≤ 2
    ∧ lockUnlockPairs samplePlatform (sampleEnv 100) 12 2 (sampleArray 2 true 0x200) OSState.init
        = some sampleRun
    ∧ sampleRun.length = 2
    ∧ ∃ last, sampleRun.getLast? = some last ∧ last.2.d.bHasOSPages = false
        ∧ (OSState.init.held = [] → last.2.os.held = []) :=
  ⟨by decide, by decide, by decide, by decide, by decide,
   (C3_lock_unlock_round_trip samplePlatform (sampleEnv 100) 12 2 (sampleArray 2 true 0x200)
      OSState.init sampleRun (by decide) (by decide) (by decide) (by decide) (by decide)).2.1,
   (C3_lock_unlock_round_trip samplePlatform (sampleEnv 100) 12 2 (sampleArray 2 true 0x200)
      OSState.init sampleRun (by decide) (by decide) (by decide) (by decide)
      (by decide)).2.2.2.imp (fun _ h => ⟨h.1, h.2.1, h.2.2.2⟩)⟩

/-- C4 (bridge rollback is exactly-one). For each of the six create-style
entry points, run on any collaborators from any state: if the call fails, then
on the paths on which the creating function returned `PVRSRV_OK` with an
object, the cleanup either passes the registered item to `ResManFreeResByPtr`
once and never calls the destructor directly (registration returned an item),
or calls the destructor directly once, on the object, and never calls
`ResManFreeResByPtr` (registration returned null); and on the paths on which
the creating function was not called, or failed without an object, it does
neither. -/
theorem C4_bridge_rollback_exactly_one {σ : Type} (S : Services σ) (s : σ)
    (req : CreateRequest)
    (hfail : (req.run S s).1 ≠ PVRSRV_ERROR.PVRSRV_OK) :
    rollbackExactlyOne req.createFn req.destroyFn (req.run S s).2 := by
  cases req with
  | HWRTData B IN OUT0 => exact RGXCreateHWRTData_rollback S s B IN OUT0 hfail
  | RenderTarget IN OUT0 => exact RGXCreateRenderTarget_rollback S s IN OUT0 hfail
  | ZSBuffer IN OUT0 => exact RGXCreateZSBuffer_rollback S s IN OUT0 hfail
  | PopulateZSBuffer IN OUT0 => exact RGXPopulateZSBuffer_rollback S s IN OUT0 hfail
  | FreeList IN OUT0 => exact RGXCreateFreeList_rollback S s IN OUT0 hfail
  | RenderContext B IN OUT0 => exact RGXCreateRenderContext_rollback S s B IN OUT0 hfail

theorem C4_bridge_rollback_exactly_one_witness :
    ((CreateRequest.FreeList sampleFreeListIN sampleFreeListOUT).run specServices
        sampleWorld).1 ≠ PVRSRV_ERROR.PVRSRV_OK
    ∧ rollbackExactlyOne DomainFn.RGXCreateFreeList DomainFn.RGXDestroyFreeList
        ((CreateRequest.FreeList sampleFreeListIN sampleFreeListOUT).run specServices
          sampleWorld).2 :=
  ⟨by decide,
   C4_bridge_rollback_exactly_one specServices sampleWorld
     (CreateRequest.FreeList sampleFreeListIN sampleFreeListOUT) (by decide)⟩

/-- C5, counterexample. On `retryWorld` all lookups, `RGXCreateFreeList` and
`ResManRegisterRes` succeed and `PVRSRVAllocHandle` fails with
`PVRSRV_ERROR_OUT_OF_MEMORY`; the destructor, run once through
`ResManFreeResByPtr`, answers `PVRSRV_ERROR_RETRY`, the cleanup makes no further
call, and the call ends with the new item `2` still registered and the new
object `201` still alive. -/
theorem C5_counterexample :
    (PVRSRVBridgeRGXCreateFreeList specServices sampleFreeListIN sampleFreeListOUT
        retryWorld).1.eError = PVRSRV_ERROR.PVRSRV_ERROR_OUT_OF_MEMORY
    ∧ (PVRSRVBridgeRGXCreateFreeList specServices sampleFreeListIN sampleFreeListOUT
        retryWorld).2.calls
        = [BridgeCall.PVRSRVLookupHandle 1 PVRSRV_HANDLE_TYPE.PVRSRV_HANDLE_TYPE_DEV_NODE
             PVRSRV_ERROR.PVRSRV_OK 100,
           BridgeCall.PVRSRVLookupHandle 2 PVRSRV_HANDLE_TYPE.PVRSRV_HANDLE_TYPE_PHYSMEM_PMR
             PVRSRV_ERROR.PVRSRV_OK 1,
           BridgeCall.ResManFindPrivateDataByPtr 1 PVRSRV_ERROR.PVRSRV_OK 200,
           BridgeCall.domain DomainFn.RGXCreateFreeList [100, 16, 4, 4, 0, 4096, 200, 0]
             PVRSRV_ERROR.PVRSRV_OK [201, 201, 201, 201],
           BridgeCall.ResManRegisterRes RESMAN_TYPE.RESMAN_TYPE_RGX_FWIF_FREELIST 201
             DomainFn.RGXDestroyFreeList 2,
           BridgeCall.PVRSRVAllocHandle 2 PVRSRV_HANDLE_TYPE.PVRSRV_HANDLE_TYPE_RGX_FREELIST
             PVRSRV_ERROR.PVRSRV_ERROR_OUT_OF_MEMORY 0,
           BridgeCall.ResManFreeResByPtr 2 PVRSRV_ERROR.PVRSRV_ERROR_RETRY]
    ∧ (PVRSRVBridgeRGXCreateFreeList specServices sampleFreeListIN sampleFreeListOUT
        retryWorld).2.s.destructorRuns
        = [(DomainFn.RGXDestroyFreeList, 201, PVRSRV_ERROR.PVRSRV_ERROR_RETRY)]
    ∧ (PVRSRVBridgeRGXCreateFreeList specServices sampleFreeListIN sampleFreeListOUT
        retryWorld).2.s.items.map (fun it => it.item) = [1, 2]
    ∧ retryWorld.items.map (fun it => it.item) = [1]
    ∧ (PVRSRVBridgeRGXCreateFreeList specServices sampleFreeListIN sampleFreeListOUT
        retryWorld).2.s.objects = [200, 201] := by
  decide

/-- C5 (P6 scenario), amended. With the handle registry and the resource manager modelled from the
specification: when in `PVRSRVBridgeRGXCreateFreeList` all lookups,
`RGXCreateFreeList` and `ResManRegisterRes` succeed, `PVRSRVAllocHandle` fails
with `PVRSRV_ERROR_OUT_OF_MEMORY`, and the destructor does not answer
`PVRSRV_ERROR_RETRY`, then the output `eError` is `PVRSRV_ERROR_OUT_OF_MEMORY`,
the cleanup passes the item to `ResManFreeResByPtr` once and never calls
`RGXDestroyFreeList` directly, the destructor runs exactly once, on the new
object, which is destroyed, and the registered items and the handle registry
are as before the call. -/
theorem C5_freelist_alloc_handle_failure (w : World)
    (IN : PVRSRV_BRIDGE_IN_RGXCREATEFREELIST) (OUT0 : PVRSRV_BRIDGE_OUT_RGXCREATEFREELIST)
    (hw : w.wellFormed)
    (hdev : (w.lookup IN.hDevNode PVRSRV_HANDLE_TYPE.PVRSRV_HANDLE_TYPE_DEV_NODE).1.1
              = PVRSRV_ERROR.PVRSRV_OK)
    (hpmr : (w.lookup IN.hsFreeListPMR PVRSRV_HANDLE_TYPE.PVRSRV_HANDLE_TYPE_PHYSMEM_PMR).1.1
              = PVRSRV_ERROR.PVRSRV_OK)
    (hfind : (w.findPrivateData
               (w.lookup IN.hsFreeListPMR
                  PVRSRV_HANDLE_TYPE.PVRSRV_HANDLE_TYPE_PHYSMEM_PMR).1.2).1.1
              = PVRSRV_ERROR.PVRSRV_OK)
    (hcreate : w.createResult = PVRSRV_ERROR.PVRSRV_OK)
    (hreg : w.itemBudget ≠ 0)
    (halloc : w.handleBudget = 0)
    (hfree : w.objectsMade + 1 ∉ w.dependents) :
    (PVRSRVBridgeRGXCreateFreeList specServices IN OUT0 w).1.eError
        = PVRSRV_ERROR.PVRSRV_ERROR_OUT_OF_MEMORY
    ∧ createOutcome DomainFn.RGXCreateFreeList
          (PVRSRVBridgeRGXCreateFreeList specServices IN OUT0 w).2.calls
        = some (PVRSRV_ERROR.PVRSRV_OK, w.objectsMade + 1)
    ∧ registerOutcome (PVRSRVBridgeRGXCreateFreeList specServices IN OUT0 w).2.calls
        = some (w.itemsMade + 1)
    ∧ resmanFrees (PVRSRVBridgeRGXCreateFreeList specServices IN OUT0 w).2.calls
        = [w.itemsMade + 1]
    ∧ directCalls DomainFn.RGXDestroyFreeList
          (PVRSRVBridgeRGXCreateFreeList specServices IN OUT0 w).2.calls = []
    ∧ (PVRSRVBridgeRGXCreateFreeList specServices IN OUT0 w).2.s.destructorRuns
        = w.destructorRuns
            ++ [(DomainFn.RGXDestroyFreeList, w.objectsMade + 1, PVRSRV_ERROR.PVRSRV_OK)]
    ∧ (PVRSRVBridgeRGXCreateFreeList specServices IN OUT0 w).2.s.objects = w.objects
    ∧ (PVRSRVBridgeRGXCreateFreeList specServices IN OUT0 w).2.s.items = w.items
    ∧ (PVRSRVBridgeRGXCreateFreeList specServices IN OUT0 w).2.s.handles = w.handles := by
  have hw1 : ({ w with objects := w.objects ++ [w.objectsMade + 1]
                       objectsMade := w.objectsMade + 1 } : World).wellFormed := by
    refine ⟨hw.1, hw.2.1, ?_⟩
    intro o ho
    simp only [List.mem_append, List.mem_singleton] at ho
    rcases ho with ho | ho
    · have := hw.2.2 o ho
      show o ≤ w.objectsMade + 1
      omega
    · show o ≤ w.objectsMade + 1
      omega
  have hfr := World.freeByItem_fresh _ hw1 RESMAN_TYPE.RESMAN_TYPE_RGX_FWIF_FREELIST
    (w.objectsMade + 1) DomainFn.RGXDestroyFreeList hfree
  simp only [halloc] at hfr
  have htr := freeList_allocHandle_failure_trace specServices w IN OUT0 _ _ _ _ _ _ _
    rfl rfl rfl rfl rfl rfl rfl
  simp only [svc_lookup, svc_find, svc_domain, svc_register, svc_alloc, svc_free,
    World.lookup_state, World.findPrivateData_state, World.domain_create_ok _ _ hcreate,
    World.register, World.allocHandle, hreg, halloc, if_true, if_false, ↓reduceIte,
    List.getD_cons_zero, hfr, hdev, hpmr, hfind] at htr
  rw [htr trivial trivial trivial trivial (by simp) (by simp)]
  simp only [createOutcome, registerOutcome, resmanFrees, directCalls,
    World.filter_fresh_object w hw, List.getD_cons_zero, if_true, ↓reduceIte,
    reduceCtorEq, if_false, and_self]

theorem C5_freelist_alloc_handle_failure_witness :
    sampleWorld.wellFormed
    ∧ (sampleWorld.lookup sampleFreeListIN.hDevNode
          PVRSRV_HANDLE_TYPE.PVRSRV_HANDLE_TYPE_DEV_NODE).1.1 = PVRSRV_ERROR.PVRSRV_OK
    ∧ (sampleWorld.lookup sampleFreeListIN.hsFreeListPMR
          PVRSRV_HANDLE_TYPE.PVRSRV_HANDLE_TYPE_PHYSMEM_PMR).1.1 = PVRSRV_ERROR.PVRSRV_OK
    ∧ (sampleWorld.findPrivateData
          (sampleWorld.lookup sampleFreeListIN.hsFreeListPMR
            PVRSRV_HANDLE_TYPE.PVRSRV_HANDLE_TYPE_PHYSMEM_PMR).1.2).1.1
        = PVRSRV_ERROR.PVRSRV_OK
    ∧ sampleWorld.createResult = PVRSRV_ERROR.PVRSRV_OK
    ∧ sampleWorld.itemBudget ≠ 0
    ∧ sampleWorld.handleBudget = 0
    ∧ sampleWorld.objectsMade + 1 ∉ sampleWorld.dependents
    ∧ ((PVRSRVBridgeRGXCreateFreeList specServices sampleFreeListIN sampleFreeListOUT
          sampleWorld).1.eError = PVRSRV_ERROR.PVRSRV_ERROR_OUT_OF_MEMORY
      ∧ createOutcome DomainFn.RGXCreateFreeList
            (PVRSRVBridgeRGXCreateFreeList specServices sampleFreeListIN sampleFreeListOUT
              sampleWorld).2.calls
          = some (PVRSRV_ERROR.PVRSRV_OK, sampleWorld.objectsMade + 1)
      ∧ registerOutcome
            (PVRSRVBridgeRGXCreateFreeList specServices sampleFreeListIN sampleFreeListOUT
              sampleWorld).2.calls
          = some (sampleWorld.itemsMade + 1)
      ∧ resmanFrees
            (PVRSRVBridgeRGXCreateFreeList specServices sampleFreeListIN sampleFreeListOUT
              sampleWorld).2.calls
          = [sampleWorld.itemsMade + 1]
      ∧ directCalls DomainFn.RGXDestroyFreeList
            (PVRSRVBridgeRGXCreateFreeList specServices sampleFreeListIN sampleFreeListOUT
              sampleWorld).2.calls = []
      ∧ (PVRSRVBridgeRGXCreateFreeList specServices sampleFreeListIN sampleFreeListOUT
            sampleWorld).2.s.destructorRuns
          = sampleWorld.destructorRuns
              ++ [(DomainFn.RGXDestroyFreeList, sampleWorld.objectsMade + 1,
                   PVRSRV_ERROR.PVRSRV_OK)]
      ∧ (PVRSRVBridgeRGXCreateFreeList specServices sampleFreeListIN sampleFreeListOUT
            sampleWorld).2.s.objects = sampleWorld.objects
      ∧ (PVRSRVBridgeRGXCreateFreeList specServices sampleFreeListIN sampleFreeListOUT
            sampleWorld).2.s.items = sampleWorld.items
      ∧ (PVRSRVBridgeRGXCreateFreeList specServices sampleFreeListIN sampleFreeListOUT
            sampleWorld).2.s.handles = sampleWorld.handles) :=
  ⟨by decide, by decide, by decide, by decide, by decide, by decide, by decide, by decide,
   C5_freelist_alloc_handle_failure sampleWorld sampleFreeListIN sampleFreeListOUT
     (by decide) (by decide) (by decide) (by decide) (by decide) (by decide) (by decide)
     (by decide)⟩

/-- C8 (poison mutual exclusion). `PhysmemNewOSRamBackedPMR` with both
`ZERO_ON_ALLOC` and `POISON_ON_ALLOC` in the flags returns
`PVRSRV_ERROR_INVALID_PARAMS`, writes no PMR and leaves the kernel state
untouched: no table is allocated and no page requested.  With `ZERO_ON_ALLOC`
and `POISON_ON_FREE` set and `POISON_ON_ALLOC` clear it returns `PVRSRV_OK`
whenever the size `uiChunkSize * ui32NumPhysChunks` is below 64 GiB and a
multiple of the page size, `kmalloc` gives the table, every `alloc_pages` call
yields a unit, and `PMRCreatePMR` succeeds; the page array then has `bZero` and
`bPoisonOnFree` set and `bPoisonOnAlloc` clear. -/
theorem C8_poison_mutual_exclusion (K : Platform) (env : OSEnv)
    (uiSize uiChunkSize ui32NumPhysChunks ui32NumVirtChunks uiLog2PageSize uiFlags : Nat)
    (os : OSState) :
    (uiFlags &&& K.PVRSRV_MEMALLOCFLAG_ZERO_ON_ALLOC ≠ 0 →
      uiFlags &&& K.PVRSRV_MEMALLOCFLAG_POISON_ON_ALLOC ≠ 0 →
      PhysmemNewOSRamBackedPMR K env uiSize uiChunkSize ui32NumPhysChunks ui32NumVirtChunks
          uiLog2PageSize uiFlags os
        = some (PVRSRV_ERROR.PVRSRV_ERROR_INVALID_PARAMS, none, os))
    ∧ (uiFlags &&& K.PVRSRV_MEMALLOCFLAG_ZERO_ON_ALLOC ≠ 0 →
        uiFlags &&& K.PVRSRV_MEMALLOCFLAG_POISON_ON_FREE ≠ 0 →
        uiFlags &&& K.PVRSRV_MEMALLOCFLAG_POISON_ON_ALLOC = 0 →
        u64 (uiChunkSize * ui32NumPhysChunks) < 0x1000000000 →
        max K.PAGE_SHIFT uiLog2PageSize < 64 →
        2 ^ max K.PAGE_SHIFT uiLog2PageSize ∣ u64 (uiChunkSize * ui32NumPhysChunks) →
        env.kmalloc os.nKmalloc ≠ 0 →
        (∀ j, unitObtained K env (u32 (K.DevmemCPUCacheMode uiFlags)) (os.nAlloc + j) = true) →
        (env.PMRCreatePMR os.nCreatePMR).1 = PVRSRV_ERROR.PVRSRV_OK →
        ∃ pmr os', PhysmemNewOSRamBackedPMR K env uiSize uiChunkSize ui32NumPhysChunks
              ui32NumVirtChunks uiLog2PageSize uiFlags os
            = some (PVRSRV_ERROR.PVRSRV_OK, some pmr, os')
          ∧ pmr.psPrivData.bZero = true ∧ pmr.psPrivData.bPoisonOnFree = true
          ∧ pmr.psPrivData.bPoisonOnAlloc = false) := by
  constructor
  · intro hz hp
    simp [PhysmemNewOSRamBackedPMR, _NewOSAllocPagesPMR, hz, hp]
  · intro hz hpf hpa hsize hlg hmul hk hunits hpmr
    obtain ⟨d, os1, hrun, hwf, hhas, hbz, hbpa, hbpf, hbod, hcache, _, _, hna, _, hnc, _⟩ :=
      AllocOSPageArray_ok env (u64 (uiChunkSize * ui32NumPhysChunks))
        (max K.PAGE_SHIFT uiLog2PageSize) (decide (uiFlags &&& K.PVRSRV_MEMALLOCFLAG_ZERO_ON_ALLOC ≠ 0))
        (decide (uiFlags &&& K.PVRSRV_MEMALLOCFLAG_POISON_ON_ALLOC ≠ 0))
        (decide (uiFlags &&& K.PVRSRV_MEMALLOCFLAG_POISON_ON_FREE ≠ 0))
        (decide (uiFlags &&& K.PVRSRV_MEMALLOCFLAG_NO_OSPAGES_ON_ALLOC > 0))
        (u32 (K.DevmemCPUCacheMode uiFlags)) os hsize hlg hmul hk
    simp only [PhysmemNewOSRamBackedPMR, _NewOSAllocPagesPMR, roundUp_eq, hrun]
    have hnot : ¬ (uiFlags &&& K.PVRSRV_MEMALLOCFLAG_ZERO_ON_ALLOC ≠ 0
        ∧ uiFlags &&& K.PVRSRV_MEMALLOCFLAG_POISON_ON_ALLOC ≠ 0) := by
      intro h; exact h.2 hpa
    simp only [hnot, if_false, ne_eq, not_true_eq_false]
    by_cases hod : uiFlags &&& K.PVRSRV_MEMALLOCFLAG_NO_OSPAGES_ON_ALLOC > 0
    · -- on demand: no page is requested
      simp only [hod, decide_True, Bool.true_eq_false, if_false, PMRCreatePMR, hnc, hpmr,
        not_true_eq_false]
      exact ⟨_, _, rfl, by simp [hbz, hz], by simp [hbpf, hpf], by simp [hbpa, hpa]⟩
    · obtain ⟨e, d', os', hal, hsame, _, hres⟩ := AllocOSPages_spec K env d os1 hwf
      have hfr := allocLoop_pagesOnly K env _ _ _ _ _ _ _ _ hal
      simp only [hod, decide_False, if_true, hal]
      rcases hres with ⟨he, _⟩ | ⟨_, _, _, k, _, _, hbad, _⟩
      · subst he
        have hnc' : os'.nCreatePMR = os.nCreatePMR := by rw [hfr.2.2.2.2.2.2.2.2.2, hnc]
        simp only [ne_eq, not_true_eq_false, if_false, PMRCreatePMR, hnc', hpmr]
        refine ⟨_, _, rfl, ?_, ?_, ?_⟩
        · simp [hsame.2.2.2.2.2.2.1, hbz, hz]
        · simp [hsame.2.2.2.2.2.2.2.1, hbpf, hpf]
        · simp [hsame.2.2.2.2.2.2.2.2.1, hbpa, hpa]
      · rw [hcache, hna, hunits k] at hbad
        simp at hbad

theorem C8_poison_mutual_exclusion_witness :
    (0xC0000200 &&& samplePlatform.PVRSRV_MEMALLOCFLAG_ZERO_ON_ALLOC ≠ 0
      ∧ 0xC0000200 &&& samplePlatform.PVRSRV_MEMALLOCFLAG_POISON_ON_ALLOC ≠ 0
      ∧ PhysmemNewOSRamBackedPMR samplePlatform plentyEnv 8192 4096 2 2 12 0xC0000200
          OSState.init
        = some (PVRSRV_ERROR.PVRSRV_ERROR_INVALID_PARAMS, none, OSState.init))
    ∧ (0xA0000200 &&& samplePlatform.PVRSRV_MEMALLOCFLAG_ZERO_ON_ALLOC ≠ 0
      ∧ 0xA0000200 &&& samplePlatform.PVRSRV_MEMALLOCFLAG_POISON_ON_FREE ≠ 0
      ∧ 0xA0000200 &&& samplePlatform.PVRSRV_MEMALLOCFLAG_POISON_ON_ALLOC = 0
      ∧ ∃ pmr os', PhysmemNewOSRamBackedPMR samplePlatform plentyEnv 8192 4096 2 2 12
            0xA0000200 OSState.init
          = some (PVRSRV_ERROR.PVRSRV_OK, some pmr, os')
        ∧ pmr.psPrivData.bZero = true ∧ pmr.psPrivData.bPoisonOnFree = true
        ∧ pmr.psPrivData.bPoisonOnAlloc = false) :=
  ⟨⟨by decide, by decide,
    (C8_poison_mutual_exclusion samplePlatform plentyEnv 8192 4096 2 2 12 0xC0000200
      OSState.init).1 (by decide) (by decide)⟩,
   ⟨by decide, by decide, by decide,
    (C8_poison_mutual_exclusion samplePlatform plentyEnv 8192 4096 2 2 12 0xA0000200
      OSState.init).2 (by decide) (by decide) (by decide) (by decide) (by decide) (by decide)
      (by decide) (by intro j; simp [unitObtained, plentyEnv, sampleEnv]) (by decide)⟩⟩

/-- C9 (oversize requests). For every `uiSize` of 64 GiB or more, whatever
the other arguments, `_AllocOSPageArray` returns `PVRSRV_ERROR_INVALID_PARAMS`,
writes no page array and leaves the kernel state untouched: nothing is
allocated. -/
theorem C9_oversize_rejected (env : OSEnv) (uiSize uiLog2PageSize : Nat)
    (bZero bPoisonOnAlloc bPoisonOnFree bOnDemand : Bool) (ui32CPUCacheFlags : Nat) (os : OSState)
    (h : 0x1000000000 ≤ uiSize) :
    _AllocOSPageArray env uiSize uiLog2PageSize bZero bPoisonOnAlloc bPoisonOnFree bOnDemand
      ui32CPUCacheFlags os = (PVRSRV_ERROR.PVRSRV_ERROR_INVALID_PARAMS, none, os) :=
  AllocOSPageArray_oversize env uiSize uiLog2PageSize bZero bPoisonOnAlloc bPoisonOnFree
    bOnDemand ui32CPUCacheFlags os h

theorem C9_oversize_rejected_witness :
    0x1000000000 ≤ 0x1000000000
    ∧ _AllocOSPageArray plentyEnv 0x1000000000 12 true false true false 0x200 OSState.init
        = (PVRSRV_ERROR.PVRSRV_ERROR_INVALID_PARAMS, none, OSState.init) :=
  ⟨by decide,
   C9_oversize_rejected plentyEnv 0x1000000000 12 true false true false 0x200 OSState.init
     (by decide)⟩

/-- C10, counterexample. The size 100 is below 64 GiB and not a multiple of
`2 ^ 12`; `_AllocOSPageArray` fails with `PVRSRV_ERROR_PMR_NOT_PAGE_MULTIPLE`,
which is not `PVRSRV_ERROR_INVALID_PARAMS`. -/
theorem C10_counterexample :
    100 < 0x1000000000 ∧ ¬ (2 ^ 12 ∣ 100)
    ∧ (_AllocOSPageArray plentyEnv 100 12 false false false false 0x200 OSState.init).1
        = PVRSRV_ERROR.PVRSRV_ERROR_PMR_NOT_PAGE_MULTIPLE
    ∧ (_AllocOSPageArray plentyEnv 100 12 false false false false 0x200 OSState.init).1
        ≠ PVRSRV_ERROR.PVRSRV_ERROR_INVALID_PARAMS := by
  decide

/-- C10 (unaligned sizes), amended. For every `uiSize` below 64 GiB that is
not a multiple of `2 ^ uiLog2PageSize`, with `uiLog2PageSize` below 64 so that
the shift is defined, `_AllocOSPageArray` fails with
`PVRSRV_ERROR_PMR_NOT_PAGE_MULTIPLE`, writes no page array and allocates
nothing. -/
theorem C10_unaligned_rejected (env : OSEnv) (uiSize uiLog2PageSize : Nat)
    (bZero bPoisonOnAlloc bPoisonOnFree bOnDemand : Bool) (ui32CPUCacheFlags : Nat) (os : OSState)
    (h : uiSize < 0x1000000000) (hn : uiLog2PageSize < 64) (hm : ¬ 2 ^ uiLog2PageSize ∣ uiSize) :
    _AllocOSPageArray env uiSize uiLog2PageSize bZero bPoisonOnAlloc bPoisonOnFree bOnDemand
      ui32CPUCacheFlags os = (PVRSRV_ERROR.PVRSRV_ERROR_PMR_NOT_PAGE_MULTIPLE, none, os) :=
  AllocOSPageArray_unaligned env uiSize uiLog2PageSize bZero bPoisonOnAlloc bPoisonOnFree
    bOnDemand ui32CPUCacheFlags os h hn hm

theorem C10_unaligned_rejected_witness :
    100 < 0x1000000000 ∧ 12 < 64 ∧ ¬ (2 ^ 12 ∣ 100)
    ∧ _AllocOSPageArray plentyEnv 100 12 false false false false 0x200 OSState.init
        = (PVRSRV_ERROR.PVRSRV_ERROR_PMR_NOT_PAGE_MULTIPLE, none, OSState.init) :=
  ⟨by decide, by decide, by decide,
   C10_unaligned_rejected plentyEnv 100 12 false false false false 0x200 OSState.init
     (by decide) (by decide) (by decide)⟩

/-- C11, counterexample. For `uiSize = 0` and `uiLog2PageSize = 63` (not below
`PAGE_SHIFT = 12`) the creation succeeds and stores `uiNumPages = 2`:
`(uiSize-1) >> 63` is `1`.  The product `2 * 2 ^ 63` is `2 ^ 64`, not `0`; it
is `0` only in the 64-bit arithmetic of the assertion of the code. -/
theorem C11_counterexample :
    samplePlatform.PAGE_SHIFT ≤ 63
    ∧ 0 % 2 ^ 63 = 0
    ∧ (_AllocOSPageArray (sampleEnv 0) 0 63 false false false false 0 OSState.init).1
        = PVRSRV_ERROR.PVRSRV_OK
    ∧ (_AllocOSPageArray (sampleEnv 0) 0 63 false false false false 0 OSState.init).2.1.map
        (fun d => d.uiNumPages) = some 2
    ∧ 2 * 2 ^ 63 ≠ 0 := by
  decide

/-- C11 (page array creation), amended. On a platform with `PAGE_SHIFT` at
least 4 (it is 12 on x86), for `PAGE_SHIFT ≤ uiLog2PageSize < 64` and a
`uiSize` below 64 GiB that is a multiple of `2 ^ uiLog2PageSize`, zero
included: if `kmalloc` gives the table, `_AllocOSPageArray` returns
`PVRSRV_OK`; it asks the OS for no page unit, the new array has
`bHasOSPages = false`, carries the given flags and page size, and its 32-bit
`uiNumPages` satisfies the assertion of the code,
`uiNumPages * 2 ^ uiLog2PageSize = uiSize` in 64-bit arithmetic; the product
is `uiSize` itself unless `uiSize = 0` and `uiLog2PageSize > 32`. -/
theorem C11_page_array_creation (K : Platform) (env : OSEnv) (uiSize uiLog2PageSize : Nat)
    (bZero bPoisonOnAlloc bPoisonOnFree bOnDemand : Bool) (ui32CPUCacheFlags : Nat)
    (os : OSState)
    (hK : 4 ≤ K.PAGE_SHIFT) (hps : K.PAGE_SHIFT ≤ uiLog2PageSize) (hL : uiLog2PageSize < 64)
    (hs : uiSize < 0x1000000000) (hd : uiSize % 2 ^ uiLog2PageSize = 0)
    (hk : env.kmalloc os.nKmalloc ≠ 0) :
    ∃ d os1, _AllocOSPageArray env uiSize uiLog2PageSize bZero bPoisonOnAlloc bPoisonOnFree
        bOnDemand ui32CPUCacheFlags os = (PVRSRV_ERROR.PVRSRV_OK, some d, os1)
      ∧ allocResults os1.log = allocResults os.log ∧ os1.nAlloc = os.nAlloc
      ∧ os1.held = os.held
      ∧ d.bHasOSPages = false ∧ d.bZero = bZero ∧ d.bPoisonOnAlloc = bPoisonOnAlloc
      ∧ d.bPoisonOnFree = bPoisonOnFree ∧ d.bOnDemand = bOnDemand
      ∧ d.ui32CPUCacheFlags = ui32CPUCacheFlags ∧ d.uiLog2PageSize = uiLog2PageSize
      ∧ d.uiNumPages < 2 ^ 32
      ∧ (d.uiNumPages * 2 ^ uiLog2PageSize) % 2 ^ 64 = uiSize
      ∧ (uiSize ≠ 0 ∨ uiLog2PageSize ≤ 32 → d.uiNumPages * 2 ^ uiLog2PageSize = uiSize) := by
  have h1 : ¬ (0x1000000000 ≤ uiSize) := by omega
  have h2 : uiSize &&& (2 ^ uiLog2PageSize - 1) = 0 := by
    rw [Nat.and_pow_two_sub_one_eq_mod]
    exact hd
  have hdvd : 2 ^ uiLog2PageSize ∣ uiSize := Nat.dvd_of_mod_eq_zero hd
  have h4 : 4 ≤ uiLog2PageSize := by omega
  have hexact : uiSize ≠ 0 ∨ uiLog2PageSize ≤ 32 →
      numPagesOf uiSize uiLog2PageSize * 2 ^ uiLog2PageSize = uiSize := by
    intro h
    rcases Nat.eq_zero_or_pos uiSize with h0 | h0
    · subst h0
      rcases h with h | h
      · exact absurd rfl h
      · rw [numPagesOf_zero_small _ (by omega) h]
        simp
    · exact numPagesOf_pos uiSize uiLog2PageSize h0 hs h4 hdvd
  have hmod : (numPagesOf uiSize uiLog2PageSize * 2 ^ uiLog2PageSize) % 2 ^ 64 = uiSize := by
    by_cases h : uiSize ≠ 0 ∨ uiLog2PageSize ≤ 32
    · rw [hexact h]
      exact Nat.mod_eq_of_lt (by omega)
    · have h0 : uiSize = 0 := by
        by_contra hc
        exact h (Or.inl hc)
      have h33 : 33 ≤ uiLog2PageSize := by omega
      subst h0
      rw [numPagesOf_zero_large _ h33 hL, ← Nat.pow_add,
        show 64 - uiLog2PageSize + uiLog2PageSize = 64 by omega]
      simp
  simp only [_AllocOSPageArray, ge_iff_le, h1, if_false, mask_eq _ hL, h2, ne_eq,
    not_true_eq_false, kmalloc, hk]
  refine ⟨_, _, rfl, ?_, rfl, rfl, rfl, rfl, rfl, rfl, rfl, rfl, rfl,
    numPagesOf_lt uiSize uiLog2PageSize, hmod, hexact⟩
  simp [allocResults_append, allocResults]

theorem C11_page_array_creation_witness :
    4 ≤ samplePlatform.PAGE_SHIFT ∧ samplePlatform.PAGE_SHIFT ≤ 12 ∧ 12 < 64
    ∧ 8192 < 0x1000000000 ∧ 8192 % 2 ^ 12 = 0
    ∧ (sampleEnv 0).kmalloc OSState.init.nKmalloc ≠ 0
    ∧ ∃ d os1, _AllocOSPageArray (sampleEnv 0) 8192 12 true false true false 0x200
          OSState.init = (PVRSRV_ERROR.PVRSRV_OK, some d, os1)
        ∧ allocResults os1.log = allocResults OSState.init.log
        ∧ os1.nAlloc = OSState.init.nAlloc ∧ os1.held = OSState.init.held
        ∧ d.bHasOSPages = false ∧ d.bZero = true ∧ d.bPoisonOnAlloc = false
        ∧ d.bPoisonOnFree = true ∧ d.bOnDemand = false
        ∧ d.ui32CPUCacheFlags = 0x200 ∧ d.uiLog2PageSize = 12
        ∧ d.uiNumPages < 2 ^ 32
        ∧ (d.uiNumPages * 2 ^ 12) % 2 ^ 64 = 8192
        ∧ (8192 ≠ 0 ∨ 12 ≤ 32 → d.uiNumPages * 2 ^ 12 = 8192) :=
  ⟨by decide, by decide, by decide, by decide, by decide, by decide,
   C11_page_array_creation samplePlatform (sampleEnv 0) 8192 12 true false true false 0x200
     OSState.init (by decide) (by decide) (by decide) (by decide) (by decide) (by decide)⟩

/-- C12, the code at the failing input. `lockedOnce` is a two-page on-demand
array after one Lock: `bHasOSPages` is true and the units `100` and `101` are
held.  A second Lock before any Unlock returns `PVRSRV_OK` after two more
`alloc_pages` calls: the table now names `102` and `103`, and the driver holds
four units, two of which no slot names any more. -/
theorem C12_second_lock_allocates_again :
    lockedOnce.d.bOnDemand = true ∧ lockedOnce.d.bHasOSPages = true
    ∧ lockedOnce.d.pagearray = [100, 101] ∧ lockedOnce.os.held = [101, 100]
    ∧ allocResults lockedOnce.os.log = [100, 101]
    ∧ (PMRLockSysPhysAddressesOSMem samplePlatform plentyEnv lockedOnce.d 12
          lockedOnce.os).map (fun r => r.1) = some PVRSRV_ERROR.PVRSRV_OK
    ∧ (PMRLockSysPhysAddressesOSMem samplePlatform plentyEnv lockedOnce.d 12
          lockedOnce.os).map (fun r => allocResults r.2.2.log) = some [100, 101, 102, 103]
    ∧ (PMRLockSysPhysAddressesOSMem samplePlatform plentyEnv lockedOnce.d 12
          lockedOnce.os).map (fun r => r.2.1.pagearray) = some [102, 103]
    ∧ (PMRLockSysPhysAddressesOSMem samplePlatform plentyEnv lockedOnce.d 12
          lockedOnce.os).map (fun r => r.2.2.held) = some [103, 102, 101, 100] := by
  decide

/-- C13, counterexample. An eager array of 4 KiB units (`uiLog2PageSize = 12`)
is locked for a device page size of 2 KiB (`uiLog2DevPageSize = 11`, finer):
the call returns `PVRSRV_OK`. -/
theorem C13_counterexample :
    11 < (sampleArray 2 false 0x200).uiLog2PageSize
    ∧ PMRLockSysPhysAddressesOSMem samplePlatform (sampleEnv 0) (sampleArray 2 false 0x200) 11
        OSState.init
      = some (PVRSRV_ERROR.PVRSRV_OK, sampleArray 2 false 0x200, OSState.init) := by
  decide

/-- C13 (granularity check), amended. `PMRLockSysPhysAddressesOSMem` returns,
and it returns `PVRSRV_OK` only when the requested granularity is no coarser
than that of the array (`uiLog2DevPageSize ≤ uiLog2PageSize`).  A request that
is strictly finer never fails with `PVRSRV_ERROR_PMR_INCOMPATIBLE_CONTIGUITY`:
on an eager array it returns `PVRSRV_OK` and changes nothing, on an on-demand
array it returns what `_AllocOSPages` returns. -/
theorem C13_coarser_requests_fail (K : Platform) (env : OSEnv) (d : _PMR_OSPAGEARRAY_DATA_)
    (uiLog2DevPageSize : Nat) (os : OSState) (hwf : wellFormed d) :
    ∃ e d1 os1, PMRLockSysPhysAddressesOSMem K env d uiLog2DevPageSize os = some (e, d1, os1)
      ∧ (e = PVRSRV_ERROR.PVRSRV_OK → uiLog2DevPageSize ≤ d.uiLog2PageSize)
      ∧ (uiLog2DevPageSize < d.uiLog2PageSize →
          e ≠ PVRSRV_ERROR.PVRSRV_ERROR_PMR_INCOMPATIBLE_CONTIGUITY
          ∧ (d.bOnDemand = false → e = PVRSRV_ERROR.PVRSRV_OK ∧ d1 = d ∧ os1 = os)
          ∧ (d.bOnDemand = true → _AllocOSPages K env d os = some (e, d1, os1))) := by
  by_cases hod : d.bOnDemand = true
  · obtain ⟨e, d', os', hrun, hsame, -, hres⟩ := AllocOSPages_spec K env d os hwf
    have hlog : d'.uiLog2PageSize = d.uiLog2PageSize := hsame.2.2.1
    rcases hres with ⟨he, -⟩ | ⟨he, -⟩
    · subst he
      by_cases hc : uiLog2DevPageSize > d.uiLog2PageSize
      · refine ⟨PVRSRV_ERROR.PVRSRV_ERROR_PMR_INCOMPATIBLE_CONTIGUITY, d', os', ?_, ?_, ?_⟩
        · simp [PMRLockSysPhysAddressesOSMem, hod, hrun, hlog, hc]
        · intro h
          cases h
        · intro h
          omega
      · refine ⟨PVRSRV_ERROR.PVRSRV_OK, d', os', ?_, ?_, ?_⟩
        · simp [PMRLockSysPhysAddressesOSMem, hod, hrun, hlog, hc]
        · intro _
          omega
        · intro _
          exact ⟨by simp, fun h => (by rw [h] at hod; cases hod), fun _ => hrun⟩
    · subst he
      refine ⟨PVRSRV_ERROR.PVRSRV_ERROR_PMR_FAILED_TO_ALLOC_PAGES, d', os', ?_, ?_, ?_⟩
      · simp [PMRLockSysPhysAddressesOSMem, hod, hrun]
      · intro h
        cases h
      · intro _
        exact ⟨by simp, fun h => (by rw [h] at hod; cases hod), fun _ => hrun⟩
  · have hod' : d.bOnDemand = false := by simpa using hod
    by_cases hc : uiLog2DevPageSize > d.uiLog2PageSize
    · refine ⟨PVRSRV_ERROR.PVRSRV_ERROR_PMR_INCOMPATIBLE_CONTIGUITY, d, os, ?_, ?_, ?_⟩
      · simp [PMRLockSysPhysAddressesOSMem, hod', hc]
      · intro h
        cases h
      · intro h
        omega
    · refine ⟨PVRSRV_ERROR.PVRSRV_OK, d, os, ?_, ?_, ?_⟩
      · simp [PMRLockSysPhysAddressesOSMem, hod', hc]
      · intro _
        omega
      · intro _
        exact ⟨by simp, fun _ => ⟨rfl, rfl, rfl⟩, fun h => (by rw [h] at hod'; cases hod')⟩

theorem C13_coarser_requests_fail_witness :
    wellFormed (sampleArray 2 true 0x200)
    ∧ ∃ e d1 os1, PMRLockSysPhysAddressesOSMem samplePlatform plentyEnv
          (sampleArray 2 true 0x200) 11 OSState.init = some (e, d1, os1)
        ∧ (e = PVRSRV_ERROR.PVRSRV_OK → 11 ≤ (sampleArray 2 true 0x200).uiLog2PageSize)
        ∧ (11 < (sampleArray 2 true 0x200).uiLog2PageSize →
            e ≠ PVRSRV_ERROR.PVRSRV_ERROR_PMR_INCOMPATIBLE_CONTIGUITY
            ∧ ((sampleArray 2 true 0x200).bOnDemand = false →
                e = PVRSRV_ERROR.PVRSRV_OK ∧ d1 = sampleArray 2 true 0x200
                ∧ os1 = OSState.init)
            ∧ ((sampleArray 2 true 0x200).bOnDemand = true →
                _AllocOSPages samplePlatform plentyEnv (sampleArray 2 true 0x200)
                  OSState.init = some (e, d1, os1))) :=
  ⟨by decide,
   C13_coarser_requests_fail samplePlatform plentyEnv (sampleArray 2 true 0x200) 11
     OSState.init (by decide)⟩

/-- C15 (Unlock). `PMRUnlockSysPhysAddressesOSMem` returns `PVRSRV_OK`.  On an
eager array it changes neither the array nor the kernel state.  On an on-demand
array (whose table has one slot per unit) it does what `_FreeOSPages` does:
every slot is freed exactly once, the units leave the set that the driver
holds, and `bHasOSPages` becomes false while no other field changes. -/
theorem C15_unlock (K : Platform) (env : OSEnv) (d : _PMR_OSPAGEARRAY_DATA_) (os : OSState)
    (hwf : wellFormed d) :
    (PMRUnlockSysPhysAddressesOSMem K env d os).1 = PVRSRV_ERROR.PVRSRV_OK
    ∧ (d.bOnDemand = false →
        PMRUnlockSysPhysAddressesOSMem K env d os = (PVRSRV_ERROR.PVRSRV_OK, d, os))
    ∧ (d.bOnDemand = true →
        PMRUnlockSysPhysAddressesOSMem K env d os = _FreeOSPages K env d os
        ∧ (PMRUnlockSysPhysAddressesOSMem K env d os).2.1 = { d with bHasOSPages := false }
        ∧ freedPages (PMRUnlockSysPhysAddressesOSMem K env d os).2.2.log
            = freedPages os.log ++ d.pagearray
        ∧ (PMRUnlockSysPhysAddressesOSMem K env d os).2.2.held
            = d.pagearray.foldl List.erase os.held) := by
  obtain ⟨hlen, -⟩ := hwf
  obtain ⟨h1, h2, -⟩ := freeLoop_spec K env (sub32 d.uiLog2PageSize K.PAGE_SHIFT) d
    d.uiNumPages 0 os (by omega)
  have ht : (d.pagearray.drop 0).take d.uiNumPages = d.pagearray := by
    rw [List.drop_zero, ← hlen, List.take_length]
  rw [ht] at h1 h2
  refine ⟨?_, ?_, ?_⟩
  · unfold PMRUnlockSysPhysAddressesOSMem
    split <;> simp [_FreeOSPages]
  · intro h
    simp [PMRUnlockSysPhysAddressesOSMem, h]
  · intro h
    have e : PMRUnlockSysPhysAddressesOSMem K env d os = _FreeOSPages K env d os := by
      simp [PMRUnlockSysPhysAddressesOSMem, h, _FreeOSPages]
    rw [e]
    exact ⟨rfl, rfl, h2, h1⟩

theorem C15_unlock_witness :
    wellFormed lockedOnce.d
    ∧ (PMRUnlockSysPhysAddressesOSMem samplePlatform plentyEnv lockedOnce.d lockedOnce.os).1
        = PVRSRV_ERROR.PVRSRV_OK
    ∧ (lockedOnce.d.bOnDemand = false →
        PMRUnlockSysPhysAddressesOSMem samplePlatform plentyEnv lockedOnce.d lockedOnce.os
          = (PVRSRV_ERROR.PVRSRV_OK, lockedOnce.d, lockedOnce.os))
    ∧ (lockedOnce.d.bOnDemand = true →
        PMRUnlockSysPhysAddressesOSMem samplePlatform plentyEnv lockedOnce.d lockedOnce.os
          = _FreeOSPages samplePlatform plentyEnv lockedOnce.d lockedOnce.os
        ∧ (PMRUnlockSysPhysAddressesOSMem samplePlatform plentyEnv lockedOnce.d
            lockedOnce.os).2.1 = { lockedOnce.d with bHasOSPages := false }
        ∧ freedPages (PMRUnlockSysPhysAddressesOSMem samplePlatform plentyEnv lockedOnce.d
            lockedOnce.os).2.2.log = freedPages lockedOnce.os.log ++ lockedOnce.d.pagearray
        ∧ (PMRUnlockSysPhysAddressesOSMem samplePlatform plentyEnv lockedOnce.d
            lockedOnce.os).2.2.held
            = lockedOnce.d.pagearray.foldl List.erase lockedOnce.os.held) :=
  ⟨by decide,
   C15_unlock samplePlatform plentyEnv lockedOnce.d lockedOnce.os (by decide)⟩

/-- C18: on each of the fifteen entry points of the rgxta3d bridge, for any
collaborators and any state: if a `PVRSRVLookupHandle` or
`ResManFindPrivateDataByPtr` call does not return `PVRSRV_OK`, with `E` the
error of the first such call and `rest` the calls made after it, then `eError`
is `E`, the calls in `rest` are `OSFreeMem` calls only (so no later lookup is
made), and no call of the whole run invokes a function of `rgxta3d.h`,
registers or frees a resman item, or allocates or releases a handle.  In
`PVRSRVBridgeRGXCreateHWRTData` the failed call may be any lookup of the loop
over the free-list handles. -/
theorem C18_lookup_failure_short_circuits {σ : Type} (S : Services σ) (s : σ)
    (req : BridgeRequest) (E : PVRSRV_ERROR) (rest : List BridgeCall)
    (h : afterFailedLookup (req.run S s).2 = some (E, rest)) :
    (req.run S s).1 = E
    ∧ (∀ c ∈ rest, c.isOSFreeMem = true)
    ∧ (∀ c ∈ (req.run S s).2, c.isEffect = false) :=
  BridgeRequest.lookup_failure S s req E rest h

/-- C18, witness: on `freeListsWorld` the second free-list handle of the
`PVRSRVBridgeRGXCreateHWRTData` request is not a handle; the lookup fails, and
the two scratch buffers are freed. -/
theorem C18_lookup_failure_short_circuits_witness :
    afterFailedLookup (sampleHWRTDataRequest.run specServices freeListsWorld).2
      = some (InvalidHandle, [BridgeCall.OSFreeMem 1, BridgeCall.OSFreeMem 2])
    ∧ ((sampleHWRTDataRequest.run specServices freeListsWorld).1 = InvalidHandle
       ∧ (∀ c ∈ [BridgeCall.OSFreeMem 1, BridgeCall.OSFreeMem 2], c.isOSFreeMem = true)
       ∧ (∀ c ∈ (sampleHWRTDataRequest.run specServices freeListsWorld).2,
            c.isEffect = false)) :=
  ⟨by decide,
   C18_lookup_failure_short_circuits specServices freeListsWorld sampleHWRTDataRequest
     InvalidHandle [BridgeCall.OSFreeMem 1, BridgeCall.OSFreeMem 2] (by decide)⟩

/-- C19: each of the six destroy-style entry points, for any collaborators and
any state, first calls `PVRSRVLookupHandle` on the handle of the request with
the type tag of its resource kind; if that fails, it makes no other call and
`eError` is the lookup error; otherwise it calls `ResManFreeResByPtr` on the
item found; if that does not return `PVRSRV_OK` (so also on
`PVRSRV_ERROR_RETRY`), it makes no other call, the handle is not released, and
`eError` is the result of the free; only on `PVRSRV_OK` does it call
`PVRSRVReleaseHandle` on the handle, and `eError` is the result of the
release.  On the model of the handle registry and the resource manager: when
`eError` is `PVRSRV_ERROR_RETRY`, the registry and the items are as before
the call, a lookup of the handle still succeeds, and the calls were the lookup
and the free that answered `PVRSRV_ERROR_RETRY`. -/
theorem C19_destroy_protocol_and_retry {σ : Type} (S : Services σ) (s : σ)
    (req : DestroyRequest) (w : World) :
    (∃ e d,
      (e ≠ PVRSRV_ERROR.PVRSRV_OK ∧ (req.run S s).1 = e
        ∧ (req.run S s).2.calls
            = [BridgeCall.PVRSRVLookupHandle req.handle req.handleType e d])
      ∨ (e = PVRSRV_ERROR.PVRSRV_OK ∧ ∃ f,
          (f ≠ PVRSRV_ERROR.PVRSRV_OK ∧ (req.run S s).1 = f
            ∧ (req.run S s).2.calls
                = [BridgeCall.PVRSRVLookupHandle req.handle req.handleType
                     PVRSRV_ERROR.PVRSRV_OK d,
                   BridgeCall.ResManFreeResByPtr d f])
          ∨ (f = PVRSRV_ERROR.PVRSRV_OK ∧ ∃ r, (req.run S s).1 = r
            ∧ (req.run S s).2.calls
                = [BridgeCall.PVRSRVLookupHandle req.handle req.handleType
                     PVRSRV_ERROR.PVRSRV_OK d,
                   BridgeCall.ResManFreeResByPtr d PVRSRV_ERROR.PVRSRV_OK,
                   BridgeCall.PVRSRVReleaseHandle req.handle req.handleType r])))
    ∧ ((req.run specServices w).1 = PVRSRV_ERROR.PVRSRV_ERROR_RETRY →
        (req.run specServices w).2.s.handles = w.handles
        ∧ (req.run specServices w).2.s.items = w.items
        ∧ ((req.run specServices w).2.s.lookup req.handle req.handleType).1.1
            = PVRSRV_ERROR.PVRSRV_OK
        ∧ ∃ d, (req.run specServices w).2.calls
            = [BridgeCall.PVRSRVLookupHandle req.handle req.handleType
                 PVRSRV_ERROR.PVRSRV_OK d,
               BridgeCall.ResManFreeResByPtr d PVRSRV_ERROR.PVRSRV_ERROR_RETRY]) := by
  rw [DestroyRequest.run_eq S s req, DestroyRequest.run_eq specServices w req]
  exact ⟨destroyWith_calls S s req.handle req.handleType,
    destroyWith_retry req.handle req.handleType w⟩

/-- C19, witness: on `busyWorld` the free list behind the handle `3` has
outstanding dependents; its destruction answers `PVRSRV_ERROR_RETRY` and the
handle still resolves. -/
theorem C19_destroy_protocol_and_retry_witness :
    (sampleDestroyRequest.run specServices busyWorld).1 = PVRSRV_ERROR.PVRSRV_ERROR_RETRY
    ∧ ((sampleDestroyRequest.run specServices busyWorld).2.s.handles = busyWorld.handles
       ∧ (sampleDestroyRequest.run specServices busyWorld).2.s.items = busyWorld.items
       ∧ ((sampleDestroyRequest.run specServices busyWorld).2.s.lookup
            sampleDestroyRequest.handle sampleDestroyRequest.handleType).1.1
           = PVRSRV_ERROR.PVRSRV_OK
       ∧ ∃ d, (sampleDestroyRequest.run specServices busyWorld).2.calls
           = [BridgeCall.PVRSRVLookupHandle sampleDestroyRequest.handle
                sampleDestroyRequest.handleType PVRSRV_ERROR.PVRSRV_OK d,
              BridgeCall.ResManFreeResByPtr d PVRSRV_ERROR.PVRSRV_ERROR_RETRY]) :=
  ⟨by decide,
   (C19_destroy_protocol_and_retry specServices busyWorld sampleDestroyRequest busyWorld).2
     (by decide)⟩

/-- C20: `PVRSRVBridgeRGXKickTA3D` registers and frees no item and allocates and
releases no handle.  Its first call looks `hDevNode` up, and when that
succeeds the second looks `hFWRenderContext` up, null or not.  Either the kick
is submitted: then the calls were the two lookups, for each of
`hRTDataCleanup`, `hZBuffer`, `hSBuffer` that is not null a handle lookup of
its type and a private-data lookup, none for a null one, all with the result
`PVRSRV_OK`, and then `PVRSRVRGXKickTA3DKM` with the pointers found, null for
a null handle, and `eError` is its result.  Or a lookup failed: it was the
last call, `eError` is its error and the kick was not submitted. -/
theorem C20_kick_optional_handles {σ : Type} (S : Services σ) (s : σ)
    (IN : PVRSRV_BRIDGE_IN_RGXKICKTA3D) (OUT0 : PVRSRV_BRIDGE_OUT_RGXKICKTA3D) :
    registryUntouched (PVRSRVBridgeRGXKickTA3D S IN OUT0 s).2.calls
    ∧ (∃ e d, (PVRSRVBridgeRGXKickTA3D S IN OUT0 s).2.calls.head?
          = some (BridgeCall.PVRSRVLookupHandle IN.hDevNode
              PVRSRV_HANDLE_TYPE.PVRSRV_HANDLE_TYPE_DEV_NODE e d)
        ∧ (e = PVRSRV_ERROR.PVRSRV_OK → ∃ e2 d2, (PVRSRVBridgeRGXKickTA3D S IN OUT0 s).2.calls.tail.head?
            = some (BridgeCall.PVRSRVLookupHandle IN.hFWRenderContext
                PVRSRV_HANDLE_TYPE.PVRSRV_HANDLE_TYPE_RGX_FW_MEMDESC e2 d2)))
    ∧ ((∃ d1 d2 d3 v3 d4 v4 d5 v5 e o,
          (IN.hRTDataCleanup = 0 → v3 = 0) ∧ (IN.hZBuffer = 0 → v4 = 0)
          ∧ (IN.hSBuffer = 0 → v5 = 0)
          ∧ (PVRSRVBridgeRGXKickTA3D S IN OUT0 s).2.calls
              = BridgeCall.PVRSRVLookupHandle IN.hDevNode
                  PVRSRV_HANDLE_TYPE.PVRSRV_HANDLE_TYPE_DEV_NODE PVRSRV_ERROR.PVRSRV_OK d1
                :: BridgeCall.PVRSRVLookupHandle IN.hFWRenderContext
                  PVRSRV_HANDLE_TYPE.PVRSRV_HANDLE_TYPE_RGX_FW_MEMDESC PVRSRV_ERROR.PVRSRV_OK d2
                :: (lookupIfSetCalls IN.hRTDataCleanup
                      PVRSRV_HANDLE_TYPE.PVRSRV_HANDLE_TYPE_RGX_RTDATA_CLEANUP d3 v3
                    ++ (lookupIfSetCalls IN.hZBuffer
                          PVRSRV_HANDLE_TYPE.PVRSRV_HANDLE_TYPE_RGX_FWIF_ZSBUFFER d4 v4
                        ++ (lookupIfSetCalls IN.hSBuffer
                              PVRSRV_HANDLE_TYPE.PVRSRV_HANDLE_TYPE_RGX_FWIF_ZSBUFFER d5 v5
                            ++ [BridgeCall.domain DomainFn.PVRSRVRGXKickTA3DKM
                                  [d1, d2, IN.bbLastTAInScene, IN.bbKickTA, IN.bbKickPR,
                                   IN.bbKick3D, IN.ui32TAcCCBWoffUpdate, IN.ui323DcCCBWoffUpdate,
                                   IN.bbPDumpContinuous, v3, v4, v5] e o])))
          ∧ (PVRSRVBridgeRGXKickTA3D S IN OUT0 s).1.eError = e)
       ∨ (∃ E, E ≠ PVRSRV_ERROR.PVRSRV_OK
            ∧ afterFailedLookup (PVRSRVBridgeRGXKickTA3D S IN OUT0 s).2.calls = some (E, [])
            ∧ (PVRSRVBridgeRGXKickTA3D S IN OUT0 s).1.eError = E
            ∧ directCalls DomainFn.PVRSRVRGXKickTA3DKM (PVRSRVBridgeRGXKickTA3D S IN OUT0 s).2.calls = [])) := by
  apply RGXKickTA3D_paths S s IN OUT0 (fun out calls =>
    registryUntouched calls
    ∧ (∃ e d, calls.head?
          = some (BridgeCall.PVRSRVLookupHandle IN.hDevNode
              PVRSRV_HANDLE_TYPE.PVRSRV_HANDLE_TYPE_DEV_NODE e d)
        ∧ (e = PVRSRV_ERROR.PVRSRV_OK → ∃ e2 d2, calls.tail.head?
            = some (BridgeCall.PVRSRVLookupHandle IN.hFWRenderContext
                PVRSRV_HANDLE_TYPE.PVRSRV_HANDLE_TYPE_RGX_FW_MEMDESC e2 d2)))
    ∧ ((∃ d1 d2 d3 v3 d4 v4 d5 v5 e o,
          (IN.hRTDataCleanup = 0 → v3 = 0) ∧ (IN.hZBuffer = 0 → v4 = 0)
          ∧ (IN.hSBuffer = 0 → v5 = 0)
          ∧ calls
              = BridgeCall.PVRSRVLookupHandle IN.hDevNode
                  PVRSRV_HANDLE_TYPE.PVRSRV_HANDLE_TYPE_DEV_NODE PVRSRV_ERROR.PVRSRV_OK d1
                :: BridgeCall.PVRSRVLookupHandle IN.hFWRenderContext
                  PVRSRV_HANDLE_TYPE.PVRSRV_HANDLE_TYPE_RGX_FW_MEMDESC PVRSRV_ERROR.PVRSRV_OK d2
                :: (lookupIfSetCalls IN.hRTDataCleanup
                      PVRSRV_HANDLE_TYPE.PVRSRV_HANDLE_TYPE_RGX_RTDATA_CLEANUP d3 v3
                    ++ (lookupIfSetCalls IN.hZBuffer
                          PVRSRV_HANDLE_TYPE.PVRSRV_HANDLE_TYPE_RGX_FWIF_ZSBUFFER d4 v4
                        ++ (lookupIfSetCalls IN.hSBuffer
                              PVRSRV_HANDLE_TYPE.PVRSRV_HANDLE_TYPE_RGX_FWIF_ZSBUFFER d5 v5
                            ++ [BridgeCall.domain DomainFn.PVRSRVRGXKickTA3DKM
                                  [d1, d2, IN.bbLastTAInScene, IN.bbKickTA, IN.bbKickPR,
                                   IN.bbKick3D, IN.ui32TAcCCBWoffUpdate, IN.ui323DcCCBWoffUpdate,
                                   IN.bbPDumpContinuous, v3, v4, v5] e o])))
          ∧ out.eError = e)
       ∨ (∃ E, E ≠ PVRSRV_ERROR.PVRSRV_OK
            ∧ afterFailedLookup calls = some (E, [])
            ∧ out.eError = E
            ∧ directCalls DomainFn.PVRSRVRGXKickTA3DKM calls = [])))
  case path6 =>
    intro d1 d2 d3 v3 d4 v4 d5 v5 o6 e6 hv3 hv4 hv5
    refine ⟨?_, ?_, Or.inl ⟨d1, d2, d3, v3, d4, v4, d5, v5, e6, o6, hv3, hv4, hv5, rfl, rfl⟩⟩
    · simp [registryUntouched_cons, registryUntouched_append, registryUntouched_nil,
        registryUntouched_lookupIfSetCalls,
        changesRegistry_OSAllocMem, changesRegistry_OSFreeMem, changesRegistry_OSAccessOK,
        changesRegistry_OSCopyFromUser, changesRegistry_PVRSRVLookupHandle,
        changesRegistry_PVRSRVAllocHandle, changesRegistry_PVRSRVAllocSubHandle,
        changesRegistry_PVRSRVReleaseHandle, changesRegistry_ResManRegisterRes,
        changesRegistry_ResManFindPrivateDataByPtr, changesRegistry_ResManFreeResByPtr,
        changesRegistry_domain]
    · simp
  all_goals
    intros
    refine ⟨?_, ?_, Or.inr ⟨_, ‹_ ≠ PVRSRV_ERROR.PVRSRV_OK›, ?_, rfl, ?_⟩⟩
    · simp [registryUntouched_cons, registryUntouched_append, registryUntouched_nil,
        registryUntouched_lookupIfSetCalls,
        changesRegistry_OSAllocMem, changesRegistry_OSFreeMem, changesRegistry_OSAccessOK,
        changesRegistry_OSCopyFromUser, changesRegistry_PVRSRVLookupHandle,
        changesRegistry_PVRSRVAllocHandle, changesRegistry_PVRSRVAllocSubHandle,
        changesRegistry_PVRSRVReleaseHandle, changesRegistry_ResManRegisterRes,
        changesRegistry_ResManFindPrivateDataByPtr, changesRegistry_ResManFreeResByPtr,
        changesRegistry_domain]
    · simp [*]
    · simp [afterFailedLookup_cons, afterFailedLookup_nil, afterFailedLookup_append_ok,
        lookupsOK_lookupIfSetCalls,
        lookupResult_OSAllocMem, lookupResult_OSFreeMem, lookupResult_OSAccessOK,
        lookupResult_OSCopyFromUser, lookupResult_PVRSRVLookupHandle,
        lookupResult_PVRSRVAllocHandle, lookupResult_PVRSRVAllocSubHandle,
        lookupResult_PVRSRVReleaseHandle, lookupResult_ResManRegisterRes,
        lookupResult_ResManFindPrivateDataByPtr, lookupResult_ResManFreeResByPtr,
        lookupResult_domain, *]
    · simp [directCalls, directCalls_append, directCalls_lookupIfSetCalls]

/-- C21 (scratch buffers).  On any collaborators and from any state, on every
path of `PVRSRVBridgeRGXCreateHWRTData` and of
`PVRSRVBridgeRGXCreateRenderContext`: the buffers passed to `OSFreeMem` are
the buffers that `OSAllocMem` returned, in the order of the allocations, each
passed once; an `OSAllocMem` call that returned `NULL` gives no `OSFreeMem`
call.  The first function allocates at most two buffers, the second at most
one. -/
theorem C21_scratch_buffers_freed {σ : Type} (S : Services σ) (s : σ) (B : BridgeConsts)
    (IN1 : PVRSRV_BRIDGE_IN_RGXCREATEHWRTDATA) (OUT1 : PVRSRV_BRIDGE_OUT_RGXCREATEHWRTDATA)
    (IN2 : PVRSRV_BRIDGE_IN_RGXCREATERENDERCONTEXT)
    (OUT2 : PVRSRV_BRIDGE_OUT_RGXCREATERENDERCONTEXT) :
    (osFrees (PVRSRVBridgeRGXCreateHWRTData B S IN1 OUT1 s).2.calls
        = osAllocs (PVRSRVBridgeRGXCreateHWRTData B S IN1 OUT1 s).2.calls
      ∧ (osAllocs (PVRSRVBridgeRGXCreateHWRTData B S IN1 OUT1 s).2.calls).length ≤ 2)
    ∧ (osFrees (PVRSRVBridgeRGXCreateRenderContext B S IN2 OUT2 s).2.calls
        = osAllocs (PVRSRVBridgeRGXCreateRenderContext B S IN2 OUT2 s).2.calls
      ∧ (osAllocs (PVRSRVBridgeRGXCreateRenderContext B S IN2 OUT2 s).2.calls).length ≤ 1) := by
  constructor
  · apply RGXCreateHWRTData_paths S s B IN1 OUT1 (fun _ calls =>
      osFrees calls = osAllocs calls ∧ (osAllocs calls).length ≤ 2)
    all_goals
      intros
      simp [osAllocs, osFrees, osAllocs_append, osFrees_append, osAllocs_cleanupCalls,
        osFrees_cleanupCalls, osAllocs_of_lookupsOK, osFrees_of_lookupsOK,
        osAllocs_cons_of_lookup, osFrees_cons_of_lookup, *]
  · apply RGXCreateRenderContext_paths S s B IN2 OUT2 (fun _ calls =>
      osFrees calls = osAllocs calls ∧ (osAllocs calls).length ≤ 1)
    all_goals
      intros
      simp [osAllocs, osFrees, osAllocs_append, osFrees_append, osAllocs_cleanupCalls,
        osFrees_cleanupCalls, osAllocs_of_lookupsOK, osFrees_of_lookupsOK,
        osAllocs_cons_of_lookup, osFrees_cons_of_lookup, *]

/-- C22, counterexample.  `_AllocOSPageArray` for a size of `0` bytes returns
`PVRSRV_OK` with an array of no pages whose `bHasOSPages` is false; every one
of its `uiNumPages = 0` slots holds a held page, there being none, so
`bHasOSPages` is not equivalent to the slots being populated. -/
theorem C22_counterexample :
    (_AllocOSPageArray plentyEnv 0 12 false false false true 0x200 OSState.init).1
      = PVRSRV_ERROR.PVRSRV_OK
    ∧ (_AllocOSPageArray plentyEnv 0 12 false false false true 0x200 OSState.init).2.1
      = some (sampleArray 0 true 0x200)
    ∧ (sampleArray 0 true 0x200).uiNumPages = 0
    ∧ (sampleArray 0 true 0x200).bHasOSPages = false
    ∧ slotsPopulated (sampleArray 0 true 0x200)
        (_AllocOSPageArray plentyEnv 0 12 false false false true 0x200 OSState.init).2.2
    ∧ ¬ ((sampleArray 0 true 0x200).bHasOSPages = true
          ↔ slotsPopulated (sampleArray 0 true 0x200)
              (_AllocOSPageArray plentyEnv 0 12 false false false true 0x200
                OSState.init).2.2) := by
  have hs : slotsPopulated (sampleArray 0 true 0x200)
      (_AllocOSPageArray plentyEnv 0 12 false false false true 0x200 OSState.init).2.2 := by
    intro i hi
    exact absurd hi (Nat.not_lt_zero i)
  refine ⟨by decide, by decide, rfl, rfl, hs, ?_⟩
  intro h
  exact absurd (h.mpr hs) (by decide)

/-- C22, amended (the two states of a page array).  Say that the array `d` is
in one of two states with respect to the units `H` that the driver holds for
others: `bHasOSPages` is true, every slot holds a page and the held units are
those of the slots, one per slot, besides `H`; or `bHasOSPages` is false and
the driver holds `H` only.  The array that `_AllocOSPageArray` returns is in
the second state.  From a well-formed array in one of the two states:
`_AllocOSPages`, entered with `bHasOSPages` false as its assertion asks,
returns, with `PVRSRV_OK` and the first state or with
`PVRSRV_ERROR_PMR_FAILED_TO_ALLOC_PAGES` and the second; `_FreeOSPages`,
entered with `bHasOSPages` true as its assertion asks, leaves the second
state; `PMRLockSysPhysAddressesOSMem` and `PMRUnlockSysPhysAddressesOSMem`
leave one of the two states when an on-demand array enters Lock unbound and
Unlock bound.  In the first state every slot holds a held page, and for an
array of at least one page `bHasOSPages` is true exactly in the first state.
This holds for every page count, `0` included. -/
theorem C22_has_pages_invariant (K : Platform) (env : OSEnv) (d : _PMR_OSPAGEARRAY_DATA_)
    (os : OSState) (H : List Nat) (uiLog2DevPageSize : Nat)
    (hwf : wellFormed d) (hinv : hasPagesInv H d os) :
    (∀ (env0 : OSEnv) (uiSize uiLog2PageSize : Nat)
        (bZero bPoisonOnAlloc bPoisonOnFree bOnDemand : Bool) (ui32CPUCacheFlags : Nat)
        (os0 : OSState) (d0 : _PMR_OSPAGEARRAY_DATA_) (os1 : OSState),
        _AllocOSPageArray env0 uiSize uiLog2PageSize bZero bPoisonOnAlloc bPoisonOnFree bOnDemand
            ui32CPUCacheFlags os0 = (PVRSRV_ERROR.PVRSRV_OK, some d0, os1) →
        wellFormed d0 ∧ d0.bHasOSPages = false ∧ hasPagesInv os0.held d0 os1)
    ∧ (d.bHasOSPages = false →
        ∃ e d1 os1, _AllocOSPages K env d os = some (e, d1, os1)
          ∧ wellFormed d1 ∧ hasPagesInv H d1 os1
          ∧ (e = PVRSRV_ERROR.PVRSRV_OK ∧ d1.bHasOSPages = true
             ∨ e = PVRSRV_ERROR.PVRSRV_ERROR_PMR_FAILED_TO_ALLOC_PAGES
               ∧ d1.bHasOSPages = false))
    ∧ (d.bHasOSPages = true →
        wellFormed (_FreeOSPages K env d os).2.1
        ∧ (_FreeOSPages K env d os).2.1.bHasOSPages = false
        ∧ hasPagesInv H (_FreeOSPages K env d os).2.1 (_FreeOSPages K env d os).2.2)
    ∧ ((d.bOnDemand = true → d.bHasOSPages = false) →
        ∃ r, PMRLockSysPhysAddressesOSMem K env d uiLog2DevPageSize os = some r
          ∧ wellFormed r.2.1 ∧ hasPagesInv H r.2.1 r.2.2)
    ∧ ((d.bOnDemand = true → d.bHasOSPages = true) →
        wellFormed (PMRUnlockSysPhysAddressesOSMem K env d os).2.1
        ∧ hasPagesInv H (PMRUnlockSysPhysAddressesOSMem K env d os).2.1
            (PMRUnlockSysPhysAddressesOSMem K env d os).2.2)
    ∧ (d.bHasOSPages = true → slotsPopulated d os)
    ∧ (1 ≤ d.uiNumPages → (d.bHasOSPages = true ↔ unitsBound H d os)) := by
  refine ⟨?_, ?_, ?_, ?_, ?_, ?_, ?_⟩
  · intro env0 uiSize L bZ bPA bPF bOD cache os0 d0 os1 h
    rcases AllocOSPageArray_result env0 uiSize L bZ bPA bPF bOD cache os0 with
      ⟨_, d2, h2, hw, hb, _, _, hos⟩ | ⟨hne, _⟩
    · rw [h] at h2 hos
      simp only [Option.some.injEq] at h2
      subst h2
      simp only at hos
      refine ⟨hw, hb, Or.inr ⟨hb, ?_⟩⟩
      unfold noUnits
      rw [hos]
    · rw [h] at hne
      exact absurd rfl hne
  · intro hb
    obtain ⟨e, d1, os1, hrun, hw1, hi1, _, _, hres⟩ := AllocOSPages_inv K env d os H hwf hb hinv
    exact ⟨e, d1, os1, hrun, hw1, hi1, hres⟩
  · intro hb
    obtain ⟨_, _, f3, f4, _⟩ := FreeOSPages_inv K env d os H hwf hb hinv
    exact ⟨f3, rfl, f4⟩
  · intro hod
    by_cases hd : d.bOnDemand = true
    · obtain ⟨e, d1, os1, hrun, hw1, hi1, _, _, _⟩ :=
        AllocOSPages_inv K env d os H hwf (hod hd) hinv
      simp only [PMRLockSysPhysAddressesOSMem, hd, if_true, hrun]
      by_cases he : e = PVRSRV_ERROR.PVRSRV_OK
      · simp only [he, ne_eq, not_true_eq_false, if_false]
        split
        · exact ⟨_, rfl, hw1, hi1⟩
        · exact ⟨_, rfl, hw1, hi1⟩
      · simp only [ne_eq, he, not_false_eq_true, if_true]
        exact ⟨_, rfl, hw1, hi1⟩
    · simp only [PMRLockSysPhysAddressesOSMem, hd, Bool.false_eq_true, if_false]
      split
      · exact ⟨_, rfl, hwf, hinv⟩
      · exact ⟨_, rfl, hwf, hinv⟩
  · intro hod
    by_cases hd : d.bOnDemand = true
    · obtain ⟨_, _, f3, f4, _⟩ := FreeOSPages_inv K env d os H hwf (hod hd) hinv
      have e1 : PMRUnlockSysPhysAddressesOSMem K env d os = _FreeOSPages K env d os := by
        simp only [PMRUnlockSysPhysAddressesOSMem, hd, if_true]
        split <;> rfl
      rw [e1]
      exact ⟨f3, f4⟩
    · have e1 : PMRUnlockSysPhysAddressesOSMem K env d os = (PVRSRV_ERROR.PVRSRV_OK, d, os) := by
        simp only [PMRUnlockSysPhysAddressesOSMem, hd, Bool.false_eq_true, if_false]
      rw [e1]
      exact ⟨hwf, hinv⟩
  · intro hb
    rcases hinv with ⟨_, h2⟩ | ⟨h1, _⟩
    · exact unitsBound_slotsPopulated H d os hwf h2
    · rw [hb] at h1; cases h1
  · intro hn
    exact hasPagesInv_iff H d os hwf hn hinv

/-- C22, witness: an on-demand array of two pages that holds none, over a
kernel in which the driver holds nothing. -/
theorem C22_has_pages_invariant_witness :
    (wellFormed (sampleArray 2 true 0x200)
      ∧ hasPagesInv [] (sampleArray 2 true 0x200) OSState.init)
    ∧ ∃ r, PMRLockSysPhysAddressesOSMem samplePlatform plentyEnv (sampleArray 2 true 0x200) 12
          OSState.init = some r
        ∧ wellFormed r.2.1 ∧ hasPagesInv [] r.2.1 r.2.2 :=
  ⟨⟨by decide, Or.inr ⟨rfl, List.Perm.refl _⟩⟩,
   (C22_has_pages_invariant samplePlatform plentyEnv (sampleArray 2 true 0x200) OSState.init []
     12 (by decide) (Or.inr ⟨rfl, List.Perm.refl _⟩)).2.2.2.1 (fun _ => rfl)⟩

/-- C23 (Finalize).  For a well-formed page array in one of its two states
(`bHasOSPages` true and the units of the slots held besides `H`, or
`bHasOSPages` false and only `H` held), `PMRFinalizeOSMem` returns
`PVRSRV_OK`; its kernel calls are `PDumpPMRFree` if `bPDumpMalloced`, then
the calls of `_FreeOSPages` on every slot if `bHasOSPages` is true and none
of them if it is false, then one `kfree` of the table: the pages freed are
those of the table exactly when `bHasOSPages` was true, the table is freed
once, and afterwards the driver holds `H` only, no unit of the array. -/
theorem C23_finalize (K : Platform) (env : OSEnv) (d : _PMR_OSPAGEARRAY_DATA_) (os : OSState)
    (H : List Nat) (hwf : wellFormed d) (hinv : hasPagesInv H d os) :
    (PMRFinalizeOSMem K env d os).1 = PVRSRV_ERROR.PVRSRV_OK
    ∧ (PMRFinalizeOSMem K env d os).2.log
        = os.log
          ++ (if d.bPDumpMalloced = true then [OSEvent.PDumpPMRFree d.hPDumpAllocInfo] else [])
          ++ (if d.bHasOSPages = true then d.pagearray.flatMap (freeUnitEvents K env d) else [])
          ++ [OSEvent.kfree d.addr]
    ∧ freedPages (PMRFinalizeOSMem K env d os).2.log
        = freedPages os.log ++ (if d.bHasOSPages = true then d.pagearray else [])
    ∧ tablesFreed (PMRFinalizeOSMem K env d os).2.log = tablesFreed os.log ++ [d.addr]
    ∧ (PMRFinalizeOSMem K env d os).2.tables = os.tables.erase d.addr
    ∧ noUnits H (PMRFinalizeOSMem K env d os).2 := by
  have hall : (d.pagearray.drop 0).take d.uiNumPages = d.pagearray := by
    rw [List.drop_zero, ← hwf.1, List.take_length]
  have hle : 0 + d.uiNumPages ≤ d.pagearray.length := by rw [hwf.1]; omega
  simp only [PMRFinalizeOSMem, _FreeOSPagesArray, _FreeOSPages]
  generalize hos1 : (if d.bPDumpMalloced = true
      then { os with log := os.log ++ [OSEvent.PDumpPMRFree d.hPDumpAllocInfo] } else os) = os1
  have h1 : os1.held = os.held ∧ os1.tables = os.tables
      ∧ os1.log = os.log
          ++ (if d.bPDumpMalloced = true then [OSEvent.PDumpPMRFree d.hPDumpAllocInfo]
              else []) := by
    subst hos1
    split <;> simp
  obtain ⟨g1, g2, g3⟩ := h1
  have g4 : freedPages os1.log = freedPages os.log := by
    rw [g3, freedPages_append]
    split <;> simp [freedPages]
  have g5 : tablesFreed os1.log = tablesFreed os.log := by
    rw [g3, tablesFreed_append]
    split <;> simp [tablesFreed]
  by_cases hb : d.bHasOSPages = true
  · have hU : os.held.Perm (d.pagearray ++ H) := by
      rcases hinv with ⟨_, h2⟩ | ⟨h1, _⟩
      · exact h2.2
      · rw [hb] at h1; cases h1
    obtain ⟨f1, f2, _, f4, _, _⟩ := freeLoop_spec K env (sub32 d.uiLog2PageSize K.PAGE_SHIFT) d
      d.uiNumPages 0 os1 hle
    have f5 := freeLoop_log K env d d.uiNumPages 0 os1 hle
    have f6 := freeLoop_sameTableCalls K env (sub32 d.uiLog2PageSize K.PAGE_SHIFT) d
      d.uiNumPages 0 os1
    rw [hall] at f1 f2 f5
    simp only [hb, if_true, kfree]
    refine ⟨trivial, ?_, ?_, ?_, ?_, ?_⟩
    · rw [f5, g3]
    · rw [freedPages_append, f2, g4]
      simp [freedPages]
    · rw [tablesFreed_append, f6.2, g5]
      simp [tablesFreed]
    · rw [f4, g2]
    · show List.Perm _ H
      simp only
      rw [f1, g1]
      exact foldl_erase_perm _ _ _ hU
  · have hH : os.held.Perm H := by
      rcases hinv with ⟨h1, _⟩ | ⟨_, h2⟩
      · exact absurd h1 hb
      · exact h2
    simp only [hb, Bool.false_eq_true, if_false, kfree]
    refine ⟨trivial, ?_, ?_, ?_, ?_, ?_⟩
    · rw [g3]; simp
    · rw [freedPages_append, g4]
      simp [freedPages]
    · rw [tablesFreed_append, g5]
      simp [tablesFreed]
    · rw [g2]
    · show List.Perm _ H
      simp only
      rw [g1]
      exact hH

/-- C23, witness: the two-page array that was locked once, units `100` and
`101` held. -/
theorem C23_finalize_witness :
    (wellFormed lockedOnce.d ∧ hasPagesInv [] lockedOnce.d lockedOnce.os)
    ∧ (PMRFinalizeOSMem samplePlatform plentyEnv lockedOnce.d lockedOnce.os).1
        = PVRSRV_ERROR.PVRSRV_OK
    ∧ noUnits [] (PMRFinalizeOSMem samplePlatform plentyEnv lockedOnce.d lockedOnce.os).2 :=
  have h : wellFormed lockedOnce.d ∧ hasPagesInv [] lockedOnce.d lockedOnce.os :=
    ⟨by decide, Or.inl ⟨by decide, by decide, by decide⟩⟩
  ⟨h, (C23_finalize samplePlatform plentyEnv lockedOnce.d lockedOnce.os [] h.1 h.2).1,
   (C23_finalize samplePlatform plentyEnv lockedOnce.d lockedOnce.os [] h.1 h.2).2.2.2.2.2⟩


/-- C24, counterexample.  The thread enters with `PF_DUMPCORE` (`0x200`) set
along with the flag `0x40`.  One allocation attempt of `_AllocOSPages`, with a
page (`plentyEnv`) or without one (`sampleEnv 0`), leaves the flag word `0x40`:
`EnableOOMKiller` clears the bit that `DisableOOMKiller` found set, so the word
after the bracket is not the word before it. -/
theorem C24_counterexample :
    samplePlatform.PF_DUMPCORE = 0x200 ∧ dumpcoreSet.flags = 0x240
    ∧ (DisableOOMKiller samplePlatform dumpcoreSet).flags = 0x240
    ∧ (EnableOOMKiller samplePlatform
        (alloc_pages plentyEnv false 0 (DisableOOMKiller samplePlatform dumpcoreSet)).2).flags
        = 0x40
    ∧ (EnableOOMKiller samplePlatform
        (alloc_pages (sampleEnv 0) false 0 (DisableOOMKiller samplePlatform dumpcoreSet)).2).flags
        = 0x40
    ∧ (_AllocOSPages samplePlatform plentyEnv (sampleArray 1 false 0x200) dumpcoreSet).map
        (fun r => (r.1, r.2.2.flags)) = some (PVRSRV_ERROR.PVRSRV_OK, 0x40)
    ∧ (_AllocOSPages samplePlatform (sampleEnv 0) (sampleArray 1 false 0x200) dumpcoreSet).map
        (fun r => (r.1, r.2.2.flags))
        = some (PVRSRV_ERROR.PVRSRV_ERROR_PMR_FAILED_TO_ALLOC_PAGES, 0x40) := by
  refine ⟨rfl, rfl, ?_, ?_, ?_, ?_, ?_⟩ <;> decide

/-- C24, amended (OOM-killer suppression).  For a 32-bit flag word and a
32-bit `PF_DUMPCORE`, in every allocation attempt of `_AllocOSPages`:
`alloc_pages` runs with the flag word `flags | PF_DUMPCORE`; after
`EnableOOMKiller`, and after the whole pass of the loop whether or not the
unit is kept, the flag word is `flags & ~PF_DUMPCORE`: every bit outside
`PF_DUMPCORE` is as before at each of these points, and the bits of
`PF_DUMPCORE` are clear afterwards.  So the word after the bracket equals the
word before it when `PF_DUMPCORE` was clear at entry.  A call of
`_AllocOSPages` that returns leaves the flag word as it was for an array of no
pages and `flags & ~PF_DUMPCORE` otherwise, on success and on failure. -/
theorem C24_oom_killer_bracket (K : Platform) (env : OSEnv) (uiOrder uiPageIndex : Nat)
    (d : _PMR_OSPAGEARRAY_DATA_) (os : OSState)
    (hp : K.PF_DUMPCORE < 2 ^ 32) (hf : os.flags < 2 ^ 32) :
    (alloc_pages env d.bZero uiOrder (DisableOOMKiller K os)).2.flags
        = os.flags ||| K.PF_DUMPCORE
    ∧ (EnableOOMKiller K (alloc_pages env d.bZero uiOrder (DisableOOMKiller K os)).2).flags
        = os.flags &&& (0xFFFFFFFF ^^^ K.PF_DUMPCORE)
    ∧ (allocUnit K env uiOrder uiPageIndex d os).2.flags
        = os.flags &&& (0xFFFFFFFF ^^^ K.PF_DUMPCORE)
    ∧ (∀ i, Nat.testBit K.PF_DUMPCORE i = false →
        Nat.testBit (os.flags ||| K.PF_DUMPCORE) i = Nat.testBit os.flags i
        ∧ Nat.testBit (os.flags &&& (0xFFFFFFFF ^^^ K.PF_DUMPCORE)) i = Nat.testBit os.flags i)
    ∧ (∀ i, Nat.testBit K.PF_DUMPCORE i = true →
        Nat.testBit (os.flags &&& (0xFFFFFFFF ^^^ K.PF_DUMPCORE)) i = false)
    ∧ (os.flags &&& K.PF_DUMPCORE = 0 →
        os.flags &&& (0xFFFFFFFF ^^^ K.PF_DUMPCORE) = os.flags)
    ∧ (∀ r, _AllocOSPages K env d os = some r →
        r.2.2.flags = if d.uiNumPages = 0 then os.flags
                      else os.flags &&& (0xFFFFFFFF ^^^ K.PF_DUMPCORE)) := by
  refine ⟨rfl, ?_, allocUnit_flags K env uiOrder uiPageIndex d os hp, ?_, ?_, ?_, ?_⟩
  · exact or_and_xor_mask _ _ hp
  · intro i hb
    exact ⟨by rw [Nat.testBit_or, hb, Bool.or_false], and_xor_mask_testBit _ _ _ hf hb⟩
  · intro i hb
    exact and_xor_mask_clear _ _ _ hp hb
  · intro hc
    exact and_xor_mask_of_clear _ _ hf hc
  · intro r hr
    exact allocLoop_flags K env _ hp _ _ _ _ _ hr

/-- C24, witness: a thread with the flag `0x40` set and `PF_DUMPCORE` clear,
an array of two pages. -/
theorem C24_oom_killer_bracket_witness :
    (samplePlatform.PF_DUMPCORE < 2 ^ 32
      ∧ ({ OSState.init with flags := 0x40 } : OSState).flags < 2 ^ 32)
    ∧ (allocUnit samplePlatform plentyEnv 0 0 (sampleArray 2 false 0x200)
        { OSState.init with flags := 0x40 }).2.flags
        = ({ OSState.init with flags := 0x40 } : OSState).flags
            &&& (0xFFFFFFFF ^^^ samplePlatform.PF_DUMPCORE) :=
  ⟨by decide,
   (C24_oom_killer_bracket samplePlatform plentyEnv 0 0 (sampleArray 2 false 0x200)
     { OSState.init with flags := 0x40 } (by decide) (by decide)).2.2.1⟩

/-- C25 (failed change of the cache attribute).  Let the first `k` passes of
the allocation loop of `_AllocOSPages` keep their units and let the change of
the cache attribute fail for unit `k`: `alloc_pages` returns a page that has a
kernel mapping, the mode of the array asks for `set_memory_uc` or
`set_memory_wc`, and that call returns non-zero.  Then `_AllocOSPages` returns
`PVRSRV_ERROR_PMR_FAILED_TO_ALLOC_PAGES`, `bHasOSPages` is as at entry, and the
driver holds the units it held at entry.  Its kernel calls are those of the
`k` passes that kept their unit, none of which frees a page; then the
allocation of unit `k`, the failed change, and the `__free_pages` of unit `k`;
then for the units `k-1` down to `0` a `set_memory_wb` on the mapping of the
unit followed by the `__free_pages` of the unit.  So every page of the call
is freed once.  And whenever `_AllocOSPages` returns `PVRSRV_OK`, for no unit
of the call did the change of the cache attribute fail. -/
theorem C25_cache_attribute_failure (K : Platform) (env : OSEnv)
    (d : _PMR_OSPAGEARRAY_DATA_) (os : OSState) (k : Nat)
    (hwf : wellFormed d) (hk : k < d.uiNumPages)
    (hpre : ∀ j, j < k → unitObtained K env d.ui32CPUCacheFlags (os.nAlloc + j) = true)
    (hfail : cacheFails K env d.ui32CPUCacheFlags (os.nAlloc + k)) :
    (∃ d1 os1, _AllocOSPages K env d os
        = some (PVRSRV_ERROR.PVRSRV_ERROR_PMR_FAILED_TO_ALLOC_PAGES, d1, os1)
      ∧ d1.bHasOSPages = d.bHasOSPages ∧ os1.held = os.held
      ∧ os1.log = os.log
          ++ (List.range k).flatMap (fun j =>
                keptUnitEvents K env d (sub32 d.uiLog2PageSize K.PAGE_SHIFT) (os.nAlloc + j))
          ++ failedUnitEvents K env d (sub32 d.uiLog2PageSize K.PAGE_SHIFT) (os.nAlloc + k)
          ++ ((List.range k).map (fun j => (env.alloc_pages (os.nAlloc + j)).page)).reverse.flatMap
                (revertUnitEvents env (sub32 d.uiLog2PageSize K.PAGE_SHIFT))
      ∧ freedPages os1.log = freedPages os.log
          ++ [(env.alloc_pages (os.nAlloc + k)).page]
          ++ ((List.range k).map (fun j => (env.alloc_pages (os.nAlloc + j)).page)).reverse)
    ∧ (∀ j, j < k →
        freedPages (keptUnitEvents K env d (sub32 d.uiLog2PageSize K.PAGE_SHIFT)
          (os.nAlloc + j)) = [])
    ∧ (∀ (os0 : OSState) (d2 : _PMR_OSPAGEARRAY_DATA_) (os2 : OSState),
        _AllocOSPages K env d os0 = some (PVRSRV_ERROR.PVRSRV_OK, d2, os2) →
        ∀ j, j < d.uiNumPages → ¬ cacheFails K env d.ui32CPUCacheFlags (os0.nAlloc + j)) := by
  refine ⟨?_, ?_, ?_⟩
  · obtain ⟨e, d1, os1, hrun, _, _, hres⟩ := AllocOSPages_spec K env d os hwf
    obtain ⟨he, hlog⟩ := allocLoop_cacheFail K env (sub32 d.uiLog2PageSize K.PAGE_SHIFT) k
      d.uiNumPages 0 d os [] hwf.1 hwf.2 (by omega) hk rfl (by simp) hpre hfail _ hrun
    simp only at he hlog
    subst he
    rcases hres with ⟨he, _⟩ | ⟨_, hhas, hheld, k1, hk1, hall, hbad, _, hfr⟩
    · cases he
    · have hkk : k1 = k := by
        rcases Nat.lt_trichotomy k1 k with h | h | h
        · have := hpre k1 h
          rw [hbad] at this
          cases this
        · exact h
        · have := hall k h
          rw [cacheFails_not_obtained K env _ _ hfail] at this
          cases this
      subst hkk
      refine ⟨d1, os1, hrun, hhas, hheld, ?_, ?_⟩
      · rw [hlog]
        simp only [List.append_nil]
      · rw [hfr, if_neg hfail.1]
  · intro j _
    unfold keptUnitEvents
    have hp : ∀ p, freedPages
        (poisonEvents K p (sub32 d.uiLog2PageSize K.PAGE_SHIFT) _AllocPoison _AllocPoisonSize)
        = [] := by
      intro p
      have := (PoisonPages_frame K p (sub32 d.uiLog2PageSize K.PAGE_SHIFT) _AllocPoison
        _AllocPoisonSize OSState.init).2.2.2.2.1
      simpa [poisonEvents, OSState.init, freedPages] using this
    simp only [freedPages_append]
    split_ifs <;> simp [freedPages, hp]
  · intro os0 d2 os2 hrun j hj hcf
    obtain ⟨e, d1, os1, hrun1, _, _, hres⟩ := AllocOSPages_spec K env d os0 hwf
    rw [hrun] at hrun1
    simp only [Option.some.injEq, Prod.mk.injEq] at hrun1
    obtain ⟨he, _, _⟩ := hrun1
    rcases hres with ⟨_, _, hall, _⟩ | ⟨he1, _⟩
    · have := hall j hj
      rw [cacheFails_not_obtained K env _ _ hcf] at this
      cases this
    · rw [← he] at he1
      cases he1

/-- C25, witness: an uncached array of three pages on a kernel whose
`set_memory_uc` fails for the third page. -/
theorem C25_cache_attribute_failure_witness :
    (wellFormed (sampleArray 3 false 0) ∧ 2 < (sampleArray 3 false 0).uiNumPages
      ∧ (∀ j, j < 2 → unitObtained samplePlatform cacheFailEnv
            (sampleArray 3 false 0).ui32CPUCacheFlags (OSState.init.nAlloc + j) = true)
      ∧ cacheFails samplePlatform cacheFailEnv (sampleArray 3 false 0).ui32CPUCacheFlags
          (OSState.init.nAlloc + 2))
    ∧ ∃ d1 os1, _AllocOSPages samplePlatform cacheFailEnv (sampleArray 3 false 0) OSState.init
        = some (PVRSRV_ERROR.PVRSRV_ERROR_PMR_FAILED_TO_ALLOC_PAGES, d1, os1)
      ∧ d1.bHasOSPages = false ∧ os1.held = []
      ∧ freedPages os1.log = [102, 101, 100] :=
  have h1 : wellFormed (sampleArray 3 false 0) := by decide
  have h2 : 2 < (sampleArray 3 false 0).uiNumPages := by decide
  have h3 : ∀ j, j < 2 → unitObtained samplePlatform cacheFailEnv
      (sampleArray 3 false 0).ui32CPUCacheFlags (OSState.init.nAlloc + j) = true := by decide
  have h4 : cacheFails samplePlatform cacheFailEnv (sampleArray 3 false 0).ui32CPUCacheFlags
      (OSState.init.nAlloc + 2) := ⟨by decide, by decide, Or.inl rfl, by decide⟩
  ⟨⟨h1, h2, h3, h4⟩,
   (C25_cache_attribute_failure samplePlatform cacheFailEnv (sampleArray 3 false 0)
      OSState.init 2 h1 h2 h3 h4).1.imp (fun _ h => h.imp (fun _ h =>
        ⟨h.1, h.2.1, h.2.2.1, h.2.2.2.2⟩))⟩

/-- C26 (sub-handle rollback in CreateHWRTData and CreateRenderContext).
On any collaborators and from any state (`subHandleUnwind`,
`parentHandleUnwind`): if a `PVRSRVAllocSubHandle` call of
`PVRSRVBridgeRGXCreateHWRTData` or of `PVRSRVBridgeRGXCreateRenderContext`
fails, for the first or for the second sub-handle, then it is the only one that
failed, the parent handle was allocated under the cleanup tag of the function,
`eError` is the error of the sub-handle allocation, and the cleanup releases
the parent handle, if it is not null, before it frees the registered item,
which it frees once, with no direct call of the destructor; if
`PVRSRVAllocHandle` for the parent fails, the cleanup releases a handle only if
the failed call left one in `hCleanupCookie`, and frees the item once.  On the
model of the handle registry and the resource manager, from a well-formed
state whose handles have their parents among the handles made so far: after a
failed sub-handle allocation the parent handle is not null, so it is released,
and the registry holds the handles it held before the call (the release
removes the parent and the sub-handle allocated under it); a failed
`PVRSRVAllocHandle` leaves a null handle, no release is attempted, and the
registry holds the handles it held before the call. -/
theorem C26_sub_handle_rollback {σ : Type} (S : Services σ) (s : σ) (B : BridgeConsts)
    (IN1 : PVRSRV_BRIDGE_IN_RGXCREATEHWRTDATA) (OUT1 : PVRSRV_BRIDGE_OUT_RGXCREATEHWRTDATA)
    (IN2 : PVRSRV_BRIDGE_IN_RGXCREATERENDERCONTEXT)
    (OUT2 : PVRSRV_BRIDGE_OUT_RGXCREATERENDERCONTEXT)
    (w : World) (hw : w.wellFormed) (hp : ∀ e ∈ w.handles, e.parent ≤ w.handlesMade) :
    (subHandleUnwind PVRSRV_HANDLE_TYPE.PVRSRV_HANDLE_TYPE_RGX_RTDATA_CLEANUP
          DomainFn.RGXDestroyHWRTData
          (PVRSRVBridgeRGXCreateHWRTData B S IN1 OUT1 s).1.eError
          (PVRSRVBridgeRGXCreateHWRTData B S IN1 OUT1 s).1.hCleanupCookie
          (PVRSRVBridgeRGXCreateHWRTData B S IN1 OUT1 s).2.calls
      ∧ parentHandleUnwind PVRSRV_HANDLE_TYPE.PVRSRV_HANDLE_TYPE_RGX_RTDATA_CLEANUP
          DomainFn.RGXDestroyHWRTData
          (PVRSRVBridgeRGXCreateHWRTData B S IN1 OUT1 s).1.eError
          (PVRSRVBridgeRGXCreateHWRTData B S IN1 OUT1 s).1.hCleanupCookie
          (PVRSRVBridgeRGXCreateHWRTData B S IN1 OUT1 s).2.calls)
    ∧ (subHandleUnwind PVRSRV_HANDLE_TYPE.PVRSRV_HANDLE_TYPE_RGX_RC_CLEANUP
          DomainFn.PVRSRVRGXDestroyRenderContextKM
          (PVRSRVBridgeRGXCreateRenderContext B S IN2 OUT2 s).1.eError
          (PVRSRVBridgeRGXCreateRenderContext B S IN2 OUT2 s).1.hCleanupCookie
          (PVRSRVBridgeRGXCreateRenderContext B S IN2 OUT2 s).2.calls
      ∧ parentHandleUnwind PVRSRV_HANDLE_TYPE.PVRSRV_HANDLE_TYPE_RGX_RC_CLEANUP
          DomainFn.PVRSRVRGXDestroyRenderContextKM
          (PVRSRVBridgeRGXCreateRenderContext B S IN2 OUT2 s).1.eError
          (PVRSRVBridgeRGXCreateRenderContext B S IN2 OUT2 s).1.hCleanupCookie
          (PVRSRVBridgeRGXCreateRenderContext B S IN2 OUT2 s).2.calls)
    ∧ ((∀ e rest,
          failedSubAllocs (PVRSRVBridgeRGXCreateHWRTData B specServices IN1 OUT1 w).2.calls
            = e :: rest →
          (PVRSRVBridgeRGXCreateHWRTData B specServices IN1 OUT1 w).1.hCleanupCookie ≠ 0
          ∧ (PVRSRVBridgeRGXCreateHWRTData B specServices IN1 OUT1 w).2.s.handles
              = w.handles)
      ∧ (∀ t e h,
          parentAllocs (PVRSRVBridgeRGXCreateHWRTData B specServices IN1 OUT1 w).2.calls
            = [(t, e, h)] →
          e ≠ PVRSRV_ERROR.PVRSRV_OK →
          h = 0
          ∧ (∀ h1 t1, UnwindStep.release h1 t1 ∉ unwindSteps
              (PVRSRVBridgeRGXCreateHWRTData B specServices IN1 OUT1 w).2.calls)
          ∧ (PVRSRVBridgeRGXCreateHWRTData B specServices IN1 OUT1 w).2.s.handles
              = w.handles))
    ∧ ((∀ e rest,
          failedSubAllocs (PVRSRVBridgeRGXCreateRenderContext B specServices IN2 OUT2 w).2.calls
            = e :: rest →
          (PVRSRVBridgeRGXCreateRenderContext B specServices IN2 OUT2 w).1.hCleanupCookie ≠ 0
          ∧ (PVRSRVBridgeRGXCreateRenderContext B specServices IN2 OUT2 w).2.s.handles
              = w.handles)
      ∧ (∀ t e h,
          parentAllocs (PVRSRVBridgeRGXCreateRenderContext B specServices IN2 OUT2 w).2.calls
            = [(t, e, h)] →
          e ≠ PVRSRV_ERROR.PVRSRV_OK →
          h = 0
          ∧ (∀ h1 t1, UnwindStep.release h1 t1 ∉ unwindSteps
              (PVRSRVBridgeRGXCreateRenderContext B specServices IN2 OUT2 w).2.calls)
          ∧ (PVRSRVBridgeRGXCreateRenderContext B specServices IN2 OUT2 w).2.s.handles
              = w.handles)) :=
  ⟨RGXCreateHWRTData_handle_unwind S s B IN1 OUT1,
   RGXCreateRenderContext_handle_unwind S s B IN2 OUT2,
   RGXCreateHWRTData_handle_rollback w B IN1 OUT1 hw hp,
   RGXCreateRenderContext_handle_rollback w B IN2 OUT2 hw hp⟩

theorem C26_sub_handle_rollback_witness :
    (roomWorld 2).wellFormed
    ∧ (∀ e ∈ (roomWorld 2).handles, e.parent ≤ (roomWorld 2).handlesMade)
    ∧ failedSubAllocs (PVRSRVBridgeRGXCreateHWRTData sampleConsts
        specServices sampleHWRTDataIN sampleHWRTDataOUT (roomWorld 2)).2.calls
        = [PVRSRV_ERROR.PVRSRV_ERROR_OUT_OF_MEMORY]
    ∧ failedSubAllocs (PVRSRVBridgeRGXCreateRenderContext sampleConsts
        specServices sampleRenderContextIN sampleRenderContextOUT (roomWorld 2)).2.calls
        = [PVRSRV_ERROR.PVRSRV_ERROR_OUT_OF_MEMORY]
    ∧ parentAllocs (PVRSRVBridgeRGXCreateRenderContext sampleConsts
        specServices sampleRenderContextIN sampleRenderContextOUT (roomWorld 0)).2.calls
        = [(PVRSRV_HANDLE_TYPE.PVRSRV_HANDLE_TYPE_RGX_RC_CLEANUP,
            PVRSRV_ERROR.PVRSRV_ERROR_OUT_OF_MEMORY, 0)]
    ∧ ((subHandleUnwind PVRSRV_HANDLE_TYPE.PVRSRV_HANDLE_TYPE_RGX_RTDATA_CLEANUP
          DomainFn.RGXDestroyHWRTData
          (PVRSRVBridgeRGXCreateHWRTData sampleConsts
              specServices sampleHWRTDataIN sampleHWRTDataOUT (roomWorld 2)).1.eError
          (PVRSRVBridgeRGXCreateHWRTData sampleConsts
              specServices sampleHWRTDataIN sampleHWRTDataOUT (roomWorld 2)).1.hCleanupCookie
          (PVRSRVBridgeRGXCreateHWRTData sampleConsts
              specServices sampleHWRTDataIN sampleHWRTDataOUT (roomWorld 2)).2.calls
      ∧ parentHandleUnwind PVRSRV_HANDLE_TYPE.PVRSRV_HANDLE_TYPE_RGX_RTDATA_CLEANUP
          DomainFn.RGXDestroyHWRTData
          (PVRSRVBridgeRGXCreateHWRTData sampleConsts
              specServices sampleHWRTDataIN sampleHWRTDataOUT (roomWorld 2)).1.eError
          (PVRSRVBridgeRGXCreateHWRTData sampleConsts
              specServices sampleHWRTDataIN sampleHWRTDataOUT (roomWorld 2)).1.hCleanupCookie
          (PVRSRVBridgeRGXCreateHWRTData sampleConsts
              specServices sampleHWRTDataIN sampleHWRTDataOUT (roomWorld 2)).2.calls)
    ∧ (subHandleUnwind PVRSRV_HANDLE_TYPE.PVRSRV_HANDLE_TYPE_RGX_RC_CLEANUP
          DomainFn.PVRSRVRGXDestroyRenderContextKM
          (PVRSRVBridgeRGXCreateRenderContext sampleConsts
              specServices sampleRenderContextIN sampleRenderContextOUT (roomWorld 2)).1.eError
          (PVRSRVBridgeRGXCreateRenderContext sampleConsts
              specServices sampleRenderContextIN sampleRenderContextOUT (roomWorld 2)).1.hCleanupCookie
          (PVRSRVBridgeRGXCreateRenderContext sampleConsts
              specServices sampleRenderContextIN sampleRenderContextOUT (roomWorld 2)).2.calls
      ∧ parentHandleUnwind PVRSRV_HANDLE_TYPE.PVRSRV_HANDLE_TYPE_RGX_RC_CLEANUP
          DomainFn.PVRSRVRGXDestroyRenderContextKM
          (PVRSRVBridgeRGXCreateRenderContext sampleConsts
              specServices sampleRenderContextIN sampleRenderContextOUT (roomWorld 2)).1.eError
          (PVRSRVBridgeRGXCreateRenderContext sampleConsts
              specServices sampleRenderContextIN sampleRenderContextOUT (roomWorld 2)).1.hCleanupCookie
          (PVRSRVBridgeRGXCreateRenderContext sampleConsts
              specServices sampleRenderContextIN sampleRenderContextOUT (roomWorld 2)).2.calls)
    ∧ ((∀ e rest,
          failedSubAllocs (PVRSRVBridgeRGXCreateHWRTData sampleConsts
              specServices sampleHWRTDataIN sampleHWRTDataOUT (roomWorld 2)).2.calls
            = e :: rest →
          (PVRSRVBridgeRGXCreateHWRTData sampleConsts
              specServices sampleHWRTDataIN sampleHWRTDataOUT (roomWorld 2)).1.hCleanupCookie ≠ 0
          ∧ (PVRSRVBridgeRGXCreateHWRTData sampleConsts
              specServices sampleHWRTDataIN sampleHWRTDataOUT (roomWorld 2)).2.s.handles
              = (roomWorld 2).handles)
      ∧ (∀ t e h,
          parentAllocs (PVRSRVBridgeRGXCreateHWRTData sampleConsts
              specServices sampleHWRTDataIN sampleHWRTDataOUT (roomWorld 2)).2.calls
            = [(t, e, h)] →
          e ≠ PVRSRV_ERROR.PVRSRV_OK →
          h = 0
          ∧ (∀ h1 t1, UnwindStep.release h1 t1 ∉ unwindSteps
              (PVRSRVBridgeRGXCreateHWRTData sampleConsts
                  specServices sampleHWRTDataIN sampleHWRTDataOUT (roomWorld 2)).2.calls)
          ∧ (PVRSRVBridgeRGXCreateHWRTData sampleConsts
              specServices sampleHWRTDataIN sampleHWRTDataOUT (roomWorld 2)).2.s.handles
              = (roomWorld 2).handles))
    ∧ ((∀ e rest,
          failedSubAllocs (PVRSRVBridgeRGXCreateRenderContext sampleConsts
              specServices sampleRenderContextIN sampleRenderContextOUT (roomWorld 2)).2.calls
            = e :: rest →
          (PVRSRVBridgeRGXCreateRenderContext sampleConsts
              specServices sampleRenderContextIN sampleRenderContextOUT (roomWorld 2)).1.hCleanupCookie ≠ 0
          ∧ (PVRSRVBridgeRGXCreateRenderContext sampleConsts
              specServices sampleRenderContextIN sampleRenderContextOUT (roomWorld 2)).2.s.handles
              = (roomWorld 2).handles)
      ∧ (∀ t e h,
          parentAllocs (PVRSRVBridgeRGXCreateRenderContext sampleConsts
              specServices sampleRenderContextIN sampleRenderContextOUT (roomWorld 2)).2.calls
            = [(t, e, h)] →
          e ≠ PVRSRV_ERROR.PVRSRV_OK →
          h = 0
          ∧ (∀ h1 t1, UnwindStep.release h1 t1 ∉ unwindSteps
              (PVRSRVBridgeRGXCreateRenderContext sampleConsts
                  specServices sampleRenderContextIN sampleRenderContextOUT (roomWorld 2)).2.calls)
          ∧ (PVRSRVBridgeRGXCreateRenderContext sampleConsts
              specServices sampleRenderContextIN sampleRenderContextOUT (roomWorld 2)).2.s.handles
              = (roomWorld 2).handles))) :=
  ⟨by decide, by decide, by decide, by decide, by decide,
   C26_sub_handle_rollback specServices (roomWorld 2) sampleConsts sampleHWRTDataIN
     sampleHWRTDataOUT sampleRenderContextIN sampleRenderContextOUT (roomWorld 2) (by decide)
     (by decide)⟩

/-- C27 (poison fill).  For a unit of order `uiOrder < 32` and a pattern of
`uiPoisonSize` bytes (`0 < uiPoisonSize < 2^32`), `_PoisonPages` writes the
`2^uiOrder` sub-pages of the unit in turn, and the byte at offset `j` of
sub-page `i` is byte `(i * PAGE_SIZE + j) mod uiPoisonSize` of the pattern: the
phase goes on across sub-pages.  Nothing else of the kernel state changes.
The alloc-time pattern is the 7 bytes `^PoIsOn`, the free-time pattern the 11
bytes `<DEAD-BEEF>`; they differ, the declared sizes are the string lengths,
and the NUL that ends each string, at the index `uiPoisonSize`, is no byte of
either pattern, so it is never written. -/
theorem C27_poison_fill (K : Platform) (page uiOrder : Nat) (pacPoisonData : List Nat)
    (uiPoisonSize : Nat) (os : OSState) (ho : uiOrder < 32) (hp : K.PAGE_SHIFT < 32)
    (hs : 0 < uiPoisonSize) (h32 : uiPoisonSize < 2 ^ 32) :
    _PoisonPages K page uiOrder pacPoisonData uiPoisonSize os
      = { os with log := os.log ++ (List.range (2 ^ uiOrder)).map (fun i =>
            OSEvent.page_write (page + i) (patternPage K pacPoisonData uiPoisonSize i)) }
    ∧ (∀ i j, j < K.PAGE_SIZE →
        (patternPage K pacPoisonData uiPoisonSize i).getD j 0
          = pacPoisonData.getD ((i * K.PAGE_SIZE + j) % uiPoisonSize) 0)
    ∧ (∀ i, (patternPage K pacPoisonData uiPoisonSize i).length = K.PAGE_SIZE)
    ∧ _AllocPoison = [94, 80, 111, 73, 115, 79, 110, 0] ∧ _AllocPoisonSize = 7
    ∧ _FreePoison = [60, 68, 69, 65, 68, 45, 66, 69, 69, 70, 62, 0] ∧ _FreePoisonSize = 11
    ∧ _AllocPoison.take _AllocPoisonSize ≠ _FreePoison.take _FreePoisonSize
    ∧ (∀ j, patternByte _AllocPoison _AllocPoisonSize j ≠ 0)
    ∧ (∀ j, patternByte _FreePoison _FreePoisonSize j ≠ 0) := by
  refine ⟨?_, ?_, ?_, rfl, rfl, rfl, rfl, by decide, ?_, ?_⟩
  · have hl := poisonSubPages_closed K page pacPoisonData uiPoisonSize hs h32
      (u32 (1 <<< uiOrder)) 0 os
    have hm : u32 (1 <<< uiOrder) = 2 ^ uiOrder := by
      unfold u32
      rw [Nat.one_shiftLeft]
      exact Nat.mod_eq_of_lt (Nat.pow_lt_pow_right (by norm_num) ho)
    have hf := PoisonPages_log K page uiOrder pacPoisonData uiPoisonSize os
    rw [hf]
    unfold _PoisonPages at hl
    simp only [Nat.zero_mul, Nat.zero_mod, Nat.zero_add] at hl
    have hf2 := PoisonPages_log K page uiOrder pacPoisonData uiPoisonSize os
    unfold _PoisonPages at hf2
    rw [hf2, hm] at hl
    simp only [List.append_cancel_left_eq] at hl
    rw [hl]
  · intro i j hj
    unfold patternPage patternByte
    rw [List.getD_eq_getElem?_getD, List.getElem?_map, List.getElem?_range hj]
    rfl
  · intro i
    simp [patternPage]
  · intro j
    unfold patternByte
    have : j % _AllocPoisonSize < 7 := Nat.mod_lt _ (by decide)
    generalize j % _AllocPoisonSize = r at this
    interval_cases r <;> decide
  · intro j
    unfold patternByte
    have : j % _FreePoisonSize < 11 := Nat.mod_lt _ (by decide)
    generalize j % _FreePoisonSize = r at this
    interval_cases r <;> decide

/-- C27, witness: the alloc-time pattern on a single page of `samplePlatform`. -/
theorem C27_poison_fill_witness :
    (0 < 32 ∧ samplePlatform.PAGE_SHIFT < 32 ∧ 0 < _AllocPoisonSize ∧ _AllocPoisonSize < 2 ^ 32)
    ∧ _PoisonPages samplePlatform 100 0 _AllocPoison _AllocPoisonSize OSState.init
        = { OSState.init with log := OSState.init.log ++ (List.range (2 ^ 0)).map (fun i =>
              OSEvent.page_write (100 + i)
                (patternPage samplePlatform _AllocPoison _AllocPoisonSize i)) } :=
  ⟨by decide,
   (C27_poison_fill samplePlatform 100 0 _AllocPoison _AllocPoisonSize OSState.init
     (by decide) (by decide) (by decide) (by decide)).1⟩


/-- C28 (factory postcondition).  For page-size shifts below 64,
`PhysmemNewOSRamBackedPMR` returns.  When it returns `PVRSRV_OK`, the page
array it created is well formed, `bOnDemand` tells whether
`NO_OSPAGES_ON_ALLOC` is set, and `bHasOSPages` is its negation: true and the
units of the slots held for an eager array, false and no unit held for an
on-demand array; the table is among the tables held.  When it returns an
error, whatever the step that failed, no PMR is written, the driver holds the
page units it held before the call and the tables it held before the call,
and the table of the call, if `kmalloc` returned one, was given to `kfree`
once: the tables made and the tables freed by the call are the same list, of
at most one table. -/
theorem C28_factory_postcondition (K : Platform) (env : OSEnv)
    (uiSize uiChunkSize ui32NumPhysChunks ui32NumVirtChunks uiLog2PageSize uiFlags : Nat)
    (os : OSState) (hL : max K.PAGE_SHIFT uiLog2PageSize < 64) :
    ∃ e r os1, PhysmemNewOSRamBackedPMR K env uiSize uiChunkSize ui32NumPhysChunks
        ui32NumVirtChunks uiLog2PageSize uiFlags os = some (e, r, os1)
      ∧ ((e = PVRSRV_ERROR.PVRSRV_OK
          ∧ ∃ p, r = some p ∧ wellFormed p.psPrivData
            ∧ p.psPrivData.bOnDemand
                = decide (uiFlags &&& K.PVRSRV_MEMALLOCFLAG_NO_OSPAGES_ON_ALLOC > 0)
            ∧ p.psPrivData.bHasOSPages = !p.psPrivData.bOnDemand
            ∧ hasPagesInv os.held p.psPrivData os1
            ∧ os1.tables = p.psPrivData.addr :: os.tables
            ∧ tablesMade os1.log = tablesMade os.log ++ [p.psPrivData.addr]
            ∧ tablesFreed os1.log = tablesFreed os.log)
        ∨ (e ≠ PVRSRV_ERROR.PVRSRV_OK ∧ r = none ∧ noUnits os.held os1
          ∧ os1.tables = os.tables
          ∧ ∃ T : List Nat, T.length ≤ 1 ∧ tablesMade os1.log = tablesMade os.log ++ T
              ∧ tablesFreed os1.log = tablesFreed os.log ++ T)) :=
  NewOSAllocPagesPMR_post K env uiSize uiChunkSize ui32NumPhysChunks ui32NumVirtChunks
    uiLog2PageSize uiFlags os

/-- C28, witness: an eager request for two pages on a kernel whose second
`alloc_pages` call fails. -/
theorem C28_factory_postcondition_witness :
    max samplePlatform.PAGE_SHIFT 12 < 64
    ∧ ∃ e r os1, PhysmemNewOSRamBackedPMR samplePlatform (sampleEnv 1) 8192 8192 1 1 12 0x200
          OSState.init = some (e, r, os1)
        ∧ ((e = PVRSRV_ERROR.PVRSRV_OK
            ∧ ∃ p, r = some p ∧ wellFormed p.psPrivData
              ∧ p.psPrivData.bOnDemand
                  = decide (0x200 &&& samplePlatform.PVRSRV_MEMALLOCFLAG_NO_OSPAGES_ON_ALLOC > 0)
              ∧ p.psPrivData.bHasOSPages = !p.psPrivData.bOnDemand
              ∧ hasPagesInv OSState.init.held p.psPrivData os1
              ∧ os1.tables = p.psPrivData.addr :: OSState.init.tables
              ∧ tablesMade os1.log = tablesMade OSState.init.log ++ [p.psPrivData.addr]
              ∧ tablesFreed os1.log = tablesFreed OSState.init.log)
          ∨ (e ≠ PVRSRV_ERROR.PVRSRV_OK ∧ r = none ∧ noUnits OSState.init.held os1
            ∧ os1.tables = OSState.init.tables
            ∧ ∃ T : List Nat, T.length ≤ 1
                ∧ tablesMade os1.log = tablesMade OSState.init.log ++ T
                ∧ tablesFreed os1.log = tablesFreed OSState.init.log ++ T)) :=
  ⟨by decide,
   C28_factory_postcondition samplePlatform (sampleEnv 1) 8192 8192 1 1 12 0x200 OSState.init
     (by decide)⟩


/-- C29, the code at the failing input.  With `uiChunkSize = 2^52 + 1` (a
64-bit value) and `ui32NumPhysChunks = 4096` (a 32-bit value) the product is
`2^64 + 4096`, far above 64 GiB; the 64-bit multiplication in
`_NewOSAllocPagesPMR` leaves `4096`, which passes the size test of
`_AllocOSPageArray`, and `PhysmemNewOSRamBackedPMR` returns `PVRSRV_OK` with a
page array of one page. -/
theorem C29_product_wraps_past_limit :
    2 ^ 52 + 1 < 2 ^ 64 ∧ 4096 < 2 ^ 32
    ∧ 0x1000000000 ≤ (2 ^ 52 + 1) * 4096
    ∧ u64 ((2 ^ 52 + 1) * 4096) = 4096
    ∧ (PhysmemNewOSRamBackedPMR samplePlatform plentyEnv 4096 (2 ^ 52 + 1) 4096 4096 12 0
          OSState.init).map (fun r => r.1) = some PVRSRV_ERROR.PVRSRV_OK
    ∧ (PhysmemNewOSRamBackedPMR samplePlatform plentyEnv 4096 (2 ^ 52 + 1) 4096 4096 12 0
          OSState.init).map (fun r => r.2.1.map (fun p => p.psPrivData.uiNumPages))
        = some (some 1)
    ∧ (PhysmemNewOSRamBackedPMR samplePlatform plentyEnv 4096 (2 ^ 52 + 1) 4096 4096 12 0
          OSState.init).map (fun r => r.2.2.held) = some [100] := by
  refine ⟨by norm_num, by norm_num, by norm_num, by decide, ?_, ?_, ?_⟩ <;> decide

/-- C30 (create/destroy round trip).  For a request `req` to any of the six
create functions (HWRTData, RenderTarget, ZSBuffer, ZS population, FreeList,
RenderContext), on any collaborators and from any state: every
`PVRSRVAllocHandle` call of the create function is under the tag
`req.handleType` of the resource kind and leaves the handle that the function
returns, and a create that returns `PVRSRV_OK` made exactly one such
allocation; the matching destroy function looks up the handle it is given under
that same tag, looks up no other handle, and releases no handle but that one,
under that tag; the functions that use a handle of one of the kinds look it up
under the tag of the kind (`PVRSRVBridgeRGXPopulateZSBuffer` the ZS buffer,
`PVRSRVBridgeRGXAddBlockToFreeList` and
`PVRSRVBridgeRGXRemoveBlockFromFreeList` the free list,
`PVRSRVBridgeRGXKickTA3D` the render-target data and the Z and S buffers,
`PVRSRVBridgeRGXCreateHWRTData` the free lists).  Hence, on the model of the
handle registry and the resource manager, from a well-formed state whose
handles have their parents among the handles made so far and in which the
destructor of the new object answers `PVRSRV_OK`: a create that returns
`PVRSRV_OK`, followed by the matching destroy on the returned handle, gives
`eError = PVRSRV_OK`; the create runs no destructor and the destroy runs the
destructor of the kind once, on the new object; and the handle registry and the
set of resource manager items are what they were before the create. -/
theorem C30_create_destroy_round_trip {σ : Type} (S : Services σ) (s : σ)
    (req : CreateRequest) (w : World) (hw : w.wellFormed)
    (hp : ∀ e ∈ w.handles, e.parent ≤ w.handlesMade)
    (hfree : w.objectsMade + 1 ∉ w.dependents)
    (hok : (req.exec specServices w).1.1 = PVRSRV_ERROR.PVRSRV_OK) :
    ((∀ x ∈ parentAllocs (req.exec S s).2.calls,
        x.1 = req.handleType ∧ x.2.2 = (req.exec S s).1.2)
      ∧ ((req.exec S s).1.1 = PVRSRV_ERROR.PVRSRV_OK →
          parentAllocs (req.exec S s).2.calls
            = [(req.handleType, PVRSRV_ERROR.PVRSRV_OK, (req.exec S s).1.2)]))
    ∧ (∀ h,
        DestroyRequest.handle (req.destroyRequest h) = h
        ∧ DestroyRequest.handleType (req.destroyRequest h) = req.handleType
        ∧ handleLookups (DestroyRequest.run S s (req.destroyRequest h)).2.calls
            = [(h, req.handleType)]
        ∧ (∀ x ∈ unwindSteps (DestroyRequest.run S s (req.destroyRequest h)).2.calls,
            ∀ h1 t1, x = UnwindStep.release h1 t1 → h1 = h ∧ t1 = req.handleType))
    ∧ ((∀ IN OUT0, handleLookups (PVRSRVBridgeRGXPopulateZSBuffer S IN OUT0 s).2.calls
          = [(IN.hsZSBufferKM, PVRSRV_HANDLE_TYPE.PVRSRV_HANDLE_TYPE_RGX_FWIF_ZSBUFFER)])
      ∧ (∀ IN OUT0, handleLookups (PVRSRVBridgeRGXAddBlockToFreeList S IN OUT0 s).2.calls
          = [(IN.hsFreeList, PVRSRV_HANDLE_TYPE.PVRSRV_HANDLE_TYPE_RGX_FREELIST)])
      ∧ (∀ IN OUT0,
          handleLookups (PVRSRVBridgeRGXRemoveBlockFromFreeList S IN OUT0 s).2.calls
          = [(IN.hsFreeList, PVRSRV_HANDLE_TYPE.PVRSRV_HANDLE_TYPE_RGX_FREELIST)])
      ∧ (∀ IN OUT0, ∀ x ∈ handleLookups (PVRSRVBridgeRGXKickTA3D S IN OUT0 s).2.calls,
          x ∈ [(IN.hDevNode, PVRSRV_HANDLE_TYPE.PVRSRV_HANDLE_TYPE_DEV_NODE),
               (IN.hFWRenderContext, PVRSRV_HANDLE_TYPE.PVRSRV_HANDLE_TYPE_RGX_FW_MEMDESC),
               (IN.hRTDataCleanup, PVRSRV_HANDLE_TYPE.PVRSRV_HANDLE_TYPE_RGX_RTDATA_CLEANUP),
               (IN.hZBuffer, PVRSRV_HANDLE_TYPE.PVRSRV_HANDLE_TYPE_RGX_FWIF_ZSBUFFER),
               (IN.hSBuffer, PVRSRV_HANDLE_TYPE.PVRSRV_HANDLE_TYPE_RGX_FWIF_ZSBUFFER)])
      ∧ (∀ B IN OUT0, Conn.lookupsAmong
          (fun x => x = (IN.hDevNode, PVRSRV_HANDLE_TYPE.PVRSRV_HANDLE_TYPE_DEV_NODE)
            ∨ x.2 = PVRSRV_HANDLE_TYPE.PVRSRV_HANDLE_TYPE_RGX_FREELIST)
          (PVRSRVBridgeRGXCreateHWRTData B S IN OUT0 s).2))
    ∧ ((req.exec specServices w).2.s.destructorRuns = w.destructorRuns
      ∧ (DestroyRequest.run specServices (req.exec specServices w).2.s
          (req.destroyRequest (req.exec specServices w).1.2)).1 = PVRSRV_ERROR.PVRSRV_OK
      ∧ (DestroyRequest.run specServices (req.exec specServices w).2.s
          (req.destroyRequest (req.exec specServices w).1.2)).2.s.handles = w.handles
      ∧ (DestroyRequest.run specServices (req.exec specServices w).2.s
          (req.destroyRequest (req.exec specServices w).1.2)).2.s.items = w.items
      ∧ (DestroyRequest.run specServices (req.exec specServices w).2.s
          (req.destroyRequest (req.exec specServices w).1.2)).2.s.destructorRuns
          = w.destructorRuns
            ++ [(req.destroyFn, w.objectsMade + 1, PVRSRV_ERROR.PVRSRV_OK)]) :=
  ⟨CreateRequest.exec_tag S s req,
   fun h => CreateRequest.destroy_tag S s req h,
   ⟨fun IN OUT0 => RGXPopulateZSBuffer_lookups S s IN OUT0,
    fun IN OUT0 => RGXAddBlockToFreeList_lookups S s IN OUT0,
    fun IN OUT0 => RGXRemoveBlockFromFreeList_lookups S s IN OUT0,
    fun IN OUT0 => RGXKickTA3D_lookups S s IN OUT0,
    fun B IN OUT0 => RGXCreateHWRTData_lookups S s B IN OUT0⟩,
   CreateRequest.roundtrip req w hw hp hfree hok⟩

theorem C30_create_destroy_round_trip_witness :
    (roomWorld 3).wellFormed
    ∧ (∀ e ∈ (roomWorld 3).handles, e.parent ≤ (roomWorld 3).handlesMade)
    ∧ (roomWorld 3).objectsMade + 1 ∉ (roomWorld 3).dependents
    ∧ (sampleRenderContextRequest.exec specServices (roomWorld 3)).1
        = (PVRSRV_ERROR.PVRSRV_OK, 6)
    ∧ (sampleRenderContextRequest.exec specServices (roomWorld 3)).2.s.handles.length = 8
    ∧ (sampleRenderContextRequest.exec specServices (roomWorld 3)).1.1 = PVRSRV_ERROR.PVRSRV_OK
    ∧ (((∀ x ∈ parentAllocs (sampleRenderContextRequest.exec specServices (roomWorld 3)).2.calls,
        x.1 = sampleRenderContextRequest.handleType ∧ x.2.2 = (sampleRenderContextRequest.exec
            specServices (roomWorld 3)).1.2)
      ∧ ((sampleRenderContextRequest.exec specServices (roomWorld 3)).1.1 = PVRSRV_ERROR.PVRSRV_OK →
          parentAllocs (sampleRenderContextRequest.exec specServices (roomWorld 3)).2.calls
            = [(sampleRenderContextRequest.handleType, PVRSRV_ERROR.PVRSRV_OK,
                (sampleRenderContextRequest.exec specServices (roomWorld 3)).1.2)]))
    ∧ (∀ h,
        DestroyRequest.handle (sampleRenderContextRequest.destroyRequest h) = h
        ∧ DestroyRequest.handleType (sampleRenderContextRequest.destroyRequest h) =
            sampleRenderContextRequest.handleType
        ∧ handleLookups (DestroyRequest.run specServices (roomWorld 3)
            (sampleRenderContextRequest.destroyRequest h)).2.calls
            = [(h, sampleRenderContextRequest.handleType)]
        ∧ (∀ x ∈ unwindSteps (DestroyRequest.run specServices (roomWorld 3)
            (sampleRenderContextRequest.destroyRequest h)).2.calls,
            ∀ h1 t1, x = UnwindStep.release h1 t1 → h1 = h ∧ t1 =
                sampleRenderContextRequest.handleType))
    ∧ ((∀ IN OUT0, handleLookups (PVRSRVBridgeRGXPopulateZSBuffer specServices IN OUT0 (roomWorld
        3)).2.calls
          = [(IN.hsZSBufferKM, PVRSRV_HANDLE_TYPE.PVRSRV_HANDLE_TYPE_RGX_FWIF_ZSBUFFER)])
      ∧ (∀ IN OUT0, handleLookups (PVRSRVBridgeRGXAddBlockToFreeList specServices IN OUT0
          (roomWorld 3)).2.calls
          = [(IN.hsFreeList, PVRSRV_HANDLE_TYPE.PVRSRV_HANDLE_TYPE_RGX_FREELIST)])
      ∧ (∀ IN OUT0,
          handleLookups (PVRSRVBridgeRGXRemoveBlockFromFreeList specServices IN OUT0 (roomWorld
              3)).2.calls
          = [(IN.hsFreeList, PVRSRV_HANDLE_TYPE.PVRSRV_HANDLE_TYPE_RGX_FREELIST)])
      ∧ (∀ IN OUT0, ∀ x ∈ handleLookups (PVRSRVBridgeRGXKickTA3D specServices IN OUT0 (roomWorld
          3)).2.calls,
          x ∈ [(IN.hDevNode, PVRSRV_HANDLE_TYPE.PVRSRV_HANDLE_TYPE_DEV_NODE),
               (IN.hFWRenderContext, PVRSRV_HANDLE_TYPE.PVRSRV_HANDLE_TYPE_RGX_FW_MEMDESC),
               (IN.hRTDataCleanup, PVRSRV_HANDLE_TYPE.PVRSRV_HANDLE_TYPE_RGX_RTDATA_CLEANUP),
               (IN.hZBuffer, PVRSRV_HANDLE_TYPE.PVRSRV_HANDLE_TYPE_RGX_FWIF_ZSBUFFER),
               (IN.hSBuffer, PVRSRV_HANDLE_TYPE.PVRSRV_HANDLE_TYPE_RGX_FWIF_ZSBUFFER)])
      ∧ (∀ B IN OUT0, Conn.lookupsAmong
          (fun x => x = (IN.hDevNode, PVRSRV_HANDLE_TYPE.PVRSRV_HANDLE_TYPE_DEV_NODE)
            ∨ x.2 = PVRSRV_HANDLE_TYPE.PVRSRV_HANDLE_TYPE_RGX_FREELIST)
          (PVRSRVBridgeRGXCreateHWRTData B specServices IN OUT0 (roomWorld 3)).2))
    ∧ ((sampleRenderContextRequest.exec specServices (roomWorld 3)).2.s.destructorRuns = (roomWorld
        3).destructorRuns
      ∧ (DestroyRequest.run specServices (sampleRenderContextRequest.exec specServices (roomWorld
          3)).2.s
          (sampleRenderContextRequest.destroyRequest (sampleRenderContextRequest.exec specServices
              (roomWorld 3)).1.2)).1 = PVRSRV_ERROR.PVRSRV_OK
      ∧ (DestroyRequest.run specServices (sampleRenderContextRequest.exec specServices (roomWorld
          3)).2.s
          (sampleRenderContextRequest.destroyRequest (sampleRenderContextRequest.exec specServices
              (roomWorld 3)).1.2)).2.s.handles = (roomWorld 3).handles
      ∧ (DestroyRequest.run specServices (sampleRenderContextRequest.exec specServices (roomWorld
          3)).2.s
          (sampleRenderContextRequest.destroyRequest (sampleRenderContextRequest.exec specServices
              (roomWorld 3)).1.2)).2.s.items = (roomWorld 3).items
      ∧ (DestroyRequest.run specServices (sampleRenderContextRequest.exec specServices (roomWorld
          3)).2.s
          (sampleRenderContextRequest.destroyRequest (sampleRenderContextRequest.exec specServices
              (roomWorld 3)).1.2)).2.s.destructorRuns
          = (roomWorld 3).destructorRuns
            ++ [(sampleRenderContextRequest.destroyFn, (roomWorld 3).objectsMade + 1,
                PVRSRV_ERROR.PVRSRV_OK)])) :=
  ⟨by decide, by decide, by decide, by decide, by decide, by decide,
   C30_create_destroy_round_trip specServices (roomWorld 3) sampleRenderContextRequest
     (roomWorld 3) (by decide) (by decide) (by decide) (by decide)⟩

end PVR
